import Mathlib

/-!
# dendulator: a shallow embedding of the NES core

The C sources under `src/` are translated function by function.  Conventions:

* every C integer is a `Nat`; a field of type `uintN_t` holds a value below
  `2^N`, and every assignment that truncates in C reduces modulo `2^N` here;
* a C function `f(nes_t *nes, ...)` that mutates the machine becomes a function
  returning the new `nes_t`; when it also returns a value the result is the
  pair `(value, new state)`;
* C arrays are total functions from the index; a pointer into `cart.rom` is the
  index of the bank it points to;
* function pointers (mapper interface, mirroring function) are enumerations of
  the functions that the program ever stores in them.
-/

set_option maxRecDepth 100000
set_option maxHeartbeats 4000000
set_option linter.all false

namespace Dendulator

/-! ## bitops.h -/

/-- C `~m` on a 32-bit `int` holding a small non-negative mask. -/
def BITNOT (m : Nat) : Nat := 0xFFFFFFFF - m

/-- `#define BIT(n) (1 << (n))` -/
def BIT (n : Nat) : Nat := 1 <<< n

/-- `#define BITMGET(x, m) ((x) & (m))` -/
def BITMGET (x m : Nat) : Nat := x &&& m

/-- `#define BITMSET(x, m) ((x) | (m))` -/
def BITMSET (x m : Nat) : Nat := x ||| m

/-- `#define BITMCLR(x, m) ((x) & ~(m))` -/
def BITMCLR (x m : Nat) : Nat := x &&& BITNOT m

/-- `#define BITMCHG(x, m, v) ((v) ? BITMSET(x, m) : BITMCLR(x, m))` -/
def BITMCHG (x m v : Nat) : Nat := if v ≠ 0 then BITMSET x m else BITMCLR x m

/-- `#define BITMTGL(x, m) (BITMGET(x, m) ? BITMCLR(x, m) : BITMSET(x, m))` -/
def BITMTGL (x m : Nat) : Nat := if BITMGET x m ≠ 0 then BITMCLR x m else BITMSET x m

/-- `#define BITGET(x, n) BITMGET(x, BIT(n))` -/
def BITGET (x n : Nat) : Nat := BITMGET x (BIT n)

/-- `#define BITSET(x, n) BITMSET(x, BIT(n))` -/
def BITSET (x n : Nat) : Nat := BITMSET x (BIT n)

/-- `#define BITCLR(x, n) BITMCLR(x, BIT(n))` -/
def BITCLR (x n : Nat) : Nat := BITMCLR x (BIT n)

/-- `#define BITCHG(x, n, v) BITMCHG(x, BIT(n), v)` -/
def BITCHG (x n v : Nat) : Nat := BITMCHG x (BIT n) v

/-- `#define BITTGL(x, n) BITMTGL(x, BIT(n))` -/
def BITTGL (x n : Nat) : Nat := BITMTGL x (BIT n)

/-- C truth value of a condition (`!x`, `a && b`, comparisons yield 0 or 1). -/
def c_bool (b : Bool) : Nat := if b then 1 else 0

/-- Store into a C array: the array with index `i` replaced by `v`. -/
def arr_set {α : Type} (f : Nat → α) (i : Nat) (v : α) : Nat → α :=
  fun j => if j = i then v else f j

/-! ## nes_structs.h -/

/-- CPU state struct (`nes_cpu_t`). -/
structure nes_cpu_t where
  cycle : Nat
  stall : Nat
  pages_crossed : Nat
  pc : Nat
  a : Nat
  x : Nat
  y : Nat
  s : Nat
  p : Nat

/-- APU square channel state struct (`nes_apu_sqr_t`); the two signed fields
are kept as `Int`. -/
structure nes_apu_sqr_t where
  flags : Nat
  chan : Nat
  length : Nat
  tmr_period : Nat
  tmr_val : Nat
  duty_mode : Nat
  duty_val : Nat
  sweep_shift : Nat
  sweep_period : Nat
  sweep_val : Int
  env_val : Int
  env_period : Nat
  env_vol : Nat
  const_vol : Nat

/-- APU triangle channel state struct (`nes_apu_tri_t`). -/
structure nes_apu_tri_t where
  flags : Nat
  length : Nat
  tmr_period : Nat
  tmr_val : Int
  duty_val : Nat
  duty_out : Nat
  counter_period : Nat
  counter_val : Int

/-- APU noise channel state struct (`nes_apu_noi_t`). -/
structure nes_apu_noi_t where
  flags : Nat
  shift : Nat
  length : Nat
  tmr_period : Nat
  tmr_val : Nat
  env_val : Int
  env_period : Nat
  env_vol : Nat
  const_vol : Nat

/-- APU DMC channel state struct (`nes_apu_dmc_t`). -/
structure nes_apu_dmc_t where
  flags : Nat
  value : Nat
  sample_addr : Nat
  sample_length : Nat
  cur_addr : Nat
  cur_length : Nat
  shift : Nat
  bit : Nat
  tick_period : Nat
  tick_value : Nat

/-- APU state struct (`nes_apu_t`); `buf` holds the sample buffer contents. -/
structure nes_apu_t where
  cycle : Nat
  sq1 : nes_apu_sqr_t
  sq2 : nes_apu_sqr_t
  tri : nes_apu_tri_t
  noi : nes_apu_noi_t
  dmc : nes_apu_dmc_t
  frame_period : Nat
  frame_val : Nat
  frame_irq : Nat
  buf : Nat → Nat
  buf_size : Nat
  max_buf_size : Nat

/-- RAM/ROM state struct (`nes_mem_t`).  `prg b` is the pointer `prg[b]`:
`none` is `NULL`, `some i` points to `cart.rom[i]`.  `past_prgram` stands for
the bytes that follow the array `prgram` in memory (first the two `prg`
pointers, then the rest of `struct nes`), indexed by their distance from the
end of the array: it is where a store `prgram[i] = v` with `i >= 0x2000`
lands. -/
structure nes_mem_t where
  ram : Nat → Nat
  prgram : Nat → Nat
  past_prgram : Nat → Nat
  prg : Nat → Option Nat

/-- PPU tile data (`nes_ppu_tile_t`). -/
structure nes_ppu_tile_t where
  nta : Nat
  attr : Nat
  data_lo : Nat
  data_hi : Nat
  data : Nat

/-- PPU sprite data (`nes_ppu_spr_t`). -/
structure nes_ppu_spr_t where
  data : Nat
  pos : Nat
  pri : Nat
  idx : Nat

/-- Frame buffer (`nes_ppu_screen_t`): `data y x`. -/
structure nes_ppu_screen_t where
  data : Nat → Nat → Nat

/-- PPU state struct (`nes_ppu_t`); `cycle` and `scanline` are `int32_t`. -/
structure nes_ppu_t where
  cycle : Int
  frame : Nat
  scanline : Int
  flags : Nat
  ctrl : Nat
  mask : Nat
  status : Nat
  oam_addr : Nat
  vmem_addr : Nat
  tmp_addr : Nat
  fine_x : Nat
  readb : Nat
  bus : Nat
  bus_decay : Nat
  nmi_delay : Nat
  nmi_prev : Nat
  frame_end : Nat
  spr_count : Nat
  tile : nes_ppu_tile_t
  spr : Nat → nes_ppu_spr_t
  front : nes_ppu_screen_t
  back : nes_ppu_screen_t

/-- VRAM state struct (`nes_vmem_t`). -/
structure nes_vmem_t where
  vram : Nat → Nat
  oam : Nat → Nat
  pal : Nat → Nat

/-- Input device state struct (`nes_player_input_state_t`). -/
structure nes_player_input_state_t where
  btns : Nat
  ignored : Nat
  devid : Nat

/-- Player input state struct (`nes_player_input_t`). -/
structure nes_player_input_t where
  cur : nes_player_input_state_t
  saved : nes_player_input_state_t

/-- Input state struct (`nes_input_t`). -/
structure nes_input_t where
  p1 : nes_player_input_t
  p2 : nes_player_input_t
  last_write : Nat

/-- Extra mapper data for MMC1 (`nes_mmc1_extra_t`, mappers/mmc1.h). -/
structure nes_mmc1_extra_t where
  r0 : Nat
  r1 : Nat
  r2 : Nat
  r3 : Nat
  cur_bank : Nat
  old_switch_area : Nat
  chr_bank : Nat → Nat
  chr_bank_sw : Nat
  bit : Nat
  bit_buf : Nat

/-- Extra mapper data for MMC3 (`nes_mmc3_extra_t`, mappers/mmc3.h). -/
structure nes_mmc3_extra_t where
  reg_idx : Nat
  reg : Nat → Nat
  prg_mode : Nat
  chr_mode : Nat
  prg_offset : Nat → Nat
  chr_offset : Nat → Nat
  reload : Nat
  counter : Nat
  irq : Nat

/-- The mapper interface struct (`nes_mapper_funcs_t`) is a record of function
pointers; the only records ever stored are the four `mapper_funcs` tables of
nrom.h, mmc1.h, cnrom.h and mmc3.h, so the record is represented by the name
of the table.  (mappers/unrom.h is not part of the sources.) -/
inductive nes_mapper_funcs_t where
  | nrom
  | mmc1
  | cnrom
  | mmc3
  deriving DecidableEq

/-- The `void *extra` field of `nes_mapper_t`: CNROM stores the bank index in
the pointer itself (`word`, `NULL` being `word 0`), MMC1 and MMC3 store a
pointer to their own struct. -/
inductive nes_mapper_extra_t where
  | word (n : Nat)
  | mmc1 (ex : nes_mmc1_extra_t)
  | mmc3 (ex : nes_mmc3_extra_t)

/-- Mapper state struct (`nes_mapper_t`). -/
structure nes_mapper_t where
  funcs : nes_mapper_funcs_t
  extra : nes_mapper_extra_t

/-- Supported screen mirroring modes (`enum mirror_mode`, nes_cart.h). -/
inductive mirror_mode where
  | MIRROR_VERTICAL
  | MIRROR_HORIZONTAL
  | MIRROR_NONE
  | MIRROR_SINGLESCREEN0
  | MIRROR_SINGLESCREEN1
  | MIRROR_CUSTOM
  deriving DecidableEq

/-- Cartridge struct (`nes_cart_t`).  The function pointer `mirror` always
holds an entry of `nes_cart_mirrors`, represented by its index (a mode);
`rom b` and `vram b` are the contents of the 16k PRG bank and the 8k CHR bank
number `b`. -/
structure nes_cart_t where
  mapper : nes_mapper_t
  mirror : mirror_mode
  chr_ram : Nat
  rom16_count : Nat
  rom : Nat → Nat → Nat
  vram8_count : Nat
  vram : Nat → Nat → Nat

/-- NES state struct (`struct nes`). -/
structure nes_t where
  cpu : nes_cpu_t
  apu : nes_apu_t
  mem : nes_mem_t
  ppu : nes_ppu_t
  vmem : nes_vmem_t
  input : nes_input_t
  cart : nes_cart_t

/-- The struct that `extra` points to when the mapper is MMC1 (the cast
`nes_mmc1_extra_t *ex = nes->cart.mapper.extra`); for any other content of
`extra` the cast is invalid in C and the all-zero struct is used. -/
def mmc1_extra (nes : nes_t) : nes_mmc1_extra_t :=
  match nes.cart.mapper.extra with
  | .mmc1 ex => ex
  | _ => ⟨0, 0, 0, 0, 0, 0, fun _ => 0, 0, 0, 0⟩

/-- Store through the MMC1 `extra` pointer. -/
def set_mmc1_extra (nes : nes_t) (ex : nes_mmc1_extra_t) : nes_t :=
  { nes with cart := { nes.cart with mapper := { nes.cart.mapper with extra := .mmc1 ex } } }

/-- The struct that `extra` points to when the mapper is MMC3; for any other
content of `extra` the cast is invalid in C and the all-zero struct is used. -/
def mmc3_extra (nes : nes_t) : nes_mmc3_extra_t :=
  match nes.cart.mapper.extra with
  | .mmc3 ex => ex
  | _ => ⟨0, fun _ => 0, 0, 0, fun _ => 0, fun _ => 0, 0, 0, 0⟩

/-- Store through the MMC3 `extra` pointer. -/
def set_mmc3_extra (nes : nes_t) (ex : nes_mmc3_extra_t) : nes_t :=
  { nes with cart := { nes.cart with mapper := { nes.cart.mapper with extra := .mmc3 ex } } }

/-- CNROM: `(size_t)(nes->cart.mapper.extra)`; a struct pointer has no bank
meaning and reads as 0. -/
def cnrom_extra (nes : nes_t) : Nat :=
  match nes.cart.mapper.extra with
  | .word n => n
  | _ => 0

/-! ## nes_mem.h: RAM, PRG-ROM and PRG-RAM primitives -/

/-- CPU RAM read. -/
def nes_ram_read (nes : nes_t) (addr : Nat) : Nat :=
  nes.mem.ram addr

/-- PRG-ROM read: `if (nes->mem.prg[bank] == NULL) return 0x00;
return nes->mem.prg[bank][addr];` -/
def nes_prg_read (nes : nes_t) (bank : Nat) (addr : Nat) : Nat :=
  match nes.mem.prg bank with
  | none => 0x00
  | some b => nes.cart.rom b addr

/-- PRG-RAM read. -/
def nes_prgram_read (nes : nes_t) (addr : Nat) : Nat :=
  nes.mem.prgram addr

/-- CPU RAM write. -/
def nes_ram_write (nes : nes_t) (addr : Nat) (val : Nat) : nes_t :=
  { nes with mem := { nes.mem with ram := arr_set nes.mem.ram addr val } }

/-- PRG-RAM write: `nes->mem.prgram[addr] = val;` with no bounds check.  The
array has 0x2000 elements; a store at `addr >= 0x2000` goes to the byte
`addr - 0x2000` after the array. -/
def nes_prgram_write (nes : nes_t) (addr : Nat) (val : Nat) : nes_t :=
  if addr < 0x2000 then
    { nes with mem := { nes.mem with prgram := arr_set nes.mem.prgram addr val } }
  else
    { nes with mem := { nes.mem with
        past_prgram := arr_set nes.mem.past_prgram (addr - 0x2000) val } }

/-- Initializes RAM on power up. -/
def nes_mem_init (mem : nes_mem_t) : nes_mem_t :=
  { mem with
    ram := fun i => if i < 0x800 then (if i &&& 0x04 ≠ 0 then 0xFF else 0x00) else mem.ram i
    prgram := fun i => if i < 0x2000 then 0x00 else mem.prgram i
    prg := arr_set (arr_set mem.prg 0 none) 1 none }

/-- Initializes VRAM on power up. -/
def nes_vmem_init (vmem : nes_vmem_t) : nes_vmem_t :=
  { vmem with
    vram := fun i => if i < 0x1000 then 0x00 else vmem.vram i
    oam := fun i => if i < 0x100 then 0x00 else vmem.oam i }

/-! ## nes_cart.c: mirroring -/

/-- Single screen (page 0). -/
def nes_cart_mirror_single0 (addr : Nat) : Nat := addr &&& 0x03FF

/-- Single screen (page 1). -/
def nes_cart_mirror_single1 (addr : Nat) : Nat := 0x400 + (addr &&& 0x03FF)

/-- No mirroring (2x2 pages). -/
def nes_cart_mirror_none (addr : Nat) : Nat := addr &&& 0x0FFF

/-- Horizontal mirroring. -/
def nes_cart_mirror_hor (addr : Nat) : Nat :=
  if addr < 0x2800 then addr &&& 0x03FF else (addr &&& 0x03FF) ||| 0x0400

/-- Vertical mirroring. -/
def nes_cart_mirror_vert (addr : Nat) : Nat := addr &&& 0x07FF

/-- The table `nes_cart_mirrors[]`, indexed by mode.  The table has five
entries; `MIRROR_CUSTOM` indexes past its end and no caller passes it. -/
def nes_cart_mirrors (mode : mirror_mode) : Nat → Nat :=
  match mode with
  | .MIRROR_VERTICAL => nes_cart_mirror_vert
  | .MIRROR_HORIZONTAL => nes_cart_mirror_hor
  | .MIRROR_NONE => nes_cart_mirror_none
  | .MIRROR_SINGLESCREEN0 => nes_cart_mirror_single0
  | .MIRROR_SINGLESCREEN1 => nes_cart_mirror_single1
  | .MIRROR_CUSTOM => fun _ => 0

/-- `nes->cart.mirror = nes_cart_mirrors[mode];` -/
def nes_cart_set_mirroring (nes : nes_t) (mode : mirror_mode) : nes_t :=
  { nes with cart := { nes.cart with mirror := mode } }

/-- The call `nes->cart.mirror(addr)`. -/
def cart_mirror (nes : nes_t) (addr : Nat) : Nat :=
  nes_cart_mirrors nes.cart.mirror addr

/-! ## PPU address space of the four mappers -/

/-- PPU memory read function of NROM (mappers/nrom.h). -/
def nes_vmem_read_nrom (nes : nes_t) (addr : Nat) : Nat :=
  let addr := addr &&& 0x3FFF
  if addr ≥ 0x3F00 then
    let addr := addr &&& 0x001F
    let addr := if addr ≥ 0x10 ∧ addr &&& 0x03 = 0 then addr - 0x10 else addr
    nes.vmem.pal addr
  else if addr < 0x2000 then
    if nes.cart.vram8_count ≠ 0 then nes.cart.vram 0 (addr &&& 0x1FFF) else 0x00
  else
    nes.vmem.vram (cart_mirror nes addr)

/-- PPU memory write function of NROM (mappers/nrom.h). -/
def nes_vmem_write_nrom (nes : nes_t) (addr : Nat) (val : Nat) : nes_t :=
  let addr := addr &&& 0x3FFF
  if addr ≥ 0x3F00 then
    let addr := addr &&& 0x001F
    let addr := if addr ≥ 0x10 ∧ addr &&& 0x03 = 0 then addr - 0x10 else addr
    { nes with vmem := { nes.vmem with pal := arr_set nes.vmem.pal addr val } }
  else if addr < 0x2000 then
    if nes.cart.vram8_count ≠ 0 ∧ nes.cart.chr_ram ≠ 0 then
      { nes with cart := { nes.cart with
          vram := arr_set nes.cart.vram 0 (arr_set (nes.cart.vram 0) (addr &&& 0x1FFF) val) } }
    else nes
  else
    { nes with vmem := { nes.vmem with
        vram := arr_set nes.vmem.vram (cart_mirror nes addr) val } }

/-- PPU memory read function of MMC1 (mappers/mmc1.h). -/
def nes_vmem_read_mmc1 (nes : nes_t) (addr : Nat) : Nat :=
  let ex := mmc1_extra nes
  let addr := addr &&& 0x3FFF
  if addr ≥ 0x3F00 then
    let addr := addr &&& 0x001F
    let addr := if addr ≥ 0x10 ∧ addr &&& 0x03 = 0 then addr - 0x10 else addr
    nes.vmem.pal addr
  else if addr < 0x1000 then
    if nes.cart.vram8_count ≠ 0 then
      let bank := (if nes.cart.chr_ram ≠ 0 then 0 else ex.chr_bank 0) % 256
      let offset := (bank % 2) * 0x1000
      nes.cart.vram (bank / 2) ((addr &&& 0x0FFF) + offset)
    else 0x00
  else if addr < 0x2000 then
    if nes.cart.vram8_count ≠ 0 then
      let bank := (if nes.cart.chr_ram ≠ 0 then 1 else ex.chr_bank 1) % 256
      let offset := (bank % 2) * 0x1000
      nes.cart.vram (bank / 2) ((addr &&& 0x0FFF) + offset)
    else 0x00
  else
    nes.vmem.vram (cart_mirror nes addr)

/-- PPU memory write function of MMC1 (mappers/mmc1.h). -/
def nes_vmem_write_mmc1 (nes : nes_t) (addr : Nat) (val : Nat) : nes_t :=
  let addr := addr &&& 0x3FFF
  if addr ≥ 0x3F00 then
    let addr := addr &&& 0x001F
    let addr := if addr ≥ 0x10 ∧ addr &&& 0x03 = 0 then addr - 0x10 else addr
    { nes with vmem := { nes.vmem with pal := arr_set nes.vmem.pal addr val } }
  else if addr < 0x2000 then
    if nes.cart.vram8_count ≠ 0 ∧ nes.cart.chr_ram ≠ 0 then
      { nes with cart := { nes.cart with
          vram := arr_set nes.cart.vram 0 (arr_set (nes.cart.vram 0) (addr &&& 0x1FFF) val) } }
    else nes
  else
    { nes with vmem := { nes.vmem with
        vram := arr_set nes.vmem.vram (cart_mirror nes addr) val } }

/-- PPU memory read function of CNROM (mappers/cnrom.h). -/
def nes_vmem_read_cnrom (nes : nes_t) (addr : Nat) : Nat :=
  let addr := addr &&& 0x3FFF
  if addr ≥ 0x3F00 then
    let addr := addr &&& 0x001F
    let addr := if addr ≥ 0x10 ∧ addr &&& 0x03 = 0 then addr - 0x10 else addr
    nes.vmem.pal addr
  else if addr < 0x2000 then
    let bank_id := cnrom_extra nes
    if nes.cart.vram8_count > bank_id then nes.cart.vram bank_id (addr &&& 0x1FFF) else 0x00
  else
    nes.vmem.vram (cart_mirror nes addr)

/-- PPU memory write function of CNROM (mappers/cnrom.h). -/
def nes_vmem_write_cnrom (nes : nes_t) (addr : Nat) (val : Nat) : nes_t :=
  let addr := addr &&& 0x3FFF
  if addr ≥ 0x3F00 then
    let addr := addr &&& 0x001F
    let addr := if addr ≥ 0x10 ∧ addr &&& 0x03 = 0 then addr - 0x10 else addr
    { nes with vmem := { nes.vmem with pal := arr_set nes.vmem.pal addr val } }
  else if addr < 0x2000 then
    let bank_id := cnrom_extra nes
    if nes.cart.chr_ram ≠ 0 ∧ nes.cart.vram8_count > bank_id then
      { nes with cart := { nes.cart with
          vram := arr_set nes.cart.vram bank_id
            (arr_set (nes.cart.vram bank_id) (addr &&& 0x1FFF) val) } }
    else nes
  else
    { nes with vmem := { nes.vmem with
        vram := arr_set nes.vmem.vram (cart_mirror nes addr) val } }

/-- PPU memory read function of MMC3 (mappers/mmc3.h). -/
def nes_vmem_read_mmc3 (nes : nes_t) (addr : Nat) : Nat :=
  let mmc := mmc3_extra nes
  let addr := addr &&& 0x3FFF
  if addr ≥ 0x3F00 then
    let addr := addr &&& 0x001F
    let addr := if addr ≥ 0x10 ∧ addr &&& 0x03 = 0 then addr - 0x10 else addr
    nes.vmem.pal addr
  else if addr < 0x2000 then
    let bank1 := addr / 0x0400
    let offset := addr % 0x0400
    let bank8 := (mmc.chr_offset bank1 / 0x2000) % 0x10000
    let bank1_base := 0x0400 * ((mmc.chr_offset bank1 / 0x0400) &&& 0x07)
    nes.cart.vram bank8 (bank1_base + offset)
  else
    nes.vmem.vram (cart_mirror nes addr)

/-- PPU memory write function of MMC3 (mappers/mmc3.h). -/
def nes_vmem_write_mmc3 (nes : nes_t) (addr : Nat) (val : Nat) : nes_t :=
  let mmc := mmc3_extra nes
  let addr := addr &&& 0x3FFF
  if addr ≥ 0x3F00 then
    let addr := addr &&& 0x001F
    let addr := if addr ≥ 0x10 ∧ addr &&& 0x03 = 0 then addr - 0x10 else addr
    { nes with vmem := { nes.vmem with pal := arr_set nes.vmem.pal addr val } }
  else if addr < 0x2000 then
    if nes.cart.chr_ram = 0 then nes
    else
      let bank1 := addr / 0x0400
      let offset := addr % 0x0400
      let bank8 := (mmc.chr_offset bank1 / 0x2000) % 0x10000
      let bank1_base := 0x0400 * ((mmc.chr_offset bank1 / 0x0400) &&& 0x07)
      { nes with cart := { nes.cart with
          vram := arr_set nes.cart.vram bank8
            (arr_set (nes.cart.vram bank8) (bank1_base + offset) val) } }
  else
    { nes with vmem := { nes.vmem with
        vram := arr_set nes.vmem.vram (cart_mirror nes addr) val } }

/-- Reads a byte from PPU address space:
`nes->cart.mapper.funcs.vread(nes, addr)`. -/
def nes_vmem_readb (nes : nes_t) (addr : Nat) : Nat :=
  match nes.cart.mapper.funcs with
  | .nrom => nes_vmem_read_nrom nes addr
  | .mmc1 => nes_vmem_read_mmc1 nes addr
  | .cnrom => nes_vmem_read_cnrom nes addr
  | .mmc3 => nes_vmem_read_mmc3 nes addr

/-- Writes a byte to PPU address space:
`nes->cart.mapper.funcs.vwrite(nes, addr, val)`. -/
def nes_vmem_writeb (nes : nes_t) (addr : Nat) (val : Nat) : nes_t :=
  match nes.cart.mapper.funcs with
  | .nrom => nes_vmem_write_nrom nes addr val
  | .mmc1 => nes_vmem_write_mmc1 nes addr val
  | .cnrom => nes_vmem_write_cnrom nes addr val
  | .mmc3 => nes_vmem_write_mmc3 nes addr val

/-! ## nes_input.c -/

/-- Controller state at power on. -/
def nes_input_init (_p : nes_input_t) : nes_input_t :=
  { p1 := { cur := ⟨0, 0, 0⟩, saved := ⟨0, 0, 0⟩ }
    p2 := { cur := ⟨0, 0, 0⟩, saved := ⟨0, 0, 0⟩ }
    last_write := 0x00 }

/-- Write to the input register (`addr` is the register index). -/
def nes_input_write (nes : nes_t) (addr : Nat) (val : Nat) : nes_t :=
  if addr = 0 then
    let nes :=
      if val ^^^ nes.input.last_write = 0x01 then
        { nes with input := { nes.input with
            p1 := { nes.input.p1 with saved := nes.input.p1.cur }
            p2 := { nes.input.p2 with saved := nes.input.p2.cur } } }
      else nes
    { nes with input := { nes.input with last_write := val } }
  else nes

/-- Read of an input register: shifts the internal register by 1 and returns
the bit that was shifted out. -/
def nes_input_read (nes : nes_t) (addr : Nat) : Nat × nes_t :=
  if addr = 0 then
    (nes.input.p1.saved.btns &&& 0x01,
      { nes with input := { nes.input with p1 := { nes.input.p1 with
          saved := { nes.input.p1.saved with btns := nes.input.p1.saved.btns >>> 1 } } } })
  else
    (nes.input.p2.saved.btns &&& 0x01,
      { nes with input := { nes.input with p2 := { nes.input.p2 with
          saved := { nes.input.p2.saved with btns := nes.input.p2.saved.btns >>> 1 } } } })

/-! ## nes_ppu.h / nes_ppu.c: registers -/

/-- PPU internal state flag bit numbers (`enum nes_ppu_flags`). -/
def NES_PPU_FLAG_RESET : Nat := 0
/-- Set when the PPU is waiting for the second data write. -/
def NES_PPU_FLAG_OFFSET : Nat := 1
/-- Set when a frame is ready to be displayed. -/
def NES_PPU_FLAG_RENDER : Nat := 2
/-- Set after NMI was requested by the tick function. -/
def NES_PPU_FLAG_NMI : Nat := 3

/-- PPUCTRL bit numbers (`enum nes_ppu_ctrl`). -/
def NES_PPU_CTRL_ADDRINC : Nat := 2
/-- Sprites pattern table index. -/
def NES_PPU_CTRL_SPRTABLE : Nat := 3
/-- Background pattern table index. -/
def NES_PPU_CTRL_BGTABLE : Nat := 4
/-- If 1, sprites are 8x16. -/
def NES_PPU_CTRL_SPRSIZE : Nat := 5
/-- Master/slave switch (unused). -/
def NES_PPU_CTRL_MASTER : Nat := 6
/-- If 1, NMIs are allowed. -/
def NES_PPU_CTRL_NMI : Nat := 7

/-- PPUMASK bit numbers (`enum nes_ppu_mask`). -/
def NES_PPU_MASK_GRAYSCALE : Nat := 0
/-- If 0, the leftmost 8 px of background are not drawn. -/
def NES_PPU_MASK_LEFTBG : Nat := 1
/-- If 0, the leftmost 8 px of sprites are not drawn. -/
def NES_PPU_MASK_LEFTSPR : Nat := 2
/-- If 0, background tiles are not displayed. -/
def NES_PPU_MASK_BG : Nat := 3
/-- If 0, sprites are not displayed. -/
def NES_PPU_MASK_SPR : Nat := 4
/-- Red emphasis bit. -/
def NES_PPU_MASK_ERED : Nat := 5
/-- Green emphasis bit. -/
def NES_PPU_MASK_EGREEN : Nat := 6
/-- Blue emphasis bit. -/
def NES_PPU_MASK_EBLUE : Nat := 7

/-- PPUSTATUS bit numbers (`enum nes_ppu_status`). -/
def NES_PPU_STATUS_OVERFLOW : Nat := 5
/-- Set if sprite 0 was just hit. -/
def NES_PPU_STATUS_SPRITE0 : Nat := 6
/-- Set during vblank. -/
def NES_PPU_STATUS_VBLANK : Nat := 7

/-- This gets called at power on and reset. -/
def nes_ppu_reset (ppu : nes_ppu_t) : nes_ppu_t :=
  { ppu with
    flags := BITSET ppu.flags NES_PPU_FLAG_RESET
    cycle := 340
    scanline := 240
    frame := 0
    ctrl := 0x00
    mask := 0x00
    oam_addr := 0x00 }

/-- Power-on state of the PPU: `memset` to zero, two zeroed (`calloc`) frame
buffers, then `nes_ppu_reset`. -/
def nes_ppu_init (_ppu : nes_ppu_t) : nes_ppu_t :=
  nes_ppu_reset
    { cycle := 0, frame := 0, scanline := 0, flags := 0, ctrl := 0, mask := 0, status := 0
      oam_addr := 0, vmem_addr := 0, tmp_addr := 0, fine_x := 0, readb := 0, bus := 0
      bus_decay := 0, nmi_delay := 0, nmi_prev := 0, frame_end := 0, spr_count := 0
      tile := ⟨0, 0, 0, 0, 0⟩
      spr := fun _ => ⟨0, 0, 0, 0⟩
      front := ⟨fun _ _ => 0⟩
      back := ⟨fun _ _ => 0⟩ }

/-- Writes a byte to the PPU bus. -/
def nes_ppu_refresh_bus (nes : nes_t) (v : Nat) : nes_t :=
  { nes with ppu := { nes.ppu with bus_decay := 77777, bus := v } }

/-- Checks if a NMI should be generated: when PPUCTRL.NMI and the NMI state
flag are both set and were not both set at the previous call, a NMI is
scheduled after 15 PPU ticks. -/
def nes_ppu_nmi_update (nes : nes_t) : nes_t :=
  let nmi := c_bool (decide (BITGET nes.ppu.ctrl NES_PPU_CTRL_NMI ≠ 0 ∧
    BITGET nes.ppu.flags NES_PPU_FLAG_NMI ≠ 0))
  let nes :=
    if nmi ≠ 0 ∧ nes.ppu.nmi_prev = 0 then
      { nes with ppu := { nes.ppu with nmi_delay := 15 } }
    else nes
  { nes with ppu := { nes.ppu with nmi_prev := nmi } }

/-- Handles a vblank: swaps the frame buffers, sets the NMI and RENDER state
flags. -/
def nes_ppu_set_vblank (nes : nes_t) : nes_t :=
  let tmp := nes.ppu.back
  let nes := { nes with ppu := { nes.ppu with back := nes.ppu.front } }
  let nes := { nes with ppu := { nes.ppu with front := tmp } }
  let nes := { nes with ppu := { nes.ppu with flags := BITSET nes.ppu.flags NES_PPU_FLAG_NMI } }
  let nes := { nes with ppu := { nes.ppu with flags := BITSET nes.ppu.flags NES_PPU_FLAG_RENDER } }
  nes_ppu_nmi_update nes

/-- Clears the NMI flag. -/
def nes_ppu_clr_vblank (nes : nes_t) : nes_t :=
  let nes := { nes with ppu := { nes.ppu with flags := BITCLR nes.ppu.flags NES_PPU_FLAG_NMI } }
  nes_ppu_nmi_update nes

/-- Memory write function for the PPU registers ($2000-$2007); `addr` is the
register index (0-7). -/
def nes_ppu_write (nes : nes_t) (addr : Nat) (val : Nat) : nes_t :=
  let nes := nes_ppu_refresh_bus nes val
  match addr with
  | 0 =>
    let nes := { nes with ppu := { nes.ppu with ctrl := val } }
    let nes := nes_ppu_nmi_update nes
    { nes with ppu := { nes.ppu with
        tmp_addr := ((nes.ppu.tmp_addr &&& 0xF3FF) ||| ((val &&& 0x03) <<< 10)) % 0x10000 } }
  | 1 => { nes with ppu := { nes.ppu with mask := val } }
  | 2 => nes
  | 3 => { nes with ppu := { nes.ppu with oam_addr := val } }
  | 4 =>
    let nes := { nes with vmem := { nes.vmem with
      oam := arr_set nes.vmem.oam nes.ppu.oam_addr val } }
    { nes with ppu := { nes.ppu with oam_addr := (nes.ppu.oam_addr + 1) % 0x100 } }
  | 5 =>
    let nes :=
      if BITGET nes.ppu.flags NES_PPU_FLAG_OFFSET = 0 then
        let nes := { nes with ppu := { nes.ppu with
          tmp_addr := ((nes.ppu.tmp_addr &&& 0xFFE0) ||| (val >>> 3)) % 0x10000 } }
        { nes with ppu := { nes.ppu with fine_x := val &&& 0x07 } }
      else
        let nes := { nes with ppu := { nes.ppu with
          tmp_addr := ((nes.ppu.tmp_addr &&& 0x8FFF) ||| ((val &&& 0x07) <<< 12)) % 0x10000 } }
        { nes with ppu := { nes.ppu with
          tmp_addr := ((nes.ppu.tmp_addr &&& 0xFC1F) ||| ((val &&& 0xF8) <<< 2)) % 0x10000 } }
    { nes with ppu := { nes.ppu with flags := BITTGL nes.ppu.flags NES_PPU_FLAG_OFFSET % 0x100 } }
  | 6 =>
    let nes :=
      if BITGET nes.ppu.flags NES_PPU_FLAG_OFFSET = 0 then
        { nes with ppu := { nes.ppu with
          tmp_addr := ((nes.ppu.tmp_addr &&& 0x80FF) ||| ((val &&& 0x3F) <<< 8)) % 0x10000 } }
      else
        let nes := { nes with ppu := { nes.ppu with
          tmp_addr := ((nes.ppu.tmp_addr &&& 0xFF00) ||| val) % 0x10000 } }
        { nes with ppu := { nes.ppu with vmem_addr := nes.ppu.tmp_addr } }
    { nes with ppu := { nes.ppu with flags := BITTGL nes.ppu.flags NES_PPU_FLAG_OFFSET % 0x100 } }
  | 7 =>
    let nes := nes_vmem_writeb nes nes.ppu.vmem_addr val
    { nes with ppu := { nes.ppu with
        vmem_addr := (nes.ppu.vmem_addr +
          (if BITGET nes.ppu.ctrl NES_PPU_CTRL_ADDRINC ≠ 0 then 32 else 1)) % 0x10000 } }
  | _ => nes

/-- Memory read function for the PPU registers ($2000-$2007); `addr` is the
register index (0-7). -/
def nes_ppu_read (nes : nes_t) (addr : Nat) : Nat × nes_t :=
  let res := nes.ppu.bus
  match addr with
  | 0 => (res, nes)
  | 1 => (res, nes)
  | 2 =>
    let res := nes.ppu.status ||| (nes.ppu.bus &&& 0x1F)
    let res :=
      if BITGET nes.ppu.flags NES_PPU_FLAG_NMI ≠ 0 then BITSET res NES_PPU_STATUS_VBLANK % 0x100
      else res
    let nes := { nes with ppu := { nes.ppu with
      flags := BITCLR nes.ppu.flags NES_PPU_FLAG_NMI % 0x100 } }
    let nes := nes_ppu_nmi_update nes
    let nes := { nes with ppu := { nes.ppu with
      flags := BITCLR nes.ppu.flags NES_PPU_FLAG_OFFSET % 0x100 } }
    (res, nes)
  | 3 => (res, nes)
  | 4 => (nes.vmem.oam nes.ppu.oam_addr, nes)
  | 5 => (res, nes)
  | 6 => (res, nes)
  | 7 =>
    let res := nes_vmem_readb nes nes.ppu.vmem_addr
    let (res, nes) :=
      if nes.ppu.vmem_addr &&& 0x3FFF < 0x3F00 then
        let tmp := nes.ppu.readb
        (tmp, { nes with ppu := { nes.ppu with readb := res } })
      else
        (res, { nes with ppu := { nes.ppu with
          readb := nes_vmem_readb nes ((nes.ppu.vmem_addr + 0x10000 - 0x1000) % 0x10000) } })
    (res, { nes with ppu := { nes.ppu with
        vmem_addr := (nes.ppu.vmem_addr +
          (if BITGET nes.ppu.ctrl NES_PPU_CTRL_ADDRINC ≠ 0 then 32 else 1)) % 0x10000 } })
  | _ => (0x00, nes)

/-! ## nes_apu.c: registers and frame sequencer -/

/-- Conversion of a byte to `int8_t`. -/
def to_int8 (n : Nat) : Int :=
  if n % 0x100 < 0x80 then ((n % 0x100 : Nat) : Int) else ((n % 0x100 : Nat) : Int) - 0x100

/-- Conversion of a 16-bit value to `int16_t`. -/
def to_int16 (n : Nat) : Int :=
  if n % 0x10000 < 0x8000 then ((n % 0x10000 : Nat) : Int)
  else ((n % 0x10000 : Nat) : Int) - 0x10000

/-- Square channel flag masks. -/
def NES_APU_FLAG_SQR_ENABLED : Nat := 0x01
/-- Sweep reload requested. -/
def NES_APU_FLAG_SQR_SWEEP_RELOAD : Nat := 0x02
/-- Sweep enabled. -/
def NES_APU_FLAG_SQR_SWEEP_ENABLED : Nat := 0x04
/-- Sweep negate. -/
def NES_APU_FLAG_SQR_SWEEP_NEGATE : Nat := 0x08
/-- Length counter enabled. -/
def NES_APU_FLAG_SQR_LEN_ENABLED : Nat := 0x10
/-- Envelope enabled. -/
def NES_APU_FLAG_SQR_ENV_ENABLED : Nat := 0x20
/-- Envelope loop. -/
def NES_APU_FLAG_SQR_ENV_LOOP : Nat := 0x40
/-- Envelope start. -/
def NES_APU_FLAG_SQR_ENV_START : Nat := 0x80

/-- Triangle channel flag masks. -/
def NES_APU_FLAG_TRI_ENABLED : Nat := 0x01
/-- Linear counter reload. -/
def NES_APU_FLAG_TRI_COUNTER_RELOAD : Nat := 0x02
/-- Length counter enabled. -/
def NES_APU_FLAG_TRI_LEN_ENABLED : Nat := 0x10

/-- Noise channel flag masks. -/
def NES_APU_FLAG_NOI_ENABLED : Nat := 0x01
/-- Noise mode. -/
def NES_APU_FLAG_NOI_MODE : Nat := 0x02
/-- Length counter enabled. -/
def NES_APU_FLAG_NOI_LEN_ENABLED : Nat := 0x10
/-- Envelope enabled. -/
def NES_APU_FLAG_NOI_ENV_ENABLED : Nat := 0x20
/-- Envelope loop. -/
def NES_APU_FLAG_NOI_ENV_LOOP : Nat := 0x40
/-- Envelope start. -/
def NES_APU_FLAG_NOI_ENV_START : Nat := 0x80

/-- DMC channel flag masks. -/
def NES_APU_FLAG_DMC_ENABLED : Nat := 0x01
/-- Sample loop. -/
def NES_APU_FLAG_DMC_LOOP : Nat := 0x02
/-- DMC IRQ. -/
def NES_APU_FLAG_DMC_IRQ : Nat := 0x04

/-- Length table `len_tbl[]`. -/
def len_tbl (i : Nat) : Nat :=
  [10, 254, 20, 2, 40, 4, 80, 6, 160, 8, 60, 10, 14, 12, 26, 14,
   12, 16, 24, 18, 48, 20, 96, 22, 192, 24, 72, 26, 16, 28, 32, 30].getD i 0

/-- Duty table `duty_tbl[4][8]`. -/
def duty_tbl (m i : Nat) : Nat :=
  ([[0, 1, 0, 0, 0, 0, 0, 0],
    [0, 1, 1, 0, 0, 0, 0, 0],
    [0, 1, 1, 1, 1, 0, 0, 0],
    [1, 0, 0, 1, 1, 1, 1, 1]].getD m []).getD i 0

/-- Triangle table `tri_tbl[]`. -/
def tri_tbl (i : Nat) : Nat :=
  [15, 14, 13, 12, 11, 10, 9, 8, 7, 6, 5, 4, 3, 2, 1, 0,
   0, 1, 2, 3, 4, 5, 6, 7, 8, 9, 10, 11, 12, 13, 14, 15].getD i 0

/-- Noise period table `noi_tbl[]`. -/
def noi_tbl (i : Nat) : Nat :=
  [4, 8, 16, 32, 64, 96, 128, 160, 202, 254, 380, 508, 762, 1016, 2034, 4068].getD i 0

/-- DMC rate table `dmc_tbl[]`. -/
def dmc_tbl (i : Nat) : Nat :=
  [214, 190, 170, 160, 143, 127, 113, 107, 95, 80, 71, 64, 53, 42, 36, 27].getD i 0

/-- The all-zero square channel. -/
def nes_apu_sqr_zero : nes_apu_sqr_t := ⟨0, 0, 0, 0, 0, 0, 0, 0, 0, 0, 0, 0, 0, 0⟩

/-- Power-on state of the APU: everything zero except `noi.shift = 1`,
`sq1.chan = 1`, `sq2.chan = 2` and an empty buffer of `bsize` samples. -/
def nes_apu_init (apu : nes_apu_t) (bsize : Nat) : nes_apu_t :=
  { cycle := 0
    sq1 := { nes_apu_sqr_zero with chan := 1 }
    sq2 := { nes_apu_sqr_zero with chan := 2 }
    tri := ⟨0, 0, 0, 0, 0, 0, 0, 0⟩
    noi := ⟨0, 1, 0, 0, 0, 0, 0, 0, 0⟩
    dmc := ⟨0, 0, 0, 0, 0, 0, 0, 0, 0, 0⟩
    frame_period := 0
    frame_val := 0
    frame_irq := 0
    buf := apu.buf
    buf_size := 0
    max_buf_size := bsize }

/-- Square: control register write. -/
def nes_apu_sqr_write_ctrl (sqr : nes_apu_sqr_t) (val : Nat) : nes_apu_sqr_t :=
  let sqr := { sqr with duty_mode := (val >>> 6) &&& 0x03 }
  let sqr := { sqr with env_period := val &&& 0x0F }
  let sqr := { sqr with const_vol := val &&& 0x0F }
  let sqr := { sqr with flags :=
      (BITMCHG sqr.flags NES_APU_FLAG_SQR_LEN_ENABLED (c_bool (decide ((val >>> 5) &&& 0x01 = 0)))) % 0x100 }
  let sqr := { sqr with flags :=
      (BITMCHG sqr.flags NES_APU_FLAG_SQR_ENV_LOOP ((val >>> 5) &&& 0x01)) % 0x100 }
  let sqr := { sqr with flags :=
      (BITMCHG sqr.flags NES_APU_FLAG_SQR_ENV_ENABLED (c_bool (decide ((val >>> 4) &&& 0x01 = 0)))) % 0x100 }
  { sqr with flags := BITMSET sqr.flags NES_APU_FLAG_SQR_ENV_START % 0x100 }

/-- Square: sweep write. -/
def nes_apu_sqr_write_sweep (sqr : nes_apu_sqr_t) (val : Nat) : nes_apu_sqr_t :=
  let sqr := { sqr with sweep_shift := val &&& 0x07 }
  let sqr := { sqr with sweep_period := ((val >>> 4) &&& 0x07) + 1 }
  let sqr := { sqr with flags :=
      (BITMCHG sqr.flags NES_APU_FLAG_SQR_SWEEP_ENABLED ((val >>> 7) &&& 0x01)) % 0x100 }
  let sqr := { sqr with flags :=
      (BITMCHG sqr.flags NES_APU_FLAG_SQR_SWEEP_NEGATE ((val >>> 3) &&& 0x01)) % 0x100 }
  { sqr with flags := BITMSET sqr.flags NES_APU_FLAG_SQR_SWEEP_RELOAD % 0x100 }

/-- Square: timer lo write. -/
def nes_apu_sqr_write_tmr_low (sqr : nes_apu_sqr_t) (val : Nat) : nes_apu_sqr_t :=
  { sqr with tmr_period := ((sqr.tmr_period &&& 0xFF00) ||| val) % 0x10000 }

/-- Square: timer hi write. -/
def nes_apu_sqr_write_tmr_high (sqr : nes_apu_sqr_t) (val : Nat) : nes_apu_sqr_t :=
  let sqr := { sqr with length := len_tbl (val >>> 3) }
  let sqr := { sqr with
    tmr_period := ((sqr.tmr_period &&& 0x00FF) ||| (((val &&& 0x07) <<< 8) % 0x10000)) % 0x10000 }
  let sqr := { sqr with flags := BITMSET sqr.flags NES_APU_FLAG_SQR_ENV_START % 0x100 }
  { sqr with duty_val := 0 }

/-- Square: steps timer and duty values. -/
def nes_apu_sqr_step_tmr (sqr : nes_apu_sqr_t) : nes_apu_sqr_t :=
  if sqr.tmr_val = 0 then
    let sqr := { sqr with tmr_val := sqr.tmr_period }
    { sqr with duty_val := (sqr.duty_val + 1) % 8 }
  else
    { sqr with tmr_val := sqr.tmr_val - 1 }

/-- Square: steps envelope values. -/
def nes_apu_sqr_step_env (sqr : nes_apu_sqr_t) : nes_apu_sqr_t :=
  if BITMGET sqr.flags NES_APU_FLAG_SQR_ENV_START ≠ 0 then
    let sqr := { sqr with env_vol := 15 }
    let sqr := { sqr with env_val := to_int8 sqr.env_period }
    { sqr with flags := BITMCLR sqr.flags NES_APU_FLAG_SQR_ENV_START % 0x100 }
  else if sqr.env_val > 0 then
    { sqr with env_val := sqr.env_val - 1 }
  else
    let sqr := { sqr with env_val := to_int8 sqr.env_period }
    if sqr.env_vol > 0 then { sqr with env_vol := sqr.env_vol - 1 }
    else if BITMGET sqr.flags NES_APU_FLAG_SQR_ENV_LOOP ≠ 0 then { sqr with env_vol := 15 }
    else sqr

/-- Square: applies sweep. -/
def nes_apu_sqr_sweep (sqr : nes_apu_sqr_t) : nes_apu_sqr_t :=
  let delta := (sqr.tmr_period >>> sqr.sweep_shift) % 0x10000
  if BITMGET sqr.flags NES_APU_FLAG_SQR_SWEEP_NEGATE ≠ 0 then
    let sqr := { sqr with tmr_period := (sqr.tmr_period + 0x10000 - delta) % 0x10000 }
    if sqr.chan = 1 then { sqr with tmr_period := (sqr.tmr_period + 0x10000 - 1) % 0x10000 }
    else sqr
  else
    { sqr with tmr_period := (sqr.tmr_period + delta) % 0x10000 }

/-- Square: steps or reloads sweep value as required. -/
def nes_apu_sqr_step_sweep (sqr : nes_apu_sqr_t) : nes_apu_sqr_t :=
  if BITMGET sqr.flags NES_APU_FLAG_SQR_SWEEP_RELOAD ≠ 0 then
    let sqr :=
      if BITMGET sqr.flags NES_APU_FLAG_SQR_SWEEP_ENABLED ≠ 0 ∧ sqr.sweep_val = 0 then
        nes_apu_sqr_sweep sqr
      else sqr
    let sqr := { sqr with sweep_val := to_int8 sqr.sweep_period }
    { sqr with flags := BITMCLR sqr.flags NES_APU_FLAG_SQR_SWEEP_RELOAD % 0x100 }
  else if sqr.sweep_val > 0 then
    { sqr with sweep_val := sqr.sweep_val - 1 }
  else
    let sqr :=
      if BITMGET sqr.flags NES_APU_FLAG_SQR_SWEEP_ENABLED ≠ 0 then nes_apu_sqr_sweep sqr
      else sqr
    { sqr with sweep_val := to_int8 sqr.sweep_period }

/-- Square: steps signal length if needed. -/
def nes_apu_sqr_step_len (sqr : nes_apu_sqr_t) : nes_apu_sqr_t :=
  if BITMGET sqr.flags NES_APU_FLAG_SQR_LEN_ENABLED ≠ 0 ∧ sqr.length > 0 then
    { sqr with length := sqr.length - 1 }
  else sqr

/-- Square: channel output for the current APU tick. -/
def nes_apu_sqr_get_output (sqr : nes_apu_sqr_t) : Nat :=
  if BITMGET sqr.flags NES_APU_FLAG_SQR_ENABLED = 0 then 0
  else if sqr.length = 0 then 0
  else if duty_tbl sqr.duty_mode sqr.duty_val = 0 then 0
  else if sqr.tmr_period < 8 ∨ sqr.tmr_period > 0x7FF then 0
  else if BITMGET sqr.flags NES_APU_FLAG_SQR_ENV_ENABLED ≠ 0 then sqr.env_vol
  else sqr.const_vol

/-- Triangle: control register write. -/
def nes_apu_tri_write_ctrl (tri : nes_apu_tri_t) (val : Nat) : nes_apu_tri_t :=
  let tri := { tri with counter_period := val &&& 0x7F }
  let tri := if val = 0x00 then { tri with counter_val := 0 } else tri
  { tri with flags :=
      (BITMCHG tri.flags NES_APU_FLAG_TRI_LEN_ENABLED (c_bool (decide ((val >>> 7) &&& 0x01 = 0)))) % 0x100 }

/-- Triangle: timer lo write. -/
def nes_apu_tri_write_tmr_low (tri : nes_apu_tri_t) (val : Nat) : nes_apu_tri_t :=
  { tri with tmr_period := ((tri.tmr_period &&& 0xFF00) ||| val) % 0x10000 }

/-- Triangle: timer hi write. -/
def nes_apu_tri_write_tmr_high (tri : nes_apu_tri_t) (val : Nat) : nes_apu_tri_t :=
  let tri := { tri with length := len_tbl (val >>> 3) }
  let tri := { tri with
    tmr_period := ((tri.tmr_period &&& 0x00FF) ||| (((val &&& 0x07) <<< 8) % 0x10000)) % 0x10000 }
  let tri := { tri with tmr_val := to_int16 tri.tmr_period }
  { tri with flags := BITMSET tri.flags NES_APU_FLAG_TRI_COUNTER_RELOAD % 0x100 }

/-- Triangle: steps timer and duty values. -/
def nes_apu_tri_step_tmr (tri : nes_apu_tri_t) : nes_apu_tri_t :=
  if tri.tmr_val = 0 then
    let tri := { tri with tmr_val := to_int16 tri.tmr_period }
    if tri.length > 0 ∧ tri.counter_val > 0 then
      let tri := { tri with duty_val := (tri.duty_val + 1) % 32 }
      if tri.tmr_val > 1 then { tri with duty_out := tri.duty_val } else tri
    else tri
  else
    { tri with tmr_val := to_int16 (Int.toNat ((tri.tmr_val - 1) % 0x10000)) }

/-- Triangle: steps the signal length if needed. -/
def nes_apu_tri_step_len (tri : nes_apu_tri_t) : nes_apu_tri_t :=
  if BITMGET tri.flags NES_APU_FLAG_TRI_LEN_ENABLED ≠ 0 ∧ tri.length > 0 then
    { tri with length := tri.length - 1 }
  else tri

/-- Triangle: steps or reloads the linear counter as required. -/
def nes_apu_tri_step_cnt (tri : nes_apu_tri_t) : nes_apu_tri_t :=
  let tri :=
    if BITMGET tri.flags NES_APU_FLAG_TRI_COUNTER_RELOAD ≠ 0 then
      { tri with counter_val := to_int8 tri.counter_period }
    else if tri.counter_val > 0 then
      { tri with counter_val := tri.counter_val - 1 }
    else tri
  if BITMGET tri.flags NES_APU_FLAG_TRI_LEN_ENABLED ≠ 0 then
    { tri with flags := BITMCLR tri.flags NES_APU_FLAG_TRI_COUNTER_RELOAD % 0x100 }
  else tri

/-- Triangle: channel output for the current APU tick. -/
def nes_apu_tri_get_output (tri : nes_apu_tri_t) : Nat :=
  if BITMGET tri.flags NES_APU_FLAG_TRI_ENABLED = 0 then 0
  else if tri.length = 0 then 0
  else if tri.counter_val = 0 then 0
  else tri_tbl tri.duty_out

/-- Noise: control register write. -/
def nes_apu_noi_write_ctrl (noi : nes_apu_noi_t) (val : Nat) : nes_apu_noi_t :=
  let noi := { noi with env_period := val &&& 0x0F }
  let noi := { noi with const_vol := val &&& 0x0F }
  let noi := { noi with env_vol := val &&& 0x1F }
  let noi := { noi with flags :=
      (BITMCHG noi.flags NES_APU_FLAG_NOI_LEN_ENABLED (c_bool (decide ((val >>> 5) &&& 0x01 = 0)))) % 0x100 }
  let noi := { noi with flags :=
      (BITMCHG noi.flags NES_APU_FLAG_NOI_ENV_LOOP ((val >>> 5) &&& 0x01)) % 0x100 }
  let noi := { noi with flags :=
      (BITMCHG noi.flags NES_APU_FLAG_NOI_ENV_ENABLED (c_bool (decide ((val >>> 4) &&& 0x01 = 0)))) % 0x100 }
  { noi with flags := BITMSET noi.flags NES_APU_FLAG_NOI_ENV_START % 0x100 }

/-- Noise: timer period write. -/
def nes_apu_noi_write_prd (noi : nes_apu_noi_t) (val : Nat) : nes_apu_noi_t :=
  let noi := { noi with flags :=
      (BITMCHG noi.flags NES_APU_FLAG_NOI_MODE (BITMGET val 0x80)) % 0x100 }
  let noi := { noi with tmr_period := noi_tbl (val &&& 0x0F) }
  { noi with tmr_val := noi.tmr_period }

/-- Noise: signal length write. -/
def nes_apu_noi_write_len (noi : nes_apu_noi_t) (val : Nat) : nes_apu_noi_t :=
  let noi := { noi with length := len_tbl (val >>> 3) }
  { noi with flags := BITMSET noi.flags NES_APU_FLAG_NOI_ENV_START % 0x100 }

/-- Noise: steps the timer value and the shift register. -/
def nes_apu_noi_step_tmr (noi : nes_apu_noi_t) : nes_apu_noi_t :=
  let noi := { noi with tmr_val := (noi.tmr_val + 0x10000 - 1) % 0x10000 }
  if noi.tmr_val = 0 then
    let tmp :=
      if BITMGET noi.flags NES_APU_FLAG_NOI_MODE ≠ 0 then (noi.shift &&& 0x40) >>> 6
      else (noi.shift &&& 0x02) >>> 1
    let feedback := (noi.shift &&& 0x01) ^^^ tmp
    let noi := { noi with shift := ((noi.shift >>> 1) ||| (feedback <<< 14)) % 0x10000 }
    { noi with tmr_val := noi.tmr_period }
  else noi

/-- Noise: steps envelope values. -/
def nes_apu_noi_step_env (noi : nes_apu_noi_t) : nes_apu_noi_t :=
  if BITMGET noi.flags NES_APU_FLAG_NOI_ENV_START ≠ 0 then
    let noi := { noi with env_vol := 15 }
    let noi := { noi with env_val := to_int8 noi.env_period }
    { noi with flags := BITMCLR noi.flags NES_APU_FLAG_NOI_ENV_START % 0x100 }
  else if noi.env_val > 0 then
    { noi with env_val := noi.env_val - 1 }
  else
    let noi := { noi with env_val := to_int8 noi.env_period }
    if noi.env_vol > 0 then { noi with env_vol := noi.env_vol - 1 }
    else if BITMGET noi.flags NES_APU_FLAG_NOI_ENV_LOOP ≠ 0 then { noi with env_vol := 15 }
    else noi

/-- Noise: steps signal length value. -/
def nes_apu_noi_step_len (noi : nes_apu_noi_t) : nes_apu_noi_t :=
  if BITMGET noi.flags NES_APU_FLAG_NOI_LEN_ENABLED ≠ 0 ∧ noi.length > 0 then
    { noi with length := noi.length - 1 }
  else noi

/-- Noise: channel output for the current APU tick (an integer returned as
`float`). -/
def nes_apu_noi_get_output (noi : nes_apu_noi_t) : Nat :=
  if BITMGET noi.flags NES_APU_FLAG_NOI_ENABLED = 0 then 0
  else if noi.length = 0 then 0
  else if noi.shift &&& 1 ≠ 0 then 0
  else if BITMGET noi.flags NES_APU_FLAG_NOI_ENV_ENABLED ≠ 0 then noi.env_vol
  else noi.const_vol

/-- DMC: control register write. -/
def nes_apu_dmc_write_ctrl (dmc : nes_apu_dmc_t) (val : Nat) : nes_apu_dmc_t :=
  let dmc := { dmc with flags := BITMCHG dmc.flags NES_APU_FLAG_DMC_IRQ (val &&& 0x80) % 0x100 }
  let dmc := { dmc with flags := BITMCHG dmc.flags NES_APU_FLAG_DMC_LOOP (val &&& 0x40) % 0x100 }
  { dmc with tick_period := dmc_tbl (val &&& 0x0F) }

/-- DMC: signal value write. -/
def nes_apu_dmc_write_value (dmc : nes_apu_dmc_t) (val : Nat) : nes_apu_dmc_t :=
  { dmc with value := val &&& 0x7F }

/-- DMC: sample address write. -/
def nes_apu_dmc_write_addr (dmc : nes_apu_dmc_t) (val : Nat) : nes_apu_dmc_t :=
  { dmc with sample_addr := (0xC000 ||| ((val <<< 6) % 0x10000)) % 0x10000 }

/-- DMC: sample length write. -/
def nes_apu_dmc_write_length (dmc : nes_apu_dmc_t) (val : Nat) : nes_apu_dmc_t :=
  { dmc with sample_length := (((val <<< 4) % 0x10000) ||| 1) % 0x10000 }

/-- DMC: resets sample playback to the start of the sample. -/
def nes_apu_dmc_restart (dmc : nes_apu_dmc_t) : nes_apu_dmc_t :=
  let dmc := { dmc with cur_addr := dmc.sample_addr }
  { dmc with cur_length := dmc.sample_length }

/-- DMC: steps the shift register, modifying the output level. -/
def nes_apu_dmc_step_shifter (dmc : nes_apu_dmc_t) : nes_apu_dmc_t :=
  if dmc.bit = 0 then dmc
  else
    let dmc :=
      if dmc.shift &&& 1 ≠ 0 then
        (if dmc.value ≤ 125 then { dmc with value := dmc.value + 2 } else dmc)
      else
        (if dmc.value ≥ 2 then { dmc with value := dmc.value - 2 } else dmc)
    let dmc := { dmc with shift := dmc.shift >>> 1 }
    { dmc with bit := dmc.bit - 1 }

/-- DMC: output value for the current APU tick. -/
def nes_apu_dmc_get_output (dmc : nes_apu_dmc_t) : Nat :=
  dmc.value

/-- Square registers write, `addr` is the register index. -/
def nes_apu_sqr_write (sqr : nes_apu_sqr_t) (addr : Nat) (val : Nat) : nes_apu_sqr_t :=
  match addr with
  | 0 => nes_apu_sqr_write_ctrl sqr val
  | 1 => nes_apu_sqr_write_sweep sqr val
  | 2 => nes_apu_sqr_write_tmr_low sqr val
  | 3 => nes_apu_sqr_write_tmr_high sqr val
  | _ => sqr

/-- Triangle registers write, `addr` is the register index. -/
def nes_apu_tri_write (tri : nes_apu_tri_t) (addr : Nat) (val : Nat) : nes_apu_tri_t :=
  match addr with
  | 0 => nes_apu_tri_write_ctrl tri val
  | 1 => nes_apu_tri_write_tmr_low tri val
  | 2 => nes_apu_tri_write_tmr_low tri val
  | 3 => nes_apu_tri_write_tmr_high tri val
  | _ => tri

/-- Noise registers write, `addr` is the register index. -/
def nes_apu_noi_write (noi : nes_apu_noi_t) (addr : Nat) (val : Nat) : nes_apu_noi_t :=
  match addr with
  | 0 => nes_apu_noi_write_ctrl noi val
  | 1 => noi
  | 2 => nes_apu_noi_write_prd noi val
  | 3 => nes_apu_noi_write_len noi val
  | _ => noi

/-- DMC registers write, `addr` is the register index. -/
def nes_apu_dmc_write (dmc : nes_apu_dmc_t) (addr : Nat) (val : Nat) : nes_apu_dmc_t :=
  match addr with
  | 0 => nes_apu_dmc_write_ctrl dmc val
  | 1 => nes_apu_dmc_write_value dmc val
  | 2 => nes_apu_dmc_write_addr dmc val
  | 3 => nes_apu_dmc_write_length dmc val
  | _ => dmc

/-- Envelope tick. -/
def nes_apu_step_env (nes : nes_t) : nes_t :=
  let nes := { nes with apu := { nes.apu with sq1 := nes_apu_sqr_step_env nes.apu.sq1 } }
  let nes := { nes with apu := { nes.apu with sq2 := nes_apu_sqr_step_env nes.apu.sq2 } }
  let nes := { nes with apu := { nes.apu with tri := nes_apu_tri_step_cnt nes.apu.tri } }
  { nes with apu := { nes.apu with noi := nes_apu_noi_step_env nes.apu.noi } }

/-- Sweep tick. -/
def nes_apu_step_sweep (nes : nes_t) : nes_t :=
  let nes := { nes with apu := { nes.apu with sq1 := nes_apu_sqr_step_sweep nes.apu.sq1 } }
  { nes with apu := { nes.apu with sq2 := nes_apu_sqr_step_sweep nes.apu.sq2 } }

/-- Length tick. -/
def nes_apu_step_len (nes : nes_t) : nes_t :=
  let nes := { nes with apu := { nes.apu with sq1 := nes_apu_sqr_step_len nes.apu.sq1 } }
  let nes := { nes with apu := { nes.apu with sq2 := nes_apu_sqr_step_len nes.apu.sq2 } }
  let nes := { nes with apu := { nes.apu with tri := nes_apu_tri_step_len nes.apu.tri } }
  { nes with apu := { nes.apu with noi := nes_apu_noi_step_len nes.apu.noi } }

/-- Fires IRQ if required.  The CPU interrupt entry `nes_cpu_irq` is defined
later in the translation (it pushes through the CPU bus, which in turn reaches
the APU registers), so it is received as the argument `irq`. -/
def nes_apu_fire_irq (irq : nes_t → nes_t) (nes : nes_t) : nes_t :=
  if nes.apu.frame_irq ≠ 0 then irq nes else nes

/-- APU frame sequencer step (`irq` as in `nes_apu_fire_irq`). -/
def nes_apu_step_frame_counter (irq : nes_t → nes_t) (nes : nes_t) : nes_t :=
  let nes := { nes with apu := { nes.apu with frame_val := (nes.apu.frame_val + 1) % 0x100 } }
  let nes :=
    if nes.apu.frame_period = 4 then
      match nes.apu.frame_val with
      | 3 =>
        let nes := nes_apu_fire_irq irq nes
        let nes := nes_apu_step_len nes
        nes_apu_step_sweep nes
      | 1 =>
        let nes := nes_apu_step_len nes
        nes_apu_step_sweep nes
      | _ => nes
    else if nes.apu.frame_period = 5 then
      match nes.apu.frame_val with
      | 1 =>
        let nes := nes_apu_step_len nes
        nes_apu_step_sweep nes
      | 4 =>
        let nes := nes_apu_step_len nes
        nes_apu_step_sweep nes
      | _ => nes
    else nes
  let nes := nes_apu_step_env nes
  if nes.apu.frame_val ≥ nes.apu.frame_period then
    { nes with apu := { nes.apu with frame_val := 0 } }
  else nes

/-- APU control register write ($4015); each `if (!enabled) x.length = 0;` is
written as a conditional value of the field. -/
def nes_apu_write_ctrl (nes : nes_t) (val : Nat) : nes_t :=
  let nes := { nes with apu := { nes.apu with sq1 := { nes.apu.sq1 with
    flags := BITMCHG nes.apu.sq1.flags NES_APU_FLAG_SQR_ENABLED (BITMGET val 0x01) % 0x100 } } }
  let nes := { nes with apu := { nes.apu with sq2 := { nes.apu.sq2 with
    flags := BITMCHG nes.apu.sq2.flags NES_APU_FLAG_SQR_ENABLED (BITMGET val 0x02) % 0x100 } } }
  let nes := { nes with apu := { nes.apu with tri := { nes.apu.tri with
    flags := BITMCHG nes.apu.tri.flags NES_APU_FLAG_TRI_ENABLED (BITMGET val 0x04) % 0x100 } } }
  let nes := { nes with apu := { nes.apu with noi := { nes.apu.noi with
    flags := BITMCHG nes.apu.noi.flags NES_APU_FLAG_NOI_ENABLED (BITMGET val 0x08) % 0x100 } } }
  let nes := { nes with apu := { nes.apu with dmc := { nes.apu.dmc with
    flags := BITMCHG nes.apu.dmc.flags NES_APU_FLAG_DMC_ENABLED (BITMGET val 0x10) % 0x100 } } }
  let nes := { nes with apu := { nes.apu with sq1 := { nes.apu.sq1 with
    length := if BITMGET nes.apu.sq1.flags NES_APU_FLAG_SQR_ENABLED = 0 then 0
      else nes.apu.sq1.length } } }
  let nes := { nes with apu := { nes.apu with sq2 := { nes.apu.sq2 with
    length := if BITMGET nes.apu.sq2.flags NES_APU_FLAG_SQR_ENABLED = 0 then 0
      else nes.apu.sq2.length } } }
  let nes := { nes with apu := { nes.apu with tri := { nes.apu.tri with
    length := if BITMGET nes.apu.tri.flags NES_APU_FLAG_TRI_ENABLED = 0 then 0
      else nes.apu.tri.length } } }
  let nes := { nes with apu := { nes.apu with noi := { nes.apu.noi with
    length := if BITMGET nes.apu.noi.flags NES_APU_FLAG_NOI_ENABLED = 0 then 0
      else nes.apu.noi.length } } }
  { nes with apu := { nes.apu with
    dmc :=
      if BITMGET nes.apu.dmc.flags NES_APU_FLAG_DMC_ENABLED = 0 then
        { nes.apu.dmc with cur_length := 0 }
      else if nes.apu.dmc.cur_length = 0 then nes_apu_dmc_restart nes.apu.dmc
      else nes.apu.dmc } }

/-- APU frame counter register write ($4017). -/
def nes_apu_write_frame_counter (irq : nes_t → nes_t) (nes : nes_t) (val : Nat) : nes_t :=
  let nes := { nes with apu := { nes.apu with frame_period := 4 + ((val >>> 7) &&& 0x01) } }
  let nes := if nes.apu.frame_period = 5 then nes_apu_step_frame_counter irq nes else nes
  { nes with apu := { nes.apu with frame_irq := c_bool (decide ((val >>> 6) &&& 1 = 0)) } }

/-- APU registers write, `addr` is the register index. -/
def nes_apu_write (irq : nes_t → nes_t) (nes : nes_t) (addr : Nat) (val : Nat) : nes_t :=
  if addr < 0x04 then
    { nes with apu := { nes.apu with sq1 := nes_apu_sqr_write nes.apu.sq1 addr val } }
  else if addr < 0x08 then
    { nes with apu := { nes.apu with sq2 := nes_apu_sqr_write nes.apu.sq2 (addr - 0x04) val } }
  else if addr < 0x0C then
    { nes with apu := { nes.apu with tri := nes_apu_tri_write nes.apu.tri (addr - 0x08) val } }
  else if addr < 0x10 then
    { nes with apu := { nes.apu with noi := nes_apu_noi_write nes.apu.noi (addr - 0x0C) val } }
  else if addr < 0x14 then
    { nes with apu := { nes.apu with dmc := nes_apu_dmc_write nes.apu.dmc (addr - 0x10) val } }
  else if addr = 0x15 then nes_apu_write_ctrl nes val
  else if addr = 0x17 then nes_apu_write_frame_counter irq nes val
  else nes

/-- APU registers read, `addr` is the register index. -/
def nes_apu_read (nes : nes_t) (addr : Nat) : Nat :=
  if addr = 0x15 then
    (if nes.apu.sq1.length > 0 then 0x01 else 0x00) |||
    (if nes.apu.sq2.length > 0 then 0x02 else 0x00) |||
    (if nes.apu.tri.length > 0 then 0x04 else 0x00) |||
    (if nes.apu.noi.length > 0 then 0x08 else 0x00) |||
    (if nes.apu.dmc.cur_length > 0 then 0x10 else 0x00)
  else 0x00

/-! ## CPU address space: reads -/

/-- CPU memory read function of NROM (mappers/nrom.h). -/
def nes_mem_read_nrom (nes : nes_t) (addr : Nat) : Nat × nes_t :=
  if addr < 0x2000 then (nes_ram_read nes (addr &&& 0x07FF), nes)
  else if addr = 0x4016 ∨ addr = 0x4017 then nes_input_read nes (addr - 0x4016)
  else if addr < 0x4000 then nes_ppu_read nes (addr &&& 0x0007)
  else if addr < 0x4020 then (nes_apu_read nes (addr - 0x4000), nes)
  else if addr ≥ 0xC000 then (nes_prg_read nes 0 (addr - 0xC000), nes)
  else if addr ≥ 0x8000 then (nes_prg_read nes 1 (addr - 0x8000), nes)
  else if addr ≥ 0x6000 then (nes_prgram_read nes (addr - 0x6000), nes)
  else (0x00, nes)

/-- CPU memory read function of MMC1 (mappers/mmc1.h). -/
def nes_mem_read_mmc1 (nes : nes_t) (addr : Nat) : Nat × nes_t :=
  if addr < 0x2000 then (nes_ram_read nes (addr &&& 0x07FF), nes)
  else if addr = 0x4016 ∨ addr = 0x4017 then nes_input_read nes (addr - 0x4016)
  else if addr < 0x4000 then nes_ppu_read nes (addr &&& 0x0007)
  else if addr < 0x4020 then (nes_apu_read nes (addr - 0x4000), nes)
  else if addr ≥ 0xC000 then (nes_prg_read nes 0 (addr - 0xC000), nes)
  else if addr ≥ 0x8000 then (nes_prg_read nes 1 (addr - 0x8000), nes)
  else if addr ≥ 0x6000 then (nes_prgram_read nes (addr - 0x6000), nes)
  else (0x00, nes)

/-- CPU memory read function of CNROM (mappers/cnrom.h). -/
def nes_mem_read_cnrom (nes : nes_t) (addr : Nat) : Nat × nes_t :=
  if addr < 0x2000 then (nes_ram_read nes (addr &&& 0x07FF), nes)
  else if addr = 0x4016 ∨ addr = 0x4017 then nes_input_read nes (addr - 0x4016)
  else if addr < 0x4000 then nes_ppu_read nes (addr &&& 0x0007)
  else if addr < 0x4020 then (nes_apu_read nes (addr - 0x4000), nes)
  else if addr ≥ 0xC000 then (nes_prg_read nes 0 (addr - 0xC000), nes)
  else if addr ≥ 0x8000 then (nes_prg_read nes 1 (addr - 0x8000), nes)
  else (0x00, nes)

/-- CPU memory read function of MMC3 (mappers/mmc3.h). -/
def nes_mem_read_mmc3 (nes : nes_t) (addr : Nat) : Nat × nes_t :=
  let mmc := mmc3_extra nes
  if addr < 0x2000 then (nes_ram_read nes (addr &&& 0x07FF), nes)
  else if addr = 0x4016 ∨ addr = 0x4017 then nes_input_read nes (addr - 0x4016)
  else if addr < 0x4000 then nes_ppu_read nes (addr &&& 0x0007)
  else if addr < 0x4020 then (nes_apu_read nes (addr - 0x4000), nes)
  else if addr ≥ 0x8000 then
    let addr := addr - 0x8000
    let bank8 := addr / 0x2000
    let offset := addr &&& 0x1FFF
    let bank16 := (mmc.prg_offset bank8 / 0x4000) % 0x10000
    let bank8_base := 0x2000 * ((mmc.prg_offset bank8 / 0x2000) &&& 0x01)
    (nes.cart.rom bank16 (bank8_base + offset), nes)
  else if addr ≥ 0x6000 then (nes_prgram_read nes (addr - 0x6000), nes)
  else (0x00, nes)

/-- Reads a byte from CPU address space:
`nes->cart.mapper.funcs.read(nes, addr)`. -/
def nes_mem_readb (nes : nes_t) (addr : Nat) : Nat × nes_t :=
  match nes.cart.mapper.funcs with
  | .nrom => nes_mem_read_nrom nes addr
  | .mmc1 => nes_mem_read_mmc1 nes addr
  | .cnrom => nes_mem_read_cnrom nes addr
  | .mmc3 => nes_mem_read_mmc3 nes addr

/-- Reads a byte from CPU address space using zero-page addressing. -/
def nes_mem_readb_zp (nes : nes_t) (addr : Nat) : Nat × nes_t :=
  nes_mem_readb nes (addr &&& 0xFF)

/-- Reads a word from CPU address space:
`((uint16_t)nes_mem_readb(nes, addr + 1) << 8) | nes_mem_readb(nes, addr)`.
C leaves the order of the two calls open; they are taken in the order written
(it only matters when a read has a side effect). -/
def nes_mem_readw (nes : nes_t) (addr : Nat) : Nat × nes_t :=
  let r1 := nes_mem_readb nes ((addr + 1) % 0x10000)
  let r2 := nes_mem_readb r1.2 addr
  (((r1.1 <<< 8) % 0x10000) ||| r2.1, r2.2)

/-- Reads a word from CPU address space using zero-page addressing (the two
calls in the order written, as in `nes_mem_readw`). -/
def nes_mem_readw_zp (nes : nes_t) (addr : Nat) : Nat × nes_t :=
  let r1 := nes_mem_readb nes ((addr + 1) &&& 0xFF)
  let r2 := nes_mem_readb r1.2 (addr &&& 0xFF)
  (((r1.1 <<< 8) % 0x10000) ||| r2.1, r2.2)

/-- Reads byte at PC and increments PC. -/
def nes_mem_read_nextb (nes : nes_t) : Nat × nes_t :=
  let r := nes_mem_readb nes nes.cpu.pc
  (r.1, { r.2 with cpu := { r.2.cpu with pc := (r.2.cpu.pc + 1) % 0x10000 } })

/-- Reads word at PC and increments PC. -/
def nes_mem_read_nextw (nes : nes_t) : Nat × nes_t :=
  let r := nes_mem_readw nes nes.cpu.pc
  (r.1, { r.2 with cpu := { r.2.cpu with pc := (r.2.cpu.pc + 2) % 0x10000 } })

/-- Calculates JMI target address. -/
def nes_jmi_addr (nes : nes_t) (addr : Nat) : Nat × nes_t :=
  let lo := nes_mem_readb nes addr
  let hi := nes_mem_readb lo.2 ((addr &&& 0xFF00) ||| ((addr + 1) &&& 0x00FF))
  (((hi.1 <<< 8) % 0x10000) ||| lo.1, hi.2)

/-- The loop of `nes_ppu_oamdma`, with `n` iterations left:
`oam[oam_addr] = nes_mem_readb(nes, addr); oam_addr++; addr++;` -/
def nes_ppu_oamdma_loop : Nat → nes_t → Nat → nes_t
  | 0, nes, _ => nes
  | n + 1, nes, addr =>
    let r := nes_mem_readb nes addr
    let nes := { r.2 with vmem := { r.2.vmem with
      oam := arr_set r.2.vmem.oam r.2.ppu.oam_addr r.1 } }
    let nes := { nes with ppu := { nes.ppu with oam_addr := (nes.ppu.oam_addr + 1) % 0x100 } }
    nes_ppu_oamdma_loop n nes ((addr + 1) % 0x10000)

/-- Handles OAM DMA ($4014 writes); stalls the CPU for 513 or 514 cycles. -/
def nes_ppu_oamdma (nes : nes_t) (page : Nat) : nes_t :=
  let addr := (page * 0x100) % 0x10000
  let nes := nes_ppu_oamdma_loop 256 nes addr
  { nes with cpu := { nes.cpu with
      stall := (nes.cpu.stall + (513 + (nes.cpu.cycle &&& 0x01))) % 0x10000000000000000 } }

/-! ## mappers/mmc1.h: registers -/

/-- MMC1 register bit masks. -/
def MMC1_R0_PRGAREA : Nat := 0x04
/-- PRG bank size select bit mask. -/
def MMC1_R0_PRGSIZE : Nat := 0x08
/-- CHR mode bit mask. -/
def MMC1_R0_VROMSW : Nat := 0x10
/-- Reset bit mask. -/
def MMC1_R0_RESET : Nat := 0x80
/-- Reset bit mask of R1. -/
def MMC1_R1_RESET : Nat := 0x80
/-- Reset bit mask of R2. -/
def MMC1_R2_RESET : Nat := 0x80
/-- Reset bit mask of R3. -/
def MMC1_R3_RESET : Nat := 0x80
/-- PRG-RAM enable bit mask. -/
def MMC1_R3_SAVECE : Nat := 0x10
/-- Initial control register value, `MMC1_R0_PRGSIZE | MMC1_R0_PRGAREA`. -/
def MMC1_R0_DEF : Nat := MMC1_R0_PRGSIZE ||| MMC1_R0_PRGAREA
/-- Initial CHR0 register value. -/
def MMC1_R1_DEF : Nat := 0
/-- Initial CHR1 register value. -/
def MMC1_R2_DEF : Nat := 0
/-- Initial PRG register value. -/
def MMC1_R3_DEF : Nat := 0

/-- `#define MMC1_GETBIT(v) BITMGET(v, 0x01)` -/
def MMC1_GETBIT (v : Nat) : Nat := BITMGET v 0x01

/-- `#define MMC1_ADDBIT(a, v, b) BITCHG(a, b, v)` -/
def MMC1_ADDBIT (a v b : Nat) : Nat := BITCHG a b v

/-- Applies MMC1 settings, changing mirroring and banks.  (`rom16_count - 1`
is computed in `Nat`; with no PRG bank at all the C index is -1.) -/
def nes_mmc1_apply (nes : nes_t) : nes_t :=
  let ex := mmc1_extra nes
  let nes :=
    match ex.r0 &&& 0x03 with
    | 0 => nes_cart_set_mirroring nes .MIRROR_SINGLESCREEN0
    | 1 => nes_cart_set_mirroring nes .MIRROR_SINGLESCREEN1
    | 2 => nes_cart_set_mirroring nes .MIRROR_VERTICAL
    | _ => nes_cart_set_mirroring nes .MIRROR_HORIZONTAL
  let prg :=
    if ex.old_switch_area ≠ ex.r0 &&& MMC1_R0_PRGAREA ∧ ex.r0 &&& MMC1_R0_PRGSIZE ≠ 0 then
      if ex.r0 &&& MMC1_R0_PRGAREA ≠ 0 then
        arr_set (arr_set nes.mem.prg 1 (some ex.cur_bank)) 0 (some (nes.cart.rom16_count - 1))
      else
        arr_set (arr_set nes.mem.prg 1 (some 0)) 0 (some ex.cur_bank)
    else nes.mem.prg
  let nes := { nes with mem := { nes.mem with prg := prg } }
  set_mmc1_extra nes { ex with old_switch_area := ex.r0 &&& MMC1_R0_PRGAREA }

/-- Writes to the R0 MMC1 register. -/
def nes_mmc1_write_r0 (nes : nes_t) (val : Nat) : nes_t :=
  let ex := mmc1_extra nes
  if val &&& MMC1_R0_RESET ≠ 0 then
    nes_mmc1_apply (set_mmc1_extra nes { ex with r0 := MMC1_R0_DEF })
  else
    let ex := { ex with bit_buf := MMC1_ADDBIT ex.bit_buf (MMC1_GETBIT val) ex.bit % 0x100 }
    if ex.bit < 4 then
      set_mmc1_extra nes { ex with bit := ex.bit + 1 }
    else
      let ex := { ex with bit := 0 }
      let ex := { ex with r0 := ex.bit_buf }
      nes_mmc1_apply (set_mmc1_extra nes ex)

/-- Writes to the R1 MMC1 register. -/
def nes_mmc1_write_r1 (nes : nes_t) (val : Nat) : nes_t :=
  let ex := mmc1_extra nes
  if val &&& MMC1_R1_RESET ≠ 0 then
    set_mmc1_extra nes { ex with r1 := MMC1_R1_DEF }
  else
    let ex := { ex with bit_buf := MMC1_ADDBIT ex.bit_buf (MMC1_GETBIT val) ex.bit % 0x100 }
    if ex.bit < 4 then
      set_mmc1_extra nes { ex with bit := ex.bit + 1 }
    else
      let ex := { ex with bit := 0 }
      let ex := { ex with r1 := ex.bit_buf }
      let ex := { ex with chr_bank_sw := ex.r1 }
      let ex := { ex with
        chr_bank := arr_set ex.chr_bank 0
          (if ex.r0 &&& MMC1_R0_VROMSW ≠ 0 then ex.chr_bank_sw else ex.chr_bank_sw >>> 1) }
      set_mmc1_extra nes ex

/-- Writes to the R2 MMC1 register. -/
def nes_mmc1_write_r2 (nes : nes_t) (val : Nat) : nes_t :=
  let ex := mmc1_extra nes
  if val &&& MMC1_R2_RESET ≠ 0 then
    set_mmc1_extra nes { ex with r2 := MMC1_R2_DEF }
  else
    let ex := { ex with bit_buf := MMC1_ADDBIT ex.bit_buf (MMC1_GETBIT val) ex.bit % 0x100 }
    if ex.bit < 4 then
      set_mmc1_extra nes { ex with bit := ex.bit + 1 }
    else
      let ex := { ex with bit := 0 }
      let ex := { ex with r2 := ex.bit_buf }
      let ex := { ex with chr_bank_sw := ex.r2 }
      let ex := { ex with
        chr_bank := arr_set ex.chr_bank 1
          (if ex.r0 &&& MMC1_R0_VROMSW ≠ 0 then ex.chr_bank_sw else ex.chr_bank_sw >>> 1) }
      set_mmc1_extra nes ex

/-- Writes to the R3 MMC1 register. -/
def nes_mmc1_write_r3 (nes : nes_t) (val : Nat) : nes_t :=
  let ex := mmc1_extra nes
  if val &&& MMC1_R3_RESET ≠ 0 then
    set_mmc1_extra nes { ex with r3 := MMC1_R3_DEF }
  else
    let ex := { ex with bit_buf := MMC1_ADDBIT ex.bit_buf (MMC1_GETBIT val) ex.bit % 0x100 }
    if ex.bit < 4 then
      set_mmc1_extra nes { ex with bit := ex.bit + 1 }
    else
      let ex := { ex with bit := 0 }
      let ex := { ex with r3 := ex.bit_buf }
      let nes := set_mmc1_extra nes ex
      if ex.r3 ≥ nes.cart.rom16_count then nes
      else
        let prg :=
          if ex.r0 &&& MMC1_R0_PRGSIZE ≠ 0 then
            if ex.r0 &&& MMC1_R0_PRGAREA ≠ 0 then arr_set nes.mem.prg 1 (some ex.r3)
            else arr_set nes.mem.prg 0 (some ex.r3)
          else
            arr_set (arr_set nes.mem.prg 1 (some (ex.r3 >>> 1))) 0 (some ((ex.r3 >>> 1) + 1))
        { nes with mem := { nes.mem with prg := prg } }

/-- Writes to the MMC1 register at specified address. -/
def nes_mmc1_write_reg (nes : nes_t) (addr : Nat) (val : Nat) : nes_t :=
  if addr ≤ 0x9FFF then nes_mmc1_write_r0 nes val
  else if addr ≤ 0xBFFF then nes_mmc1_write_r1 nes val
  else if addr ≤ 0xDFFF then nes_mmc1_write_r2 nes val
  else if addr ≤ 0xFFFF then nes_mmc1_write_r3 nes val
  else nes

/-- MMC1 mapper initialisation: a zeroed (`calloc`) extra struct with the
default register values, fixed last bank at $C000 and bank 0 at $8000. -/
def nes_init_mmc1 (nes : nes_t) : nes_t :=
  let ex : nes_mmc1_extra_t :=
    { r0 := MMC1_R0_DEF, r1 := MMC1_R1_DEF, r2 := MMC1_R2_DEF, r3 := MMC1_R3_DEF
      cur_bank := 0, old_switch_area := MMC1_R0_PRGAREA
      chr_bank := arr_set (arr_set (fun _ => 0) 0 0) 1 1
      chr_bank_sw := 0
      bit := 0, bit_buf := 0 }
  let nes := set_mmc1_extra nes ex
  { nes with mem := { nes.mem with
      prg :=
        if nes.cart.rom16_count ≠ 0 then
          arr_set (arr_set nes.mem.prg 0 (some (nes.cart.rom16_count - 1))) 1 (some 0)
        else nes.mem.prg } }

/-- NROM mapper initialisation. -/
def nes_init_nrom (nes : nes_t) : nes_t :=
  { nes with mem := { nes.mem with
      prg :=
        if nes.cart.rom16_count ≠ 0 then
          arr_set (arr_set nes.mem.prg 0 (some (nes.cart.rom16_count - 1))) 1 (some 0)
        else nes.mem.prg } }

/-- CNROM mapper initialisation. -/
def nes_init_cnrom (nes : nes_t) : nes_t :=
  let nes := { nes with cart := { nes.cart with
    mapper := { nes.cart.mapper with extra := .word 0 } } }
  { nes with mem := { nes.mem with
      prg :=
        if nes.cart.rom16_count ≠ 0 then
          arr_set (arr_set nes.mem.prg 0 (some (nes.cart.rom16_count - 1))) 1 (some 0)
        else nes.mem.prg } }

/-! ## mappers/mmc3.h: registers -/

/-- Calculates MMC3 PRG bank offset for a given index (`int32_t` arithmetic,
`%` truncating towards zero; the result is converted to `uint32_t`). -/
def nes_mmc3_prg_offset (nes : nes_t) (idx : Int) : Nat :=
  let idx := if idx ≥ 0x80 then idx - 0x100 else idx
  let idx := Int.tmod idx ((nes.cart.rom16_count : Int) * 2)
  let offset := idx * 0x2000
  let offset := if offset < 0 then offset + (nes.cart.rom16_count : Int) * 0x4000 else offset
  Int.toNat (offset % 0x100000000)

/-- Calculates MMC3 CHR bank offset for a given index. -/
def nes_mmc3_chr_offset (nes : nes_t) (idx : Int) : Nat :=
  let idx := if idx ≥ 0x80 then idx - 0x100 else idx
  let idx := Int.tmod idx ((nes.cart.vram8_count : Int) * 8)
  let offset := idx * 0x0400
  let offset := if offset < 0 then offset + (nes.cart.vram8_count : Int) * 0x2000 else offset
  Int.toNat (offset % 0x100000000)

/-- The PRG half of `nes_mmc3_update_offsets` (`switch (mmc->prg_mode)`). -/
def nes_mmc3_update_prg_offsets (nes : nes_t) (mmc : nes_mmc3_extra_t) : Nat → Nat :=
  match mmc.prg_mode with
  | 0 =>
    arr_set (arr_set (arr_set (arr_set mmc.prg_offset
      0 (nes_mmc3_prg_offset nes (mmc.reg 6)))
      1 (nes_mmc3_prg_offset nes (mmc.reg 7)))
      2 (nes_mmc3_prg_offset nes (-2)))
      3 (nes_mmc3_prg_offset nes (-1))
  | 1 =>
    arr_set (arr_set (arr_set (arr_set mmc.prg_offset
      2 (nes_mmc3_prg_offset nes (mmc.reg 6)))
      1 (nes_mmc3_prg_offset nes (mmc.reg 7)))
      0 (nes_mmc3_prg_offset nes (-2)))
      3 (nes_mmc3_prg_offset nes (-1))
  | _ => mmc.prg_offset

/-- The CHR half of `nes_mmc3_update_offsets` (`switch (mmc->chr_mode)`). -/
def nes_mmc3_update_chr_offsets (nes : nes_t) (mmc : nes_mmc3_extra_t) : Nat → Nat :=
  match mmc.chr_mode with
  | 0 =>
    arr_set (arr_set (arr_set (arr_set (arr_set (arr_set (arr_set (arr_set mmc.chr_offset
      0 (nes_mmc3_chr_offset nes ((mmc.reg 0 &&& 0xFE : Nat) : Int)))
      1 (nes_mmc3_chr_offset nes ((mmc.reg 0 ||| 0x01 : Nat) : Int)))
      2 (nes_mmc3_chr_offset nes ((mmc.reg 1 &&& 0xFE : Nat) : Int)))
      3 (nes_mmc3_chr_offset nes ((mmc.reg 1 ||| 0x01 : Nat) : Int)))
      4 (nes_mmc3_chr_offset nes (mmc.reg 2)))
      5 (nes_mmc3_chr_offset nes (mmc.reg 3)))
      6 (nes_mmc3_chr_offset nes (mmc.reg 4)))
      7 (nes_mmc3_chr_offset nes (mmc.reg 5))
  | 1 =>
    arr_set (arr_set (arr_set (arr_set (arr_set (arr_set (arr_set (arr_set mmc.chr_offset
      4 (nes_mmc3_chr_offset nes ((mmc.reg 0 &&& 0xFE : Nat) : Int)))
      5 (nes_mmc3_chr_offset nes ((mmc.reg 0 ||| 0x01 : Nat) : Int)))
      6 (nes_mmc3_chr_offset nes ((mmc.reg 1 &&& 0xFE : Nat) : Int)))
      7 (nes_mmc3_chr_offset nes ((mmc.reg 1 ||| 0x01 : Nat) : Int)))
      0 (nes_mmc3_chr_offset nes (mmc.reg 2)))
      1 (nes_mmc3_chr_offset nes (mmc.reg 3)))
      2 (nes_mmc3_chr_offset nes (mmc.reg 4)))
      3 (nes_mmc3_chr_offset nes (mmc.reg 5))
  | _ => mmc.chr_offset

/-- Updates bank offsets. -/
def nes_mmc3_update_offsets (nes : nes_t) : nes_t :=
  let mmc := mmc3_extra nes
  let mmc := { mmc with prg_offset := nes_mmc3_update_prg_offsets nes mmc }
  let mmc := { mmc with chr_offset := nes_mmc3_update_chr_offsets nes mmc }
  set_mmc3_extra nes mmc

/-- Writes to MMC3 BANKSELECT register. -/
def nes_mmc3_write_bankselect (nes : nes_t) (val : Nat) : nes_t :=
  let mmc := mmc3_extra nes
  let mmc := { mmc with prg_mode := (val >>> 6) &&& 0x01 }
  let mmc := { mmc with chr_mode := (val >>> 7) &&& 0x01 }
  let mmc := { mmc with reg_idx := val &&& 0x07 }
  nes_mmc3_update_offsets (set_mmc3_extra nes mmc)

/-- Writes to MMC3 BANKDATA register. -/
def nes_mmc3_write_bankdata (nes : nes_t) (val : Nat) : nes_t :=
  let mmc := mmc3_extra nes
  let mmc := { mmc with reg := arr_set mmc.reg mmc.reg_idx val }
  nes_mmc3_update_offsets (set_mmc3_extra nes mmc)

/-- Writes to MMC3 MIRROR register. -/
def nes_mmc3_write_mirror (nes : nes_t) (val : Nat) : nes_t :=
  if val &&& 0x01 ≠ 0 then nes_cart_set_mirroring nes .MIRROR_HORIZONTAL
  else nes_cart_set_mirroring nes .MIRROR_VERTICAL

/-- Writes to the MMC3 register at given address. -/
def nes_mmc3_write (nes : nes_t) (addr : Nat) (val : Nat) : nes_t :=
  let mmc := mmc3_extra nes
  let f := addr &&& 0x01
  if addr ≤ 0x9FFF then
    if f ≠ 0 then nes_mmc3_write_bankdata nes val
    else nes_mmc3_write_bankselect nes val
  else if addr ≤ 0xBFFF then
    if f ≠ 0 then nes
    else nes_mmc3_write_mirror nes val
  else if addr ≤ 0xDFFF then
    if f ≠ 0 then set_mmc3_extra nes { mmc with counter := 0 }
    else set_mmc3_extra nes { mmc with reload := val }
  else if addr ≤ 0xFFFF then
    if f ≠ 0 then set_mmc3_extra nes { mmc with irq := 1 }
    else set_mmc3_extra nes { mmc with irq := 0 }
  else nes

/-- MMC3 mapper initialisation: a zeroed (`calloc`) extra struct, then the
four PRG offsets. -/
def nes_init_mmc3 (nes : nes_t) : nes_t :=
  let mmc : nes_mmc3_extra_t := ⟨0, fun _ => 0, 0, 0, fun _ => 0, fun _ => 0, 0, 0, 0⟩
  let nes := set_mmc3_extra nes mmc
  let mmc := { mmc with
    prg_offset :=
      arr_set (arr_set (arr_set (arr_set mmc.prg_offset
        0 (nes_mmc3_prg_offset nes 0))
        1 (nes_mmc3_prg_offset nes 1))
        2 (nes_mmc3_prg_offset nes (-2)))
        3 (nes_mmc3_prg_offset nes (-1)) }
  let nes := set_mmc3_extra nes mmc
  { nes with mem := { nes.mem with prg := arr_set (arr_set nes.mem.prg 0 none) 1 none } }

/-- `nes->cart.mapper.funcs.init(nes)`. -/
def nes_mapper_init (nes : nes_t) : nes_t :=
  match nes.cart.mapper.funcs with
  | .nrom => nes_init_nrom nes
  | .mmc1 => nes_init_mmc1 nes
  | .cnrom => nes_init_cnrom nes
  | .mmc3 => nes_init_mmc3 nes

/-! ## CPU address space: writes

The CPU bus write reaches the APU frame counter, whose sequencer can enter the
CPU interrupt sequence `nes_cpu_irq`, which pushes through the CPU bus write
again.  The cycle is cut by passing the callee as an argument: the mapper write
functions take the interrupt entry `irq`, the stack functions take the bus
write `wr`, and the two are tied together below (`nes_mem_writeb`,
`nes_cpu_irq`). -/

/-- CPU memory write function of NROM (mappers/nrom.h). -/
def nes_mem_write_nrom (irq : nes_t → nes_t) (nes : nes_t) (addr : Nat) (val : Nat) : nes_t :=
  if addr < 0x2000 then nes_ram_write nes (addr &&& 0x07FF) val
  else if addr < 0x4000 then nes_ppu_write nes (addr &&& 0x0007) val
  else if addr = 0x4014 then nes_ppu_oamdma nes val
  else if addr = 0x4016 then nes_input_write nes (addr - 0x4016) val
  else if addr < 0x4020 then nes_apu_write irq nes (addr - 0x4000) val
  else if addr ≥ 0x6000 then nes_prgram_write nes (addr - 0x6000) val
  else nes

/-- CPU memory write function of MMC1 (mappers/mmc1.h). -/
def nes_mem_write_mmc1 (irq : nes_t → nes_t) (nes : nes_t) (addr : Nat) (val : Nat) : nes_t :=
  if addr < 0x2000 then nes_ram_write nes (addr &&& 0x07FF) val
  else if addr < 0x4000 then nes_ppu_write nes (addr &&& 0x0007) val
  else if addr = 0x4014 then nes_ppu_oamdma nes val
  else if addr = 0x4016 then nes_input_write nes (addr - 0x4016) val
  else if addr < 0x4020 then nes_apu_write irq nes (addr - 0x4000) val
  else if addr ≥ 0x8000 then nes_mmc1_write_reg nes addr val
  else if addr ≥ 0x6000 then nes_prgram_write nes (addr - 0x6000) val
  else nes

/-- CPU memory write function of CNROM (mappers/cnrom.h). -/
def nes_mem_write_cnrom (irq : nes_t → nes_t) (nes : nes_t) (addr : Nat) (val : Nat) : nes_t :=
  if addr < 0x2000 then nes_ram_write nes (addr &&& 0x07FF) val
  else if addr < 0x4000 then nes_ppu_write nes (addr &&& 0x0007) val
  else if addr = 0x4014 then nes_ppu_oamdma nes val
  else if addr = 0x4016 ∨ addr = 0x4017 then nes_input_write nes (addr - 0x4016) val
  else if addr < 0x4020 then nes_apu_write irq nes (addr - 0x4000) val
  else if addr ≥ 0x8000 then
    let bank_id := val &&& 0x03
    { nes with cart := { nes.cart with mapper := { nes.cart.mapper with extra := .word bank_id } } }
  else nes

/-- CPU memory write function of MMC3 (mappers/mmc3.h). -/
def nes_mem_write_mmc3 (irq : nes_t → nes_t) (nes : nes_t) (addr : Nat) (val : Nat) : nes_t :=
  if addr < 0x2000 then nes_ram_write nes (addr &&& 0x07FF) val
  else if addr < 0x4000 then nes_ppu_write nes (addr &&& 0x0007) val
  else if addr = 0x4014 then nes_ppu_oamdma nes val
  else if addr = 0x4016 then nes_input_write nes (addr - 0x4016) val
  else if addr < 0x4020 then nes_apu_write irq nes (addr - 0x4000) val
  else if addr ≥ 0x8000 then nes_mmc3_write nes addr val
  else if addr ≥ 0x6000 then nes_prgram_write nes (addr - 0x6000) val
  else nes

/-- Writes a byte to CPU address space:
`nes->cart.mapper.funcs.write(nes, addr, val)`, with the interrupt entry that
the APU uses given as `irq`. -/
def nes_mem_writeb_with (irq : nes_t → nes_t) (nes : nes_t) (addr : Nat) (val : Nat) : nes_t :=
  match nes.cart.mapper.funcs with
  | .nrom => nes_mem_write_nrom irq nes addr val
  | .mmc1 => nes_mem_write_mmc1 irq nes addr val
  | .cnrom => nes_mem_write_cnrom irq nes addr val
  | .mmc3 => nes_mem_write_mmc3 irq nes addr val

/-- Pushes a byte to stack, through the bus write `wr`. -/
def nes_pushb_with (wr : nes_t → Nat → Nat → nes_t) (nes : nes_t) (val : Nat) : nes_t :=
  let nes := wr nes (0x0100 ||| nes.cpu.s) val
  { nes with cpu := { nes.cpu with s := (nes.cpu.s + 0x100 - 1) % 0x100 } }

/-- Pushes a word to stack, through the bus write `wr`. -/
def nes_pushw_with (wr : nes_t → Nat → Nat → nes_t) (nes : nes_t) (val : Nat) : nes_t :=
  let nes := nes_pushb_with wr nes ((val >>> 8) &&& 0xFF)
  nes_pushb_with wr nes (val &&& 0xFF)

/-- FLAG_MASK_C -/
def FLAG_MASK_C : Nat := 0x01
/-- FLAG_MASK_Z -/
def FLAG_MASK_Z : Nat := 0x02
/-- FLAG_MASK_I -/
def FLAG_MASK_I : Nat := 0x04
/-- FLAG_MASK_D -/
def FLAG_MASK_D : Nat := 0x08
/-- FLAG_MASK_B -/
def FLAG_MASK_B : Nat := 0x10
/-- FLAG_MASK_UNUSED -/
def FLAG_MASK_UNUSED : Nat := 0x20
/-- FLAG_MASK_V -/
def FLAG_MASK_V : Nat := 0x40
/-- FLAG_MASK_N -/
def FLAG_MASK_N : Nat := 0x80

/-- NMI vector address. -/
def NES_VEC_NMI : Nat := 0xFFFA
/-- RESET vector address. -/
def NES_VEC_RESET : Nat := 0xFFFC
/-- IRQ vector address. -/
def NES_VEC_IRQ : Nat := 0xFFFE

/-- Calls IRQ vector if allowed, consumes 7 cycles; pushes through `wr`. -/
def nes_cpu_irq_with (wr : nes_t → Nat → Nat → nes_t) (nes : nes_t) : nes_t :=
  if BITMGET nes.cpu.p FLAG_MASK_I ≠ 0 then nes
  else
    let nes := nes_pushw_with wr nes nes.cpu.pc
    let nes := nes_pushb_with wr nes nes.cpu.p
    let nes := { nes with cpu := { nes.cpu with p := BITMSET nes.cpu.p FLAG_MASK_I % 0x100 } }
    let r := nes_mem_readw nes NES_VEC_IRQ
    let nes := { r.2 with cpu := { r.2.cpu with pc := r.1 } }
    { nes with cpu := { nes.cpu with cycle := (nes.cpu.cycle + 7) % 0x10000000000000000 } }

/-- The interrupt entry as the APU frame counter write sees it: its pushes go
to the stack page, below $2000, where no mapper write function looks at its
`irq` argument (see `nes_cpu_irq_inner_eq`). -/
def nes_cpu_irq_inner (nes : nes_t) : nes_t :=
  nes_cpu_irq_with (nes_mem_writeb_with id) nes

/-- Writes a byte to CPU address space (`nes_mem_writeb`). -/
def nes_mem_writeb (nes : nes_t) (addr : Nat) (val : Nat) : nes_t :=
  nes_mem_writeb_with nes_cpu_irq_inner nes addr val

/-- Writes a word to CPU address space. -/
def nes_mem_writew (nes : nes_t) (addr : Nat) (val : Nat) : nes_t :=
  let nes := nes_mem_writeb nes addr (val &&& 0xFF)
  nes_mem_writeb nes ((addr + 1) % 0x10000) ((val >>> 8) &&& 0xFF)

/-- Pushes a byte to stack. -/
def nes_pushb (nes : nes_t) (val : Nat) : nes_t :=
  nes_pushb_with nes_mem_writeb nes val

/-- Pushes a word to stack. -/
def nes_pushw (nes : nes_t) (val : Nat) : nes_t :=
  nes_pushw_with nes_mem_writeb nes val

/-- Pops a byte from stack and returns it. -/
def nes_popb (nes : nes_t) : Nat × nes_t :=
  let nes := { nes with cpu := { nes.cpu with s := (nes.cpu.s + 1) % 0x100 } }
  nes_mem_readb nes (0x100 ||| (nes.cpu.s % 0x100))

/-- Pops a word from stack and returns it. -/
def nes_popw (nes : nes_t) : Nat × nes_t :=
  let r1 := nes_popb nes
  let r2 := nes_popb r1.2
  (r1.1 ||| ((r2.1 <<< 8) % 0x10000), r2.2)

/-! ## nes_cpu.h -/

/-- Power-on state of the CPU registers. -/
def nes_cpu_init (cpu : nes_cpu_t) : nes_cpu_t :=
  { cpu with pc := 0xC000, s := 0xFD, a := 0x00, x := 0x00, y := 0x00, p := 0x24 }

/-- Calls NMI vector, consumes 7 cycles. -/
def nes_cpu_nmi (nes : nes_t) : nes_t :=
  let nes := nes_pushw nes nes.cpu.pc
  let nes := nes_pushb nes nes.cpu.p
  let nes := { nes with cpu := { nes.cpu with p := BITMSET nes.cpu.p FLAG_MASK_I % 0x100 } }
  let r := nes_mem_readw nes NES_VEC_NMI
  let nes := { r.2 with cpu := { r.2.cpu with pc := r.1 } }
  { nes with cpu := { nes.cpu with cycle := (nes.cpu.cycle + 7) % 0x10000000000000000 } }

/-- Calls IRQ vector if allowed, consumes 7 cycles. -/
def nes_cpu_irq (nes : nes_t) : nes_t :=
  nes_cpu_irq_with nes_mem_writeb nes

/-- Checks if there is a page boundary between addresses a and b; if so, sets
the page cross flag. -/
def nes_cpu_pagecross (nes : nes_t) (a b : Nat) : nes_t :=
  { nes with cpu := { nes.cpu with
      pages_crossed := if a &&& 0xFF00 ≠ b &&& 0xFF00 then 1 else nes.cpu.pages_crossed } }

/-- Consumes additional cycles for branching instructions and crossing
pages. -/
def nes_cpu_add_branch_cycles (nes : nes_t) (pc_old : Nat) : nes_t :=
  let nes := { nes with cpu := { nes.cpu with
    cycle :=
      if pc_old &&& 0xFF00 ≠ nes.cpu.pc &&& 0xFF00 then
        (nes.cpu.cycle + 1) % 0x10000000000000000
      else nes.cpu.cycle } }
  { nes with cpu := { nes.cpu with cycle := (nes.cpu.cycle + 1) % 0x10000000000000000 } }

/-! ### Address translation for the addressing modes -/

/-- Absolute. -/
def nes_a_abs (nes : nes_t) : Nat × nes_t :=
  nes_mem_read_nextw nes

/-- Absolute indexed by X. -/
def nes_a_abx (nes : nes_t) : Nat × nes_t :=
  let r := nes_a_abs nes
  let a := r.1
  let b := (a + r.2.cpu.x) % 0x10000
  (b, nes_cpu_pagecross r.2 a b)

/-- Absolute indexed by Y. -/
def nes_a_aby (nes : nes_t) : Nat × nes_t :=
  let r := nes_a_abs nes
  let a := r.1
  let b := (a + r.2.cpu.y) % 0x10000
  (b, nes_cpu_pagecross r.2 a b)

/-- Indexed indirect. -/
def nes_a_ndx (nes : nes_t) : Nat × nes_t :=
  let r := nes_mem_read_nextb nes
  nes_mem_readw_zp r.2 ((r.1 + r.2.cpu.x) % 0x10000)

/-- Indirect indexed. -/
def nes_a_ndy (nes : nes_t) : Nat × nes_t :=
  let r := nes_mem_read_nextb nes
  let r := nes_mem_readw_zp r.2 r.1
  let a := r.1
  let b := (a + r.2.cpu.y) % 0x10000
  (b, nes_cpu_pagecross r.2 a b)

/-- Zero page. -/
def nes_a_zpg (nes : nes_t) : Nat × nes_t :=
  nes_mem_read_nextb nes

/-- Zero page indexed by X. -/
def nes_a_zpx (nes : nes_t) : Nat × nes_t :=
  let r := nes_a_zpg nes
  ((r.1 + r.2.cpu.x) &&& 0x00FF, r.2)

/-- Zero page indexed by Y. -/
def nes_a_zpy (nes : nes_t) : Nat × nes_t :=
  let r := nes_a_zpg nes
  ((r.1 + r.2.cpu.y) &&& 0x00FF, r.2)

/-! ### Operand fetch for the addressing modes -/

/-- Absolute. -/
def nes_v_abs (nes : nes_t) : Nat × nes_t :=
  let r := nes_a_abs nes
  nes_mem_readb r.2 r.1

/-- Absolute indexed by X. -/
def nes_v_abx (nes : nes_t) : Nat × nes_t :=
  let r := nes_a_abx nes
  nes_mem_readb r.2 r.1

/-- Absolute indexed by Y. -/
def nes_v_aby (nes : nes_t) : Nat × nes_t :=
  let r := nes_a_aby nes
  nes_mem_readb r.2 r.1

/-- Accumulator (just returns a). -/
def nes_v_acc (nes : nes_t) : Nat × nes_t :=
  (nes.cpu.a, nes)

/-- Immediate. -/
def nes_v_imm (nes : nes_t) : Nat × nes_t :=
  nes_mem_read_nextb nes

/-- Indexed indirect. -/
def nes_v_ndx (nes : nes_t) : Nat × nes_t :=
  let r := nes_a_ndx nes
  nes_mem_readb r.2 r.1

/-- Indirect indexed. -/
def nes_v_ndy (nes : nes_t) : Nat × nes_t :=
  let r := nes_a_ndy nes
  nes_mem_readb r.2 r.1

/-- Zero page. -/
def nes_v_zpg (nes : nes_t) : Nat × nes_t :=
  let r := nes_a_zpg nes
  nes_mem_readb_zp r.2 r.1

/-- Zero page indexed by X. -/
def nes_v_zpx (nes : nes_t) : Nat × nes_t :=
  let r := nes_a_zpx nes
  nes_mem_readb_zp r.2 r.1

/-- Zero page indexed by Y. -/
def nes_v_zpy (nes : nes_t) : Nat × nes_t :=
  let r := nes_a_zpy nes
  nes_mem_readb_zp r.2 r.1

/-! ### Documented CPU instructions -/

/-- Sets Z and N flags based on given value (`val` is a `uint8_t`). -/
def nes_cpu_set_zn (nes : nes_t) (val : Nat) : nes_t :=
  let val := val % 0x100
  let nes := { nes with cpu := { nes.cpu with
    p := BITMCHG nes.cpu.p FLAG_MASK_N (val &&& 0x80) % 0x100 } }
  { nes with cpu := { nes.cpu with
    p := BITMCHG nes.cpu.p FLAG_MASK_Z (c_bool (decide (val = 0))) % 0x100 } }

/-- LDA: load operand into A. -/
def nes_op_lda (nes : nes_t) (val : Nat) : nes_t :=
  let nes := { nes with cpu := { nes.cpu with a := val % 0x100 } }
  nes_cpu_set_zn nes val

/-- LDX: load operand into X. -/
def nes_op_ldx (nes : nes_t) (val : Nat) : nes_t :=
  let nes := { nes with cpu := { nes.cpu with x := val % 0x100 } }
  nes_cpu_set_zn nes val

/-- LDY: load operand into Y. -/
def nes_op_ldy (nes : nes_t) (val : Nat) : nes_t :=
  let nes := { nes with cpu := { nes.cpu with y := val % 0x100 } }
  nes_cpu_set_zn nes val

/-- STA: write A to memory. -/
def nes_op_sta (nes : nes_t) (addr : Nat) : nes_t :=
  nes_mem_writeb nes addr nes.cpu.a

/-- STX: write X to memory. -/
def nes_op_stx (nes : nes_t) (addr : Nat) : nes_t :=
  nes_mem_writeb nes addr nes.cpu.x

/-- STY: write Y to memory. -/
def nes_op_sty (nes : nes_t) (addr : Nat) : nes_t :=
  nes_mem_writeb nes addr nes.cpu.y

/-- ADC: add operand to A with carry (C flag). -/
def nes_op_adc (nes : nes_t) (val : Nat) : nes_t :=
  let res := (nes.cpu.a + val + (if nes.cpu.p &&& FLAG_MASK_C ≠ 0 then 1 else 0)) % 0x10000
  let nes := { nes with cpu := { nes.cpu with
    p := BITMCHG nes.cpu.p FLAG_MASK_C (res &&& 0x100) % 0x100 } }
  let nes := { nes with cpu := { nes.cpu with
    p := BITMCHG nes.cpu.p FLAG_MASK_V
      (c_bool (decide ((nes.cpu.a ^^^ val) &&& 0x80 = 0 ∧ (nes.cpu.a ^^^ res) &&& 0x80 ≠ 0)))
      % 0x100 } }
  let nes := nes_cpu_set_zn nes (res &&& 0xFF)
  { nes with cpu := { nes.cpu with a := res % 0x100 } }

/-- SBC: sub operand from A with carry. -/
def nes_op_sbc (nes : nes_t) (val : Nat) : nes_t :=
  let res := Int.toNat (((nes.cpu.a : Int) - (val : Int) -
    (if nes.cpu.p &&& FLAG_MASK_C ≠ 0 then 0 else 1)) % 0x10000)
  let nes := { nes with cpu := { nes.cpu with
    p := BITMCHG nes.cpu.p FLAG_MASK_C (c_bool (decide (res &&& 0x100 = 0))) % 0x100 } }
  let nes := { nes with cpu := { nes.cpu with
    p := BITMCHG nes.cpu.p FLAG_MASK_V
      (c_bool (decide ((nes.cpu.a ^^^ val) &&& 0x80 ≠ 0 ∧ (nes.cpu.a ^^^ res) &&& 0x80 ≠ 0)))
      % 0x100 } }
  let nes := nes_cpu_set_zn nes (res &&& 0xFF)
  { nes with cpu := { nes.cpu with a := res % 0x100 } }

/-- Compares two operands and sets C, Z, N flags based on result (`a` and `b`
are `uint8_t`). -/
def nes_compare (nes : nes_t) (a b : Nat) : nes_t :=
  let res := Int.toNat ((((a % 0x100 : Nat) : Int) - ((b % 0x100 : Nat) : Int)) % 0x10000)
  let nes := { nes with cpu := { nes.cpu with
    p := BITMCHG nes.cpu.p FLAG_MASK_C (c_bool (decide (res &&& 0x100 = 0))) % 0x100 } }
  nes_cpu_set_zn nes (res &&& 0xFF)

/-- CMP: compare A with operand. -/
def nes_op_cmp (nes : nes_t) (val : Nat) : nes_t :=
  nes_compare nes nes.cpu.a val

/-- CPX: compare X with operand. -/
def nes_op_cpx (nes : nes_t) (val : Nat) : nes_t :=
  nes_compare nes nes.cpu.x val

/-- CPY: compare Y with operand. -/
def nes_op_cpy (nes : nes_t) (val : Nat) : nes_t :=
  nes_compare nes nes.cpu.y val

/-- AND: bitwise AND A with operand. -/
def nes_op_and (nes : nes_t) (val : Nat) : nes_t :=
  let res := (nes.cpu.a &&& val) % 0x100
  let nes := nes_cpu_set_zn nes res
  { nes with cpu := { nes.cpu with a := res } }

/-- ORA: bitwise OR A with operand. -/
def nes_op_ora (nes : nes_t) (val : Nat) : nes_t :=
  let res := (nes.cpu.a ||| val) % 0x100
  let nes := nes_cpu_set_zn nes res
  { nes with cpu := { nes.cpu with a := res } }

/-- EOR: bitwise XOR A with operand. -/
def nes_op_eor (nes : nes_t) (val : Nat) : nes_t :=
  let res := (nes.cpu.a ^^^ val) % 0x100
  let nes := nes_cpu_set_zn nes res
  { nes with cpu := { nes.cpu with a := res } }

/-- BIT: AND A with operand, set V, N, Z flags based on result. -/
def nes_op_bit (nes : nes_t) (val : Nat) : nes_t :=
  let nes := { nes with cpu := { nes.cpu with
    p := BITMCHG nes.cpu.p FLAG_MASK_V (val &&& 0x40) % 0x100 } }
  let nes := { nes with cpu := { nes.cpu with
    p := BITMCHG nes.cpu.p FLAG_MASK_N (val &&& 0x80) % 0x100 } }
  { nes with cpu := { nes.cpu with
    p := BITMCHG nes.cpu.p FLAG_MASK_Z (c_bool (decide (val &&& nes.cpu.a = 0))) % 0x100 } }

/-- ROL: bitwise rotate operand left by 1. -/
def nes_op_rol (nes : nes_t) (addr : Nat) : nes_t :=
  let r := nes_mem_readb nes addr
  let val := r.1 % 0x100
  let nes := r.2
  let res := (val <<< 1) % 0x100
  let res := if BITMGET nes.cpu.p FLAG_MASK_C ≠ 0 then res ||| 0x01 else res
  let nes := { nes with cpu := { nes.cpu with
    p := BITMCHG nes.cpu.p FLAG_MASK_C (val &&& 0x80) % 0x100 } }
  let nes := nes_cpu_set_zn nes res
  nes_mem_writeb nes addr res

/-- ROR: bitwise rotate operand right by 1. -/
def nes_op_ror (nes : nes_t) (addr : Nat) : nes_t :=
  let r := nes_mem_readb nes addr
  let val := r.1 % 0x100
  let nes := r.2
  let res := val >>> 1
  let res := if BITMGET nes.cpu.p FLAG_MASK_C ≠ 0 then res ||| 0x80 else res
  let nes := { nes with cpu := { nes.cpu with
    p := BITMCHG nes.cpu.p FLAG_MASK_C (val &&& 0x01) % 0x100 } }
  let nes := nes_cpu_set_zn nes res
  nes_mem_writeb nes addr res

/-- ROLA: bitwise rotate A left. -/
def nes_op_rola (nes : nes_t) (val : Nat) : nes_t :=
  let res := (val <<< 1) % 0x100
  let res := if BITMGET nes.cpu.p FLAG_MASK_C ≠ 0 then res ||| 0x01 else res
  let nes := { nes with cpu := { nes.cpu with
    p := BITMCHG nes.cpu.p FLAG_MASK_C (val &&& 0x80) % 0x100 } }
  let nes := nes_cpu_set_zn nes res
  { nes with cpu := { nes.cpu with a := res } }

/-- RORA: bitwise rotate A right. -/
def nes_op_rora (nes : nes_t) (val : Nat) : nes_t :=
  let res := (val >>> 1) % 0x100
  let res := if BITMGET nes.cpu.p FLAG_MASK_C ≠ 0 then res ||| 0x80 else res
  let nes := { nes with cpu := { nes.cpu with
    p := BITMCHG nes.cpu.p FLAG_MASK_C (val &&& 0x01) % 0x100 } }
  let nes := nes_cpu_set_zn nes res
  { nes with cpu := { nes.cpu with a := res } }

/-- ASL: arithmetic shift operand left. -/
def nes_op_asl (nes : nes_t) (addr : Nat) : nes_t :=
  let r := nes_mem_readb nes addr
  let val := r.1 % 0x100
  let nes := r.2
  let res := (val <<< 1) % 0x100
  let nes := { nes with cpu := { nes.cpu with
    p := BITMCHG nes.cpu.p FLAG_MASK_C (val &&& 0x80) % 0x100 } }
  let nes := nes_cpu_set_zn nes res
  nes_mem_writeb nes addr res

/-- LSR: arithmetic shift operand right. -/
def nes_op_lsr (nes : nes_t) (addr : Nat) : nes_t :=
  let r := nes_mem_readb nes addr
  let val := r.1 % 0x100
  let nes := r.2
  let res := val >>> 1
  let nes := { nes with cpu := { nes.cpu with
    p := BITMCHG nes.cpu.p FLAG_MASK_C (val &&& 0x01) % 0x100 } }
  let nes := nes_cpu_set_zn nes res
  nes_mem_writeb nes addr res

/-- ASLA: arithmetic shift A left. -/
def nes_op_asla (nes : nes_t) (val : Nat) : nes_t :=
  let res := (val <<< 1) % 0x100
  let nes := { nes with cpu := { nes.cpu with
    p := BITMCHG nes.cpu.p FLAG_MASK_C (val &&& 0x80) % 0x100 } }
  let nes := nes_cpu_set_zn nes res
  { nes with cpu := { nes.cpu with a := res } }

/-- LSRA: arithmetic shift A right. -/
def nes_op_lsra (nes : nes_t) (val : Nat) : nes_t :=
  let res := (val >>> 1) % 0x100
  let nes := { nes with cpu := { nes.cpu with
    p := BITMCHG nes.cpu.p FLAG_MASK_C (val &&& 0x01) % 0x100 } }
  let nes := nes_cpu_set_zn nes res
  { nes with cpu := { nes.cpu with a := res } }

/-- INC: increment operand. -/
def nes_op_inc (nes : nes_t) (addr : Nat) : nes_t :=
  let r := nes_mem_readb nes addr
  let res := (r.1 + 1) % 0x100
  let nes := nes_cpu_set_zn r.2 res
  nes_mem_writeb nes addr res

/-- DEC: decrement operand. -/
def nes_op_dec (nes : nes_t) (addr : Nat) : nes_t :=
  let r := nes_mem_readb nes addr
  let res := (r.1 + 0x100 - 1) % 0x100
  let nes := nes_cpu_set_zn r.2 res
  nes_mem_writeb nes addr res

/-- INX: increment X. -/
def nes_op_inx (nes : nes_t) : nes_t :=
  let res := (nes.cpu.x + 1) % 0x100
  let nes := nes_cpu_set_zn nes res
  { nes with cpu := { nes.cpu with x := res } }

/-- DEX: decrement X. -/
def nes_op_dex (nes : nes_t) : nes_t :=
  let res := (nes.cpu.x + 0x100 - 1) % 0x100
  let nes := nes_cpu_set_zn nes res
  { nes with cpu := { nes.cpu with x := res } }

/-- INY: increment Y. -/
def nes_op_iny (nes : nes_t) : nes_t :=
  let res := (nes.cpu.y + 1) % 0x100
  let nes := nes_cpu_set_zn nes res
  { nes with cpu := { nes.cpu with y := res } }

/-- DEY: decrement Y. -/
def nes_op_dey (nes : nes_t) : nes_t :=
  let res := (nes.cpu.y + 0x100 - 1) % 0x100
  let nes := nes_cpu_set_zn nes res
  { nes with cpu := { nes.cpu with y := res } }

/-- TAX: copy A to X. -/
def nes_op_tax (nes : nes_t) : nes_t :=
  let nes := nes_cpu_set_zn nes nes.cpu.a
  { nes with cpu := { nes.cpu with x := nes.cpu.a } }

/-- TAY: copy A to Y. -/
def nes_op_tay (nes : nes_t) : nes_t :=
  let nes := nes_cpu_set_zn nes nes.cpu.a
  { nes with cpu := { nes.cpu with y := nes.cpu.a } }

/-- TXA: copy X to A. -/
def nes_op_txa (nes : nes_t) : nes_t :=
  let nes := nes_cpu_set_zn nes nes.cpu.x
  { nes with cpu := { nes.cpu with a := nes.cpu.x } }

/-- TYA: copy Y to A. -/
def nes_op_tya (nes : nes_t) : nes_t :=
  let nes := nes_cpu_set_zn nes nes.cpu.y
  { nes with cpu := { nes.cpu with a := nes.cpu.y } }

/-- TXS: copy X to S. -/
def nes_op_txs (nes : nes_t) : nes_t :=
  { nes with cpu := { nes.cpu with s := nes.cpu.x } }

/-- TSX: copy S to X. -/
def nes_op_tsx (nes : nes_t) : nes_t :=
  let nes := nes_cpu_set_zn nes nes.cpu.s
  { nes with cpu := { nes.cpu with x := nes.cpu.s } }

/-- CLC: clear C flag. -/
def nes_op_clc (nes : nes_t) : nes_t :=
  { nes with cpu := { nes.cpu with p := BITMCLR nes.cpu.p FLAG_MASK_C % 0x100 } }

/-- SEC: set C flag. -/
def nes_op_sec (nes : nes_t) : nes_t :=
  { nes with cpu := { nes.cpu with p := BITMSET nes.cpu.p FLAG_MASK_C % 0x100 } }

/-- CLI: clear I flag. -/
def nes_op_cli (nes : nes_t) : nes_t :=
  { nes with cpu := { nes.cpu with p := BITMCLR nes.cpu.p FLAG_MASK_I % 0x100 } }

/-- SEI: set I flag. -/
def nes_op_sei (nes : nes_t) : nes_t :=
  { nes with cpu := { nes.cpu with p := BITMSET nes.cpu.p FLAG_MASK_I % 0x100 } }

/-- CLV: clear V flag. -/
def nes_op_clv (nes : nes_t) : nes_t :=
  { nes with cpu := { nes.cpu with p := BITMCLR nes.cpu.p FLAG_MASK_V % 0x100 } }

/-- CLD: clear D flag. -/
def nes_op_cld (nes : nes_t) : nes_t :=
  { nes with cpu := { nes.cpu with p := BITMCLR nes.cpu.p FLAG_MASK_D % 0x100 } }

/-- SED: set D flag. -/
def nes_op_sed (nes : nes_t) : nes_t :=
  { nes with cpu := { nes.cpu with p := BITMSET nes.cpu.p FLAG_MASK_D % 0x100 } }

/-- Base function for relative branching instructions; adds additional branch
cycles where needed.  `pc += (int8_t)offset` wraps at 16 bits. -/
def nes_branch_jmp (nes : nes_t) (flag : Nat) : nes_t :=
  let r := nes_mem_read_nextb nes
  let offset := r.1 % 0x100
  let nes := r.2
  let pc_old := nes.cpu.pc
  if flag ≠ 0 then
    let nes := { nes with cpu := { nes.cpu with
      pc := Int.toNat (((nes.cpu.pc : Int) + to_int8 offset) % 0x10000) } }
    nes_cpu_add_branch_cycles nes pc_old
  else nes

/-- BPL: branch if N is 0. -/
def nes_op_bpl (nes : nes_t) : nes_t :=
  nes_branch_jmp nes (c_bool (decide (BITMGET nes.cpu.p FLAG_MASK_N = 0)))

/-- BMI: branch if N is 1. -/
def nes_op_bmi (nes : nes_t) : nes_t :=
  nes_branch_jmp nes (BITMGET nes.cpu.p FLAG_MASK_N % 0x100)

/-- BVC: branch if V is 0. -/
def nes_op_bvc (nes : nes_t) : nes_t :=
  nes_branch_jmp nes (c_bool (decide (BITMGET nes.cpu.p FLAG_MASK_V = 0)))

/-- BVS: branch if V is 1. -/
def nes_op_bvs (nes : nes_t) : nes_t :=
  nes_branch_jmp nes (BITMGET nes.cpu.p FLAG_MASK_V % 0x100)

/-- BCC: branch if C is 0. -/
def nes_op_bcc (nes : nes_t) : nes_t :=
  nes_branch_jmp nes (c_bool (decide (BITMGET nes.cpu.p FLAG_MASK_C = 0)))

/-- BCS: branch if C is 1. -/
def nes_op_bcs (nes : nes_t) : nes_t :=
  nes_branch_jmp nes (BITMGET nes.cpu.p FLAG_MASK_C % 0x100)

/-- BNE: branch if Z is 0. -/
def nes_op_bne (nes : nes_t) : nes_t :=
  nes_branch_jmp nes (c_bool (decide (BITMGET nes.cpu.p FLAG_MASK_Z = 0)))

/-- BEQ: branch if Z is 1. -/
def nes_op_beq (nes : nes_t) : nes_t :=
  nes_branch_jmp nes (BITMGET nes.cpu.p FLAG_MASK_Z % 0x100)

/-- JMP: absolute jump. -/
def nes_op_jmp (nes : nes_t) : nes_t :=
  let r := nes_mem_read_nextw nes
  { r.2 with cpu := { r.2.cpu with pc := r.1 } }

/-- JMI: indirect jump. -/
def nes_op_jmi (nes : nes_t) : nes_t :=
  let r := nes_mem_read_nextw nes
  let r := nes_jmi_addr r.2 r.1
  { r.2 with cpu := { r.2.cpu with pc := r.1 } }

/-- JSR: subroutine call. -/
def nes_op_jsr (nes : nes_t) : nes_t :=
  let r := nes_mem_read_nextw nes
  let addr := r.1
  let nes := nes_pushw r.2 ((r.2.cpu.pc + 0x10000 - 1) % 0x10000)
  { nes with cpu := { nes.cpu with pc := addr } }

/-- RTS: return from subroutine. -/
def nes_op_rts (nes : nes_t) : nes_t :=
  let r := nes_popw nes
  { r.2 with cpu := { r.2.cpu with pc := (r.1 + 1) % 0x10000 } }

/-- BRK: software interrupt. -/
def nes_op_brk (nes : nes_t) : nes_t :=
  if BITMGET nes.cpu.p FLAG_MASK_I = 0 then
    let nes := nes_pushw nes ((nes.cpu.pc + 0x10000 - 1) % 0x10000)
    let nes := nes_pushb nes nes.cpu.p
    let nes := { nes with cpu := { nes.cpu with p := BITMSET nes.cpu.p FLAG_MASK_I % 0x100 } }
    let r := nes_mem_readw nes NES_VEC_IRQ
    { r.2 with cpu := { r.2.cpu with pc := r.1 } }
  else nes

/-- RTI: return from interrupt. -/
def nes_op_rti (nes : nes_t) : nes_t :=
  let r := nes_popb nes
  let nes := { r.2 with cpu := { r.2.cpu with p := ((r.1 ||| 0x30) - 0x10) % 0x100 } }
  let r := nes_popw nes
  { r.2 with cpu := { r.2.cpu with pc := r.1 } }

/-- PHA: push A to stack. -/
def nes_op_pha (nes : nes_t) : nes_t :=
  nes_pushb nes nes.cpu.a

/-- PLA: pop A from stack. -/
def nes_op_pla (nes : nes_t) : nes_t :=
  let r := nes_popb nes
  let nes := { r.2 with cpu := { r.2.cpu with a := r.1 % 0x100 } }
  nes_cpu_set_zn nes nes.cpu.a

/-- PHP: push P to stack. -/
def nes_op_php (nes : nes_t) : nes_t :=
  nes_pushb nes ((nes.cpu.p ||| FLAG_MASK_B) % 0x100)

/-- PLP: pop P from stack. -/
def nes_op_plp (nes : nes_t) : nes_t :=
  let r := nes_popb nes
  { r.2 with cpu := { r.2.cpu with p := ((r.1 ||| 0x30) - 0x10) % 0x100 } }

/-- NOP: no-op. -/
def nes_op_nop (nes : nes_t) : nes_t :=
  nes

/-! ### Undocumented (illegal) instructions -/

/-- ANC: left a no-op by the source. -/
def nes_op_anc (nes : nes_t) (_val : Nat) : nes_t :=
  nes

/-- ALR: AND imm + LSR A. -/
def nes_op_alr (nes : nes_t) (val : Nat) : nes_t :=
  let res := ((nes.cpu.a &&& val) >>> 1) % 0x100
  let nes := { nes with cpu := { nes.cpu with
    p := BITMCHG nes.cpu.p FLAG_MASK_C (val &&& 0x01) % 0x100 } }
  let nes := nes_cpu_set_zn nes res
  { nes with cpu := { nes.cpu with a := res } }

/-- ARR: AND imm + ROR A. -/
def nes_op_arr (nes : nes_t) (val : Nat) : nes_t :=
  let res := ((nes.cpu.a &&& val) >>> 1) % 0x100
  let res := if BITMGET nes.cpu.p FLAG_MASK_C ≠ 0 then res ||| 0x80 else res
  let nes := { nes with cpu := { nes.cpu with
    p := BITMCHG nes.cpu.p FLAG_MASK_C (res &&& 0x40) % 0x100 } }
  let nes := { nes with cpu := { nes.cpu with
    p := BITMCHG nes.cpu.p FLAG_MASK_C ((res &&& 0x40) ^^^ (res &&& 0x20)) % 0x100 } }
  let nes := nes_cpu_set_zn nes res
  { nes with cpu := { nes.cpu with a := res } }

/-- AXS: X = (A & X) - operand, updates N, Z, C. -/
def nes_op_axs (nes : nes_t) (val : Nat) : nes_t :=
  let res := Int.toNat ((((nes.cpu.a &&& nes.cpu.x : Nat) : Int) - (val : Int)) % 0x10000)
  let nes := { nes with cpu := { nes.cpu with
    p := BITMCHG nes.cpu.p FLAG_MASK_C (c_bool (decide (res &&& 0x100 = 0))) % 0x100 } }
  let nes := { nes with cpu := { nes.cpu with
    p := BITMCHG nes.cpu.p FLAG_MASK_V
      (c_bool (decide ((nes.cpu.a ^^^ val) &&& 0x80 ≠ 0 ∧ (nes.cpu.a ^^^ res) &&& 0x80 ≠ 0)))
      % 0x100 } }
  let nes := nes_cpu_set_zn nes (res &&& 0xFF)
  { nes with cpu := { nes.cpu with x := res % 0x100 } }

/-- LAX: LDA + TAX. -/
def nes_op_lax (nes : nes_t) (val : Nat) : nes_t :=
  let nes := { nes with cpu := { nes.cpu with a := val % 0x100 } }
  let nes := { nes with cpu := { nes.cpu with x := val % 0x100 } }
  nes_cpu_set_zn nes val

/-- SAX: store (A & X), flags unaffected. -/
def nes_op_sax (nes : nes_t) (addr : Nat) : nes_t :=
  nes_mem_writeb nes addr (nes.cpu.a &&& nes.cpu.x)

/-- DCP: DEC + CMP. -/
def nes_op_dcp (nes : nes_t) (addr : Nat) : nes_t :=
  let nes := nes_op_dec nes addr
  let r := nes_mem_readb nes addr
  nes_op_cmp r.2 r.1

/-- ISB: INC + SBC. -/
def nes_op_isb (nes : nes_t) (addr : Nat) : nes_t :=
  let nes := nes_op_inc nes addr
  let r := nes_mem_readb nes addr
  nes_op_sbc r.2 r.1

/-- RLA: ROL + AND. -/
def nes_op_rla (nes : nes_t) (addr : Nat) : nes_t :=
  let nes := nes_op_rol nes addr
  let r := nes_mem_readb nes addr
  nes_op_and r.2 r.1

/-- RRA: ROR + ADC. -/
def nes_op_rra (nes : nes_t) (addr : Nat) : nes_t :=
  let nes := nes_op_ror nes addr
  let r := nes_mem_readb nes addr
  nes_op_adc r.2 r.1

/-- SLO: ASL + ORA. -/
def nes_op_slo (nes : nes_t) (addr : Nat) : nes_t :=
  let nes := nes_op_asl nes addr
  let r := nes_mem_readb nes addr
  nes_op_ora r.2 r.1

/-- SRE: LSR + EOR. -/
def nes_op_sre (nes : nes_t) (addr : Nat) : nes_t :=
  let nes := nes_op_lsr nes addr
  let r := nes_mem_readb nes addr
  nes_op_eor r.2 r.1

/-- SKB: read byte and ignore. -/
def nes_op_skb (nes : nes_t) (_val : Nat) : nes_t :=
  nes

/-- IGN: read byte and ignore. -/
def nes_op_ign (nes : nes_t) (_addr : Nat) : nes_t :=
  nes

/-- The call `op(nes, mode(nes))`: the operand or address is fetched first,
then the instruction runs on the resulting state. -/
def nes_op_call (op : nes_t → Nat → nes_t) (mode : nes_t → Nat × nes_t) (nes : nes_t) : nes_t :=
  let r := mode nes
  op r.2 r.1

/-- Cycle costs for each opcode (`op_cycles[256]`). -/
def op_cycles (opcode : Nat) : Nat :=
  [
   7, 6, 2, 8, 3, 3, 5, 5, 3, 2, 2, 2, 4, 4, 6, 6,
   2, 5, 2, 8, 4, 4, 6, 6, 2, 4, 2, 7, 4, 4, 7, 7,
   6, 6, 2, 8, 3, 3, 5, 5, 4, 2, 2, 2, 4, 4, 6, 6,
   6, 6, 2, 8, 3, 3, 5, 5, 3, 2, 2, 2, 3, 4, 6, 6,
   2, 5, 2, 8, 4, 4, 6, 6, 2, 4, 2, 7, 4, 4, 7, 7,
   2, 5, 2, 8, 4, 4, 6, 6, 2, 4, 2, 7, 4, 4, 7, 7,
   6, 6, 2, 8, 3, 3, 5, 5, 4, 2, 2, 2, 5, 4, 6, 6,
   2, 5, 2, 8, 4, 4, 6, 6, 2, 4, 2, 7, 4, 4, 7, 7,
   2, 6, 2, 6, 3, 3, 3, 3, 2, 2, 2, 2, 4, 4, 4, 4,
   2, 6, 2, 6, 4, 4, 4, 4, 2, 5, 2, 5, 5, 5, 5, 5,
   2, 6, 2, 6, 3, 3, 3, 3, 2, 2, 2, 2, 4, 4, 4, 4,
   2, 5, 2, 5, 4, 4, 4, 4, 2, 4, 2, 4, 4, 4, 4, 4,
   2, 6, 2, 8, 3, 3, 5, 5, 2, 2, 2, 2, 4, 4, 6, 6,
   2, 5, 2, 8, 4, 4, 6, 6, 2, 4, 2, 7, 4, 4, 7, 7,
   2, 6, 3, 8, 3, 3, 5, 5, 2, 2, 2, 2, 4, 4, 6, 6,
   2, 5, 2, 8, 4, 4, 6, 6, 2, 4, 2, 7, 4, 4, 7, 7].getD opcode 0

/-- Page cross costs for each opcode (`op_page_cycles[256]`). -/
def op_page_cycles (opcode : Nat) : Nat :=
  [
   0, 0, 0, 0, 0, 0, 0, 0, 0, 0, 0, 0, 0, 0, 0, 0,
   1, 1, 0, 0, 0, 0, 0, 0, 0, 1, 0, 0, 1, 1, 0, 0,
   0, 0, 0, 0, 0, 0, 0, 0, 0, 0, 0, 0, 0, 0, 0, 0,
   1, 1, 0, 0, 0, 0, 0, 0, 0, 1, 0, 0, 1, 1, 0, 0,
   0, 0, 0, 0, 0, 0, 0, 0, 0, 0, 0, 0, 0, 0, 0, 0,
   1, 1, 0, 0, 0, 0, 0, 0, 0, 1, 0, 0, 1, 1, 0, 0,
   0, 0, 0, 0, 0, 0, 0, 0, 0, 0, 0, 0, 0, 0, 0, 0,
   1, 1, 0, 0, 0, 0, 0, 0, 0, 1, 0, 0, 1, 1, 0, 0,
   0, 0, 0, 0, 0, 0, 0, 0, 0, 0, 0, 0, 0, 0, 0, 0,
   1, 0, 0, 0, 0, 0, 0, 0, 0, 0, 0, 0, 0, 0, 0, 0,
   0, 0, 0, 0, 0, 0, 0, 0, 0, 0, 0, 0, 0, 0, 0, 0,
   1, 1, 0, 1, 0, 0, 0, 0, 0, 1, 0, 1, 1, 1, 1, 1,
   0, 0, 0, 0, 0, 0, 0, 0, 0, 0, 0, 0, 0, 0, 0, 0,
   1, 1, 0, 0, 0, 0, 0, 0, 0, 1, 0, 0, 1, 1, 0, 0,
   0, 0, 0, 0, 0, 0, 0, 0, 0, 0, 0, 0, 0, 0, 0, 0,
   1, 1, 0, 0, 0, 0, 0, 0, 0, 1, 0, 0, 1, 1, 0, 0].getD opcode 0

/-- The `switch (opcode)` of `nes_cpu_op`, as the chain of tests of the case
labels in the order of the source; the `default` case only prints a
diagnostic. -/
def nes_cpu_op_switch (opcode : Nat) (nes : nes_t) : nes_t :=
  if opcode = 0xA1 then nes_op_call nes_op_lda nes_v_ndx nes else
  if opcode = 0xA5 then nes_op_call nes_op_lda nes_v_zpg nes else
  if opcode = 0xA9 then nes_op_call nes_op_lda nes_v_imm nes else
  if opcode = 0xAD then nes_op_call nes_op_lda nes_v_abs nes else
  if opcode = 0xB1 then nes_op_call nes_op_lda nes_v_ndy nes else
  if opcode = 0xB5 then nes_op_call nes_op_lda nes_v_zpx nes else
  if opcode = 0xB9 then nes_op_call nes_op_lda nes_v_aby nes else
  if opcode = 0xBD then nes_op_call nes_op_lda nes_v_abx nes else
  if opcode = 0xA2 then nes_op_call nes_op_ldx nes_v_imm nes else
  if opcode = 0xA6 then nes_op_call nes_op_ldx nes_v_zpg nes else
  if opcode = 0xB6 then nes_op_call nes_op_ldx nes_v_zpy nes else
  if opcode = 0xAE then nes_op_call nes_op_ldx nes_v_abs nes else
  if opcode = 0xBE then nes_op_call nes_op_ldx nes_v_aby nes else
  if opcode = 0xA0 then nes_op_call nes_op_ldy nes_v_imm nes else
  if opcode = 0xA4 then nes_op_call nes_op_ldy nes_v_zpg nes else
  if opcode = 0xB4 then nes_op_call nes_op_ldy nes_v_zpx nes else
  if opcode = 0xAC then nes_op_call nes_op_ldy nes_v_abs nes else
  if opcode = 0xBC then nes_op_call nes_op_ldy nes_v_abx nes else
  if opcode = 0x81 then nes_op_call nes_op_sta nes_a_ndx nes else
  if opcode = 0x85 then nes_op_call nes_op_sta nes_a_zpg nes else
  if opcode = 0x8D then nes_op_call nes_op_sta nes_a_abs nes else
  if opcode = 0x91 then nes_op_call nes_op_sta nes_a_ndy nes else
  if opcode = 0x95 then nes_op_call nes_op_sta nes_a_zpx nes else
  if opcode = 0x99 then nes_op_call nes_op_sta nes_a_aby nes else
  if opcode = 0x9D then nes_op_call nes_op_sta nes_a_abx nes else
  if opcode = 0x86 then nes_op_call nes_op_stx nes_a_zpg nes else
  if opcode = 0x8E then nes_op_call nes_op_stx nes_a_abs nes else
  if opcode = 0x96 then nes_op_call nes_op_stx nes_a_zpy nes else
  if opcode = 0x84 then nes_op_call nes_op_sty nes_a_zpg nes else
  if opcode = 0x8C then nes_op_call nes_op_sty nes_a_abs nes else
  if opcode = 0x94 then nes_op_call nes_op_sty nes_a_zpx nes else
  if opcode = 0x69 then nes_op_call nes_op_adc nes_v_imm nes else
  if opcode = 0x65 then nes_op_call nes_op_adc nes_v_zpg nes else
  if opcode = 0x75 then nes_op_call nes_op_adc nes_v_zpx nes else
  if opcode = 0x6D then nes_op_call nes_op_adc nes_v_abs nes else
  if opcode = 0x7D then nes_op_call nes_op_adc nes_v_abx nes else
  if opcode = 0x79 then nes_op_call nes_op_adc nes_v_aby nes else
  if opcode = 0x61 then nes_op_call nes_op_adc nes_v_ndx nes else
  if opcode = 0x71 then nes_op_call nes_op_adc nes_v_ndy nes else
  if opcode = 0xE9 then nes_op_call nes_op_sbc nes_v_imm nes else
  if opcode = 0xE5 then nes_op_call nes_op_sbc nes_v_zpg nes else
  if opcode = 0xF5 then nes_op_call nes_op_sbc nes_v_zpx nes else
  if opcode = 0xED then nes_op_call nes_op_sbc nes_v_abs nes else
  if opcode = 0xFD then nes_op_call nes_op_sbc nes_v_abx nes else
  if opcode = 0xF9 then nes_op_call nes_op_sbc nes_v_aby nes else
  if opcode = 0xE1 then nes_op_call nes_op_sbc nes_v_ndx nes else
  if opcode = 0xF1 then nes_op_call nes_op_sbc nes_v_ndy nes else
  if opcode = 0xC9 then nes_op_call nes_op_cmp nes_v_imm nes else
  if opcode = 0xC5 then nes_op_call nes_op_cmp nes_v_zpg nes else
  if opcode = 0xD5 then nes_op_call nes_op_cmp nes_v_zpx nes else
  if opcode = 0xCD then nes_op_call nes_op_cmp nes_v_abs nes else
  if opcode = 0xDD then nes_op_call nes_op_cmp nes_v_abx nes else
  if opcode = 0xD9 then nes_op_call nes_op_cmp nes_v_aby nes else
  if opcode = 0xC1 then nes_op_call nes_op_cmp nes_v_ndx nes else
  if opcode = 0xD1 then nes_op_call nes_op_cmp nes_v_ndy nes else
  if opcode = 0xE0 then nes_op_call nes_op_cpx nes_v_imm nes else
  if opcode = 0xE4 then nes_op_call nes_op_cpx nes_v_zpg nes else
  if opcode = 0xEC then nes_op_call nes_op_cpx nes_v_abs nes else
  if opcode = 0xC0 then nes_op_call nes_op_cpy nes_v_imm nes else
  if opcode = 0xC4 then nes_op_call nes_op_cpy nes_v_zpg nes else
  if opcode = 0xCC then nes_op_call nes_op_cpy nes_v_abs nes else
  if opcode = 0x29 then nes_op_call nes_op_and nes_v_imm nes else
  if opcode = 0x25 then nes_op_call nes_op_and nes_v_zpg nes else
  if opcode = 0x35 then nes_op_call nes_op_and nes_v_zpx nes else
  if opcode = 0x2D then nes_op_call nes_op_and nes_v_abs nes else
  if opcode = 0x3D then nes_op_call nes_op_and nes_v_abx nes else
  if opcode = 0x39 then nes_op_call nes_op_and nes_v_aby nes else
  if opcode = 0x21 then nes_op_call nes_op_and nes_v_ndx nes else
  if opcode = 0x31 then nes_op_call nes_op_and nes_v_ndy nes else
  if opcode = 0x09 then nes_op_call nes_op_ora nes_v_imm nes else
  if opcode = 0x05 then nes_op_call nes_op_ora nes_v_zpg nes else
  if opcode = 0x15 then nes_op_call nes_op_ora nes_v_zpx nes else
  if opcode = 0x0D then nes_op_call nes_op_ora nes_v_abs nes else
  if opcode = 0x1D then nes_op_call nes_op_ora nes_v_abx nes else
  if opcode = 0x19 then nes_op_call nes_op_ora nes_v_aby nes else
  if opcode = 0x01 then nes_op_call nes_op_ora nes_v_ndx nes else
  if opcode = 0x11 then nes_op_call nes_op_ora nes_v_ndy nes else
  if opcode = 0x49 then nes_op_call nes_op_eor nes_v_imm nes else
  if opcode = 0x45 then nes_op_call nes_op_eor nes_v_zpg nes else
  if opcode = 0x55 then nes_op_call nes_op_eor nes_v_zpx nes else
  if opcode = 0x4D then nes_op_call nes_op_eor nes_v_abs nes else
  if opcode = 0x5D then nes_op_call nes_op_eor nes_v_abx nes else
  if opcode = 0x59 then nes_op_call nes_op_eor nes_v_aby nes else
  if opcode = 0x41 then nes_op_call nes_op_eor nes_v_ndx nes else
  if opcode = 0x51 then nes_op_call nes_op_eor nes_v_ndy nes else
  if opcode = 0x24 then nes_op_call nes_op_bit nes_v_zpg nes else
  if opcode = 0x2C then nes_op_call nes_op_bit nes_v_abs nes else
  if opcode = 0x2A then nes_op_call nes_op_rola nes_v_acc nes else
  if opcode = 0x26 then nes_op_call nes_op_rol nes_a_zpg nes else
  if opcode = 0x36 then nes_op_call nes_op_rol nes_a_zpx nes else
  if opcode = 0x2E then nes_op_call nes_op_rol nes_a_abs nes else
  if opcode = 0x3E then nes_op_call nes_op_rol nes_a_abx nes else
  if opcode = 0x6A then nes_op_call nes_op_rora nes_v_acc nes else
  if opcode = 0x66 then nes_op_call nes_op_ror nes_a_zpg nes else
  if opcode = 0x76 then nes_op_call nes_op_ror nes_a_zpx nes else
  if opcode = 0x6E then nes_op_call nes_op_ror nes_a_abs nes else
  if opcode = 0x7E then nes_op_call nes_op_ror nes_a_abx nes else
  if opcode = 0x0A then nes_op_call nes_op_asla nes_v_acc nes else
  if opcode = 0x06 then nes_op_call nes_op_asl nes_a_zpg nes else
  if opcode = 0x16 then nes_op_call nes_op_asl nes_a_zpx nes else
  if opcode = 0x0E then nes_op_call nes_op_asl nes_a_abs nes else
  if opcode = 0x1E then nes_op_call nes_op_asl nes_a_abx nes else
  if opcode = 0x4A then nes_op_call nes_op_lsra nes_v_acc nes else
  if opcode = 0x46 then nes_op_call nes_op_lsr nes_a_zpg nes else
  if opcode = 0x56 then nes_op_call nes_op_lsr nes_a_zpx nes else
  if opcode = 0x4E then nes_op_call nes_op_lsr nes_a_abs nes else
  if opcode = 0x5E then nes_op_call nes_op_lsr nes_a_abx nes else
  if opcode = 0xE6 then nes_op_call nes_op_inc nes_a_zpg nes else
  if opcode = 0xF6 then nes_op_call nes_op_inc nes_a_zpx nes else
  if opcode = 0xEE then nes_op_call nes_op_inc nes_a_abs nes else
  if opcode = 0xFE then nes_op_call nes_op_inc nes_a_abx nes else
  if opcode = 0xC6 then nes_op_call nes_op_dec nes_a_zpg nes else
  if opcode = 0xD6 then nes_op_call nes_op_dec nes_a_zpx nes else
  if opcode = 0xCE then nes_op_call nes_op_dec nes_a_abs nes else
  if opcode = 0xDE then nes_op_call nes_op_dec nes_a_abx nes else
  if opcode = 0xE8 then nes_op_inx nes else
  if opcode = 0xCA then nes_op_dex nes else
  if opcode = 0xC8 then nes_op_iny nes else
  if opcode = 0x88 then nes_op_dey nes else
  if opcode = 0xAA then nes_op_tax nes else
  if opcode = 0xA8 then nes_op_tay nes else
  if opcode = 0x8A then nes_op_txa nes else
  if opcode = 0x98 then nes_op_tya nes else
  if opcode = 0x9A then nes_op_txs nes else
  if opcode = 0xBA then nes_op_tsx nes else
  if opcode = 0x18 then nes_op_clc nes else
  if opcode = 0x38 then nes_op_sec nes else
  if opcode = 0x58 then nes_op_cli nes else
  if opcode = 0x78 then nes_op_sei nes else
  if opcode = 0xB8 then nes_op_clv nes else
  if opcode = 0xD8 then nes_op_cld nes else
  if opcode = 0xF8 then nes_op_sed nes else
  if opcode = 0x10 then nes_op_bpl nes else
  if opcode = 0x30 then nes_op_bmi nes else
  if opcode = 0x50 then nes_op_bvc nes else
  if opcode = 0x70 then nes_op_bvs nes else
  if opcode = 0x90 then nes_op_bcc nes else
  if opcode = 0xB0 then nes_op_bcs nes else
  if opcode = 0xD0 then nes_op_bne nes else
  if opcode = 0xF0 then nes_op_beq nes else
  if opcode = 0x4C then nes_op_jmp nes else
  if opcode = 0x6C then nes_op_jmi nes else
  if opcode = 0x20 then nes_op_jsr nes else
  if opcode = 0x60 then nes_op_rts nes else
  if opcode = 0x00 then nes_op_brk nes else
  if opcode = 0x40 then nes_op_rti nes else
  if opcode = 0x48 then nes_op_pha nes else
  if opcode = 0x68 then nes_op_pla nes else
  if opcode = 0x08 then nes_op_php nes else
  if opcode = 0x28 then nes_op_plp nes else
  if opcode = 0x1A then nes_op_nop nes else
  if opcode = 0x3A then nes_op_nop nes else
  if opcode = 0x5A then nes_op_nop nes else
  if opcode = 0x7A then nes_op_nop nes else
  if opcode = 0xDA then nes_op_nop nes else
  if opcode = 0xEA then nes_op_nop nes else
  if opcode = 0xFA then nes_op_nop nes else
  if opcode = 0x0B then nes_op_call nes_op_anc nes_v_imm nes else
  if opcode = 0x4B then nes_op_call nes_op_alr nes_v_imm nes else
  if opcode = 0x6B then nes_op_call nes_op_arr nes_v_imm nes else
  if opcode = 0xCB then nes_op_call nes_op_axs nes_v_imm nes else
  if opcode = 0xA3 then nes_op_call nes_op_lax nes_v_ndx nes else
  if opcode = 0xA7 then nes_op_call nes_op_lax nes_v_zpg nes else
  if opcode = 0xAF then nes_op_call nes_op_lax nes_v_abs nes else
  if opcode = 0xB3 then nes_op_call nes_op_lax nes_v_ndy nes else
  if opcode = 0xB7 then nes_op_call nes_op_lax nes_v_zpy nes else
  if opcode = 0xBF then nes_op_call nes_op_lax nes_v_aby nes else
  if opcode = 0x83 then nes_op_call nes_op_sax nes_a_ndx nes else
  if opcode = 0x87 then nes_op_call nes_op_sax nes_a_zpg nes else
  if opcode = 0x8F then nes_op_call nes_op_sax nes_a_abs nes else
  if opcode = 0x97 then nes_op_call nes_op_sax nes_a_zpy nes else
  if opcode = 0xC3 then nes_op_call nes_op_dcp nes_a_ndx nes else
  if opcode = 0xC7 then nes_op_call nes_op_dcp nes_a_zpg nes else
  if opcode = 0xCF then nes_op_call nes_op_dcp nes_a_abs nes else
  if opcode = 0xD3 then nes_op_call nes_op_dcp nes_a_ndy nes else
  if opcode = 0xD7 then nes_op_call nes_op_dcp nes_a_zpx nes else
  if opcode = 0xDB then nes_op_call nes_op_dcp nes_a_aby nes else
  if opcode = 0xDF then nes_op_call nes_op_dcp nes_a_abx nes else
  if opcode = 0xE3 then nes_op_call nes_op_isb nes_a_ndx nes else
  if opcode = 0xE7 then nes_op_call nes_op_isb nes_a_zpg nes else
  if opcode = 0xEF then nes_op_call nes_op_isb nes_a_abs nes else
  if opcode = 0xF3 then nes_op_call nes_op_isb nes_a_ndy nes else
  if opcode = 0xF7 then nes_op_call nes_op_isb nes_a_zpx nes else
  if opcode = 0xFB then nes_op_call nes_op_isb nes_a_aby nes else
  if opcode = 0xFF then nes_op_call nes_op_isb nes_a_abx nes else
  if opcode = 0x23 then nes_op_call nes_op_rla nes_a_ndx nes else
  if opcode = 0x27 then nes_op_call nes_op_rla nes_a_zpg nes else
  if opcode = 0x2F then nes_op_call nes_op_rla nes_a_abs nes else
  if opcode = 0x33 then nes_op_call nes_op_rla nes_a_ndy nes else
  if opcode = 0x37 then nes_op_call nes_op_rla nes_a_zpx nes else
  if opcode = 0x3B then nes_op_call nes_op_rla nes_a_aby nes else
  if opcode = 0x3F then nes_op_call nes_op_rla nes_a_abx nes else
  if opcode = 0x63 then nes_op_call nes_op_rra nes_a_ndx nes else
  if opcode = 0x67 then nes_op_call nes_op_rra nes_a_zpg nes else
  if opcode = 0x6F then nes_op_call nes_op_rra nes_a_abs nes else
  if opcode = 0x73 then nes_op_call nes_op_rra nes_a_ndy nes else
  if opcode = 0x77 then nes_op_call nes_op_rra nes_a_zpx nes else
  if opcode = 0x7B then nes_op_call nes_op_rra nes_a_aby nes else
  if opcode = 0x7F then nes_op_call nes_op_rra nes_a_abx nes else
  if opcode = 0x03 then nes_op_call nes_op_slo nes_a_ndx nes else
  if opcode = 0x07 then nes_op_call nes_op_slo nes_a_zpg nes else
  if opcode = 0x0F then nes_op_call nes_op_slo nes_a_abs nes else
  if opcode = 0x13 then nes_op_call nes_op_slo nes_a_ndy nes else
  if opcode = 0x17 then nes_op_call nes_op_slo nes_a_zpx nes else
  if opcode = 0x1B then nes_op_call nes_op_slo nes_a_aby nes else
  if opcode = 0x1F then nes_op_call nes_op_slo nes_a_abx nes else
  if opcode = 0x43 then nes_op_call nes_op_sre nes_a_ndx nes else
  if opcode = 0x47 then nes_op_call nes_op_sre nes_a_zpg nes else
  if opcode = 0x4F then nes_op_call nes_op_sre nes_a_abs nes else
  if opcode = 0x53 then nes_op_call nes_op_sre nes_a_ndy nes else
  if opcode = 0x57 then nes_op_call nes_op_sre nes_a_zpx nes else
  if opcode = 0x5B then nes_op_call nes_op_sre nes_a_aby nes else
  if opcode = 0x5F then nes_op_call nes_op_sre nes_a_abx nes else
  if opcode = 0xEB then nes_op_call nes_op_sbc nes_v_imm nes else
  if opcode = 0x80 then nes_op_call nes_op_skb nes_v_imm nes else
  if opcode = 0x82 then nes_op_call nes_op_skb nes_v_imm nes else
  if opcode = 0x89 then nes_op_call nes_op_skb nes_v_imm nes else
  if opcode = 0xC2 then nes_op_call nes_op_skb nes_v_imm nes else
  if opcode = 0xE2 then nes_op_call nes_op_skb nes_v_imm nes else
  if opcode = 0x0C then nes_op_call nes_op_ign nes_a_abs nes else
  if opcode = 0x1C then nes_op_call nes_op_ign nes_a_abx nes else
  if opcode = 0x3C then nes_op_call nes_op_ign nes_a_abx nes else
  if opcode = 0x5C then nes_op_call nes_op_ign nes_a_abx nes else
  if opcode = 0x7C then nes_op_call nes_op_ign nes_a_abx nes else
  if opcode = 0xDC then nes_op_call nes_op_ign nes_a_abx nes else
  if opcode = 0xFC then nes_op_call nes_op_ign nes_a_abx nes else
  if opcode = 0x04 then nes_op_call nes_op_ign nes_a_zpg nes else
  if opcode = 0x44 then nes_op_call nes_op_ign nes_a_zpg nes else
  if opcode = 0x64 then nes_op_call nes_op_ign nes_a_zpg nes else
  if opcode = 0x14 then nes_op_call nes_op_ign nes_a_zpx nes else
  if opcode = 0x34 then nes_op_call nes_op_ign nes_a_zpx nes else
  if opcode = 0x54 then nes_op_call nes_op_ign nes_a_zpx nes else
  if opcode = 0x74 then nes_op_call nes_op_ign nes_a_zpx nes else
  if opcode = 0xD4 then nes_op_call nes_op_ign nes_a_zpx nes else
  if opcode = 0xF4 then nes_op_call nes_op_ign nes_a_zpx nes else
  nes

/-- Reads and executes next instruction; returns the number of cycles spent
(`uint32_t`). -/
def nes_cpu_op (nes : nes_t) : Nat × nes_t :=
  let nes := { nes with cpu := { nes.cpu with pages_crossed := 0 } }
  if nes.cpu.stall ≠ 0 then
    (1, { nes with cpu := { nes.cpu with stall := nes.cpu.stall - 1 } })
  else
    let cycle_old := nes.cpu.cycle
    let r := nes_mem_read_nextb nes
    let opcode := r.1 % 0x100
    let nes := nes_cpu_op_switch opcode r.2
    let nes := { nes with cpu := { nes.cpu with
      cycle := (nes.cpu.cycle + op_cycles opcode) % 0x10000000000000000 } }
    let nes := { nes with cpu := { nes.cpu with
      cycle :=
        if nes.cpu.pages_crossed ≠ 0 then
          (nes.cpu.cycle + op_page_cycles opcode) % 0x10000000000000000
        else nes.cpu.cycle } }
    (((nes.cpu.cycle + 0x10000000000000000 - cycle_old) % 0x10000000000000000) % 0x100000000, nes)

/-! ## nes_ppu.c: rendering -/

/-- Standard NES palette in ARGB8888 (`nes_palette[64]`). -/
def nes_palette (i : Nat) : Nat :=
  [
   0xFF666666, 0xFF002A88, 0xFF1412A7, 0xFF3B00A4, 0xFF5C007E, 0xFF6E0040, 0xFF6C0600, 0xFF561D00,
   0xFF333500, 0xFF0B4800, 0xFF005200, 0xFF004F08, 0xFF00404D, 0xFF000000, 0xFF000000, 0xFF000000,
   0xFFADADAD, 0xFF155FD9, 0xFF4240FF, 0xFF7527FE, 0xFFA01ACC, 0xFFB71E7B, 0xFFB53120, 0xFF994E00,
   0xFF6B6D00, 0xFF388700, 0xFF0C9300, 0xFF008F32, 0xFF007C8D, 0xFF000000, 0xFF000000, 0xFF000000,
   0xFFFFFEFF, 0xFF64B0FF, 0xFF9290FF, 0xFFC676FF, 0xFFF36AFF, 0xFFFE6ECC, 0xFFFE8170, 0xFFEA9E22,
   0xFFBCBE00, 0xFF88D800, 0xFF5CE430, 0xFF45E082, 0xFF48CDDE, 0xFF4F4F4F, 0xFF000000, 0xFF000000,
   0xFFFFFEFF, 0xFFC0DFFF, 0xFFD3D2FF, 0xFFE8C8FF, 0xFFFBC2FF, 0xFFFEC4EA, 0xFFFECCC5, 0xFFF7D8A5,
   0xFFE4E594, 0xFFCFEF96, 0xFFBDF4AB, 0xFFB3F3CC, 0xFFB5EBF2, 0xFFB8B8B8, 0xFF000000, 0xFF000000].getD i 0

/-- Returns ARGB8888 value from NES color index, handling color emphasis
bits. -/
def nes_ppu_get_color (nes : nes_t) (col : Nat) : Nat :=
  let col := if BITGET nes.ppu.mask NES_PPU_MASK_GRAYSCALE ≠ 0 then col &&& 0x30 else col
  let ret := nes_palette (col &&& 0x3F)
  if nes.ppu.mask &&& 0xE0 = 0xE0 then
    let r := ((ret &&& 0x00FF0000) >>> 17) % 0x100
    let g := ((ret &&& 0x0000FF00) >>> 9) % 0x100
    let b := ((ret &&& 0x000000FF) >>> 1) % 0x100
    (0xFF000000 ||| (r <<< 16) ||| (g <<< 8) ||| b) % 0x100000000
  else if ret &&& 0x00FEFEFE ≠ 0 then
    let ret := if BITGET nes.ppu.mask NES_PPU_MASK_ERED ≠ 0 then ret ||| 0x00FF0000 else ret
    let ret := if BITGET nes.ppu.mask NES_PPU_MASK_EGREEN ≠ 0 then ret ||| 0x0000FF00 else ret
    let ret := if BITGET nes.ppu.mask NES_PPU_MASK_EBLUE ≠ 0 then ret ||| 0x000000FF else ret
    ret
  else ret

/-- Advances vram pointer to the next tile row. -/
def nes_ppu_increment_y (nes : nes_t) : nes_t :=
  let v := nes.ppu.vmem_addr
  let v :=
    if v &&& 0x7000 ≠ 0x7000 then (v + 0x1000) % 0x10000
    else
      let v := v &&& 0x8FFF
      let y := (v &&& 0x03E0) >>> 5
      if y = 29 then (((v ^^^ 0x0800) &&& 0xFC1F) ||| (0 <<< 5)) % 0x10000
      else if y = 31 then ((v &&& 0xFC1F) ||| (0 <<< 5)) % 0x10000
      else ((v &&& 0xFC1F) ||| ((y + 1) <<< 5)) % 0x10000
  { nes with ppu := { nes.ppu with vmem_addr := v } }

/-- Advances vram pointer to the next tile column. -/
def nes_ppu_increment_x (nes : nes_t) : nes_t :=
  let v := nes.ppu.vmem_addr
  let v :=
    if v &&& 0x001F = 0x1F then ((v &&& 0xFFE0) ^^^ 0x0400) % 0x10000
    else (v + 1) % 0x10000
  { nes with ppu := { nes.ppu with vmem_addr := v } }

/-- Copies Y part of the temp pointer to the actual vram pointer. -/
def nes_ppu_copy_y (nes : nes_t) : nes_t :=
  { nes with ppu := { nes.ppu with
      vmem_addr := ((nes.ppu.vmem_addr &&& 0x841F) ||| (nes.ppu.tmp_addr &&& 0x7BE0)) % 0x10000 } }

/-- Copies X part of the temp pointer to the actual vram pointer. -/
def nes_ppu_copy_x (nes : nes_t) : nes_t :=
  { nes with ppu := { nes.ppu with
      vmem_addr := ((nes.ppu.vmem_addr &&& 0xFBE0) ||| (nes.ppu.tmp_addr &&& 0x041F)) % 0x10000 } }

/-- Fetches nametable data for current tile. -/
def nes_ppu_fetch_nta (nes : nes_t) : nes_t :=
  let t := nes.ppu.vmem_addr
  { nes with ppu := { nes.ppu with tile := { nes.ppu.tile with
      nta := nes_vmem_readb nes (0x2000 ||| (t &&& 0x0FFF)) } } }

/-- Fetches attribute data for current tile. -/
def nes_ppu_fetch_attr (nes : nes_t) : nes_t :=
  let t := nes.ppu.vmem_addr
  let addr := 0x23C0 ||| (t &&& 0x0C00) ||| ((t >>> 4) &&& 0x38) ||| ((t >>> 2) &&& 0x07)
  let shift := ((t >>> 4) &&& 0x04) ||| (t &&& 0x02)
  { nes with ppu := { nes.ppu with tile := { nes.ppu.tile with
      attr := ((((nes_vmem_readb nes addr) >>> shift) &&& 0x03) <<< 2) % 0x100 } } }

/-- Fetches tile graphics for current tile. -/
def nes_ppu_fetch_tile (nes : nes_t) (hi : Nat) : nes_t :=
  let fine_y := (nes.ppu.vmem_addr >>> 12) &&& 0x07
  let table := c_bool (decide (BITGET nes.ppu.ctrl NES_PPU_CTRL_BGTABLE ≠ 0))
  let tile := nes.ppu.tile.nta
  let addr := (0x1000 * table + tile * 16 + fine_y) % 0x10000
  if hi ≠ 0 then
    { nes with ppu := { nes.ppu with tile := { nes.ppu.tile with
        data_hi := nes_vmem_readb nes ((addr + 0x08) % 0x10000) } } }
  else
    { nes with ppu := { nes.ppu with tile := { nes.ppu.tile with
        data_lo := nes_vmem_readb nes addr } } }

/-- The loop of `nes_ppu_store_tile`, `n` iterations left, on the tile and the
local `data`. -/
def nes_ppu_store_tile_loop : Nat → nes_ppu_tile_t → Nat → nes_ppu_tile_t × Nat
  | 0, tile, data => (tile, data)
  | n + 1, tile, data =>
    let a := tile.attr
    let p1 := (tile.data_lo &&& 0x80) >>> 7
    let p2 := (tile.data_hi &&& 0x80) >>> 6
    let tile := { tile with data_lo := (tile.data_lo <<< 1) % 0x100 }
    let tile := { tile with data_hi := (tile.data_hi <<< 1) % 0x100 }
    let data := (data <<< 4) % 0x100000000
    let data := data ||| (a ||| p1 ||| p2)
    nes_ppu_store_tile_loop n tile data

/-- Forms complete tile data from attributes and hi and lo bytes. -/
def nes_ppu_store_tile (nes : nes_t) : nes_t :=
  let r := nes_ppu_store_tile_loop 8 nes.ppu.tile 0
  { nes with ppu := { nes.ppu with tile := { r.1 with data := r.1.data ||| r.2 } } }

/-- The bit-reversing loop of `nes_ppu_fetch_spr` (`attr & 0x40` set), `n`
iterations left. -/
def nes_ppu_fetch_spr_flip : Nat → Nat → Nat → Nat → Nat → Nat
  | 0, _, _, _, data => data
  | n + 1, a, lo, hi, data =>
    let p1 := (lo &&& 0x01) <<< 0
    let p2 := (hi &&& 0x01) <<< 1
    let lo := lo >>> 1
    let hi := hi >>> 1
    let data := (data <<< 4) % 0x100000000
    let data := data ||| (a ||| p1 ||| p2)
    nes_ppu_fetch_spr_flip n a lo hi data

/-- The straight loop of `nes_ppu_fetch_spr`, `n` iterations left. -/
def nes_ppu_fetch_spr_noflip : Nat → Nat → Nat → Nat → Nat → Nat
  | 0, _, _, _, data => data
  | n + 1, a, lo, hi, data =>
    let p1 := (lo &&& 0x80) >>> 7
    let p2 := (hi &&& 0x80) >>> 6
    let lo := (lo <<< 1) % 0x100
    let hi := (hi <<< 1) % 0x100
    let data := (data <<< 4) % 0x100000000
    let data := data ||| (a ||| p1 ||| p2)
    nes_ppu_fetch_spr_noflip n a lo hi data

/-- Returns sprite data for the row-th row of the i-th sprite. -/
def nes_ppu_fetch_spr (nes : nes_t) (i : Nat) (row : Int) : Nat :=
  let tile := nes.vmem.oam (i * 4 + 1)
  let attr := nes.vmem.oam (i * 4 + 2)
  let sel : Nat × Nat × Int :=
    if BITGET nes.ppu.ctrl NES_PPU_CTRL_SPRSIZE ≠ 0 then
      let row := if attr &&& 0x80 ≠ 0 then 15 - row else row
      let table := tile &&& 0x01
      let tile := tile &&& 0xFE
      if row > 7 then (table, (tile + 1) % 0x100, row - 8) else (table, tile, row)
    else
      let row := if attr &&& 0x80 ≠ 0 then 7 - row else row
      (c_bool (decide (BITGET nes.ppu.ctrl NES_PPU_CTRL_SPRTABLE ≠ 0)), tile, row)
  let table := sel.1
  let tile := sel.2.1
  let row := sel.2.2
  let addr := Int.toNat (((0x1000 * table + tile * 16 : Nat) + row) % 0x10000)
  let a := ((attr &&& 0x03) <<< 2) % 0x100
  let lo := nes_vmem_readb nes addr
  let hi := nes_vmem_readb nes ((addr + 0x08) % 0x10000)
  if attr &&& 0x40 ≠ 0 then nes_ppu_fetch_spr_flip 8 a lo hi 0
  else nes_ppu_fetch_spr_noflip 8 a lo hi 0

/-- The loop of `nes_ppu_process_sprites` over the sprites `i .. 63` (`k`
sprites left), with the count `n` of sprites found so far on the line. -/
def nes_ppu_process_sprites_loop : Nat → Nat → Int → nes_t → Nat → nes_t × Nat
  | 0, _, _, nes, n => (nes, n)
  | k + 1, i, h, nes, n =>
    let y := nes.vmem.oam (i * 4 + 0)
    let a := nes.vmem.oam (i * 4 + 2)
    let x := nes.vmem.oam (i * 4 + 3)
    let row := nes.ppu.scanline - (y : Int)
    if row < 0 ∨ row ≥ h then nes_ppu_process_sprites_loop k (i + 1) h nes n
    else
      let spr : Nat → nes_ppu_spr_t :=
        if n < 8 then
          arr_set nes.ppu.spr n
            { data := nes_ppu_fetch_spr nes i row % 0x100000000
              pos := x
              pri := (a >>> 5) &&& 0x01
              idx := i }
        else nes.ppu.spr
      nes_ppu_process_sprites_loop k (i + 1) h { nes with ppu := { nes.ppu with spr := spr } }
        (n + 1)

/-- Prepares sprite data (fills the `nes_ppu_spr_t` structs). -/
def nes_ppu_process_sprites (nes : nes_t) : nes_t :=
  let h : Int := if BITGET nes.ppu.ctrl NES_PPU_CTRL_SPRSIZE ≠ 0 then 16 else 8
  let r := nes_ppu_process_sprites_loop 64 0 h nes 0
  let nes := r.1
  let n := r.2
  { nes with ppu := { nes.ppu with
      status :=
        if n > 8 then BITSET nes.ppu.status NES_PPU_STATUS_OVERFLOW % 0x100
        else nes.ppu.status
      spr_count := if n > 8 then 8 else n } }

/-- Returns background color for current pixel. -/
def nes_ppu_get_bg_pixel (nes : nes_t) : Nat :=
  if BITGET nes.ppu.mask NES_PPU_MASK_BG = 0 then 0x00
  else
    let data := ((nes.ppu.tile.data >>> 32) >>> ((7 - nes.ppu.fine_x) * 4)) % 0x100000000
    (data &&& 0x0F) % 0x100

/-- The loop of `nes_ppu_get_spr_pixel` over the entries `i ..` (`k` entries
left); returns the pair `(p, n)`. -/
def nes_ppu_get_spr_pixel_loop : Nat → Nat → nes_t → Nat × Nat
  | 0, _, _ => (0x00, 0x00)
  | k + 1, i, nes =>
    let offset := nes.ppu.cycle - 1 - ((nes.ppu.spr i).pos : Int)
    if offset < 0 ∨ offset > 7 then nes_ppu_get_spr_pixel_loop k (i + 1) nes
    else
      let offset := 7 - offset
      let col := (((nes.ppu.spr i).data >>> (Int.toNat offset * 4)) &&& 0x0F) % 0x100
      if col &&& 0x03 = 0 then nes_ppu_get_spr_pixel_loop k (i + 1) nes
      else (col, i % 0x100)

/-- Returns sprite color and index for current pixel (both 0 if no sprite
here), as the pair `(p, n)`. -/
def nes_ppu_get_spr_pixel (nes : nes_t) : Nat × Nat :=
  if BITGET nes.ppu.mask NES_PPU_MASK_SPR = 0 then (0x00, 0x00)
  else nes_ppu_get_spr_pixel_loop nes.ppu.spr_count 0 nes

/-- Store of a pixel into the back buffer: `back->data[y][x] = v`. -/
def nes_ppu_put_pixel (nes : nes_t) (y x : Int) (v : Nat) : nes_t :=
  { nes with ppu := { nes.ppu with
      back := ⟨arr_set nes.ppu.back.data (Int.toNat y)
        (arr_set (nes.ppu.back.data (Int.toNat y)) (Int.toNat x) v)⟩ } }

/-- Draws current pixel into the back buffer. -/
def nes_ppu_render_pixel (nes : nes_t) : nes_t :=
  let x := nes.ppu.cycle - 1
  let y := nes.ppu.scanline
  let bg := nes_ppu_get_bg_pixel nes
  let sp := nes_ppu_get_spr_pixel nes
  let spr := sp.1
  let spr_idx := sp.2
  let bg := if x < 8 ∧ BITGET nes.ppu.mask NES_PPU_MASK_LEFTBG = 0 then 0 else bg
  let spr := if x < 8 ∧ BITGET nes.ppu.mask NES_PPU_MASK_LEFTSPR = 0 then 0 else spr
  let b := bg &&& 0x03
  let s := spr &&& 0x03
  let col :=
    if b ≠ 0 ∧ s = 0 then bg
    else if b = 0 ∧ s ≠ 0 then (spr ||| 0x10) % 0x100
    else if b ≠ 0 ∧ s ≠ 0 then
      (if (nes.ppu.spr spr_idx).pri = 0 then (spr ||| 0x10) % 0x100 else bg)
    else 0x00
  let nes := { nes with ppu := { nes.ppu with
    status :=
      if b ≠ 0 ∧ s ≠ 0 ∧ (nes.ppu.spr spr_idx).idx = 0 ∧ x < 255 then
        BITSET nes.ppu.status NES_PPU_STATUS_SPRITE0 % 0x100
      else nes.ppu.status } }
  nes_ppu_put_pixel nes y x (nes_ppu_get_color nes (nes.vmem.pal col))

/-- First block of `nes_ppu_clock`: decrements NMI delay and triggers NMI if
possible. -/
def nes_ppu_clock_nmi (nes : nes_t) : nes_t :=
  if nes.ppu.nmi_delay > 0 then
    let nes := { nes with ppu := { nes.ppu with nmi_delay := nes.ppu.nmi_delay - 1 } }
    if nes.ppu.nmi_delay = 0 ∧ BITGET nes.ppu.ctrl NES_PPU_CTRL_NMI ≠ 0 ∧
        BITGET nes.ppu.flags NES_PPU_FLAG_NMI ≠ 0 then
      nes_cpu_nmi nes
    else nes
  else nes

/-- Rest of `nes_ppu_clock`: increments cycle, scanline and frame counters. -/
def nes_ppu_clock_count (ppu : nes_ppu_t) : nes_ppu_t :=
  if (BITGET ppu.mask NES_PPU_MASK_BG ≠ 0 ∨ BITGET ppu.mask NES_PPU_MASK_SPR ≠ 0) ∧
      (ppu.frame_end ≠ 0 ∧ ppu.scanline = 261 ∧ ppu.cycle = 339) then
    { ppu with
      cycle := 0
      scanline := 0
      frame := (ppu.frame + 1) % 0x100000000
      frame_end := (ppu.frame_end ^^^ 1) % 0x100 }
  else
    let ppu := { ppu with cycle := ppu.cycle + 1 }
    if ppu.cycle > 340 then
      let ppu := { ppu with cycle := 0 }
      let ppu := { ppu with scanline := ppu.scanline + 1 }
      if ppu.scanline > 261 then
        { ppu with
          scanline := 0
          frame := (ppu.frame + 1) % 0x100000000
          frame_end := (ppu.frame_end ^^^ 1) % 0x100 }
      else ppu
    else ppu

/-- Counts cycle, scanline and frame, decrements NMI delay and triggers NMI
if possible. -/
def nes_ppu_clock (nes : nes_t) : nes_t :=
  let nes := nes_ppu_clock_nmi nes
  { nes with ppu := nes_ppu_clock_count nes.ppu }

/-- `nes_ppu_tick`, the tile fetch of a fetch cycle on a render line:
`tile.data <<= 4; switch (cycle & 0x07) ...`. -/
def nes_ppu_tick_fetch (nes : nes_t) : nes_t :=
  let nes := { nes with ppu := { nes.ppu with tile := { nes.ppu.tile with
    data := (nes.ppu.tile.data <<< 4) % 0x10000000000000000 } } }
  match Int.toNat (nes.ppu.cycle % 8) with
  | 1 => nes_ppu_fetch_nta nes
  | 3 => nes_ppu_fetch_attr nes
  | 5 => nes_ppu_fetch_tile nes 0
  | 7 => nes_ppu_fetch_tile nes 1
  | 0 => nes_ppu_store_tile nes
  | _ => nes

/-- `nes_ppu_tick`, the scroll updates in `if (render_line) { ... }`. -/
def nes_ppu_tick_scroll (nes : nes_t) (fetch_cycle : Bool) : nes_t :=
  let nes := if fetch_cycle ∧ nes.ppu.cycle % 8 = 0 then nes_ppu_increment_x nes else nes
  let nes := if nes.ppu.cycle = 256 then nes_ppu_increment_y nes else nes
  if nes.ppu.cycle = 257 then nes_ppu_copy_x nes else nes

/-- `nes_ppu_tick`, the body of `if (render) { ... }`. -/
def nes_ppu_tick_render (nes : nes_t) (pre_line vis_line render_line : Bool)
    (vis_cycle fetch_cycle : Bool) : nes_t :=
  let nes := if vis_line ∧ vis_cycle then nes_ppu_render_pixel nes else nes
  let nes := if render_line ∧ fetch_cycle then nes_ppu_tick_fetch nes else nes
  let nes :=
    if pre_line ∧ nes.ppu.cycle ≥ 280 ∧ nes.ppu.cycle ≤ 304 then nes_ppu_copy_y nes else nes
  let nes := if render_line then nes_ppu_tick_scroll nes fetch_cycle else nes
  if nes.ppu.cycle = 257 then
    if vis_line then nes_ppu_process_sprites nes
    else { nes with ppu := { nes.ppu with spr_count := 0 } }
  else nes

/-- `nes_ppu_tick`, the body of `if (pre_line) { ... }` at cycle 1. -/
def nes_ppu_tick_pre_line (nes : nes_t) : nes_t :=
  let nes := nes_ppu_clr_vblank nes
  let nes := { nes with ppu := { nes.ppu with
    status := BITCLR nes.ppu.status NES_PPU_STATUS_SPRITE0 % 0x100 } }
  { nes with ppu := { nes.ppu with
    status := BITCLR nes.ppu.status NES_PPU_STATUS_OVERFLOW % 0x100 } }

/-- `nes_ppu_tick`, the body of `if (nes->ppu.cycle == 1) { ... }`. -/
def nes_ppu_tick_vblank (nes : nes_t) (pre_line : Bool) : nes_t :=
  let nes := if nes.ppu.scanline = 241 then nes_ppu_set_vblank nes else nes
  if pre_line then nes_ppu_tick_pre_line nes else nes

/-- One PPU tick. -/
def nes_ppu_tick (nes : nes_t) : nes_t :=
  let nes := nes_ppu_clock nes
  let render : Bool :=
    decide (BITGET nes.ppu.mask NES_PPU_MASK_BG ≠ 0 ∨ BITGET nes.ppu.mask NES_PPU_MASK_SPR ≠ 0)
  let pre_line : Bool := decide (nes.ppu.scanline = 261)
  let vis_line : Bool := decide (nes.ppu.scanline < 240)
  let render_line : Bool := pre_line || vis_line
  let pre_cycle : Bool := decide (nes.ppu.cycle ≥ 321 ∧ nes.ppu.cycle ≤ 336)
  let vis_cycle : Bool := decide (nes.ppu.cycle ≥ 1 ∧ nes.ppu.cycle ≤ 256)
  let fetch_cycle : Bool := pre_cycle || vis_cycle
  let nes :=
    if render then nes_ppu_tick_render nes pre_line vis_line render_line vis_cycle fetch_cycle
    else if vis_line ∧ vis_cycle then
      nes_ppu_put_pixel nes nes.ppu.scanline (nes.ppu.cycle - 1)
        (nes_ppu_get_color nes (nes.vmem.pal 0x00))
    else nes
  if nes.ppu.cycle = 1 then nes_ppu_tick_vblank nes pre_line else nes

/-! ## mappers/mmc3.h and nes_mappers.c: mapper tick -/

/-- Checks for and triggers scanline IRQ. -/
def nes_mmc3_scanline (nes : nes_t) : nes_t :=
  let mmc := mmc3_extra nes
  if mmc.counter = 0 then
    set_mmc3_extra nes { mmc with counter := mmc.reload }
  else
    let mmc := { mmc with counter := mmc.counter - 1 }
    let nes := set_mmc3_extra nes mmc
    if mmc.counter = 0 ∧ mmc.irq ≠ 0 then nes_cpu_irq nes else nes

/-- Tick function of MMC3. -/
def nes_tick_mmc3 (nes : nes_t) : nes_t :=
  if nes.ppu.cycle ≠ 260 then nes
  else if nes.ppu.scanline > 239 ∧ nes.ppu.scanline < 261 then nes
  else if BITGET nes.ppu.mask NES_PPU_MASK_BG = 0 ∧ BITGET nes.ppu.mask NES_PPU_MASK_SPR = 0 then
    nes
  else nes_mmc3_scanline nes

/-- `if (nes->cart.mapper.funcs.tick) nes->cart.mapper.funcs.tick(nes);` only
the MMC3 table has a tick function. -/
def nes_mapper_tick (nes : nes_t) : nes_t :=
  match nes.cart.mapper.funcs with
  | .mmc3 => nes_tick_mmc3 nes
  | _ => nes

/-! ## The PPU as the program drives it -/

/-- The machine states in which the PPU has only been driven by the program:
the power-on state of `nes_ppu_init`, then any sequence of `nes_ppu_reset`,
PPU ticks, PPU register reads and writes, OAM DMA, the clearing of the RENDER
flag at the end of `nes_process`, and steps of the rest of the machine (CPU
registers, memory, APU, input, mapper) that leave the PPU registers as they
are. -/
inductive ppu_reachable : nes_t → Prop
  | init (s : nes_t) : s.ppu = nes_ppu_init s.ppu → ppu_reachable s
  | reset (s : nes_t) : ppu_reachable s → ppu_reachable { s with ppu := nes_ppu_reset s.ppu }
  | tick (s : nes_t) : ppu_reachable s → ppu_reachable (nes_ppu_tick s)
  | read (s : nes_t) (r : Nat) : ppu_reachable s → ppu_reachable (nes_ppu_read s r).2
  | write (s : nes_t) (r v : Nat) : ppu_reachable s → ppu_reachable (nes_ppu_write s r v)
  | oamdma (s : nes_t) (p : Nat) : ppu_reachable s → ppu_reachable (nes_ppu_oamdma s p)
  | frame (s : nes_t) : ppu_reachable s →
      ppu_reachable { s with ppu := { s.ppu with
        flags := BITCLR s.ppu.flags NES_PPU_FLAG_RENDER % 0x100 } }
  | other (s t : nes_t) : ppu_reachable s → t.ppu = s.ppu → ppu_reachable t

/-! ## Concrete machine states used in the examples -/

/-- The machine with every byte, register and counter zero, an NROM mapper
table and no cartridge banks. -/
def nes_blank : nes_t :=
  { cpu := ⟨0, 0, 0, 0, 0, 0, 0, 0, 0⟩
    apu :=
      { cycle := 0, sq1 := nes_apu_sqr_zero, sq2 := nes_apu_sqr_zero
        tri := ⟨0, 0, 0, 0, 0, 0, 0, 0⟩
        noi := ⟨0, 0, 0, 0, 0, 0, 0, 0, 0⟩
        dmc := ⟨0, 0, 0, 0, 0, 0, 0, 0, 0, 0⟩
        frame_period := 0, frame_val := 0, frame_irq := 0
        buf := fun _ => 0, buf_size := 0, max_buf_size := 0 }
    mem := { ram := fun _ => 0, prgram := fun _ => 0, past_prgram := fun _ => 0, prg := fun _ => none }
    ppu :=
      { cycle := 0, frame := 0, scanline := 0, flags := 0, ctrl := 0, mask := 0, status := 0
        oam_addr := 0, vmem_addr := 0, tmp_addr := 0, fine_x := 0, readb := 0, bus := 0
        bus_decay := 0, nmi_delay := 0, nmi_prev := 0, frame_end := 0, spr_count := 0
        tile := ⟨0, 0, 0, 0, 0⟩
        spr := fun _ => ⟨0, 0, 0, 0⟩
        front := ⟨fun _ _ => 0⟩
        back := ⟨fun _ _ => 0⟩ }
    vmem := { vram := fun _ => 0, oam := fun _ => 0, pal := fun _ => 0 }
    input := { p1 := ⟨⟨0, 0, 0⟩, ⟨0, 0, 0⟩⟩, p2 := ⟨⟨0, 0, 0⟩, ⟨0, 0, 0⟩⟩, last_write := 0 }
    cart :=
      { mapper := ⟨.nrom, .word 0⟩, mirror := .MIRROR_VERTICAL, chr_ram := 0
        rom16_count := 0, rom := fun _ _ => 0, vram8_count := 0, vram := fun _ _ => 0 } }

/-- A four-bank MMC1 cartridge in the blank machine, every byte of PRG bank
`b` holding the value `b`, right after `nes_mapper_init`. -/
def nes_mmc1_four_banks : nes_t :=
  nes_mapper_init
    { nes_blank with cart := { nes_blank.cart with
        mapper := ⟨.mmc1, .word 0⟩, rom16_count := 4, rom := fun b _ => b } }

/-- The blank machine right after power-on of the PPU. -/
def nes_power_on : nes_t :=
  { nes_blank with ppu := nes_ppu_init nes_blank.ppu }

/-- The blank machine with the CPU RAM holding the indirect jump operand $02FF
at address 0 (where PC points), and the bytes $34 at $02FF, $12 at $0200 and
$56 at $0300. -/
def nes_jmi_example : nes_t :=
  { nes_blank with mem := { nes_blank.mem with
      ram := fun a =>
        if a = 0 then 0xFF else if a = 1 then 0x02 else if a = 0x2FF then 0x34
        else if a = 0x200 then 0x12 else if a = 0x300 then 0x56 else 0 } }

/-- The blank machine with the two bytes $10 $00 (BPL +0) at address 0, where
PC points; P is 0, so the N flag is clear and the branch is taken. -/
def nes_bpl_example : nes_t :=
  { nes_blank with mem := { nes_blank.mem with
      ram := fun a => if a = 0 then 0x10 else 0 } }

/-- The blank machine with the two bytes $A9 $05 (LDA #$05) at address 0,
where PC points. -/
def nes_lda_example : nes_t :=
  { nes_blank with mem := { nes_blank.mem with
      ram := fun a => if a = 0 then 0xA9 else if a = 1 then 0x05 else 0 } }

/-! ## nes_apu.c: DMC reader and timer, APU tick -/

/-- DMC: reads the next byte of the sample straight into the shift register,
which takes 4 CPU clocks; restarts playback after the end of the sample if the
loop flag is set. -/
def nes_apu_dmc_step_reader (nes : nes_t) : nes_t :=
  if nes.apu.dmc.cur_length > 0 ∧ nes.apu.dmc.bit = 0 then
    let nes := { nes with cpu := { nes.cpu with
      stall := (nes.cpu.stall + 4) % 0x10000000000000000 } }
    let r := nes_mem_readb nes nes.apu.dmc.cur_addr
    let nes := r.2
    let dmc : nes_apu_dmc_t := { nes.apu.dmc with shift := r.1 % 0x100 }
    let dmc : nes_apu_dmc_t := { dmc with bit := 8 }
    let dmc : nes_apu_dmc_t := { dmc with cur_addr := (dmc.cur_addr + 1) % 0x10000 }
    let dmc : nes_apu_dmc_t :=
      { dmc with cur_addr := if dmc.cur_addr = 0 then 0x8000 else dmc.cur_addr }
    let dmc : nes_apu_dmc_t := { dmc with cur_length := dmc.cur_length - 1 }
    let dmc : nes_apu_dmc_t :=
      if dmc.cur_length = 0 ∧ BITMGET dmc.flags NES_APU_FLAG_DMC_LOOP ≠ 0 then
        nes_apu_dmc_restart dmc
      else dmc
    { nes with apu := { nes.apu with dmc := dmc } }
  else nes

/-- DMC: steps the timer value (and the whole channel). -/
def nes_apu_dmc_step_tmr (nes : nes_t) : nes_t :=
  if BITMGET nes.apu.dmc.flags NES_APU_FLAG_DMC_ENABLED = 0 then nes
  else
    let nes := nes_apu_dmc_step_reader nes
    if nes.apu.dmc.tick_value = 0 then
      { nes with apu := { nes.apu with
          dmc := nes_apu_dmc_step_shifter
            { nes.apu.dmc with tick_value := nes.apu.dmc.tick_period } } }
    else
      { nes with apu := { nes.apu with
          dmc := { nes.apu.dmc with tick_value := nes.apu.dmc.tick_value - 1 } } }

/-- Timer tick: the square, noise and DMC timers step on every other APU
cycle, the triangle timer on every cycle. -/
def nes_apu_step_tmr (nes : nes_t) : nes_t :=
  let nes :=
    if nes.apu.cycle % 2 = 0 then
      nes_apu_dmc_step_tmr
        { nes with apu := { nes.apu with
            sq1 := nes_apu_sqr_step_tmr nes.apu.sq1
            sq2 := nes_apu_sqr_step_tmr nes.apu.sq2
            noi := nes_apu_noi_step_tmr nes.apu.noi } }
    else nes
  { nes with apu := { nes.apu with tri := nes_apu_tri_step_tmr nes.apu.tri } }

/-- Appends the current output to the sample buffer unless it is full.
`buf_null` tells whether the buffer pointer is `NULL` (`nes_apu_init` stores
what `malloc` returned), in which case nothing is done.  The output byte `out`
is what `nes_apu_get_output`, a `float` computed from the `float` mixer
tables, converts to on the store; it is an argument here. -/
def nes_apu_send_sample (buf_null : Bool) (out : Nat) (nes : nes_t) : nes_t :=
  if buf_null then nes
  else if nes.apu.buf_size = nes.apu.max_buf_size then nes
  else
    { nes with apu := { nes.apu with
        buf := arr_set nes.apu.buf nes.apu.buf_size (out % 0x100)
        buf_size := (nes.apu.buf_size + 1) % 0x100000000 } }

/-- One APU tick.  The two tests `f1 != f2` and `s1 != s2` compare the integer
parts of `double` quotients of the cycle counts by the frame counter rate and
by the sample rate; their outcomes are the arguments `frame_due` and
`sample_due`; `buf_null` and `out` are those of `nes_apu_send_sample`. -/
def nes_apu_tick (frame_due sample_due buf_null : Bool) (out : Nat) (nes : nes_t) : nes_t :=
  let nes := { nes with apu := { nes.apu with
    cycle := (nes.apu.cycle + 1) % 0x10000000000000000 } }
  let nes := nes_apu_step_tmr nes
  let nes := if frame_due then nes_apu_step_frame_counter nes_cpu_irq nes else nes
  if sample_due then nes_apu_send_sample buf_null out nes else nes

/-! ## The APU and the CPU as the program drives them -/

/-- The machine states in which the APU has only been driven by the program:
the power-on state of `nes_apu_init`, then any sequence of register writes,
APU ticks, the emptying of the sample buffer by the front end (`buf_size = 0`
in core.c), and steps of the rest of the machine that leave the APU as it
is. -/
inductive apu_reachable : nes_t → Prop
  | init (s : nes_t) (bsize : Nat) : s.apu = nes_apu_init s.apu bsize → apu_reachable s
  | write (s : nes_t) (a v : Nat) : apu_reachable s →
      apu_reachable (nes_apu_write nes_cpu_irq s a v)
  | tick (s : nes_t) (frame_due sample_due buf_null : Bool) (out : Nat) : apu_reachable s →
      apu_reachable (nes_apu_tick frame_due sample_due buf_null out s)
  | drain (s : nes_t) : apu_reachable s →
      apu_reachable { s with apu := { s.apu with buf_size := 0 } }
  | other (s t : nes_t) : apu_reachable s → t.apu = s.apu → apu_reachable t

/-- The machine states in which the CPU registers have only been driven by
the program: the power-on state of `nes_cpu_init`, then any sequence of
instructions (`nes_cpu_op`), NMI and IRQ entries, and steps of the rest of the
machine, which touch no CPU field but the stall counter (OAM DMA, DMC reader)
and, in the ROM loader, PC (the reset vector). -/
inductive cpu_reachable : nes_t → Prop
  | init (s : nes_t) : s.cpu = nes_cpu_init s.cpu → cpu_reachable s
  | op (s : nes_t) : cpu_reachable s → cpu_reachable (nes_cpu_op s).2
  | nmi (s : nes_t) : cpu_reachable s → cpu_reachable (nes_cpu_nmi s)
  | irq (s : nes_t) : cpu_reachable s → cpu_reachable (nes_cpu_irq s)
  | other (s t : nes_t) : cpu_reachable s →
      t.cpu = { s.cpu with stall := t.cpu.stall, pc := t.cpu.pc } → cpu_reachable t

/-! ## Further machine states used in the examples -/

/-- The blank machine with an MMC3 cartridge whose scanline counter is 0,
whose reload value is 5 and whose IRQ is enabled; the stack pointer is $FD and
the I flag is clear. -/
def nes_mmc3_irq_example : nes_t :=
  { nes_blank with
    cpu := { nes_blank.cpu with s := 0xFD }
    cart := { nes_blank.cart with
      mapper := ⟨.mmc3, .mmc3 ⟨0, fun _ => 0, 0, 0, fun _ => 0, fun _ => 0, 5, 0, 1⟩⟩ } }

/-- The blank machine with PC = $C123, S = $FD and P = $24 (the flags of
`nes_cpu_init`: I and bit 5 set). -/
def nes_cpu_example : nes_t :=
  { nes_blank with cpu := { nes_blank.cpu with pc := 0xC123, s := 0xFD, p := 0x24 } }

/-- The blank machine with a CNROM cartridge of four CHR banks, every byte of
CHR bank `b` holding the value `b + 1`. -/
def nes_cnrom_example : nes_t :=
  { nes_blank with cart := { nes_blank.cart with
      mapper := ⟨.cnrom, .word 0⟩, vram8_count := 4, vram := fun b _ => b + 1 } }

/-- The blank machine with the buttons A, Select, Down and Right of player 1
held (mask $A5) and Select, Start, Up and Down of player 2 (mask $3C); the
shift registers are empty and the last value written to $4016 is 0. -/
def nes_input_example : nes_t :=
  { nes_blank with input :=
      { p1 := ⟨⟨0xA5, 0, 0⟩, ⟨0, 0, 0⟩⟩, p2 := ⟨⟨0x3C, 0, 0⟩, ⟨0, 0, 0⟩⟩, last_write := 0 } }

/-- The blank machine right after power-on of the APU (no sample buffer
space). -/
def nes_apu_power_on : nes_t :=
  { nes_blank with apu := nes_apu_init nes_blank.apu 0 }

/-- The blank machine with PC = $C123, S = $FD and P = $20 (I clear).  No PRG
bank is mapped, so the byte at PC reads as $00, the BRK opcode. -/
def nes_brk_example : nes_t :=
  { nes_blank with cpu := { nes_blank.cpu with pc := 0xC123, s := 0xFD, p := 0x20 } }

/-- The blank machine with A = $50 and P = $20 (carry clear). -/
def nes_adc_example : nes_t :=
  { nes_blank with cpu := { nes_blank.cpu with a := 0x50, p := 0x20 } }

/-- The blank machine with the two bytes $30 $00 (BMI +0) at address 0, where
PC points; P is 0, so the N flag is clear and the branch is not taken. -/
def nes_bmi_example : nes_t :=
  { nes_blank with mem := { nes_blank.mem with
      ram := fun a => if a = 0 then 0x30 else 0 } }

/-- The machine of `nes_bmi_example` with P = $80: the N flag is set and the
branch is taken. -/
def nes_bmi_taken_example : nes_t :=
  { nes_bmi_example with cpu := { nes_bmi_example.cpu with p := 0x80 } }

/-- The blank machine right after power-on of the CPU. -/
def nes_cpu_power_on : nes_t :=
  { nes_blank with cpu := nes_cpu_init nes_blank.cpu }

/-! ## nes_cart.c: the iNES header -/

/-- The mapper number that `nes_cart_read_rom` hands to `nes_get_mapper_funcs`,
from the header bytes at offsets 6 (`ctrlbyte`) and 7 (`flag7`, the value of
the next `fgetc`): `uint8_t mapper = fgetc(src) | (ctrlbyte >> 4);` and later
`if (mapper > 0x40) mapper &= 0x0F;`. -/
def nes_cart_read_rom_mapper (ctrlbyte flag7 : Nat) : Nat :=
  let mapper := (flag7 ||| (ctrlbyte >>> 4)) % 0x100
  if mapper > 0x40 then mapper &&& 0x0F else mapper

/-- The mirroring selection of `nes_cart_read_rom` from the header byte
`ctrlbyte`. -/
def nes_cart_read_rom_mirroring (nes : nes_t) (ctrlbyte : Nat) : nes_t :=
  if BITGET ctrlbyte 4 ≠ 0 then nes_cart_set_mirroring nes .MIRROR_NONE
  else if BITGET ctrlbyte 0 ≠ 0 then nes_cart_set_mirroring nes .MIRROR_VERTICAL
  else nes_cart_set_mirroring nes .MIRROR_HORIZONTAL

/-! ## nes.h: the main emulator tick -/

/-- The loop of `nes_process`, `n` iterations left, `i` being the loop
variable.  The arguments of the APU tick of iteration `i` (see `nes_apu_tick`)
are `frame_due i`, `sample_due i`, `buf_null` and `out i`. -/
def nes_process_loop (frame_due sample_due : Nat → Bool) (buf_null : Bool) (out : Nat → Nat) :
    Nat → Nat → nes_t → nes_t
  | 0, _, nes => nes
  | n + 1, i, nes =>
    let nes := nes_apu_tick (frame_due i) (sample_due i) buf_null (out i) nes
    let nes := nes_ppu_tick nes
    let nes := nes_mapper_tick nes
    let nes := nes_ppu_tick nes
    let nes := nes_mapper_tick nes
    let nes := nes_ppu_tick nes
    let nes := nes_mapper_tick nes
    nes_process_loop frame_due sample_due buf_null out n (i + 1) nes

/-- Main emulator tick function; returns `render` (nonzero if a frame is ready
for display) as `uint8_t`. -/
def nes_process (frame_due sample_due : Nat → Bool) (buf_null : Bool) (out : Nat → Nat)
    (nes : nes_t) : Nat × nes_t :=
  let r := nes_cpu_op nes
  let cycles := r.1
  let nes := nes_process_loop frame_due sample_due buf_null out cycles 0 r.2
  let render := BITGET nes.ppu.flags NES_PPU_FLAG_RENDER
  let nes :=
    if render ≠ 0 then
      { nes with ppu := { nes.ppu with flags := BITCLR nes.ppu.flags NES_PPU_FLAG_RENDER % 0x100 } }
    else nes
  (render % 0x100, nes)

/-- The `n` APU ticks numbered `i`, `i + 1`, ... in a row. -/
def nes_apu_ticks (frame_due sample_due : Nat → Bool) (buf_null : Bool) (out : Nat → Nat) :
    Nat → Nat → nes_t → nes_t
  | 0, _, nes => nes
  | n + 1, i, nes =>
    nes_apu_ticks frame_due sample_due buf_null out n (i + 1)
      (nes_apu_tick (frame_due i) (sample_due i) buf_null (out i) nes)

/-- One step of the machine in the order of the specification: `nes_cpu_op`
once, obtaining `N` cycles, then `3 * N` pairs of a PPU tick and a mapper
tick, then `N` APU ticks. -/
def nes_process_ppu_first (frame_due sample_due : Nat → Bool) (buf_null : Bool)
    (out : Nat → Nat) (nes : nes_t) : nes_t :=
  let r := nes_cpu_op nes
  let nes := (fun t => nes_mapper_tick (nes_ppu_tick t))^[3 * r.1] r.2
  nes_apu_ticks frame_due sample_due buf_null out r.1 0 nes

/-- One round of the machine for one CPU cycle: the APU tick number `i`, then
three pairs of a PPU tick and a mapper tick. -/
def nes_cycle_round (frame_due sample_due : Nat → Bool) (buf_null : Bool) (out : Nat → Nat)
    (i : Nat) (nes : nes_t) : nes_t :=
  (fun t => nes_mapper_tick (nes_ppu_tick t))^[3]
    (nes_apu_tick (frame_due i) (sample_due i) buf_null (out i) nes)

/-- The rounds number `0` to `n - 1` of `nes_cycle_round`, in this order. -/
def nes_cycle_rounds (frame_due sample_due : Nat → Bool) (buf_null : Bool) (out : Nat → Nat)
    (n : Nat) (nes : nes_t) : nes_t :=
  (List.range n).foldl (fun t i => nes_cycle_round frame_due sample_due buf_null out i t) nes

/-- The machine states `t` and `s` agree on everything that times the PPU and
on the rest of the machine: the CPU, the APU, the memory, the input, the
cartridge, and of the PPU the position, the frame counters, the registers
PPUCTRL and PPUMASK, the state flags and the NMI bookkeeping. -/
def ppu_same_timing (t s : nes_t) : Prop :=
  t.cpu = s.cpu ∧ t.apu = s.apu ∧ t.mem = s.mem ∧ t.input = s.input ∧ t.cart = s.cart ∧
  t.vmem = s.vmem ∧
  t.ppu.cycle = s.ppu.cycle ∧ t.ppu.scanline = s.ppu.scanline ∧ t.ppu.frame = s.ppu.frame ∧
  t.ppu.frame_end = s.ppu.frame_end ∧ t.ppu.ctrl = s.ppu.ctrl ∧ t.ppu.mask = s.ppu.mask ∧
  t.ppu.flags = s.ppu.flags ∧ t.ppu.nmi_delay = s.ppu.nmi_delay ∧ t.ppu.nmi_prev = s.ppu.nmi_prev

/-! ## Machine states used in the examples of the APU sequencer -/

/-- The blank machine with the frame sequencer in 5-step mode at the start of
its sequence and the envelope divider of square 1 at 10 (start flag clear). -/
def nes_apu_five_step_example : nes_t :=
  { nes_blank with apu := { nes_blank.apu with
      frame_period := 5
      sq1 := { nes_blank.apu.sq1 with env_val := 10 } } }

/-- The blank machine with the frame sequencer in 4-step mode, two steps into
its sequence, the frame IRQ enabled, S = $FD and P = $20 (I clear). -/
def nes_apu_four_step_example : nes_t :=
  { nes_blank with
    cpu := { nes_blank.cpu with s := 0xFD, p := 0x20 }
    apu := { nes_blank.apu with frame_period := 4, frame_val := 2, frame_irq := 1 } }

/-- The blank machine with an MMC3 cartridge of two 16 KiB PRG banks, byte `i`
of bank `b` holding `(b * 0x4000 + i) / 0x2000`, the number of its 8 KiB
block: 0 and 1 in bank 0, 2 and 3 in bank 1. -/
def nes_mmc3_prg_example : nes_t :=
  { nes_blank with cart := { nes_blank.cart with
      mapper := ⟨.mmc3, .mmc3 ⟨0, fun _ => 0, 0, 0, fun _ => 0, fun _ => 0, 0, 0, 0⟩⟩
      rom16_count := 2
      rom := fun b i => (b * 0x4000 + i) / 0x2000 } }

/-- The condition under which `nes_ppu_clock` calls `nes_cpu_nmi`: the NMI
delay counter is at its last tick and both PPUCTRL.NMI and the NMI state flag
are set. -/
def nes_ppu_clock_nmi_due (nes : nes_t) : Prop :=
  nes.ppu.nmi_delay > 0 ∧ nes.ppu.nmi_delay - 1 = 0 ∧
    BITGET nes.ppu.ctrl NES_PPU_CTRL_NMI ≠ 0 ∧ BITGET nes.ppu.flags NES_PPU_FLAG_NMI ≠ 0

instance (nes : nes_t) : Decidable (nes_ppu_clock_nmi_due nes) := by
  unfold nes_ppu_clock_nmi_due
  infer_instance

/-- The index of the dot (`scanline`, `cycle`) in the frame of 262 lines of
341 dots. -/
def ppu_dot (ppu : nes_ppu_t) : Int :=
  ppu.scanline * 341 + ppu.cycle

/-- The machine after power-on of the PPU with S = $FD, PPUCTRL = $80 (NMI
enabled) and the PPU at (scanline 241, cycle 0), one tick before the start of
vblank. -/
def nes_vblank_example : nes_t :=
  { nes_power_on with
    cpu := { nes_power_on.cpu with s := 0xFD }
    ppu := { nes_power_on.ppu with ctrl := 0x80, scanline := 241, cycle := 0 } }

/-- The end of one machine step as the front end sees it: the RENDER flag of
the PPU is cleared and its previous value (nonzero if a frame is ready for
display) is returned as a byte. -/
def nes_take_render_flag (nes : nes_t) : Nat × nes_t :=
  (BITGET nes.ppu.flags NES_PPU_FLAG_RENDER % 0x100,
    if BITGET nes.ppu.flags NES_PPU_FLAG_RENDER ≠ 0 then
      { nes with ppu := { nes.ppu with flags := BITCLR nes.ppu.flags NES_PPU_FLAG_RENDER % 0x100 } }
    else nes)

/-- The blank machine with one stall cycle pending, S = $FD, P = $20 (I clear)
and PC = $1234; the frame sequencer in 4-step mode two steps into its sequence
with the frame IRQ enabled; the PPU on line 245 with PPUCTRL = $80, the NMI
and RENDER state flags set and the NMI delay counter at 1. -/
def nes_process_example : nes_t :=
  { nes_blank with
    cpu := { nes_blank.cpu with stall := 1, s := 0xFD, p := 0x20, pc := 0x1234 }
    apu := { nes_blank.apu with frame_period := 4, frame_val := 2, frame_irq := 1 }
    ppu := { nes_blank.ppu with
      scanline := 245, cycle := 10, ctrl := 0x80, flags := 0x0C, nmi_delay := 1 } }

/-! ## Machine states used in the examples of ARR -/

/-- The blank machine with the two bytes $6B $40 (ARR #$40) at address 0, where
PC points, A = $FF and P = $20 (C and V clear). -/
def nes_arr_example : nes_t :=
  { nes_blank with
    cpu := { nes_blank.cpu with a := 0xFF, p := 0x20 }
    mem := { nes_blank.mem with ram := fun a => if a = 0 then 0x6B else if a = 1 then 0x40 else 0 } }

/-- The machine of `nes_arr_example` with the operand $C0 and P = $60 (V set,
C clear). -/
def nes_arr_v_example : nes_t :=
  { nes_blank with
    cpu := { nes_blank.cpu with a := 0xFF, p := 0x60 }
    mem := { nes_blank.mem with ram := fun a => if a = 0 then 0x6B else if a = 1 then 0xC0 else 0 } }

/-! ## nes_apu.c: the mixer indices -/

/-- The index into `sqr_tbl` that `nes_apu_get_output` computes,
`(sq1 + sq2) % 31`, the two square outputs being held in `uint8_t` locals. -/
def nes_apu_get_output_sqs_index (nes : nes_t) : Nat :=
  let sq1 := nes_apu_sqr_get_output nes.apu.sq1 % 0x100
  let sq2 := nes_apu_sqr_get_output nes.apu.sq2 % 0x100
  (sq1 + sq2) % 31

/-- The index into `tnd_tbl` that `nes_apu_get_output` computes,
`(3 * tri + 2 * noi + dmc) % 203`, the three outputs being held in `uint8_t`
locals. -/
def nes_apu_get_output_tnd_index (nes : nes_t) : Nat :=
  let tri := nes_apu_tri_get_output nes.apu.tri % 0x100
  let noi := nes_apu_noi_get_output nes.apu.noi % 0x100
  let dmc := nes_apu_dmc_get_output nes.apu.dmc % 0x100
  (3 * tri + 2 * noi + dmc) % 203

/-- The two volume fields of a square channel are within 0..15. -/
def nes_apu_sqr_levels (sqr : nes_apu_sqr_t) : Prop :=
  sqr.env_vol ≤ 15 ∧ sqr.const_vol ≤ 15

/-- The constant volume of the noise channel is within 0..15, and so is its
envelope volume whenever the envelope is enabled. -/
def nes_apu_noi_levels (noi : nes_apu_noi_t) : Prop :=
  noi.const_vol ≤ 15 ∧
  (BITMGET noi.flags NES_APU_FLAG_NOI_ENV_ENABLED ≠ 0 → noi.env_vol ≤ 15)

/-- The levels that the channels can send to the mixer are in range: the
volumes of the squares and of the noise channel, the position of the triangle
sequencer in `tri_tbl`, the DMC level, and the noise shift register within
1..$7FFF. -/
def nes_apu_levels (apu : nes_apu_t) : Prop :=
  nes_apu_sqr_levels apu.sq1 ∧ nes_apu_sqr_levels apu.sq2 ∧ apu.tri.duty_out < 32 ∧
  nes_apu_noi_levels apu.noi ∧ apu.dmc.value ≤ 127 ∧
  1 ≤ apu.noi.shift ∧ apu.noi.shift ≤ 0x7FFF

/-- The APU after power-on and the register writes $4015 = $08 (noise on),
$400F = $00 (length counter loaded) and $400C = $1F (constant volume 15, the
envelope volume field left at 31 with the envelope disabled). -/
def nes_apu_noise_example : nes_t :=
  nes_apu_write nes_cpu_irq (nes_apu_write nes_cpu_irq
    (nes_apu_write nes_cpu_irq nes_apu_power_on 0x15 0x08) 0x0F 0x00) 0x0C 0x1F

/-- The APU after power-on, the register write $400E = $80 (noise mode flag
set, timer period 4) and eight APU ticks without frame sequencer or sample
clock: the noise timer, stepped on every other tick, has run out once. -/
def nes_apu_noise_clock_example : nes_t :=
  (nes_apu_tick false false false 0)^[8] (nes_apu_write nes_cpu_irq nes_apu_power_on 0x0E 0x80)

/-! ## MMC3: the bank offsets as the program drives them -/

/-- The machine states of an MMC3 cartridge with at least one PRG and one CHR
bank, in which the mapper has only been driven by the program: the state after
`nes_init_mmc3`, then any sequence of MMC3 register writes and of steps that
leave the mapper table, the two bank counts and the two offset arrays as they
are (reads, PPU, APU and CPU steps, the scanline counter). -/
inductive mmc3_reachable : nes_t → Prop
  | init (s : nes_t) : s.cart.mapper.funcs = .mmc3 → 1 ≤ s.cart.rom16_count →
      1 ≤ s.cart.vram8_count → mmc3_reachable (nes_init_mmc3 s)
  | write (s : nes_t) (a v : Nat) : mmc3_reachable s → mmc3_reachable (nes_mmc3_write s a v)
  | other (s t : nes_t) : mmc3_reachable s →
      t.cart.mapper.funcs = s.cart.mapper.funcs →
      t.cart.rom16_count = s.cart.rom16_count → t.cart.vram8_count = s.cart.vram8_count →
      (mmc3_extra t).prg_offset = (mmc3_extra s).prg_offset →
      (mmc3_extra t).chr_offset = (mmc3_extra s).chr_offset → mmc3_reachable t

/-- The four PRG offsets are multiples of $2000 below the size of the PRG ROM
and the eight CHR offsets are multiples of $400 below the size of the CHR
memory. -/
def nes_mmc3_offsets_in_range (s : nes_t) : Prop :=
  (∀ i : Nat, i < 4 → (mmc3_extra s).prg_offset i % 0x2000 = 0 ∧
    (mmc3_extra s).prg_offset i < s.cart.rom16_count * 0x4000) ∧
  (∀ i : Nat, i < 8 → (mmc3_extra s).chr_offset i % 0x0400 = 0 ∧
    (mmc3_extra s).chr_offset i < s.cart.vram8_count * 0x2000)

/-- The blank machine with an MMC3 cartridge of two PRG banks and one CHR
bank after `nes_init_mmc3` and the register writes $8000 = $06 (select R6)
and $8001 = $FF (bank number 255). -/
def nes_mmc3_bank_example : nes_t :=
  nes_mmc3_write (nes_mmc3_write (nes_init_mmc3
    { nes_blank with cart := { nes_blank.cart with
        mapper := ⟨.mmc3, .word 0⟩, rom16_count := 2, vram8_count := 1 } }) 0x8000 0x06)
    0x8001 0xFF

/-! ## Colour channels of an ARGB8888 value -/

/-- The alpha byte of an ARGB8888 value. -/
def argb_alpha (x : Nat) : Nat := (x >>> 24) &&& 0xFF

/-- The red byte of an ARGB8888 value. -/
def argb_red (x : Nat) : Nat := (x >>> 16) &&& 0xFF

/-- The green byte of an ARGB8888 value. -/
def argb_green (x : Nat) : Nat := (x >>> 8) &&& 0xFF

/-- The blue byte of an ARGB8888 value. -/
def argb_blue (x : Nat) : Nat := x &&& 0xFF

/-- The palette entry that `nes_ppu_get_color` looks up: `nes_palette[col &
0x3F]`, after `col &= 0x30` when the grayscale bit of PPUMASK is set. -/
def nes_ppu_get_color_entry (nes : nes_t) (col : Nat) : Nat :=
  nes_palette ((if BITGET nes.ppu.mask NES_PPU_MASK_GRAYSCALE ≠ 0 then col &&& 0x30 else col)
    &&& 0x3F)

/-- The blank machine with only the red emphasis bit set in PPUMASK. -/
def nes_emphasis_example : nes_t :=
  { nes_blank with ppu := { nes_blank.ppu with mask := 0x20 } }

/-- The blank machine (NROM) with `v` = $3F10, PPUCTRL = $04 (increment 32),
read buffer $55, every nametable byte $77 and palette byte `i` holding
`$20 + i`. -/
def nes_ppudata_example : nes_t :=
  { nes_blank with
    ppu := { nes_blank.ppu with vmem_addr := 0x3F10, ctrl := 0x04, readb := 0x55 }
    vmem := { nes_blank.vmem with vram := fun _ => 0x77, pal := fun i => 0x20 + i } }

/-! ## Pixel composition -/

/-- The background pixel that `nes_ppu_render_pixel` composes: the value of
`nes_ppu_get_bg_pixel`, or 0 in the left eight columns when PPUMASK hides the
background there. -/
def nes_ppu_render_pixel_bg (nes : nes_t) : Nat :=
  if nes.ppu.cycle - 1 < 8 ∧ BITGET nes.ppu.mask NES_PPU_MASK_LEFTBG = 0 then 0
  else nes_ppu_get_bg_pixel nes

/-- The sprite pixel that `nes_ppu_render_pixel` composes: the colour found by
`nes_ppu_get_spr_pixel`, or 0 in the left eight columns when PPUMASK hides the
sprites there. -/
def nes_ppu_render_pixel_spr (nes : nes_t) : Nat :=
  if nes.ppu.cycle - 1 < 8 ∧ BITGET nes.ppu.mask NES_PPU_MASK_LEFTSPR = 0 then 0
  else (nes_ppu_get_spr_pixel nes).1

/-- The palette index of a dot as the specification words it: 0 when both
pixels are transparent, the background pixel when only it is opaque, the
sprite pixel with bit 4 set when only the sprite is opaque, and with both
opaque the sprite pixel with bit 4 set if the priority bit is 0 and the
background pixel otherwise. -/
def spec_pixel_palette_index (bg spr pri : Nat) : Nat :=
  if bg &&& 0x03 = 0 ∧ spr &&& 0x03 = 0 then 0
  else if spr &&& 0x03 = 0 then bg
  else if bg &&& 0x03 = 0 then spr ||| 0x10
  else if pri = 0 then spr ||| 0x10
  else bg

/-- The colour that the loop body of `nes_ppu_get_spr_pixel` computes for the
sprite entry `i` at the current dot: `(spr[i].data >> ((7 - offset) * 4)) &
0x0F` with `offset = cycle - 1 - spr[i].pos`, and 0 when the offset is outside
`0 .. 7` (the entry does not cover the dot and the loop goes on). -/
def sprite_pixel_at (nes : nes_t) (i : Nat) : Nat :=
  let offset := nes.ppu.cycle - 1 - ((nes.ppu.spr i).pos : Int)
  if offset < 0 ∨ offset > 7 then 0
  else
    let offset := 7 - offset
    (((nes.ppu.spr i).data >>> (Int.toNat offset * 4)) &&& 0x0F) % 0x100

/-! ## Sprite evaluation -/

/-- The sprite height `h` of `nes_ppu_process_sprites`: 16 if PPUCTRL selects
8x16 sprites and 8 otherwise. -/
def nes_ppu_sprite_height (nes : nes_t) : Int :=
  if BITGET nes.ppu.ctrl NES_PPU_CTRL_SPRSIZE ≠ 0 then 16 else 8

/-- Sprite `i` of OAM lies on the current scanline `L` for the height `h`:
`0 <= L - y < h` with `y` its first OAM byte. -/
def sprite_on_line (nes : nes_t) (h : Int) (i : Nat) : Bool :=
  decide (0 ≤ nes.ppu.scanline - (nes.vmem.oam (i * 4) : Int) ∧
    nes.ppu.scanline - (nes.vmem.oam (i * 4) : Int) < h)

/-- The sprites on the current scanline, as the specification words them: the
OAM indices among the 64 that lie on the line, in increasing order. -/
def sprites_on_line (nes : nes_t) : List Nat :=
  (List.range 64).filter (sprite_on_line nes (nes_ppu_sprite_height nes))

/-- The entry that `nes_ppu_process_sprites` stores for sprite `i` of OAM:
its pattern row, its x position, bit 5 of its attribute byte and `i`. -/
def nes_ppu_sprite_entry (nes : nes_t) (i : Nat) : nes_ppu_spr_t :=
  { data := nes_ppu_fetch_spr nes i (nes.ppu.scanline - (nes.vmem.oam (i * 4 + 0) : Int))
      % 0x100000000
    pos := nes.vmem.oam (i * 4 + 3)
    pri := (nes.vmem.oam (i * 4 + 2) >>> 5) &&& 0x01
    idx := i }

/-! ## The dot position and the frame buffers -/

/-- State `t` has the dot position (cycle, scanline) and the two frame buffers
of state `s`. -/
def ppu_screen_kept (t s : nes_t) : Prop :=
  t.ppu.cycle = s.ppu.cycle ∧ t.ppu.scanline = s.ppu.scanline ∧
  t.ppu.back = s.ppu.back ∧ t.ppu.front = s.ppu.front

/-- The subscripts `(y, x)` of the store `back->data[y][x] = ...` that one
`nes_ppu_tick` executes, if it executes one.  The tick has two such stores,
the one of `nes_ppu_render_pixel` (rendering enabled) and the one of the
backdrop colour (rendering disabled); both are guarded by
`vis_line && vis_cycle` and both use `y = scanline` and `x = cycle - 1`, read
after `nes_ppu_clock`. -/
def nes_ppu_tick_store (nes : nes_t) : Option (Int × Int) :=
  let nes := nes_ppu_clock nes
  if nes.ppu.scanline < 240 ∧ (nes.ppu.cycle ≥ 1 ∧ nes.ppu.cycle ≤ 256) then
    some (nes.ppu.scanline, nes.ppu.cycle - 1)
  else none

/-- State `m` is state `c` after the pixel store of a tick: same dot position
and front buffer, and a back buffer that differs from the one of `c` at most
in the element `[scanline][cycle - 1]`, and not at all outside the visible
dots (`scanline < 240`, `1 <= cycle <= 256`). -/
def ppu_pixel_stored (m c : nes_t) : Prop :=
  m.ppu.cycle = c.ppu.cycle ∧ m.ppu.scanline = c.ppu.scanline ∧ m.ppu.front = c.ppu.front ∧
  ((c.ppu.scanline < 240 ∧ (c.ppu.cycle ≥ 1 ∧ c.ppu.cycle ≤ 256)) →
    ∀ y x : Nat, ¬ (y = Int.toNat c.ppu.scanline ∧ x = Int.toNat (c.ppu.cycle - 1)) →
      m.ppu.back.data y x = c.ppu.back.data y x) ∧
  (¬ (c.ppu.scanline < 240 ∧ (c.ppu.cycle ≥ 1 ∧ c.ppu.cycle ≤ 256)) →
    m.ppu.back = c.ppu.back)

/-! ## Machine states of the PPU examples -/

/-- The blank machine after power-on of the PPU, two PPU ticks (which take the
dot position from (240, 340) to (241, 1), the start of vblank) and a CPU write
of $10 to $2005: the vblank (NMI) flag and the second-write latch are both
set. -/
def nes_status_read_example : nes_t :=
  nes_mem_writeb (nes_ppu_tick (nes_ppu_tick nes_power_on)) 0x2005 0x10

/-- The blank machine 7162 PPU ticks after power-on.  From (scanline 240,
cycle 340) the first tick goes to (241, 0) and 21 scanlines of 341 ticks later
the PPU is at (0, 0): the next tick draws the first pixel of the frame. -/
def nes_first_dot_example : nes_t :=
  nes_ppu_tick^[7162] nes_power_on

/-- The blank machine at the visible dot `x = 10` of scanline 5 (cycle 11),
background and sprites shown (PPUMASK $1E), palette byte `i` holding `i`, a
background pixel 5 in the tile shifter, and three sprite entries on the line:
entry 0 (OAM sprite 0, columns 8 .. 15) with the transparent pixel 4 at the
dot, entry 1 (OAM sprite 5, columns 4 .. 11, priority 0) with the pixel $B at
the dot, and entry 2 (OAM sprite 9, columns 10 .. 17) with the pixel $F. -/
def nes_pixel_example : nes_t :=
  { nes_blank with
    ppu := { nes_blank.ppu with
      cycle := 11, scanline := 5, mask := 0x1E, fine_x := 0, spr_count := 3
      tile := ⟨0, 0, 0, 0, 0x5000000000000000⟩
      spr := fun i =>
        if i = 0 then ⟨0x00400000, 8, 0, 0⟩
        else if i = 1 then ⟨0x000000B0, 4, 0, 5⟩
        else if i = 2 then ⟨0xF0000000, 10, 0, 9⟩
        else ⟨0, 0, 0, 0⟩ }
    vmem := { nes_blank.vmem with pal := fun i => i } }

/-- The same dot with one sprite entry on the line: OAM sprite 0 (columns
8 .. 15, priority 1, behind the background) with the pixel 7 at the dot. -/
def nes_pixel_behind_example : nes_t :=
  { nes_blank with
    ppu := { nes_blank.ppu with
      cycle := 11, scanline := 5, mask := 0x1E, fine_x := 0, spr_count := 1
      tile := ⟨0, 0, 0, 0, 0x5000000000000000⟩
      spr := fun i => if i = 0 then ⟨0x00700000, 8, 1, 0⟩ else ⟨0, 0, 0, 0⟩ }
    vmem := { nes_blank.vmem with pal := fun i => i } }

/-! # Theorems -/

/-! ## The cases of a CPU bus access -/

/-- The state after a conditional pair whose first branch returns the state
itself. -/
theorem snd_ite_same {α : Type} (P : nes_t → Prop) (c : Prop) [Decidable c] (x : α)
    (s : nes_t) (r : α × nes_t) (h0 : P s) (hr : P r.2) :
    P (if c then (x, s) else r).2 := by
  by_cases h : c
  · rw [if_pos h]
    exact h0
  · rw [if_neg h]
    exact hr

/-- The cases of a CPU bus read, for the state after it: the state itself, or
the state after a controller read or a PPU register read. -/
theorem nes_mem_readb_cases (P : nes_t → Prop) (s : nes_t) (a : Nat) (h0 : P s)
    (hin : P (nes_input_read s (a - 0x4016)).2)
    (hppu : P (nes_ppu_read s (a &&& 0x0007)).2) : P (nes_mem_readb s a).2 := by
  have h1 : P ((0x00 : Nat), s).2 := h0
  unfold nes_mem_readb
  split
  · unfold nes_mem_read_nrom
    refine snd_ite_same P _ _ _ _ h0 ?_
    by_cases c2 : a = 0x4016 ∨ a = 0x4017
    · rw [if_pos c2]
      exact hin
    · rw [if_neg c2]
      by_cases c3 : a < 0x4000
      · rw [if_pos c3]
        exact hppu
      · rw [if_neg c3]
        exact snd_ite_same P _ _ _ _ h0 (snd_ite_same P _ _ _ _ h0
          (snd_ite_same P _ _ _ _ h0 (snd_ite_same P _ _ _ _ h0 h1)))
  · unfold nes_mem_read_mmc1
    refine snd_ite_same P _ _ _ _ h0 ?_
    by_cases c2 : a = 0x4016 ∨ a = 0x4017
    · rw [if_pos c2]
      exact hin
    · rw [if_neg c2]
      by_cases c3 : a < 0x4000
      · rw [if_pos c3]
        exact hppu
      · rw [if_neg c3]
        exact snd_ite_same P _ _ _ _ h0 (snd_ite_same P _ _ _ _ h0
          (snd_ite_same P _ _ _ _ h0 (snd_ite_same P _ _ _ _ h0 h1)))
  · unfold nes_mem_read_cnrom
    refine snd_ite_same P _ _ _ _ h0 ?_
    by_cases c2 : a = 0x4016 ∨ a = 0x4017
    · rw [if_pos c2]
      exact hin
    · rw [if_neg c2]
      by_cases c3 : a < 0x4000
      · rw [if_pos c3]
        exact hppu
      · rw [if_neg c3]
        exact snd_ite_same P _ _ _ _ h0 (snd_ite_same P _ _ _ _ h0
          (snd_ite_same P _ _ _ _ h0 h1))
  · unfold nes_mem_read_mmc3
    dsimp only
    refine snd_ite_same P _ _ _ _ h0 ?_
    by_cases c2 : a = 0x4016 ∨ a = 0x4017
    · rw [if_pos c2]
      exact hin
    · rw [if_neg c2]
      by_cases c3 : a < 0x4000
      · rw [if_pos c3]
        exact hppu
      · rw [if_neg c3]
        exact snd_ite_same P _ _ _ _ h0 (snd_ite_same P _ _ _ _ h0
          (snd_ite_same P _ _ _ _ h0 h1))

/-- Two conditional pairs on the same test have the same first component when
their branches have. -/
theorem fst_ite_congr {α β : Type} (c : Prop) [Decidable c] (x y x' y' : α × β)
    (h1 : x.1 = x'.1) (h2 : y.1 = y'.1) :
    (if c then x else y).1 = (if c then x' else y').1 := by
  by_cases h : c
  · rw [if_pos h, if_pos h]
    exact h1
  · rw [if_neg h, if_neg h]
    exact h2

/-- The cases of a CPU bus write: whatever holds of the state after each
of the stores that the four mapper write functions can make holds after
`nes_mem_writeb_with`. -/
theorem nes_mem_writeb_with_cases (irq : nes_t → nes_t) (P : nes_t → Prop) (s : nes_t)
    (a v : Nat)
    (h0 : P s)
    (hram : P (nes_ram_write s (a &&& 0x07FF) v))
    (hppu : P (nes_ppu_write s (a &&& 0x0007) v))
    (hdma : P (nes_ppu_oamdma s v))
    (hin : P (nes_input_write s (a - 0x4016) v))
    (hapu : P (nes_apu_write irq s (a - 0x4000) v))
    (hprg : P (nes_prgram_write s (a - 0x6000) v))
    (h1 : P (nes_mmc1_write_reg s a v))
    (h3 : P (nes_mmc3_write s a v))
    (hcn : P { s with cart := { s.cart with
      mapper := { s.cart.mapper with extra := .word (v &&& 0x03) } } }) :
    P (nes_mem_writeb_with irq s a v) := by
  unfold nes_mem_writeb_with
  by_cases c1 : a < 0x2000
  · split
    · unfold nes_mem_write_nrom
      rw [if_pos c1]; exact hram
    · unfold nes_mem_write_mmc1
      rw [if_pos c1]; exact hram
    · unfold nes_mem_write_cnrom
      rw [if_pos c1]; exact hram
    · unfold nes_mem_write_mmc3
      rw [if_pos c1]; exact hram
  by_cases c2 : a < 0x4000
  · split
    · unfold nes_mem_write_nrom
      rw [if_neg c1, if_pos c2]; exact hppu
    · unfold nes_mem_write_mmc1
      rw [if_neg c1, if_pos c2]; exact hppu
    · unfold nes_mem_write_cnrom
      rw [if_neg c1, if_pos c2]; exact hppu
    · unfold nes_mem_write_mmc3
      rw [if_neg c1, if_pos c2]; exact hppu
  by_cases c3 : a = 0x4014
  · split
    · unfold nes_mem_write_nrom
      rw [if_neg c1, if_neg c2, if_pos c3]; exact hdma
    · unfold nes_mem_write_mmc1
      rw [if_neg c1, if_neg c2, if_pos c3]; exact hdma
    · unfold nes_mem_write_cnrom
      rw [if_neg c1, if_neg c2, if_pos c3]; exact hdma
    · unfold nes_mem_write_mmc3
      rw [if_neg c1, if_neg c2, if_pos c3]; exact hdma
  by_cases c4 : a = 0x4016
  · split
    · unfold nes_mem_write_nrom
      rw [if_neg c1, if_neg c2, if_neg c3, if_pos c4]; exact hin
    · unfold nes_mem_write_mmc1
      rw [if_neg c1, if_neg c2, if_neg c3, if_pos c4]; exact hin
    · unfold nes_mem_write_cnrom
      rw [if_neg c1, if_neg c2, if_neg c3, if_pos (Or.inl c4)]; exact hin
    · unfold nes_mem_write_mmc3
      rw [if_neg c1, if_neg c2, if_neg c3, if_pos c4]; exact hin
  by_cases c5 : a < 0x4020
  · split
    · unfold nes_mem_write_nrom
      rw [if_neg c1, if_neg c2, if_neg c3, if_neg c4, if_pos c5]; exact hapu
    · unfold nes_mem_write_mmc1
      rw [if_neg c1, if_neg c2, if_neg c3, if_neg c4, if_pos c5]; exact hapu
    · unfold nes_mem_write_cnrom
      rw [if_neg c1, if_neg c2, if_neg c3]
      by_cases c6 : a = 0x4017
      · rw [if_pos (Or.inr c6)]; exact hin
      · rw [if_neg (fun h => h.elim c4 c6), if_pos c5]; exact hapu
    · unfold nes_mem_write_mmc3
      rw [if_neg c1, if_neg c2, if_neg c3, if_neg c4, if_pos c5]; exact hapu
  have c6 : ¬ (a = 0x4016 ∨ a = 0x4017) := fun h => h.elim c4 (fun h7 => c5 (by omega))
  by_cases c8 : a ≥ 0x8000
  · have c9 : a ≥ 0x6000 := by omega
    split
    · unfold nes_mem_write_nrom
      rw [if_neg c1, if_neg c2, if_neg c3, if_neg c4, if_neg c5, if_pos c9]; exact hprg
    · unfold nes_mem_write_mmc1
      rw [if_neg c1, if_neg c2, if_neg c3, if_neg c4, if_neg c5, if_pos c8]; exact h1
    · unfold nes_mem_write_cnrom
      rw [if_neg c1, if_neg c2, if_neg c3, if_neg c6, if_neg c5, if_pos c8]; exact hcn
    · unfold nes_mem_write_mmc3
      rw [if_neg c1, if_neg c2, if_neg c3, if_neg c4, if_neg c5, if_pos c8]; exact h3
  by_cases c9 : a ≥ 0x6000
  · split
    · unfold nes_mem_write_nrom
      rw [if_neg c1, if_neg c2, if_neg c3, if_neg c4, if_neg c5, if_pos c9]; exact hprg
    · unfold nes_mem_write_mmc1
      rw [if_neg c1, if_neg c2, if_neg c3, if_neg c4, if_neg c5, if_neg c8, if_pos c9]; exact hprg
    · unfold nes_mem_write_cnrom
      rw [if_neg c1, if_neg c2, if_neg c3, if_neg c6, if_neg c5, if_neg c8]; exact h0
    · unfold nes_mem_write_mmc3
      rw [if_neg c1, if_neg c2, if_neg c3, if_neg c4, if_neg c5, if_neg c8, if_pos c9]; exact hprg
  split
  · unfold nes_mem_write_nrom
    rw [if_neg c1, if_neg c2, if_neg c3, if_neg c4, if_neg c5, if_neg c9]; exact h0
  · unfold nes_mem_write_mmc1
    rw [if_neg c1, if_neg c2, if_neg c3, if_neg c4, if_neg c5, if_neg c8, if_neg c9]; exact h0
  · unfold nes_mem_write_cnrom
    rw [if_neg c1, if_neg c2, if_neg c3, if_neg c6, if_neg c5, if_neg c8]; exact h0
  · unfold nes_mem_write_mmc3
    rw [if_neg c1, if_neg c2, if_neg c3, if_neg c4, if_neg c5, if_neg c8, if_neg c9]; exact h0

/-- A state with the CPU registers of `s`, as the conjunct of the frame lemma
wants it. -/
theorem cpu_stall_self (t s : nes_t) (h : t.cpu = s.cpu) :
    t.cpu = { s.cpu with stall := t.cpu.stall } := by
  rw [h]


/-! ## Array stores -/

theorem arr_set_same {α : Type} (f : Nat → α) (i : Nat) (v : α) : arr_set f i v i = v := by
  simp [arr_set]

theorem arr_set_other {α : Type} (f : Nat → α) (i j : Nat) (v : α) (h : j ≠ i) :
    arr_set f i v j = f j := by
  simp [arr_set, h]

/-! ## Frame lemmas: the parts of the machine that an access leaves alone -/

theorem nes_ppu_nmi_update_frame (s : nes_t) :
    (nes_ppu_nmi_update s).cpu = s.cpu ∧ (nes_ppu_nmi_update s).apu = s.apu ∧
    (nes_ppu_nmi_update s).mem = s.mem ∧ (nes_ppu_nmi_update s).vmem = s.vmem ∧
    (nes_ppu_nmi_update s).input = s.input ∧ (nes_ppu_nmi_update s).cart = s.cart := by
  unfold nes_ppu_nmi_update
  dsimp only
  split_ifs <;> exact ⟨rfl, rfl, rfl, rfl, rfl, rfl⟩

theorem nes_ppu_read_frame (s : nes_t) (r : Nat) :
    (nes_ppu_read s r).2.cpu = s.cpu ∧ (nes_ppu_read s r).2.apu = s.apu ∧
    (nes_ppu_read s r).2.mem = s.mem ∧ (nes_ppu_read s r).2.vmem = s.vmem ∧
    (nes_ppu_read s r).2.input = s.input ∧ (nes_ppu_read s r).2.cart = s.cart := by
  unfold nes_ppu_read
  split
  · exact ⟨rfl, rfl, rfl, rfl, rfl, rfl⟩
  · exact ⟨rfl, rfl, rfl, rfl, rfl, rfl⟩
  · exact nes_ppu_nmi_update_frame _
  · exact ⟨rfl, rfl, rfl, rfl, rfl, rfl⟩
  · exact ⟨rfl, rfl, rfl, rfl, rfl, rfl⟩
  · exact ⟨rfl, rfl, rfl, rfl, rfl, rfl⟩
  · exact ⟨rfl, rfl, rfl, rfl, rfl, rfl⟩
  · dsimp only
    split_ifs <;> exact ⟨rfl, rfl, rfl, rfl, rfl, rfl⟩
  · exact ⟨rfl, rfl, rfl, rfl, rfl, rfl⟩

theorem nes_input_read_frame (s : nes_t) (r : Nat) :
    (nes_input_read s r).2.cpu = s.cpu ∧ (nes_input_read s r).2.apu = s.apu ∧
    (nes_input_read s r).2.mem = s.mem ∧ (nes_input_read s r).2.vmem = s.vmem ∧
    (nes_input_read s r).2.ppu = s.ppu ∧ (nes_input_read s r).2.cart = s.cart := by
  unfold nes_input_read
  split_ifs <;> exact ⟨rfl, rfl, rfl, rfl, rfl, rfl⟩

theorem nes_mem_read_nrom_frame (s : nes_t) (a : Nat) :
    (nes_mem_read_nrom s a).2.cpu = s.cpu ∧ (nes_mem_read_nrom s a).2.apu = s.apu ∧
    (nes_mem_read_nrom s a).2.mem = s.mem ∧ (nes_mem_read_nrom s a).2.vmem = s.vmem ∧
    (nes_mem_read_nrom s a).2.cart = s.cart := by
  have hp := nes_ppu_read_frame s (a &&& 0x0007)
  have hi := nes_input_read_frame s (a - 0x4016)
  unfold nes_mem_read_nrom
  split_ifs
  · exact ⟨rfl, rfl, rfl, rfl, rfl⟩
  · exact ⟨hi.1, hi.2.1, hi.2.2.1, hi.2.2.2.1, hi.2.2.2.2.2⟩
  · exact ⟨hp.1, hp.2.1, hp.2.2.1, hp.2.2.2.1, hp.2.2.2.2.2⟩
  · exact ⟨rfl, rfl, rfl, rfl, rfl⟩
  · exact ⟨rfl, rfl, rfl, rfl, rfl⟩
  · exact ⟨rfl, rfl, rfl, rfl, rfl⟩
  · exact ⟨rfl, rfl, rfl, rfl, rfl⟩
  · exact ⟨rfl, rfl, rfl, rfl, rfl⟩

theorem nes_mem_read_mmc1_frame (s : nes_t) (a : Nat) :
    (nes_mem_read_mmc1 s a).2.cpu = s.cpu ∧ (nes_mem_read_mmc1 s a).2.apu = s.apu ∧
    (nes_mem_read_mmc1 s a).2.mem = s.mem ∧ (nes_mem_read_mmc1 s a).2.vmem = s.vmem ∧
    (nes_mem_read_mmc1 s a).2.cart = s.cart := by
  have hp := nes_ppu_read_frame s (a &&& 0x0007)
  have hi := nes_input_read_frame s (a - 0x4016)
  unfold nes_mem_read_mmc1
  split_ifs
  · exact ⟨rfl, rfl, rfl, rfl, rfl⟩
  · exact ⟨hi.1, hi.2.1, hi.2.2.1, hi.2.2.2.1, hi.2.2.2.2.2⟩
  · exact ⟨hp.1, hp.2.1, hp.2.2.1, hp.2.2.2.1, hp.2.2.2.2.2⟩
  · exact ⟨rfl, rfl, rfl, rfl, rfl⟩
  · exact ⟨rfl, rfl, rfl, rfl, rfl⟩
  · exact ⟨rfl, rfl, rfl, rfl, rfl⟩
  · exact ⟨rfl, rfl, rfl, rfl, rfl⟩
  · exact ⟨rfl, rfl, rfl, rfl, rfl⟩

theorem nes_mem_read_cnrom_frame (s : nes_t) (a : Nat) :
    (nes_mem_read_cnrom s a).2.cpu = s.cpu ∧ (nes_mem_read_cnrom s a).2.apu = s.apu ∧
    (nes_mem_read_cnrom s a).2.mem = s.mem ∧ (nes_mem_read_cnrom s a).2.vmem = s.vmem ∧
    (nes_mem_read_cnrom s a).2.cart = s.cart := by
  have hp := nes_ppu_read_frame s (a &&& 0x0007)
  have hi := nes_input_read_frame s (a - 0x4016)
  unfold nes_mem_read_cnrom
  split_ifs
  · exact ⟨rfl, rfl, rfl, rfl, rfl⟩
  · exact ⟨hi.1, hi.2.1, hi.2.2.1, hi.2.2.2.1, hi.2.2.2.2.2⟩
  · exact ⟨hp.1, hp.2.1, hp.2.2.1, hp.2.2.2.1, hp.2.2.2.2.2⟩
  · exact ⟨rfl, rfl, rfl, rfl, rfl⟩
  · exact ⟨rfl, rfl, rfl, rfl, rfl⟩
  · exact ⟨rfl, rfl, rfl, rfl, rfl⟩
  · exact ⟨rfl, rfl, rfl, rfl, rfl⟩

theorem nes_mem_read_mmc3_frame (s : nes_t) (a : Nat) :
    (nes_mem_read_mmc3 s a).2.cpu = s.cpu ∧ (nes_mem_read_mmc3 s a).2.apu = s.apu ∧
    (nes_mem_read_mmc3 s a).2.mem = s.mem ∧ (nes_mem_read_mmc3 s a).2.vmem = s.vmem ∧
    (nes_mem_read_mmc3 s a).2.cart = s.cart := by
  have hp := nes_ppu_read_frame s (a &&& 0x0007)
  have hi := nes_input_read_frame s (a - 0x4016)
  unfold nes_mem_read_mmc3
  dsimp only
  split_ifs
  · exact ⟨rfl, rfl, rfl, rfl, rfl⟩
  · exact ⟨hi.1, hi.2.1, hi.2.2.1, hi.2.2.2.1, hi.2.2.2.2.2⟩
  · exact ⟨hp.1, hp.2.1, hp.2.2.1, hp.2.2.2.1, hp.2.2.2.2.2⟩
  · exact ⟨rfl, rfl, rfl, rfl, rfl⟩
  · exact ⟨rfl, rfl, rfl, rfl, rfl⟩
  · exact ⟨rfl, rfl, rfl, rfl, rfl⟩
  · exact ⟨rfl, rfl, rfl, rfl, rfl⟩

theorem nes_mem_readb_frame (s : nes_t) (a : Nat) :
    (nes_mem_readb s a).2.cpu = s.cpu ∧ (nes_mem_readb s a).2.apu = s.apu ∧
    (nes_mem_readb s a).2.mem = s.mem ∧ (nes_mem_readb s a).2.vmem = s.vmem ∧
    (nes_mem_readb s a).2.cart = s.cart := by
  unfold nes_mem_readb
  split
  · exact nes_mem_read_nrom_frame s a
  · exact nes_mem_read_mmc1_frame s a
  · exact nes_mem_read_cnrom_frame s a
  · exact nes_mem_read_mmc3_frame s a

@[simp] theorem nes_mem_readb_cpu (s : nes_t) (a : Nat) : (nes_mem_readb s a).2.cpu = s.cpu :=
  (nes_mem_readb_frame s a).1

@[simp] theorem nes_mem_readb_apu (s : nes_t) (a : Nat) : (nes_mem_readb s a).2.apu = s.apu :=
  (nes_mem_readb_frame s a).2.1

@[simp] theorem nes_mem_readb_mem (s : nes_t) (a : Nat) : (nes_mem_readb s a).2.mem = s.mem :=
  (nes_mem_readb_frame s a).2.2.1

@[simp] theorem nes_mem_readb_vmem (s : nes_t) (a : Nat) : (nes_mem_readb s a).2.vmem = s.vmem :=
  (nes_mem_readb_frame s a).2.2.2.1

@[simp] theorem nes_mem_readb_cart (s : nes_t) (a : Nat) : (nes_mem_readb s a).2.cart = s.cart :=
  (nes_mem_readb_frame s a).2.2.2.2

/-- A read below $2000 is a RAM read and has no side effect. -/
theorem nes_mem_readb_ram (s : nes_t) (a : Nat) (h : a < 0x2000) :
    nes_mem_readb s a = (s.mem.ram (a &&& 0x07FF), s) := by
  unfold nes_mem_readb nes_mem_read_nrom nes_mem_read_mmc1 nes_mem_read_cnrom nes_mem_read_mmc3
  split <;> simp [h, nes_ram_read]

theorem nes_vmem_writeb_frame (s : nes_t) (a v : Nat) :
    (nes_vmem_writeb s a v).cpu = s.cpu ∧ (nes_vmem_writeb s a v).apu = s.apu ∧
    (nes_vmem_writeb s a v).mem = s.mem ∧ (nes_vmem_writeb s a v).ppu = s.ppu ∧
    (nes_vmem_writeb s a v).input = s.input ∧
    (nes_vmem_writeb s a v).cart.mapper = s.cart.mapper ∧
    (nes_vmem_writeb s a v).cart.mirror = s.cart.mirror ∧
    (nes_vmem_writeb s a v).cart.chr_ram = s.cart.chr_ram ∧
    (nes_vmem_writeb s a v).cart.rom16_count = s.cart.rom16_count ∧
    (nes_vmem_writeb s a v).cart.rom = s.cart.rom ∧
    (nes_vmem_writeb s a v).cart.vram8_count = s.cart.vram8_count := by
  unfold nes_vmem_writeb
  split
  · unfold nes_vmem_write_nrom; dsimp only
    split_ifs <;> exact ⟨rfl, rfl, rfl, rfl, rfl, rfl, rfl, rfl, rfl, rfl, rfl⟩
  · unfold nes_vmem_write_mmc1; dsimp only
    split_ifs <;> exact ⟨rfl, rfl, rfl, rfl, rfl, rfl, rfl, rfl, rfl, rfl, rfl⟩
  · unfold nes_vmem_write_cnrom; dsimp only
    split_ifs <;> exact ⟨rfl, rfl, rfl, rfl, rfl, rfl, rfl, rfl, rfl, rfl, rfl⟩
  · unfold nes_vmem_write_mmc3; dsimp only
    split_ifs <;> exact ⟨rfl, rfl, rfl, rfl, rfl, rfl, rfl, rfl, rfl, rfl, rfl⟩

theorem nes_ppu_write_frame (s : nes_t) (r v : Nat) :
    (nes_ppu_write s r v).cpu = s.cpu ∧ (nes_ppu_write s r v).apu = s.apu ∧
    (nes_ppu_write s r v).mem = s.mem ∧ (nes_ppu_write s r v).input = s.input ∧
    (nes_ppu_write s r v).cart.mapper = s.cart.mapper ∧
    (nes_ppu_write s r v).cart.mirror = s.cart.mirror ∧
    (nes_ppu_write s r v).cart.chr_ram = s.cart.chr_ram ∧
    (nes_ppu_write s r v).cart.rom16_count = s.cart.rom16_count ∧
    (nes_ppu_write s r v).cart.rom = s.cart.rom ∧
    (nes_ppu_write s r v).cart.vram8_count = s.cart.vram8_count := by
  have hv := nes_vmem_writeb_frame (nes_ppu_refresh_bus s v) (nes_ppu_refresh_bus s v).ppu.vmem_addr v
  have hn := nes_ppu_nmi_update_frame
    { nes_ppu_refresh_bus s v with ppu := { (nes_ppu_refresh_bus s v).ppu with ctrl := v } }
  unfold nes_ppu_write
  split
  · dsimp only
    exact ⟨hn.1, hn.2.1, hn.2.2.1, hn.2.2.2.2.1, congrArg _ hn.2.2.2.2.2,
      congrArg _ hn.2.2.2.2.2, congrArg _ hn.2.2.2.2.2, congrArg _ hn.2.2.2.2.2,
      congrArg _ hn.2.2.2.2.2, congrArg _ hn.2.2.2.2.2⟩
  · exact ⟨rfl, rfl, rfl, rfl, rfl, rfl, rfl, rfl, rfl, rfl⟩
  · exact ⟨rfl, rfl, rfl, rfl, rfl, rfl, rfl, rfl, rfl, rfl⟩
  · exact ⟨rfl, rfl, rfl, rfl, rfl, rfl, rfl, rfl, rfl, rfl⟩
  · exact ⟨rfl, rfl, rfl, rfl, rfl, rfl, rfl, rfl, rfl, rfl⟩
  · dsimp only; split_ifs <;> exact ⟨rfl, rfl, rfl, rfl, rfl, rfl, rfl, rfl, rfl, rfl⟩
  · dsimp only; split_ifs <;> exact ⟨rfl, rfl, rfl, rfl, rfl, rfl, rfl, rfl, rfl, rfl⟩
  · dsimp only
    exact ⟨hv.1, hv.2.1, hv.2.2.1, hv.2.2.2.2.1, hv.2.2.2.2.2.1, hv.2.2.2.2.2.2.1,
      hv.2.2.2.2.2.2.2.1, hv.2.2.2.2.2.2.2.2.1, hv.2.2.2.2.2.2.2.2.2.1, hv.2.2.2.2.2.2.2.2.2.2⟩
  · exact ⟨rfl, rfl, rfl, rfl, rfl, rfl, rfl, rfl, rfl, rfl⟩

theorem nes_input_write_frame (s : nes_t) (r v : Nat) :
    (nes_input_write s r v).cpu = s.cpu ∧ (nes_input_write s r v).apu = s.apu ∧
    (nes_input_write s r v).mem = s.mem ∧ (nes_input_write s r v).ppu = s.ppu ∧
    (nes_input_write s r v).vmem = s.vmem ∧ (nes_input_write s r v).cart = s.cart := by
  unfold nes_input_write
  dsimp only
  split_ifs <;> exact ⟨rfl, rfl, rfl, rfl, rfl, rfl⟩

theorem nes_ppu_oamdma_loop_frame (n : Nat) (s : nes_t) (a : Nat) :
    (nes_ppu_oamdma_loop n s a).cpu = s.cpu ∧ (nes_ppu_oamdma_loop n s a).apu = s.apu ∧
    (nes_ppu_oamdma_loop n s a).mem = s.mem ∧ (nes_ppu_oamdma_loop n s a).cart = s.cart := by
  induction n generalizing s a with
  | zero => exact ⟨rfl, rfl, rfl, rfl⟩
  | succ n ih =>
    unfold nes_ppu_oamdma_loop
    dsimp only
    exact ⟨(ih _ _).1.trans (nes_mem_readb_cpu s a), (ih _ _).2.1.trans (nes_mem_readb_apu s a),
      (ih _ _).2.2.1.trans (nes_mem_readb_mem s a), (ih _ _).2.2.2.trans (nes_mem_readb_cart s a)⟩

theorem nes_ppu_oamdma_frame (s : nes_t) (p : Nat) :
    (nes_ppu_oamdma s p).cpu =
      { s.cpu with stall := (s.cpu.stall + (513 + (s.cpu.cycle &&& 0x01))) % 0x10000000000000000 } ∧
    (nes_ppu_oamdma s p).apu = s.apu ∧
    (nes_ppu_oamdma s p).mem = s.mem ∧ (nes_ppu_oamdma s p).cart = s.cart := by
  have h := nes_ppu_oamdma_loop_frame 256 s ((p * 0x100) % 0x10000)
  unfold nes_ppu_oamdma
  dsimp only
  rw [h.1]
  exact ⟨rfl, h.2.1, h.2.2.1, h.2.2.2⟩

/-- In 5-step mode the frame sequencer never enters the interrupt sequence. -/
theorem nes_apu_step_frame_counter_five (irq : nes_t → nes_t) (s : nes_t)
    (h : s.apu.frame_period = 5) :
    nes_apu_step_frame_counter irq s = nes_apu_step_frame_counter id s := by
  unfold nes_apu_step_frame_counter
  dsimp only
  rw [if_neg (by omega : ¬ s.apu.frame_period = 4), if_neg (by omega : ¬ s.apu.frame_period = 4)]

theorem nes_apu_step_frame_counter_id_frame (s : nes_t) :
    (nes_apu_step_frame_counter id s).cpu = s.cpu ∧
    (nes_apu_step_frame_counter id s).mem = s.mem ∧
    (nes_apu_step_frame_counter id s).ppu = s.ppu ∧
    (nes_apu_step_frame_counter id s).vmem = s.vmem ∧
    (nes_apu_step_frame_counter id s).input = s.input ∧
    (nes_apu_step_frame_counter id s).cart = s.cart := by
  unfold nes_apu_step_frame_counter nes_apu_fire_irq
  dsimp only
  split_ifs <;> (try split) <;> exact ⟨rfl, rfl, rfl, rfl, rfl, rfl⟩

theorem nes_apu_write_frame_counter_irq_indep (irq : nes_t → nes_t) (s : nes_t) (v : Nat) :
    nes_apu_write_frame_counter irq s v = nes_apu_write_frame_counter id s v := by
  unfold nes_apu_write_frame_counter
  dsimp only
  split_ifs with h
  · rw [nes_apu_step_frame_counter_five irq _ h]
  · rfl

/-- A write to an APU register never enters the interrupt sequence: the
result does not depend on the interrupt entry it is given. -/
theorem nes_apu_write_irq_indep (irq : nes_t → nes_t) (s : nes_t) (a v : Nat) :
    nes_apu_write irq s a v = nes_apu_write id s a v := by
  unfold nes_apu_write
  rw [nes_apu_write_frame_counter_irq_indep]

theorem nes_apu_write_frame_counter_id_frame (s : nes_t) (v : Nat) :
    (nes_apu_write_frame_counter id s v).cpu = s.cpu ∧
    (nes_apu_write_frame_counter id s v).mem = s.mem ∧
    (nes_apu_write_frame_counter id s v).ppu = s.ppu ∧
    (nes_apu_write_frame_counter id s v).vmem = s.vmem ∧
    (nes_apu_write_frame_counter id s v).input = s.input ∧
    (nes_apu_write_frame_counter id s v).cart = s.cart := by
  unfold nes_apu_write_frame_counter
  dsimp only
  split_ifs
  · exact nes_apu_step_frame_counter_id_frame _
  · exact ⟨rfl, rfl, rfl, rfl, rfl, rfl⟩

theorem nes_apu_write_frame (irq : nes_t → nes_t) (s : nes_t) (a v : Nat) :
    (nes_apu_write irq s a v).cpu = s.cpu ∧ (nes_apu_write irq s a v).mem = s.mem ∧
    (nes_apu_write irq s a v).ppu = s.ppu ∧ (nes_apu_write irq s a v).vmem = s.vmem ∧
    (nes_apu_write irq s a v).input = s.input ∧ (nes_apu_write irq s a v).cart = s.cart := by
  rw [nes_apu_write_irq_indep]
  unfold nes_apu_write
  split_ifs
  · exact ⟨rfl, rfl, rfl, rfl, rfl, rfl⟩
  · exact ⟨rfl, rfl, rfl, rfl, rfl, rfl⟩
  · exact ⟨rfl, rfl, rfl, rfl, rfl, rfl⟩
  · exact ⟨rfl, rfl, rfl, rfl, rfl, rfl⟩
  · exact ⟨rfl, rfl, rfl, rfl, rfl, rfl⟩
  · exact ⟨rfl, rfl, rfl, rfl, rfl, rfl⟩
  · exact nes_apu_write_frame_counter_id_frame s v
  · exact ⟨rfl, rfl, rfl, rfl, rfl, rfl⟩

/-- The CPU bus write does not depend on the interrupt entry handed to the
APU. -/
theorem nes_mem_writeb_with_irq_indep (irq : nes_t → nes_t) (s : nes_t) (a v : Nat) :
    nes_mem_writeb_with irq s a v = nes_mem_writeb_with id s a v := by
  unfold nes_mem_writeb_with nes_mem_write_nrom nes_mem_write_mmc1 nes_mem_write_cnrom
    nes_mem_write_mmc3
  rw [nes_apu_write_irq_indep]

/-- The interrupt entry seen by the APU is the interrupt entry of the CPU. -/
theorem nes_cpu_irq_inner_eq (s : nes_t) : nes_cpu_irq_inner s = nes_cpu_irq s := by
  have h : nes_mem_writeb_with id = nes_mem_writeb := by
    funext s a v
    unfold nes_mem_writeb
    exact (nes_mem_writeb_with_irq_indep nes_cpu_irq_inner s a v).symm
  unfold nes_cpu_irq_inner nes_cpu_irq
  rw [h]

theorem nes_mmc1_apply_frame (s : nes_t) :
    (nes_mmc1_apply s).cpu = s.cpu ∧ (nes_mmc1_apply s).apu = s.apu ∧
    (nes_mmc1_apply s).ppu = s.ppu ∧ (nes_mmc1_apply s).vmem = s.vmem ∧
    (nes_mmc1_apply s).input = s.input ∧
    (nes_mmc1_apply s).cart.mapper.funcs = s.cart.mapper.funcs ∧
    (nes_mmc1_apply s).cart.rom16_count = s.cart.rom16_count ∧
    (nes_mmc1_apply s).cart.rom = s.cart.rom ∧
    (nes_mmc1_apply s).mem.ram = s.mem.ram ∧
    (nes_mmc1_apply s).mem.prgram = s.mem.prgram ∧
    (nes_mmc1_apply s).mem.past_prgram = s.mem.past_prgram := by
  unfold nes_mmc1_apply
  dsimp only
  split <;> exact ⟨rfl, rfl, rfl, rfl, rfl, rfl, rfl, rfl, rfl, rfl, rfl⟩

theorem nes_mmc1_write_reg_frame (s : nes_t) (a v : Nat) :
    (nes_mmc1_write_reg s a v).cpu = s.cpu ∧ (nes_mmc1_write_reg s a v).apu = s.apu ∧
    (nes_mmc1_write_reg s a v).ppu = s.ppu ∧ (nes_mmc1_write_reg s a v).vmem = s.vmem ∧
    (nes_mmc1_write_reg s a v).input = s.input ∧
    (nes_mmc1_write_reg s a v).cart.mapper.funcs = s.cart.mapper.funcs ∧
    (nes_mmc1_write_reg s a v).cart.rom16_count = s.cart.rom16_count ∧
    (nes_mmc1_write_reg s a v).cart.rom = s.cart.rom ∧
    (nes_mmc1_write_reg s a v).mem.ram = s.mem.ram ∧
    (nes_mmc1_write_reg s a v).mem.prgram = s.mem.prgram ∧
    (nes_mmc1_write_reg s a v).mem.past_prgram = s.mem.past_prgram := by
  unfold nes_mmc1_write_reg
  split_ifs
  · unfold nes_mmc1_write_r0
    dsimp only
    split_ifs
    · exact nes_mmc1_apply_frame _
    · exact ⟨rfl, rfl, rfl, rfl, rfl, rfl, rfl, rfl, rfl, rfl, rfl⟩
    · exact nes_mmc1_apply_frame _
  · unfold nes_mmc1_write_r1
    dsimp only
    split_ifs <;> exact ⟨rfl, rfl, rfl, rfl, rfl, rfl, rfl, rfl, rfl, rfl, rfl⟩
  · unfold nes_mmc1_write_r2
    dsimp only
    split_ifs <;> exact ⟨rfl, rfl, rfl, rfl, rfl, rfl, rfl, rfl, rfl, rfl, rfl⟩
  · unfold nes_mmc1_write_r3
    dsimp only
    split_ifs <;> exact ⟨rfl, rfl, rfl, rfl, rfl, rfl, rfl, rfl, rfl, rfl, rfl⟩
  · exact ⟨rfl, rfl, rfl, rfl, rfl, rfl, rfl, rfl, rfl, rfl, rfl⟩

theorem nes_mmc3_write_frame (s : nes_t) (a v : Nat) :
    (nes_mmc3_write s a v).cpu = s.cpu ∧ (nes_mmc3_write s a v).apu = s.apu ∧
    (nes_mmc3_write s a v).ppu = s.ppu ∧ (nes_mmc3_write s a v).vmem = s.vmem ∧
    (nes_mmc3_write s a v).input = s.input ∧ (nes_mmc3_write s a v).mem = s.mem ∧
    (nes_mmc3_write s a v).cart.mapper.funcs = s.cart.mapper.funcs ∧
    (nes_mmc3_write s a v).cart.rom16_count = s.cart.rom16_count ∧
    (nes_mmc3_write s a v).cart.rom = s.cart.rom := by
  unfold nes_mmc3_write nes_mmc3_write_bankdata nes_mmc3_write_bankselect nes_mmc3_write_mirror
    nes_mmc3_update_offsets
  dsimp only
  split_ifs <;> exact ⟨rfl, rfl, rfl, rfl, rfl, rfl, rfl, rfl, rfl⟩

theorem nes_prgram_write_frame (s : nes_t) (a v : Nat) :
    (nes_prgram_write s a v).cpu = s.cpu ∧ (nes_prgram_write s a v).apu = s.apu ∧
    (nes_prgram_write s a v).ppu = s.ppu ∧ (nes_prgram_write s a v).vmem = s.vmem ∧
    (nes_prgram_write s a v).input = s.input ∧ (nes_prgram_write s a v).cart = s.cart ∧
    (nes_prgram_write s a v).mem.ram = s.mem.ram := by
  unfold nes_prgram_write
  split_ifs <;> exact ⟨rfl, rfl, rfl, rfl, rfl, rfl, rfl⟩

/-- A CPU bus write changes no CPU register; the only CPU field it can touch
is the stall counter (OAM DMA).  It also keeps the mapper table and the PRG
ROM. -/
theorem nes_mem_writeb_with_frame (irq : nes_t → nes_t) (s : nes_t) (a v : Nat) :
    (nes_mem_writeb_with irq s a v).cpu =
      { s.cpu with stall := (nes_mem_writeb_with irq s a v).cpu.stall } ∧
    (nes_mem_writeb_with irq s a v).cart.mapper.funcs = s.cart.mapper.funcs ∧
    (nes_mem_writeb_with irq s a v).cart.rom16_count = s.cart.rom16_count ∧
    (nes_mem_writeb_with irq s a v).cart.rom = s.cart.rom := by
  have hp := nes_ppu_write_frame s (a &&& 0x0007) v
  have hd := nes_ppu_oamdma_frame s v
  have hi := nes_input_write_frame s (a - 0x4016) v
  have ha := nes_apu_write_frame irq s (a - 0x4000) v
  have h1 := nes_mmc1_write_reg_frame s a v
  have h3 := nes_mmc3_write_frame s a v
  have hg := nes_prgram_write_frame s (a - 0x6000) v
  refine nes_mem_writeb_with_cases irq (fun t => t.cpu = { s.cpu with stall := t.cpu.stall } ∧
    t.cart.mapper.funcs = s.cart.mapper.funcs ∧ t.cart.rom16_count = s.cart.rom16_count ∧
    t.cart.rom = s.cart.rom) s a v ⟨rfl, rfl, rfl, rfl⟩ ⟨rfl, rfl, rfl, rfl⟩
    ⟨cpu_stall_self _ s hp.1, congrArg nes_mapper_t.funcs hp.2.2.2.2.1, hp.2.2.2.2.2.2.2.1,
      hp.2.2.2.2.2.2.2.2.1⟩
    ?_
    ⟨cpu_stall_self _ s hi.1, congrArg (fun c : nes_cart_t => c.mapper.funcs) hi.2.2.2.2.2,
      congrArg nes_cart_t.rom16_count hi.2.2.2.2.2, congrArg nes_cart_t.rom hi.2.2.2.2.2⟩
    ⟨cpu_stall_self _ s ha.1, congrArg (fun c : nes_cart_t => c.mapper.funcs) ha.2.2.2.2.2,
      congrArg nes_cart_t.rom16_count ha.2.2.2.2.2, congrArg nes_cart_t.rom ha.2.2.2.2.2⟩
    ⟨cpu_stall_self _ s hg.1, congrArg (fun c : nes_cart_t => c.mapper.funcs) hg.2.2.2.2.2.1,
      congrArg nes_cart_t.rom16_count hg.2.2.2.2.2.1, congrArg nes_cart_t.rom hg.2.2.2.2.2.1⟩
    ⟨cpu_stall_self _ s h1.1, h1.2.2.2.2.2.1, h1.2.2.2.2.2.2.1, h1.2.2.2.2.2.2.2.1⟩
    ⟨cpu_stall_self _ s h3.1, h3.2.2.2.2.2.2.1, h3.2.2.2.2.2.2.2.1, h3.2.2.2.2.2.2.2.2⟩
    ⟨rfl, rfl, rfl, rfl⟩
  refine ⟨?_, congrArg (fun c : nes_cart_t => c.mapper.funcs) hd.2.2.2,
    congrArg nes_cart_t.rom16_count hd.2.2.2, congrArg nes_cart_t.rom hd.2.2.2⟩
  rw [hd.1]

/-! ## MMC1: the serial shift register -/

theorem mmc1_extra_set (s : nes_t) (ex : nes_mmc1_extra_t) :
    mmc1_extra (set_mmc1_extra s ex) = ex := rfl

/-- On an MMC1 cartridge a CPU write to $8000-$FFFF is a register write. -/
theorem nes_mem_writeb_mmc1_reg (s : nes_t) (a v : Nat) (hm : s.cart.mapper.funcs = .mmc1)
    (ha : 0x8000 ≤ a) : nes_mem_writeb s a v = nes_mmc1_write_reg s a v := by
  unfold nes_mem_writeb nes_mem_writeb_with
  rw [hm]
  dsimp only
  unfold nes_mem_write_mmc1
  rw [if_neg (by omega), if_neg (by omega), if_neg (by omega), if_neg (by omega),
    if_neg (by omega), if_pos (by omega)]

/-- A register write with bit 7 clear while fewer than four bits are in the
shifter only shifts: whatever the address, the bit goes into the buffer and the
count goes up; no register changes. -/
theorem nes_mmc1_write_reg_shift (s : nes_t) (a v : Nat) (ha : a ≤ 0xFFFF)
    (hv : v &&& 0x80 = 0) (hb : (mmc1_extra s).bit < 4) :
    nes_mmc1_write_reg s a v =
      set_mmc1_extra s { mmc1_extra s with
        bit_buf := MMC1_ADDBIT (mmc1_extra s).bit_buf (MMC1_GETBIT v) (mmc1_extra s).bit % 0x100
        bit := (mmc1_extra s).bit + 1 } := by
  unfold nes_mmc1_write_reg nes_mmc1_write_r0 nes_mmc1_write_r1 nes_mmc1_write_r2
    nes_mmc1_write_r3
  simp only [MMC1_R0_RESET, MMC1_R1_RESET, MMC1_R2_RESET, MMC1_R3_RESET, hv, ne_eq,
    not_true_eq_false, if_false, hb, if_true]
  split_ifs <;> rfl

theorem mmc1_extra_apply (s : nes_t) :
    mmc1_extra (nes_mmc1_apply s) =
      { mmc1_extra s with old_switch_area := (mmc1_extra s).r0 &&& MMC1_R0_PRGAREA } := by
  unfold nes_mmc1_apply
  dsimp only
  split <;> rfl

theorem nes_mmc1_write_r0_commit (s : nes_t) (v : Nat) (hv : v &&& 0x80 = 0)
    (hb : ¬ (mmc1_extra s).bit < 4) :
    mmc1_extra (nes_mmc1_write_r0 s v) =
      { mmc1_extra s with
        bit_buf := MMC1_ADDBIT (mmc1_extra s).bit_buf (MMC1_GETBIT v) (mmc1_extra s).bit % 0x100
        bit := 0
        r0 := MMC1_ADDBIT (mmc1_extra s).bit_buf (MMC1_GETBIT v) (mmc1_extra s).bit % 0x100
        old_switch_area :=
          (MMC1_ADDBIT (mmc1_extra s).bit_buf (MMC1_GETBIT v) (mmc1_extra s).bit % 0x100) &&&
            MMC1_R0_PRGAREA } := by
  unfold nes_mmc1_write_r0
  dsimp only
  rw [if_neg (by simp [MMC1_R0_RESET, hv]), if_neg hb, mmc1_extra_apply]
  rfl

theorem nes_mmc1_write_r1_commit (s : nes_t) (v : Nat) (hv : v &&& 0x80 = 0)
    (hb : ¬ (mmc1_extra s).bit < 4) :
    (mmc1_extra (nes_mmc1_write_r1 s v)).bit = 0 ∧
    (mmc1_extra (nes_mmc1_write_r1 s v)).bit_buf =
      MMC1_ADDBIT (mmc1_extra s).bit_buf (MMC1_GETBIT v) (mmc1_extra s).bit % 0x100 ∧
    (mmc1_extra (nes_mmc1_write_r1 s v)).r0 = (mmc1_extra s).r0 ∧
    (mmc1_extra (nes_mmc1_write_r1 s v)).r1 =
      MMC1_ADDBIT (mmc1_extra s).bit_buf (MMC1_GETBIT v) (mmc1_extra s).bit % 0x100 ∧
    (mmc1_extra (nes_mmc1_write_r1 s v)).r2 = (mmc1_extra s).r2 ∧
    (mmc1_extra (nes_mmc1_write_r1 s v)).r3 = (mmc1_extra s).r3 := by
  unfold nes_mmc1_write_r1
  dsimp only
  rw [if_neg (by simp [MMC1_R1_RESET, hv]), if_neg hb]
  exact ⟨rfl, rfl, rfl, rfl, rfl, rfl⟩

theorem nes_mmc1_write_r2_commit (s : nes_t) (v : Nat) (hv : v &&& 0x80 = 0)
    (hb : ¬ (mmc1_extra s).bit < 4) :
    (mmc1_extra (nes_mmc1_write_r2 s v)).bit = 0 ∧
    (mmc1_extra (nes_mmc1_write_r2 s v)).bit_buf =
      MMC1_ADDBIT (mmc1_extra s).bit_buf (MMC1_GETBIT v) (mmc1_extra s).bit % 0x100 ∧
    (mmc1_extra (nes_mmc1_write_r2 s v)).r0 = (mmc1_extra s).r0 ∧
    (mmc1_extra (nes_mmc1_write_r2 s v)).r1 = (mmc1_extra s).r1 ∧
    (mmc1_extra (nes_mmc1_write_r2 s v)).r2 =
      MMC1_ADDBIT (mmc1_extra s).bit_buf (MMC1_GETBIT v) (mmc1_extra s).bit % 0x100 ∧
    (mmc1_extra (nes_mmc1_write_r2 s v)).r3 = (mmc1_extra s).r3 := by
  unfold nes_mmc1_write_r2
  dsimp only
  rw [if_neg (by simp [MMC1_R2_RESET, hv]), if_neg hb]
  exact ⟨rfl, rfl, rfl, rfl, rfl, rfl⟩

theorem nes_mmc1_write_r3_commit (s : nes_t) (v : Nat) (hv : v &&& 0x80 = 0)
    (hb : ¬ (mmc1_extra s).bit < 4) :
    mmc1_extra (nes_mmc1_write_r3 s v) =
      { mmc1_extra s with
        bit_buf := MMC1_ADDBIT (mmc1_extra s).bit_buf (MMC1_GETBIT v) (mmc1_extra s).bit % 0x100
        bit := 0
        r3 := MMC1_ADDBIT (mmc1_extra s).bit_buf (MMC1_GETBIT v) (mmc1_extra s).bit % 0x100 } := by
  unfold nes_mmc1_write_r3
  dsimp only
  rw [if_neg (by simp [MMC1_R3_RESET, hv]), if_neg hb]
  split_ifs <;> rfl

/-- The state of the shifter and of the four registers after a register write
with bit 7 clear that finds four bits in the shifter: the five bits are
committed to the register selected by the address. -/
theorem nes_mmc1_write_reg_commit (s : nes_t) (a v : Nat) (ha : a ≤ 0xFFFF)
    (hv : v &&& 0x80 = 0) (hb : (mmc1_extra s).bit = 4) :
    (mmc1_extra (nes_mmc1_write_reg s a v)).bit = 0 ∧
    (mmc1_extra (nes_mmc1_write_reg s a v)).bit_buf =
      MMC1_ADDBIT (mmc1_extra s).bit_buf (MMC1_GETBIT v) 4 % 0x100 ∧
    (mmc1_extra (nes_mmc1_write_reg s a v)).r0 =
      (if a ≤ 0x9FFF then MMC1_ADDBIT (mmc1_extra s).bit_buf (MMC1_GETBIT v) 4 % 0x100
       else (mmc1_extra s).r0) ∧
    (mmc1_extra (nes_mmc1_write_reg s a v)).r1 =
      (if 0x9FFF < a ∧ a ≤ 0xBFFF then
        MMC1_ADDBIT (mmc1_extra s).bit_buf (MMC1_GETBIT v) 4 % 0x100
       else (mmc1_extra s).r1) ∧
    (mmc1_extra (nes_mmc1_write_reg s a v)).r2 =
      (if 0xBFFF < a ∧ a ≤ 0xDFFF then
        MMC1_ADDBIT (mmc1_extra s).bit_buf (MMC1_GETBIT v) 4 % 0x100
       else (mmc1_extra s).r2) ∧
    (mmc1_extra (nes_mmc1_write_reg s a v)).r3 =
      (if 0xDFFF < a then MMC1_ADDBIT (mmc1_extra s).bit_buf (MMC1_GETBIT v) 4 % 0x100
       else (mmc1_extra s).r3) := by
  have hb' : ¬ (mmc1_extra s).bit < 4 := by omega
  have h0 := nes_mmc1_write_r0_commit s v hv hb'
  have h1 := nes_mmc1_write_r1_commit s v hv hb'
  have h2 := nes_mmc1_write_r2_commit s v hv hb'
  have h3 := nes_mmc1_write_r3_commit s v hv hb'
  rw [hb] at h0 h1 h2 h3
  unfold nes_mmc1_write_reg
  by_cases c0 : a ≤ 0x9FFF
  · rw [if_pos c0, h0, if_pos c0, if_neg (by omega), if_neg (by omega), if_neg (by omega)]
    exact ⟨rfl, rfl, rfl, rfl, rfl, rfl⟩
  · rw [if_neg c0]
    by_cases c1 : a ≤ 0xBFFF
    · rw [if_pos c1, if_neg c0, if_pos (by omega), if_neg (by omega), if_neg (by omega)]
      exact h1
    · rw [if_neg c1]
      by_cases c2 : a ≤ 0xDFFF
      · rw [if_pos c2, if_neg c0, if_neg (by omega), if_pos (by omega), if_neg (by omega)]
        exact h2
      · rw [if_neg c2, if_pos ha, h3, if_neg c0, if_neg (by omega), if_neg (by omega),
          if_pos (by omega)]
        exact ⟨rfl, rfl, rfl, rfl, rfl, rfl⟩

/-- One shift step seen from the CPU bus: the new machine state. -/
theorem nes_mem_writeb_mmc1_shift (s : nes_t) (a v : Nat) (hm : s.cart.mapper.funcs = .mmc1)
    (ha : 0x8000 ≤ a ∧ a ≤ 0xFFFF) (hv : v &&& 0x80 = 0) (hb : (mmc1_extra s).bit < 4) :
    nes_mem_writeb s a v =
      set_mmc1_extra s { mmc1_extra s with
        bit_buf := MMC1_ADDBIT (mmc1_extra s).bit_buf (MMC1_GETBIT v) (mmc1_extra s).bit % 0x100
        bit := (mmc1_extra s).bit + 1 } := by
  rw [nes_mem_writeb_mmc1_reg s a v hm ha.1, nes_mmc1_write_reg_shift s a v ha.2 hv hb]

/-- Five shift steps of the MMC1 bit buffer assemble the five bits, whatever
the buffer held in its low five bits before. -/
theorem mmc1_addbit_five (x b0 b1 b2 b3 b4 : Nat) (hx : x < 32)
    (h0 : b0 < 2) (h1 : b1 < 2) (h2 : b2 < 2) (h3 : b3 < 2) (h4 : b4 < 2) :
    MMC1_ADDBIT (MMC1_ADDBIT (MMC1_ADDBIT (MMC1_ADDBIT (MMC1_ADDBIT x b0 0 % 0x100) b1 1 % 0x100)
      b2 2 % 0x100) b3 3 % 0x100) b4 4 % 0x100 = b0 + 2 * b1 + 4 * b2 + 8 * b3 + 16 * b4 := by
  interval_cases x <;> interval_cases b0 <;> interval_cases b1 <;> interval_cases b2 <;>
    interval_cases b3 <;> interval_cases b4 <;> rfl

/-- Bits 13-14 of an address in $8000-$FFFF select the 8 KiB window. -/
theorem addr_bits_13_14 (a : Nat) (ha : 0x8000 ≤ a ∧ a ≤ 0xFFFF) :
    ((a >>> 13) &&& 3 = 0 ↔ a ≤ 0x9FFF) ∧
    ((a >>> 13) &&& 3 = 1 ↔ 0x9FFF < a ∧ a ≤ 0xBFFF) ∧
    ((a >>> 13) &&& 3 = 2 ↔ 0xBFFF < a ∧ a ≤ 0xDFFF) ∧
    ((a >>> 13) &&& 3 = 3 ↔ 0xDFFF < a) := by
  have h : (a >>> 13) &&& 3 = a / 8192 % 4 := by
    rw [Nat.shiftRight_eq_div_pow]
    exact Nat.and_pow_two_sub_one_eq_mod _ 2
  rw [h]
  omega

/-- Five writes with bit 7 clear into an empty shifter: the registers after
each write. -/
theorem mmc1_five_writes_aux (s : nes_t) (a0 a1 a2 a3 a4 v0 v1 v2 v3 v4 : Nat)
    (hm : s.cart.mapper.funcs = .mmc1)
    (hbit : (mmc1_extra s).bit = 0) (hbuf : (mmc1_extra s).bit_buf < 32)
    (ha0 : 0x8000 ≤ a0 ∧ a0 ≤ 0xFFFF) (ha1 : 0x8000 ≤ a1 ∧ a1 ≤ 0xFFFF)
    (ha2 : 0x8000 ≤ a2 ∧ a2 ≤ 0xFFFF) (ha3 : 0x8000 ≤ a3 ∧ a3 ≤ 0xFFFF)
    (ha4 : 0x8000 ≤ a4 ∧ a4 ≤ 0xFFFF)
    (hv0 : v0 &&& 0x80 = 0) (hv1 : v1 &&& 0x80 = 0) (hv2 : v2 &&& 0x80 = 0)
    (hv3 : v3 &&& 0x80 = 0) (hv4 : v4 &&& 0x80 = 0) :
    let s1 := nes_mem_writeb s a0 v0
    let s2 := nes_mem_writeb s1 a1 v1
    let s3 := nes_mem_writeb s2 a2 v2
    let s4 := nes_mem_writeb s3 a3 v3
    let s5 := nes_mem_writeb s4 a4 v4
    let n := (v0 &&& 1) + 2 * (v1 &&& 1) + 4 * (v2 &&& 1) + 8 * (v3 &&& 1) + 16 * (v4 &&& 1)
    ((mmc1_extra s1).r0 = (mmc1_extra s).r0 ∧ (mmc1_extra s1).r1 = (mmc1_extra s).r1 ∧
      (mmc1_extra s1).r2 = (mmc1_extra s).r2 ∧ (mmc1_extra s1).r3 = (mmc1_extra s).r3) ∧
    ((mmc1_extra s2).r0 = (mmc1_extra s).r0 ∧ (mmc1_extra s2).r1 = (mmc1_extra s).r1 ∧
      (mmc1_extra s2).r2 = (mmc1_extra s).r2 ∧ (mmc1_extra s2).r3 = (mmc1_extra s).r3) ∧
    ((mmc1_extra s3).r0 = (mmc1_extra s).r0 ∧ (mmc1_extra s3).r1 = (mmc1_extra s).r1 ∧
      (mmc1_extra s3).r2 = (mmc1_extra s).r2 ∧ (mmc1_extra s3).r3 = (mmc1_extra s).r3) ∧
    ((mmc1_extra s4).r0 = (mmc1_extra s).r0 ∧ (mmc1_extra s4).r1 = (mmc1_extra s).r1 ∧
      (mmc1_extra s4).r2 = (mmc1_extra s).r2 ∧ (mmc1_extra s4).r3 = (mmc1_extra s).r3) ∧
    (mmc1_extra s5).bit = 0 ∧
    ((a4 >>> 13) &&& 3 = 0 → (mmc1_extra s5).r0 = n) ∧
    ((a4 >>> 13) &&& 3 = 1 → (mmc1_extra s5).r1 = n) ∧
    ((a4 >>> 13) &&& 3 = 2 → (mmc1_extra s5).r2 = n) ∧
    ((a4 >>> 13) &&& 3 = 3 → (mmc1_extra s5).r3 = n) := by
  intro s1 s2 s3 s4 s5 n
  have e1 := nes_mem_writeb_mmc1_shift s a0 v0 hm ha0 hv0 (by omega)
  have m1 : s1.cart.mapper.funcs = .mmc1 := by
    show (nes_mem_writeb s a0 v0).cart.mapper.funcs = _
    rw [e1]; exact hm
  have x1 : mmc1_extra s1 = { mmc1_extra s with
      bit_buf := MMC1_ADDBIT (mmc1_extra s).bit_buf (MMC1_GETBIT v0) 0 % 0x100, bit := 1 } := by
    show mmc1_extra (nes_mem_writeb s a0 v0) = _
    rw [e1, mmc1_extra_set, hbit]
  have e2 := nes_mem_writeb_mmc1_shift s1 a1 v1 m1 ha1 hv1 (by rw [x1]; exact (by omega : (1 : Nat) < 4))
  have m2 : s2.cart.mapper.funcs = .mmc1 := by
    show (nes_mem_writeb s1 a1 v1).cart.mapper.funcs = _
    rw [e2]; exact m1
  have x2 : mmc1_extra s2 = { mmc1_extra s with
      bit_buf := MMC1_ADDBIT (MMC1_ADDBIT (mmc1_extra s).bit_buf (MMC1_GETBIT v0) 0 % 0x100)
        (MMC1_GETBIT v1) 1 % 0x100, bit := 2 } := by
    show mmc1_extra (nes_mem_writeb s1 a1 v1) = _
    rw [e2, mmc1_extra_set, x1]
  have e3 := nes_mem_writeb_mmc1_shift s2 a2 v2 m2 ha2 hv2 (by rw [x2]; exact (by omega : (2 : Nat) < 4))
  have m3 : s3.cart.mapper.funcs = .mmc1 := by
    show (nes_mem_writeb s2 a2 v2).cart.mapper.funcs = _
    rw [e3]; exact m2
  have x3 : mmc1_extra s3 = { mmc1_extra s with
      bit_buf := MMC1_ADDBIT (MMC1_ADDBIT (MMC1_ADDBIT (mmc1_extra s).bit_buf (MMC1_GETBIT v0) 0
        % 0x100) (MMC1_GETBIT v1) 1 % 0x100) (MMC1_GETBIT v2) 2 % 0x100, bit := 3 } := by
    show mmc1_extra (nes_mem_writeb s2 a2 v2) = _
    rw [e3, mmc1_extra_set, x2]
  have e4 := nes_mem_writeb_mmc1_shift s3 a3 v3 m3 ha3 hv3 (by rw [x3]; exact (by omega : (3 : Nat) < 4))
  have m4 : s4.cart.mapper.funcs = .mmc1 := by
    show (nes_mem_writeb s3 a3 v3).cart.mapper.funcs = _
    rw [e4]; exact m3
  have x4 : mmc1_extra s4 = { mmc1_extra s with
      bit_buf := MMC1_ADDBIT (MMC1_ADDBIT (MMC1_ADDBIT (MMC1_ADDBIT (mmc1_extra s).bit_buf
        (MMC1_GETBIT v0) 0 % 0x100) (MMC1_GETBIT v1) 1 % 0x100) (MMC1_GETBIT v2) 2 % 0x100)
        (MMC1_GETBIT v3) 3 % 0x100, bit := 4 } := by
    show mmc1_extra (nes_mem_writeb s3 a3 v3) = _
    rw [e4, mmc1_extra_set, x3]
  have c5 := nes_mmc1_write_reg_commit s4 a4 v4 ha4.2 hv4 (by rw [x4])
  rw [← nes_mem_writeb_mmc1_reg s4 a4 v4 m4 ha4.1] at c5
  have hn : MMC1_ADDBIT (mmc1_extra s4).bit_buf (MMC1_GETBIT v4) 4 % 0x100 = n := by
    rw [x4]
    have hb (v : Nat) : MMC1_GETBIT v < 2 := by
      have : v &&& 1 ≤ 1 := Nat.and_le_right
      show v &&& 1 < 2
      omega
    exact mmc1_addbit_five _ _ _ _ _ _ hbuf (hb v0) (hb v1) (hb v2) (hb v3) (hb v4)
  rw [hn] at c5
  have hw := addr_bits_13_14 a4 ha4
  refine ⟨?_, ?_, ?_, ?_, c5.1, ?_, ?_, ?_, ?_⟩
  · rw [x1]; exact ⟨rfl, rfl, rfl, rfl⟩
  · rw [x2]; exact ⟨rfl, rfl, rfl, rfl⟩
  · rw [x3]; exact ⟨rfl, rfl, rfl, rfl⟩
  · rw [x4]; exact ⟨rfl, rfl, rfl, rfl⟩
  · intro h; rw [c5.2.2.1, if_pos (hw.1.mp h)]
  · intro h; rw [c5.2.2.2.1, if_pos (hw.2.1.mp h)]
  · intro h; rw [c5.2.2.2.2.1, if_pos (hw.2.2.1.mp h)]
  · intro h; rw [c5.2.2.2.2.2, if_pos (hw.2.2.2.mp h)]

/-! ## MMC1: reset writes, the shifter invariant, PRG banking -/

theorem mmc1_addbit_lt (x b k : Nat) (hx : x < 32) (hb : b < 2) (hk : k ≤ 4) :
    MMC1_ADDBIT x b k % 0x100 < 32 := by
  interval_cases x <;> interval_cases b <;> interval_cases k <;> decide

theorem mmc1_getbit_lt (v : Nat) : MMC1_GETBIT v < 2 := by
  have : v &&& 1 ≤ 1 := Nat.and_le_right
  show v &&& 1 < 2
  omega

/-- A register write with bit 7 set: the shifter is left as it is and the
register selected by the address takes its initial value. -/
theorem nes_mmc1_write_reg_reset (s : nes_t) (a v : Nat) (ha : a ≤ 0xFFFF)
    (hv : v &&& 0x80 ≠ 0) :
    (mmc1_extra (nes_mmc1_write_reg s a v)).bit = (mmc1_extra s).bit ∧
    (mmc1_extra (nes_mmc1_write_reg s a v)).bit_buf = (mmc1_extra s).bit_buf ∧
    (mmc1_extra (nes_mmc1_write_reg s a v)).r0 =
      (if a ≤ 0x9FFF then 0x0C else (mmc1_extra s).r0) ∧
    (mmc1_extra (nes_mmc1_write_reg s a v)).r1 =
      (if 0x9FFF < a ∧ a ≤ 0xBFFF then 0 else (mmc1_extra s).r1) ∧
    (mmc1_extra (nes_mmc1_write_reg s a v)).r2 =
      (if 0xBFFF < a ∧ a ≤ 0xDFFF then 0 else (mmc1_extra s).r2) ∧
    (mmc1_extra (nes_mmc1_write_reg s a v)).r3 =
      (if 0xDFFF < a then 0 else (mmc1_extra s).r3) := by
  unfold nes_mmc1_write_reg
  by_cases c0 : a ≤ 0x9FFF
  · rw [if_pos c0, if_pos c0, if_neg (by omega), if_neg (by omega), if_neg (by omega)]
    unfold nes_mmc1_write_r0
    dsimp only
    rw [if_pos (by simpa [MMC1_R0_RESET] using hv), mmc1_extra_apply]
    exact ⟨rfl, rfl, rfl, rfl, rfl, rfl⟩
  · rw [if_neg c0]
    by_cases c1 : a ≤ 0xBFFF
    · rw [if_pos c1, if_neg c0, if_pos (by omega), if_neg (by omega), if_neg (by omega)]
      unfold nes_mmc1_write_r1
      dsimp only
      rw [if_pos (by simpa [MMC1_R1_RESET] using hv)]
      exact ⟨rfl, rfl, rfl, rfl, rfl, rfl⟩
    · rw [if_neg c1]
      by_cases c2 : a ≤ 0xDFFF
      · rw [if_pos c2, if_neg c0, if_neg (by omega), if_pos (by omega), if_neg (by omega)]
        unfold nes_mmc1_write_r2
        dsimp only
        rw [if_pos (by simpa [MMC1_R2_RESET] using hv)]
        exact ⟨rfl, rfl, rfl, rfl, rfl, rfl⟩
      · rw [if_neg c2, if_pos ha, if_neg c0, if_neg (by omega), if_neg (by omega),
          if_pos (by omega)]
        unfold nes_mmc1_write_r3
        dsimp only
        rw [if_pos (by simpa [MMC1_R3_RESET] using hv)]
        exact ⟨rfl, rfl, rfl, rfl, rfl, rfl⟩

/-- On an MMC1 cartridge a CPU write below $8000 leaves the mapper state
alone. -/
theorem nes_mem_writeb_mmc1_low (s : nes_t) (a v : Nat) (hm : s.cart.mapper.funcs = .mmc1)
    (ha : a < 0x8000) : (nes_mem_writeb s a v).cart.mapper = s.cart.mapper := by
  have hp := nes_ppu_write_frame s (a &&& 0x0007) v
  have hd := nes_ppu_oamdma_frame s v
  have hi := nes_input_write_frame s (a - 0x4016) v
  have hq := nes_apu_write_frame nes_cpu_irq_inner s (a - 0x4000) v
  have hg := nes_prgram_write_frame s (a - 0x6000) v
  unfold nes_mem_writeb nes_mem_writeb_with
  rw [hm]
  dsimp only
  unfold nes_mem_write_mmc1
  split_ifs
  · rfl
  · exact hp.2.2.2.2.1
  · rw [hd.2.2.2]
  · rw [hi.2.2.2.2.2]
  · rw [hq.2.2.2.2.2]
  · omega
  · rw [hg.2.2.2.2.2.1]
  · rfl

theorem mmc1_extra_congr (s t : nes_t) (h : t.cart.mapper = s.cart.mapper) :
    mmc1_extra t = mmc1_extra s := by
  unfold mmc1_extra
  rw [h]

/-- The shifter right after MMC1 initialisation is empty. -/
theorem mmc1_shifter_init (s : nes_t) :
    (mmc1_extra (nes_init_mmc1 s)).bit = 0 ∧ (mmc1_extra (nes_init_mmc1 s)).bit_buf = 0 ∧
    (mmc1_extra (nes_init_mmc1 s)).r0 = 0x0C ∧ (mmc1_extra (nes_init_mmc1 s)).r1 = 0 ∧
    (mmc1_extra (nes_init_mmc1 s)).r2 = 0 ∧ (mmc1_extra (nes_init_mmc1 s)).r3 = 0 :=
  ⟨rfl, rfl, rfl, rfl, rfl, rfl⟩

/-- Every CPU write keeps the shifter within its range: at most four bits
counted and a buffer of five bits. -/
theorem mmc1_shifter_preserved (s : nes_t) (a v : Nat) (hm : s.cart.mapper.funcs = .mmc1)
    (ha : a ≤ 0xFFFF) (hb : (mmc1_extra s).bit ≤ 4) (hbuf : (mmc1_extra s).bit_buf < 32) :
    (mmc1_extra (nes_mem_writeb s a v)).bit ≤ 4 ∧
    (mmc1_extra (nes_mem_writeb s a v)).bit_buf < 32 := by
  by_cases hlow : a < 0x8000
  · rw [mmc1_extra_congr s _ (nes_mem_writeb_mmc1_low s a v hm hlow)]
    exact ⟨hb, hbuf⟩
  · have ha' : 0x8000 ≤ a := by omega
    rw [nes_mem_writeb_mmc1_reg s a v hm ha']
    by_cases hv : v &&& 0x80 = 0
    · by_cases h4 : (mmc1_extra s).bit < 4
      · rw [nes_mmc1_write_reg_shift s a v ha hv h4, mmc1_extra_set]
        exact ⟨by show (mmc1_extra s).bit + 1 ≤ 4; omega,
          mmc1_addbit_lt _ _ _ hbuf (mmc1_getbit_lt v) hb⟩
      · have e4 : (mmc1_extra s).bit = 4 := by omega
        have c := nes_mmc1_write_reg_commit s a v ha hv e4
        rw [c.1, c.2.1]
        exact ⟨by omega, mmc1_addbit_lt _ _ _ hbuf (mmc1_getbit_lt v) (le_refl 4)⟩
    · have c := nes_mmc1_write_reg_reset s a v ha hv
      rw [c.1, c.2.1]
      exact ⟨hb, hbuf⟩

/-- C8. Starting from an MMC1 state whose shifter is empty (bit count 0; the
bit buffer below 32, as it is in every state reached from `nes_init_mmc1`, see
`mmc1_shifter_init` and `mmc1_shifter_preserved`), five consecutive CPU writes
to $8000-$FFFF with bit 7 clear store `b0 + 2*b1 + 4*b2 + 8*b3 + 16*b4`, the
`b`s being bit 0 of the written values, into the register selected by bits
13-14 of the fifth write's address (control, CHR bank 0, CHR bank 1, PRG bank)
and leave the shifter empty again; the first four writes change none of the
four registers. -/
theorem mmc1_five_writes_latch (s : nes_t) (a0 a1 a2 a3 a4 v0 v1 v2 v3 v4 : Nat)
    (hm : s.cart.mapper.funcs = .mmc1)
    (hbit : (mmc1_extra s).bit = 0) (hbuf : (mmc1_extra s).bit_buf < 32)
    (ha0 : 0x8000 ≤ a0 ∧ a0 ≤ 0xFFFF) (ha1 : 0x8000 ≤ a1 ∧ a1 ≤ 0xFFFF)
    (ha2 : 0x8000 ≤ a2 ∧ a2 ≤ 0xFFFF) (ha3 : 0x8000 ≤ a3 ∧ a3 ≤ 0xFFFF)
    (ha4 : 0x8000 ≤ a4 ∧ a4 ≤ 0xFFFF)
    (hv0 : v0 &&& 0x80 = 0) (hv1 : v1 &&& 0x80 = 0) (hv2 : v2 &&& 0x80 = 0)
    (hv3 : v3 &&& 0x80 = 0) (hv4 : v4 &&& 0x80 = 0) :
    let s1 := nes_mem_writeb s a0 v0
    let s2 := nes_mem_writeb s1 a1 v1
    let s3 := nes_mem_writeb s2 a2 v2
    let s4 := nes_mem_writeb s3 a3 v3
    let s5 := nes_mem_writeb s4 a4 v4
    let n := (v0 &&& 1) + 2 * (v1 &&& 1) + 4 * (v2 &&& 1) + 8 * (v3 &&& 1) + 16 * (v4 &&& 1)
    ((mmc1_extra s1).r0 = (mmc1_extra s).r0 ∧ (mmc1_extra s1).r1 = (mmc1_extra s).r1 ∧
      (mmc1_extra s1).r2 = (mmc1_extra s).r2 ∧ (mmc1_extra s1).r3 = (mmc1_extra s).r3) ∧
    ((mmc1_extra s2).r0 = (mmc1_extra s).r0 ∧ (mmc1_extra s2).r1 = (mmc1_extra s).r1 ∧
      (mmc1_extra s2).r2 = (mmc1_extra s).r2 ∧ (mmc1_extra s2).r3 = (mmc1_extra s).r3) ∧
    ((mmc1_extra s3).r0 = (mmc1_extra s).r0 ∧ (mmc1_extra s3).r1 = (mmc1_extra s).r1 ∧
      (mmc1_extra s3).r2 = (mmc1_extra s).r2 ∧ (mmc1_extra s3).r3 = (mmc1_extra s).r3) ∧
    ((mmc1_extra s4).r0 = (mmc1_extra s).r0 ∧ (mmc1_extra s4).r1 = (mmc1_extra s).r1 ∧
      (mmc1_extra s4).r2 = (mmc1_extra s).r2 ∧ (mmc1_extra s4).r3 = (mmc1_extra s).r3) ∧
    (mmc1_extra s5).bit = 0 ∧
    ((a4 >>> 13) &&& 3 = 0 → (mmc1_extra s5).r0 = n) ∧
    ((a4 >>> 13) &&& 3 = 1 → (mmc1_extra s5).r1 = n) ∧
    ((a4 >>> 13) &&& 3 = 2 → (mmc1_extra s5).r2 = n) ∧
    ((a4 >>> 13) &&& 3 = 3 → (mmc1_extra s5).r3 = n) :=
  mmc1_five_writes_aux s a0 a1 a2 a3 a4 v0 v1 v2 v3 v4 hm hbit hbuf ha0 ha1 ha2 ha3 ha4
    hv0 hv1 hv2 hv3 hv4

/-- Instance of C8 on the four-bank MMC1 cartridge: the bits 0,1,0,0,0 written
to $E000 put 2 into the PRG bank register. -/
theorem mmc1_five_writes_latch_witness :
    (mmc1_extra nes_mmc1_four_banks).bit = 0 ∧
    (mmc1_extra (nes_mem_writeb (nes_mem_writeb (nes_mem_writeb (nes_mem_writeb
      (nes_mem_writeb nes_mmc1_four_banks 0xE000 0) 0xE000 1) 0xE000 0) 0xE000 0)
      0xE000 0)).r3 = 2 :=
  ⟨rfl, (mmc1_five_writes_latch nes_mmc1_four_banks 0xE000 0xE000 0xE000 0xE000 0xE000 0 1 0 0 0
    rfl rfl (by decide) (by decide) (by decide) (by decide) (by decide) (by decide)
    (by decide) (by decide) (by decide) (by decide) (by decide)).2.2.2.2.2.2.2.2 (by decide)⟩

/-- A CPU write keeps the mapper table. -/
theorem nes_mem_writeb_funcs (s : nes_t) (a v : Nat) :
    (nes_mem_writeb s a v).cart.mapper.funcs = s.cart.mapper.funcs :=
  (nes_mem_writeb_with_frame nes_cpu_irq_inner s a v).2.1

/-- The bit count after a register write with bit 7 clear. -/
theorem mmc1_clear_write_bit (s : nes_t) (a v : Nat) (hm : s.cart.mapper.funcs = .mmc1)
    (ha : 0x8000 ≤ a ∧ a ≤ 0xFFFF) (hv : v &&& 0x80 = 0) (hb : (mmc1_extra s).bit ≤ 4) :
    (mmc1_extra (nes_mem_writeb s a v)).bit =
      if (mmc1_extra s).bit < 4 then (mmc1_extra s).bit + 1 else 0 := by
  rw [nes_mem_writeb_mmc1_reg s a v hm ha.1]
  by_cases h4 : (mmc1_extra s).bit < 4
  · rw [nes_mmc1_write_reg_shift s a v ha.2 hv h4, mmc1_extra_set, if_pos h4]
  · rw [(nes_mmc1_write_reg_commit s a v ha.2 hv (by omega)).1, if_neg h4]

/-- C9 (counterexample). On the four-bank MMC1 cartridge one bit is shifted in
by a write of 1 to $E000; the write of $80 to $E000 that follows leaves the bit
count at 1; of the next five writes 0,1,0,0,0 (value 2) the fourth already
commits, the PRG bank register ends as 5 and not 2, and one bit is left in the
shifter. -/
theorem mmc1_reset_write_counterexample :
    (mmc1_extra (nes_mem_writeb (nes_mem_writeb nes_mmc1_four_banks 0xE000 1) 0xE000 0x80)).bit
      = 1 ∧
    (mmc1_extra (nes_mem_writeb (nes_mem_writeb (nes_mem_writeb (nes_mem_writeb
      (nes_mem_writeb (nes_mem_writeb (nes_mem_writeb nes_mmc1_four_banks 0xE000 1) 0xE000 0x80)
      0xE000 0) 0xE000 1) 0xE000 0) 0xE000 0) 0xE000 0)).r3 = 5 ∧
    (mmc1_extra (nes_mem_writeb (nes_mem_writeb (nes_mem_writeb (nes_mem_writeb
      (nes_mem_writeb (nes_mem_writeb (nes_mem_writeb nes_mmc1_four_banks 0xE000 1) 0xE000 0x80)
      0xE000 0) 0xE000 1) 0xE000 0) 0xE000 0) 0xE000 0)).r3 ≠ 2 ∧
    (mmc1_extra (nes_mem_writeb (nes_mem_writeb (nes_mem_writeb (nes_mem_writeb
      (nes_mem_writeb (nes_mem_writeb (nes_mem_writeb nes_mmc1_four_banks 0xE000 1) 0xE000 0x80)
      0xE000 0) 0xE000 1) 0xE000 0) 0xE000 0) 0xE000 0)).bit = 1 := by
  decide

/-- C9 (amended). For every MMC1 state, whatever number (0 to 4) of bits has
already been shifted in, a CPU write to $8000-$FFFF with bit 7 set leaves the
shifter as it is: bit count and bit buffer are unchanged.  After the next five
writes with bit 7 clear the bit count is again what it was before the bit-7
write; when that count was 0 (and the buffer below 32) these five writes latch
exactly their own five bits into the register selected by the fifth
address. -/
theorem mmc1_reset_write_keeps_shifter (s : nes_t) (a v a0 a1 a2 a3 a4 v0 v1 v2 v3 v4 : Nat)
    (hm : s.cart.mapper.funcs = .mmc1) (hb : (mmc1_extra s).bit ≤ 4)
    (ha : 0x8000 ≤ a ∧ a ≤ 0xFFFF) (hv : v &&& 0x80 ≠ 0)
    (ha0 : 0x8000 ≤ a0 ∧ a0 ≤ 0xFFFF) (ha1 : 0x8000 ≤ a1 ∧ a1 ≤ 0xFFFF)
    (ha2 : 0x8000 ≤ a2 ∧ a2 ≤ 0xFFFF) (ha3 : 0x8000 ≤ a3 ∧ a3 ≤ 0xFFFF)
    (ha4 : 0x8000 ≤ a4 ∧ a4 ≤ 0xFFFF)
    (hv0 : v0 &&& 0x80 = 0) (hv1 : v1 &&& 0x80 = 0) (hv2 : v2 &&& 0x80 = 0)
    (hv3 : v3 &&& 0x80 = 0) (hv4 : v4 &&& 0x80 = 0) :
    let r := nes_mem_writeb s a v
    let s1 := nes_mem_writeb r a0 v0
    let s2 := nes_mem_writeb s1 a1 v1
    let s3 := nes_mem_writeb s2 a2 v2
    let s4 := nes_mem_writeb s3 a3 v3
    let s5 := nes_mem_writeb s4 a4 v4
    let n := (v0 &&& 1) + 2 * (v1 &&& 1) + 4 * (v2 &&& 1) + 8 * (v3 &&& 1) + 16 * (v4 &&& 1)
    (mmc1_extra r).bit = (mmc1_extra s).bit ∧
    (mmc1_extra r).bit_buf = (mmc1_extra s).bit_buf ∧
    (mmc1_extra s5).bit = (mmc1_extra s).bit ∧
    ((mmc1_extra s).bit = 0 → (mmc1_extra s).bit_buf < 32 →
      ((a4 >>> 13) &&& 3 = 0 → (mmc1_extra s5).r0 = n) ∧
      ((a4 >>> 13) &&& 3 = 1 → (mmc1_extra s5).r1 = n) ∧
      ((a4 >>> 13) &&& 3 = 2 → (mmc1_extra s5).r2 = n) ∧
      ((a4 >>> 13) &&& 3 = 3 → (mmc1_extra s5).r3 = n)) := by
  intro r s1 s2 s3 s4 s5 n
  have hr : nes_mem_writeb s a v = nes_mmc1_write_reg s a v :=
    nes_mem_writeb_mmc1_reg s a v hm ha.1
  have c := nes_mmc1_write_reg_reset s a v ha.2 hv
  rw [← hr] at c
  have mr : r.cart.mapper.funcs = .mmc1 := (nes_mem_writeb_funcs s a v).trans hm
  have m1 : s1.cart.mapper.funcs = .mmc1 := (nes_mem_writeb_funcs r a0 v0).trans mr
  have m2 : s2.cart.mapper.funcs = .mmc1 := (nes_mem_writeb_funcs s1 a1 v1).trans m1
  have m3 : s3.cart.mapper.funcs = .mmc1 := (nes_mem_writeb_funcs s2 a2 v2).trans m2
  have m4 : s4.cart.mapper.funcs = .mmc1 := (nes_mem_writeb_funcs s3 a3 v3).trans m3
  have br : (mmc1_extra r).bit = (mmc1_extra s).bit := c.1
  have b1 := mmc1_clear_write_bit r a0 v0 mr ha0 hv0 (by omega)
  have b2 := mmc1_clear_write_bit s1 a1 v1 m1 ha1 hv1 (by rw [b1]; split_ifs <;> omega)
  have b3 := mmc1_clear_write_bit s2 a2 v2 m2 ha2 hv2
    (by rw [b2, b1]; split_ifs <;> omega)
  have b4 := mmc1_clear_write_bit s3 a3 v3 m3 ha3 hv3
    (by rw [b3, b2, b1]; split_ifs <;> omega)
  have b5 := mmc1_clear_write_bit s4 a4 v4 m4 ha4 hv4
    (by rw [b4, b3, b2, b1]; split_ifs <;> omega)
  refine ⟨c.1, c.2.1, ?_, ?_⟩
  · show (mmc1_extra (nes_mem_writeb s4 a4 v4)).bit = _
    rw [b5, b4, b3, b2, b1, br]
    split_ifs <;> omega
  · intro h0 hbuf
    exact (mmc1_five_writes_aux r a0 a1 a2 a3 a4 v0 v1 v2 v3 v4 mr (br.trans h0)
      (by rw [c.2.1]; exact hbuf) ha0 ha1 ha2 ha3 ha4 hv0 hv1 hv2 hv3 hv4).2.2.2.2.2

/-- Instance of the amended C9 on the four-bank MMC1 cartridge with one bit in
the shifter: the write of $80 to $E000 leaves the bit count at 1. -/
theorem mmc1_reset_write_keeps_shifter_witness :
    (mmc1_extra (nes_mem_writeb nes_mmc1_four_banks 0xE000 1)).bit ≤ 4 ∧
    (mmc1_extra (nes_mem_writeb (nes_mem_writeb nes_mmc1_four_banks 0xE000 1) 0xE000 0x80)).bit
      = (mmc1_extra (nes_mem_writeb nes_mmc1_four_banks 0xE000 1)).bit :=
  ⟨by decide, (mmc1_reset_write_keeps_shifter (nes_mem_writeb nes_mmc1_four_banks 0xE000 1)
    0xE000 0x80 0xE000 0xE000 0xE000 0xE000 0xE000 0 1 0 0 0 rfl (by decide)
    (by decide) (by decide) (by decide) (by decide) (by decide) (by decide) (by decide)
    (by decide) (by decide) (by decide) (by decide) (by decide)).1⟩

/-! ## MMC1: PRG bank switching -/

/-- Four writes with bit 7 clear into an empty shifter change nothing but the
shifter. -/
theorem mmc1_four_shifts (s : nes_t) (a0 a1 a2 a3 v0 v1 v2 v3 : Nat)
    (hm : s.cart.mapper.funcs = .mmc1) (hbit : (mmc1_extra s).bit = 0)
    (ha0 : 0x8000 ≤ a0 ∧ a0 ≤ 0xFFFF) (ha1 : 0x8000 ≤ a1 ∧ a1 ≤ 0xFFFF)
    (ha2 : 0x8000 ≤ a2 ∧ a2 ≤ 0xFFFF) (ha3 : 0x8000 ≤ a3 ∧ a3 ≤ 0xFFFF)
    (hv0 : v0 &&& 0x80 = 0) (hv1 : v1 &&& 0x80 = 0) (hv2 : v2 &&& 0x80 = 0)
    (hv3 : v3 &&& 0x80 = 0) :
    nes_mem_writeb (nes_mem_writeb (nes_mem_writeb (nes_mem_writeb s a0 v0) a1 v1) a2 v2) a3 v3 =
      set_mmc1_extra s { mmc1_extra s with
        bit_buf := MMC1_ADDBIT (MMC1_ADDBIT (MMC1_ADDBIT (MMC1_ADDBIT (mmc1_extra s).bit_buf
          (MMC1_GETBIT v0) 0 % 0x100) (MMC1_GETBIT v1) 1 % 0x100) (MMC1_GETBIT v2) 2 % 0x100)
          (MMC1_GETBIT v3) 3 % 0x100
        bit := 4 } := by
  have e1 : nes_mem_writeb s a0 v0 = set_mmc1_extra s { mmc1_extra s with
      bit_buf := MMC1_ADDBIT (mmc1_extra s).bit_buf (MMC1_GETBIT v0) 0 % 0x100, bit := 1 } := by
    rw [nes_mem_writeb_mmc1_shift s a0 v0 hm ha0 hv0 (by omega), hbit]
  have e2 : nes_mem_writeb (set_mmc1_extra s { mmc1_extra s with
      bit_buf := MMC1_ADDBIT (mmc1_extra s).bit_buf (MMC1_GETBIT v0) 0 % 0x100, bit := 1 }) a1 v1 =
      set_mmc1_extra s { mmc1_extra s with
        bit_buf := MMC1_ADDBIT (MMC1_ADDBIT (mmc1_extra s).bit_buf (MMC1_GETBIT v0) 0 % 0x100)
          (MMC1_GETBIT v1) 1 % 0x100, bit := 2 } :=
    nes_mem_writeb_mmc1_shift (set_mmc1_extra s { mmc1_extra s with
      bit_buf := MMC1_ADDBIT (mmc1_extra s).bit_buf (MMC1_GETBIT v0) 0 % 0x100, bit := 1 }) a1 v1
      hm ha1 hv1 (show (1 : Nat) < 4 by omega)
  have e3 : nes_mem_writeb (set_mmc1_extra s { mmc1_extra s with
      bit_buf := MMC1_ADDBIT (MMC1_ADDBIT (mmc1_extra s).bit_buf (MMC1_GETBIT v0) 0 % 0x100)
        (MMC1_GETBIT v1) 1 % 0x100, bit := 2 }) a2 v2 =
      set_mmc1_extra s { mmc1_extra s with
        bit_buf := MMC1_ADDBIT (MMC1_ADDBIT (MMC1_ADDBIT (mmc1_extra s).bit_buf (MMC1_GETBIT v0) 0
          % 0x100) (MMC1_GETBIT v1) 1 % 0x100) (MMC1_GETBIT v2) 2 % 0x100, bit := 3 } :=
    nes_mem_writeb_mmc1_shift (set_mmc1_extra s { mmc1_extra s with
      bit_buf := MMC1_ADDBIT (MMC1_ADDBIT (mmc1_extra s).bit_buf (MMC1_GETBIT v0) 0 % 0x100)
        (MMC1_GETBIT v1) 1 % 0x100, bit := 2 }) a2 v2
      hm ha2 hv2 (show (2 : Nat) < 4 by omega)
  have e4 : nes_mem_writeb (set_mmc1_extra s { mmc1_extra s with
      bit_buf := MMC1_ADDBIT (MMC1_ADDBIT (MMC1_ADDBIT (mmc1_extra s).bit_buf (MMC1_GETBIT v0) 0
        % 0x100) (MMC1_GETBIT v1) 1 % 0x100) (MMC1_GETBIT v2) 2 % 0x100, bit := 3 }) a3 v3 =
      set_mmc1_extra s { mmc1_extra s with
        bit_buf := MMC1_ADDBIT (MMC1_ADDBIT (MMC1_ADDBIT (MMC1_ADDBIT (mmc1_extra s).bit_buf
          (MMC1_GETBIT v0) 0 % 0x100) (MMC1_GETBIT v1) 1 % 0x100) (MMC1_GETBIT v2) 2 % 0x100)
          (MMC1_GETBIT v3) 3 % 0x100
        bit := 4 } :=
    nes_mem_writeb_mmc1_shift (set_mmc1_extra s { mmc1_extra s with
      bit_buf := MMC1_ADDBIT (MMC1_ADDBIT (MMC1_ADDBIT (mmc1_extra s).bit_buf (MMC1_GETBIT v0) 0
        % 0x100) (MMC1_GETBIT v1) 1 % 0x100) (MMC1_GETBIT v2) 2 % 0x100, bit := 3 }) a3 v3
      hm ha3 hv3 (show (3 : Nat) < 4 by omega)
  rw [e1, e2, e3, e4]

/-- The PRG bank pointers after a committing write to the PRG bank register
in the mode with 16 KiB banks switched at $8000. -/
theorem nes_mmc1_write_r3_commit_prg (s : nes_t) (v : Nat) (hv : v &&& 0x80 = 0)
    (hb : ¬ (mmc1_extra s).bit < 4)
    (hlt : MMC1_ADDBIT (mmc1_extra s).bit_buf (MMC1_GETBIT v) (mmc1_extra s).bit % 0x100 <
      s.cart.rom16_count)
    (h8 : (mmc1_extra s).r0 &&& 8 ≠ 0) (h4 : (mmc1_extra s).r0 &&& 4 ≠ 0) :
    (nes_mmc1_write_r3 s v).mem.prg =
      arr_set s.mem.prg 1
        (some (MMC1_ADDBIT (mmc1_extra s).bit_buf (MMC1_GETBIT v) (mmc1_extra s).bit % 0x100)) := by
  unfold nes_mmc1_write_r3
  dsimp only
  rw [if_neg (by simp [MMC1_R3_RESET, hv]), if_neg hb]
  rw [if_neg (by
    show ¬ (s.cart.rom16_count ≤
      MMC1_ADDBIT (mmc1_extra s).bit_buf (MMC1_GETBIT v) (mmc1_extra s).bit % 0x100)
    omega)]
  rw [if_pos (show (mmc1_extra s).r0 &&& MMC1_R0_PRGSIZE ≠ 0 from h8),
    if_pos (show (mmc1_extra s).r0 &&& MMC1_R0_PRGAREA ≠ 0 from h4)]
  rfl

/-- CPU reads of an MMC1 cartridge at $8000-$BFFF go through bank pointer 1,
those at $C000-$FFFF through bank pointer 0. -/
theorem nes_mem_readb_mmc1_prg (s : nes_t) (k : Nat) (hm : s.cart.mapper.funcs = .mmc1)
    (hk : k < 0x4000) :
    (nes_mem_readb s (0x8000 + k)).1 = nes_prg_read s 1 k ∧
    (nes_mem_readb s (0xC000 + k)).1 = nes_prg_read s 0 k := by
  unfold nes_mem_readb
  rw [hm]
  dsimp only
  unfold nes_mem_read_mmc1
  constructor
  · rw [if_neg (by omega), if_neg (by omega), if_neg (by omega), if_neg (by omega),
      if_neg (by omega), if_pos (by omega)]
    show nes_prg_read s 1 (0x8000 + k - 0x8000) = _
    rw [Nat.add_sub_cancel_left]
  · rw [if_neg (by omega), if_neg (by omega), if_neg (by omega), if_neg (by omega),
      if_pos (by omega)]
    show nes_prg_read s 0 (0xC000 + k - 0xC000) = _
    rw [Nat.add_sub_cancel_left]

/-- C10 (counterexample). On the freshly initialised four-bank MMC1 cartridge
whose bank `b` holds the byte `b` everywhere, after the five writes 0,1,0,0,0
to $E000 the PRG bank register is 2, yet a CPU read of $C000 returns 3, the
byte of the last bank, and not 2, the byte 0 of PRG bank 2. -/
theorem mmc1_prg_read_c000_counterexample :
    (mmc1_extra (nes_mem_writeb (nes_mem_writeb (nes_mem_writeb (nes_mem_writeb
      (nes_mem_writeb nes_mmc1_four_banks 0xE000 0) 0xE000 1) 0xE000 0) 0xE000 0)
      0xE000 0)).r3 = 2 ∧
    (nes_mem_readb (nes_mem_writeb (nes_mem_writeb (nes_mem_writeb (nes_mem_writeb
      (nes_mem_writeb nes_mmc1_four_banks 0xE000 0) 0xE000 1) 0xE000 0) 0xE000 0)
      0xE000 0) 0xC000).1 = 3 ∧
    nes_mmc1_four_banks.cart.rom 2 0 = 2 ∧
    (nes_mem_readb (nes_mem_writeb (nes_mem_writeb (nes_mem_writeb (nes_mem_writeb
      (nes_mem_writeb nes_mmc1_four_banks 0xE000 0) 0xE000 1) 0xE000 0) 0xE000 0)
      0xE000 0) 0xC000).1 ≠ nes_mmc1_four_banks.cart.rom 2 0 := by
  decide

/-- C10 (amended). On a freshly initialised MMC1 cartridge with more than 2
PRG banks, after five CPU writes to $E000 with bit 7 clear whose bit-0 values
are 0,1,0,0,0 (PRG bank register = 2), a CPU read of $8000+k returns byte k of
PRG bank 2 for every k < 0x4000, while a read of $C000+k still returns byte k
of the last PRG bank. -/
theorem mmc1_prg_bank_switch (s0 : nes_t) (v0 v1 v2 v3 v4 k : Nat)
    (hm : s0.cart.mapper.funcs = .mmc1) (hc : 2 < s0.cart.rom16_count)
    (hv0 : v0 &&& 0x80 = 0 ∧ v0 &&& 1 = 0) (hv1 : v1 &&& 0x80 = 0 ∧ v1 &&& 1 = 1)
    (hv2 : v2 &&& 0x80 = 0 ∧ v2 &&& 1 = 0) (hv3 : v3 &&& 0x80 = 0 ∧ v3 &&& 1 = 0)
    (hv4 : v4 &&& 0x80 = 0 ∧ v4 &&& 1 = 0) (hk : k < 0x4000) :
    let s5 := nes_mem_writeb (nes_mem_writeb (nes_mem_writeb (nes_mem_writeb
      (nes_mem_writeb (nes_mapper_init s0) 0xE000 v0) 0xE000 v1) 0xE000 v2) 0xE000 v3) 0xE000 v4
    (mmc1_extra s5).r3 = 2 ∧
    (nes_mem_readb s5 (0x8000 + k)).1 = s0.cart.rom 2 k ∧
    (nes_mem_readb s5 (0xC000 + k)).1 = s0.cart.rom (s0.cart.rom16_count - 1) k := by
  intro s5
  have hi : nes_mapper_init s0 = nes_init_mmc1 s0 := by
    unfold nes_mapper_init
    rw [hm]
  have hE : (0x8000 : Nat) ≤ 0xE000 ∧ 0xE000 ≤ 0xFFFF := by omega
  have hs4 := mmc1_four_shifts (nes_init_mmc1 s0) 0xE000 0xE000 0xE000 0xE000 v0 v1 v2 v3
    hm rfl hE hE hE hE hv0.1 hv1.1 hv2.1 hv3.1
  have hs5 : s5 = nes_mmc1_write_r3 (set_mmc1_extra (nes_init_mmc1 s0)
      { mmc1_extra (nes_init_mmc1 s0) with bit_buf := 2, bit := 4 }) v4 := by
    show nes_mem_writeb (nes_mem_writeb (nes_mem_writeb (nes_mem_writeb
      (nes_mem_writeb (nes_mapper_init s0) 0xE000 v0) 0xE000 v1) 0xE000 v2) 0xE000 v3)
      0xE000 v4 = _
    rw [hi, hs4]
    rw [nes_mem_writeb_mmc1_reg _ 0xE000 v4
      (show (set_mmc1_extra (nes_init_mmc1 s0) _).cart.mapper.funcs = .mmc1 from hm) (by omega)]
    unfold nes_mmc1_write_reg
    rw [if_neg (by omega), if_neg (by omega), if_neg (by omega), if_pos (by omega)]
    have g0 : MMC1_GETBIT v0 = 0 := hv0.2
    have g1 : MMC1_GETBIT v1 = 1 := hv1.2
    have g2 : MMC1_GETBIT v2 = 0 := hv2.2
    have g3 : MMC1_GETBIT v3 = 0 := hv3.2
    rw [g0, g1, g2, g3]
    have hb0 : (mmc1_extra (nes_init_mmc1 s0)).bit_buf = 0 := rfl
    rw [hb0]
    have hB : MMC1_ADDBIT (MMC1_ADDBIT (MMC1_ADDBIT (MMC1_ADDBIT 0 0 0 % 0x100) 1 1 % 0x100) 0 2
        % 0x100) 0 3 % 0x100 = 2 := by decide
    rw [hB]
  have hx := nes_mmc1_write_r3_commit (set_mmc1_extra (nes_init_mmc1 s0)
      { mmc1_extra (nes_init_mmc1 s0) with bit_buf := 2, bit := 4 }) v4 hv4.1
      (show ¬ (4 : Nat) < 4 by omega)
  have hg : MMC1_ADDBIT 2 (MMC1_GETBIT v4) 4 % 0x100 = 2 := by
    have g4 : MMC1_GETBIT v4 = 0 := hv4.2
    rw [g4]
    decide
  have hp := nes_mmc1_write_r3_commit_prg (set_mmc1_extra (nes_init_mmc1 s0)
      { mmc1_extra (nes_init_mmc1 s0) with bit_buf := 2, bit := 4 }) v4 hv4.1
      (show ¬ (4 : Nat) < 4 by omega)
      (by
        show MMC1_ADDBIT 2 (MMC1_GETBIT v4) 4 % 0x100 < s0.cart.rom16_count
        rw [hg]; exact hc)
      (show (0x0C : Nat) &&& 8 ≠ 0 by decide) (show (0x0C : Nat) &&& 4 ≠ 0 by decide)
  have hf := nes_mmc1_write_reg_frame (set_mmc1_extra (nes_init_mmc1 s0)
      { mmc1_extra (nes_init_mmc1 s0) with bit_buf := 2, bit := 4 }) 0xE000 v4
  have hw : nes_mmc1_write_reg (set_mmc1_extra (nes_init_mmc1 s0)
      { mmc1_extra (nes_init_mmc1 s0) with bit_buf := 2, bit := 4 }) 0xE000 v4 = s5 := by
    rw [hs5]
    unfold nes_mmc1_write_reg
    rw [if_neg (by omega), if_neg (by omega), if_neg (by omega), if_pos (by omega)]
  rw [hw] at hf
  have m5 : s5.cart.mapper.funcs = .mmc1 := hf.2.2.2.2.2.1.trans hm
  have r5 : s5.cart.rom = s0.cart.rom := hf.2.2.2.2.2.2.2.1
  have p5 : s5.mem.prg = arr_set (arr_set (arr_set s0.mem.prg 0
      (some (s0.cart.rom16_count - 1))) 1 (some 0)) 1 (some 2) := by
    rw [hs5, hp]
    show arr_set (nes_init_mmc1 s0).mem.prg 1 (some (MMC1_ADDBIT 2 (MMC1_GETBIT v4) 4 % 0x100)) = _
    rw [hg]
    unfold nes_init_mmc1
    dsimp only
    rw [if_pos (show (set_mmc1_extra s0 _).cart.rom16_count ≠ 0 from by
      show s0.cart.rom16_count ≠ 0
      omega)]
    rfl
  have hrd := nes_mem_readb_mmc1_prg s5 k m5 hk
  refine ⟨?_, ?_, ?_⟩
  · rw [hs5, hx]
    exact hg
  · rw [hrd.1]
    unfold nes_prg_read
    rw [p5, r5]
    rfl
  · rw [hrd.2]
    unfold nes_prg_read
    rw [p5, r5]
    rfl

/-- Instance of the amended C10 on the four-bank MMC1 cartridge: $8000 reads
bank 2 and $C000 reads bank 3. -/
theorem mmc1_prg_bank_switch_witness :
    (2 < 4) ∧
    (nes_mem_readb (nes_mem_writeb (nes_mem_writeb (nes_mem_writeb (nes_mem_writeb
      (nes_mem_writeb nes_mmc1_four_banks 0xE000 0) 0xE000 1) 0xE000 0) 0xE000 0)
      0xE000 0) 0x8000).1 = 2 :=
  ⟨by decide, (mmc1_prg_bank_switch
    { nes_blank with cart := { nes_blank.cart with
        mapper := ⟨.mmc1, .word 0⟩, rom16_count := 4, rom := fun b _ => b } }
    0 1 0 0 0 0 rfl (by decide) (by decide) (by decide) (by decide) (by decide) (by decide)
    (by decide)).2.1⟩

/-! ## NROM: CPU writes to $8000-$FFFF -/

/-- A PRG-RAM write at index 0x2000 or more lands after the array. -/
theorem nes_prgram_write_past (s : nes_t) (i v : Nat) (h : 0x2000 ≤ i) :
    (nes_prgram_write s i v).mem.past_prgram (i - 0x2000) = v := by
  unfold nes_prgram_write
  rw [if_neg (by omega)]
  simp [arr_set]

/-- The NROM write function passes every address from $6000 up, those in
$8000-$FFFF included, to `nes_prgram_write`. -/
theorem nes_mem_write_nrom_high (irq : nes_t → nes_t) (s : nes_t) (a v : Nat)
    (ha : 0x8000 ≤ a) :
    nes_mem_write_nrom irq s a v = nes_prgram_write s (a - 0x6000) v := by
  unfold nes_mem_write_nrom
  rw [if_neg (by omega), if_neg (by omega), if_neg (by omega), if_neg (by omega),
    if_neg (by omega), if_pos (by omega)]

/-- On an NROM cartridge a CPU write to $8000-$FFFF stores the byte after the
PRG-RAM array. -/
theorem nes_mem_write_nrom_past_prgram (irq : nes_t → nes_t) (s : nes_t) (a v : Nat)
    (ha : 0x8000 ≤ a) :
    (nes_mem_write_nrom irq s a v).mem.past_prgram (a - 0x8000) = v := by
  have h := nes_prgram_write_past s (a - 0x6000) v (by omega)
  rw [show a - 0x6000 - 0x2000 = a - 0x8000 by omega] at h
  rw [nes_mem_write_nrom_high irq s a v ha]
  exact h
/-- C2. On the blank NROM machine the CPU write of $FF to $8000 is not
ignored: `nes_mem_write_nrom` passes index 0x2000 to `nes_prgram_write`, and
the byte right after the 8 KiB PRG-RAM array, 0 before the write, is $FF after
it. -/
theorem nrom_write_8000_changes_state :
    nes_blank.cart.mapper.funcs = .nrom ∧
    nes_blank.mem.past_prgram 0 = 0 ∧
    (nes_mem_write_nrom nes_cpu_irq_inner nes_blank 0x8000 0xFF).mem.past_prgram 0 = 0xFF ∧
    (nes_mem_writeb nes_blank 0x8000 0xFF).mem.past_prgram 0 = 0xFF ∧
    nes_mem_writeb nes_blank 0x8000 0xFF ≠ nes_blank := by
  have h1 : (nes_mem_writeb nes_blank 0x8000 0xFF).mem.past_prgram 0 = 0xFF := by decide
  refine ⟨rfl, rfl, by decide, h1, ?_⟩
  intro h
  have h2 := congrArg (fun t : nes_t => t.mem.past_prgram 0) h
  have h3 : (nes_mem_writeb nes_blank 0x8000 0xFF).mem.past_prgram 0 = 0 := h2
  rw [h1] at h3
  exact absurd h3 (by decide)

/-! ## Palette mirroring -/

/-- C4. For each mapper's PPU read/write pair (NROM, MMC1, CNROM, MMC3), every
`i` in {0x10, 0x14, 0x18, 0x1C} and every byte `b`: after a PPU write of `b` to
palette address $3F00+i a PPU read of $3F00+(i-0x10) returns `b`, and after a
PPU write of `b` to $3F00+(i-0x10) a PPU read of $3F00+i returns `b`. -/
theorem palette_alias_bidirectional (s : nes_t) (i b : Nat)
    (hi : i = 0x10 ∨ i = 0x14 ∨ i = 0x18 ∨ i = 0x1C) :
    (nes_vmem_read_nrom (nes_vmem_write_nrom s (0x3F00 + i) b) (0x3F00 + (i - 0x10)) = b ∧
     nes_vmem_read_nrom (nes_vmem_write_nrom s (0x3F00 + (i - 0x10)) b) (0x3F00 + i) = b) ∧
    (nes_vmem_read_mmc1 (nes_vmem_write_mmc1 s (0x3F00 + i) b) (0x3F00 + (i - 0x10)) = b ∧
     nes_vmem_read_mmc1 (nes_vmem_write_mmc1 s (0x3F00 + (i - 0x10)) b) (0x3F00 + i) = b) ∧
    (nes_vmem_read_cnrom (nes_vmem_write_cnrom s (0x3F00 + i) b) (0x3F00 + (i - 0x10)) = b ∧
     nes_vmem_read_cnrom (nes_vmem_write_cnrom s (0x3F00 + (i - 0x10)) b) (0x3F00 + i) = b) ∧
    (nes_vmem_read_mmc3 (nes_vmem_write_mmc3 s (0x3F00 + i) b) (0x3F00 + (i - 0x10)) = b ∧
     nes_vmem_read_mmc3 (nes_vmem_write_mmc3 s (0x3F00 + (i - 0x10)) b) (0x3F00 + i) = b) := by
  rcases hi with h | h | h | h <;> subst h <;>
    simp +decide [nes_vmem_read_nrom, nes_vmem_write_nrom, nes_vmem_read_mmc1, nes_vmem_write_mmc1,
      nes_vmem_read_cnrom, nes_vmem_write_cnrom, nes_vmem_read_mmc3, nes_vmem_write_mmc3,
      arr_set]

/-- Instance of C4 on the blank machine: the byte $2A written to $3F10 is read
back from $3F00 through the NROM pair. -/
theorem palette_alias_bidirectional_witness :
    ((0x10 : Nat) = 0x10 ∨ (0x10 : Nat) = 0x14 ∨ (0x10 : Nat) = 0x18 ∨ (0x10 : Nat) = 0x1C) ∧
    nes_vmem_read_nrom (nes_vmem_write_nrom nes_blank (0x3F00 + 0x10) 0x2A)
      (0x3F00 + (0x10 - 0x10)) = 0x2A :=
  ⟨Or.inl rfl, (palette_alias_bidirectional nes_blank 0x10 0x2A (Or.inl rfl)).1.1⟩

/-! ## OAM DMA -/

/-- On every mapper a CPU write to $4014 is an OAM DMA. -/
theorem nes_mem_writeb_4014 (s : nes_t) (p : Nat) :
    nes_mem_writeb s 0x4014 p = nes_ppu_oamdma s p := by
  unfold nes_mem_writeb nes_mem_writeb_with
  split
  · unfold nes_mem_write_nrom
    rw [if_neg (by omega), if_neg (by omega), if_pos rfl]
  · unfold nes_mem_write_mmc1
    rw [if_neg (by omega), if_neg (by omega), if_pos rfl]
  · unfold nes_mem_write_cnrom
    rw [if_neg (by omega), if_neg (by omega), if_pos rfl]
  · unfold nes_mem_write_mmc3
    rw [if_neg (by omega), if_neg (by omega), if_pos rfl]

/-- The copy loop of the OAM DMA over a source range inside CPU RAM: where the
OAM address ends, what the bytes written hold, and that no other byte of OAM
changes. -/
theorem nes_ppu_oamdma_loop_ram (n : Nat) (t : nes_t) (a : Nat)
    (ha : a + n ≤ 0x2000) (hn : n ≤ 256) (ho : t.ppu.oam_addr < 0x100) :
    (nes_ppu_oamdma_loop n t a).ppu.oam_addr = (t.ppu.oam_addr + n) % 0x100 ∧
    (∀ i, i < n → (nes_ppu_oamdma_loop n t a).vmem.oam ((t.ppu.oam_addr + i) % 0x100) =
      t.mem.ram ((a + i) &&& 0x07FF)) ∧
    (∀ j, (∀ i, i < n → j ≠ (t.ppu.oam_addr + i) % 0x100) →
      (nes_ppu_oamdma_loop n t a).vmem.oam j = t.vmem.oam j) := by
  induction n generalizing t a with
  | zero =>
    refine ⟨?_, ?_, ?_⟩
    · show t.ppu.oam_addr = (t.ppu.oam_addr + 0) % 0x100
      omega
    · intro i hi
      omega
    · intro j _
      rfl
  | succ n ih =>
    unfold nes_ppu_oamdma_loop
    dsimp only
    rw [nes_mem_readb_ram t a (by omega)]
    dsimp only
    rw [show (a + 1) % 0x10000 = a + 1 by omega]
    have h := ih
      { t with
        vmem := { t.vmem with oam := arr_set t.vmem.oam t.ppu.oam_addr (t.mem.ram (a &&& 0x07FF)) }
        ppu := { t.ppu with oam_addr := (t.ppu.oam_addr + 1) % 0x100 } }
      (a + 1) (by omega) (by omega) (Nat.mod_lt _ (by omega))
    dsimp only at h
    refine ⟨?_, ?_, ?_⟩
    · rw [h.1]
      omega
    · intro i hi
      rcases Nat.eq_zero_or_pos i with h0 | hpos
      · subst h0
        rw [h.2.2 ((t.ppu.oam_addr + 0) % 0x100) (by intro i' hi'; omega)]
        rw [show (t.ppu.oam_addr + 0) % 0x100 = t.ppu.oam_addr by omega, arr_set_same]
        rfl
      · have h2 := h.2.1 (i - 1) (by omega)
        rw [show ((t.ppu.oam_addr + 1) % 0x100 + (i - 1)) % 0x100 = (t.ppu.oam_addr + i) % 0x100
          by omega, show a + 1 + (i - 1) = a + i by omega] at h2
        exact h2
    · intro j hj
      rw [h.2.2 j (by
        intro i' hi'
        have := hj (i' + 1) (by omega)
        omega)]
      have h0 := hj 0 (by omega)
      exact arr_set_other _ _ _ _ (by omega)

/-- The OAM DMA touches video memory and the PPU registers only through its
copy loop. -/
theorem nes_ppu_oamdma_vmem_ppu (s : nes_t) (p : Nat) :
    (nes_ppu_oamdma s p).vmem = (nes_ppu_oamdma_loop 256 s ((p * 0x100) % 0x10000)).vmem ∧
    (nes_ppu_oamdma s p).ppu = (nes_ppu_oamdma_loop 256 s ((p * 0x100) % 0x10000)).ppu := by
  unfold nes_ppu_oamdma
  dsimp only
  exact ⟨rfl, rfl⟩

/-- C3. For every page `p` in CPU RAM (`p < $20`, so the 256 source reads have
no side effects) and every starting `oam_addr`, on every mapper, a CPU write of
`p` to $4014 leaves `oam[(oam_addr + i) mod 256]` equal to what the CPU read
at `(p << 8) + i` before the write, for every `i` in 0..255, leaves `oam_addr`
equal to its starting value, and increases `cpu.stall` (a 64-bit counter) by
513 when `cpu.cycle` is even and by 514 when it is odd. -/
theorem oamdma_copies_page (s : nes_t) (p : Nat) (hp : p < 0x20)
    (ho : s.ppu.oam_addr < 0x100) :
    (∀ i, i < 256 → (nes_mem_writeb s 0x4014 p).vmem.oam ((s.ppu.oam_addr + i) % 0x100) =
      (nes_mem_readb s ((p <<< 8) + i)).1) ∧
    (nes_mem_writeb s 0x4014 p).ppu.oam_addr = s.ppu.oam_addr ∧
    (nes_mem_writeb s 0x4014 p).cpu.stall =
      (s.cpu.stall + (if s.cpu.cycle % 2 = 0 then 513 else 514)) % 0x10000000000000000 := by
  have hl := nes_ppu_oamdma_loop_ram 256 s ((p * 0x100) % 0x10000) (by omega) (le_refl _) ho
  have hf := nes_ppu_oamdma_frame s p
  have hv := nes_ppu_oamdma_vmem_ppu s p
  rw [nes_mem_writeb_4014]
  have hsh : p <<< 8 = p * 0x100 := by rw [Nat.shiftLeft_eq]
  have ea : (p * 0x100) % 0x10000 = p * 0x100 := by omega
  refine ⟨?_, ?_, ?_⟩
  · intro i hi
    rw [hv.1, hl.2.1 i hi, ea, hsh, nes_mem_readb_ram s _ (by omega)]
  · rw [hv.2, hl.1]
    omega
  · rw [hf.1]
    show (s.cpu.stall + (513 + (s.cpu.cycle &&& 0x01))) % 0x10000000000000000 = _
    rw [Nat.and_one_is_mod]
    split_ifs with h
    · rw [h]
    · rw [show s.cpu.cycle % 2 = 1 by omega]

/-- Instance of C3 on the blank machine: page 0, OAM address 0. -/
theorem oamdma_copies_page_witness :
    (0 : Nat) < 0x20 ∧ nes_blank.ppu.oam_addr < 0x100 ∧
    (nes_mem_writeb nes_blank 0x4014 0).ppu.oam_addr = nes_blank.ppu.oam_addr ∧
    (nes_mem_writeb nes_blank 0x4014 0).cpu.stall = 513 :=
  ⟨by decide, by decide, (oamdma_copies_page nes_blank 0 (by decide) (by decide)).2.1,
    (oamdma_copies_page nes_blank 0 (by decide) (by decide)).2.2.trans (by decide)⟩

/-! ## The stack -/

/-- On every mapper a CPU write below $2000 is a store to CPU RAM. -/
theorem nes_mem_writeb_ram (s : nes_t) (a v : Nat) (h : a < 0x2000) :
    nes_mem_writeb s a v = nes_ram_write s (a &&& 0x07FF) v := by
  unfold nes_mem_writeb nes_mem_writeb_with
  split
  · unfold nes_mem_write_nrom
    rw [if_pos h]
  · unfold nes_mem_write_mmc1
    rw [if_pos h]
  · unfold nes_mem_write_cnrom
    rw [if_pos h]
  · unfold nes_mem_write_mmc3
    rw [if_pos h]

/-- The stack address of a stack pointer byte. -/
theorem stack_addr (x : Nat) (hx : x < 0x100) : 0x100 ||| x = 0x100 + x := by
  have h := @Nat.mul_add_lt_is_or 8 x (by omega) 1
  rw [show 2 ^ 8 * 1 = 0x100 by norm_num] at h
  exact h.symm

/-- Pushing a byte: the store to RAM and the stack pointer afterwards. -/
theorem nes_pushb_ram (s : nes_t) (v : Nat) (hs : s.cpu.s < 0x100) :
    nes_pushb s v =
      { s with
        mem := { s.mem with ram := arr_set s.mem.ram (0x100 + s.cpu.s) v }
        cpu := { s.cpu with s := (s.cpu.s + 0x100 - 1) % 0x100 } } := by
  unfold nes_pushb nes_pushb_with
  dsimp only
  rw [stack_addr _ hs, nes_mem_writeb_ram s _ v (by omega)]
  have hm : (0x100 + s.cpu.s) &&& 0x07FF = 0x100 + s.cpu.s := by
    rw [show (0x07FF : Nat) = 2 ^ 11 - 1 by norm_num, Nat.and_pow_two_sub_one_eq_mod]
    omega
  rw [hm]
  rfl

/-- Popping a byte: the value read from RAM and the state afterwards. -/
theorem nes_popb_ram (s : nes_t) :
    nes_popb s =
      (s.mem.ram (0x100 + (s.cpu.s + 1) % 0x100),
        { s with cpu := { s.cpu with s := (s.cpu.s + 1) % 0x100 } }) := by
  unfold nes_popb
  dsimp only
  rw [Nat.mod_mod, stack_addr _ (Nat.mod_lt _ (by omega)), nes_mem_readb_ram _ _ (by omega)]
  have hm : (0x100 + (s.cpu.s + 1) % 0x100) &&& 0x07FF = 0x100 + (s.cpu.s + 1) % 0x100 := by
    rw [show (0x07FF : Nat) = 2 ^ 11 - 1 by norm_num, Nat.and_pow_two_sub_one_eq_mod]
    omega
  rw [hm]

/-- Setting Z and N changes no register but P. -/
theorem nes_cpu_set_zn_frame (s : nes_t) (v : Nat) :
    (nes_cpu_set_zn s v).cpu.a = s.cpu.a ∧ (nes_cpu_set_zn s v).cpu.s = s.cpu.s :=
  ⟨rfl, rfl⟩

/-- What PHP followed by PLP does to a status byte. -/
theorem php_plp_byte (p : Nat) (hp : p < 0x100) :
    (((p ||| 0x10) % 0x100 ||| 0x30) - 0x10) % 0x100 = (p ||| 0x20) &&& 0xEF := by
  interval_cases p <;> rfl

/-- C6. The stack page is in CPU RAM on every mapper, and for every CPU state
(the registers being bytes): PHA followed by PLA leaves A and S unchanged, and
PHP followed by PLP leaves S unchanged and leaves P equal to its original
value except that bit 5 is set and bit 4 (B) is clear. -/
theorem push_pop_identity (s : nes_t) (hs : s.cpu.s < 0x100) (ha : s.cpu.a < 0x100)
    (hp : s.cpu.p < 0x100) :
    (nes_op_pla (nes_op_pha s)).cpu.a = s.cpu.a ∧
    (nes_op_pla (nes_op_pha s)).cpu.s = s.cpu.s ∧
    (nes_op_plp (nes_op_php s)).cpu.s = s.cpu.s ∧
    (nes_op_plp (nes_op_php s)).cpu.p = (s.cpu.p ||| 0x20) &&& 0xEF := by
  have hsp : ((s.cpu.s + 0x100 - 1) % 0x100 + 1) % 0x100 = s.cpu.s := by omega
  have e1 : nes_op_pla (nes_op_pha s) =
      nes_cpu_set_zn
        { s with
          mem := { s.mem with ram := arr_set s.mem.ram (0x100 + s.cpu.s) s.cpu.a }
          cpu := { s.cpu with s := s.cpu.s, a := s.cpu.a } } s.cpu.a := by
    unfold nes_op_pla nes_op_pha
    rw [nes_pushb_ram s _ hs, nes_popb_ram]
    dsimp only
    rw [hsp, arr_set_same, Nat.mod_eq_of_lt ha]
  have e2 : nes_op_plp (nes_op_php s) =
      { s with
        mem := { s.mem with
          ram := arr_set s.mem.ram (0x100 + s.cpu.s) ((s.cpu.p ||| FLAG_MASK_B) % 0x100) }
        cpu := { s.cpu with s := s.cpu.s, p := (s.cpu.p ||| 0x20) &&& 0xEF } } := by
    unfold nes_op_plp nes_op_php
    rw [nes_pushb_ram s _ hs, nes_popb_ram]
    dsimp only
    rw [hsp, arr_set_same]
    have hb := php_plp_byte s.cpu.p hp
    unfold FLAG_MASK_B
    rw [hb]
  rw [e1, e2]
  exact ⟨rfl, rfl, rfl, rfl⟩

/-- Instance of C6 on the blank machine with A = $5A, S = $FD, P = $D3. -/
theorem push_pop_identity_witness :
    (nes_op_pla (nes_op_pha
      { nes_blank with cpu := { nes_blank.cpu with a := 0x5A, s := 0xFD, p := 0xD3 } })).cpu.a
      = 0x5A ∧
    (nes_op_plp (nes_op_php
      { nes_blank with cpu := { nes_blank.cpu with a := 0x5A, s := 0xFD, p := 0xD3 } })).cpu.p
      = 0xE3 :=
  ⟨(push_pop_identity
      { nes_blank with cpu := { nes_blank.cpu with a := 0x5A, s := 0xFD, p := 0xD3 } }
      (by decide) (by decide) (by decide)).1,
    (push_pop_identity
      { nes_blank with cpu := { nes_blank.cpu with a := 0x5A, s := 0xFD, p := 0xD3 } }
      (by decide) (by decide) (by decide)).2.2.2.trans (by decide)⟩

/-! ## Indirect jump -/

/-- Opcode $6C is the indirect jump. -/
theorem nes_cpu_op_switch_6C (s : nes_t) : nes_cpu_op_switch 0x6C s = nes_op_jmi s := rfl

/-- The address of the high byte of an indirect jump through $xxFF. -/
theorem jmi_hi_addr (xx : Nat) (hxx : xx < 0x100) :
    ((xx * 0x100 + 0xFF) &&& 0xFF00) ||| ((xx * 0x100 + 0xFF + 1) &&& 0x00FF) = xx * 0x100 := by
  interval_cases xx <;> rfl

/-- C7. For every machine state, with `addr` the 16-bit operand fetched at PC,
JMP (addr) (opcode $6C) sets PC to the word whose low byte is read from `addr`
and whose high byte is read from `(addr & 0xFF00) | ((addr + 1) & 0x00FF)`; in
particular for `addr = $xxFF` the high byte is read from `$xx00`, which is not
the address `addr + 1` of the first byte of the next page. -/
theorem jmi_page_wrap (s : nes_t) (xx : Nat) (hxx : xx < 0x100) :
    (nes_cpu_op_switch 0x6C s).cpu.pc =
      (((nes_mem_readb (nes_mem_readb (nes_mem_read_nextw s).2 (nes_mem_read_nextw s).1).2
          (((nes_mem_read_nextw s).1 &&& 0xFF00) |||
            (((nes_mem_read_nextw s).1 + 1) &&& 0x00FF))).1 <<< 8) % 0x10000) |||
        (nes_mem_readb (nes_mem_read_nextw s).2 (nes_mem_read_nextw s).1).1 ∧
    ((nes_mem_read_nextw s).1 = xx * 0x100 + 0xFF →
      (nes_cpu_op_switch 0x6C s).cpu.pc =
        (((nes_mem_readb (nes_mem_readb (nes_mem_read_nextw s).2 (xx * 0x100 + 0xFF)).2
            (xx * 0x100)).1 <<< 8) % 0x10000) |||
          (nes_mem_readb (nes_mem_read_nextw s).2 (xx * 0x100 + 0xFF)).1 ∧
      xx * 0x100 ≠ (xx * 0x100 + 0xFF + 1) % 0x10000) := by
  have h1 : (nes_cpu_op_switch 0x6C s).cpu.pc =
      (((nes_mem_readb (nes_mem_readb (nes_mem_read_nextw s).2 (nes_mem_read_nextw s).1).2
          (((nes_mem_read_nextw s).1 &&& 0xFF00) |||
            (((nes_mem_read_nextw s).1 + 1) &&& 0x00FF))).1 <<< 8) % 0x10000) |||
        (nes_mem_readb (nes_mem_read_nextw s).2 (nes_mem_read_nextw s).1).1 := by
    rw [nes_cpu_op_switch_6C]
    unfold nes_op_jmi nes_jmi_addr
    rfl
  refine ⟨h1, ?_⟩
  intro h
  refine ⟨?_, by omega⟩
  rw [h1, h, jmi_hi_addr xx hxx]

/-- Instance of C7: JMP ($02FF) with $34 at $02FF, $12 at $0200 and $56 at
$0300 jumps to $1234. -/
theorem jmi_page_wrap_witness :
    (nes_mem_read_nextw nes_jmi_example).1 = 2 * 0x100 + 0xFF ∧
    (nes_cpu_op_switch 0x6C nes_jmi_example).cpu.pc = 0x1234 :=
  ⟨by decide, ((jmi_page_wrap nes_jmi_example 2 (by decide)).2 (by decide)).1.trans (by decide)⟩

/-! ## PPUSTATUS: the status byte in the states the program reaches

The code never sets bit 7 of `ppu.status`: the vblank state is the NMI flag of
`ppu.flags`.  Every function that reaches the PPU keeps `ppu.status` below
$80. -/

theorem nes_ppu_nmi_update_ppu (s : nes_t) :
    (nes_ppu_nmi_update s).ppu.status = s.ppu.status ∧
    (nes_ppu_nmi_update s).ppu.flags = s.ppu.flags ∧
    (nes_ppu_nmi_update s).ppu.bus = s.ppu.bus := by
  unfold nes_ppu_nmi_update
  dsimp only
  split_ifs <;> exact ⟨rfl, rfl, rfl⟩

theorem nes_ppu_read_status (s : nes_t) (r : Nat) :
    (nes_ppu_read s r).2.ppu.status = s.ppu.status := by
  unfold nes_ppu_read
  split
  · rfl
  · rfl
  · exact (nes_ppu_nmi_update_ppu _).1
  · rfl
  · rfl
  · rfl
  · rfl
  · dsimp only
    split_ifs <;> rfl
  · rfl

theorem nes_mem_readb_status (s : nes_t) (a : Nat) :
    (nes_mem_readb s a).2.ppu.status = s.ppu.status :=
  nes_mem_readb_cases (fun t => t.ppu.status = s.ppu.status) s a rfl
    (congrArg nes_ppu_t.status (nes_input_read_frame s (a - 0x4016)).2.2.2.2.1)
    (nes_ppu_read_status s (a &&& 0x0007))

theorem nes_ppu_write_status (s : nes_t) (r v : Nat) :
    (nes_ppu_write s r v).ppu.status = s.ppu.status := by
  have hv := (nes_vmem_writeb_frame (nes_ppu_refresh_bus s v)
    (nes_ppu_refresh_bus s v).ppu.vmem_addr v).2.2.2.1
  have hn := (nes_ppu_nmi_update_ppu
    { nes_ppu_refresh_bus s v with ppu := { (nes_ppu_refresh_bus s v).ppu with ctrl := v } }).1
  unfold nes_ppu_write
  split
  · dsimp only
    exact hn
  · rfl
  · rfl
  · rfl
  · rfl
  · dsimp only; split_ifs <;> rfl
  · dsimp only; split_ifs <;> rfl
  · dsimp only
    rw [hv]
    rfl
  · rfl

theorem nes_ppu_oamdma_loop_status (n : Nat) (s : nes_t) (a : Nat) :
    (nes_ppu_oamdma_loop n s a).ppu.status = s.ppu.status := by
  induction n generalizing s a with
  | zero => rfl
  | succ n ih =>
    unfold nes_ppu_oamdma_loop
    dsimp only
    exact (ih _ _).trans (nes_mem_readb_status s a)

theorem nes_ppu_oamdma_status (s : nes_t) (p : Nat) :
    (nes_ppu_oamdma s p).ppu.status = s.ppu.status :=
  (congrArg nes_ppu_t.status (nes_ppu_oamdma_vmem_ppu s p).2).trans
    (nes_ppu_oamdma_loop_status 256 s _)

theorem nes_mem_writeb_with_status (irq : nes_t → nes_t) (s : nes_t) (a v : Nat) :
    (nes_mem_writeb_with irq s a v).ppu.status = s.ppu.status :=
  nes_mem_writeb_with_cases irq (fun t => t.ppu.status = s.ppu.status) s a v rfl rfl
    (nes_ppu_write_status s (a &&& 0x0007) v) (nes_ppu_oamdma_status s v)
    (congrArg nes_ppu_t.status (nes_input_write_frame s (a - 0x4016) v).2.2.2.1)
    (congrArg nes_ppu_t.status (nes_apu_write_frame irq s (a - 0x4000) v).2.2.1)
    (congrArg nes_ppu_t.status (nes_prgram_write_frame s (a - 0x6000) v).2.2.1)
    (congrArg nes_ppu_t.status (nes_mmc1_write_reg_frame s a v).2.2.1)
    (congrArg nes_ppu_t.status (nes_mmc3_write_frame s a v).2.2.1) rfl

theorem nes_mem_writeb_status (s : nes_t) (a v : Nat) :
    (nes_mem_writeb s a v).ppu.status = s.ppu.status :=
  nes_mem_writeb_with_status _ s a v

theorem nes_pushb_status (s : nes_t) (v : Nat) : (nes_pushb s v).ppu.status = s.ppu.status := by
  unfold nes_pushb nes_pushb_with
  exact nes_mem_writeb_status s _ v

theorem nes_pushw_status (s : nes_t) (v : Nat) : (nes_pushw s v).ppu.status = s.ppu.status := by
  have h1 := nes_pushb_status s ((v >>> 8) &&& 0xFF)
  have h2 := nes_pushb_status (nes_pushb s ((v >>> 8) &&& 0xFF)) (v &&& 0xFF)
  exact h2.trans h1

theorem nes_mem_readw_status (s : nes_t) (a : Nat) :
    (nes_mem_readw s a).2.ppu.status = s.ppu.status := by
  unfold nes_mem_readw
  dsimp only
  rw [nes_mem_readb_status, nes_mem_readb_status]

theorem nes_cpu_nmi_status (s : nes_t) : (nes_cpu_nmi s).ppu.status = s.ppu.status := by
  unfold nes_cpu_nmi
  dsimp only
  rw [nes_mem_readw_status]
  show (nes_pushb (nes_pushw s s.cpu.pc) (nes_pushw s s.cpu.pc).cpu.p).ppu.status = _
  rw [nes_pushb_status, nes_pushw_status]

theorem nes_ppu_clock_status (s : nes_t) : (nes_ppu_clock s).ppu.status = s.ppu.status := by
  have hc : ∀ p : nes_ppu_t, (nes_ppu_clock_count p).status = p.status := by
    intro p
    unfold nes_ppu_clock_count
    dsimp only
    split_ifs <;> rfl
  have hn : (nes_ppu_clock_nmi s).ppu.status = s.ppu.status := by
    unfold nes_ppu_clock_nmi
    dsimp only
    split_ifs
    · exact nes_cpu_nmi_status _
    · rfl
    · rfl
  unfold nes_ppu_clock
  dsimp only
  rw [hc, hn]

/-- Setting the sprite-0-hit or the sprite-overflow bit keeps the status byte
below $80. -/
theorem status_set_lt (x f : Nat) (hx : x < 0x80) (hf : f = 5 ∨ f = 6) :
    BITSET x f % 0x100 < 0x80 := by
  rcases hf with h | h <;> subst h <;> interval_cases x <;> decide

/-- Clearing a bit keeps the status byte below $80. -/
theorem status_clr_lt (x f : Nat) (hx : x < 0x80) : BITCLR x f % 0x100 < 0x80 := by
  have h : BITCLR x f ≤ x := Nat.and_le_left
  have h2 := Nat.mod_le (BITCLR x f) 0x100
  omega

theorem nes_ppu_render_pixel_status (s : nes_t) (h : s.ppu.status < 0x80) :
    (nes_ppu_render_pixel s).ppu.status < 0x80 := by
  unfold nes_ppu_render_pixel nes_ppu_put_pixel
  dsimp only
  split_ifs <;> first | exact h | exact status_set_lt _ _ h (Or.inr rfl)

theorem nes_ppu_process_sprites_loop_status (k i : Nat) (hh : Int) (s : nes_t) (n : Nat) :
    (nes_ppu_process_sprites_loop k i hh s n).1.ppu.status = s.ppu.status := by
  induction k generalizing i s n with
  | zero => rfl
  | succ k ih =>
    unfold nes_ppu_process_sprites_loop
    dsimp only
    split_ifs
    · exact ih _ _ _
    · exact (ih _ _ _).trans rfl
    · exact (ih _ _ _).trans rfl

theorem nes_ppu_process_sprites_status (s : nes_t) (h : s.ppu.status < 0x80) :
    (nes_ppu_process_sprites s).ppu.status < 0x80 := by
  have hl := fun hh => nes_ppu_process_sprites_loop_status 64 0 hh s 0
  unfold nes_ppu_process_sprites
  dsimp only
  split_ifs
  · exact status_set_lt _ _ (by rw [hl]; exact h) (Or.inl rfl)
  · rw [hl]; exact h
  · exact status_set_lt _ _ (by rw [hl]; exact h) (Or.inl rfl)
  · rw [hl]; exact h

theorem nes_ppu_tick_fetch_status (s : nes_t) :
    (nes_ppu_tick_fetch s).ppu.status = s.ppu.status := by
  unfold nes_ppu_tick_fetch
  dsimp only
  split
  · rfl
  · rfl
  · unfold nes_ppu_fetch_tile; dsimp only; split_ifs <;> rfl
  · unfold nes_ppu_fetch_tile; dsimp only; split_ifs <;> rfl
  · rfl
  · rfl

theorem nes_ppu_tick_scroll_status (s : nes_t) (fc : Bool) :
    (nes_ppu_tick_scroll s fc).ppu.status = s.ppu.status := by
  unfold nes_ppu_tick_scroll
  dsimp only
  split_ifs <;> rfl

/-- A conditional step keeps the status byte below $80 when the step does. -/
theorem status_ite_step (f : nes_t → nes_t)
    (hf : ∀ t : nes_t, t.ppu.status < 0x80 → (f t).ppu.status < 0x80)
    (c : Prop) [Decidable c] (t : nes_t) (h : t.ppu.status < 0x80) :
    (if c then f t else t).ppu.status < 0x80 := by
  split_ifs
  · exact hf t h
  · exact h

theorem nes_ppu_tick_render_status (s : nes_t) (b1 b2 b3 b4 b5 : Bool)
    (h : s.ppu.status < 0x80) :
    (nes_ppu_tick_render s b1 b2 b3 b4 b5).ppu.status < 0x80 := by
  unfold nes_ppu_tick_render
  dsimp only
  have k5 : ∀ t : nes_t, t.ppu.status < 0x80 →
      (if t.ppu.cycle = 257 then
        (if b2 = true then nes_ppu_process_sprites t
          else { t with ppu := { t.ppu with spr_count := 0 } })
        else t).ppu.status < 0x80 := by
    intro t ht
    split_ifs
    · exact nes_ppu_process_sprites_status t ht
    · exact ht
    · exact ht
  refine k5 _ ?_
  refine status_ite_step (fun t => nes_ppu_tick_scroll t b5)
    (fun t ht => by rw [nes_ppu_tick_scroll_status]; exact ht) _ _ ?_
  refine status_ite_step nes_ppu_copy_y (fun t ht => ht) _ _ ?_
  refine status_ite_step nes_ppu_tick_fetch
    (fun t ht => by rw [nes_ppu_tick_fetch_status]; exact ht) _ _ ?_
  exact status_ite_step nes_ppu_render_pixel nes_ppu_render_pixel_status _ _ h

theorem nes_ppu_set_vblank_status (s : nes_t) :
    (nes_ppu_set_vblank s).ppu.status = s.ppu.status := by
  unfold nes_ppu_set_vblank
  dsimp only
  exact (nes_ppu_nmi_update_ppu _).1

theorem nes_ppu_tick_pre_line_status (s : nes_t) (h : s.ppu.status < 0x80) :
    (nes_ppu_tick_pre_line s).ppu.status < 0x80 := by
  unfold nes_ppu_tick_pre_line nes_ppu_clr_vblank
  dsimp only
  refine status_clr_lt _ _ (status_clr_lt _ _ ?_)
  rw [(nes_ppu_nmi_update_ppu _).1]
  exact h

theorem nes_ppu_tick_vblank_status (s : nes_t) (b : Bool) (h : s.ppu.status < 0x80) :
    (nes_ppu_tick_vblank s b).ppu.status < 0x80 := by
  unfold nes_ppu_tick_vblank
  dsimp only
  have h1 : (if s.ppu.scanline = 241 then nes_ppu_set_vblank s else s).ppu.status < 0x80 :=
    status_ite_step nes_ppu_set_vblank
      (fun t ht => by rw [nes_ppu_set_vblank_status]; exact ht) _ _ h
  exact status_ite_step nes_ppu_tick_pre_line nes_ppu_tick_pre_line_status _ _ h1

/-- One PPU tick keeps the status byte below $80. -/
theorem nes_ppu_tick_status (s : nes_t) (h : s.ppu.status < 0x80) :
    (nes_ppu_tick s).ppu.status < 0x80 := by
  have hc : (nes_ppu_clock s).ppu.status < 0x80 := by rw [nes_ppu_clock_status]; exact h
  unfold nes_ppu_tick
  dsimp only
  refine status_ite_step (fun t => nes_ppu_tick_vblank t _)
    (fun t ht => nes_ppu_tick_vblank_status t _ ht) _ _ ?_
  split_ifs
  · exact nes_ppu_tick_render_status _ _ _ _ _ _ hc
  · exact hc
  · exact hc

/-- In every state the program reaches, bit 7 of `ppu.status` is clear: the
status byte is below $80. -/
theorem ppu_reachable_status (s : nes_t) (h : ppu_reachable s) : s.ppu.status < 0x80 := by
  induction h with
  | init s h0 =>
    rw [h0]
    show (0 : Nat) < 0x80
    omega
  | reset s _ ih => exact ih
  | tick s _ ih => exact nes_ppu_tick_status s ih
  | read s r _ ih => rw [nes_ppu_read_status]; exact ih
  | write s r v _ ih => rw [nes_ppu_write_status]; exact ih
  | oamdma s p _ ih => rw [nes_ppu_oamdma_status]; exact ih
  | frame s _ ih => exact ih
  | other s t _ ht ih => rw [ht]; exact ih

/-! ## PPUSTATUS reads -/

theorem testBit_and_mod (y m k : Nat) (h : y.testBit k = false ∨ m.testBit k = false) :
    ((y &&& m) % 0x100).testBit k = false := by
  rw [show (0x100 : Nat) = 2 ^ 8 by norm_num, Nat.testBit_mod_two_pow, Nat.testBit_and]
  rcases h with h | h <;> simp [h]

theorem and_two_pow_eq_zero (z k : Nat) (h : z.testBit k = false) : z &&& 2 ^ k = 0 := by
  apply Nat.eq_of_testBit_eq
  intro i
  rw [Nat.testBit_and, Nat.zero_testBit]
  by_cases hk : k = i
  · subst hk
    simp [h]
  · simp [Nat.testBit_two_pow_of_ne hk]

/-- The state flags after a PPUSTATUS read: the NMI flag and the second-write
flag are clear. -/
theorem ppu_flags_after_read (x : Nat) :
    BITGET (BITCLR (BITCLR x NES_PPU_FLAG_NMI % 0x100) NES_PPU_FLAG_OFFSET % 0x100)
      NES_PPU_FLAG_OFFSET = 0 ∧
    BITGET (BITCLR (BITCLR x NES_PPU_FLAG_NMI % 0x100) NES_PPU_FLAG_OFFSET % 0x100)
      NES_PPU_FLAG_NMI = 0 := by
  constructor
  · exact and_two_pow_eq_zero _ 1 (testBit_and_mod _ _ 1 (Or.inr (by decide)))
  · exact and_two_pow_eq_zero _ 3
      (testBit_and_mod _ _ 3 (Or.inl (testBit_and_mod _ _ 3 (Or.inr (by decide)))))

theorem and_0x80_of_lt (x : Nat) (h : x < 0x80) : x &&& 0x80 = 0 :=
  and_two_pow_eq_zero x 7 (Nat.testBit_lt_two_pow h)

/-- On every mapper a CPU read of $2002 is a read of PPU register 2. -/
theorem nes_mem_readb_2002 (s : nes_t) : nes_mem_readb s 0x2002 = nes_ppu_read s 2 := by
  unfold nes_mem_readb
  split
  · unfold nes_mem_read_nrom
    rw [if_neg (by omega), if_neg (by omega), if_pos (by omega)]
    rfl
  · unfold nes_mem_read_mmc1
    rw [if_neg (by omega), if_neg (by omega), if_pos (by omega)]
    rfl
  · unfold nes_mem_read_cnrom
    rw [if_neg (by omega), if_neg (by omega), if_pos (by omega)]
    rfl
  · unfold nes_mem_read_mmc3
    rw [if_neg (by omega), if_neg (by omega), if_pos (by omega)]
    rfl

/-- On every mapper a CPU write to $2000-$2007 is a write of the PPU register
selected by the low three address bits. -/
theorem nes_mem_writeb_ppu (s : nes_t) (a v : Nat) (h1 : 0x2000 ≤ a) (h2 : a < 0x4000) :
    nes_mem_writeb s a v = nes_ppu_write s (a &&& 0x0007) v := by
  unfold nes_mem_writeb nes_mem_writeb_with
  split
  · unfold nes_mem_write_nrom
    rw [if_neg (by omega), if_pos (by omega)]
  · unfold nes_mem_write_mmc1
    rw [if_neg (by omega), if_pos (by omega)]
  · unfold nes_mem_write_cnrom
    rw [if_neg (by omega), if_pos (by omega)]
  · unfold nes_mem_write_mmc3
    rw [if_neg (by omega), if_pos (by omega)]

/-- The state after a read of PPU register 2. -/
theorem nes_ppu_read_2_flags (s : nes_t) :
    (nes_ppu_read s 2).2.ppu.flags =
      BITCLR (BITCLR s.ppu.flags NES_PPU_FLAG_NMI % 0x100) NES_PPU_FLAG_OFFSET % 0x100 := by
  show BITCLR (nes_ppu_nmi_update _).ppu.flags NES_PPU_FLAG_OFFSET % 0x100 = _
  rw [(nes_ppu_nmi_update_ppu _).2.1]

/-- The value returned by a read of PPU register 2 while the NMI flag is
clear. -/
theorem nes_ppu_read_2_value (s : nes_t) (h : BITGET s.ppu.flags NES_PPU_FLAG_NMI = 0) :
    (nes_ppu_read s 2).1 = s.ppu.status ||| (s.ppu.bus &&& 0x1F) := by
  show (if BITGET s.ppu.flags NES_PPU_FLAG_NMI ≠ 0 then _ else _) = _
  rw [if_neg (by rw [h]; exact fun h => h rfl)]

/-- A write to PPU register 5 while the second-write flag is clear. -/
theorem nes_ppu_write_5_first (s : nes_t) (v : Nat)
    (h : BITGET s.ppu.flags NES_PPU_FLAG_OFFSET = 0) :
    (nes_ppu_write s 5 v).ppu.tmp_addr = ((s.ppu.tmp_addr &&& 0xFFE0) ||| (v >>> 3)) % 0x10000 ∧
    (nes_ppu_write s 5 v).ppu.fine_x = v &&& 0x07 := by
  have e : nes_ppu_write s 5 v =
      (let nes := nes_ppu_refresh_bus s v
       let nes :=
        if BITGET nes.ppu.flags NES_PPU_FLAG_OFFSET = 0 then
          let nes := { nes with ppu := { nes.ppu with
            tmp_addr := ((nes.ppu.tmp_addr &&& 0xFFE0) ||| (v >>> 3)) % 0x10000 } }
          { nes with ppu := { nes.ppu with fine_x := v &&& 0x07 } }
        else
          let nes := { nes with ppu := { nes.ppu with
            tmp_addr := ((nes.ppu.tmp_addr &&& 0x8FFF) ||| ((v &&& 0x07) <<< 12)) % 0x10000 } }
          { nes with ppu := { nes.ppu with
            tmp_addr := ((nes.ppu.tmp_addr &&& 0xFC1F) ||| ((v &&& 0xF8) <<< 2)) % 0x10000 } }
       { nes with ppu := { nes.ppu with
          flags := BITTGL nes.ppu.flags NES_PPU_FLAG_OFFSET % 0x100 } }) := rfl
  rw [e]
  dsimp only
  rw [if_pos (show BITGET (nes_ppu_refresh_bus s v).ppu.flags NES_PPU_FLAG_OFFSET = 0 from h)]
  exact ⟨rfl, rfl⟩

/-- A write to PPU register 6 while the second-write flag is clear. -/
theorem nes_ppu_write_6_first (s : nes_t) (v : Nat)
    (h : BITGET s.ppu.flags NES_PPU_FLAG_OFFSET = 0) :
    (nes_ppu_write s 6 v).ppu.tmp_addr =
      ((s.ppu.tmp_addr &&& 0x80FF) ||| ((v &&& 0x3F) <<< 8)) % 0x10000 ∧
    (nes_ppu_write s 6 v).ppu.vmem_addr = s.ppu.vmem_addr := by
  have e : nes_ppu_write s 6 v =
      (let nes := nes_ppu_refresh_bus s v
       let nes :=
        if BITGET nes.ppu.flags NES_PPU_FLAG_OFFSET = 0 then
          { nes with ppu := { nes.ppu with
            tmp_addr := ((nes.ppu.tmp_addr &&& 0x80FF) ||| ((v &&& 0x3F) <<< 8)) % 0x10000 } }
        else
          let nes := { nes with ppu := { nes.ppu with
            tmp_addr := ((nes.ppu.tmp_addr &&& 0xFF00) ||| v) % 0x10000 } }
          { nes with ppu := { nes.ppu with vmem_addr := nes.ppu.tmp_addr } }
       { nes with ppu := { nes.ppu with
          flags := BITTGL nes.ppu.flags NES_PPU_FLAG_OFFSET % 0x100 } }) := rfl
  rw [e]
  dsimp only
  rw [if_pos (show BITGET (nes_ppu_refresh_bus s v).ppu.flags NES_PPU_FLAG_OFFSET = 0 from h)]
  exact ⟨rfl, rfl⟩

/-- CPU bus reads stay within the states the program reaches. -/
theorem ppu_reachable_readb (s : nes_t) (a : Nat) (h : ppu_reachable s) :
    ppu_reachable (nes_mem_readb s a).2 :=
  nes_mem_readb_cases ppu_reachable s a h
    (ppu_reachable.other s _ h (nes_input_read_frame s (a - 0x4016)).2.2.2.2.1)
    (ppu_reachable.read s (a &&& 0x0007) h)

/-- CPU bus writes stay within the states the program reaches. -/
theorem ppu_reachable_writeb (s : nes_t) (a v : Nat) (h : ppu_reachable s) :
    ppu_reachable (nes_mem_writeb s a v) :=
  nes_mem_writeb_with_cases nes_cpu_irq_inner ppu_reachable s a v h
    (ppu_reachable.other s (nes_ram_write s (a &&& 0x07FF) v) h rfl)
    (ppu_reachable.write s (a &&& 0x0007) v h)
    (ppu_reachable.oamdma s v h)
    (ppu_reachable.other s _ h (nes_input_write_frame s (a - 0x4016) v).2.2.2.1)
    (ppu_reachable.other s _ h (nes_apu_write_frame nes_cpu_irq_inner s (a - 0x4000) v).2.2.1)
    (ppu_reachable.other s _ h (nes_prgram_write_frame s (a - 0x6000) v).2.2.1)
    (ppu_reachable.other s _ h (nes_mmc1_write_reg_frame s a v).2.2.1)
    (ppu_reachable.other s _ h (nes_mmc3_write_frame s a v).2.2.1)
    (ppu_reachable.other s _ h rfl)

/-- C5. In every state reachable from `nes_ppu_init` (`ppu_reachable`), a CPU
read of $2002 clears the second-write latch and the vblank (NMI) flag and
leaves the status byte, with its sprite-0-hit and sprite-overflow bits,
unchanged; an immediately following read of $2002 returns bit 7 = 0, and the
next write to $2005 or to $2006 is handled as a first write. -/
theorem ppustatus_read_clears (s : nes_t) (h : ppu_reachable s) (v : Nat) :
    BITGET (nes_mem_readb s 0x2002).2.ppu.flags NES_PPU_FLAG_OFFSET = 0 ∧
    BITGET (nes_mem_readb s 0x2002).2.ppu.flags NES_PPU_FLAG_NMI = 0 ∧
    (nes_mem_readb s 0x2002).2.ppu.status = s.ppu.status ∧
    (nes_mem_readb (nes_mem_readb s 0x2002).2 0x2002).1 &&& 0x80 = 0 ∧
    ((nes_mem_writeb (nes_mem_readb s 0x2002).2 0x2005 v).ppu.tmp_addr =
        (((nes_mem_readb s 0x2002).2.ppu.tmp_addr &&& 0xFFE0) ||| (v >>> 3)) % 0x10000 ∧
      (nes_mem_writeb (nes_mem_readb s 0x2002).2 0x2005 v).ppu.fine_x = v &&& 0x07) ∧
    ((nes_mem_writeb (nes_mem_readb s 0x2002).2 0x2006 v).ppu.tmp_addr =
        (((nes_mem_readb s 0x2002).2.ppu.tmp_addr &&& 0x80FF) ||| ((v &&& 0x3F) <<< 8))
          % 0x10000 ∧
      (nes_mem_writeb (nes_mem_readb s 0x2002).2 0x2006 v).ppu.vmem_addr =
        (nes_mem_readb s 0x2002).2.ppu.vmem_addr) := by
  have hst := ppu_reachable_status s h
  have hf := ppu_flags_after_read s.ppu.flags
  rw [nes_mem_readb_2002 s, nes_mem_readb_2002 (nes_ppu_read s 2).2]
  have e5 := nes_mem_writeb_ppu (nes_ppu_read s 2).2 0x2005 v (by omega) (by omega)
  have e6 := nes_mem_writeb_ppu (nes_ppu_read s 2).2 0x2006 v (by omega) (by omega)
  rw [show (0x2005 : Nat) &&& 0x0007 = 5 by decide] at e5
  rw [show (0x2006 : Nat) &&& 0x0007 = 6 by decide] at e6
  rw [e5, e6]
  have fo : BITGET (nes_ppu_read s 2).2.ppu.flags NES_PPU_FLAG_OFFSET = 0 := by
    rw [nes_ppu_read_2_flags]; exact hf.1
  have fn : BITGET (nes_ppu_read s 2).2.ppu.flags NES_PPU_FLAG_NMI = 0 := by
    rw [nes_ppu_read_2_flags]; exact hf.2
  refine ⟨fo, fn, nes_ppu_read_status s 2, ?_, nes_ppu_write_5_first _ v fo,
    nes_ppu_write_6_first _ v fo⟩
  rw [nes_ppu_read_2_value _ fn, nes_ppu_read_status]
  apply and_0x80_of_lt
  have hb : (nes_ppu_read s 2).2.ppu.bus &&& 0x1F < 2 ^ 7 :=
    Nat.lt_of_le_of_lt Nat.and_le_right (by norm_num)
  exact Nat.or_lt_two_pow (n := 7) hst hb

/-- Instance of C5 at vblank with the second-write latch set: in the state
after power-on, two PPU ticks (vblank begins) and a write to $2005, both flags
are set and a read of $2002 returns bit 7 = 1; the read clears both, and the
next read returns bit 7 = 0. -/
theorem ppustatus_read_clears_witness :
    ppu_reachable nes_status_read_example ∧
    BITGET nes_status_read_example.ppu.flags NES_PPU_FLAG_OFFSET ≠ 0 ∧
    BITGET nes_status_read_example.ppu.flags NES_PPU_FLAG_NMI ≠ 0 ∧
    (nes_mem_readb nes_status_read_example 0x2002).1 &&& 0x80 = 0x80 ∧
    (BITGET (nes_mem_readb nes_status_read_example 0x2002).2.ppu.flags NES_PPU_FLAG_OFFSET = 0 ∧
      BITGET (nes_mem_readb nes_status_read_example 0x2002).2.ppu.flags NES_PPU_FLAG_NMI = 0 ∧
      (nes_mem_readb nes_status_read_example 0x2002).2.ppu.status =
        nes_status_read_example.ppu.status ∧
      (nes_mem_readb (nes_mem_readb nes_status_read_example 0x2002).2 0x2002).1 &&& 0x80 = 0) :=
  ⟨ppu_reachable_writeb _ _ _
      (ppu_reachable.tick _ (ppu_reachable.tick _ (ppu_reachable.init _ rfl))),
    by decide, by decide, by decide,
    (ppustatus_read_clears nes_status_read_example
      (ppu_reachable_writeb _ _ _
        (ppu_reachable.tick _ (ppu_reachable.tick _ (ppu_reachable.init _ rfl)))) 0).1,
    (ppustatus_read_clears nes_status_read_example
      (ppu_reachable_writeb _ _ _
        (ppu_reachable.tick _ (ppu_reachable.tick _ (ppu_reachable.init _ rfl)))) 0).2.1,
    (ppustatus_read_clears nes_status_read_example
      (ppu_reachable_writeb _ _ _
        (ppu_reachable.tick _ (ppu_reachable.tick _ (ppu_reachable.init _ rfl)))) 0).2.2.1,
    (ppustatus_read_clears nes_status_read_example
      (ppu_reachable_writeb _ _ _
        (ppu_reachable.tick _ (ppu_reachable.tick _ (ppu_reachable.init _ rfl)))) 0).2.2.2.1⟩

/-! ## CPU cycle counting

No bus access and no instruction other than a taken branch changes
`cpu.cycle`; `nes_cpu_op` then adds the table entries. -/

@[simp] theorem nes_mem_writeb_cycle (s : nes_t) (a v : Nat) :
    (nes_mem_writeb s a v).cpu.cycle = s.cpu.cycle := by
  have h := (nes_mem_writeb_with_frame nes_cpu_irq_inner s a v).1
  unfold nes_mem_writeb
  rw [h]

@[simp] theorem nes_cpu_set_zn_cycle (s : nes_t) (v : Nat) :
    (nes_cpu_set_zn s v).cpu.cycle = s.cpu.cycle := rfl

@[simp] theorem nes_compare_cycle (s : nes_t) (a b : Nat) :
    (nes_compare s a b).cpu.cycle = s.cpu.cycle := rfl

@[simp] theorem nes_cpu_pagecross_cycle (s : nes_t) (a b : Nat) :
    (nes_cpu_pagecross s a b).cpu.cycle = s.cpu.cycle := rfl

@[simp] theorem nes_mem_readb_zp_cycle (s : nes_t) (a : Nat) :
    (nes_mem_readb_zp s a).2.cpu.cycle = s.cpu.cycle := by
  simp [nes_mem_readb_zp]

@[simp] theorem nes_mem_readw_cycle (s : nes_t) (a : Nat) :
    (nes_mem_readw s a).2.cpu.cycle = s.cpu.cycle := by
  simp [nes_mem_readw]

@[simp] theorem nes_mem_readw_zp_cycle (s : nes_t) (a : Nat) :
    (nes_mem_readw_zp s a).2.cpu.cycle = s.cpu.cycle := by
  simp [nes_mem_readw_zp]

@[simp] theorem nes_mem_read_nextb_cycle (s : nes_t) :
    (nes_mem_read_nextb s).2.cpu.cycle = s.cpu.cycle := by
  simp [nes_mem_read_nextb]

@[simp] theorem nes_mem_read_nextw_cycle (s : nes_t) :
    (nes_mem_read_nextw s).2.cpu.cycle = s.cpu.cycle := by
  simp [nes_mem_read_nextw]

@[simp] theorem nes_jmi_addr_cycle (s : nes_t) (a : Nat) :
    (nes_jmi_addr s a).2.cpu.cycle = s.cpu.cycle := by
  simp [nes_jmi_addr]

@[simp] theorem nes_pushb_cycle (s : nes_t) (v : Nat) :
    (nes_pushb s v).cpu.cycle = s.cpu.cycle := by
  simp [nes_pushb, nes_pushb_with]

@[simp] theorem nes_pushw_cycle (s : nes_t) (v : Nat) :
    (nes_pushw s v).cpu.cycle = s.cpu.cycle := by
  have h1 := nes_pushb_cycle s ((v >>> 8) &&& 0xFF)
  have h2 := nes_pushb_cycle (nes_pushb s ((v >>> 8) &&& 0xFF)) (v &&& 0xFF)
  exact h2.trans h1

@[simp] theorem nes_popb_cycle (s : nes_t) : (nes_popb s).2.cpu.cycle = s.cpu.cycle := by
  simp [nes_popb]

@[simp] theorem nes_popw_cycle (s : nes_t) : (nes_popw s).2.cpu.cycle = s.cpu.cycle := by
  simp [nes_popw]

@[simp] theorem nes_a_abs_cycle (s : nes_t) : (nes_a_abs s).2.cpu.cycle = s.cpu.cycle := by
  simp [nes_a_abs]

@[simp] theorem nes_a_abx_cycle (s : nes_t) : (nes_a_abx s).2.cpu.cycle = s.cpu.cycle := by
  simp [nes_a_abx]

@[simp] theorem nes_a_aby_cycle (s : nes_t) : (nes_a_aby s).2.cpu.cycle = s.cpu.cycle := by
  simp [nes_a_aby]

@[simp] theorem nes_a_ndx_cycle (s : nes_t) : (nes_a_ndx s).2.cpu.cycle = s.cpu.cycle := by
  simp [nes_a_ndx]

@[simp] theorem nes_a_ndy_cycle (s : nes_t) : (nes_a_ndy s).2.cpu.cycle = s.cpu.cycle := by
  simp [nes_a_ndy]

@[simp] theorem nes_a_zpg_cycle (s : nes_t) : (nes_a_zpg s).2.cpu.cycle = s.cpu.cycle := by
  simp [nes_a_zpg]

@[simp] theorem nes_a_zpx_cycle (s : nes_t) : (nes_a_zpx s).2.cpu.cycle = s.cpu.cycle := by
  simp [nes_a_zpx]

@[simp] theorem nes_a_zpy_cycle (s : nes_t) : (nes_a_zpy s).2.cpu.cycle = s.cpu.cycle := by
  simp [nes_a_zpy]

@[simp] theorem nes_v_abs_cycle (s : nes_t) : (nes_v_abs s).2.cpu.cycle = s.cpu.cycle := by
  simp [nes_v_abs]

@[simp] theorem nes_v_abx_cycle (s : nes_t) : (nes_v_abx s).2.cpu.cycle = s.cpu.cycle := by
  simp [nes_v_abx]

@[simp] theorem nes_v_aby_cycle (s : nes_t) : (nes_v_aby s).2.cpu.cycle = s.cpu.cycle := by
  simp [nes_v_aby]

@[simp] theorem nes_v_acc_cycle (s : nes_t) : (nes_v_acc s).2.cpu.cycle = s.cpu.cycle := by
  simp [nes_v_acc]

@[simp] theorem nes_v_imm_cycle (s : nes_t) : (nes_v_imm s).2.cpu.cycle = s.cpu.cycle := by
  simp [nes_v_imm]

@[simp] theorem nes_v_ndx_cycle (s : nes_t) : (nes_v_ndx s).2.cpu.cycle = s.cpu.cycle := by
  simp [nes_v_ndx]

@[simp] theorem nes_v_ndy_cycle (s : nes_t) : (nes_v_ndy s).2.cpu.cycle = s.cpu.cycle := by
  simp [nes_v_ndy]

@[simp] theorem nes_v_zpg_cycle (s : nes_t) : (nes_v_zpg s).2.cpu.cycle = s.cpu.cycle := by
  simp [nes_v_zpg]

@[simp] theorem nes_v_zpx_cycle (s : nes_t) : (nes_v_zpx s).2.cpu.cycle = s.cpu.cycle := by
  simp [nes_v_zpx]

@[simp] theorem nes_v_zpy_cycle (s : nes_t) : (nes_v_zpy s).2.cpu.cycle = s.cpu.cycle := by
  simp [nes_v_zpy]

@[simp] theorem nes_op_lda_cycle (s : nes_t) (v : Nat) : (nes_op_lda s v).cpu.cycle = s.cpu.cycle := by
  simp [nes_op_lda]

@[simp] theorem nes_op_ldx_cycle (s : nes_t) (v : Nat) : (nes_op_ldx s v).cpu.cycle = s.cpu.cycle := by
  simp [nes_op_ldx]

@[simp] theorem nes_op_ldy_cycle (s : nes_t) (v : Nat) : (nes_op_ldy s v).cpu.cycle = s.cpu.cycle := by
  simp [nes_op_ldy]

@[simp] theorem nes_op_sta_cycle (s : nes_t) (v : Nat) : (nes_op_sta s v).cpu.cycle = s.cpu.cycle := by
  simp [nes_op_sta]

@[simp] theorem nes_op_stx_cycle (s : nes_t) (v : Nat) : (nes_op_stx s v).cpu.cycle = s.cpu.cycle := by
  simp [nes_op_stx]

@[simp] theorem nes_op_sty_cycle (s : nes_t) (v : Nat) : (nes_op_sty s v).cpu.cycle = s.cpu.cycle := by
  simp [nes_op_sty]

@[simp] theorem nes_op_adc_cycle (s : nes_t) (v : Nat) : (nes_op_adc s v).cpu.cycle = s.cpu.cycle := by
  simp [nes_op_adc]

@[simp] theorem nes_op_sbc_cycle (s : nes_t) (v : Nat) : (nes_op_sbc s v).cpu.cycle = s.cpu.cycle := by
  simp [nes_op_sbc]

@[simp] theorem nes_op_cmp_cycle (s : nes_t) (v : Nat) : (nes_op_cmp s v).cpu.cycle = s.cpu.cycle := by
  simp [nes_op_cmp]

@[simp] theorem nes_op_cpx_cycle (s : nes_t) (v : Nat) : (nes_op_cpx s v).cpu.cycle = s.cpu.cycle := by
  simp [nes_op_cpx]

@[simp] theorem nes_op_cpy_cycle (s : nes_t) (v : Nat) : (nes_op_cpy s v).cpu.cycle = s.cpu.cycle := by
  simp [nes_op_cpy]

@[simp] theorem nes_op_and_cycle (s : nes_t) (v : Nat) : (nes_op_and s v).cpu.cycle = s.cpu.cycle := by
  simp [nes_op_and]

@[simp] theorem nes_op_ora_cycle (s : nes_t) (v : Nat) : (nes_op_ora s v).cpu.cycle = s.cpu.cycle := by
  simp [nes_op_ora]

@[simp] theorem nes_op_eor_cycle (s : nes_t) (v : Nat) : (nes_op_eor s v).cpu.cycle = s.cpu.cycle := by
  simp [nes_op_eor]

@[simp] theorem nes_op_bit_cycle (s : nes_t) (v : Nat) : (nes_op_bit s v).cpu.cycle = s.cpu.cycle := by
  simp [nes_op_bit]

@[simp] theorem nes_op_rol_cycle (s : nes_t) (v : Nat) : (nes_op_rol s v).cpu.cycle = s.cpu.cycle := by
  simp [nes_op_rol]

@[simp] theorem nes_op_ror_cycle (s : nes_t) (v : Nat) : (nes_op_ror s v).cpu.cycle = s.cpu.cycle := by
  simp [nes_op_ror]

@[simp] theorem nes_op_rola_cycle (s : nes_t) (v : Nat) : (nes_op_rola s v).cpu.cycle = s.cpu.cycle := by
  simp [nes_op_rola]

@[simp] theorem nes_op_rora_cycle (s : nes_t) (v : Nat) : (nes_op_rora s v).cpu.cycle = s.cpu.cycle := by
  simp [nes_op_rora]

@[simp] theorem nes_op_asl_cycle (s : nes_t) (v : Nat) : (nes_op_asl s v).cpu.cycle = s.cpu.cycle := by
  simp [nes_op_asl]

@[simp] theorem nes_op_lsr_cycle (s : nes_t) (v : Nat) : (nes_op_lsr s v).cpu.cycle = s.cpu.cycle := by
  simp [nes_op_lsr]

@[simp] theorem nes_op_asla_cycle (s : nes_t) (v : Nat) : (nes_op_asla s v).cpu.cycle = s.cpu.cycle := by
  simp [nes_op_asla]

@[simp] theorem nes_op_lsra_cycle (s : nes_t) (v : Nat) : (nes_op_lsra s v).cpu.cycle = s.cpu.cycle := by
  simp [nes_op_lsra]

@[simp] theorem nes_op_inc_cycle (s : nes_t) (v : Nat) : (nes_op_inc s v).cpu.cycle = s.cpu.cycle := by
  simp [nes_op_inc]

@[simp] theorem nes_op_dec_cycle (s : nes_t) (v : Nat) : (nes_op_dec s v).cpu.cycle = s.cpu.cycle := by
  simp [nes_op_dec]

@[simp] theorem nes_op_alr_cycle (s : nes_t) (v : Nat) : (nes_op_alr s v).cpu.cycle = s.cpu.cycle := by
  simp [nes_op_alr]

@[simp] theorem nes_op_anc_cycle (s : nes_t) (v : Nat) : (nes_op_anc s v).cpu.cycle = s.cpu.cycle := by
  simp [nes_op_anc]

@[simp] theorem nes_op_arr_cycle (s : nes_t) (v : Nat) : (nes_op_arr s v).cpu.cycle = s.cpu.cycle := by
  simp [nes_op_arr]

@[simp] theorem nes_op_axs_cycle (s : nes_t) (v : Nat) : (nes_op_axs s v).cpu.cycle = s.cpu.cycle := by
  simp [nes_op_axs]

@[simp] theorem nes_op_lax_cycle (s : nes_t) (v : Nat) : (nes_op_lax s v).cpu.cycle = s.cpu.cycle := by
  simp [nes_op_lax]

@[simp] theorem nes_op_sax_cycle (s : nes_t) (v : Nat) : (nes_op_sax s v).cpu.cycle = s.cpu.cycle := by
  simp [nes_op_sax]

@[simp] theorem nes_op_dcp_cycle (s : nes_t) (v : Nat) : (nes_op_dcp s v).cpu.cycle = s.cpu.cycle := by
  simp [nes_op_dcp]

@[simp] theorem nes_op_isb_cycle (s : nes_t) (v : Nat) : (nes_op_isb s v).cpu.cycle = s.cpu.cycle := by
  simp [nes_op_isb]

@[simp] theorem nes_op_rla_cycle (s : nes_t) (v : Nat) : (nes_op_rla s v).cpu.cycle = s.cpu.cycle := by
  simp [nes_op_rla]

@[simp] theorem nes_op_rra_cycle (s : nes_t) (v : Nat) : (nes_op_rra s v).cpu.cycle = s.cpu.cycle := by
  simp [nes_op_rra]

@[simp] theorem nes_op_slo_cycle (s : nes_t) (v : Nat) : (nes_op_slo s v).cpu.cycle = s.cpu.cycle := by
  simp [nes_op_slo]

@[simp] theorem nes_op_sre_cycle (s : nes_t) (v : Nat) : (nes_op_sre s v).cpu.cycle = s.cpu.cycle := by
  simp [nes_op_sre]

@[simp] theorem nes_op_skb_cycle (s : nes_t) (v : Nat) : (nes_op_skb s v).cpu.cycle = s.cpu.cycle := by
  simp [nes_op_skb]

@[simp] theorem nes_op_ign_cycle (s : nes_t) (v : Nat) : (nes_op_ign s v).cpu.cycle = s.cpu.cycle := by
  simp [nes_op_ign]

@[simp] theorem nes_op_inx_cycle (s : nes_t) : (nes_op_inx s).cpu.cycle = s.cpu.cycle := by
  simp [nes_op_inx]

@[simp] theorem nes_op_dex_cycle (s : nes_t) : (nes_op_dex s).cpu.cycle = s.cpu.cycle := by
  simp [nes_op_dex]

@[simp] theorem nes_op_iny_cycle (s : nes_t) : (nes_op_iny s).cpu.cycle = s.cpu.cycle := by
  simp [nes_op_iny]

@[simp] theorem nes_op_dey_cycle (s : nes_t) : (nes_op_dey s).cpu.cycle = s.cpu.cycle := by
  simp [nes_op_dey]

@[simp] theorem nes_op_tax_cycle (s : nes_t) : (nes_op_tax s).cpu.cycle = s.cpu.cycle := by
  simp [nes_op_tax]

@[simp] theorem nes_op_tay_cycle (s : nes_t) : (nes_op_tay s).cpu.cycle = s.cpu.cycle := by
  simp [nes_op_tay]

@[simp] theorem nes_op_txa_cycle (s : nes_t) : (nes_op_txa s).cpu.cycle = s.cpu.cycle := by
  simp [nes_op_txa]

@[simp] theorem nes_op_tya_cycle (s : nes_t) : (nes_op_tya s).cpu.cycle = s.cpu.cycle := by
  simp [nes_op_tya]

@[simp] theorem nes_op_txs_cycle (s : nes_t) : (nes_op_txs s).cpu.cycle = s.cpu.cycle := by
  simp [nes_op_txs]

@[simp] theorem nes_op_tsx_cycle (s : nes_t) : (nes_op_tsx s).cpu.cycle = s.cpu.cycle := by
  simp [nes_op_tsx]

@[simp] theorem nes_op_clc_cycle (s : nes_t) : (nes_op_clc s).cpu.cycle = s.cpu.cycle := by
  simp [nes_op_clc]

@[simp] theorem nes_op_sec_cycle (s : nes_t) : (nes_op_sec s).cpu.cycle = s.cpu.cycle := by
  simp [nes_op_sec]

@[simp] theorem nes_op_cli_cycle (s : nes_t) : (nes_op_cli s).cpu.cycle = s.cpu.cycle := by
  simp [nes_op_cli]

@[simp] theorem nes_op_sei_cycle (s : nes_t) : (nes_op_sei s).cpu.cycle = s.cpu.cycle := by
  simp [nes_op_sei]

@[simp] theorem nes_op_clv_cycle (s : nes_t) : (nes_op_clv s).cpu.cycle = s.cpu.cycle := by
  simp [nes_op_clv]

@[simp] theorem nes_op_cld_cycle (s : nes_t) : (nes_op_cld s).cpu.cycle = s.cpu.cycle := by
  simp [nes_op_cld]

@[simp] theorem nes_op_sed_cycle (s : nes_t) : (nes_op_sed s).cpu.cycle = s.cpu.cycle := by
  simp [nes_op_sed]

@[simp] theorem nes_op_jmp_cycle (s : nes_t) : (nes_op_jmp s).cpu.cycle = s.cpu.cycle := by
  simp [nes_op_jmp]

@[simp] theorem nes_op_jmi_cycle (s : nes_t) : (nes_op_jmi s).cpu.cycle = s.cpu.cycle := by
  simp [nes_op_jmi]

@[simp] theorem nes_op_jsr_cycle (s : nes_t) : (nes_op_jsr s).cpu.cycle = s.cpu.cycle := by
  simp [nes_op_jsr]

@[simp] theorem nes_op_rts_cycle (s : nes_t) : (nes_op_rts s).cpu.cycle = s.cpu.cycle := by
  simp [nes_op_rts]

@[simp] theorem nes_op_brk_cycle (s : nes_t) : (nes_op_brk s).cpu.cycle = s.cpu.cycle := by
  unfold nes_op_brk
  split_ifs
  · simp
  · rfl

@[simp] theorem nes_op_rti_cycle (s : nes_t) : (nes_op_rti s).cpu.cycle = s.cpu.cycle := by
  simp [nes_op_rti]

@[simp] theorem nes_op_pha_cycle (s : nes_t) : (nes_op_pha s).cpu.cycle = s.cpu.cycle := by
  simp [nes_op_pha]

@[simp] theorem nes_op_pla_cycle (s : nes_t) : (nes_op_pla s).cpu.cycle = s.cpu.cycle := by
  simp [nes_op_pla]

@[simp] theorem nes_op_php_cycle (s : nes_t) : (nes_op_php s).cpu.cycle = s.cpu.cycle := by
  simp [nes_op_php]

@[simp] theorem nes_op_plp_cycle (s : nes_t) : (nes_op_plp s).cpu.cycle = s.cpu.cycle := by
  simp [nes_op_plp]

@[simp] theorem nes_op_nop_cycle (s : nes_t) : (nes_op_nop s).cpu.cycle = s.cpu.cycle := by
  simp [nes_op_nop]

theorem ite_cycle (c : Prop) [Decidable c] (a b : nes_t) (x : Nat)
    (ha : c → a.cpu.cycle = x) (hb : b.cpu.cycle = x) :
    (if c then a else b).cpu.cycle = x := by
  split_ifs with h
  · exact ha h
  · exact hb

/-- Every instruction other than the eight conditional branches leaves
`cpu.cycle` as it is. -/
theorem nes_cpu_op_switch_cycle_other (opc : Nat) (t : nes_t)
    (h10 : opc ≠ 0x10) (h30 : opc ≠ 0x30) (h50 : opc ≠ 0x50) (h70 : opc ≠ 0x70)
    (h90 : opc ≠ 0x90) (hB0 : opc ≠ 0xB0) (hD0 : opc ≠ 0xD0) (hF0 : opc ≠ 0xF0) :
    (nes_cpu_op_switch opc t).cpu.cycle = t.cpu.cycle := by
  unfold nes_cpu_op_switch
  repeat (refine ite_cycle _ _ _ _ (fun h => ?_) ?_
          (first | contradiction | simp [nes_op_call]))
  rfl

theorem nes_mem_read_nextb_cpu (s : nes_t) :
    (nes_mem_read_nextb s).2.cpu = { s.cpu with pc := (s.cpu.pc + 1) % 0x10000 } := by
  simp [nes_mem_read_nextb]

/-- The cycles of a relative branch: none when it is not taken; when taken,
one, and one more when the target is on another page than the byte after the
branch instruction. -/
theorem nes_branch_jmp_cycle (t : nes_t) (flag : Nat) :
    (nes_branch_jmp t flag).cpu.cycle =
      if flag ≠ 0 then
        ((if ((t.cpu.pc + 1) % 0x10000) &&& 0xFF00 ≠ (nes_branch_jmp t flag).cpu.pc &&& 0xFF00
          then (t.cpu.cycle + 1) % 0x10000000000000000 else t.cpu.cycle) + 1)
          % 0x10000000000000000
      else t.cpu.cycle := by
  by_cases hf : flag ≠ 0
  · have e : nes_branch_jmp t flag =
        nes_cpu_add_branch_cycles
          { (nes_mem_read_nextb t).2 with cpu := { (nes_mem_read_nextb t).2.cpu with
              pc := Int.toNat ((((nes_mem_read_nextb t).2.cpu.pc : Int) +
                to_int8 ((nes_mem_read_nextb t).1 % 0x100)) % 0x10000) } }
          (nes_mem_read_nextb t).2.cpu.pc := by
      unfold nes_branch_jmp
      dsimp only
      rw [if_pos hf]
    rw [if_pos hf, e]
    unfold nes_cpu_add_branch_cycles
    dsimp only
    rw [nes_mem_read_nextb_cpu]
  · have e : nes_branch_jmp t flag = (nes_mem_read_nextb t).2 := by
      unfold nes_branch_jmp
      dsimp only
      rw [if_neg hf]
    rw [if_neg hf, e, nes_mem_read_nextb_cpu]

theorem c_bool_ne_zero (c : Prop) [Decidable c] : c_bool (decide c) ≠ 0 ↔ c := by
  by_cases h : c <;> simp [c_bool, h]

theorem flag_mod_ne_zero (p m : Nat) (hm : m < 0x100) :
    BITMGET p m % 0x100 ≠ 0 ↔ p &&& m ≠ 0 := by
  have h : p &&& m ≤ m := Nat.and_le_right
  unfold BITMGET
  rw [Nat.mod_eq_of_lt (by omega)]

/-- The cycles that the instruction itself adds to `cpu.cycle`: none, except
for a taken conditional branch. -/
theorem nes_cpu_op_switch_cycle (opc : Nat) (t : nes_t) :
    (nes_cpu_op_switch opc t).cpu.cycle =
      if (opc = 0x10 ∧ t.cpu.p &&& 0x80 = 0) ∨ (opc = 0x30 ∧ t.cpu.p &&& 0x80 ≠ 0) ∨
          (opc = 0x50 ∧ t.cpu.p &&& 0x40 = 0) ∨ (opc = 0x70 ∧ t.cpu.p &&& 0x40 ≠ 0) ∨
          (opc = 0x90 ∧ t.cpu.p &&& 0x01 = 0) ∨ (opc = 0xB0 ∧ t.cpu.p &&& 0x01 ≠ 0) ∨
          (opc = 0xD0 ∧ t.cpu.p &&& 0x02 = 0) ∨ (opc = 0xF0 ∧ t.cpu.p &&& 0x02 ≠ 0) then
        ((if ((t.cpu.pc + 1) % 0x10000) &&& 0xFF00 ≠ (nes_cpu_op_switch opc t).cpu.pc &&& 0xFF00
          then (t.cpu.cycle + 1) % 0x10000000000000000 else t.cpu.cycle) + 1)
          % 0x10000000000000000
      else t.cpu.cycle := by
  by_cases h10 : opc = 0x10
  · subst h10
    have e : nes_cpu_op_switch 0x10 t = nes_branch_jmp t (c_bool (decide (BITMGET t.cpu.p FLAG_MASK_N = 0))) := rfl
    have hi : (c_bool (decide (BITMGET t.cpu.p FLAG_MASK_N = 0))) ≠ 0 ↔ t.cpu.p &&& 0x80 = 0 := c_bool_ne_zero (BITMGET t.cpu.p FLAG_MASK_N = 0)
    rw [e, nes_branch_jmp_cycle]
    refine if_congr (hi.trans ⟨fun hq => Or.inl ⟨rfl, hq⟩, fun hq => ?_⟩) rfl rfl
    rcases hq with ⟨h0, hq⟩ | ⟨h0, hq⟩ | ⟨h0, hq⟩ | ⟨h0, hq⟩ | ⟨h0, hq⟩ | ⟨h0, hq⟩ | ⟨h0, hq⟩ |
      ⟨h0, hq⟩ <;> first | exact hq | exact absurd h0 (by decide)
  by_cases h30 : opc = 0x30
  · subst h30
    have e : nes_cpu_op_switch 0x30 t = nes_branch_jmp t (BITMGET t.cpu.p FLAG_MASK_N % 0x100) := rfl
    have hi : (BITMGET t.cpu.p FLAG_MASK_N % 0x100) ≠ 0 ↔ t.cpu.p &&& 0x80 ≠ 0 := flag_mod_ne_zero t.cpu.p FLAG_MASK_N (by decide)
    rw [e, nes_branch_jmp_cycle]
    refine if_congr (hi.trans ⟨fun hq => Or.inr (Or.inl ⟨rfl, hq⟩), fun hq => ?_⟩) rfl rfl
    rcases hq with ⟨h0, hq⟩ | ⟨h0, hq⟩ | ⟨h0, hq⟩ | ⟨h0, hq⟩ | ⟨h0, hq⟩ | ⟨h0, hq⟩ | ⟨h0, hq⟩ |
      ⟨h0, hq⟩ <;> first | exact hq | exact absurd h0 (by decide)
  by_cases h50 : opc = 0x50
  · subst h50
    have e : nes_cpu_op_switch 0x50 t = nes_branch_jmp t (c_bool (decide (BITMGET t.cpu.p FLAG_MASK_V = 0))) := rfl
    have hi : (c_bool (decide (BITMGET t.cpu.p FLAG_MASK_V = 0))) ≠ 0 ↔ t.cpu.p &&& 0x40 = 0 := c_bool_ne_zero (BITMGET t.cpu.p FLAG_MASK_V = 0)
    rw [e, nes_branch_jmp_cycle]
    refine if_congr (hi.trans ⟨fun hq => Or.inr (Or.inr (Or.inl ⟨rfl, hq⟩)), fun hq => ?_⟩) rfl rfl
    rcases hq with ⟨h0, hq⟩ | ⟨h0, hq⟩ | ⟨h0, hq⟩ | ⟨h0, hq⟩ | ⟨h0, hq⟩ | ⟨h0, hq⟩ | ⟨h0, hq⟩ |
      ⟨h0, hq⟩ <;> first | exact hq | exact absurd h0 (by decide)
  by_cases h70 : opc = 0x70
  · subst h70
    have e : nes_cpu_op_switch 0x70 t = nes_branch_jmp t (BITMGET t.cpu.p FLAG_MASK_V % 0x100) := rfl
    have hi : (BITMGET t.cpu.p FLAG_MASK_V % 0x100) ≠ 0 ↔ t.cpu.p &&& 0x40 ≠ 0 := flag_mod_ne_zero t.cpu.p FLAG_MASK_V (by decide)
    rw [e, nes_branch_jmp_cycle]
    refine if_congr (hi.trans ⟨fun hq => Or.inr (Or.inr (Or.inr (Or.inl ⟨rfl, hq⟩))), fun hq => ?_⟩) rfl rfl
    rcases hq with ⟨h0, hq⟩ | ⟨h0, hq⟩ | ⟨h0, hq⟩ | ⟨h0, hq⟩ | ⟨h0, hq⟩ | ⟨h0, hq⟩ | ⟨h0, hq⟩ |
      ⟨h0, hq⟩ <;> first | exact hq | exact absurd h0 (by decide)
  by_cases h90 : opc = 0x90
  · subst h90
    have e : nes_cpu_op_switch 0x90 t = nes_branch_jmp t (c_bool (decide (BITMGET t.cpu.p FLAG_MASK_C = 0))) := rfl
    have hi : (c_bool (decide (BITMGET t.cpu.p FLAG_MASK_C = 0))) ≠ 0 ↔ t.cpu.p &&& 0x01 = 0 := c_bool_ne_zero (BITMGET t.cpu.p FLAG_MASK_C = 0)
    rw [e, nes_branch_jmp_cycle]
    refine if_congr (hi.trans ⟨fun hq => Or.inr (Or.inr (Or.inr (Or.inr (Or.inl ⟨rfl, hq⟩)))), fun hq => ?_⟩) rfl rfl
    rcases hq with ⟨h0, hq⟩ | ⟨h0, hq⟩ | ⟨h0, hq⟩ | ⟨h0, hq⟩ | ⟨h0, hq⟩ | ⟨h0, hq⟩ | ⟨h0, hq⟩ |
      ⟨h0, hq⟩ <;> first | exact hq | exact absurd h0 (by decide)
  by_cases hB0 : opc = 0xB0
  · subst hB0
    have e : nes_cpu_op_switch 0xB0 t = nes_branch_jmp t (BITMGET t.cpu.p FLAG_MASK_C % 0x100) := rfl
    have hi : (BITMGET t.cpu.p FLAG_MASK_C % 0x100) ≠ 0 ↔ t.cpu.p &&& 0x01 ≠ 0 := flag_mod_ne_zero t.cpu.p FLAG_MASK_C (by decide)
    rw [e, nes_branch_jmp_cycle]
    refine if_congr (hi.trans ⟨fun hq => Or.inr (Or.inr (Or.inr (Or.inr (Or.inr (Or.inl ⟨rfl, hq⟩))))), fun hq => ?_⟩) rfl rfl
    rcases hq with ⟨h0, hq⟩ | ⟨h0, hq⟩ | ⟨h0, hq⟩ | ⟨h0, hq⟩ | ⟨h0, hq⟩ | ⟨h0, hq⟩ | ⟨h0, hq⟩ |
      ⟨h0, hq⟩ <;> first | exact hq | exact absurd h0 (by decide)
  by_cases hD0 : opc = 0xD0
  · subst hD0
    have e : nes_cpu_op_switch 0xD0 t = nes_branch_jmp t (c_bool (decide (BITMGET t.cpu.p FLAG_MASK_Z = 0))) := rfl
    have hi : (c_bool (decide (BITMGET t.cpu.p FLAG_MASK_Z = 0))) ≠ 0 ↔ t.cpu.p &&& 0x02 = 0 := c_bool_ne_zero (BITMGET t.cpu.p FLAG_MASK_Z = 0)
    rw [e, nes_branch_jmp_cycle]
    refine if_congr (hi.trans ⟨fun hq => Or.inr (Or.inr (Or.inr (Or.inr (Or.inr (Or.inr (Or.inl ⟨rfl, hq⟩)))))), fun hq => ?_⟩) rfl rfl
    rcases hq with ⟨h0, hq⟩ | ⟨h0, hq⟩ | ⟨h0, hq⟩ | ⟨h0, hq⟩ | ⟨h0, hq⟩ | ⟨h0, hq⟩ | ⟨h0, hq⟩ |
      ⟨h0, hq⟩ <;> first | exact hq | exact absurd h0 (by decide)
  by_cases hF0 : opc = 0xF0
  · subst hF0
    have e : nes_cpu_op_switch 0xF0 t = nes_branch_jmp t (BITMGET t.cpu.p FLAG_MASK_Z % 0x100) := rfl
    have hi : (BITMGET t.cpu.p FLAG_MASK_Z % 0x100) ≠ 0 ↔ t.cpu.p &&& 0x02 ≠ 0 := flag_mod_ne_zero t.cpu.p FLAG_MASK_Z (by decide)
    rw [e, nes_branch_jmp_cycle]
    refine if_congr (hi.trans ⟨fun hq => Or.inr (Or.inr (Or.inr (Or.inr (Or.inr (Or.inr (Or.inr ⟨rfl, hq⟩)))))), fun hq => ?_⟩) rfl rfl
    rcases hq with ⟨h0, hq⟩ | ⟨h0, hq⟩ | ⟨h0, hq⟩ | ⟨h0, hq⟩ | ⟨h0, hq⟩ | ⟨h0, hq⟩ | ⟨h0, hq⟩ |
      ⟨h0, hq⟩ <;> first | exact hq | exact absurd h0 (by decide)
  rw [nes_cpu_op_switch_cycle_other opc t h10 h30 h50 h70 h90 hB0 hD0 hF0]
  rw [if_neg (by
    intro hq
    rcases hq with ⟨h0, _⟩ | ⟨h0, _⟩ | ⟨h0, _⟩ | ⟨h0, _⟩ | ⟨h0, _⟩ | ⟨h0, _⟩ | ⟨h0, _⟩ |
      ⟨h0, _⟩ <;> contradiction)]

theorem op_cycles_le (o : Nat) (h : o < 0x100) : op_cycles o ≤ 8 := by
  interval_cases o <;> decide

theorem op_page_cycles_le (o : Nat) (h : o < 0x100) : op_page_cycles o ≤ 1 := by
  interval_cases o <;> decide

/-- One call of `nes_cpu_op` while the CPU is not stalled, in terms of the
opcode fetch and of the instruction `nes_cpu_op_switch` runs. -/
theorem nes_cpu_op_running (s : nes_t) (opcode : Nat) (hst : s.cpu.stall = 0)
    (hop : (nes_mem_read_nextb { s with cpu := { s.cpu with pages_crossed := 0 } }).1 % 0x100
      = opcode) :
    (nes_cpu_op s).2.cpu.pc =
      (nes_cpu_op_switch opcode
        (nes_mem_read_nextb { s with cpu := { s.cpu with pages_crossed := 0 } }).2).cpu.pc ∧
    (nes_cpu_op s).2.cpu.pages_crossed =
      (nes_cpu_op_switch opcode
        (nes_mem_read_nextb { s with cpu := { s.cpu with pages_crossed := 0 } }).2
        ).cpu.pages_crossed ∧
    (nes_cpu_op s).2.cpu.cycle =
      (if (nes_cpu_op_switch opcode
          (nes_mem_read_nextb { s with cpu := { s.cpu with pages_crossed := 0 } }).2
          ).cpu.pages_crossed ≠ 0 then
        (((nes_cpu_op_switch opcode
          (nes_mem_read_nextb { s with cpu := { s.cpu with pages_crossed := 0 } }).2).cpu.cycle
            + op_cycles opcode) % 0x10000000000000000 + op_page_cycles opcode)
          % 0x10000000000000000
      else
        ((nes_cpu_op_switch opcode
          (nes_mem_read_nextb { s with cpu := { s.cpu with pages_crossed := 0 } }).2).cpu.cycle
            + op_cycles opcode) % 0x10000000000000000) ∧
    (nes_cpu_op s).1 =
      (((nes_cpu_op s).2.cpu.cycle + 0x10000000000000000 - s.cpu.cycle)
        % 0x10000000000000000) % 0x100000000 := by
  subst hop
  unfold nes_cpu_op
  dsimp only
  rw [if_neg (by rw [hst]; exact fun h => h rfl)]
  exact ⟨rfl, rfl, rfl, rfl⟩

/-- C1 (counterexample). BPL +0 with the N flag clear, at address 0 of the
blank machine (stall 0, page-crossed flag 0 at the end): `op_cycles[$10]` is 2
and no page was crossed, yet `cpu.cycle` goes from 0 to 3 and `nes_cpu_op`
returns 3. -/
theorem cpu_op_cycles_counterexample :
    nes_bpl_example.cpu.stall = 0 ∧
    (nes_mem_readb nes_bpl_example nes_bpl_example.cpu.pc).1 = 0x10 ∧
    op_cycles 0x10 = 2 ∧
    (nes_cpu_op nes_bpl_example).2.cpu.pages_crossed = 0 ∧
    nes_bpl_example.cpu.cycle = 0 ∧
    (nes_cpu_op nes_bpl_example).2.cpu.cycle = 3 ∧
    (nes_cpu_op nes_bpl_example).1 = 3 ∧
    (nes_cpu_op nes_bpl_example).2.cpu.cycle ≠ nes_bpl_example.cpu.cycle + op_cycles 0x10 ∧
    (nes_cpu_op nes_bpl_example).1 ≠ op_cycles 0x10 := by
  decide

/-- C1 (amended). For every opcode byte and every CPU state with stall = 0
(and a 64-bit cycle counter), one call of `nes_cpu_op` increases `cpu.cycle`,
modulo 2^64, by exactly `op_cycles[opcode]`, plus `op_page_cycles[opcode]` when
the page-crossed flag is set at the end of the instruction, plus, when the
instruction is a conditional branch that is taken (opcode $10, $30, $50, $70,
$90, $B0, $D0 or $F0 with the tested bit of P as the branch asks), 1 and 1
more when the branch target is on another page than the byte after the branch
instruction, and by nothing else; the value it returns is that same
amount. -/
theorem cpu_op_cycles (s : nes_t) (opcode : Nat) (hst : s.cpu.stall = 0)
    (hc : s.cpu.cycle < 0x10000000000000000)
    (hop : (nes_mem_read_nextb { s with cpu := { s.cpu with pages_crossed := 0 } }).1 % 0x100
      = opcode) :
    (nes_cpu_op s).2.cpu.cycle =
      (s.cpu.cycle +
        (op_cycles opcode +
          (if (nes_cpu_op s).2.cpu.pages_crossed ≠ 0 then op_page_cycles opcode else 0) +
          (if (opcode = 0x10 ∧ s.cpu.p &&& 0x80 = 0) ∨ (opcode = 0x30 ∧ s.cpu.p &&& 0x80 ≠ 0) ∨
              (opcode = 0x50 ∧ s.cpu.p &&& 0x40 = 0) ∨ (opcode = 0x70 ∧ s.cpu.p &&& 0x40 ≠ 0) ∨
              (opcode = 0x90 ∧ s.cpu.p &&& 0x01 = 0) ∨ (opcode = 0xB0 ∧ s.cpu.p &&& 0x01 ≠ 0) ∨
              (opcode = 0xD0 ∧ s.cpu.p &&& 0x02 = 0) ∨ (opcode = 0xF0 ∧ s.cpu.p &&& 0x02 ≠ 0)
            then
              (if ((s.cpu.pc + 2) % 0x10000) &&& 0xFF00 ≠ (nes_cpu_op s).2.cpu.pc &&& 0xFF00
                then 2 else 1)
            else 0))) % 0x10000000000000000 ∧
    (nes_cpu_op s).1 =
      op_cycles opcode +
        (if (nes_cpu_op s).2.cpu.pages_crossed ≠ 0 then op_page_cycles opcode else 0) +
        (if (opcode = 0x10 ∧ s.cpu.p &&& 0x80 = 0) ∨ (opcode = 0x30 ∧ s.cpu.p &&& 0x80 ≠ 0) ∨
            (opcode = 0x50 ∧ s.cpu.p &&& 0x40 = 0) ∨ (opcode = 0x70 ∧ s.cpu.p &&& 0x40 ≠ 0) ∨
            (opcode = 0x90 ∧ s.cpu.p &&& 0x01 = 0) ∨ (opcode = 0xB0 ∧ s.cpu.p &&& 0x01 ≠ 0) ∨
            (opcode = 0xD0 ∧ s.cpu.p &&& 0x02 = 0) ∨ (opcode = 0xF0 ∧ s.cpu.p &&& 0x02 ≠ 0)
          then
            (if ((s.cpu.pc + 2) % 0x10000) &&& 0xFF00 ≠ (nes_cpu_op s).2.cpu.pc &&& 0xFF00
              then 2 else 1)
          else 0) := by
  obtain ⟨hpc, hpg, hcy, hret⟩ := nes_cpu_op_running s opcode hst hop
  have hlt : opcode < 0x100 := by rw [← hop]; exact Nat.mod_lt _ (by norm_num)
  have hoc := op_cycles_le opcode hlt
  have hpc1 := op_page_cycles_le opcode hlt
  have hsw := nes_cpu_op_switch_cycle opcode
    (nes_mem_read_nextb { s with cpu := { s.cpu with pages_crossed := 0 } }).2
  rw [nes_mem_read_nextb_cpu] at hsw
  dsimp only at hsw
  rw [show ((s.cpu.pc + 1) % 0x10000 + 1) % 0x10000 = (s.cpu.pc + 2) % 0x10000 by omega,
    ← hpc] at hsw
  rw [← hpg, hsw] at hcy
  rw [hret]
  generalize (nes_cpu_op s).2.cpu.cycle = C at hcy ⊢
  generalize (nes_cpu_op s).2.cpu.pages_crossed = G at hcy ⊢
  generalize (s.cpu.pc + 2) % 0x10000 &&& 0xFF00 = A at hcy ⊢
  generalize (nes_cpu_op s).2.cpu.pc &&& 0xFF00 = B at hcy ⊢
  generalize op_cycles opcode = oc at hcy hoc ⊢
  generalize op_page_cycles opcode = pg at hcy hpc1 ⊢
  generalize s.cpu.cycle = c at hcy hc ⊢
  subst hcy
  split_ifs <;> omega

/-- Instances of the amended C1 on the blank machine: LDA #$05 takes
`op_cycles[$A9] = 2` cycles, the taken BPL +0 takes `op_cycles[$10] + 1 = 3`. -/
theorem cpu_op_cycles_witness :
    nes_lda_example.cpu.stall = 0 ∧ (nes_cpu_op nes_lda_example).1 = 2 ∧
    (nes_cpu_op nes_bpl_example).1 = 3 :=
  ⟨rfl, (cpu_op_cycles nes_lda_example 0xA9 rfl (by decide) (by decide)).2.trans (by decide),
    (cpu_op_cycles nes_bpl_example 0x10 rfl (by decide) (by decide)).2.trans (by decide)⟩

/-! ## Flag bytes: what setting or clearing a mask does to the other bits -/

theorem and_mod_byte (y k : Nat) (hk : k < 0x100) : (y % 0x100) &&& k = y &&& k := by
  apply Nat.eq_of_testBit_eq
  intro i
  rw [Nat.testBit_and, Nat.testBit_and, show (0x100 : Nat) = 2 ^ 8 by norm_num,
    Nat.testBit_mod_two_pow]
  by_cases hi : i < 8
  · simp [hi]
  · have h2 : k < 2 ^ i :=
      lt_of_lt_of_le hk (by
        rw [show (0x100 : Nat) = 2 ^ 8 by norm_num]
        exact Nat.pow_le_pow_right (by omega) (by omega))
    simp [hi, Nat.testBit_lt_two_pow h2]

theorem or_and_right (x m k : Nat) : (x ||| m) &&& k = (x &&& k) ||| (m &&& k) := by
  rw [Nat.and_comm, Nat.and_or_distrib_left, Nat.and_comm k x, Nat.and_comm k m]

theorem bitmset_and_other (x m k : Nat) (h : m &&& k = 0) : BITMSET x m &&& k = x &&& k := by
  unfold BITMSET
  rw [or_and_right, h, Nat.or_zero]

theorem bitmset_and_self (x m : Nat) : BITMSET x m &&& m = m := by
  unfold BITMSET
  rw [or_and_right, Nat.and_self]
  apply Nat.eq_of_testBit_eq
  intro i
  rw [Nat.testBit_or, Nat.testBit_and]
  cases x.testBit i <;> cases m.testBit i <;> rfl

theorem bitmclr_and_other (x m k : Nat) (h : BITNOT m &&& k = k) :
    BITMCLR x m &&& k = x &&& k := by
  unfold BITMCLR
  rw [Nat.and_assoc, h]

theorem bitmclr_and_self (x m : Nat) (h : BITNOT m &&& m = 0) : BITMCLR x m &&& m = 0 := by
  unfold BITMCLR
  rw [Nat.and_assoc, h, Nat.and_zero]

/-- Changing the flag `m` of a flag byte leaves the bits `k` outside `m` as
they are. -/
theorem bitmchg_and_other (p m v k : Nat) (hk : k < 0x100) (h1 : m &&& k = 0)
    (h2 : BITNOT m &&& k = k) : (BITMCHG p m v % 0x100) &&& k = p &&& k := by
  rw [and_mod_byte _ _ hk]
  unfold BITMCHG
  split_ifs
  · exact bitmset_and_other p m k h1
  · exact bitmclr_and_other p m k h2

/-- Changing the flag `m` of a flag byte to the truth value of `v`. -/
theorem bitmchg_and_self (p m v : Nat) (hm : m < 0x100) (h2 : BITNOT m &&& m = 0) :
    (BITMCHG p m v % 0x100) &&& m = if v ≠ 0 then m else 0 := by
  rw [and_mod_byte _ _ hm]
  unfold BITMCHG
  split_ifs
  · exact bitmset_and_self p m
  · exact bitmclr_and_self p m h2

theorem bitmset_mod_and_other (p m k : Nat) (hk : k < 0x100) (h1 : m &&& k = 0) :
    (BITMSET p m % 0x100) &&& k = p &&& k := by
  rw [and_mod_byte _ _ hk, bitmset_and_other p m k h1]

theorem bitmset_mod_and_self (p m : Nat) (hm : m < 0x100) :
    (BITMSET p m % 0x100) &&& m = m := by
  rw [and_mod_byte _ _ hm, bitmset_and_self]

theorem bitmclr_mod_and_other (p m k : Nat) (hk : k < 0x100) (h2 : BITNOT m &&& k = k) :
    (BITMCLR p m % 0x100) &&& k = p &&& k := by
  rw [and_mod_byte _ _ hk, bitmclr_and_other p m k h2]

theorem bitmclr_mod_and_self (p m : Nat) (hm : m < 0x100) (h2 : BITNOT m &&& m = 0) :
    (BITMCLR p m % 0x100) &&& m = 0 := by
  rw [and_mod_byte _ _ hm, bitmclr_and_self p m h2]

/-! ## Interrupt entry: the three pushes and the vector fetch -/

/-- A CPU read above the I/O registers has no side effect. -/
theorem nes_mem_readb_high (s : nes_t) (a : Nat) (h : 0x4020 ≤ a) :
    (nes_mem_readb s a).2 = s := by
  unfold nes_mem_readb
  split
  · unfold nes_mem_read_nrom
    rw [if_neg (by omega), if_neg (by omega), if_neg (by omega), if_neg (by omega)]
    split_ifs <;> rfl
  · unfold nes_mem_read_mmc1
    rw [if_neg (by omega), if_neg (by omega), if_neg (by omega), if_neg (by omega)]
    split_ifs <;> rfl
  · unfold nes_mem_read_cnrom
    rw [if_neg (by omega), if_neg (by omega), if_neg (by omega), if_neg (by omega)]
    split_ifs <;> rfl
  · unfold nes_mem_read_mmc3
    dsimp only
    rw [if_neg (by omega), if_neg (by omega), if_neg (by omega), if_neg (by omega)]
    split_ifs <;> rfl

/-- A CPU read above the I/O registers depends on nothing but the PRG RAM,
the PRG bank pointers and the cartridge. -/
theorem nes_mem_readb_high_congr (s t : nes_t) (a : Nat) (h : 0x4020 ≤ a)
    (hp : t.mem.prgram = s.mem.prgram) (hm : t.mem.prg = s.mem.prg) (hc : t.cart = s.cart) :
    (nes_mem_readb t a).1 = (nes_mem_readb s a).1 := by
  have h1 : ¬ a < 0x2000 := by omega
  have h2 : ¬ (a = 0x4016 ∨ a = 0x4017) := by omega
  have h3 : ¬ a < 0x4000 := by omega
  have h4 : ¬ a < 0x4020 := by omega
  unfold nes_mem_readb
  rw [hc]
  split
  · unfold nes_mem_read_nrom nes_prg_read nes_prgram_read
    simp only [h1, h2, h3, h4, if_false, hc, hm, hp]
    split_ifs <;> rfl
  · unfold nes_mem_read_mmc1 nes_prg_read nes_prgram_read
    simp only [h1, h2, h3, h4, if_false, hc, hm, hp]
    split_ifs <;> rfl
  · unfold nes_mem_read_cnrom nes_prg_read
    simp only [h1, h2, h3, h4, if_false, hc, hm]
    split_ifs <;> rfl
  · unfold nes_mem_read_mmc3 nes_prgram_read mmc3_extra
    simp only [h1, h2, h3, h4, if_false, hc, hp]
    split_ifs <;> rfl

/-- A word read above the I/O registers: no side effect, high byte from
`a + 1`. -/
theorem nes_mem_readw_high (s : nes_t) (a : Nat) (h : 0x4020 ≤ a) (h2 : a < 0xFFFF) :
    nes_mem_readw s a =
      ((((nes_mem_readb s (a + 1)).1 <<< 8) % 0x10000) ||| (nes_mem_readb s a).1, s) := by
  unfold nes_mem_readw
  dsimp only
  rw [Nat.mod_eq_of_lt (by omega : a + 1 < 0x10000), nes_mem_readb_high s (a + 1) (by omega),
    nes_mem_readb_high s a h]

/-- A word read above the I/O registers in a state that differs from `s` in
neither PRG RAM, PRG bank pointers nor cartridge. -/
theorem nes_mem_readw_high_congr (s t : nes_t) (a : Nat) (h : 0x4020 ≤ a) (h2 : a < 0xFFFF)
    (hp : t.mem.prgram = s.mem.prgram) (hm : t.mem.prg = s.mem.prg) (hc : t.cart = s.cart) :
    nes_mem_readw t a =
      ((((nes_mem_readb s (a + 1)).1 <<< 8) % 0x10000) ||| (nes_mem_readb s a).1, t) := by
  rw [nes_mem_readw_high t a h h2, nes_mem_readb_high_congr s t (a + 1) (by omega) hp hm hc,
    nes_mem_readb_high_congr s t a h hp hm hc]

/-- The three pushes of an interrupt entry (return address high byte, low
byte, then the status byte): three stores to the stack page and the stack
pointer three lower. -/
theorem nes_push3_ram (s : nes_t) (w p : Nat) (hs : s.cpu.s < 0x100) :
    nes_pushb (nes_pushw s w) p =
      { s with
        mem := { s.mem with
          ram := arr_set (arr_set (arr_set s.mem.ram (0x100 + s.cpu.s) ((w >>> 8) &&& 0xFF))
            (0x100 + (s.cpu.s + 255) % 0x100) (w &&& 0xFF))
            (0x100 + (s.cpu.s + 254) % 0x100) p }
        cpu := { s.cpu with s := (s.cpu.s + 253) % 0x100 } } := by
  have e1 : (s.cpu.s + 0x100 - 1) % 0x100 = (s.cpu.s + 255) % 0x100 := by omega
  have e2 : ((s.cpu.s + 255) % 0x100 + 0x100 - 1) % 0x100 = (s.cpu.s + 254) % 0x100 := by omega
  have e3 : ((s.cpu.s + 254) % 0x100 + 0x100 - 1) % 0x100 = (s.cpu.s + 253) % 0x100 := by omega
  unfold nes_pushw nes_pushw_with
  dsimp only
  change nes_pushb (nes_pushb (nes_pushb s ((w >>> 8) &&& 0xFF)) (w &&& 0xFF)) p = _
  rw [nes_pushb_ram s _ hs, e1]
  rw [nes_pushb_ram _ (w &&& 0xFF) ?_]
  · dsimp only
    rw [e2, nes_pushb_ram _ p ?_]
    · dsimp only
      rw [e3]
    · exact Nat.mod_lt _ (by omega)
  · exact Nat.mod_lt _ (by omega)

@[simp] theorem nes_mem_writeb_p (s : nes_t) (a v : Nat) : (nes_mem_writeb s a v).cpu.p = s.cpu.p := by
  have h := (nes_mem_writeb_with_frame nes_cpu_irq_inner s a v).1
  unfold nes_mem_writeb
  rw [h]

@[simp] theorem nes_pushb_p (s : nes_t) (v : Nat) : (nes_pushb s v).cpu.p = s.cpu.p := by
  unfold nes_pushb nes_pushb_with
  exact nes_mem_writeb_p s _ v

@[simp] theorem nes_pushw_p (s : nes_t) (w : Nat) : (nes_pushw s w).cpu.p = s.cpu.p := by
  change (nes_pushb (nes_pushb s ((w >>> 8) &&& 0xFF)) (w &&& 0xFF)).cpu.p = _
  rw [nes_pushb_p, nes_pushb_p]

theorem nes_pushw_pc (s : nes_t) (w : Nat) : (nes_pushw s w).cpu.pc = s.cpu.pc := by
  have h1 : ∀ (t : nes_t) (v : Nat), (nes_pushb t v).cpu.pc = t.cpu.pc := by
    intro t v
    have h := (nes_mem_writeb_with_frame nes_cpu_irq_inner t (0x0100 ||| t.cpu.s) v).1
    unfold nes_pushb nes_pushb_with nes_mem_writeb
    dsimp only
    rw [h]
  change (nes_pushb (nes_pushb s ((w >>> 8) &&& 0xFF)) (w &&& 0xFF)).cpu.pc = _
  rw [h1, h1]

/-- NMI entry as one state update. -/
theorem nes_cpu_nmi_state (s : nes_t) (hs : s.cpu.s < 0x100) :
    nes_cpu_nmi s =
      { s with
        mem := { s.mem with
          ram := arr_set (arr_set (arr_set s.mem.ram (0x100 + s.cpu.s)
            ((s.cpu.pc >>> 8) &&& 0xFF))
            (0x100 + (s.cpu.s + 255) % 0x100) (s.cpu.pc &&& 0xFF))
            (0x100 + (s.cpu.s + 254) % 0x100) s.cpu.p }
        cpu := { s.cpu with
          s := (s.cpu.s + 253) % 0x100
          p := BITMSET s.cpu.p FLAG_MASK_I % 0x100
          pc := (((nes_mem_readb s 0xFFFB).1 <<< 8) % 0x10000) ||| (nes_mem_readb s 0xFFFA).1
          cycle := (s.cpu.cycle + 7) % 0x10000000000000000 } } := by
  unfold nes_cpu_nmi
  dsimp only
  rw [nes_pushw_p, nes_push3_ram s _ _ hs]
  dsimp only
  unfold NES_VEC_NMI
  rw [nes_mem_readw_high_congr s _ 0xFFFA (by omega) (by omega) ?_ ?_ ?_] <;> rfl

/-- IRQ entry with the I flag clear, as one state update. -/
theorem nes_cpu_irq_state (s : nes_t) (hs : s.cpu.s < 0x100)
    (hi : s.cpu.p &&& FLAG_MASK_I = 0) :
    nes_cpu_irq s =
      { s with
        mem := { s.mem with
          ram := arr_set (arr_set (arr_set s.mem.ram (0x100 + s.cpu.s)
            ((s.cpu.pc >>> 8) &&& 0xFF))
            (0x100 + (s.cpu.s + 255) % 0x100) (s.cpu.pc &&& 0xFF))
            (0x100 + (s.cpu.s + 254) % 0x100) s.cpu.p }
        cpu := { s.cpu with
          s := (s.cpu.s + 253) % 0x100
          p := BITMSET s.cpu.p FLAG_MASK_I % 0x100
          pc := (((nes_mem_readb s 0xFFFF).1 <<< 8) % 0x10000) ||| (nes_mem_readb s 0xFFFE).1
          cycle := (s.cpu.cycle + 7) % 0x10000000000000000 } } := by
  unfold nes_cpu_irq nes_cpu_irq_with
  rw [if_neg (by unfold BITMGET; rw [hi]; exact fun h => h rfl)]
  dsimp only
  have f1 : ∀ (t : nes_t) (w : Nat), nes_pushw_with nes_mem_writeb t w = nes_pushw t w :=
    fun _ _ => rfl
  have f2 : ∀ (t : nes_t) (w : Nat), nes_pushb_with nes_mem_writeb t w = nes_pushb t w :=
    fun _ _ => rfl
  simp only [f1, f2]
  rw [nes_pushw_p, nes_push3_ram s _ _ hs]
  dsimp only
  unfold NES_VEC_IRQ
  rw [nes_mem_readw_high_congr s _ 0xFFFE (by omega) (by omega) ?_ ?_ ?_] <;> rfl

/-! ## MMC3 scanline counter -/

theorem mmc3_extra_set (s : nes_t) (m : nes_mmc3_extra_t) :
    mmc3_extra (set_mmc3_extra s m) = m := rfl

theorem set_mmc3_extra_set (s : nes_t) (m m' : nes_mmc3_extra_t) :
    set_mmc3_extra (set_mmc3_extra s m) m' = set_mmc3_extra s m' := rfl

/-- A scanline tick with the counter at 0 reloads it. -/
theorem nes_mmc3_scanline_reload (s : nes_t) (h : (mmc3_extra s).counter = 0) :
    nes_mmc3_scanline s =
      set_mmc3_extra s { mmc3_extra s with counter := (mmc3_extra s).reload } := by
  unfold nes_mmc3_scanline
  dsimp only
  rw [if_pos h]

/-- A scanline tick with the counter above 1 only decrements it. -/
theorem nes_mmc3_scanline_dec (s : nes_t) (h : 2 ≤ (mmc3_extra s).counter) :
    nes_mmc3_scanline s =
      set_mmc3_extra s { mmc3_extra s with counter := (mmc3_extra s).counter - 1 } := by
  unfold nes_mmc3_scanline
  dsimp only
  rw [if_neg (by omega), if_neg (by omega)]

/-- A scanline tick with the counter at 1 and the IRQ enabled calls
`nes_cpu_irq`. -/
theorem nes_mmc3_scanline_fire (s : nes_t) (h : (mmc3_extra s).counter = 1)
    (hi : (mmc3_extra s).irq ≠ 0) :
    nes_mmc3_scanline s =
      nes_cpu_irq (set_mmc3_extra s { mmc3_extra s with counter := 0 }) := by
  unfold nes_mmc3_scanline
  dsimp only
  rw [if_neg (by omega), if_pos ⟨by omega, hi⟩, h]

/-- A scanline tick with the IRQ disabled changes nothing but the counter. -/
theorem nes_mmc3_scanline_disabled (s : nes_t) (hi : (mmc3_extra s).irq = 0) :
    ∃ c, nes_mmc3_scanline s = set_mmc3_extra s { mmc3_extra s with counter := c } := by
  unfold nes_mmc3_scanline
  dsimp only
  split_ifs with h1 h2
  · exact ⟨_, rfl⟩
  · exact absurd hi h2.2
  · exact ⟨_, rfl⟩

theorem nes_mmc3_scanline_iterate_disabled (k : Nat) (s : nes_t) (m : nes_mmc3_extra_t)
    (hi : m.irq = 0) :
    ∃ c, nes_mmc3_scanline^[k] (set_mmc3_extra s m) = set_mmc3_extra s { m with counter := c } := by
  induction k generalizing m with
  | zero => exact ⟨m.counter, rfl⟩
  | succ k ih =>
    obtain ⟨c, hc⟩ := nes_mmc3_scanline_disabled (set_mmc3_extra s m) hi
    rw [Function.iterate_succ_apply, hc]
    exact ih { m with counter := c } hi

/-- Where the MMC3 IRQ is enabled the `extra` pointer holds an MMC3 struct. -/
theorem set_mmc3_extra_self (s : nes_t) (h : (mmc3_extra s).irq ≠ 0) :
    set_mmc3_extra s (mmc3_extra s) = s := by
  obtain ⟨cpu, apu, mem, ppu, vmem, input, ⟨⟨funcs, extra⟩, mi, cr, rc, rom, vc, vram⟩⟩ := s
  cases extra with
  | word n => exact absurd rfl h
  | mmc1 ex => exact absurd rfl h
  | mmc3 ex => rfl

/-- The first `n` scanline ticks after the counter was 0: a reload to `n`,
then `n - 1` decrements. -/
theorem nes_mmc3_scanline_iterate_count (s : nes_t) (n : Nat)
    (hc : (mmc3_extra s).counter = 0) (hr : (mmc3_extra s).reload = n) (k : Nat)
    (h1 : 1 ≤ k) (hk : k ≤ n) :
    nes_mmc3_scanline^[k] s =
      set_mmc3_extra s { mmc3_extra s with counter := n + 1 - k } := by
  induction k with
  | zero => omega
  | succ k ih =>
    rw [Function.iterate_succ_apply']
    rcases Nat.eq_zero_or_pos k with h0 | h0
    · subst h0
      rw [Function.iterate_zero_apply, nes_mmc3_scanline_reload s hc, hr,
        show n + 1 - (0 + 1) = n by omega]
    · rw [ih h0 (by omega), nes_mmc3_scanline_dec _ (by rw [mmc3_extra_set]; show 2 ≤ n + 1 - k; omega)]
      rw [mmc3_extra_set, set_mmc3_extra_set]
      show set_mmc3_extra s { mmc3_extra s with counter := n + 1 - k - 1 } = _
      rw [show n + 1 - k - 1 = n + 1 - (k + 1) by omega]

/-- The `(n+1)`-th scanline tick calls `nes_cpu_irq`. -/
theorem nes_mmc3_scanline_iterate_fire (s : nes_t) (n : Nat)
    (hc : (mmc3_extra s).counter = 0) (hr : (mmc3_extra s).reload = n) (hn : 1 ≤ n)
    (hi : (mmc3_extra s).irq ≠ 0) :
    nes_mmc3_scanline^[n + 1] s =
      nes_cpu_irq (set_mmc3_extra s { mmc3_extra s with counter := 0 }) := by
  rw [Function.iterate_succ_apply', nes_mmc3_scanline_iterate_count s n hc hr n hn (le_refl n)]
  rw [nes_mmc3_scanline_fire _ (by rw [mmc3_extra_set]; show n + 1 - n = 1; omega)
    (by rw [mmc3_extra_set]; exact hi)]
  rfl

/-- A CPU write to an even address of $E000-$FFFF on an MMC3 cartridge clears
the IRQ enable byte and nothing else. -/
theorem nes_mem_writeb_mmc3_irq_off (s : nes_t) (a v : Nat)
    (hf : s.cart.mapper.funcs = .mmc3) (h1 : 0xE000 ≤ a) (h2 : a ≤ 0xFFFF)
    (he : a &&& 0x01 = 0) :
    nes_mem_writeb s a v = set_mmc3_extra s { mmc3_extra s with irq := 0 } := by
  unfold nes_mem_writeb nes_mem_writeb_with
  rw [hf]
  dsimp only
  unfold nes_mem_write_mmc3
  rw [if_neg (by omega), if_neg (by omega), if_neg (by omega), if_neg (by omega),
    if_neg (by omega), if_pos (by omega)]
  unfold nes_mmc3_write
  dsimp only
  rw [if_neg (by omega), if_neg (by omega), if_neg (by omega), if_pos h2, he]
  rfl

/-- The mapper tick of MMC3 is a scanline tick under the three conditions of
`nes_tick_mmc3`, and nothing otherwise. -/
theorem nes_mapper_tick_mmc3 (t : nes_t) (hf : t.cart.mapper.funcs = .mmc3)
    (hs : t.ppu.scanline ≤ 261) :
    nes_mapper_tick t =
      if t.ppu.cycle = 260 ∧ (t.ppu.scanline ≤ 239 ∨ t.ppu.scanline = 261) ∧
          (BITGET t.ppu.mask NES_PPU_MASK_BG ≠ 0 ∨ BITGET t.ppu.mask NES_PPU_MASK_SPR ≠ 0)
      then nes_mmc3_scanline t else t := by
  unfold nes_mapper_tick
  rw [hf]
  dsimp only
  unfold nes_tick_mmc3
  split_ifs with h1 h2 h3 h4 h5 h6 <;> first | rfl | (exfalso; omega)

/-- The scanline counter of the PPU stays in 0..261: it is 240 after a reset
and the clock takes it from 261 to 0. -/
theorem nes_ppu_clock_count_scanline (ppu : nes_ppu_t) (h : ppu.scanline ≤ 261) :
    (nes_ppu_clock_count ppu).scanline ≤ 261 := by
  unfold nes_ppu_clock_count
  dsimp only
  split_ifs <;> (try dsimp only) <;> omega

/-- C11. MMC3 scanline IRQ.  With the scanline counter at 0, the reload value
`n >= 1`, the IRQ enabled and the CPU I flag clear (stack pointer a byte): each
of the first `n` scanline ticks changes the counter and nothing else, so the
IRQ sequence is not entered; the `(n+1)`-th tick is the call of `nes_cpu_irq`
at counter 0, which enters the sequence (7 cycles added, I set, three bytes
pushed).  After a CPU write to $E000 (any even address of $E000-$FFFF) no
number of scanline ticks changes anything but the counter, so no IRQ is
entered.  On a PPU state with the scanline in 0..261 (the range that the PPU
clock keeps it in), a mapper tick is a scanline tick exactly when
`ppu.cycle = 260`, the scanline is visible (0..239) or pre-render (261), and
background or sprite rendering is enabled; otherwise it does nothing. -/
theorem mmc3_scanline_irq (s : nes_t) (n : Nat)
    (hf : s.cart.mapper.funcs = .mmc3)
    (hc : (mmc3_extra s).counter = 0) (hr : (mmc3_extra s).reload = n) (hn : 1 ≤ n)
    (hi : (mmc3_extra s).irq ≠ 0) (hI : s.cpu.p &&& FLAG_MASK_I = 0) (hs : s.cpu.s < 0x100) :
    (∀ k, 1 ≤ k → k ≤ n →
      nes_mmc3_scanline^[k] s = set_mmc3_extra s { mmc3_extra s with counter := n + 1 - k }) ∧
    nes_mmc3_scanline^[n + 1] s =
      nes_cpu_irq (set_mmc3_extra s { mmc3_extra s with counter := 0 }) ∧
    (nes_mmc3_scanline^[n + 1] s).cpu.cycle = (s.cpu.cycle + 7) % 0x10000000000000000 ∧
    (nes_mmc3_scanline^[n + 1] s).cpu.p &&& FLAG_MASK_I = FLAG_MASK_I ∧
    (nes_mmc3_scanline^[n + 1] s).cpu.s = (s.cpu.s + 253) % 0x100 ∧
    (∀ a v k, 0xE000 ≤ a → a ≤ 0xFFFF → a &&& 0x01 = 0 →
      ∃ c, nes_mmc3_scanline^[k] (nes_mem_writeb s a v) =
        set_mmc3_extra s { mmc3_extra s with irq := 0, counter := c }) ∧
    (∀ t : nes_t, t.cart.mapper.funcs = .mmc3 → t.ppu.scanline ≤ 261 →
      nes_mapper_tick t =
        if t.ppu.cycle = 260 ∧ (t.ppu.scanline ≤ 239 ∨ t.ppu.scanline = 261) ∧
            (BITGET t.ppu.mask NES_PPU_MASK_BG ≠ 0 ∨ BITGET t.ppu.mask NES_PPU_MASK_SPR ≠ 0)
        then nes_mmc3_scanline t else t) ∧
    (∀ ppu : nes_ppu_t, ppu.scanline ≤ 261 → (nes_ppu_clock_count ppu).scanline ≤ 261) := by
  have hfire := nes_mmc3_scanline_iterate_fire s n hc hr hn hi
  have hst := nes_cpu_irq_state (set_mmc3_extra s { mmc3_extra s with counter := 0 }) hs hI
  refine ⟨nes_mmc3_scanline_iterate_count s n hc hr, hfire, ?_, ?_, ?_, ?_,
    fun t ht hsl => nes_mapper_tick_mmc3 t ht hsl, nes_ppu_clock_count_scanline⟩
  · rw [hfire, hst]
    rfl
  · rw [hfire, hst]
    exact bitmset_mod_and_self s.cpu.p FLAG_MASK_I (by decide)
  · rw [hfire, hst]
    rfl
  · intro a v k h1 h2 he
    rw [nes_mem_writeb_mmc3_irq_off s a v hf h1 h2 he]
    exact nes_mmc3_scanline_iterate_disabled k s { mmc3_extra s with irq := 0 } rfl

/-- Instance of C11 with reload value 5: the IRQ sequence is entered on the
sixth scanline tick. -/
theorem mmc3_scanline_irq_witness :
    (∀ k, 1 ≤ k → k ≤ 5 → (nes_mmc3_scanline^[k] nes_mmc3_irq_example).cpu =
      nes_mmc3_irq_example.cpu) ∧
    (nes_mmc3_scanline^[6] nes_mmc3_irq_example).cpu.cycle = 7 ∧
    (nes_mmc3_scanline^[6] nes_mmc3_irq_example).cpu.s = 0xFA :=
  have h := mmc3_scanline_irq nes_mmc3_irq_example 5 rfl rfl rfl (by decide)
    (by decide) (by decide) (by decide)
  ⟨fun k h1 h5 => by rw [h.1 k h1 h5]; rfl, h.2.2.1, h.2.2.2.2.1⟩

/-! ## NMI entry -/

/-- C17. NMI entry.  For every state with the stack pointer a byte (the stack
page $0100-$01FF is CPU RAM), `nes_cpu_nmi` stores the high byte of PC at
$0100|S, the low byte of PC at $0100|(S-1) and P at $0100|(S-2), the stack
pointer taken modulo 256, and changes no other RAM byte; S goes down by 3
modulo 256; the I flag is set and the other bits of P are unchanged; PC is
loaded from the little-endian word at $FFFA (low) and $FFFB (high);
`cpu.cycle` goes up by 7; A, X and Y are unchanged. -/
theorem nmi_sequence (s : nes_t) (hs : s.cpu.s < 0x100) :
    (nes_cpu_nmi s).mem.ram (0x100 ||| s.cpu.s) = (s.cpu.pc >>> 8) &&& 0xFF ∧
    (nes_cpu_nmi s).mem.ram (0x100 ||| ((s.cpu.s + 0x100 - 1) % 0x100)) = s.cpu.pc &&& 0xFF ∧
    (nes_cpu_nmi s).mem.ram (0x100 ||| ((s.cpu.s + 0x100 - 2) % 0x100)) = s.cpu.p ∧
    (∀ a, a ≠ (0x100 ||| s.cpu.s) → a ≠ (0x100 ||| ((s.cpu.s + 0x100 - 1) % 0x100)) →
      a ≠ (0x100 ||| ((s.cpu.s + 0x100 - 2) % 0x100)) →
      (nes_cpu_nmi s).mem.ram a = s.mem.ram a) ∧
    (nes_cpu_nmi s).cpu.s = (s.cpu.s + 0x100 - 3) % 0x100 ∧
    (nes_cpu_nmi s).cpu.p &&& FLAG_MASK_I = FLAG_MASK_I ∧
    (nes_cpu_nmi s).cpu.p &&& 0xFB = s.cpu.p &&& 0xFB ∧
    (nes_cpu_nmi s).cpu.pc =
      (((nes_mem_readb s 0xFFFB).1 <<< 8) % 0x10000) ||| (nes_mem_readb s 0xFFFA).1 ∧
    (nes_cpu_nmi s).cpu.cycle = (s.cpu.cycle + 7) % 0x10000000000000000 ∧
    (nes_cpu_nmi s).cpu.a = s.cpu.a ∧ (nes_cpu_nmi s).cpu.x = s.cpu.x ∧
    (nes_cpu_nmi s).cpu.y = s.cpu.y := by
  have e1 : (s.cpu.s + 0x100 - 1) % 0x100 = (s.cpu.s + 255) % 0x100 := by omega
  have e2 : (s.cpu.s + 0x100 - 2) % 0x100 = (s.cpu.s + 254) % 0x100 := by omega
  have e3 : (s.cpu.s + 0x100 - 3) % 0x100 = (s.cpu.s + 253) % 0x100 := by omega
  have a1 := stack_addr s.cpu.s hs
  have a2 := stack_addr ((s.cpu.s + 255) % 0x100) (Nat.mod_lt _ (by omega))
  have a3 := stack_addr ((s.cpu.s + 254) % 0x100) (Nat.mod_lt _ (by omega))
  rw [e1, e2, e3, a1, a2, a3, nes_cpu_nmi_state s hs]
  dsimp only
  refine ⟨?_, ?_, ?_, ?_, rfl, ?_, ?_, rfl, rfl, rfl, rfl, rfl⟩
  · rw [arr_set_other _ _ _ _ (by omega), arr_set_other _ _ _ _ (by omega), arr_set_same]
  · rw [arr_set_other _ _ _ _ (by omega), arr_set_same]
  · rw [arr_set_same]
  · intro a h1 h2 h3
    rw [arr_set_other _ _ _ _ h3, arr_set_other _ _ _ _ h2, arr_set_other _ _ _ _ h1]
  · exact bitmset_mod_and_self s.cpu.p FLAG_MASK_I (by decide)
  · exact bitmset_mod_and_other s.cpu.p FLAG_MASK_I 0xFB (by decide) (by decide)

/-- Instance of C17: NMI entry with PC = $C123, S = $FD, P = $24. -/
theorem nmi_sequence_witness :
    (nes_cpu_nmi nes_cpu_example).mem.ram 0x1FD = 0xC1 ∧
    (nes_cpu_nmi nes_cpu_example).mem.ram 0x1FC = 0x23 ∧
    (nes_cpu_nmi nes_cpu_example).mem.ram 0x1FB = 0x24 ∧
    (nes_cpu_nmi nes_cpu_example).cpu.s = 0xFA ∧
    (nes_cpu_nmi nes_cpu_example).cpu.cycle = 7 :=
  have h := nmi_sequence nes_cpu_example (by decide)
  ⟨h.1, h.2.1, h.2.2.1, h.2.2.2.2.1, h.2.2.2.2.2.2.2.2.1⟩

/-! ## CNROM bank select -/

/-- A CPU write to $8000-$FFFF on a CNROM cartridge stores the low two bits of
the value as the CHR bank index and changes nothing else. -/
theorem nes_mem_writeb_cnrom_bank (s : nes_t) (a v : Nat)
    (hf : s.cart.mapper.funcs = .cnrom) (ha : 0x8000 ≤ a) :
    nes_mem_writeb s a v =
      { s with cart := { s.cart with
          mapper := { s.cart.mapper with extra := .word (v &&& 0x03) } } } := by
  unfold nes_mem_writeb nes_mem_writeb_with
  rw [hf]
  dsimp only
  unfold nes_mem_write_cnrom
  rw [if_neg (by omega), if_neg (by omega), if_neg (by omega), if_neg (by omega),
    if_neg (by omega), if_pos (by omega)]

/-- A PPU read of the pattern table area on a CNROM cartridge. -/
theorem nes_vmem_readb_cnrom_chr (s : nes_t) (b : Nat) (hf : s.cart.mapper.funcs = .cnrom)
    (hb : b < 0x2000) (hc : s.cart.vram8_count > cnrom_extra s) :
    nes_vmem_readb s b = s.cart.vram (cnrom_extra s) b := by
  have e1 : b &&& 0x3FFF = b := by
    rw [show (0x3FFF : Nat) = 2 ^ 14 - 1 by norm_num, Nat.and_pow_two_sub_one_eq_mod]
    omega
  have e2 : b &&& 0x1FFF = b := by
    rw [show (0x1FFF : Nat) = 2 ^ 13 - 1 by norm_num, Nat.and_pow_two_sub_one_eq_mod]
    omega
  unfold nes_vmem_readb
  rw [hf]
  dsimp only
  unfold nes_vmem_read_cnrom
  dsimp only
  rw [e1, if_neg (by omega), if_pos hb, if_pos hc, e2]

/-- A PPU read of the palette area on a CNROM cartridge does not depend on the
bank index. -/
theorem nes_vmem_readb_cnrom_pal (s : nes_t) (w b : Nat) (hf : s.cart.mapper.funcs = .cnrom)
    (hb : ¬ b &&& 0x3FFF < 0x3F00) :
    nes_vmem_readb { s with cart := { s.cart with
      mapper := { s.cart.mapper with extra := .word w } } } b = nes_vmem_readb s b := by
  unfold nes_vmem_readb
  dsimp only
  rw [hf]
  dsimp only
  unfold nes_vmem_read_cnrom
  dsimp only
  rw [if_pos (show b &&& 0x3FFF ≥ 0x3F00 by omega), if_pos (show b &&& 0x3FFF ≥ 0x3F00 by omega)]

/-- The value returned by a PPU register read does not depend on the CNROM
bank index. -/
theorem nes_ppu_read_cnrom_bank (s : nes_t) (w r : Nat) (hf : s.cart.mapper.funcs = .cnrom) :
    (nes_ppu_read { s with cart := { s.cart with
      mapper := { s.cart.mapper with extra := .word w } } } r).1 = (nes_ppu_read s r).1 := by
  unfold nes_ppu_read
  dsimp only
  split
  · rfl
  · rfl
  · rfl
  · rfl
  · rfl
  · rfl
  · rfl
  · by_cases h : s.ppu.vmem_addr &&& 0x3FFF < 0x3F00
    · rw [if_pos h, if_pos h]
    · rw [if_neg h, if_neg h]
      exact nes_vmem_readb_cnrom_pal s w _ hf h
  · rfl

/-- The value returned by a CPU read does not depend on the CNROM bank
index. -/
theorem nes_mem_readb_cnrom_bank (s : nes_t) (w b : Nat) (hf : s.cart.mapper.funcs = .cnrom) :
    (nes_mem_readb { s with cart := { s.cart with
      mapper := { s.cart.mapper with extra := .word w } } } b).1 = (nes_mem_readb s b).1 := by
  have hp := nes_ppu_read_cnrom_bank s w (b &&& 0x0007) hf
  have e : ∀ t : nes_t, t.cart.mapper.funcs = .cnrom →
      nes_mem_readb t b = nes_mem_read_cnrom t b := by
    intro t ht
    unfold nes_mem_readb
    rw [ht]
  rw [e s hf, e]
  · unfold nes_mem_read_cnrom
    split_ifs
    · rfl
    · unfold nes_input_read
      split_ifs <;> rfl
    · exact hp
    · rfl
    · rfl
    · rfl
    · rfl
  · exact hf

/-- C12. CNROM bank select.  On a CNROM cartridge a CPU write of `v` to any
address from $8000 up ($8000-$FFFF) stores `v & 3` as the CHR bank index and changes
nothing else in the machine; after it, a PPU read of any address `b` in
$0000-$1FFF returns byte `b` of CHR bank `v & 3` whenever the cartridge has
more than `v & 3` CHR banks; and a CPU read of any address returns the same
byte as it does without the write. -/
theorem cnrom_bank_select (s : nes_t) (a v : Nat) (hf : s.cart.mapper.funcs = .cnrom)
    (h1 : 0x8000 ≤ a) :
    nes_mem_writeb s a v =
      { s with cart := { s.cart with
          mapper := { s.cart.mapper with extra := .word (v &&& 0x03) } } } ∧
    (∀ b, b < 0x2000 → s.cart.vram8_count > v &&& 0x03 →
      nes_vmem_readb (nes_mem_writeb s a v) b = s.cart.vram (v &&& 0x03) b) ∧
    (∀ b, (nes_mem_readb (nes_mem_writeb s a v) b).1 = (nes_mem_readb s b).1) := by
  have hw := nes_mem_writeb_cnrom_bank s a v hf h1
  refine ⟨hw, ?_, ?_⟩
  · intro b hb hc
    rw [hw]
    exact nes_vmem_readb_cnrom_chr _ b hf hb hc
  · intro b
    rw [hw]
    exact nes_mem_readb_cnrom_bank s (v &&& 0x03) b hf

/-- Instance of C12: writing $06 to $8000 selects CHR bank 2, whose bytes are
all 3. -/
theorem cnrom_bank_select_witness :
    nes_vmem_readb (nes_mem_writeb nes_cnrom_example 0x8000 0x06) 0x0123 = 3 :=
  (cnrom_bank_select nes_cnrom_example 0x8000 0x06 rfl (by decide)).2.1
    0x0123 (by decide) (by decide)

/-! ## Controller ports -/

/-- On every mapper a CPU read of $4016 is a read of input register 0. -/
theorem nes_mem_readb_4016 (s : nes_t) : nes_mem_readb s 0x4016 = nes_input_read s 0 := by
  unfold nes_mem_readb
  split
  · unfold nes_mem_read_nrom
    rw [if_neg (by omega), if_pos (by omega)]
  · unfold nes_mem_read_mmc1
    rw [if_neg (by omega), if_pos (by omega)]
  · unfold nes_mem_read_cnrom
    rw [if_neg (by omega), if_pos (by omega)]
  · unfold nes_mem_read_mmc3
    dsimp only
    rw [if_neg (by omega), if_pos (by omega)]

/-- On every mapper a CPU read of $4017 is a read of input register 1. -/
theorem nes_mem_readb_4017 (s : nes_t) : nes_mem_readb s 0x4017 = nes_input_read s 1 := by
  unfold nes_mem_readb
  split
  · unfold nes_mem_read_nrom
    rw [if_neg (by omega), if_pos (by omega)]
  · unfold nes_mem_read_mmc1
    rw [if_neg (by omega), if_pos (by omega)]
  · unfold nes_mem_read_cnrom
    rw [if_neg (by omega), if_pos (by omega)]
  · unfold nes_mem_read_mmc3
    dsimp only
    rw [if_neg (by omega), if_pos (by omega)]

/-- On every mapper a CPU write to $4016 is a write of input register 0. -/
theorem nes_mem_writeb_4016 (s : nes_t) (v : Nat) :
    nes_mem_writeb s 0x4016 v = nes_input_write s 0 v := by
  unfold nes_mem_writeb nes_mem_writeb_with
  split
  · unfold nes_mem_write_nrom
    rw [if_neg (by omega), if_neg (by omega), if_neg (by omega), if_pos (by omega)]
  · unfold nes_mem_write_mmc1
    rw [if_neg (by omega), if_neg (by omega), if_neg (by omega), if_pos (by omega)]
  · unfold nes_mem_write_cnrom
    rw [if_neg (by omega), if_neg (by omega), if_neg (by omega), if_pos (by omega)]
  · unfold nes_mem_write_mmc3
    rw [if_neg (by omega), if_neg (by omega), if_neg (by omega), if_pos (by omega)]

/-- The shift registers after a sequence of reads of the two ports: each has
been shifted once per read of its own port. -/
theorem input_reads_shift (l : List Nat) (s : nes_t)
    (hl : ∀ a ∈ l, a = 0x4016 ∨ a = 0x4017) :
    (List.foldl (fun t a => (nes_mem_readb t a).2) s l).input.p1.saved.btns =
      s.input.p1.saved.btns >>> List.count 0x4016 l ∧
    (List.foldl (fun t a => (nes_mem_readb t a).2) s l).input.p2.saved.btns =
      s.input.p2.saved.btns >>> List.count 0x4017 l := by
  induction l generalizing s with
  | nil => exact ⟨rfl, rfl⟩
  | cons a l ih =>
    have ih2 := ih (nes_mem_readb s a).2 (fun b hb => hl b (List.mem_cons_of_mem a hb))
    rw [List.foldl_cons, ih2.1, ih2.2, List.count_cons, List.count_cons]
    rcases hl a (List.mem_cons_self a l) with h | h
    · subst h
      rw [nes_mem_readb_4016]
      refine ⟨?_, ?_⟩
      · show (s.input.p1.saved.btns >>> 1) >>> List.count 0x4016 l = _
        rw [← Nat.shiftRight_add, if_pos (by decide), Nat.add_comm]
      · show s.input.p2.saved.btns >>> List.count 0x4017 l = _
        rw [if_neg (by decide), Nat.add_zero]
    · subst h
      rw [nes_mem_readb_4017]
      refine ⟨?_, ?_⟩
      · show s.input.p1.saved.btns >>> List.count 0x4016 l = _
        rw [if_neg (by decide), Nat.add_zero]
      · show (s.input.p2.saved.btns >>> 1) >>> List.count 0x4017 l = _
        rw [← Nat.shiftRight_add, if_pos (by decide), Nat.add_comm]

/-- A write to $4016: the shift registers take the button masks if the value
differs from the last written one in bit 0 and only there, and keep their
contents otherwise. -/
theorem nes_input_write_saved (s : nes_t) (v : Nat) :
    (nes_mem_writeb s 0x4016 v).input.p1.saved =
      (if v ^^^ s.input.last_write = 0x01 then s.input.p1.cur else s.input.p1.saved) ∧
    (nes_mem_writeb s 0x4016 v).input.p2.saved =
      (if v ^^^ s.input.last_write = 0x01 then s.input.p2.cur else s.input.p2.saved) ∧
    (nes_mem_writeb s 0x4016 v).input.p1.cur = s.input.p1.cur ∧
    (nes_mem_writeb s 0x4016 v).input.p2.cur = s.input.p2.cur ∧
    (nes_mem_writeb s 0x4016 v).input.last_write = v := by
  rw [nes_mem_writeb_4016]
  unfold nes_input_write
  rw [if_pos rfl]
  dsimp only
  split_ifs <;> exact ⟨rfl, rfl, rfl, rfl, rfl⟩

/-- C19. Controller reads.  Let a CPU write to $4016 latch the controller
state (the written value differs from the previous one in bit 0 only), and let
any sequence of CPU reads of $4016 and $4017 follow.  Then the next read of
$4016 returns bit `i` of player 1's button mask as it was at the latch, `i`
being the number of reads of $4016 so far, and the next read of $4017 returns
bit `j` of player 2's mask, `j` being the number of reads of $4017 so far
(bit 0 is A, then B, Select, Start, Up, Down, Left, Right); the reads of the
other port do not count.  In every state a read of one port leaves the other
port's shift register unchanged. -/
theorem controller_reads (s : nes_t) (v : Nat) (hv : v ^^^ s.input.last_write = 0x01)
    (l : List Nat) (hl : ∀ a ∈ l, a = 0x4016 ∨ a = 0x4017) :
    (nes_mem_readb
      (List.foldl (fun t a => (nes_mem_readb t a).2) (nes_mem_writeb s 0x4016 v) l) 0x4016).1 =
      (s.input.p1.cur.btns >>> List.count 0x4016 l) &&& 0x01 ∧
    (nes_mem_readb
      (List.foldl (fun t a => (nes_mem_readb t a).2) (nes_mem_writeb s 0x4016 v) l) 0x4017).1 =
      (s.input.p2.cur.btns >>> List.count 0x4017 l) &&& 0x01 ∧
    (∀ t : nes_t, (nes_mem_readb t 0x4016).2.input.p2 = t.input.p2 ∧
      (nes_mem_readb t 0x4017).2.input.p1 = t.input.p1) := by
  have hw := nes_input_write_saved s v
  rw [if_pos hv, if_pos hv] at hw
  have hr := input_reads_shift l (nes_mem_writeb s 0x4016 v) hl
  rw [hw.1, hw.2.1] at hr
  refine ⟨?_, ?_, ?_⟩
  · rw [nes_mem_readb_4016]
    show (List.foldl (fun t a => (nes_mem_readb t a).2)
      (nes_mem_writeb s 0x4016 v) l).input.p1.saved.btns &&& 0x01 = _
    rw [hr.1]
  · rw [nes_mem_readb_4017]
    show (List.foldl (fun t a => (nes_mem_readb t a).2)
      (nes_mem_writeb s 0x4016 v) l).input.p2.saved.btns &&& 0x01 = _
    rw [hr.2]
  · intro t
    rw [nes_mem_readb_4016, nes_mem_readb_4017]
    exact ⟨rfl, rfl⟩

/-- Instance of C19: player 1 holds A, Select, Down and Right (mask $A5); after
the latch and two reads of $4016 and one of $4017, the third read of $4016
returns the Select bit, 1, and the second read of $4017 returns player 2's B
bit, 0. -/
theorem controller_reads_witness :
    (nes_mem_readb
      (List.foldl (fun t a => (nes_mem_readb t a).2) (nes_mem_writeb nes_input_example 0x4016 1)
        [0x4016, 0x4017, 0x4016]) 0x4016).1 = 1 ∧
    (nes_mem_readb
      (List.foldl (fun t a => (nes_mem_readb t a).2) (nes_mem_writeb nes_input_example 0x4016 1)
        [0x4016, 0x4017, 0x4016]) 0x4017).1 = 0 :=
  have h := controller_reads nes_input_example 1 (by decide) [0x4016, 0x4017, 0x4016]
    (by decide)
  ⟨h.1.trans (by decide), h.2.1.trans (by decide)⟩

/-- C20, as stated, fails: with the last written value 0 and empty shift
registers, writing 1 to $4016 (bit 0 goes from 0 to 1) copies the button masks
$A5 and $3C into the shift registers; and with the last written value 3,
writing 0 (bit 0 goes from 1 to 0) leaves the shift registers empty. -/
theorem strobe_latch_counterexample :
    nes_input_example.input.last_write = 0 ∧
    nes_input_example.input.p1.saved.btns = 0 ∧
    nes_input_example.input.p2.saved.btns = 0 ∧
    (nes_mem_writeb nes_input_example 0x4016 1).input.p1.saved.btns = 0xA5 ∧
    (nes_mem_writeb nes_input_example 0x4016 1).input.p2.saved.btns = 0x3C ∧
    (nes_mem_writeb (nes_mem_writeb nes_input_example 0x4016 3) 0x4016 0).input.p1.saved.btns
      = 0 ∧
    (nes_mem_writeb (nes_mem_writeb nes_input_example 0x4016 3) 0x4016 0).input.p2.saved.btns
      = 0 := by
  refine ⟨rfl, rfl, rfl, ?_, ?_, ?_, ?_⟩
  · rw [(nes_input_write_saved nes_input_example 1).1]
    rfl
  · rw [(nes_input_write_saved nes_input_example 1).2.1]
    rfl
  · rw [(nes_input_write_saved _ 0).1, (nes_input_write_saved nes_input_example 3).2.2.2.2,
      if_neg (by decide), (nes_input_write_saved nes_input_example 3).1]
    rfl
  · rw [(nes_input_write_saved _ 0).2.1, (nes_input_write_saved nes_input_example 3).2.2.2.2,
      if_neg (by decide), (nes_input_write_saved nes_input_example 3).2.1]
    rfl

/-- C20, amended.  For every input state and written value, a CPU write to
$4016 copies the current button masks of both players into their shift
registers exactly when the written value differs from the previously written
one in bit 0 and in no other bit (their exclusive or is 1), whichever way
bit 0 changes; every other write, in particular one that leaves bit 0
unchanged, leaves both shift registers unchanged.  The button masks stay as
they are and the written value becomes the previously written one. -/
theorem strobe_latch (s : nes_t) (v : Nat) :
    (nes_mem_writeb s 0x4016 v).input.p1.saved =
      (if v ^^^ s.input.last_write = 0x01 then s.input.p1.cur else s.input.p1.saved) ∧
    (nes_mem_writeb s 0x4016 v).input.p2.saved =
      (if v ^^^ s.input.last_write = 0x01 then s.input.p2.cur else s.input.p2.saved) ∧
    (v &&& 0x01 = s.input.last_write &&& 0x01 →
      (nes_mem_writeb s 0x4016 v).input.p1.saved = s.input.p1.saved ∧
      (nes_mem_writeb s 0x4016 v).input.p2.saved = s.input.p2.saved) ∧
    (nes_mem_writeb s 0x4016 v).input.p1.cur = s.input.p1.cur ∧
    (nes_mem_writeb s 0x4016 v).input.p2.cur = s.input.p2.cur ∧
    (nes_mem_writeb s 0x4016 v).input.last_write = v := by
  have h := nes_input_write_saved s v
  refine ⟨h.1, h.2.1, ?_, h.2.2.1, h.2.2.2.1, h.2.2.2.2⟩
  intro hb
  have hx : ¬ v ^^^ s.input.last_write = 0x01 := by
    intro hx
    have h1 := congrArg (fun z => z &&& 0x01) hx
    dsimp only at h1
    rw [Nat.and_xor_distrib_right, hb, Nat.xor_self] at h1
    exact absurd h1 (by decide)
  rw [h.1, h.2.1, if_neg hx, if_neg hx]
  exact ⟨rfl, rfl⟩

/-- Instance of C20 (amended): writing 2 after 0 leaves bit 0 unchanged and
the shift registers as they were. -/
theorem strobe_latch_witness :
    (nes_mem_writeb nes_input_example 0x4016 2).input.p1.saved =
      nes_input_example.input.p1.saved ∧
    (nes_mem_writeb nes_input_example 0x4016 2).input.p2.saved =
      nes_input_example.input.p2.saved :=
  (strobe_latch nes_input_example 2).2.2.1 (by decide)

/-! ## DMC output level -/

theorem nes_apu_step_len_dmc (s : nes_t) : (nes_apu_step_len s).apu.dmc = s.apu.dmc := rfl

theorem nes_apu_step_sweep_dmc (s : nes_t) : (nes_apu_step_sweep s).apu.dmc = s.apu.dmc := rfl

theorem nes_apu_step_env_dmc (s : nes_t) : (nes_apu_step_env s).apu.dmc = s.apu.dmc := rfl

/-- One shifter step keeps the DMC level within 0..127. -/
theorem nes_apu_dmc_step_shifter_value (d : nes_apu_dmc_t) (h : d.value ≤ 127) :
    (nes_apu_dmc_step_shifter d).value ≤ 127 := by
  unfold nes_apu_dmc_step_shifter
  dsimp only
  split_ifs <;> (try dsimp only) <;> omega

/-- The frame sequencer step keeps the DMC level within 0..127 if the
interrupt entry does. -/
theorem nes_apu_step_frame_counter_dmc_value (irq : nes_t → nes_t) (s : nes_t)
    (hirq : ∀ t : nes_t, t.apu.dmc.value ≤ 127 → (irq t).apu.dmc.value ≤ 127)
    (h : s.apu.dmc.value ≤ 127) :
    (nes_apu_step_frame_counter irq s).apu.dmc.value ≤ 127 := by
  unfold nes_apu_step_frame_counter nes_apu_fire_irq
  dsimp only
  split_ifs <;> (try split) <;>
    first
    | exact h
    | exact hirq _ h

/-- An APU register write keeps the DMC level within 0..127. -/
theorem nes_apu_write_dmc_value (irq : nes_t → nes_t) (s : nes_t) (a v : Nat)
    (h : s.apu.dmc.value ≤ 127) : (nes_apu_write irq s a v).apu.dmc.value ≤ 127 := by
  rw [nes_apu_write_irq_indep]
  unfold nes_apu_write
  split_ifs
  · exact h
  · exact h
  · exact h
  · exact h
  · show (nes_apu_dmc_write s.apu.dmc (a - 0x10) v).value ≤ 127
    unfold nes_apu_dmc_write
    split
    · exact h
    · show v &&& 0x7F ≤ 127
      exact Nat.and_le_right
    · exact h
    · exact h
    · exact h
  · unfold nes_apu_write_ctrl
    dsimp only
    split_ifs <;> exact h
  · unfold nes_apu_write_frame_counter
    dsimp only
    split_ifs
    · exact nes_apu_step_frame_counter_dmc_value id _ (fun _ ht => ht) h
    · exact h
  · exact h

/-- A CPU bus write keeps the DMC level within 0..127: the only store to it
is the register write of $4011, which masks the value with $7F. -/
theorem nes_mem_writeb_dmc_value (s : nes_t) (a v : Nat) (h : s.apu.dmc.value ≤ 127) :
    (nes_mem_writeb s a v).apu.dmc.value ≤ 127 := by
  have k : ∀ t : nes_t, t.apu = s.apu → t.apu.dmc.value ≤ 127 := by
    intro t ht
    rw [ht]
    exact h
  exact nes_mem_writeb_with_cases nes_cpu_irq_inner (fun t => t.apu.dmc.value ≤ 127) s a v h h
    (k _ (nes_ppu_write_frame s (a &&& 0x0007) v).2.1)
    (k _ (nes_ppu_oamdma_frame s v).2.1)
    (k _ (nes_input_write_frame s (a - 0x4016) v).2.1)
    (nes_apu_write_dmc_value nes_cpu_irq_inner s (a - 0x4000) v h)
    (k _ (nes_prgram_write_frame s (a - 0x6000) v).2.1)
    (k _ (nes_mmc1_write_reg_frame s a v).2.1)
    (k _ (nes_mmc3_write_frame s a v).2.1) h

theorem nes_pushb_dmc_value (s : nes_t) (v : Nat) (h : s.apu.dmc.value ≤ 127) :
    (nes_pushb s v).apu.dmc.value ≤ 127 := by
  unfold nes_pushb nes_pushb_with
  exact nes_mem_writeb_dmc_value s _ v h

theorem nes_mem_readw_apu (s : nes_t) (a : Nat) : (nes_mem_readw s a).2.apu = s.apu := by
  unfold nes_mem_readw
  dsimp only
  rw [nes_mem_readb_apu, nes_mem_readb_apu]

/-- The IRQ entry keeps the DMC level within 0..127. -/
theorem nes_cpu_irq_dmc_value (s : nes_t) (h : s.apu.dmc.value ≤ 127) :
    (nes_cpu_irq s).apu.dmc.value ≤ 127 := by
  unfold nes_cpu_irq nes_cpu_irq_with
  split_ifs
  · exact h
  · dsimp only
    rw [nes_mem_readw_apu]
    exact nes_pushb_dmc_value _ _ (nes_pushb_dmc_value _ _ (nes_pushb_dmc_value _ _ h))

/-- The DMC timer step keeps the DMC level within 0..127. -/
theorem nes_apu_dmc_step_tmr_value (s : nes_t) (h : s.apu.dmc.value ≤ 127) :
    (nes_apu_dmc_step_tmr s).apu.dmc.value ≤ 127 := by
  have hr : (nes_apu_dmc_step_reader s).apu.dmc.value = s.apu.dmc.value := by
    unfold nes_apu_dmc_step_reader nes_apu_dmc_restart
    dsimp only
    split_ifs <;> simp
  unfold nes_apu_dmc_step_tmr
  split_ifs
  · exact h
  · dsimp only
    split_ifs
    · exact nes_apu_dmc_step_shifter_value _ (by rw [← hr] at h; exact h)
    · show (nes_apu_dmc_step_reader s).apu.dmc.value ≤ 127
      rw [hr]
      exact h

/-- One APU tick keeps the DMC level within 0..127. -/
theorem nes_apu_tick_dmc_value (f g b : Bool) (out : Nat) (s : nes_t)
    (h : s.apu.dmc.value ≤ 127) : (nes_apu_tick f g b out s).apu.dmc.value ≤ 127 := by
  have h1 : ∀ t : nes_t, t.apu.dmc.value ≤ 127 → (nes_apu_step_tmr t).apu.dmc.value ≤ 127 := by
    intro t ht
    unfold nes_apu_step_tmr
    dsimp only
    split_ifs
    · exact nes_apu_dmc_step_tmr_value _ ht
    · exact ht
  have h2 : ∀ t : nes_t, t.apu.dmc.value ≤ 127 →
      (nes_apu_send_sample b out t).apu.dmc.value ≤ 127 := by
    intro t ht
    unfold nes_apu_send_sample
    split_ifs
    · exact ht
    · exact ht
    · exact ht
  unfold nes_apu_tick
  dsimp only
  cases f <;> cases g
  · exact h1 _ h
  · exact h2 _ (h1 _ h)
  · exact nes_apu_step_frame_counter_dmc_value nes_cpu_irq _ nes_cpu_irq_dmc_value (h1 _ h)
  · exact h2 _
      (nes_apu_step_frame_counter_dmc_value nes_cpu_irq _ nes_cpu_irq_dmc_value (h1 _ h))

/-- C13. DMC output level.  In every machine state reachable from
`nes_apu_init` through APU register writes, APU ticks (whatever the frame
sequencer and the sample clock do in them, DMC memory reads and IRQ entries
included) and steps that leave the APU alone, the DMC output level `dmc.value`
is in 0..127.  A shifter step with bits left adds 2 to the level when bit 0 of
the shift register is 1 and the level is at most 125, subtracts 2 when bit 0
is 0 and the level is at least 2, and leaves the level as it is otherwise. -/
theorem dmc_value_range (s : nes_t) (h : apu_reachable s) :
    s.apu.dmc.value ≤ 127 ∧
    (s.apu.dmc.bit ≠ 0 →
      (nes_apu_dmc_step_shifter s.apu.dmc).value =
        if s.apu.dmc.shift &&& 1 ≠ 0 then
          (if s.apu.dmc.value ≤ 125 then s.apu.dmc.value + 2 else s.apu.dmc.value)
        else
          (if s.apu.dmc.value ≥ 2 then s.apu.dmc.value - 2 else s.apu.dmc.value)) ∧
    (nes_apu_dmc_step_shifter s.apu.dmc).value ≤ 127 := by
  have hv : s.apu.dmc.value ≤ 127 := by
    induction h with
    | init s bsize h0 =>
      rw [h0]
      exact Nat.zero_le _
    | write s a v _ ih => exact nes_apu_write_dmc_value nes_cpu_irq s a v ih
    | tick s f g b out _ ih => exact nes_apu_tick_dmc_value f g b out s ih
    | drain s _ ih => exact ih
    | other s t _ ht ih =>
      rw [ht]
      exact ih
  refine ⟨hv, ?_, nes_apu_dmc_step_shifter_value _ hv⟩
  intro hb
  unfold nes_apu_dmc_step_shifter
  rw [if_neg hb]
  dsimp only
  split_ifs <;> rfl

/-- Instance of C13: after power-on, writing $FF to $4011 leaves the level at
$7F. -/
theorem dmc_value_range_witness :
    apu_reachable (nes_apu_write nes_cpu_irq nes_apu_power_on 0x11 0xFF) ∧
    (nes_apu_write nes_cpu_irq nes_apu_power_on 0x11 0xFF).apu.dmc.value = 0x7F ∧
    (nes_apu_write nes_cpu_irq nes_apu_power_on 0x11 0xFF).apu.dmc.value ≤ 127 :=
  ⟨apu_reachable.write _ 0x11 0xFF (apu_reachable.init _ 0 rfl), by decide,
    (dmc_value_range _ (apu_reachable.write _ 0x11 0xFF (apu_reachable.init _ 0 rfl))).1⟩

/-! ## BRK -/

/-- The state after one call of `nes_cpu_op` while the CPU is not stalled: the
state after the instruction, with the table cycles added. -/
theorem nes_cpu_op_state (s : nes_t) (opcode : Nat) (hst : s.cpu.stall = 0)
    (hop : (nes_mem_read_nextb { s with cpu := { s.cpu with pages_crossed := 0 } }).1 % 0x100
      = opcode) :
    (nes_cpu_op s).2 =
      { nes_cpu_op_switch opcode
          (nes_mem_read_nextb { s with cpu := { s.cpu with pages_crossed := 0 } }).2 with
        cpu := { (nes_cpu_op_switch opcode
            (nes_mem_read_nextb { s with cpu := { s.cpu with pages_crossed := 0 } }).2).cpu with
          cycle := (nes_cpu_op s).2.cpu.cycle } } := by
  subst hop
  unfold nes_cpu_op
  dsimp only
  rw [if_neg (by rw [hst]; exact fun h => h rfl)]

/-- The byte that a PPU register read returns does not depend on the CPU
registers. -/
theorem nes_ppu_read_cpu_indep (s : nes_t) (c : nes_cpu_t) (r : Nat) :
    (nes_ppu_read { s with cpu := c } r).1 = (nes_ppu_read s r).1 := by
  unfold nes_ppu_read
  dsimp only
  split
  · rfl
  · rfl
  · rfl
  · rfl
  · rfl
  · rfl
  · rfl
  · have e : ∀ x, nes_vmem_readb { s with cpu := c } x = nes_vmem_readb s x := by
      intro x
      unfold nes_vmem_readb
      dsimp only
      split
      · unfold nes_vmem_read_nrom cart_mirror
        rfl
      · unfold nes_vmem_read_mmc1 cart_mirror
        rfl
      · unfold nes_vmem_read_cnrom cart_mirror cnrom_extra
        rfl
      · unfold nes_vmem_read_mmc3 cart_mirror mmc3_extra
        rfl
    rw [e]
    split_ifs <;> rfl
  · rfl

/-- The byte that a CPU read returns does not depend on the CPU registers. -/
theorem nes_mem_readb_cpu_indep (s : nes_t) (c : nes_cpu_t) (a : Nat) :
    (nes_mem_readb { s with cpu := c } a).1 = (nes_mem_readb s a).1 := by
  have hp := nes_ppu_read_cpu_indep s c (a &&& 0x0007)
  have hi : (nes_input_read { s with cpu := c } (a - 0x4016)).1 =
      (nes_input_read s (a - 0x4016)).1 := by
    unfold nes_input_read
    split_ifs <;> rfl
  unfold nes_mem_readb
  dsimp only
  split
  · unfold nes_mem_read_nrom
    exact fst_ite_congr _ _ _ _ _ rfl (fst_ite_congr _ _ _ _ _ hi (fst_ite_congr _ _ _ _ _ hp
      (fst_ite_congr _ _ _ _ _ rfl (fst_ite_congr _ _ _ _ _ rfl (fst_ite_congr _ _ _ _ _ rfl
        (fst_ite_congr _ _ _ _ _ rfl rfl))))))
  · unfold nes_mem_read_mmc1
    exact fst_ite_congr _ _ _ _ _ rfl (fst_ite_congr _ _ _ _ _ hi (fst_ite_congr _ _ _ _ _ hp
      (fst_ite_congr _ _ _ _ _ rfl (fst_ite_congr _ _ _ _ _ rfl (fst_ite_congr _ _ _ _ _ rfl
        (fst_ite_congr _ _ _ _ _ rfl rfl))))))
  · unfold nes_mem_read_cnrom
    exact fst_ite_congr _ _ _ _ _ rfl (fst_ite_congr _ _ _ _ _ hi (fst_ite_congr _ _ _ _ _ hp
      (fst_ite_congr _ _ _ _ _ rfl (fst_ite_congr _ _ _ _ _ rfl
        (fst_ite_congr _ _ _ _ _ rfl rfl)))))
  · unfold nes_mem_read_mmc3
    dsimp only
    exact fst_ite_congr _ _ _ _ _ rfl (fst_ite_congr _ _ _ _ _ hi (fst_ite_congr _ _ _ _ _ hp
      (fst_ite_congr _ _ _ _ _ rfl (fst_ite_congr _ _ _ _ _ rfl
        (fst_ite_congr _ _ _ _ _ rfl rfl)))))

/-- The opcode fetch: the byte at PC, PC one further, and nothing else changed
in the CPU registers, the memory or the cartridge. -/
theorem nes_mem_read_nextb_fetch (s : nes_t) :
    (nes_mem_read_nextb { s with cpu := { s.cpu with pages_crossed := 0 } }).1 =
      (nes_mem_readb s s.cpu.pc).1 ∧
    (nes_mem_read_nextb { s with cpu := { s.cpu with pages_crossed := 0 } }).2.cpu =
      { s.cpu with pages_crossed := 0, pc := (s.cpu.pc + 1) % 0x10000 } ∧
    (nes_mem_read_nextb { s with cpu := { s.cpu with pages_crossed := 0 } }).2.mem = s.mem ∧
    (nes_mem_read_nextb { s with cpu := { s.cpu with pages_crossed := 0 } }).2.cart = s.cart := by
  have hf := nes_mem_readb_frame { s with cpu := { s.cpu with pages_crossed := 0 } } s.cpu.pc
  refine ⟨?_, nes_mem_read_nextb_cpu _, ?_, ?_⟩
  · unfold nes_mem_read_nextb
    exact nes_mem_readb_cpu_indep s _ s.cpu.pc
  · unfold nes_mem_read_nextb
    exact hf.2.2.1
  · unfold nes_mem_read_nextb
    exact hf.2.2.2.2

/-- BRK with the I flag clear, as one state update. -/
theorem nes_op_brk_state (t : nes_t) (hs : t.cpu.s < 0x100)
    (hi : t.cpu.p &&& FLAG_MASK_I = 0) :
    nes_op_brk t =
      { t with
        mem := { t.mem with
          ram := arr_set (arr_set (arr_set t.mem.ram (0x100 + t.cpu.s)
            ((((t.cpu.pc + 0x10000 - 1) % 0x10000) >>> 8) &&& 0xFF))
            (0x100 + (t.cpu.s + 255) % 0x100) (((t.cpu.pc + 0x10000 - 1) % 0x10000) &&& 0xFF))
            (0x100 + (t.cpu.s + 254) % 0x100) t.cpu.p }
        cpu := { t.cpu with
          s := (t.cpu.s + 253) % 0x100
          p := BITMSET t.cpu.p FLAG_MASK_I % 0x100
          pc := (((nes_mem_readb t 0xFFFF).1 <<< 8) % 0x10000) |||
            (nes_mem_readb t 0xFFFE).1 } } := by
  unfold nes_op_brk
  rw [if_pos (by unfold BITMGET; exact hi)]
  dsimp only
  rw [nes_pushw_p, nes_push3_ram t _ _ hs]
  dsimp only
  unfold NES_VEC_IRQ
  rw [nes_mem_readw_high_congr t _ 0xFFFE (by omega) (by omega) ?_ ?_ ?_] <;> rfl

/-- BRK with the I flag set does nothing. -/
theorem nes_op_brk_masked (t : nes_t) (hi : t.cpu.p &&& FLAG_MASK_I ≠ 0) :
    nes_op_brk t = t := by
  unfold nes_op_brk
  rw [if_neg (by unfold BITMGET; exact hi)]

/-- C18, as stated, fails: with the I flag set (P = $24, PC = $C123,
S = $FD, the byte at PC being $00), BRK pushes nothing (S and the stack page
are unchanged), leaves P as it is and goes on at $C124 instead of at the
address in $FFFE/$FFFF (here $0000). -/
theorem brk_counterexample :
    nes_cpu_example.cpu.stall = 0 ∧
    (nes_mem_readb nes_cpu_example nes_cpu_example.cpu.pc).1 = 0x00 ∧
    nes_cpu_example.cpu.p &&& FLAG_MASK_I ≠ 0 ∧
    (nes_cpu_op nes_cpu_example).2.cpu.s = nes_cpu_example.cpu.s ∧
    (nes_cpu_op nes_cpu_example).2.mem.ram 0x1FD = nes_cpu_example.mem.ram 0x1FD ∧
    (nes_cpu_op nes_cpu_example).2.mem.ram 0x1FC = nes_cpu_example.mem.ram 0x1FC ∧
    (nes_cpu_op nes_cpu_example).2.mem.ram 0x1FB = nes_cpu_example.mem.ram 0x1FB ∧
    (nes_cpu_op nes_cpu_example).2.cpu.p = 0x24 ∧
    (nes_cpu_op nes_cpu_example).2.cpu.pc = 0xC124 ∧
    (nes_mem_readw nes_cpu_example 0xFFFE).1 = 0x0000 := by
  decide

/-- C18, amended.  For every CPU state with stall = 0 (S a byte, the cycle
counter below 2^64) whose byte at PC is $00, `nes_cpu_op` costs 7 cycles, and:
with the I flag clear, BRK pushes three bytes (two of return address, then P,
whose bits other than B are those of the P register; S goes down by 3 modulo
256 and no other RAM byte changes), sets I and leaves the other flags, and
loads PC from the little-endian word at $FFFE/$FFFF; with the I flag set, it
pushes nothing and leaves S, P and the memory unchanged, PC being the address
after the opcode byte. -/
theorem brk_sequence (s : nes_t) (hst : s.cpu.stall = 0)
    (hc : s.cpu.cycle < 0x10000000000000000)
    (hop : (nes_mem_readb s s.cpu.pc).1 % 0x100 = 0x00) (hs : s.cpu.s < 0x100) :
    (nes_cpu_op s).1 = 7 ∧
    (nes_cpu_op s).2.cpu.cycle = (s.cpu.cycle + 7) % 0x10000000000000000 ∧
    (s.cpu.p &&& FLAG_MASK_I = 0 →
      (nes_cpu_op s).2.cpu.s = (s.cpu.s + 0x100 - 3) % 0x100 ∧
      (nes_cpu_op s).2.mem.ram (0x100 ||| ((s.cpu.s + 0x100 - 2) % 0x100)) &&& 0xEF =
        s.cpu.p &&& 0xEF ∧
      (∀ a, a ≠ (0x100 ||| s.cpu.s) → a ≠ (0x100 ||| ((s.cpu.s + 0x100 - 1) % 0x100)) →
        a ≠ (0x100 ||| ((s.cpu.s + 0x100 - 2) % 0x100)) →
        (nes_cpu_op s).2.mem.ram a = s.mem.ram a) ∧
      (nes_cpu_op s).2.cpu.p &&& FLAG_MASK_I = FLAG_MASK_I ∧
      (nes_cpu_op s).2.cpu.p &&& 0xFB = s.cpu.p &&& 0xFB ∧
      (nes_cpu_op s).2.cpu.pc =
        (((nes_mem_readb s 0xFFFF).1 <<< 8) % 0x10000) ||| (nes_mem_readb s 0xFFFE).1) ∧
    (s.cpu.p &&& FLAG_MASK_I ≠ 0 →
      (nes_cpu_op s).2.cpu.s = s.cpu.s ∧ (nes_cpu_op s).2.mem = s.mem ∧
      (nes_cpu_op s).2.cpu.p = s.cpu.p ∧
      (nes_cpu_op s).2.cpu.pc = (s.cpu.pc + 1) % 0x10000) := by
  obtain ⟨hf1, hf2, hf3, hf4⟩ := nes_mem_read_nextb_fetch s
  have hop2 : (nes_mem_read_nextb { s with cpu := { s.cpu with pages_crossed := 0 } }).1 % 0x100
      = 0x00 := by rw [hf1]; exact hop
  have hstate := nes_cpu_op_state s 0x00 hst hop2
  obtain ⟨_, _, hcy, hret⟩ := nes_cpu_op_running s 0x00 hst hop2
  have hsw : nes_cpu_op_switch 0x00
      (nes_mem_read_nextb { s with cpu := { s.cpu with pages_crossed := 0 } }).2 =
      nes_op_brk (nes_mem_read_nextb { s with cpu := { s.cpu with pages_crossed := 0 } }).2 :=
    rfl
  rw [hsw] at hstate hcy
  have hFs : (nes_mem_read_nextb { s with cpu := { s.cpu with pages_crossed := 0 } }).2.cpu.s
      = s.cpu.s := by rw [hf2]
  have hFp : (nes_mem_read_nextb { s with cpu := { s.cpu with pages_crossed := 0 } }).2.cpu.p
      = s.cpu.p := by rw [hf2]
  have hFc : (nes_mem_read_nextb { s with cpu := { s.cpu with pages_crossed := 0 } }).2.cpu.cycle
      = s.cpu.cycle := by rw [hf2]
  have hFg : (nes_mem_read_nextb
      { s with cpu := { s.cpu with pages_crossed := 0 } }).2.cpu.pages_crossed = 0 := by rw [hf2]
  have hFpc : (nes_mem_read_nextb { s with cpu := { s.cpu with pages_crossed := 0 } }).2.cpu.pc
      = (s.cpu.pc + 1) % 0x10000 := by rw [hf2]
  have hcycle : (nes_cpu_op s).2.cpu.cycle = (s.cpu.cycle + 7) % 0x10000000000000000 := by
    rw [hcy]
    by_cases hi : s.cpu.p &&& FLAG_MASK_I = 0
    · rw [nes_op_brk_state _ (by rw [hFs]; exact hs) (by rw [hFp]; exact hi)]
      dsimp only
      rw [hFg, hFc, if_neg (fun h => h rfl)]
      rfl
    · rw [nes_op_brk_masked _ (by rw [hFp]; exact hi), hFg, hFc, if_neg (fun h => h rfl)]
      rfl
  refine ⟨?_, hcycle, ?_, ?_⟩
  · rw [hret, hcycle]
    omega
  · intro hi
    have e1 : (s.cpu.s + 0x100 - 1) % 0x100 = (s.cpu.s + 255) % 0x100 := by omega
    have e2 : (s.cpu.s + 0x100 - 2) % 0x100 = (s.cpu.s + 254) % 0x100 := by omega
    have e3 : (s.cpu.s + 0x100 - 3) % 0x100 = (s.cpu.s + 253) % 0x100 := by omega
    have a1 := stack_addr s.cpu.s hs
    have a2 := stack_addr ((s.cpu.s + 255) % 0x100) (Nat.mod_lt _ (by omega))
    have a3 := stack_addr ((s.cpu.s + 254) % 0x100) (Nat.mod_lt _ (by omega))
    have hv1 := nes_mem_readb_high_congr s
      (nes_mem_read_nextb { s with cpu := { s.cpu with pages_crossed := 0 } }).2 0xFFFF
      (by omega) (by rw [hf3]) (by rw [hf3]) hf4
    have hv2 := nes_mem_readb_high_congr s
      (nes_mem_read_nextb { s with cpu := { s.cpu with pages_crossed := 0 } }).2 0xFFFE
      (by omega) (by rw [hf3]) (by rw [hf3]) hf4
    rw [e1, e2, e3, a1, a2, a3, hstate,
      nes_op_brk_state _ (by rw [hFs]; exact hs) (by rw [hFp]; exact hi)]
    dsimp only
    rw [hFs, hFp, hf3, hv1, hv2]
    refine ⟨rfl, ?_, ?_, ?_, ?_, rfl⟩
    · rw [arr_set_same]
    · intro a h1 h2 h3
      rw [arr_set_other _ _ _ _ h3, arr_set_other _ _ _ _ h2, arr_set_other _ _ _ _ h1]
    · exact bitmset_mod_and_self s.cpu.p FLAG_MASK_I (by decide)
    · exact bitmset_mod_and_other s.cpu.p FLAG_MASK_I 0xFB (by decide) (by decide)
  · intro hi
    rw [hstate, nes_op_brk_masked _ (by rw [hFp]; exact hi)]
    dsimp only
    exact ⟨hFs, hf3, hFp, hFpc⟩

/-- Instance of C18 (amended): BRK at $C123 with P = $20 and S = $FD. -/
theorem brk_sequence_witness :
    (nes_cpu_op nes_brk_example).1 = 7 ∧
    (nes_cpu_op nes_brk_example).2.cpu.s = 0xFA ∧
    (nes_cpu_op nes_brk_example).2.cpu.p &&& FLAG_MASK_I = FLAG_MASK_I :=
  have h := brk_sequence nes_brk_example rfl (by decide) (by decide) (by decide)
  ⟨h.1, (h.2.2.1 (by decide)).1, (h.2.2.1 (by decide)).2.2.2.1⟩

/-! ## ADC -/

/-- A single-bit mask picks the bit, as quotient and remainder. -/
theorem and_two_pow_eq (n i : Nat) : n &&& 2 ^ i = (n / 2 ^ i % 2) * 2 ^ i := by
  rw [Nat.and_two_pow, Nat.toNat_testBit]

/-- A bit of an exclusive or is the sum of the bits modulo 2. -/
theorem xor_bit (a v i : Nat) :
    (a ^^^ v) / 2 ^ i % 2 = (a / 2 ^ i % 2 + v / 2 ^ i % 2) % 2 := by
  rw [← Nat.toNat_testBit, ← Nat.toNat_testBit, ← Nat.toNat_testBit, Nat.testBit_xor]
  cases a.testBit i <;> cases v.testBit i <;> rfl

theorem and_0x80_eq (n : Nat) : n &&& 0x80 = (n / 128 % 2) * 128 := by
  have h := and_two_pow_eq n 7
  rw [show (2 : Nat) ^ 7 = 128 by norm_num] at h
  exact h

theorem and_0x100_eq (n : Nat) : n &&& 0x100 = (n / 256 % 2) * 256 := by
  have h := and_two_pow_eq n 8
  rw [show (2 : Nat) ^ 8 = 256 by norm_num] at h
  exact h

theorem xor_and_0x80 (a v : Nat) :
    (a ^^^ v) &&& 0x80 = ((a / 128 % 2 + v / 128 % 2) % 2) * 128 := by
  have h := xor_bit a v 7
  rw [show (2 : Nat) ^ 7 = 128 by norm_num] at h
  rw [and_0x80_eq, h]

/-- The flags after ADC, as four flag changes of the flags before. -/
theorem nes_op_adc_p (s : nes_t) (v : Nat) :
    (nes_op_adc s v).cpu.p =
      BITMCHG (BITMCHG (BITMCHG (BITMCHG s.cpu.p FLAG_MASK_C
        (((s.cpu.a + v + (if s.cpu.p &&& FLAG_MASK_C ≠ 0 then 1 else 0)) % 0x10000) &&& 0x100)
          % 0x100) FLAG_MASK_V
        (c_bool (decide ((s.cpu.a ^^^ v) &&& 0x80 = 0 ∧
          (s.cpu.a ^^^ ((s.cpu.a + v + (if s.cpu.p &&& FLAG_MASK_C ≠ 0 then 1 else 0))
            % 0x10000)) &&& 0x80 ≠ 0))) % 0x100) FLAG_MASK_N
        (((((s.cpu.a + v + (if s.cpu.p &&& FLAG_MASK_C ≠ 0 then 1 else 0)) % 0x10000)
          &&& 0xFF) % 0x100) &&& 0x80) % 0x100) FLAG_MASK_Z
        (c_bool (decide (((((s.cpu.a + v + (if s.cpu.p &&& FLAG_MASK_C ≠ 0 then 1 else 0))
          % 0x10000) &&& 0xFF) % 0x100) = 0))) % 0x100 := rfl

theorem nes_op_adc_a (s : nes_t) (v : Nat) :
    (nes_op_adc s v).cpu.a =
      ((s.cpu.a + v + (if s.cpu.p &&& FLAG_MASK_C ≠ 0 then 1 else 0)) % 0x10000) % 0x100 := rfl

/-- C15. ADC.  For every accumulator value A and operand v in 0..255 and
carry-in c (the C flag), ADC leaves A = (A + v + c) mod 256, C set iff
A + v + c > 255, V set iff the sum of A and v read as signed bytes plus c lies
outside -128..127, Z set iff the new A is 0, N equal to bit 7 of the new A,
and the I, D, B and bit-5 flags unchanged. -/
theorem adc_flags (s : nes_t) (v c : Nat) (ha : s.cpu.a < 0x100) (hv : v < 0x100)
    (hc : c = if s.cpu.p &&& FLAG_MASK_C ≠ 0 then 1 else 0) :
    (nes_op_adc s v).cpu.a = (s.cpu.a + v + c) % 0x100 ∧
    ((nes_op_adc s v).cpu.p &&& FLAG_MASK_C ≠ 0 ↔ s.cpu.a + v + c > 255) ∧
    ((nes_op_adc s v).cpu.p &&& FLAG_MASK_V ≠ 0 ↔
      (to_int8 s.cpu.a + to_int8 v + (c : Int) < -128 ∨
        to_int8 s.cpu.a + to_int8 v + (c : Int) > 127)) ∧
    ((nes_op_adc s v).cpu.p &&& FLAG_MASK_Z ≠ 0 ↔ (nes_op_adc s v).cpu.a = 0) ∧
    (nes_op_adc s v).cpu.p &&& FLAG_MASK_N = (nes_op_adc s v).cpu.a &&& 0x80 ∧
    (nes_op_adc s v).cpu.p &&& 0x3C = s.cpu.p &&& 0x3C := by
  have hc1 : c ≤ 1 := by rw [hc]; split_ifs <;> omega
  have hr : (s.cpu.a + v + c) % 0x10000 = s.cpu.a + v + c := Nat.mod_eq_of_lt (by omega)
  have hff : ∀ x : Nat, x &&& 0xFF = x % 0x100 := by
    intro x
    rw [show (0xFF : Nat) = 2 ^ 8 - 1 by norm_num, Nat.and_pow_two_sub_one_eq_mod]
  rw [nes_op_adc_p, nes_op_adc_a, ← hc, hr, hff, Nat.mod_mod]
  refine ⟨rfl, ?_, ?_, ?_, ?_, ?_⟩
  · rw [bitmchg_and_other _ FLAG_MASK_Z _ FLAG_MASK_C (by decide) (by decide) (by decide),
      bitmchg_and_other _ FLAG_MASK_N _ FLAG_MASK_C (by decide) (by decide) (by decide),
      bitmchg_and_other _ FLAG_MASK_V _ FLAG_MASK_C (by decide) (by decide) (by decide),
      bitmchg_and_self _ FLAG_MASK_C _ (by decide) (by decide), and_0x100_eq]
    unfold FLAG_MASK_C
    split_ifs <;> omega
  · rw [bitmchg_and_other _ FLAG_MASK_Z _ FLAG_MASK_V (by decide) (by decide) (by decide),
      bitmchg_and_other _ FLAG_MASK_N _ FLAG_MASK_V (by decide) (by decide) (by decide),
      bitmchg_and_self _ FLAG_MASK_V _ (by decide) (by decide), xor_and_0x80, xor_and_0x80]
    unfold FLAG_MASK_V to_int8
    rw [Nat.mod_eq_of_lt ha, Nat.mod_eq_of_lt hv]
    have hcb := c_bool_ne_zero
      (((s.cpu.a / 128 % 2 + v / 128 % 2) % 2) * 128 = 0 ∧
        ((s.cpu.a / 128 % 2 + (s.cpu.a + v + c) / 128 % 2) % 2) * 128 ≠ 0)
    split_ifs at * <;> omega
  · rw [bitmchg_and_self _ FLAG_MASK_Z _ (by decide) (by decide)]
    have hcb := c_bool_ne_zero ((s.cpu.a + v + c) % 0x100 = 0)
    unfold FLAG_MASK_Z
    split_ifs at * <;> omega
  · rw [bitmchg_and_other _ FLAG_MASK_Z _ FLAG_MASK_N (by decide) (by decide) (by decide),
      bitmchg_and_self _ FLAG_MASK_N _ (by decide) (by decide), and_0x80_eq]
    unfold FLAG_MASK_N
    split_ifs <;> omega
  · rw [bitmchg_and_other _ FLAG_MASK_Z _ 0x3C (by decide) (by decide) (by decide),
      bitmchg_and_other _ FLAG_MASK_N _ 0x3C (by decide) (by decide) (by decide),
      bitmchg_and_other _ FLAG_MASK_V _ 0x3C (by decide) (by decide) (by decide),
      bitmchg_and_other _ FLAG_MASK_C _ 0x3C (by decide) (by decide) (by decide)]

/-- Instance of C15: $50 + $50 with carry clear gives $A0, with V and N set
and C clear. -/
theorem adc_flags_witness :
    (nes_op_adc nes_adc_example 0x50).cpu.a = 0xA0 ∧
    (nes_op_adc nes_adc_example 0x50).cpu.p &&& FLAG_MASK_V ≠ 0 ∧
    ¬ (nes_op_adc nes_adc_example 0x50).cpu.p &&& FLAG_MASK_C ≠ 0 :=
  have h := adc_flags nes_adc_example 0x50 0 (by decide) (by decide) (by decide)
  ⟨h.1, h.2.2.1.mpr (by decide), fun hn => absurd (h.2.1.mp hn) (by decide)⟩

/-! ## Conditional branches -/

/-- PC and the page-crossed flag after a relative branch. -/
theorem nes_branch_jmp_pc (t : nes_t) (flag : Nat) :
    (nes_branch_jmp t flag).cpu.pc =
      (if flag ≠ 0 then
        Int.toNat (((((t.cpu.pc + 1) % 0x10000 : Nat) : Int) +
          to_int8 ((nes_mem_read_nextb t).1 % 0x100)) % 0x10000)
      else (t.cpu.pc + 1) % 0x10000) ∧
    (nes_branch_jmp t flag).cpu.pages_crossed = t.cpu.pages_crossed := by
  by_cases hf : flag ≠ 0
  · have e : nes_branch_jmp t flag =
        nes_cpu_add_branch_cycles
          { (nes_mem_read_nextb t).2 with cpu := { (nes_mem_read_nextb t).2.cpu with
              pc := Int.toNat ((((nes_mem_read_nextb t).2.cpu.pc : Int) +
                to_int8 ((nes_mem_read_nextb t).1 % 0x100)) % 0x10000) } }
          (nes_mem_read_nextb t).2.cpu.pc := by
      unfold nes_branch_jmp
      dsimp only
      rw [if_pos hf]
    rw [if_pos hf, e]
    unfold nes_cpu_add_branch_cycles
    dsimp only
    rw [nes_mem_read_nextb_cpu]
    exact ⟨rfl, rfl⟩
  · have e : nes_branch_jmp t flag = (nes_mem_read_nextb t).2 := by
      unfold nes_branch_jmp
      dsimp only
      rw [if_neg hf]
    rw [if_neg hf, e, nes_mem_read_nextb_cpu]
    exact ⟨rfl, rfl⟩

/-- One call of `nes_cpu_op` on an opcode that `nes_cpu_op_switch` maps to a
relative branch on `flag`: the table cost, and 1 or 2 more when the branch is
taken. -/
theorem nes_cpu_op_branch (s : nes_t) (opc flag : Nat) (hst : s.cpu.stall = 0)
    (hc : s.cpu.cycle < 0x10000000000000000)
    (hop : (nes_mem_readb s s.cpu.pc).1 % 0x100 = opc)
    (hsw : nes_cpu_op_switch opc
        (nes_mem_read_nextb { s with cpu := { s.cpu with pages_crossed := 0 } }).2 =
      nes_branch_jmp
        (nes_mem_read_nextb { s with cpu := { s.cpu with pages_crossed := 0 } }).2 flag) :
    (flag = 0 →
      (nes_cpu_op s).1 = op_cycles opc ∧ (nes_cpu_op s).2.cpu.pc = (s.cpu.pc + 2) % 0x10000) ∧
    (flag ≠ 0 →
      (nes_cpu_op s).2.cpu.pc =
        Int.toNat (((((s.cpu.pc + 2) % 0x10000 : Nat) : Int) +
          to_int8 ((nes_mem_read_nextb
            (nes_mem_read_nextb { s with cpu := { s.cpu with pages_crossed := 0 } }).2).1
              % 0x100)) % 0x10000) ∧
      (nes_cpu_op s).1 =
        if ((s.cpu.pc + 2) % 0x10000) &&& 0xFF00 = (nes_cpu_op s).2.cpu.pc &&& 0xFF00
        then op_cycles opc + 1 else op_cycles opc + 2) := by
  have hoc := op_cycles_le opc (by rw [← hop]; exact Nat.mod_lt _ (by omega))
  obtain ⟨hf1, hf2, -, -⟩ := nes_mem_read_nextb_fetch s
  have hop2 : (nes_mem_read_nextb { s with cpu := { s.cpu with pages_crossed := 0 } }).1 % 0x100
      = opc := by rw [hf1]; exact hop
  obtain ⟨hpc, -, hcy, hret⟩ := nes_cpu_op_running s opc hst hop2
  obtain ⟨hbp, hbg⟩ := nes_branch_jmp_pc
    (nes_mem_read_nextb { s with cpu := { s.cpu with pages_crossed := 0 } }).2 flag
  have hbc := nes_branch_jmp_cycle
    (nes_mem_read_nextb { s with cpu := { s.cpu with pages_crossed := 0 } }).2 flag
  have e2 : ((s.cpu.pc + 1) % 0x10000 + 1) % 0x10000 = (s.cpu.pc + 2) % 0x10000 := by omega
  rw [hsw] at hpc hcy
  rw [hbg, hf2] at hcy
  rw [hf2] at hbp hbc
  dsimp only at hcy hbp hbc
  rw [e2] at hbp hbc
  rw [if_neg (fun h => h rfl)] at hcy
  rw [← hpc] at hbp hbc
  refine ⟨?_, ?_⟩
  · intro h0
    rw [if_neg (fun h => h h0)] at hbp hbc
    rw [hbc] at hcy
    refine ⟨?_, hbp⟩
    rw [hret, hcy]
    omega
  · intro h0
    rw [if_pos h0] at hbp hbc
    rw [hbc] at hcy
    refine ⟨hbp, ?_⟩
    rw [hret, hcy]
    split_ifs <;> omega

/-- The seven branch opcodes whose entry in `op_cycles` is 2 ($10, $50, $70,
$90, $B0, $D0, $F0), in a CPU state with stall = 0 (cycle counter below 2^64)
whose byte at PC is that opcode: when the branch is not taken, `nes_cpu_op`
costs 2 cycles and PC is the address of the following instruction, PC + 2
modulo 65536; when it is taken, PC is that following address plus the operand
(the byte fetched after the opcode) read as a signed byte, modulo 65536, and
the cost is 3 cycles if this target is in the same page as the following
address and 4 if it is in a different page. -/
theorem branch_cycles_seven (s : nes_t) (opc : Nat) (hst : s.cpu.stall = 0)
    (hc : s.cpu.cycle < 0x10000000000000000)
    (hop : (nes_mem_readb s s.cpu.pc).1 % 0x100 = opc)
    (hb : opc = 0x10 ∨ opc = 0x50 ∨ opc = 0x70 ∨ opc = 0x90 ∨ opc = 0xB0 ∨
      opc = 0xD0 ∨ opc = 0xF0) :
    (¬ ((opc = 0x10 ∧ s.cpu.p &&& 0x80 = 0) ∨
        (opc = 0x50 ∧ s.cpu.p &&& 0x40 = 0) ∨ (opc = 0x70 ∧ s.cpu.p &&& 0x40 ≠ 0) ∨
        (opc = 0x90 ∧ s.cpu.p &&& 0x01 = 0) ∨ (opc = 0xB0 ∧ s.cpu.p &&& 0x01 ≠ 0) ∨
        (opc = 0xD0 ∧ s.cpu.p &&& 0x02 = 0) ∨ (opc = 0xF0 ∧ s.cpu.p &&& 0x02 ≠ 0)) →
      (nes_cpu_op s).1 = 2 ∧ (nes_cpu_op s).2.cpu.pc = (s.cpu.pc + 2) % 0x10000) ∧
    (((opc = 0x10 ∧ s.cpu.p &&& 0x80 = 0) ∨
        (opc = 0x50 ∧ s.cpu.p &&& 0x40 = 0) ∨ (opc = 0x70 ∧ s.cpu.p &&& 0x40 ≠ 0) ∨
        (opc = 0x90 ∧ s.cpu.p &&& 0x01 = 0) ∨ (opc = 0xB0 ∧ s.cpu.p &&& 0x01 ≠ 0) ∨
        (opc = 0xD0 ∧ s.cpu.p &&& 0x02 = 0) ∨ (opc = 0xF0 ∧ s.cpu.p &&& 0x02 ≠ 0)) →
      (nes_cpu_op s).2.cpu.pc =
        Int.toNat (((((s.cpu.pc + 2) % 0x10000 : Nat) : Int) +
          to_int8 ((nes_mem_read_nextb
            (nes_mem_read_nextb { s with cpu := { s.cpu with pages_crossed := 0 } }).2).1
              % 0x100)) % 0x10000) ∧
      (nes_cpu_op s).1 =
        if ((s.cpu.pc + 2) % 0x10000) &&& 0xFF00 = (nes_cpu_op s).2.cpu.pc &&& 0xFF00
        then 3 else 4) := by
  have hFp : (nes_mem_read_nextb { s with cpu := { s.cpu with pages_crossed := 0 } }).2.cpu.p
      = s.cpu.p := by rw [(nes_mem_read_nextb_fetch s).2.1]
  have key : ∀ (flag : Nat) (cond : Prop),
      nes_cpu_op_switch opc
        (nes_mem_read_nextb { s with cpu := { s.cpu with pages_crossed := 0 } }).2 =
      nes_branch_jmp
        (nes_mem_read_nextb { s with cpu := { s.cpu with pages_crossed := 0 } }).2 flag →
      op_cycles opc = 2 → (flag ≠ 0 ↔ cond) →
      (¬ cond → (nes_cpu_op s).1 = 2 ∧ (nes_cpu_op s).2.cpu.pc = (s.cpu.pc + 2) % 0x10000) ∧
      (cond →
        (nes_cpu_op s).2.cpu.pc =
          Int.toNat (((((s.cpu.pc + 2) % 0x10000 : Nat) : Int) +
            to_int8 ((nes_mem_read_nextb
              (nes_mem_read_nextb { s with cpu := { s.cpu with pages_crossed := 0 } }).2).1
                % 0x100)) % 0x10000) ∧
        (nes_cpu_op s).1 =
          if ((s.cpu.pc + 2) % 0x10000) &&& 0xFF00 = (nes_cpu_op s).2.cpu.pc &&& 0xFF00
          then 3 else 4) := by
    intro flag cond hsw hoc hfl
    have h := nes_cpu_op_branch s opc flag hst hc hop hsw
    rw [hoc] at h
    exact ⟨fun hn => h.1 (by_contra fun h0 => hn (hfl.mp h0)), fun hy => h.2 (hfl.mpr hy)⟩
  have hclr : ∀ m : Nat, m < 0x100 →
      (c_bool (decide (BITMGET
        (nes_mem_read_nextb { s with cpu := { s.cpu with pages_crossed := 0 } }).2.cpu.p m = 0))
          ≠ 0 ↔ s.cpu.p &&& m = 0) := by
    intro m _
    rw [c_bool_ne_zero, hFp]
    rfl
  have hset : ∀ m : Nat, m < 0x100 →
      (BITMGET (nes_mem_read_nextb
        { s with cpu := { s.cpu with pages_crossed := 0 } }).2.cpu.p m % 0x100 ≠ 0 ↔
        s.cpu.p &&& m ≠ 0) := by
    intro m hm
    rw [flag_mod_ne_zero _ _ hm, hFp]
  rcases hb with h | h | h | h | h | h | h <;> subst h
  · have k := key _ (s.cpu.p &&& 0x80 = 0) rfl rfl (hclr 0x80 (by omega))
    exact ⟨fun hn => k.1 (fun hy => hn (by omega)), fun hy => k.2 (by omega)⟩
  · have k := key _ (s.cpu.p &&& 0x40 = 0) rfl rfl (hclr 0x40 (by omega))
    exact ⟨fun hn => k.1 (fun hy => hn (by omega)), fun hy => k.2 (by omega)⟩
  · have k := key _ (s.cpu.p &&& 0x40 ≠ 0) rfl rfl (hset 0x40 (by omega))
    exact ⟨fun hn => k.1 (fun hy => hn (by omega)), fun hy => k.2 (by omega)⟩
  · have k := key _ (s.cpu.p &&& 0x01 = 0) rfl rfl (hclr 0x01 (by omega))
    exact ⟨fun hn => k.1 (fun hy => hn (by omega)), fun hy => k.2 (by omega)⟩
  · have k := key _ (s.cpu.p &&& 0x01 ≠ 0) rfl rfl (hset 0x01 (by omega))
    exact ⟨fun hn => k.1 (fun hy => hn (by omega)), fun hy => k.2 (by omega)⟩
  · have k := key _ (s.cpu.p &&& 0x02 = 0) rfl rfl (hclr 0x02 (by omega))
    exact ⟨fun hn => k.1 (fun hy => hn (by omega)), fun hy => k.2 (by omega)⟩
  · have k := key _ (s.cpu.p &&& 0x02 ≠ 0) rfl rfl (hset 0x02 (by omega))
    exact ⟨fun hn => k.1 (fun hy => hn (by omega)), fun hy => k.2 (by omega)⟩

/-- C16 fails on the code for the opcode $30 (BMI).  BMI +0 at address 0 with
stall 0: with the N flag clear the branch is not taken (PC goes to 2) and
`nes_cpu_op` returns 6 and adds 6 to `cpu.cycle`, not 2; with the N flag set it
is taken to the same page and the cost is 7, not 3.  The entry of `op_cycles`
for $30 is 6, where the seven other branch opcodes have 2: the rows $30-$3F
and $40-$4F of the table stand in each other's place (the entry for $40, RTI,
is the 2 of a branch). -/
theorem bmi_cycles_table :
    nes_bmi_example.cpu.stall = 0 ∧
    (nes_mem_readb nes_bmi_example nes_bmi_example.cpu.pc).1 = 0x30 ∧
    nes_bmi_example.cpu.p &&& FLAG_MASK_N = 0 ∧
    (nes_cpu_op nes_bmi_example).2.cpu.pc = 2 ∧
    (nes_cpu_op nes_bmi_example).1 = 6 ∧
    (nes_cpu_op nes_bmi_example).2.cpu.cycle = nes_bmi_example.cpu.cycle + 6 ∧
    nes_bmi_taken_example.cpu.p &&& FLAG_MASK_N ≠ 0 ∧
    (nes_cpu_op nes_bmi_taken_example).2.cpu.pc = 2 ∧
    (nes_cpu_op nes_bmi_taken_example).1 = 7 ∧
    op_cycles 0x30 = 6 ∧ op_cycles 0x40 = 2 ∧
    op_cycles 0x10 = 2 ∧ op_cycles 0x50 = 2 ∧ op_cycles 0x70 = 2 ∧ op_cycles 0x90 = 2 ∧
    op_cycles 0xB0 = 2 ∧ op_cycles 0xD0 = 2 ∧ op_cycles 0xF0 = 2 := by
  decide

/-! ## The flags register: bit 5 and the B bit -/

/-- Bits 4 and 5 of a number in terms of quotients. -/
theorem and_0x30_eq (z : Nat) :
    z &&& 0x30 = ((z / 16 % 2) * 16) ||| ((z / 32 % 2) * 32) := by
  have h4 := and_two_pow_eq z 4
  have h5 := and_two_pow_eq z 5
  rw [show (2 : Nat) ^ 4 = 16 by norm_num] at h4
  rw [show (2 : Nat) ^ 5 = 32 by norm_num] at h5
  rw [show (0x30 : Nat) = 16 ||| 32 by decide, Nat.and_or_distrib_left, h4, h5]

/-- Bit 5 set and bit 4 clear, in terms of quotients. -/
theorem and_0x30_of_bits (z : Nat) (h4 : z / 16 % 2 = 0) (h5 : z / 32 % 2 = 1) :
    z &&& 0x30 = 0x20 := by
  rw [and_0x30_eq, h4, h5]
  decide

/-- The byte that PLP and RTI store in P, `(r | 0x30) - 0x10`, has bit 5 set
and bit 4 clear whatever was popped. -/
theorem plp_byte_30 (r : Nat) : ((r ||| 0x30) - 0x10) % 0x100 &&& 0x30 = 0x20 := by
  have b4 : (r ||| 0x30) / 16 % 2 = 1 := by
    have h : (r ||| 0x30).testBit 4 = true := by
      rw [Nat.testBit_or, show Nat.testBit 0x30 4 = true by decide, Bool.or_true]
    rw [Nat.testBit_to_div_mod] at h
    exact of_decide_eq_true h
  have b5 : (r ||| 0x30) / 32 % 2 = 1 := by
    have h : (r ||| 0x30).testBit 5 = true := by
      rw [Nat.testBit_or, show Nat.testBit 0x30 5 = true by decide, Bool.or_true]
    rw [Nat.testBit_to_div_mod] at h
    exact of_decide_eq_true h
  exact and_0x30_of_bits _ (by omega) (by omega)

/-! ## The flags register: what the instructions do to bit 5 and the B bit

No bus access and no addressing mode changes P; every instruction that
changes P changes it through the flag masks C, Z, I, D, V and N, except PLP
and RTI, which store `(r | 0x30) - 0x10`. -/

@[simp] theorem flag_chg_C_30 (p v : Nat) :
    BITMCHG p FLAG_MASK_C v % 0x100 &&& 0x30 = p &&& 0x30 :=
  bitmchg_and_other p FLAG_MASK_C v 0x30 (by decide) (by decide) (by decide)

@[simp] theorem flag_set_C_30 (p : Nat) : BITMSET p FLAG_MASK_C % 0x100 &&& 0x30 = p &&& 0x30 :=
  bitmset_mod_and_other p FLAG_MASK_C 0x30 (by decide) (by decide)

@[simp] theorem flag_clr_C_30 (p : Nat) : BITMCLR p FLAG_MASK_C % 0x100 &&& 0x30 = p &&& 0x30 :=
  bitmclr_mod_and_other p FLAG_MASK_C 0x30 (by decide) (by decide)

@[simp] theorem flag_chg_Z_30 (p v : Nat) :
    BITMCHG p FLAG_MASK_Z v % 0x100 &&& 0x30 = p &&& 0x30 :=
  bitmchg_and_other p FLAG_MASK_Z v 0x30 (by decide) (by decide) (by decide)

@[simp] theorem flag_set_Z_30 (p : Nat) : BITMSET p FLAG_MASK_Z % 0x100 &&& 0x30 = p &&& 0x30 :=
  bitmset_mod_and_other p FLAG_MASK_Z 0x30 (by decide) (by decide)

@[simp] theorem flag_clr_Z_30 (p : Nat) : BITMCLR p FLAG_MASK_Z % 0x100 &&& 0x30 = p &&& 0x30 :=
  bitmclr_mod_and_other p FLAG_MASK_Z 0x30 (by decide) (by decide)

@[simp] theorem flag_chg_I_30 (p v : Nat) :
    BITMCHG p FLAG_MASK_I v % 0x100 &&& 0x30 = p &&& 0x30 :=
  bitmchg_and_other p FLAG_MASK_I v 0x30 (by decide) (by decide) (by decide)

@[simp] theorem flag_set_I_30 (p : Nat) : BITMSET p FLAG_MASK_I % 0x100 &&& 0x30 = p &&& 0x30 :=
  bitmset_mod_and_other p FLAG_MASK_I 0x30 (by decide) (by decide)

@[simp] theorem flag_clr_I_30 (p : Nat) : BITMCLR p FLAG_MASK_I % 0x100 &&& 0x30 = p &&& 0x30 :=
  bitmclr_mod_and_other p FLAG_MASK_I 0x30 (by decide) (by decide)

@[simp] theorem flag_chg_D_30 (p v : Nat) :
    BITMCHG p FLAG_MASK_D v % 0x100 &&& 0x30 = p &&& 0x30 :=
  bitmchg_and_other p FLAG_MASK_D v 0x30 (by decide) (by decide) (by decide)

@[simp] theorem flag_set_D_30 (p : Nat) : BITMSET p FLAG_MASK_D % 0x100 &&& 0x30 = p &&& 0x30 :=
  bitmset_mod_and_other p FLAG_MASK_D 0x30 (by decide) (by decide)

@[simp] theorem flag_clr_D_30 (p : Nat) : BITMCLR p FLAG_MASK_D % 0x100 &&& 0x30 = p &&& 0x30 :=
  bitmclr_mod_and_other p FLAG_MASK_D 0x30 (by decide) (by decide)

@[simp] theorem flag_chg_V_30 (p v : Nat) :
    BITMCHG p FLAG_MASK_V v % 0x100 &&& 0x30 = p &&& 0x30 :=
  bitmchg_and_other p FLAG_MASK_V v 0x30 (by decide) (by decide) (by decide)

@[simp] theorem flag_set_V_30 (p : Nat) : BITMSET p FLAG_MASK_V % 0x100 &&& 0x30 = p &&& 0x30 :=
  bitmset_mod_and_other p FLAG_MASK_V 0x30 (by decide) (by decide)

@[simp] theorem flag_clr_V_30 (p : Nat) : BITMCLR p FLAG_MASK_V % 0x100 &&& 0x30 = p &&& 0x30 :=
  bitmclr_mod_and_other p FLAG_MASK_V 0x30 (by decide) (by decide)

@[simp] theorem flag_chg_N_30 (p v : Nat) :
    BITMCHG p FLAG_MASK_N v % 0x100 &&& 0x30 = p &&& 0x30 :=
  bitmchg_and_other p FLAG_MASK_N v 0x30 (by decide) (by decide) (by decide)

@[simp] theorem flag_set_N_30 (p : Nat) : BITMSET p FLAG_MASK_N % 0x100 &&& 0x30 = p &&& 0x30 :=
  bitmset_mod_and_other p FLAG_MASK_N 0x30 (by decide) (by decide)

@[simp] theorem flag_clr_N_30 (p : Nat) : BITMCLR p FLAG_MASK_N % 0x100 &&& 0x30 = p &&& 0x30 :=
  bitmclr_mod_and_other p FLAG_MASK_N 0x30 (by decide) (by decide)

@[simp] theorem nes_cpu_set_zn_p30 (s : nes_t) (v : Nat) :
    (nes_cpu_set_zn s v).cpu.p &&& 0x30 = s.cpu.p &&& 0x30 := by
  simp [nes_cpu_set_zn]

@[simp] theorem nes_compare_p30 (s : nes_t) (a b : Nat) :
    (nes_compare s a b).cpu.p &&& 0x30 = s.cpu.p &&& 0x30 := by
  simp [nes_compare]

@[simp] theorem nes_cpu_pagecross_p (s : nes_t) (a b : Nat) : (nes_cpu_pagecross s a b).cpu.p = s.cpu.p := by
  simp [nes_cpu_pagecross]

@[simp] theorem nes_mem_readb_zp_p (s : nes_t) (a : Nat) : (nes_mem_readb_zp s a).2.cpu.p = s.cpu.p := by
  simp [nes_mem_readb_zp]

@[simp] theorem nes_mem_readw_p (s : nes_t) (a : Nat) : (nes_mem_readw s a).2.cpu.p = s.cpu.p := by
  simp [nes_mem_readw]

@[simp] theorem nes_mem_readw_zp_p (s : nes_t) (a : Nat) : (nes_mem_readw_zp s a).2.cpu.p = s.cpu.p := by
  simp [nes_mem_readw_zp]

@[simp] theorem nes_mem_read_nextb_p (s : nes_t) : (nes_mem_read_nextb s).2.cpu.p = s.cpu.p := by
  simp [nes_mem_read_nextb]

@[simp] theorem nes_mem_read_nextw_p (s : nes_t) : (nes_mem_read_nextw s).2.cpu.p = s.cpu.p := by
  simp [nes_mem_read_nextw]

@[simp] theorem nes_jmi_addr_p (s : nes_t) (a : Nat) : (nes_jmi_addr s a).2.cpu.p = s.cpu.p := by
  simp [nes_jmi_addr]

@[simp] theorem nes_popb_p (s : nes_t) : (nes_popb s).2.cpu.p = s.cpu.p := by
  simp [nes_popb]

@[simp] theorem nes_popw_p (s : nes_t) : (nes_popw s).2.cpu.p = s.cpu.p := by
  simp [nes_popw]

@[simp] theorem nes_a_abs_p (s : nes_t) : (nes_a_abs s).2.cpu.p = s.cpu.p := by
  simp [nes_a_abs]

@[simp] theorem nes_a_abx_p (s : nes_t) : (nes_a_abx s).2.cpu.p = s.cpu.p := by
  simp [nes_a_abx]

@[simp] theorem nes_a_aby_p (s : nes_t) : (nes_a_aby s).2.cpu.p = s.cpu.p := by
  simp [nes_a_aby]

@[simp] theorem nes_a_ndx_p (s : nes_t) : (nes_a_ndx s).2.cpu.p = s.cpu.p := by
  simp [nes_a_ndx]

@[simp] theorem nes_a_ndy_p (s : nes_t) : (nes_a_ndy s).2.cpu.p = s.cpu.p := by
  simp [nes_a_ndy]

@[simp] theorem nes_a_zpg_p (s : nes_t) : (nes_a_zpg s).2.cpu.p = s.cpu.p := by
  simp [nes_a_zpg]

@[simp] theorem nes_a_zpx_p (s : nes_t) : (nes_a_zpx s).2.cpu.p = s.cpu.p := by
  simp [nes_a_zpx]

@[simp] theorem nes_a_zpy_p (s : nes_t) : (nes_a_zpy s).2.cpu.p = s.cpu.p := by
  simp [nes_a_zpy]

@[simp] theorem nes_v_abs_p (s : nes_t) : (nes_v_abs s).2.cpu.p = s.cpu.p := by
  simp [nes_v_abs]

@[simp] theorem nes_v_abx_p (s : nes_t) : (nes_v_abx s).2.cpu.p = s.cpu.p := by
  simp [nes_v_abx]

@[simp] theorem nes_v_aby_p (s : nes_t) : (nes_v_aby s).2.cpu.p = s.cpu.p := by
  simp [nes_v_aby]

@[simp] theorem nes_v_acc_p (s : nes_t) : (nes_v_acc s).2.cpu.p = s.cpu.p := by
  simp [nes_v_acc]

@[simp] theorem nes_v_imm_p (s : nes_t) : (nes_v_imm s).2.cpu.p = s.cpu.p := by
  simp [nes_v_imm]

@[simp] theorem nes_v_ndx_p (s : nes_t) : (nes_v_ndx s).2.cpu.p = s.cpu.p := by
  simp [nes_v_ndx]

@[simp] theorem nes_v_ndy_p (s : nes_t) : (nes_v_ndy s).2.cpu.p = s.cpu.p := by
  simp [nes_v_ndy]

@[simp] theorem nes_v_zpg_p (s : nes_t) : (nes_v_zpg s).2.cpu.p = s.cpu.p := by
  simp [nes_v_zpg]

@[simp] theorem nes_v_zpx_p (s : nes_t) : (nes_v_zpx s).2.cpu.p = s.cpu.p := by
  simp [nes_v_zpx]

@[simp] theorem nes_v_zpy_p (s : nes_t) : (nes_v_zpy s).2.cpu.p = s.cpu.p := by
  simp [nes_v_zpy]

@[simp] theorem nes_op_lda_p30 (s : nes_t) (v : Nat) :
    (nes_op_lda s v).cpu.p &&& 0x30 = s.cpu.p &&& 0x30 := by
  simp [nes_op_lda]

@[simp] theorem nes_op_ldx_p30 (s : nes_t) (v : Nat) :
    (nes_op_ldx s v).cpu.p &&& 0x30 = s.cpu.p &&& 0x30 := by
  simp [nes_op_ldx]

@[simp] theorem nes_op_ldy_p30 (s : nes_t) (v : Nat) :
    (nes_op_ldy s v).cpu.p &&& 0x30 = s.cpu.p &&& 0x30 := by
  simp [nes_op_ldy]

@[simp] theorem nes_op_sta_p30 (s : nes_t) (v : Nat) :
    (nes_op_sta s v).cpu.p &&& 0x30 = s.cpu.p &&& 0x30 := by
  simp [nes_op_sta]

@[simp] theorem nes_op_stx_p30 (s : nes_t) (v : Nat) :
    (nes_op_stx s v).cpu.p &&& 0x30 = s.cpu.p &&& 0x30 := by
  simp [nes_op_stx]

@[simp] theorem nes_op_sty_p30 (s : nes_t) (v : Nat) :
    (nes_op_sty s v).cpu.p &&& 0x30 = s.cpu.p &&& 0x30 := by
  simp [nes_op_sty]

@[simp] theorem nes_op_adc_p30 (s : nes_t) (v : Nat) :
    (nes_op_adc s v).cpu.p &&& 0x30 = s.cpu.p &&& 0x30 := by
  simp [nes_op_adc]

@[simp] theorem nes_op_sbc_p30 (s : nes_t) (v : Nat) :
    (nes_op_sbc s v).cpu.p &&& 0x30 = s.cpu.p &&& 0x30 := by
  simp [nes_op_sbc]

@[simp] theorem nes_op_cmp_p30 (s : nes_t) (v : Nat) :
    (nes_op_cmp s v).cpu.p &&& 0x30 = s.cpu.p &&& 0x30 := by
  simp [nes_op_cmp]

@[simp] theorem nes_op_cpx_p30 (s : nes_t) (v : Nat) :
    (nes_op_cpx s v).cpu.p &&& 0x30 = s.cpu.p &&& 0x30 := by
  simp [nes_op_cpx]

@[simp] theorem nes_op_cpy_p30 (s : nes_t) (v : Nat) :
    (nes_op_cpy s v).cpu.p &&& 0x30 = s.cpu.p &&& 0x30 := by
  simp [nes_op_cpy]

@[simp] theorem nes_op_and_p30 (s : nes_t) (v : Nat) :
    (nes_op_and s v).cpu.p &&& 0x30 = s.cpu.p &&& 0x30 := by
  simp [nes_op_and]

@[simp] theorem nes_op_ora_p30 (s : nes_t) (v : Nat) :
    (nes_op_ora s v).cpu.p &&& 0x30 = s.cpu.p &&& 0x30 := by
  simp [nes_op_ora]

@[simp] theorem nes_op_eor_p30 (s : nes_t) (v : Nat) :
    (nes_op_eor s v).cpu.p &&& 0x30 = s.cpu.p &&& 0x30 := by
  simp [nes_op_eor]

@[simp] theorem nes_op_bit_p30 (s : nes_t) (v : Nat) :
    (nes_op_bit s v).cpu.p &&& 0x30 = s.cpu.p &&& 0x30 := by
  simp [nes_op_bit]

@[simp] theorem nes_op_rol_p30 (s : nes_t) (v : Nat) :
    (nes_op_rol s v).cpu.p &&& 0x30 = s.cpu.p &&& 0x30 := by
  simp [nes_op_rol]

@[simp] theorem nes_op_ror_p30 (s : nes_t) (v : Nat) :
    (nes_op_ror s v).cpu.p &&& 0x30 = s.cpu.p &&& 0x30 := by
  simp [nes_op_ror]

@[simp] theorem nes_op_rola_p30 (s : nes_t) (v : Nat) :
    (nes_op_rola s v).cpu.p &&& 0x30 = s.cpu.p &&& 0x30 := by
  simp [nes_op_rola]

@[simp] theorem nes_op_rora_p30 (s : nes_t) (v : Nat) :
    (nes_op_rora s v).cpu.p &&& 0x30 = s.cpu.p &&& 0x30 := by
  simp [nes_op_rora]

@[simp] theorem nes_op_asl_p30 (s : nes_t) (v : Nat) :
    (nes_op_asl s v).cpu.p &&& 0x30 = s.cpu.p &&& 0x30 := by
  simp [nes_op_asl]

@[simp] theorem nes_op_lsr_p30 (s : nes_t) (v : Nat) :
    (nes_op_lsr s v).cpu.p &&& 0x30 = s.cpu.p &&& 0x30 := by
  simp [nes_op_lsr]

@[simp] theorem nes_op_asla_p30 (s : nes_t) (v : Nat) :
    (nes_op_asla s v).cpu.p &&& 0x30 = s.cpu.p &&& 0x30 := by
  simp [nes_op_asla]

@[simp] theorem nes_op_lsra_p30 (s : nes_t) (v : Nat) :
    (nes_op_lsra s v).cpu.p &&& 0x30 = s.cpu.p &&& 0x30 := by
  simp [nes_op_lsra]

@[simp] theorem nes_op_inc_p30 (s : nes_t) (v : Nat) :
    (nes_op_inc s v).cpu.p &&& 0x30 = s.cpu.p &&& 0x30 := by
  simp [nes_op_inc]

@[simp] theorem nes_op_dec_p30 (s : nes_t) (v : Nat) :
    (nes_op_dec s v).cpu.p &&& 0x30 = s.cpu.p &&& 0x30 := by
  simp [nes_op_dec]

@[simp] theorem nes_op_alr_p30 (s : nes_t) (v : Nat) :
    (nes_op_alr s v).cpu.p &&& 0x30 = s.cpu.p &&& 0x30 := by
  simp [nes_op_alr]

@[simp] theorem nes_op_anc_p30 (s : nes_t) (v : Nat) :
    (nes_op_anc s v).cpu.p &&& 0x30 = s.cpu.p &&& 0x30 := by
  simp [nes_op_anc]

@[simp] theorem nes_op_arr_p30 (s : nes_t) (v : Nat) :
    (nes_op_arr s v).cpu.p &&& 0x30 = s.cpu.p &&& 0x30 := by
  simp [nes_op_arr]

@[simp] theorem nes_op_axs_p30 (s : nes_t) (v : Nat) :
    (nes_op_axs s v).cpu.p &&& 0x30 = s.cpu.p &&& 0x30 := by
  simp [nes_op_axs]

@[simp] theorem nes_op_lax_p30 (s : nes_t) (v : Nat) :
    (nes_op_lax s v).cpu.p &&& 0x30 = s.cpu.p &&& 0x30 := by
  simp [nes_op_lax]

@[simp] theorem nes_op_sax_p30 (s : nes_t) (v : Nat) :
    (nes_op_sax s v).cpu.p &&& 0x30 = s.cpu.p &&& 0x30 := by
  simp [nes_op_sax]

@[simp] theorem nes_op_dcp_p30 (s : nes_t) (v : Nat) :
    (nes_op_dcp s v).cpu.p &&& 0x30 = s.cpu.p &&& 0x30 := by
  simp [nes_op_dcp]

@[simp] theorem nes_op_isb_p30 (s : nes_t) (v : Nat) :
    (nes_op_isb s v).cpu.p &&& 0x30 = s.cpu.p &&& 0x30 := by
  simp [nes_op_isb]

@[simp] theorem nes_op_rla_p30 (s : nes_t) (v : Nat) :
    (nes_op_rla s v).cpu.p &&& 0x30 = s.cpu.p &&& 0x30 := by
  simp [nes_op_rla]

@[simp] theorem nes_op_rra_p30 (s : nes_t) (v : Nat) :
    (nes_op_rra s v).cpu.p &&& 0x30 = s.cpu.p &&& 0x30 := by
  simp [nes_op_rra]

@[simp] theorem nes_op_slo_p30 (s : nes_t) (v : Nat) :
    (nes_op_slo s v).cpu.p &&& 0x30 = s.cpu.p &&& 0x30 := by
  simp [nes_op_slo]

@[simp] theorem nes_op_sre_p30 (s : nes_t) (v : Nat) :
    (nes_op_sre s v).cpu.p &&& 0x30 = s.cpu.p &&& 0x30 := by
  simp [nes_op_sre]

@[simp] theorem nes_op_skb_p30 (s : nes_t) (v : Nat) :
    (nes_op_skb s v).cpu.p &&& 0x30 = s.cpu.p &&& 0x30 := by
  simp [nes_op_skb]

@[simp] theorem nes_op_ign_p30 (s : nes_t) (v : Nat) :
    (nes_op_ign s v).cpu.p &&& 0x30 = s.cpu.p &&& 0x30 := by
  simp [nes_op_ign]

@[simp] theorem nes_op_inx_p30 (s : nes_t) :
    (nes_op_inx s).cpu.p &&& 0x30 = s.cpu.p &&& 0x30 := by
  simp [nes_op_inx]

@[simp] theorem nes_op_dex_p30 (s : nes_t) :
    (nes_op_dex s).cpu.p &&& 0x30 = s.cpu.p &&& 0x30 := by
  simp [nes_op_dex]

@[simp] theorem nes_op_iny_p30 (s : nes_t) :
    (nes_op_iny s).cpu.p &&& 0x30 = s.cpu.p &&& 0x30 := by
  simp [nes_op_iny]

@[simp] theorem nes_op_dey_p30 (s : nes_t) :
    (nes_op_dey s).cpu.p &&& 0x30 = s.cpu.p &&& 0x30 := by
  simp [nes_op_dey]

@[simp] theorem nes_op_tax_p30 (s : nes_t) :
    (nes_op_tax s).cpu.p &&& 0x30 = s.cpu.p &&& 0x30 := by
  simp [nes_op_tax]

@[simp] theorem nes_op_tay_p30 (s : nes_t) :
    (nes_op_tay s).cpu.p &&& 0x30 = s.cpu.p &&& 0x30 := by
  simp [nes_op_tay]

@[simp] theorem nes_op_txa_p30 (s : nes_t) :
    (nes_op_txa s).cpu.p &&& 0x30 = s.cpu.p &&& 0x30 := by
  simp [nes_op_txa]

@[simp] theorem nes_op_tya_p30 (s : nes_t) :
    (nes_op_tya s).cpu.p &&& 0x30 = s.cpu.p &&& 0x30 := by
  simp [nes_op_tya]

@[simp] theorem nes_op_txs_p30 (s : nes_t) :
    (nes_op_txs s).cpu.p &&& 0x30 = s.cpu.p &&& 0x30 := by
  simp [nes_op_txs]

@[simp] theorem nes_op_tsx_p30 (s : nes_t) :
    (nes_op_tsx s).cpu.p &&& 0x30 = s.cpu.p &&& 0x30 := by
  simp [nes_op_tsx]

@[simp] theorem nes_op_clc_p30 (s : nes_t) :
    (nes_op_clc s).cpu.p &&& 0x30 = s.cpu.p &&& 0x30 := by
  simp [nes_op_clc]

@[simp] theorem nes_op_sec_p30 (s : nes_t) :
    (nes_op_sec s).cpu.p &&& 0x30 = s.cpu.p &&& 0x30 := by
  simp [nes_op_sec]

@[simp] theorem nes_op_cli_p30 (s : nes_t) :
    (nes_op_cli s).cpu.p &&& 0x30 = s.cpu.p &&& 0x30 := by
  simp [nes_op_cli]

@[simp] theorem nes_op_sei_p30 (s : nes_t) :
    (nes_op_sei s).cpu.p &&& 0x30 = s.cpu.p &&& 0x30 := by
  simp [nes_op_sei]

@[simp] theorem nes_op_clv_p30 (s : nes_t) :
    (nes_op_clv s).cpu.p &&& 0x30 = s.cpu.p &&& 0x30 := by
  simp [nes_op_clv]

@[simp] theorem nes_op_cld_p30 (s : nes_t) :
    (nes_op_cld s).cpu.p &&& 0x30 = s.cpu.p &&& 0x30 := by
  simp [nes_op_cld]

@[simp] theorem nes_op_sed_p30 (s : nes_t) :
    (nes_op_sed s).cpu.p &&& 0x30 = s.cpu.p &&& 0x30 := by
  simp [nes_op_sed]

@[simp] theorem nes_op_jmp_p30 (s : nes_t) :
    (nes_op_jmp s).cpu.p &&& 0x30 = s.cpu.p &&& 0x30 := by
  simp [nes_op_jmp]

@[simp] theorem nes_op_jmi_p30 (s : nes_t) :
    (nes_op_jmi s).cpu.p &&& 0x30 = s.cpu.p &&& 0x30 := by
  simp [nes_op_jmi]

@[simp] theorem nes_op_jsr_p30 (s : nes_t) :
    (nes_op_jsr s).cpu.p &&& 0x30 = s.cpu.p &&& 0x30 := by
  simp [nes_op_jsr]

@[simp] theorem nes_op_rts_p30 (s : nes_t) :
    (nes_op_rts s).cpu.p &&& 0x30 = s.cpu.p &&& 0x30 := by
  simp [nes_op_rts]

@[simp] theorem nes_op_brk_p30 (s : nes_t) :
    (nes_op_brk s).cpu.p &&& 0x30 = s.cpu.p &&& 0x30 := by
  unfold nes_op_brk
  split_ifs
  · simp
  · rfl

@[simp] theorem nes_op_rti_p30 (s : nes_t) : (nes_op_rti s).cpu.p &&& 0x30 = 0x20 := by
  simp [nes_op_rti, plp_byte_30]

@[simp] theorem nes_op_pha_p30 (s : nes_t) :
    (nes_op_pha s).cpu.p &&& 0x30 = s.cpu.p &&& 0x30 := by
  simp [nes_op_pha]

@[simp] theorem nes_op_pla_p30 (s : nes_t) :
    (nes_op_pla s).cpu.p &&& 0x30 = s.cpu.p &&& 0x30 := by
  simp [nes_op_pla]

@[simp] theorem nes_op_php_p30 (s : nes_t) :
    (nes_op_php s).cpu.p &&& 0x30 = s.cpu.p &&& 0x30 := by
  simp [nes_op_php]

@[simp] theorem nes_op_plp_p30 (s : nes_t) : (nes_op_plp s).cpu.p &&& 0x30 = 0x20 := by
  simp [nes_op_plp, plp_byte_30]

@[simp] theorem nes_op_nop_p30 (s : nes_t) :
    (nes_op_nop s).cpu.p &&& 0x30 = s.cpu.p &&& 0x30 := by
  simp [nes_op_nop]

@[simp] theorem nes_branch_jmp_p (s : nes_t) (f : Nat) : (nes_branch_jmp s f).cpu.p = s.cpu.p := by
  unfold nes_branch_jmp nes_cpu_add_branch_cycles
  dsimp only
  split_ifs <;> simp

@[simp] theorem nes_op_bpl_p (s : nes_t) : (nes_op_bpl s).cpu.p = s.cpu.p := by
  simp [nes_op_bpl]

@[simp] theorem nes_op_bmi_p (s : nes_t) : (nes_op_bmi s).cpu.p = s.cpu.p := by
  simp [nes_op_bmi]

@[simp] theorem nes_op_bvc_p (s : nes_t) : (nes_op_bvc s).cpu.p = s.cpu.p := by
  simp [nes_op_bvc]

@[simp] theorem nes_op_bvs_p (s : nes_t) : (nes_op_bvs s).cpu.p = s.cpu.p := by
  simp [nes_op_bvs]

@[simp] theorem nes_op_bcc_p (s : nes_t) : (nes_op_bcc s).cpu.p = s.cpu.p := by
  simp [nes_op_bcc]

@[simp] theorem nes_op_bcs_p (s : nes_t) : (nes_op_bcs s).cpu.p = s.cpu.p := by
  simp [nes_op_bcs]

@[simp] theorem nes_op_bne_p (s : nes_t) : (nes_op_bne s).cpu.p = s.cpu.p := by
  simp [nes_op_bne]

@[simp] theorem nes_op_beq_p (s : nes_t) : (nes_op_beq s).cpu.p = s.cpu.p := by
  simp [nes_op_beq]

theorem ite_p30 (c : Prop) [Decidable c] (a b : nes_t)
    (ha : c → a.cpu.p &&& 0x30 = 0x20) (hb : b.cpu.p &&& 0x30 = 0x20) :
    (if c then a else b).cpu.p &&& 0x30 = 0x20 := by
  split_ifs with h
  · exact ha h
  · exact hb

/-- Every instruction keeps bit 5 of P set and the B bit clear. -/
theorem nes_cpu_op_switch_p30 (opc : Nat) (t : nes_t) (h : t.cpu.p &&& 0x30 = 0x20) :
    (nes_cpu_op_switch opc t).cpu.p &&& 0x30 = 0x20 := by
  unfold nes_cpu_op_switch
  repeat (refine ite_p30 _ _ _ (fun _ => ?_) ?_
          (simp [nes_op_call, h]))
  exact h

/-- One call of `nes_cpu_op` keeps bit 5 of P set and the B bit clear. -/
theorem nes_cpu_op_p30 (s : nes_t) (h : s.cpu.p &&& 0x30 = 0x20) :
    (nes_cpu_op s).2.cpu.p &&& 0x30 = 0x20 := by
  by_cases hst : s.cpu.stall = 0
  · rw [nes_cpu_op_state s _ hst rfl]
    exact nes_cpu_op_switch_p30 _ _ (by rw [nes_mem_read_nextb_p]; exact h)
  · unfold nes_cpu_op
    dsimp only
    rw [if_pos hst]
    exact h

/-- NMI entry keeps bit 5 of P set and the B bit clear. -/
theorem nes_cpu_nmi_p30 (s : nes_t) (h : s.cpu.p &&& 0x30 = 0x20) :
    (nes_cpu_nmi s).cpu.p &&& 0x30 = 0x20 := by
  unfold nes_cpu_nmi
  simp [h]

/-- IRQ entry keeps bit 5 of P set and the B bit clear. -/
theorem nes_cpu_irq_p30 (s : nes_t) (h : s.cpu.p &&& 0x30 = 0x20) :
    (nes_cpu_irq s).cpu.p &&& 0x30 = 0x20 := by
  have f1 : ∀ (t : nes_t) (w : Nat), nes_pushw_with nes_mem_writeb t w = nes_pushw t w :=
    fun _ _ => rfl
  have f2 : ∀ (t : nes_t) (w : Nat), nes_pushb_with nes_mem_writeb t w = nes_pushb t w :=
    fun _ _ => rfl
  unfold nes_cpu_irq nes_cpu_irq_with
  split_ifs
  · exact h
  · simp [f1, f2, h]

/-- In every reachable CPU state bit 5 of P is set and the B bit is clear. -/
theorem cpu_reachable_p30 (s : nes_t) (h : cpu_reachable s) : s.cpu.p &&& 0x30 = 0x20 := by
  induction h with
  | init s h0 =>
    rw [h0]
    show (0x24 : Nat) &&& 0x30 = 0x20
    decide
  | op s _ ih => exact nes_cpu_op_p30 s ih
  | nmi s _ ih => exact nes_cpu_nmi_p30 s ih
  | irq s _ ih => exact nes_cpu_irq_p30 s ih
  | other s t _ ht ih =>
    rw [ht]
    exact ih

/-- C14. Flags register.  In every CPU state reachable from `nes_cpu_init` by
executing instructions (`nes_cpu_op`), taking NMI or IRQ, and steps of the
rest of the machine (which only touch the stall counter and, at reset, PC),
P has bit 5 set and bit 4 (B) clear; hence the P byte that NMI pushes, and the
one that IRQ pushes when the I flag is clear, stored at $0100|(S-2) for S a
byte, has bit 5 set and B clear. -/
theorem cpu_flags_b_clear (s : nes_t) (h : cpu_reachable s) :
    s.cpu.p &&& FLAG_MASK_UNUSED = FLAG_MASK_UNUSED ∧ s.cpu.p &&& FLAG_MASK_B = 0 ∧
    (s.cpu.s < 0x100 →
      (nes_cpu_nmi s).mem.ram (0x100 ||| ((s.cpu.s + 0x100 - 2) % 0x100)) &&& FLAG_MASK_UNUSED
        = FLAG_MASK_UNUSED ∧
      (nes_cpu_nmi s).mem.ram (0x100 ||| ((s.cpu.s + 0x100 - 2) % 0x100)) &&& FLAG_MASK_B = 0 ∧
      (s.cpu.p &&& FLAG_MASK_I = 0 →
        (nes_cpu_irq s).mem.ram (0x100 ||| ((s.cpu.s + 0x100 - 2) % 0x100)) &&& FLAG_MASK_UNUSED
          = FLAG_MASK_UNUSED ∧
        (nes_cpu_irq s).mem.ram (0x100 ||| ((s.cpu.s + 0x100 - 2) % 0x100)) &&& FLAG_MASK_B
          = 0)) := by
  have hp := cpu_reachable_p30 s h
  have h5 : s.cpu.p &&& FLAG_MASK_UNUSED = FLAG_MASK_UNUSED := by
    have e : s.cpu.p &&& 0x30 &&& 0x20 = 0x20 := by rw [hp]; decide
    rw [Nat.and_assoc] at e
    exact e
  have h4 : s.cpu.p &&& FLAG_MASK_B = 0 := by
    have e : s.cpu.p &&& 0x30 &&& 0x10 = 0 := by rw [hp]; decide
    rw [Nat.and_assoc] at e
    exact e
  refine ⟨h5, h4, ?_⟩
  intro hs
  have e2 : (s.cpu.s + 0x100 - 2) % 0x100 = (s.cpu.s + 254) % 0x100 := by omega
  have a3 := stack_addr ((s.cpu.s + 254) % 0x100) (Nat.mod_lt _ (by omega))
  have hn : (nes_cpu_nmi s).mem.ram (0x100 ||| ((s.cpu.s + 0x100 - 2) % 0x100)) = s.cpu.p := by
    rw [e2, a3, nes_cpu_nmi_state s hs]
    exact arr_set_same _ _ _
  refine ⟨by rw [hn]; exact h5, by rw [hn]; exact h4, ?_⟩
  intro hi
  have hq : (nes_cpu_irq s).mem.ram (0x100 ||| ((s.cpu.s + 0x100 - 2) % 0x100)) = s.cpu.p := by
    rw [e2, a3, nes_cpu_irq_state s hs hi]
    exact arr_set_same _ _ _
  exact ⟨by rw [hq]; exact h5, by rw [hq]; exact h4⟩

/-- Instance of C14: the state after an NMI taken right after power-on, and
the P byte ($24) that this NMI pushed at $01FB. -/
theorem cpu_flags_b_clear_witness :
    cpu_reachable (nes_cpu_nmi nes_cpu_power_on) ∧
    (nes_cpu_nmi nes_cpu_power_on).cpu.p &&& FLAG_MASK_B = 0 ∧
    (nes_cpu_nmi nes_cpu_power_on).mem.ram 0x1FB &&& FLAG_MASK_B = 0 :=
  ⟨cpu_reachable.nmi _ (cpu_reachable.init _ rfl),
    (cpu_flags_b_clear _ (cpu_reachable.nmi _ (cpu_reachable.init _ rfl))).2.1,
    ((cpu_flags_b_clear nes_cpu_power_on (cpu_reachable.init _ rfl)).2.2 (by decide)).2.1⟩

/-! ## iNES header: mirroring and mapper number -/

/-- The mirroring mode stored by the loader, as a function of the header
byte: bit 4 selects the 2x2 layout, then bit 0 vertical, else horizontal. -/
theorem nes_cart_read_rom_mirroring_mode (s : nes_t) (c : Nat) :
    (nes_cart_read_rom_mirroring s c).cart.mirror =
      if c &&& 0x10 ≠ 0 then .MIRROR_NONE
      else if c &&& 0x01 ≠ 0 then .MIRROR_VERTICAL else .MIRROR_HORIZONTAL := by
  unfold nes_cart_read_rom_mirroring
  show (if c &&& 0x10 ≠ 0 then nes_cart_set_mirroring s .MIRROR_NONE
    else if c &&& 0x01 ≠ 0 then nes_cart_set_mirroring s .MIRROR_VERTICAL
    else nes_cart_set_mirroring s .MIRROR_HORIZONTAL).cart.mirror = _
  split_ifs <;> rfl

/-- C27. The loader tests bit 4 of flag6, not bit 3: with flag6 = $08 (only
the four-screen bit set) it selects horizontal mirroring, with flag6 = $09
vertical mirroring, and with flag6 = $10 or $31 (bit 3 clear, mapper numbers 1
and 3) it selects the 2x2 layout. -/
theorem loader_mirroring_bit4 :
    (nes_cart_read_rom_mirroring nes_blank 0x08).cart.mirror = .MIRROR_HORIZONTAL ∧
    (nes_cart_read_rom_mirroring nes_blank 0x09).cart.mirror = .MIRROR_VERTICAL ∧
    (nes_cart_read_rom_mirroring nes_blank 0x10).cart.mirror = .MIRROR_NONE ∧
    (nes_cart_read_rom_mirroring nes_blank 0x31).cart.mirror = .MIRROR_NONE := by
  refine ⟨?_, ?_, ?_, ?_⟩ <;> rw [nes_cart_read_rom_mirroring_mode] <;> decide

/-- C28, as stated, fails: with flag6 = $00 and flag7 = $01 the loader looks
up mapper 1 (the low bits of flag7 are used), where the claim gives 0; with
flag6 = $10 and flag7 = $40 it looks up mapper 1, where the claim gives $41
(high nibble 4, not greater than 4). -/
theorem loader_mapper_counterexample :
    nes_cart_read_rom_mapper 0x00 0x01 = 1 ∧
    nes_cart_read_rom_mapper 0x00 0x01 ≠
      (if ((0x01 &&& 0xF0) ||| (0x00 >>> 4)) >>> 4 > 4
        then ((0x01 &&& 0xF0) ||| (0x00 >>> 4)) &&& 0x0F
        else (0x01 &&& 0xF0) ||| (0x00 >>> 4)) ∧
    nes_cart_read_rom_mapper 0x10 0x40 = 1 ∧
    nes_cart_read_rom_mapper 0x10 0x40 ≠
      (if ((0x40 &&& 0xF0) ||| (0x10 >>> 4)) >>> 4 > 4
        then ((0x40 &&& 0xF0) ||| (0x10 >>> 4)) &&& 0x0F
        else (0x40 &&& 0xF0) ||| (0x10 >>> 4)) := by
  decide

/-- C28, amended. For header bytes flag6 and flag7, the mapper number the
loader looks up is flag7 | (flag6 >> 4), all eight bits of flag7 being used,
except that a number greater than $40 is replaced by its low 4 bits; so the
low nibble of the number is (flag7 & $0F) | (flag6 >> 4) in every case and the
number is at most $40. -/
theorem loader_mapper_number (flag6 flag7 : Nat) (h6 : flag6 < 0x100) (h7 : flag7 < 0x100) :
    nes_cart_read_rom_mapper flag6 flag7 =
      (if flag7 ||| (flag6 >>> 4) > 0x40 then (flag7 ||| (flag6 >>> 4)) &&& 0x0F
        else flag7 ||| (flag6 >>> 4)) ∧
    nes_cart_read_rom_mapper flag6 flag7 &&& 0x0F = (flag7 &&& 0x0F) ||| (flag6 >>> 4) ∧
    nes_cart_read_rom_mapper flag6 flag7 ≤ 0x40 := by
  have h4 : flag6 >>> 4 < 2 ^ 4 := by
    rw [Nat.shiftRight_eq_div_pow]
    omega
  have hm : flag7 ||| (flag6 >>> 4) < 0x100 :=
    Nat.or_lt_two_pow (n := 8) (by omega) (by omega)
  have e : nes_cart_read_rom_mapper flag6 flag7 =
      (if flag7 ||| (flag6 >>> 4) > 0x40 then (flag7 ||| (flag6 >>> 4)) &&& 0x0F
        else flag7 ||| (flag6 >>> 4)) := by
    unfold nes_cart_read_rom_mapper
    dsimp only
    rw [Nat.mod_eq_of_lt hm]
  have hlow : (flag7 ||| (flag6 >>> 4)) &&& 0x0F = (flag7 &&& 0x0F) ||| (flag6 >>> 4) := by
    rw [Nat.and_distrib_right]
    congr 1
    exact Nat.and_pow_two_sub_one_of_lt_two_pow (n := 4) h4
  refine ⟨e, ?_, ?_⟩
  · rw [e]
    split_ifs
    · rw [Nat.and_assoc, Nat.and_self, hlow]
    · exact hlow
  · rw [e]
    split_ifs with h
    · have := @Nat.and_le_right (flag7 ||| (flag6 >>> 4)) 0x0F
      omega
    · omega

theorem loader_mapper_number_witness :
    nes_cart_read_rom_mapper 0x10 0x41 = 1 ∧ nes_cart_read_rom_mapper 0x40 0x00 = 4 :=
  ⟨(loader_mapper_number 0x10 0x41 (by decide) (by decide)).1.trans (by decide),
    ((loader_mapper_number 0x40 0x00 (by decide) (by decide)).1).trans (by decide)⟩

/-! ## The frame counter register behind the mappers -/

/-- A frame counter write sets the period from bit 7 and the IRQ enable from
bit 6 of the value. -/
theorem nes_apu_write_frame_counter_regs (irq : nes_t → nes_t) (s : nes_t) (v : Nat) :
    (nes_apu_write_frame_counter irq s v).apu.frame_period = 4 + ((v >>> 7) &&& 0x01) ∧
    (nes_apu_write_frame_counter irq s v).apu.frame_irq =
      c_bool (decide ((v >>> 6) &&& 1 = 0)) := by
  have hp : ∀ t : nes_t, (nes_apu_step_frame_counter id t).apu.frame_period
      = t.apu.frame_period := by
    intro t
    unfold nes_apu_step_frame_counter nes_apu_step_env nes_apu_step_len nes_apu_step_sweep
      nes_apu_fire_irq
    dsimp only
    split_ifs <;> (try split) <;> simp
  rw [nes_apu_write_frame_counter_irq_indep]
  unfold nes_apu_write_frame_counter
  dsimp only
  refine ⟨?_, rfl⟩
  split_ifs
  · rw [hp]
  · rfl

/-- On NROM, MMC1 and MMC3 a CPU write to $4017 is a write of the APU frame
counter register. -/
theorem nes_mem_writeb_4017 (s : nes_t) (v : Nat) (h : s.cart.mapper.funcs ≠ .cnrom) :
    nes_mem_writeb s 0x4017 v = nes_apu_write_frame_counter nes_cpu_irq_inner s v := by
  unfold nes_mem_writeb nes_mem_writeb_with
  split
  · unfold nes_mem_write_nrom nes_apu_write
    simp
  · unfold nes_mem_write_mmc1 nes_apu_write
    simp
  · rename_i hc
    exact absurd hc h
  · unfold nes_mem_write_mmc3 nes_apu_write
    simp

/-- On CNROM a CPU write to $4017 goes to the input registers, which ignore
it: the machine state is unchanged. -/
theorem nes_mem_writeb_4017_cnrom (s : nes_t) (v : Nat) (h : s.cart.mapper.funcs = .cnrom) :
    nes_mem_writeb s 0x4017 v = s := by
  unfold nes_mem_writeb nes_mem_writeb_with
  rw [h]
  unfold nes_mem_write_cnrom nes_input_write
  simp

/-- On NROM, MMC1 and MMC3 a CPU write of `v` to $4017 sets the sequencer
period to 5 if bit 7 of `v` is set and to 4 otherwise, and enables the frame
IRQ iff bit 6 of `v` is clear. -/
theorem nes_mem_writeb_4017_regs (s : nes_t) (v : Nat) (h : s.cart.mapper.funcs ≠ .cnrom) :
    (nes_mem_writeb s 0x4017 v).apu.frame_period = (if v &&& 0x80 ≠ 0 then 5 else 4) ∧
    ((nes_mem_writeb s 0x4017 v).apu.frame_irq ≠ 0 ↔ v &&& 0x40 = 0) := by
  rw [nes_mem_writeb_4017 s v h]
  have hr := nes_apu_write_frame_counter_regs nes_cpu_irq_inner s v
  rw [hr.1, hr.2]
  have e7 : v &&& 0x80 = (v / 0x80 % 2) * 0x80 := and_two_pow_eq v 7
  have e6 : v &&& 0x40 = (v / 0x40 % 2) * 0x40 := and_two_pow_eq v 6
  have a7 : (v >>> 7) &&& 1 = v / 0x80 % 2 := by
    rw [Nat.shiftRight_eq_div_pow, Nat.and_one_is_mod]
  have a6 : (v >>> 6) &&& 1 = v / 0x40 % 2 := by
    rw [Nat.shiftRight_eq_div_pow, Nat.and_one_is_mod]
  rw [a7, a6, e7, e6]
  constructor
  · split_ifs <;> omega
  · unfold c_bool
    by_cases hb : v / 0x40 % 2 = 0
    · simp [hb]
    · simp [hb]

/-- C23. On a CNROM cartridge a CPU write of $80 to $4017 leaves the machine
as it was: the sequencer period stays 0 (not 5) and the frame IRQ stays
disabled, the write being sent to the input registers; the same write on the
NROM machine sets the period to 5 and enables the frame IRQ. -/
theorem cnrom_write_4017_ignored :
    nes_mem_writeb nes_cnrom_example 0x4017 0x80 = nes_cnrom_example ∧
    (nes_mem_writeb nes_cnrom_example 0x4017 0x80).apu.frame_period = 0 ∧
    (nes_mem_writeb nes_cnrom_example 0x4017 0x80).apu.frame_irq = 0 ∧
    (nes_mem_writeb nes_blank 0x4017 0x80).apu.frame_period = 5 ∧
    (nes_mem_writeb nes_blank 0x4017 0x80).apu.frame_irq = 1 := by
  have h := nes_mem_writeb_4017_cnrom nes_cnrom_example 0x80 rfl
  have hb := nes_mem_writeb_4017 nes_blank 0x80 (by decide)
  have hr := nes_apu_write_frame_counter_regs nes_cpu_irq_inner nes_blank 0x80
  refine ⟨h, ?_, ?_, ?_, ?_⟩
  · rw [h]; rfl
  · rw [h]; rfl
  · rw [hb, hr.1]; decide
  · rw [hb, hr.2]; decide

/-! ## The vertical scroll increment -/

/-- Masking with a run of `w` one bits that starts at bit `lo` extracts the
field of `w` bits of `v` at `lo`. -/
theorem and_field_eq (v lo w : Nat) :
    v &&& ((2 ^ w - 1) * 2 ^ lo) = (v / 2 ^ lo % 2 ^ w) * 2 ^ lo := by
  apply Nat.eq_of_testBit_eq
  intro i
  rw [Nat.testBit_and, Nat.mul_comm (2 ^ w - 1), Nat.mul_comm (v / 2 ^ lo % 2 ^ w),
    Nat.testBit_mul_pow_two, Nat.testBit_mul_pow_two, Nat.testBit_two_pow_sub_one,
    Nat.testBit_mod_two_pow, ← Nat.shiftRight_eq_div_pow, Nat.testBit_shiftRight]
  by_cases h : lo ≤ i
  · rw [show lo + (i - lo) = i by omega]
    cases v.testBit i <;> simp [h]
  · simp [h]

theorem and_0x7000_eq (v : Nat) : v &&& 0x7000 = (v / 0x1000 % 8) * 0x1000 :=
  and_field_eq v 12 3

theorem and_0x03E0_eq (v : Nat) : v &&& 0x03E0 = (v / 0x20 % 0x20) * 0x20 :=
  and_field_eq v 5 5

theorem and_0x0FFF_eq (v : Nat) : v &&& 0x0FFF = v % 0x1000 :=
  Nat.and_pow_two_sub_one_eq_mod v 12

theorem and_0x8000_eq (v : Nat) : v &&& 0x8000 = (v / 0x8000 % 2) * 0x8000 :=
  and_two_pow_eq v 15

/-- Two masks in a row act as their intersection. -/
theorem and_and_lit (v a b c : Nat) (h : a &&& b = c) : (v &&& a) &&& b = v &&& c := by
  rw [Nat.and_assoc, h]

/-- A coarse-y value put in place (bits 5-9) has no bit outside the field. -/
theorem coarse_y_field (z : Nat) (hz : z < 32) : (z <<< 5) &&& 0x03E0 = z <<< 5 := by
  rw [and_0x03E0_eq, Nat.shiftLeft_eq]
  omega

theorem coarse_y_field_and (z m : Nat) (hz : z < 32) :
    (z <<< 5) &&& m = (z <<< 5) &&& (0x03E0 &&& m) := by
  rw [← Nat.and_assoc, coarse_y_field z hz]

/-- The three results of `nes_ppu_increment_y`, by case. -/
theorem nes_ppu_increment_y_addr (s : nes_t) :
    (nes_ppu_increment_y s).ppu.vmem_addr =
      (if s.ppu.vmem_addr &&& 0x7000 ≠ 0x7000 then (s.ppu.vmem_addr + 0x1000) % 0x10000
        else if (s.ppu.vmem_addr &&& 0x03E0) >>> 5 = 29 then
          (s.ppu.vmem_addr &&& 0x8FFF ^^^ 0x0800) &&& 0xFC1F
        else if (s.ppu.vmem_addr &&& 0x03E0) >>> 5 = 31 then s.ppu.vmem_addr &&& 0x8C1F
        else (s.ppu.vmem_addr &&& 0x8C1F) |||
          (((s.ppu.vmem_addr &&& 0x03E0) >>> 5 + 1) <<< 5)) := by
  have hy : (s.ppu.vmem_addr &&& 0x8FFF &&& 0x03E0) = s.ppu.vmem_addr &&& 0x03E0 :=
    and_and_lit _ _ _ _ (by decide)
  have hw : (s.ppu.vmem_addr &&& 0x8FFF &&& 0xFC1F) = s.ppu.vmem_addr &&& 0x8C1F :=
    and_and_lit _ _ _ _ (by decide)
  have hlt : ∀ x : Nat, (x &&& 0xFC1F) % 0x10000 = x &&& 0xFC1F := fun x =>
    Nat.mod_eq_of_lt (Nat.lt_of_le_of_lt Nat.and_le_right (by decide))
  have hcy : (s.ppu.vmem_addr &&& 0x03E0) >>> 5 < 32 := by
    rw [and_0x03E0_eq, Nat.shiftRight_eq_div_pow]
    omega
  unfold nes_ppu_increment_y
  dsimp only
  rw [hy, hw, Nat.zero_shiftLeft, Nat.or_zero, Nat.or_zero, hlt, ← hw, hlt, hw]
  split_ifs with h1 h2 h3
  · rfl
  · rfl
  · rfl
  · refine Nat.mod_eq_of_lt (Nat.or_lt_two_pow (n := 16) ?_ ?_)
    · exact Nat.lt_of_le_of_lt Nat.and_le_right (by decide)
    · rw [Nat.shiftLeft_eq]
      omega

/-- C30, as stated, fails: at v = $73C0 (fine-y 7, coarse-y 30) the result is
$03E0, whose coarse-y is 31, not 0. -/
theorem increment_y_counterexample :
    (nes_ppu_increment_y { nes_blank with ppu := { nes_blank.ppu with
        vmem_addr := 0x73C0 } }).ppu.vmem_addr = 0x03E0 ∧
    ((0x73C0 : Nat) &&& 0x7000 = 0x7000 ∧ ((0x73C0 : Nat) &&& 0x03E0) >>> 5 = 30) ∧
    ((0x03E0 : Nat) &&& 0x03E0) >>> 5 = 31 := by
  refine ⟨?_, by decide, by decide⟩
  rw [nes_ppu_increment_y_addr]
  decide

/-- C30, amended. For every value of v, `nes_ppu_increment_y` adds 1 to fine-y
(bits 12-14) when fine-y < 7 and leaves every other bit; when fine-y = 7 it
sets fine-y to 0 and then coarse-y (bits 5-9) 29 becomes 0 with nametable-y
(bit 11) flipped, coarse-y 31 becomes 0 without a flip, and any other coarse-y,
30 included, is incremented by 1 without a flip; bits 0-4, bit 10 and bit 15
of v are never changed, the result is a 16-bit value and nothing but v is
changed. -/
theorem increment_y_fields (s : nes_t) :
    (s.ppu.vmem_addr &&& 0x7000 ≠ 0x7000 →
      (nes_ppu_increment_y s).ppu.vmem_addr &&& 0x7000 = (s.ppu.vmem_addr &&& 0x7000) + 0x1000 ∧
      (nes_ppu_increment_y s).ppu.vmem_addr &&& 0x8FFF = s.ppu.vmem_addr &&& 0x8FFF) ∧
    (s.ppu.vmem_addr &&& 0x7000 = 0x7000 →
      (nes_ppu_increment_y s).ppu.vmem_addr &&& 0x7000 = 0 ∧
      (nes_ppu_increment_y s).ppu.vmem_addr &&& 0x841F = s.ppu.vmem_addr &&& 0x841F ∧
      ((s.ppu.vmem_addr &&& 0x03E0) >>> 5 = 29 →
        ((nes_ppu_increment_y s).ppu.vmem_addr &&& 0x03E0) >>> 5 = 0 ∧
        (nes_ppu_increment_y s).ppu.vmem_addr &&& 0x0800 =
          (s.ppu.vmem_addr &&& 0x0800) ^^^ 0x0800) ∧
      ((s.ppu.vmem_addr &&& 0x03E0) >>> 5 = 31 →
        ((nes_ppu_increment_y s).ppu.vmem_addr &&& 0x03E0) >>> 5 = 0 ∧
        (nes_ppu_increment_y s).ppu.vmem_addr &&& 0x0800 = s.ppu.vmem_addr &&& 0x0800) ∧
      ((s.ppu.vmem_addr &&& 0x03E0) >>> 5 ≠ 29 → (s.ppu.vmem_addr &&& 0x03E0) >>> 5 ≠ 31 →
        ((nes_ppu_increment_y s).ppu.vmem_addr &&& 0x03E0) >>> 5 =
          (s.ppu.vmem_addr &&& 0x03E0) >>> 5 + 1 ∧
        (nes_ppu_increment_y s).ppu.vmem_addr &&& 0x0800 = s.ppu.vmem_addr &&& 0x0800)) ∧
    (nes_ppu_increment_y s).ppu.vmem_addr &&& 0x041F = s.ppu.vmem_addr &&& 0x041F ∧
    (nes_ppu_increment_y s).ppu.vmem_addr < 0x10000 ∧
    nes_ppu_increment_y s =
      { s with ppu := { s.ppu with vmem_addr := (nes_ppu_increment_y s).ppu.vmem_addr } } := by
  have hcy : (s.ppu.vmem_addr &&& 0x03E0) >>> 5 < 32 := by
    rw [and_0x03E0_eq, Nat.shiftRight_eq_div_pow]
    omega
  -- the case fine-y < 7
  have hA : s.ppu.vmem_addr &&& 0x7000 ≠ 0x7000 →
      (nes_ppu_increment_y s).ppu.vmem_addr &&& 0x7000 = (s.ppu.vmem_addr &&& 0x7000) + 0x1000 ∧
      (nes_ppu_increment_y s).ppu.vmem_addr &&& 0x8FFF = s.ppu.vmem_addr &&& 0x8FFF := by
    intro h
    rw [nes_ppu_increment_y_addr, if_pos h]
    rw [and_0x7000_eq] at h
    have e1 : (s.ppu.vmem_addr + 0x1000) % 0x10000 &&& 0x8000 = s.ppu.vmem_addr &&& 0x8000 := by
      rw [and_0x8000_eq, and_0x8000_eq]
      omega
    have e2 : (s.ppu.vmem_addr + 0x1000) % 0x10000 &&& 0x0FFF = s.ppu.vmem_addr &&& 0x0FFF := by
      rw [and_0x0FFF_eq, and_0x0FFF_eq]
      omega
    constructor
    · rw [and_0x7000_eq, and_0x7000_eq]
      omega
    · rw [show (0x8FFF : Nat) = 0x8000 ||| 0x0FFF by decide, Nat.and_or_distrib_left,
        Nat.and_or_distrib_left, e1, e2]
  -- the case fine-y = 7, by mask
  have hB : ∀ m : Nat, s.ppu.vmem_addr &&& 0x7000 = 0x7000 →
      (nes_ppu_increment_y s).ppu.vmem_addr &&& m =
        (if (s.ppu.vmem_addr &&& 0x03E0) >>> 5 = 29 then
          (s.ppu.vmem_addr &&& (0x8C1F &&& m)) ^^^ (0x0800 &&& m)
        else if (s.ppu.vmem_addr &&& 0x03E0) >>> 5 = 31 then s.ppu.vmem_addr &&& (0x8C1F &&& m)
        else (s.ppu.vmem_addr &&& (0x8C1F &&& m)) |||
          ((((s.ppu.vmem_addr &&& 0x03E0) >>> 5 + 1) <<< 5) &&& (0x03E0 &&& m))) := by
    intro m h
    rw [nes_ppu_increment_y_addr, if_neg (fun hn => hn h)]
    split_ifs with h2 h3
    · rw [Nat.and_xor_distrib_right, Nat.and_xor_distrib_right,
        and_and_lit _ 0x8FFF 0xFC1F 0x8C1F (by decide), Nat.and_assoc,
        show (0x0800 : Nat) &&& 0xFC1F = 0x0800 by decide]
    · rw [Nat.and_assoc]
    · rw [Nat.and_distrib_right, Nat.and_assoc, coarse_y_field_and _ m (by omega)]
  have z0 : ∀ x : Nat, x &&& 0 = 0 := Nat.and_zero
  have k1 : (0x8C1F : Nat) &&& 0x7000 = 0 := by decide
  have k2 : (0x0800 : Nat) &&& 0x7000 = 0 := by decide
  have k3 : (0x03E0 : Nat) &&& 0x7000 = 0 := by decide
  have k4 : (0x8C1F : Nat) &&& 0x841F = 0x841F := by decide
  have k5 : (0x0800 : Nat) &&& 0x841F = 0 := by decide
  have k6 : (0x03E0 : Nat) &&& 0x841F = 0 := by decide
  have k7 : (0x8C1F : Nat) &&& 0x03E0 = 0 := by decide
  have k8 : (0x0800 : Nat) &&& 0x03E0 = 0 := by decide
  have k9 : (0x8C1F : Nat) &&& 0x0800 = 0x0800 := by decide
  have k10 : (0x03E0 : Nat) &&& 0x0800 = 0 := by decide
  have k11 : (0x8C1F : Nat) &&& 0x041F = 0x041F := by decide
  have k12 : (0x0800 : Nat) &&& 0x041F = 0 := by decide
  have k13 : (0x03E0 : Nat) &&& 0x041F = 0 := by decide
  have k14 : (0x0800 : Nat) &&& 0x0800 = 0x0800 := by decide
  have k15 : (0x03E0 : Nat) &&& 0x03E0 = 0x03E0 := by decide
  refine ⟨hA, ?_, ?_, ?_, ?_⟩
  · intro h
    refine ⟨?_, ?_, ?_, ?_, ?_⟩
    · rw [hB _ h, k1, k2, k3, z0, z0]
      split_ifs <;> rfl
    · rw [hB _ h, k4, k5, k6, z0]
      split_ifs
      · exact Nat.xor_zero _
      · rfl
      · exact Nat.or_zero _
    · intro h29
      rw [hB _ h, hB _ h, if_pos h29, if_pos h29, k7, k8, k9, k14, z0]
      exact ⟨rfl, rfl⟩
    · intro h31
      have h29 : ¬ (s.ppu.vmem_addr &&& 0x03E0) >>> 5 = 29 := by omega
      rw [hB _ h, hB _ h, if_neg h29, if_pos h31, if_neg h29, if_pos h31, k7, k9, z0]
      exact ⟨rfl, rfl⟩
    · intro h29 h31
      rw [hB _ h, hB _ h, if_neg h29, if_neg h31, if_neg h29, if_neg h31, k7, k9, k10, k15,
        z0, z0, Nat.zero_or, Nat.or_zero, coarse_y_field _ (by omega),
        Nat.shiftLeft_shiftRight]
      exact ⟨rfl, rfl⟩
  · by_cases h : s.ppu.vmem_addr &&& 0x7000 = 0x7000
    · rw [hB _ h, k11, k12, k13, z0]
      split_ifs
      · exact Nat.xor_zero _
      · rfl
      · exact Nat.or_zero _
    · have hh := (hA h).2
      have e := congrArg (fun x => x &&& 0x041F) hh
      dsimp only at e
      rw [and_and_lit _ 0x8FFF 0x041F 0x041F (by decide),
        and_and_lit _ 0x8FFF 0x041F 0x041F (by decide)] at e
      exact e
  · rw [nes_ppu_increment_y_addr]
    split_ifs
    · exact Nat.mod_lt _ (by decide)
    · exact Nat.lt_of_le_of_lt Nat.and_le_right (by decide)
    · exact Nat.lt_of_le_of_lt Nat.and_le_right (by decide)
    · refine Nat.or_lt_two_pow (n := 16) ?_ ?_
      · exact Nat.lt_of_le_of_lt Nat.and_le_right (by decide)
      · rw [Nat.shiftLeft_eq]
        omega
  · rfl

/-! ## Interrupt entries leave the rest of the machine alone -/

/-- With the stack pointer a byte, the NMI entry touches only the CPU
registers and the RAM. -/
theorem nes_cpu_nmi_rest (s : nes_t) (hs : s.cpu.s < 0x100) :
    (nes_cpu_nmi s).apu = s.apu ∧ (nes_cpu_nmi s).ppu = s.ppu ∧
    (nes_cpu_nmi s).vmem = s.vmem ∧ (nes_cpu_nmi s).input = s.input ∧
    (nes_cpu_nmi s).cart = s.cart ∧ (nes_cpu_nmi s).cpu.s < 0x100 := by
  rw [nes_cpu_nmi_state s hs]
  exact ⟨rfl, rfl, rfl, rfl, rfl, Nat.mod_lt _ (by decide)⟩

/-- With the stack pointer a byte, the IRQ entry touches only the CPU
registers and the RAM. -/
theorem nes_cpu_irq_rest (s : nes_t) (hs : s.cpu.s < 0x100) :
    (nes_cpu_irq s).apu = s.apu ∧ (nes_cpu_irq s).ppu = s.ppu ∧
    (nes_cpu_irq s).vmem = s.vmem ∧ (nes_cpu_irq s).input = s.input ∧
    (nes_cpu_irq s).cart = s.cart ∧ (nes_cpu_irq s).cpu.s < 0x100 := by
  by_cases hi : s.cpu.p &&& FLAG_MASK_I = 0
  · rw [nes_cpu_irq_state s hs hi]
    exact ⟨rfl, rfl, rfl, rfl, rfl, Nat.mod_lt _ (by decide)⟩
  · have e : nes_cpu_irq s = s := by
      unfold nes_cpu_irq nes_cpu_irq_with BITMGET
      rw [if_pos hi]
    rw [e]
    exact ⟨rfl, rfl, rfl, rfl, rfl, hs⟩

/-! ## The frame sequencer -/

/-- C22, as stated, fails: in 5-step mode each of five consecutive sequencer
steps clocks the envelopes.  From the start of the sequence, with the envelope
divider of square 1 at 10, the divider is 9, 8, 7, 6 and 5 after one to five
steps, and the sequence is then back at its start. -/
theorem frame_sequencer_counterexample :
    nes_apu_five_step_example.apu.frame_period = 5 ∧
    nes_apu_five_step_example.apu.sq1.env_val = 10 ∧
    ((nes_apu_step_frame_counter nes_cpu_irq)^[1] nes_apu_five_step_example).apu.sq1.env_val = 9 ∧
    ((nes_apu_step_frame_counter nes_cpu_irq)^[2] nes_apu_five_step_example).apu.sq1.env_val = 8 ∧
    ((nes_apu_step_frame_counter nes_cpu_irq)^[3] nes_apu_five_step_example).apu.sq1.env_val = 7 ∧
    ((nes_apu_step_frame_counter nes_cpu_irq)^[4] nes_apu_five_step_example).apu.sq1.env_val = 6 ∧
    ((nes_apu_step_frame_counter nes_cpu_irq)^[5] nes_apu_five_step_example).apu.sq1.env_val = 5 ∧
    ((nes_apu_step_frame_counter nes_cpu_irq)^[5] nes_apu_five_step_example).apu.frame_val = 0 := by
  decide

/-- C22, amended. The step number is the value of the sequencer counter after
its increment (1 to 4, or 1 to 5).  In 4-step mode every step clocks the
envelopes, steps 1 and 3 (two of every four consecutive steps) first clock the
length counters and sweeps, and step 3 before that enters the IRQ sequence
when the frame IRQ is enabled; in 5-step mode every one of the five steps
clocks the envelopes, steps 1 and 4 (two of every five) first clock the length
counters and sweeps, and no step enters the IRQ: the CPU and the memory are
left as they were.  Step 4 (step 5) puts the counter back to 0. -/
theorem frame_sequencer_steps (s s1 : nes_t) (hs : s.cpu.s < 0x100)
    (h1 : s1 = { s with apu := { s.apu with frame_val := s.apu.frame_val + 1 } }) :
    (s.apu.frame_period = 4 → s.apu.frame_val < 4 →
      (s.apu.frame_val + 1 = 1 → nes_apu_step_frame_counter nes_cpu_irq s =
        nes_apu_step_env (nes_apu_step_sweep (nes_apu_step_len s1))) ∧
      (s.apu.frame_val + 1 = 2 → nes_apu_step_frame_counter nes_cpu_irq s =
        nes_apu_step_env s1) ∧
      (s.apu.frame_val + 1 = 3 → nes_apu_step_frame_counter nes_cpu_irq s =
        nes_apu_step_env (nes_apu_step_sweep (nes_apu_step_len
          (if s.apu.frame_irq ≠ 0 then nes_cpu_irq s1 else s1)))) ∧
      (s.apu.frame_val + 1 = 4 → nes_apu_step_frame_counter nes_cpu_irq s =
        { nes_apu_step_env s1 with
          apu := { (nes_apu_step_env s1).apu with frame_val := 0 } }) ∧
      (nes_apu_step_frame_counter nes_cpu_irq s).apu.frame_period = 4 ∧
      (nes_apu_step_frame_counter nes_cpu_irq s).apu.frame_val = (s.apu.frame_val + 1) % 4) ∧
    (s.apu.frame_period = 5 → s.apu.frame_val < 5 →
      (s.apu.frame_val + 1 = 1 ∨ s.apu.frame_val + 1 = 4 →
        nes_apu_step_frame_counter nes_cpu_irq s =
          nes_apu_step_env (nes_apu_step_sweep (nes_apu_step_len s1))) ∧
      (s.apu.frame_val + 1 = 2 ∨ s.apu.frame_val + 1 = 3 →
        nes_apu_step_frame_counter nes_cpu_irq s = nes_apu_step_env s1) ∧
      (s.apu.frame_val + 1 = 5 → nes_apu_step_frame_counter nes_cpu_irq s =
        { nes_apu_step_env s1 with
          apu := { (nes_apu_step_env s1).apu with frame_val := 0 } }) ∧
      (nes_apu_step_frame_counter nes_cpu_irq s).cpu = s.cpu ∧
      (nes_apu_step_frame_counter nes_cpu_irq s).mem = s.mem ∧
      (nes_apu_step_frame_counter nes_cpu_irq s).apu.frame_period = 5 ∧
      (nes_apu_step_frame_counter nes_cpu_irq s).apu.frame_val = (s.apu.frame_val + 1) % 5) := by
  subst h1
  have hq : ∀ t : nes_t, (if t.apu.frame_irq ≠ 0 then nes_cpu_irq t else t).apu = t.apu ∨
      t.cpu.s ≥ 0x100 := by
    intro t
    by_cases ht : t.cpu.s < 0x100
    · left
      split_ifs
      · exact (nes_cpu_irq_rest t ht).1
      · rfl
    · right
      omega
  constructor
  · intro hp hv
    have c1 : s.apu.frame_val + 1 = 1 → nes_apu_step_frame_counter nes_cpu_irq s =
        nes_apu_step_env (nes_apu_step_sweep (nes_apu_step_len
          { s with apu := { s.apu with frame_val := s.apu.frame_val + 1 } })) := by
      intro h
      have hv0 : s.apu.frame_val = 0 := by omega
      unfold nes_apu_step_frame_counter
      dsimp only
      rw [if_pos hp, hv0]
      dsimp only
      rw [if_neg]
      show ¬ (1 : Nat) ≥ s.apu.frame_period
      omega
    have c2 : s.apu.frame_val + 1 = 2 → nes_apu_step_frame_counter nes_cpu_irq s =
        nes_apu_step_env { s with apu := { s.apu with frame_val := s.apu.frame_val + 1 } } := by
      intro h
      have hv0 : s.apu.frame_val = 1 := by omega
      unfold nes_apu_step_frame_counter
      dsimp only
      rw [if_pos hp, hv0]
      dsimp only
      rw [if_neg]
      show ¬ (2 : Nat) ≥ s.apu.frame_period
      omega
    have c3 : s.apu.frame_val + 1 = 3 → nes_apu_step_frame_counter nes_cpu_irq s =
        nes_apu_step_env (nes_apu_step_sweep (nes_apu_step_len
          (if s.apu.frame_irq ≠ 0 then
            nes_cpu_irq { s with apu := { s.apu with frame_val := s.apu.frame_val + 1 } }
          else { s with apu := { s.apu with frame_val := s.apu.frame_val + 1 } }))) := by
      intro h
      have hv0 : s.apu.frame_val = 2 := by omega
      have ha := (hq { s with apu := { s.apu with frame_val := 3 } }).resolve_right
        (by show ¬ s.cpu.s ≥ 0x100; omega)
      unfold nes_apu_step_frame_counter nes_apu_fire_irq
      dsimp only
      rw [if_pos hp, hv0]
      dsimp only
      rw [if_neg]
      show ¬ (if s.apu.frame_irq ≠ 0 then
            nes_cpu_irq { s with apu := { s.apu with frame_val := 3 } }
          else { s with apu := { s.apu with frame_val := 3 } }).apu.frame_val ≥
          (if s.apu.frame_irq ≠ 0 then
            nes_cpu_irq { s with apu := { s.apu with frame_val := 3 } }
          else { s with apu := { s.apu with frame_val := 3 } }).apu.frame_period
      rw [ha]
      show ¬ (3 : Nat) ≥ s.apu.frame_period
      omega
    have c4 : s.apu.frame_val + 1 = 4 → nes_apu_step_frame_counter nes_cpu_irq s =
        { nes_apu_step_env { s with apu := { s.apu with frame_val := s.apu.frame_val + 1 } } with
          apu := { (nes_apu_step_env
            { s with apu := { s.apu with frame_val := s.apu.frame_val + 1 } }).apu with
            frame_val := 0 } } := by
      intro h
      have hv0 : s.apu.frame_val = 3 := by omega
      unfold nes_apu_step_frame_counter
      dsimp only
      rw [if_pos hp, hv0]
      dsimp only
      rw [if_pos]
      show (4 : Nat) ≥ s.apu.frame_period
      omega
    refine ⟨c1, c2, c3, c4, ?_, ?_⟩
    · have hc : s.apu.frame_val + 1 = 1 ∨ s.apu.frame_val + 1 = 2 ∨ s.apu.frame_val + 1 = 3 ∨
          s.apu.frame_val + 1 = 4 := by omega
      rcases hc with h | h | h | h
      · rw [c1 h]; exact hp
      · rw [c2 h]; exact hp
      · rw [c3 h]
        have ha := (hq { s with apu := { s.apu with frame_val := s.apu.frame_val + 1 } }).resolve_right
          (by show ¬ s.cpu.s ≥ 0x100; omega)
        show (if s.apu.frame_irq ≠ 0 then
            nes_cpu_irq { s with apu := { s.apu with frame_val := s.apu.frame_val + 1 } }
          else { s with apu := { s.apu with frame_val := s.apu.frame_val + 1 } }).apu.frame_period
          = 4
        rw [ha]
        exact hp
      · rw [c4 h]; exact hp
    · have hc : s.apu.frame_val + 1 = 1 ∨ s.apu.frame_val + 1 = 2 ∨ s.apu.frame_val + 1 = 3 ∨
          s.apu.frame_val + 1 = 4 := by omega
      rcases hc with h | h | h | h
      · rw [c1 h]
        show s.apu.frame_val + 1 = _
        omega
      · rw [c2 h]
        show s.apu.frame_val + 1 = _
        omega
      · rw [c3 h]
        have ha := (hq { s with apu := { s.apu with frame_val := s.apu.frame_val + 1 } }).resolve_right
          (by show ¬ s.cpu.s ≥ 0x100; omega)
        show (if s.apu.frame_irq ≠ 0 then
            nes_cpu_irq { s with apu := { s.apu with frame_val := s.apu.frame_val + 1 } }
          else { s with apu := { s.apu with frame_val := s.apu.frame_val + 1 } }).apu.frame_val
          = _
        rw [ha]
        show s.apu.frame_val + 1 = _
        omega
      · rw [c4 h]
        show (0 : Nat) = _
        omega
  · intro hp hv
    have h4 : ¬ s.apu.frame_period = 4 := by omega
    have c14 : s.apu.frame_val + 1 = 1 ∨ s.apu.frame_val + 1 = 4 →
        nes_apu_step_frame_counter nes_cpu_irq s =
        nes_apu_step_env (nes_apu_step_sweep (nes_apu_step_len
          { s with apu := { s.apu with frame_val := s.apu.frame_val + 1 } })) := by
      intro h
      rcases h with h | h
      · have hv0 : s.apu.frame_val = 0 := by omega
        unfold nes_apu_step_frame_counter
        dsimp only
        rw [if_neg h4, if_pos hp, hv0]
        dsimp only
        rw [if_neg]
        show ¬ (1 : Nat) ≥ s.apu.frame_period
        omega
      · have hv0 : s.apu.frame_val = 3 := by omega
        unfold nes_apu_step_frame_counter
        dsimp only
        rw [if_neg h4, if_pos hp, hv0]
        dsimp only
        rw [if_neg]
        show ¬ (4 : Nat) ≥ s.apu.frame_period
        omega
    have c23 : s.apu.frame_val + 1 = 2 ∨ s.apu.frame_val + 1 = 3 →
        nes_apu_step_frame_counter nes_cpu_irq s =
        nes_apu_step_env { s with apu := { s.apu with frame_val := s.apu.frame_val + 1 } } := by
      intro h
      rcases h with h | h
      · have hv0 : s.apu.frame_val = 1 := by omega
        unfold nes_apu_step_frame_counter
        dsimp only
        rw [if_neg h4, if_pos hp, hv0]
        dsimp only
        rw [if_neg]
        show ¬ (2 : Nat) ≥ s.apu.frame_period
        omega
      · have hv0 : s.apu.frame_val = 2 := by omega
        unfold nes_apu_step_frame_counter
        dsimp only
        rw [if_neg h4, if_pos hp, hv0]
        dsimp only
        rw [if_neg]
        show ¬ (3 : Nat) ≥ s.apu.frame_period
        omega
    have c5 : s.apu.frame_val + 1 = 5 → nes_apu_step_frame_counter nes_cpu_irq s =
        { nes_apu_step_env { s with apu := { s.apu with frame_val := s.apu.frame_val + 1 } } with
          apu := { (nes_apu_step_env
            { s with apu := { s.apu with frame_val := s.apu.frame_val + 1 } }).apu with
            frame_val := 0 } } := by
      intro h
      have hv0 : s.apu.frame_val = 4 := by omega
      unfold nes_apu_step_frame_counter
      dsimp only
      rw [if_neg h4, if_pos hp, hv0]
      dsimp only
      rw [if_pos]
      show (5 : Nat) ≥ s.apu.frame_period
      omega
    have hf := nes_apu_step_frame_counter_id_frame s
    rw [← nes_apu_step_frame_counter_five nes_cpu_irq s hp] at hf
    have hc : s.apu.frame_val + 1 = 1 ∨ s.apu.frame_val + 1 = 2 ∨ s.apu.frame_val + 1 = 3 ∨
        s.apu.frame_val + 1 = 4 ∨ s.apu.frame_val + 1 = 5 := by omega
    refine ⟨c14, c23, c5, hf.1, hf.2.1, ?_, ?_⟩
    · rcases hc with h | h | h | h | h
      · rw [c14 (Or.inl h)]; exact hp
      · rw [c23 (Or.inl h)]; exact hp
      · rw [c23 (Or.inr h)]; exact hp
      · rw [c14 (Or.inr h)]; exact hp
      · rw [c5 h]; exact hp
    · rcases hc with h | h | h | h | h
      · rw [c14 (Or.inl h)]
        show s.apu.frame_val + 1 = _
        omega
      · rw [c23 (Or.inl h)]
        show s.apu.frame_val + 1 = _
        omega
      · rw [c23 (Or.inr h)]
        show s.apu.frame_val + 1 = _
        omega
      · rw [c14 (Or.inr h)]
        show s.apu.frame_val + 1 = _
        omega
      · rw [c5 h]
        show (0 : Nat) = _
        omega

theorem frame_sequencer_steps_witness :
    (nes_apu_step_frame_counter nes_cpu_irq nes_apu_four_step_example).apu.frame_val = 3 ∧
    (nes_apu_step_frame_counter nes_cpu_irq nes_apu_five_step_example).cpu =
      nes_apu_five_step_example.cpu :=
  ⟨((frame_sequencer_steps nes_apu_four_step_example _ (by decide) rfl).1 rfl
      (by decide)).2.2.2.2.2,
    ((frame_sequencer_steps nes_apu_five_step_example _ (by decide) rfl).2 rfl
      (by decide)).2.2.2.1⟩

/-! ## The length counter of square 1 -/

/-- On every mapper a CPU write to one of $4000-$4013 or to $4015 is a write
of the APU register of that number. -/
theorem nes_mem_writeb_apu_reg (s : nes_t) (a v : Nat)
    (h : (0x4000 ≤ a ∧ a < 0x4014) ∨ a = 0x4015) :
    nes_mem_writeb s a v = nes_apu_write nes_cpu_irq_inner s (a - 0x4000) v := by
  unfold nes_mem_writeb nes_mem_writeb_with
  split
  · unfold nes_mem_write_nrom
    rw [if_neg (by omega), if_neg (by omega), if_neg (by omega), if_neg (by omega),
      if_pos (by omega)]
  · unfold nes_mem_write_mmc1
    rw [if_neg (by omega), if_neg (by omega), if_neg (by omega), if_neg (by omega),
      if_pos (by omega)]
  · unfold nes_mem_write_cnrom
    rw [if_neg (by omega), if_neg (by omega), if_neg (by omega), if_neg (by omega),
      if_pos (by omega)]
  · unfold nes_mem_write_mmc3
    rw [if_neg (by omega), if_neg (by omega), if_neg (by omega), if_neg (by omega),
      if_pos (by omega)]

/-- On every mapper a CPU read of $4015 is a read of the APU status and has no
side effect. -/
theorem nes_mem_readb_4015 (s : nes_t) : nes_mem_readb s 0x4015 = (nes_apu_read s 0x15, s) := by
  unfold nes_mem_readb
  split
  · unfold nes_mem_read_nrom
    rw [if_neg (by omega), if_neg (by omega), if_neg (by omega), if_pos (by omega)]
  · unfold nes_mem_read_mmc1
    rw [if_neg (by omega), if_neg (by omega), if_neg (by omega), if_pos (by omega)]
  · unfold nes_mem_read_cnrom
    rw [if_neg (by omega), if_neg (by omega), if_neg (by omega), if_pos (by omega)]
  · unfold nes_mem_read_mmc3
    dsimp only
    rw [if_neg (by omega), if_neg (by omega), if_neg (by omega), if_pos (by omega)]

/-- Bit 0 of the APU status is set exactly when the length counter of square 1
is not 0. -/
theorem nes_apu_read_bit0 (s : nes_t) :
    nes_apu_read s 0x15 &&& 1 = if s.apu.sq1.length > 0 then 1 else 0 := by
  unfold nes_apu_read
  rw [if_pos rfl, or_and_right, or_and_right, or_and_right, or_and_right]
  split_ifs <;> rfl

/-- Length clocks count the length of square 1 down to 0 while its length
counter is enabled, and leave it alone while it is not. -/
theorem nes_apu_step_len_iterate (k : Nat) (t : nes_t) :
    ((nes_apu_step_len^[k] t).apu.sq1.flags = t.apu.sq1.flags) ∧
    (t.apu.sq1.flags &&& 0x10 ≠ 0 →
      (nes_apu_step_len^[k] t).apu.sq1.length = t.apu.sq1.length - k) ∧
    (t.apu.sq1.flags &&& 0x10 = 0 →
      (nes_apu_step_len^[k] t).apu.sq1.length = t.apu.sq1.length) := by
  induction k generalizing t with
  | zero => exact ⟨rfl, fun _ => rfl, fun _ => rfl⟩
  | succ k ih =>
    have h1 : (nes_apu_step_len t).apu.sq1 = nes_apu_sqr_step_len t.apu.sq1 := rfl
    have hf : (nes_apu_step_len t).apu.sq1.flags = t.apu.sq1.flags := by
      rw [h1]
      unfold nes_apu_sqr_step_len
      split_ifs <;> rfl
    have hl : (nes_apu_step_len t).apu.sq1.length =
        if t.apu.sq1.flags &&& 0x10 ≠ 0 then t.apu.sq1.length - 1 else t.apu.sq1.length := by
      rw [h1]
      unfold nes_apu_sqr_step_len BITMGET NES_APU_FLAG_SQR_LEN_ENABLED
      split_ifs <;> first | rfl | (show _ = _ - 1; omega) | (exfalso; omega)
    have ih2 := ih (nes_apu_step_len t)
    rw [Function.iterate_succ_apply]
    refine ⟨ih2.1.trans hf, ?_, ?_⟩
    · intro h
      rw [ih2.2.1 (by rw [hf]; exact h), hl, if_pos h]
      omega
    · intro h
      rw [ih2.2.2 (by rw [hf]; exact h), hl, if_neg (fun hn => hn h)]

/-- Square 1 after the three register writes $4015 := $0F, $4000 := `v0` with
bit 5 clear and $4003 := `v3` with length index 0: the length counter is
enabled and loaded with 10. -/
theorem sq1_after_writes (s : nes_t) (v0 v3 : Nat) (h0 : v0 &&& 0x20 = 0) (h3 : v3 >>> 3 = 0) :
    (nes_mem_writeb (nes_mem_writeb (nes_mem_writeb s 0x4015 0x0F) 0x4000 v0)
      0x4003 v3).apu.sq1.flags &&& 0x10 = 0x10 ∧
    (nes_mem_writeb (nes_mem_writeb (nes_mem_writeb s 0x4015 0x0F) 0x4000 v0)
      0x4003 v3).apu.sq1.length = 10 := by
  rw [nes_mem_writeb_apu_reg _ 0x4003 _ (by omega), nes_mem_writeb_apu_reg _ 0x4000 _ (by omega)]
  have e : ∀ t : nes_t, (nes_apu_write nes_cpu_irq_inner
      (nes_apu_write nes_cpu_irq_inner t (0x4000 - 0x4000) v0) (0x4003 - 0x4000) v3).apu.sq1 =
      nes_apu_sqr_write_tmr_high (nes_apu_sqr_write_ctrl t.apu.sq1 v0) v3 := fun _ => rfl
  rw [e]
  have hb : (v0 >>> 5) &&& 0x01 = 0 := by
    have e5 : v0 &&& 0x20 = (v0 / 0x20 % 2) * 0x20 := and_two_pow_eq v0 5
    rw [Nat.shiftRight_eq_div_pow, Nat.and_one_is_mod]
    rw [h0] at e5
    show v0 / 0x20 % 2 = 0
    omega
  constructor
  · unfold nes_apu_sqr_write_tmr_high nes_apu_sqr_write_ctrl
    dsimp only
    rw [hb]
    unfold NES_APU_FLAG_SQR_ENV_START NES_APU_FLAG_SQR_ENV_ENABLED NES_APU_FLAG_SQR_ENV_LOOP
      NES_APU_FLAG_SQR_LEN_ENABLED
    rw [bitmset_mod_and_other _ _ _ (by decide) (by decide),
      bitmset_mod_and_other _ _ _ (by decide) (by decide),
      bitmchg_and_other _ _ _ _ (by decide) (by decide) (by decide),
      bitmchg_and_other _ _ _ _ (by decide) (by decide) (by decide),
      bitmchg_and_self _ _ _ (by decide) (by decide)]
    rfl
  · unfold nes_apu_sqr_write_tmr_high
    dsimp only
    rw [h3]
    rfl

/-- C21, as stated, fails: on the freshly initialised APU, after the writes
$4015 := $0F and $4003 := $00 the length counter of square 1 is 10, and it is
still 10 after 10 length clocks and after 40 steps of the frame sequencer, bit
0 of a $4015 read being set: the length counter of the channel is not enabled
until $4000 is written with bit 5 clear, and the sequencer has no period until
$4017 is written.  Either write alone does not help: with $4000 := $00 but no
$4017 write, and with $4017 := $00 but no $4000 write, the length is still 10
after 40 steps of the frame sequencer. -/
theorem sq1_length_counterexample :
    nes_apu_power_on.apu = nes_apu_init nes_apu_power_on.apu 0 ∧
    (nes_mem_writeb (nes_mem_writeb nes_apu_power_on 0x4015 0x0F) 0x4003 0x00).apu.sq1.length
      = 10 ∧
    (nes_apu_step_len^[10]
      (nes_mem_writeb (nes_mem_writeb nes_apu_power_on 0x4015 0x0F) 0x4003 0x00)).apu.sq1.length
      = 10 ∧
    (nes_mem_readb (nes_apu_step_len^[10]
      (nes_mem_writeb (nes_mem_writeb nes_apu_power_on 0x4015 0x0F) 0x4003 0x00)) 0x4015).1
      &&& 1 = 1 ∧
    ((nes_apu_step_frame_counter nes_cpu_irq)^[40]
      (nes_mem_writeb (nes_mem_writeb nes_apu_power_on 0x4015 0x0F) 0x4003 0x00)).apu.sq1.length
      = 10 ∧
    ((nes_apu_step_frame_counter nes_cpu_irq)^[40]
      (nes_mem_writeb (nes_mem_writeb (nes_mem_writeb nes_apu_power_on 0x4015 0x0F) 0x4000 0x00)
        0x4003 0x00)).apu.sq1.length = 10 ∧
    ((nes_apu_step_frame_counter nes_cpu_irq)^[40]
      (nes_mem_writeb (nes_mem_writeb (nes_mem_writeb nes_apu_power_on 0x4015 0x0F) 0x4017 0x00)
        0x4003 0x00)).apu.sq1.length = 10 := by
  refine ⟨rfl, by decide, by decide, by decide, by decide, by decide, by decide⟩

/-- A length clock of a square channel whose length counter is enabled counts
the length down by 1, stopping at 0, and keeps the flags. -/
theorem nes_apu_sqr_step_len_enabled (q : nes_apu_sqr_t) (h : q.flags &&& 0x10 = 0x10) :
    (nes_apu_sqr_step_len q).flags = q.flags ∧
    (nes_apu_sqr_step_len q).length = q.length - 1 := by
  unfold nes_apu_sqr_step_len BITMGET NES_APU_FLAG_SQR_LEN_ENABLED
  by_cases c : q.flags &&& 0x10 ≠ 0 ∧ q.length > 0
  · rw [if_pos c]
    exact ⟨rfl, rfl⟩
  · rw [if_neg c]
    refine ⟨rfl, ?_⟩
    have z : q.length = 0 := by
      by_contra n
      exact c ⟨by rw [h]; decide, by omega⟩
    rw [z]

/-- The length counter of the sweep unit of `nes_apu_sqr_sweep`. -/
theorem nes_apu_sqr_sweep_len (q : nes_apu_sqr_t) :
    (nes_apu_sqr_sweep q).length = q.length ∧ (nes_apu_sqr_sweep q).flags = q.flags := by
  unfold nes_apu_sqr_sweep
  dsimp only
  split_ifs <;> exact ⟨rfl, rfl⟩

/-- A sweep clock of a square channel keeps the length counter and its enable
flag. -/
theorem nes_apu_sqr_step_sweep_len (q : nes_apu_sqr_t) :
    (nes_apu_sqr_step_sweep q).length = q.length ∧
    (nes_apu_sqr_step_sweep q).flags &&& 0x10 = q.flags &&& 0x10 := by
  have a := nes_apu_sqr_sweep_len q
  unfold nes_apu_sqr_step_sweep NES_APU_FLAG_SQR_SWEEP_RELOAD
  dsimp only
  split_ifs
  · exact ⟨a.1, by
      show (BITMCLR (nes_apu_sqr_sweep q).flags 0x02 % 0x100) &&& 0x10 = _
      rw [bitmclr_mod_and_other _ _ _ (by decide) (by decide), a.2]⟩
  · exact ⟨rfl, bitmclr_mod_and_other _ _ _ (by decide) (by decide)⟩
  · exact ⟨rfl, rfl⟩
  · exact ⟨a.1, by rw [← a.2]⟩
  · exact ⟨rfl, rfl⟩

/-- An envelope clock of a square channel keeps the length counter and its
enable flag. -/
theorem nes_apu_sqr_step_env_len (q : nes_apu_sqr_t) :
    (nes_apu_sqr_step_env q).length = q.length ∧
    (nes_apu_sqr_step_env q).flags &&& 0x10 = q.flags &&& 0x10 := by
  unfold nes_apu_sqr_step_env NES_APU_FLAG_SQR_ENV_START
  dsimp only
  split_ifs
  · exact ⟨rfl, bitmclr_mod_and_other _ _ _ (by decide) (by decide)⟩
  all_goals exact ⟨rfl, rfl⟩

/-- The IRQ of the frame sequencer touches neither the APU nor the cartridge
and keeps the stack pointer a byte. -/
theorem nes_apu_fire_irq_rest (t : nes_t) (ht : t.cpu.s < 0x100) :
    (nes_apu_fire_irq nes_cpu_irq t).apu = t.apu ∧
    (nes_apu_fire_irq nes_cpu_irq t).cart = t.cart ∧
    (nes_apu_fire_irq nes_cpu_irq t).cpu.s < 0x100 := by
  unfold nes_apu_fire_irq
  by_cases c : t.apu.frame_irq ≠ 0
  · rw [if_pos c]
    exact ⟨(nes_cpu_irq_rest t ht).1, (nes_cpu_irq_rest t ht).2.2.2.2.1,
      (nes_cpu_irq_rest t ht).2.2.2.2.2⟩
  · rw [if_neg c]
    exact ⟨rfl, rfl, ht⟩

/-- One step of the frame sequencer in 5-step mode, as square 1 sees it: steps
1 and 4 of the five are half-frame steps, which clock the length counter and
the sweep before the envelope; the CPU and the cartridge are left alone. -/
theorem nes_apu_step_frame_counter_five_sq1 (irq : nes_t → nes_t) (s : nes_t)
    (hp : s.apu.frame_period = 5) (hv : s.apu.frame_val < 5) :
    (nes_apu_step_frame_counter irq s).cpu = s.cpu ∧
    (nes_apu_step_frame_counter irq s).cart = s.cart ∧
    (nes_apu_step_frame_counter irq s).apu.frame_period = 5 ∧
    (nes_apu_step_frame_counter irq s).apu.frame_val = (s.apu.frame_val + 1) % 5 ∧
    (nes_apu_step_frame_counter irq s).apu.sq1 =
      nes_apu_sqr_step_env
        (if s.apu.frame_val = 0 ∨ s.apu.frame_val = 3 then
          nes_apu_sqr_step_sweep (nes_apu_sqr_step_len s.apu.sq1)
        else s.apu.sq1) := by
  have h4 : ¬ s.apu.frame_period = 4 := by omega
  have hc : s.apu.frame_val = 0 ∨ s.apu.frame_val = 1 ∨ s.apu.frame_val = 2 ∨
      s.apu.frame_val = 3 ∨ s.apu.frame_val = 4 := by omega
  rcases hc with h | h | h | h | h
  · rw [if_pos (Or.inl h)]
    unfold nes_apu_step_frame_counter
    dsimp only
    rw [if_neg h4, if_pos hp, h]
    dsimp only
    rw [if_neg]
    · exact ⟨rfl, rfl, hp, rfl, rfl⟩
    · show ¬ (1 : Nat) ≥ s.apu.frame_period
      omega
  · rw [if_neg (by omega)]
    unfold nes_apu_step_frame_counter
    dsimp only
    rw [if_neg h4, if_pos hp, h]
    dsimp only
    rw [if_neg]
    · exact ⟨rfl, rfl, hp, rfl, rfl⟩
    · show ¬ (2 : Nat) ≥ s.apu.frame_period
      omega
  · rw [if_neg (by omega)]
    unfold nes_apu_step_frame_counter
    dsimp only
    rw [if_neg h4, if_pos hp, h]
    dsimp only
    rw [if_neg]
    · exact ⟨rfl, rfl, hp, rfl, rfl⟩
    · show ¬ (3 : Nat) ≥ s.apu.frame_period
      omega
  · rw [if_pos (Or.inr h)]
    unfold nes_apu_step_frame_counter
    dsimp only
    rw [if_neg h4, if_pos hp, h]
    dsimp only
    rw [if_neg]
    · exact ⟨rfl, rfl, hp, rfl, rfl⟩
    · show ¬ (4 : Nat) ≥ s.apu.frame_period
      omega
  · rw [if_neg (by omega)]
    unfold nes_apu_step_frame_counter
    dsimp only
    rw [if_neg h4, if_pos hp, h]
    dsimp only
    rw [if_pos]
    · exact ⟨rfl, rfl, hp, rfl, rfl⟩
    · show (5 : Nat) ≥ s.apu.frame_period
      omega

/-- One step of the frame sequencer in 4-step mode, as square 1 sees it: steps
1 and 3 of the four are half-frame steps, which clock the length counter and
the sweep before the envelope; the interrupt that step 3 may enter touches
neither the APU nor the cartridge. -/
theorem nes_apu_step_frame_counter_four_sq1 (s : nes_t) (hs : s.cpu.s < 0x100)
    (hp : s.apu.frame_period = 4) (hv : s.apu.frame_val < 4) :
    (nes_apu_step_frame_counter nes_cpu_irq s).cpu.s < 0x100 ∧
    (nes_apu_step_frame_counter nes_cpu_irq s).cart = s.cart ∧
    (nes_apu_step_frame_counter nes_cpu_irq s).apu.frame_period = 4 ∧
    (nes_apu_step_frame_counter nes_cpu_irq s).apu.frame_val = (s.apu.frame_val + 1) % 4 ∧
    (nes_apu_step_frame_counter nes_cpu_irq s).apu.sq1 =
      nes_apu_sqr_step_env
        (if s.apu.frame_val = 0 ∨ s.apu.frame_val = 2 then
          nes_apu_sqr_step_sweep (nes_apu_sqr_step_len s.apu.sq1)
        else s.apu.sq1) := by
  have hc : s.apu.frame_val = 0 ∨ s.apu.frame_val = 1 ∨ s.apu.frame_val = 2 ∨
      s.apu.frame_val = 3 := by omega
  rcases hc with h | h | h | h
  · rw [if_pos (Or.inl h)]
    unfold nes_apu_step_frame_counter
    dsimp only
    rw [if_pos hp, h]
    dsimp only
    rw [if_neg]
    · exact ⟨hs, rfl, hp, rfl, rfl⟩
    · show ¬ (1 : Nat) ≥ s.apu.frame_period
      omega
  · rw [if_neg (by omega)]
    unfold nes_apu_step_frame_counter
    dsimp only
    rw [if_pos hp, h]
    dsimp only
    rw [if_neg]
    · exact ⟨hs, rfl, hp, rfl, rfl⟩
    · show ¬ (2 : Nat) ≥ s.apu.frame_period
      omega
  · rw [if_pos (Or.inr h)]
    obtain ⟨a1, a2, a3⟩ := nes_apu_fire_irq_rest
      { s with apu := { s.apu with frame_val := 3 } } hs
    unfold nes_apu_step_frame_counter
    dsimp only
    rw [if_pos hp, h]
    dsimp only
    generalize nes_apu_fire_irq nes_cpu_irq { s with apu := { s.apu with frame_val := 3 } } = w
      at a1 a2 a3
    have b1 : w.apu.frame_val = 3 := by rw [a1]
    have b2 : w.apu.frame_period = 4 := by rw [a1]; exact hp
    have b3 : w.apu.sq1 = s.apu.sq1 := by rw [a1]
    rw [if_neg]
    · refine ⟨a3, a2, b2, b1, ?_⟩
      show nes_apu_sqr_step_env (nes_apu_sqr_step_sweep (nes_apu_sqr_step_len w.apu.sq1)) = _
      rw [b3]
    · show ¬ w.apu.frame_val ≥ w.apu.frame_period
      omega
  · rw [if_neg (by omega)]
    unfold nes_apu_step_frame_counter
    dsimp only
    rw [if_pos hp, h]
    dsimp only
    rw [if_pos]
    · exact ⟨hs, rfl, hp, rfl, rfl⟩
    · show (4 : Nat) ≥ s.apu.frame_period
      omega

/-- A sequencer step on a square channel whose length counter is enabled: the
enable flag stays, and the length goes down by 1 (not below 0) exactly when
the step is a half-frame step. -/
theorem nes_apu_sqr_frame_step_len (q : nes_apu_sqr_t) (c : Prop) [Decidable c]
    (h : q.flags &&& 0x10 = 0x10) :
    (nes_apu_sqr_step_env
      (if c then nes_apu_sqr_step_sweep (nes_apu_sqr_step_len q) else q)).flags &&& 0x10
      = 0x10 ∧
    (nes_apu_sqr_step_env
      (if c then nes_apu_sqr_step_sweep (nes_apu_sqr_step_len q) else q)).length =
      if c then q.length - 1 else q.length := by
  by_cases hc : c
  · rw [if_pos hc, if_pos hc, (nes_apu_sqr_step_env_len _).1, (nes_apu_sqr_step_env_len _).2,
      (nes_apu_sqr_step_sweep_len _).1, (nes_apu_sqr_step_sweep_len _).2,
      (nes_apu_sqr_step_len_enabled q h).1, (nes_apu_sqr_step_len_enabled q h).2]
    exact ⟨h, rfl⟩
  · rw [if_neg hc, if_neg hc, (nes_apu_sqr_step_env_len _).1, (nes_apu_sqr_step_env_len _).2]
    exact ⟨h, rfl⟩

/-- A write to $4000 with bit 5 clear enables the length counter of square
1. -/
theorem nes_apu_sqr_write_ctrl_len_enabled (q : nes_apu_sqr_t) (v0 : Nat)
    (h0 : v0 &&& 0x20 = 0) : (nes_apu_sqr_write_ctrl q v0).flags &&& 0x10 = 0x10 := by
  have hb : (v0 >>> 5) &&& 0x01 = 0 := by
    have e5 : v0 &&& 0x20 = (v0 / 0x20 % 2) * 0x20 := and_two_pow_eq v0 5
    rw [Nat.shiftRight_eq_div_pow, Nat.and_one_is_mod]
    rw [h0] at e5
    show v0 / 0x20 % 2 = 0
    omega
  unfold nes_apu_sqr_write_ctrl
  dsimp only
  rw [hb]
  unfold NES_APU_FLAG_SQR_ENV_START NES_APU_FLAG_SQR_ENV_ENABLED NES_APU_FLAG_SQR_ENV_LOOP
    NES_APU_FLAG_SQR_LEN_ENABLED
  rw [bitmset_mod_and_other _ _ _ (by decide) (by decide),
    bitmchg_and_other _ _ _ _ (by decide) (by decide) (by decide),
    bitmchg_and_other _ _ _ _ (by decide) (by decide) (by decide),
    bitmchg_and_self _ _ _ (by decide) (by decide)]
  rfl

/-- A write to $4003 with length index 0 loads the length counter of square 1
with 10 and keeps its enable flag. -/
theorem nes_apu_sqr_write_tmr_high_len (q : nes_apu_sqr_t) (v3 : Nat) (h3 : v3 >>> 3 = 0) :
    (nes_apu_sqr_write_tmr_high q v3).flags &&& 0x10 = q.flags &&& 0x10 ∧
    (nes_apu_sqr_write_tmr_high q v3).length = 10 := by
  unfold nes_apu_sqr_write_tmr_high
  dsimp only
  rw [h3]
  unfold NES_APU_FLAG_SQR_ENV_START
  exact ⟨bitmset_mod_and_other _ _ _ (by decide) (by decide), rfl⟩

/-- A frame counter write on a machine whose sequencer counter is 0: the
period is 5 or 4 after bit 7 of the value, the counter is 1 in 5-step mode
(the write runs a sequencer step at once) and 0 in 4-step mode, and the length
enable flag of square 1, the CPU and the cartridge are as before. -/
theorem nes_apu_write_frame_counter_sq1 (irq : nes_t → nes_t) (s : nes_t) (v : Nat)
    (hf : s.apu.frame_val = 0) (hl : s.apu.sq1.flags &&& 0x10 = 0x10) :
    (nes_apu_write_frame_counter irq s v).cpu = s.cpu ∧
    (nes_apu_write_frame_counter irq s v).cart = s.cart ∧
    (nes_apu_write_frame_counter irq s v).apu.frame_period =
      (if v &&& 0x80 ≠ 0 then 5 else 4) ∧
    (nes_apu_write_frame_counter irq s v).apu.frame_val = (if v &&& 0x80 ≠ 0 then 1 else 0) ∧
    (nes_apu_write_frame_counter irq s v).apu.sq1.flags &&& 0x10 = 0x10 := by
  have e7 : v &&& 0x80 = (v / 0x80 % 2) * 0x80 := and_two_pow_eq v 7
  have a7 : (v >>> 7) &&& 1 = v / 0x80 % 2 := by
    rw [Nat.shiftRight_eq_div_pow, Nat.and_one_is_mod]
  unfold nes_apu_write_frame_counter
  dsimp only
  rw [a7]
  by_cases c : v &&& 0x80 ≠ 0
  · have c1 : v / 0x80 % 2 = 1 := by omega
    rw [c1, if_pos rfl, if_pos c, if_pos c]
    obtain ⟨b1, b2, b3, b4, b5⟩ := nes_apu_step_frame_counter_five_sq1 irq
      { s with apu := { s.apu with frame_period := 4 + 1 } } rfl
      (by show s.apu.frame_val < 5; omega)
    refine ⟨b1, b2, b3, ?_, ?_⟩
    · show (nes_apu_step_frame_counter irq
        { s with apu := { s.apu with frame_period := 4 + 1 } }).apu.frame_val = 1
      rw [b4]
      show (s.apu.frame_val + 1) % 5 = 1
      rw [hf]
    · show (nes_apu_step_frame_counter irq
        { s with apu := { s.apu with frame_period := 4 + 1 } }).apu.sq1.flags &&& 0x10 = 0x10
      rw [b5]
      exact (nes_apu_sqr_frame_step_len s.apu.sq1 _ hl).1
  · have c0 : v / 0x80 % 2 = 0 := by omega
    rw [c0, if_neg (by decide), if_neg c, if_neg c]
    exact ⟨rfl, rfl, rfl, hf, hl⟩

/-- The machine after the writes $4015 := $0F, $4000 := `v0` with bit 5 clear,
$4017 := `v7` and $4003 := `v3` with length index 0, started with the
sequencer counter at 0 on a mapper that passes $4017 to the APU: the length
counter of square 1 is enabled and holds 10, and the frame sequencer runs in
the mode that bit 7 of `v7` selects. -/
theorem sq1_after_four_writes (s : nes_t) (v0 v7 v3 : Nat)
    (hm : s.cart.mapper.funcs ≠ .cnrom) (hf : s.apu.frame_val = 0)
    (h0 : v0 &&& 0x20 = 0) (h3 : v3 >>> 3 = 0) :
    (nes_mem_writeb (nes_mem_writeb (nes_mem_writeb (nes_mem_writeb s 0x4015 0x0F)
      0x4000 v0) 0x4017 v7) 0x4003 v3).cpu = s.cpu ∧
    (nes_mem_writeb (nes_mem_writeb (nes_mem_writeb (nes_mem_writeb s 0x4015 0x0F)
      0x4000 v0) 0x4017 v7) 0x4003 v3).apu.frame_period = (if v7 &&& 0x80 ≠ 0 then 5 else 4) ∧
    (nes_mem_writeb (nes_mem_writeb (nes_mem_writeb (nes_mem_writeb s 0x4015 0x0F)
      0x4000 v0) 0x4017 v7) 0x4003 v3).apu.frame_val = (if v7 &&& 0x80 ≠ 0 then 1 else 0) ∧
    (nes_mem_writeb (nes_mem_writeb (nes_mem_writeb (nes_mem_writeb s 0x4015 0x0F)
      0x4000 v0) 0x4017 v7) 0x4003 v3).apu.sq1.flags &&& 0x10 = 0x10 ∧
    (nes_mem_writeb (nes_mem_writeb (nes_mem_writeb (nes_mem_writeb s 0x4015 0x0F)
      0x4000 v0) 0x4017 v7) 0x4003 v3).apu.sq1.length = 10 := by
  have e2 : nes_mem_writeb (nes_mem_writeb s 0x4015 0x0F) 0x4000 v0 =
      { nes_apu_write_ctrl s 0x0F with apu := { (nes_apu_write_ctrl s 0x0F).apu with
          sq1 := nes_apu_sqr_write_ctrl (nes_apu_write_ctrl s 0x0F).apu.sq1 v0 } } := by
    rw [nes_mem_writeb_apu_reg _ 0x4000 _ (by omega), nes_mem_writeb_apu_reg _ 0x4015 _ (by omega)]
    rfl
  have a1 : (nes_mem_writeb (nes_mem_writeb s 0x4015 0x0F) 0x4000 v0).cpu = s.cpu := by
    rw [e2]
    rfl
  have a2 : (nes_mem_writeb (nes_mem_writeb s 0x4015 0x0F) 0x4000 v0).cart = s.cart := by
    rw [e2]
    rfl
  have a3 : (nes_mem_writeb (nes_mem_writeb s 0x4015 0x0F) 0x4000 v0).apu.frame_val = 0 := by
    rw [e2]
    exact hf
  have a4 : (nes_mem_writeb (nes_mem_writeb s 0x4015 0x0F) 0x4000 v0).apu.sq1.flags &&& 0x10
      = 0x10 := by
    rw [e2]
    exact nes_apu_sqr_write_ctrl_len_enabled _ v0 h0
  generalize nes_mem_writeb (nes_mem_writeb s 0x4015 0x0F) 0x4000 v0 = s2 at a1 a2 a3 a4
  rw [nes_mem_writeb_4017 s2 v7 (by rw [a2]; exact hm)]
  obtain ⟨b1, _, b3, b4, b5⟩ := nes_apu_write_frame_counter_sq1 nes_cpu_irq_inner s2 v7 a3 a4
  generalize nes_apu_write_frame_counter nes_cpu_irq_inner s2 v7 = s3 at b1 b3 b4 b5
  have e4 : nes_mem_writeb s3 0x4003 v3 =
      { s3 with apu := { s3.apu with sq1 := nes_apu_sqr_write_tmr_high s3.apu.sq1 v3 } } := by
    rw [nes_mem_writeb_apu_reg _ 0x4003 _ (by omega)]
    rfl
  rw [e4]
  refine ⟨b1.trans a1, b3, b4, ?_, ?_⟩
  · show (nes_apu_sqr_write_tmr_high s3.apu.sq1 v3).flags &&& 0x10 = 0x10
    rw [(nes_apu_sqr_write_tmr_high_len _ v3 h3).1]
    exact b5
  · exact (nes_apu_sqr_write_tmr_high_len _ v3 h3).2

/-- The frame sequencer in 4-step mode on a square channel 1 whose length
counter is enabled: after `n` steps from the start of the sequence the length
has gone down by the number of half-frame steps among them, `(n + 1) / 2`. -/
theorem nes_apu_step_frame_counter_iterate_four (t : nes_t) (l : Nat)
    (hs : t.cpu.s < 0x100) (hp : t.apu.frame_period = 4) (hv : t.apu.frame_val = 0)
    (hf : t.apu.sq1.flags &&& 0x10 = 0x10) (hl : t.apu.sq1.length = l) (n : Nat) :
    ((nes_apu_step_frame_counter nes_cpu_irq)^[n] t).cpu.s < 0x100 ∧
    ((nes_apu_step_frame_counter nes_cpu_irq)^[n] t).apu.frame_period = 4 ∧
    ((nes_apu_step_frame_counter nes_cpu_irq)^[n] t).apu.frame_val = n % 4 ∧
    ((nes_apu_step_frame_counter nes_cpu_irq)^[n] t).apu.sq1.flags &&& 0x10 = 0x10 ∧
    ((nes_apu_step_frame_counter nes_cpu_irq)^[n] t).apu.sq1.length = l - (n + 1) / 2 := by
  induction n with
  | zero => exact ⟨hs, hp, hv, hf, hl⟩
  | succ n ih =>
    obtain ⟨i1, i2, i3, i4, i5⟩ := ih
    rw [Function.iterate_succ_apply']
    generalize (nes_apu_step_frame_counter nes_cpu_irq)^[n] t = u at i1 i2 i3 i4 i5
    obtain ⟨b1, _, b3, b4, b5⟩ := nes_apu_step_frame_counter_four_sq1 u i1 i2 (by omega)
    have c := nes_apu_sqr_frame_step_len u.apu.sq1
      (u.apu.frame_val = 0 ∨ u.apu.frame_val = 2) i4
    rw [← b5] at c
    refine ⟨b1, b3, by omega, c.1, ?_⟩
    rw [c.2, i5]
    split_ifs <;> omega

/-- The frame sequencer in 5-step mode on a square channel 1 whose length
counter is enabled: after `n` steps from the state that the $4017 write leaves
(sequencer counter 1) the length has gone down by the number of half-frame
steps among them, two for every five steps and one more from the third step of
a group on. -/
theorem nes_apu_step_frame_counter_iterate_five (t : nes_t) (l : Nat)
    (hp : t.apu.frame_period = 5) (hv : t.apu.frame_val = 1)
    (hf : t.apu.sq1.flags &&& 0x10 = 0x10) (hl : t.apu.sq1.length = l) (n : Nat) :
    ((nes_apu_step_frame_counter nes_cpu_irq)^[n] t).apu.frame_period = 5 ∧
    ((nes_apu_step_frame_counter nes_cpu_irq)^[n] t).apu.frame_val = (n + 1) % 5 ∧
    ((nes_apu_step_frame_counter nes_cpu_irq)^[n] t).apu.sq1.flags &&& 0x10 = 0x10 ∧
    ((nes_apu_step_frame_counter nes_cpu_irq)^[n] t).apu.sq1.length =
      l - (2 * (n / 5) + (if n % 5 ≥ 3 then 1 else 0)) := by
  induction n with
  | zero => exact ⟨hp, hv, hf, hl.trans rfl⟩
  | succ n ih =>
    obtain ⟨i2, i3, i4, i5⟩ := ih
    rw [Function.iterate_succ_apply']
    generalize (nes_apu_step_frame_counter nes_cpu_irq)^[n] t = u at i2 i3 i4 i5
    obtain ⟨_, _, b3, b4, b5⟩ := nes_apu_step_frame_counter_five_sq1 nes_cpu_irq u i2 (by omega)
    have c := nes_apu_sqr_frame_step_len u.apu.sq1
      (u.apu.frame_val = 0 ∨ u.apu.frame_val = 3) i4
    rw [← b5] at c
    refine ⟨b3, by omega, c.1, ?_⟩
    rw [c.2, i5]
    split_ifs <;> omega

/-- C21, amended. On a machine whose frame sequencer counter is 0, and so on a
freshly initialised APU (`nes_apu_init`), with a mapper that passes $4017 to
the APU (any but CNROM) and the stack pointer a byte (as `uint8_t s` is):
after a write of $0F to $4015, a write to $4000 with
bit 5 clear (which enables the length counter of square 1), a write to $4017
(which gives the frame sequencer its period) and a write to square 1's length
register ($4003) with length-table index 0, the square 1 length counter is 10.
The half-frame (length) clocks of the frame sequencer then count it down by 1
each.  In 4-step mode (bit 7 of the $4017 value clear) the half-frame steps
are the odd steps, so after `n` steps the length is `10 - (n + 1) / 2`: 1
after step 18 and 0 after step 19, the 10th half-frame clock.  In 5-step mode
(bit 7 set) the half-frame steps are steps 3 and 5 of every five, so after `n`
steps the length is 10 less `2 * (n / 5)`, less 1 more when `n % 5 >= 3`: 1
after step 24 and 0 after step 25, the 10th half-frame clock.  Bit 0 of a
$4015 read is set before the 10th half-frame clock and clear from it on. -/
theorem sq1_length_counts_down (s t : nes_t) (v0 v7 v3 : Nat)
    (hm : s.cart.mapper.funcs ≠ .cnrom) (hs : s.cpu.s < 0x100) (hf : s.apu.frame_val = 0)
    (h0 : v0 &&& 0x20 = 0) (h3 : v3 >>> 3 = 0)
    (ht : t = nes_mem_writeb (nes_mem_writeb (nes_mem_writeb (nes_mem_writeb s 0x4015 0x0F)
      0x4000 v0) 0x4017 v7) 0x4003 v3) :
    t.apu.sq1.length = 10 ∧
    (v7 &&& 0x80 = 0 →
      (∀ n, ((nes_apu_step_frame_counter nes_cpu_irq)^[n] t).apu.sq1.length =
        10 - (n + 1) / 2) ∧
      ((nes_apu_step_frame_counter nes_cpu_irq)^[18] t).apu.sq1.length = 1 ∧
      ((nes_apu_step_frame_counter nes_cpu_irq)^[19] t).apu.sq1.length = 0 ∧
      (∀ n, (nes_mem_readb ((nes_apu_step_frame_counter nes_cpu_irq)^[n] t) 0x4015).1 &&& 1 =
        if n < 19 then 1 else 0)) ∧
    (v7 &&& 0x80 ≠ 0 →
      (∀ n, ((nes_apu_step_frame_counter nes_cpu_irq)^[n] t).apu.sq1.length =
        10 - (2 * (n / 5) + (if n % 5 ≥ 3 then 1 else 0))) ∧
      ((nes_apu_step_frame_counter nes_cpu_irq)^[24] t).apu.sq1.length = 1 ∧
      ((nes_apu_step_frame_counter nes_cpu_irq)^[25] t).apu.sq1.length = 0 ∧
      (∀ n, (nes_mem_readb ((nes_apu_step_frame_counter nes_cpu_irq)^[n] t) 0x4015).1 &&& 1 =
        if n < 25 then 1 else 0)) := by
  obtain ⟨a1, a2, a3, a4, a5⟩ := sq1_after_four_writes s v0 v7 v3 hm hf h0 h3
  rw [← ht] at a1 a2 a3 a4 a5
  clear ht
  have hs2 : t.cpu.s < 0x100 := by
    rw [a1]
    exact hs
  refine ⟨a5, fun c => ?_, fun c => ?_⟩
  · rw [if_neg (not_not.mpr c)] at a2 a3
    have k := fun n => (nes_apu_step_frame_counter_iterate_four t 10 hs2 a2 a3 a4 a5 n).2.2.2.2
    refine ⟨k, k 18, k 19, fun n => ?_⟩
    rw [nes_mem_readb_4015, nes_apu_read_bit0, k n]
    split_ifs <;> omega
  · rw [if_pos c] at a2 a3
    have k := fun n => (nes_apu_step_frame_counter_iterate_five t 10 a2 a3 a4 a5 n).2.2.2
    refine ⟨k, k 24, k 25, fun n => ?_⟩
    rw [nes_mem_readb_4015, nes_apu_read_bit0, k n]
    split_ifs <;> omega

/-- Instances of C21 (amended) on the freshly initialised APU of the blank
NROM machine, with $4000 := $00 and $4003 := $00: with $4017 := $00 (4-step
mode) the length of square 1 is 10 after the writes and 0 after 19 sequencer
steps; with $4017 := $80 (5-step mode) it is 0 after 25 sequencer steps. -/
theorem sq1_length_counts_down_witness :
    nes_apu_power_on.apu = nes_apu_init nes_apu_power_on.apu 0 ∧
    nes_apu_power_on.cart.mapper.funcs ≠ .cnrom ∧ nes_apu_power_on.cpu.s < 0x100 ∧
    nes_apu_power_on.apu.frame_val = 0 ∧
    (nes_mem_writeb (nes_mem_writeb (nes_mem_writeb (nes_mem_writeb nes_apu_power_on
      0x4015 0x0F) 0x4000 0x00) 0x4017 0x00) 0x4003 0x00).apu.sq1.length = 10 ∧
    ((nes_apu_step_frame_counter nes_cpu_irq)^[19]
      (nes_mem_writeb (nes_mem_writeb (nes_mem_writeb (nes_mem_writeb nes_apu_power_on
        0x4015 0x0F) 0x4000 0x00) 0x4017 0x00) 0x4003 0x00)).apu.sq1.length = 0 ∧
    ((nes_apu_step_frame_counter nes_cpu_irq)^[25]
      (nes_mem_writeb (nes_mem_writeb (nes_mem_writeb (nes_mem_writeb nes_apu_power_on
        0x4015 0x0F) 0x4000 0x00) 0x4017 0x80) 0x4003 0x00)).apu.sq1.length = 0 :=
  ⟨rfl, by decide, by decide, by decide,
    (sq1_length_counts_down nes_apu_power_on _ 0x00 0x00 0x00 (by decide) (by decide)
      (by decide) (by decide) (by decide) rfl).1,
    ((sq1_length_counts_down nes_apu_power_on _ 0x00 0x00 0x00 (by decide) (by decide)
      (by decide) (by decide) (by decide) rfl).2.1 (by decide)).2.2.1,
    ((sq1_length_counts_down nes_apu_power_on _ 0x00 0x80 0x00 (by decide) (by decide)
      (by decide) (by decide) (by decide) rfl).2.2 (by decide)).2.2.1⟩

/-! ## MMC3: the fixed PRG banks -/

/-- The PRG offsets of the bank indices -1 and -2: the last and the
second-to-last 8 KiB of the PRG ROM. -/
theorem nes_mmc3_prg_offset_fixed (t : nes_t) (h1 : 1 ≤ t.cart.rom16_count)
    (h2 : t.cart.rom16_count ≤ 0xFF) :
    nes_mmc3_prg_offset t (-1) = t.cart.rom16_count * 0x4000 - 0x2000 ∧
    nes_mmc3_prg_offset t (-2) = (t.cart.rom16_count - 1) * 0x4000 := by
  have e : ((t.cart.rom16_count : Int) * 2) = ((t.cart.rom16_count * 2 : Nat) : Int) := by
    push_cast
    rfl
  have m1 : Int.tmod (-1) ((t.cart.rom16_count * 2 : Nat) : Int) =
      -(((1 % (t.cart.rom16_count * 2) : Nat)) : Int) := rfl
  have m2 : Int.tmod (-2) ((t.cart.rom16_count * 2 : Nat) : Int) =
      -(((2 % (t.cart.rom16_count * 2) : Nat)) : Int) := rfl
  have n1 : 1 % (t.cart.rom16_count * 2) = 1 := Nat.mod_eq_of_lt (by omega)
  constructor
  · unfold nes_mmc3_prg_offset
    dsimp only
    rw [if_neg (show ¬ ((-1 : Int) ≥ 0x80) by decide), e, m1, n1]
    split_ifs <;> omega
  · unfold nes_mmc3_prg_offset
    dsimp only
    rw [if_neg (show ¬ ((-2 : Int) ≥ 0x80) by decide), e, m2]
    by_cases hc : t.cart.rom16_count = 1
    · rw [hc]
      decide
    · have n2 : 2 % (t.cart.rom16_count * 2) = 2 := Nat.mod_eq_of_lt (by omega)
      rw [n2]
      split_ifs <;> omega

/-- The PRG half of `nes_mmc3_update_offsets`: in both PRG modes slot 3 holds
the last 8 KiB, and slot 2 (mode 0) or slot 0 (mode 1) the second-to-last. -/
theorem nes_mmc3_update_offsets_prg (u : nes_t) (h1 : 1 ≤ u.cart.rom16_count)
    (h2 : u.cart.rom16_count ≤ 0xFF) :
    (nes_mmc3_update_offsets u).cart.rom = u.cart.rom ∧
    (nes_mmc3_update_offsets u).cart.rom16_count = u.cart.rom16_count ∧
    (nes_mmc3_update_offsets u).cart.mapper.funcs = u.cart.mapper.funcs ∧
    (mmc3_extra (nes_mmc3_update_offsets u)).prg_mode = (mmc3_extra u).prg_mode ∧
    ((mmc3_extra u).prg_mode = 0 →
      (mmc3_extra (nes_mmc3_update_offsets u)).prg_offset 3 =
        u.cart.rom16_count * 0x4000 - 0x2000 ∧
      (mmc3_extra (nes_mmc3_update_offsets u)).prg_offset 2 =
        (u.cart.rom16_count - 1) * 0x4000) ∧
    ((mmc3_extra u).prg_mode = 1 →
      (mmc3_extra (nes_mmc3_update_offsets u)).prg_offset 3 =
        u.cart.rom16_count * 0x4000 - 0x2000 ∧
      (mmc3_extra (nes_mmc3_update_offsets u)).prg_offset 0 =
        (u.cart.rom16_count - 1) * 0x4000) := by
  have hx := nes_mmc3_prg_offset_fixed u h1 h2
  refine ⟨rfl, rfl, rfl, rfl, ?_, ?_⟩
  · intro hm
    unfold nes_mmc3_update_offsets
    dsimp only
    rw [mmc3_extra_set]
    dsimp only
    unfold nes_mmc3_update_prg_offsets
    rw [hm]
    dsimp only
    rw [arr_set_same, arr_set_other _ _ _ _ (by decide), arr_set_same, hx.1, hx.2]
    exact ⟨rfl, rfl⟩
  · intro hm
    unfold nes_mmc3_update_offsets
    dsimp only
    rw [mmc3_extra_set]
    dsimp only
    unfold nes_mmc3_update_prg_offsets
    rw [hm]
    dsimp only
    rw [arr_set_same, arr_set_other _ _ _ _ (by decide), arr_set_same, hx.1, hx.2]
    exact ⟨rfl, rfl⟩

/-- A CPU write to $8000-$9FFF on an MMC3 cartridge is a bank-data write at an
odd address and a bank-select write at an even one. -/
theorem nes_mem_writeb_mmc3_bank (s : nes_t) (a v : Nat) (hf : s.cart.mapper.funcs = .mmc3)
    (h1 : 0x8000 ≤ a) (h2 : a ≤ 0x9FFF) :
    nes_mem_writeb s a v =
      if a &&& 0x01 ≠ 0 then nes_mmc3_write_bankdata s v else nes_mmc3_write_bankselect s v := by
  unfold nes_mem_writeb nes_mem_writeb_with
  rw [hf]
  dsimp only
  unfold nes_mem_write_mmc3
  rw [if_neg (by omega), if_neg (by omega), if_neg (by omega), if_neg (by omega),
    if_neg (by omega), if_pos (by omega)]
  unfold nes_mmc3_write
  dsimp only
  rw [if_pos h2]

/-- A CPU read of $8000-$FFFF on an MMC3 cartridge, through the PRG offset of
its 8 KiB slot. -/
theorem nes_mem_readb_mmc3_prg (t : nes_t) (a : Nat) (hf : t.cart.mapper.funcs = .mmc3)
    (h1 : 0x8000 ≤ a) :
    (nes_mem_readb t a).1 =
      t.cart.rom (((mmc3_extra t).prg_offset ((a - 0x8000) / 0x2000) / 0x4000) % 0x10000)
        (0x2000 * (((mmc3_extra t).prg_offset ((a - 0x8000) / 0x2000) / 0x2000) &&& 0x01) +
          ((a - 0x8000) &&& 0x1FFF)) := by
  unfold nes_mem_readb
  rw [hf]
  dsimp only
  unfold nes_mem_read_mmc3
  dsimp only
  rw [if_neg (by omega), if_neg (by omega), if_neg (by omega), if_neg (by omega),
    if_pos (by omega)]

/-- State of the PRG mapping after a write to $8000-$9FFF on MMC3. -/
theorem nes_mem_writeb_mmc3_bank_prg (s : nes_t) (a v : Nat)
    (hf : s.cart.mapper.funcs = .mmc3)
    (h1 : 1 ≤ s.cart.rom16_count) (h2 : s.cart.rom16_count ≤ 0xFF)
    (hm : (mmc3_extra s).prg_mode ≤ 1) (ha1 : 0x8000 ≤ a) (ha2 : a ≤ 0x9FFF) :
    (nes_mem_writeb s a v).cart.rom = s.cart.rom ∧
    (nes_mem_writeb s a v).cart.mapper.funcs = .mmc3 ∧
    (mmc3_extra (nes_mem_writeb s a v)).prg_mode =
      (if a &&& 0x01 ≠ 0 then (mmc3_extra s).prg_mode else (v >>> 6) &&& 0x01) ∧
    (mmc3_extra (nes_mem_writeb s a v)).prg_mode ≤ 1 ∧
    (mmc3_extra (nes_mem_writeb s a v)).prg_offset 3 = s.cart.rom16_count * 0x4000 - 0x2000 ∧
    ((mmc3_extra (nes_mem_writeb s a v)).prg_mode = 0 →
      (mmc3_extra (nes_mem_writeb s a v)).prg_offset 2 = (s.cart.rom16_count - 1) * 0x4000) ∧
    ((mmc3_extra (nes_mem_writeb s a v)).prg_mode = 1 →
      (mmc3_extra (nes_mem_writeb s a v)).prg_offset 0 = (s.cart.rom16_count - 1) * 0x4000) := by
  have hv : (v >>> 6) &&& 0x01 ≤ 1 := Nat.and_le_right
  have key : ∀ u : nes_t, u.cart.rom = s.cart.rom → u.cart.rom16_count = s.cart.rom16_count →
      u.cart.mapper.funcs = .mmc3 → (mmc3_extra u).prg_mode ≤ 1 →
      (nes_mmc3_update_offsets u).cart.rom = s.cart.rom ∧
      (nes_mmc3_update_offsets u).cart.mapper.funcs = .mmc3 ∧
      (mmc3_extra (nes_mmc3_update_offsets u)).prg_mode = (mmc3_extra u).prg_mode ∧
      (mmc3_extra (nes_mmc3_update_offsets u)).prg_mode ≤ 1 ∧
      (mmc3_extra (nes_mmc3_update_offsets u)).prg_offset 3 =
        s.cart.rom16_count * 0x4000 - 0x2000 ∧
      ((mmc3_extra (nes_mmc3_update_offsets u)).prg_mode = 0 →
        (mmc3_extra (nes_mmc3_update_offsets u)).prg_offset 2 =
          (s.cart.rom16_count - 1) * 0x4000) ∧
      ((mmc3_extra (nes_mmc3_update_offsets u)).prg_mode = 1 →
        (mmc3_extra (nes_mmc3_update_offsets u)).prg_offset 0 =
          (s.cart.rom16_count - 1) * 0x4000) := by
    intro u hr hc hfu hmu
    have hu := nes_mmc3_update_offsets_prg u (by omega) (by omega)
    rw [hc] at hu
    refine ⟨hu.1.trans hr, hu.2.2.1.trans hfu, hu.2.2.2.1, by rw [hu.2.2.2.1]; exact hmu,
      ?_, ?_, ?_⟩
    · have h01 : (mmc3_extra u).prg_mode = 0 ∨ (mmc3_extra u).prg_mode = 1 := by omega
      rcases h01 with h | h
      · exact (hu.2.2.2.2.1 h).1
      · exact (hu.2.2.2.2.2 h).1
    · intro h
      rw [hu.2.2.2.1] at h
      exact (hu.2.2.2.2.1 h).2
    · intro h
      rw [hu.2.2.2.1] at h
      exact (hu.2.2.2.2.2 h).2
  have ed : nes_mmc3_write_bankdata s v = nes_mmc3_update_offsets
      (set_mmc3_extra s { mmc3_extra s with
        reg := arr_set (mmc3_extra s).reg (mmc3_extra s).reg_idx v }) := rfl
  have es : nes_mmc3_write_bankselect s v = nes_mmc3_update_offsets
      (set_mmc3_extra s { mmc3_extra s with
        prg_mode := (v >>> 6) &&& 0x01
        chr_mode := (v >>> 7) &&& 0x01
        reg_idx := v &&& 0x07 }) := rfl
  rw [nes_mem_writeb_mmc3_bank s a v hf ha1 ha2]
  split_ifs with hodd
  · rw [ed]
    have hk := key (set_mmc3_extra s { mmc3_extra s with
        reg := arr_set (mmc3_extra s).reg (mmc3_extra s).reg_idx v }) rfl rfl hf
      (by rw [mmc3_extra_set]; exact hm)
    rw [mmc3_extra_set] at hk
    exact hk
  · rw [es]
    have hk := key (set_mmc3_extra s { mmc3_extra s with
        prg_mode := (v >>> 6) &&& 0x01
        chr_mode := (v >>> 7) &&& 0x01
        reg_idx := v &&& 0x07 }) rfl rfl hf
      (by rw [mmc3_extra_set]; exact hv)
    rw [mmc3_extra_set] at hk
    exact hk

/-- C29. For MMC3 with at least one 16 KiB PRG bank (at most 255, the count
being a byte) and any contents of the bank registers, after any CPU write to
$8000-$9FFF (bank select at even, bank data at odd addresses): CPU reads of
$E000-$FFFF come from the last 8 KiB of PRG ROM (the upper half of the last
bank) in both PRG modes, and the second-to-last 8 KiB (the lower half of the
last bank) is read at $C000-$DFFF in PRG mode 0 and at $8000-$9FFF in PRG mode
1; the PRG mode is 0 or 1, a bank-select write setting it to bit 6 of the
value. -/
theorem mmc3_fixed_banks (s : nes_t) (a v k : Nat) (hf : s.cart.mapper.funcs = .mmc3)
    (h1 : 1 ≤ s.cart.rom16_count) (h2 : s.cart.rom16_count ≤ 0xFF)
    (hm : (mmc3_extra s).prg_mode ≤ 1) (ha1 : 0x8000 ≤ a) (ha2 : a ≤ 0x9FFF)
    (hk : k < 0x2000) :
    (nes_mem_readb (nes_mem_writeb s a v) (0xE000 + k)).1 =
      s.cart.rom (s.cart.rom16_count - 1) (0x2000 + k) ∧
    ((mmc3_extra (nes_mem_writeb s a v)).prg_mode = 0 →
      (nes_mem_readb (nes_mem_writeb s a v) (0xC000 + k)).1 =
        s.cart.rom (s.cart.rom16_count - 1) k) ∧
    ((mmc3_extra (nes_mem_writeb s a v)).prg_mode = 1 →
      (nes_mem_readb (nes_mem_writeb s a v) (0x8000 + k)).1 =
        s.cart.rom (s.cart.rom16_count - 1) k) ∧
    ((mmc3_extra (nes_mem_writeb s a v)).prg_mode = 0 ∨
      (mmc3_extra (nes_mem_writeb s a v)).prg_mode = 1) ∧
    (a &&& 0x01 = 0 → (mmc3_extra (nes_mem_writeb s a v)).prg_mode = (v >>> 6) &&& 0x01) := by
  have hw := nes_mem_writeb_mmc3_bank_prg s a v hf h1 h2 hm ha1 ha2
  have hand : ∀ x : Nat, x &&& 0x1FFF = x % 0x2000 := fun x =>
    Nat.and_pow_two_sub_one_eq_mod x 13
  have hone : ∀ x : Nat, x &&& 0x01 = x % 2 := fun x => Nat.and_pow_two_sub_one_eq_mod x 1
  have hE := nes_mem_readb_mmc3_prg (nes_mem_writeb s a v) (0xE000 + k) hw.2.1 (by omega)
  have hC := nes_mem_readb_mmc3_prg (nes_mem_writeb s a v) (0xC000 + k) hw.2.1 (by omega)
  have h8 := nes_mem_readb_mmc3_prg (nes_mem_writeb s a v) (0x8000 + k) hw.2.1 (by omega)
  rw [hw.1, show (0xE000 + k - 0x8000) / 0x2000 = 3 by omega, hw.2.2.2.2.1, hand, hone] at hE
  rw [hw.1, show (0xC000 + k - 0x8000) / 0x2000 = 2 by omega, hand, hone] at hC
  rw [hw.1, show (0x8000 + k - 0x8000) / 0x2000 = 0 by omega, hand, hone] at h8
  have e1 : (s.cart.rom16_count * 0x4000 - 0x2000) / 0x4000 % 0x10000 =
      s.cart.rom16_count - 1 := by omega
  have e2 : 0x2000 * ((s.cart.rom16_count * 0x4000 - 0x2000) / 0x2000 % 2) +
      (0xE000 + k - 0x8000) % 0x2000 = 0x2000 + k := by omega
  have e3 : (s.cart.rom16_count - 1) * 0x4000 / 0x4000 % 0x10000 =
      s.cart.rom16_count - 1 := by omega
  have e4 : 0x2000 * ((s.cart.rom16_count - 1) * 0x4000 / 0x2000 % 2) +
      (0xC000 + k - 0x8000) % 0x2000 = k := by omega
  have e5 : 0x2000 * ((s.cart.rom16_count - 1) * 0x4000 / 0x2000 % 2) +
      (0x8000 + k - 0x8000) % 0x2000 = k := by omega
  rw [e1, e2] at hE
  refine ⟨hE, ?_, ?_, by omega, ?_⟩
  · intro h0
    rw [hw.2.2.2.2.2.1 h0, e3, e4] at hC
    exact hC
  · intro h0
    rw [hw.2.2.2.2.2.2 h0, e3, e5] at h8
    exact h8
  · intro he
    rw [hw.2.2.1, if_neg (fun hn => hn he)]

/-- Instance of C29: on the two-bank cartridge whose bytes hold the number of
their 8 KiB block, after a bank-select write of $40 (PRG mode 1) $E000 reads
block 3 and $8000 reads block 2. -/
theorem mmc3_fixed_banks_witness :
    (nes_mem_readb (nes_mem_writeb nes_mmc3_prg_example 0x8000 0x40) (0xE000 + 0)).1 = 3 ∧
    (nes_mem_readb (nes_mem_writeb nes_mmc3_prg_example 0x8000 0x40) (0x8000 + 0)).1 = 2 :=
  have h40 := mmc3_fixed_banks nes_mmc3_prg_example 0x8000 0x40 0 rfl (by decide) (by decide)
    (by decide) (by decide) (by decide) (by decide)
  have hmode : (mmc3_extra (nes_mem_writeb nes_mmc3_prg_example 0x8000 0x40)).prg_mode = 1 :=
    (h40.2.2.2.2 (by decide)).trans (by decide)
  ⟨h40.1.trans (by decide), (h40.2.2.1 hmode).trans (by decide)⟩

/-! ## The PPU tick: what the rendering steps leave alone -/

theorem ppu_same_timing_refl (s : nes_t) : ppu_same_timing s s :=
  ⟨rfl, rfl, rfl, rfl, rfl, rfl, rfl, rfl, rfl, rfl, rfl, rfl, rfl, rfl, rfl⟩

theorem ppu_same_timing_trans (a b c : nes_t) (h1 : ppu_same_timing a b)
    (h2 : ppu_same_timing b c) : ppu_same_timing a c := by
  unfold ppu_same_timing at *
  obtain ⟨a1, a2, a3, a4, a5, a6, a7, a8, a9, a10, a11, a12, a13, a14, a15⟩ := h1
  obtain ⟨b1, b2, b3, b4, b5, b6, b7, b8, b9, b10, b11, b12, b13, b14, b15⟩ := h2
  exact ⟨a1.trans b1, a2.trans b2, a3.trans b3, a4.trans b4, a5.trans b5, a6.trans b6,
    a7.trans b7, a8.trans b8, a9.trans b9, a10.trans b10, a11.trans b11, a12.trans b12,
    a13.trans b13, a14.trans b14, a15.trans b15⟩

/-- A conditional step keeps the timing when the step does. -/
theorem ppu_same_timing_ite (f : nes_t → nes_t) (hf : ∀ t, ppu_same_timing (f t) t)
    (c : Prop) [Decidable c] (t : nes_t) : ppu_same_timing (if c then f t else t) t := by
  split_ifs
  · exact hf t
  · exact ppu_same_timing_refl t

theorem nes_ppu_put_pixel_timing (s : nes_t) (y x : Int) (v : Nat) :
    ppu_same_timing (nes_ppu_put_pixel s y x v) s :=
  ⟨rfl, rfl, rfl, rfl, rfl, rfl, rfl, rfl, rfl, rfl, rfl, rfl, rfl, rfl, rfl⟩

theorem ppu_status_update_timing (s : nes_t) (v : Nat) :
    ppu_same_timing { s with ppu := { s.ppu with status := v } } s :=
  ⟨rfl, rfl, rfl, rfl, rfl, rfl, rfl, rfl, rfl, rfl, rfl, rfl, rfl, rfl, rfl⟩

theorem nes_ppu_render_pixel_timing (s : nes_t) : ppu_same_timing (nes_ppu_render_pixel s) s := by
  unfold nes_ppu_render_pixel
  dsimp only
  exact ppu_same_timing_trans _ _ _ (nes_ppu_put_pixel_timing _ _ _ _)
    (ppu_status_update_timing _ _)

theorem ppu_tile_update_timing (s : nes_t) (v : nes_ppu_tile_t) :
    ppu_same_timing { s with ppu := { s.ppu with tile := v } } s :=
  ⟨rfl, rfl, rfl, rfl, rfl, rfl, rfl, rfl, rfl, rfl, rfl, rfl, rfl, rfl, rfl⟩

theorem nes_ppu_fetch_tile_timing (s : nes_t) (hi : Nat) :
    ppu_same_timing (nes_ppu_fetch_tile s hi) s := by
  unfold nes_ppu_fetch_tile
  dsimp only
  split_ifs
  · exact ppu_tile_update_timing s _
  · exact ppu_tile_update_timing s _

theorem nes_ppu_tick_fetch_timing (s : nes_t) : ppu_same_timing (nes_ppu_tick_fetch s) s := by
  unfold nes_ppu_tick_fetch
  dsimp only
  split
  · exact ppu_same_timing_trans _ _ _ (ppu_tile_update_timing _ _) (ppu_tile_update_timing s _)
  · exact ppu_same_timing_trans _ _ _ (ppu_tile_update_timing _ _) (ppu_tile_update_timing s _)
  · exact ppu_same_timing_trans _ _ _ (nes_ppu_fetch_tile_timing _ _)
      (ppu_tile_update_timing s _)
  · exact ppu_same_timing_trans _ _ _ (nes_ppu_fetch_tile_timing _ _)
      (ppu_tile_update_timing s _)
  · exact ppu_same_timing_trans _ _ _ (ppu_tile_update_timing _ _) (ppu_tile_update_timing s _)
  · exact ppu_tile_update_timing s _

theorem ppu_vmem_addr_update_timing (s : nes_t) (v : Nat) :
    ppu_same_timing { s with ppu := { s.ppu with vmem_addr := v } } s :=
  ⟨rfl, rfl, rfl, rfl, rfl, rfl, rfl, rfl, rfl, rfl, rfl, rfl, rfl, rfl, rfl⟩

theorem nes_ppu_tick_scroll_timing (s : nes_t) (fc : Bool) :
    ppu_same_timing (nes_ppu_tick_scroll s fc) s := by
  have hx : ∀ t, ppu_same_timing (nes_ppu_increment_x t) t :=
    fun t => ppu_vmem_addr_update_timing t _
  have hy : ∀ t, ppu_same_timing (nes_ppu_increment_y t) t :=
    fun t => ppu_vmem_addr_update_timing t _
  have hc : ∀ t, ppu_same_timing (nes_ppu_copy_x t) t :=
    fun t => ppu_vmem_addr_update_timing t _
  unfold nes_ppu_tick_scroll
  dsimp only
  refine ppu_same_timing_trans _ _ _ (ppu_same_timing_ite nes_ppu_copy_x hc _ _) ?_
  refine ppu_same_timing_trans _ _ _ (ppu_same_timing_ite nes_ppu_increment_y hy _ _) ?_
  exact ppu_same_timing_ite nes_ppu_increment_x hx _ _

theorem ppu_spr_update_timing (s : nes_t) (v : Nat → nes_ppu_spr_t) :
    ppu_same_timing { s with ppu := { s.ppu with spr := v } } s :=
  ⟨rfl, rfl, rfl, rfl, rfl, rfl, rfl, rfl, rfl, rfl, rfl, rfl, rfl, rfl, rfl⟩

theorem nes_ppu_process_sprites_loop_timing (k i : Nat) (hh : Int) (s : nes_t) (n : Nat) :
    ppu_same_timing (nes_ppu_process_sprites_loop k i hh s n).1 s := by
  induction k generalizing i s n with
  | zero => exact ppu_same_timing_refl s
  | succ k ih =>
    unfold nes_ppu_process_sprites_loop
    dsimp only
    split_ifs
    · exact ih _ _ _
    · exact ppu_same_timing_trans _ _ _ (ih _ _ _) (ppu_spr_update_timing s _)
    · exact ppu_same_timing_trans _ _ _ (ih _ _ _) (ppu_spr_update_timing s _)

theorem nes_ppu_process_sprites_timing (s : nes_t) :
    ppu_same_timing (nes_ppu_process_sprites s) s := by
  have hl := fun hh => nes_ppu_process_sprites_loop_timing 64 0 hh s 0
  unfold nes_ppu_process_sprites
  dsimp only
  have hu : ∀ (t : nes_t) (v c : Nat),
      ppu_same_timing { t with ppu := { t.ppu with status := v, spr_count := c } } t :=
    fun _ _ _ => ⟨rfl, rfl, rfl, rfl, rfl, rfl, rfl, rfl, rfl, rfl, rfl, rfl, rfl, rfl, rfl⟩
  exact ppu_same_timing_trans _ _ _ (hu _ _ _) (hl _)

theorem nes_ppu_tick_render_timing (s : nes_t) (b1 b2 b3 b4 b5 : Bool) :
    ppu_same_timing (nes_ppu_tick_render s b1 b2 b3 b4 b5) s := by
  unfold nes_ppu_tick_render
  dsimp only
  have k5 : ∀ t : nes_t, ppu_same_timing
      (if t.ppu.cycle = 257 then
        (if b2 = true then nes_ppu_process_sprites t
          else { t with ppu := { t.ppu with spr_count := 0 } })
        else t) t := by
    intro t
    split_ifs
    · exact nes_ppu_process_sprites_timing t
    · exact ⟨rfl, rfl, rfl, rfl, rfl, rfl, rfl, rfl, rfl, rfl, rfl, rfl, rfl, rfl, rfl⟩
    · exact ppu_same_timing_refl t
  refine ppu_same_timing_trans _ _ _ (k5 _) ?_
  refine ppu_same_timing_trans _ _ _
    (ppu_same_timing_ite (fun t => nes_ppu_tick_scroll t b5)
      (fun t => nes_ppu_tick_scroll_timing t b5) _ _) ?_
  refine ppu_same_timing_trans _ _ _
    (ppu_same_timing_ite nes_ppu_copy_y (fun t => ppu_vmem_addr_update_timing t _) _ _) ?_
  refine ppu_same_timing_trans _ _ _
    (ppu_same_timing_ite nes_ppu_tick_fetch nes_ppu_tick_fetch_timing _ _) ?_
  exact ppu_same_timing_ite nes_ppu_render_pixel nes_ppu_render_pixel_timing _ _

/-- One PPU tick is the clock step, then rendering work that keeps the timing,
then at cycle 1 the vblank bookkeeping. -/
theorem nes_ppu_tick_split (s : nes_t) :
    ∃ m : nes_t, ppu_same_timing m (nes_ppu_clock s) ∧
      nes_ppu_tick s =
        if m.ppu.cycle = 1 then nes_ppu_tick_vblank m (decide (m.ppu.scanline = 261)) else m := by
  have h0 : ∃ m : nes_t, ppu_same_timing m (nes_ppu_clock s) ∧
      nes_ppu_tick s =
        if m.ppu.cycle = 1 then
          nes_ppu_tick_vblank m (decide ((nes_ppu_clock s).ppu.scanline = 261))
        else m := by
    refine ⟨_, ?_, rfl⟩
    split_ifs
    · exact nes_ppu_tick_render_timing _ _ _ _ _ _
    · exact ⟨rfl, rfl, rfl, rfl, rfl, rfl, rfl, rfl, rfl, rfl, rfl, rfl, rfl, rfl, rfl⟩
    · exact ppu_same_timing_refl _
  obtain ⟨m, hm, e⟩ := h0
  refine ⟨m, hm, ?_⟩
  rw [e, hm.2.2.2.2.2.2.2.1]

/-! ## The PPU clock step and the vblank bookkeeping -/

/-- The NMI block of `nes_ppu_clock`: it enters the NMI sequence when the
delay counter is at its last tick with PPUCTRL.NMI and the NMI state flag set,
and otherwise only counts the delay down (not below 0). -/
theorem nes_ppu_clock_nmi_cases (s : nes_t) :
    (nes_ppu_clock_nmi_due s → nes_ppu_clock_nmi s =
      nes_cpu_nmi { s with ppu := { s.ppu with nmi_delay := 0 } }) ∧
    (¬ nes_ppu_clock_nmi_due s → nes_ppu_clock_nmi s =
      { s with ppu := { s.ppu with nmi_delay := s.ppu.nmi_delay - 1 } }) := by
  constructor
  · intro h
    obtain ⟨h1, h2, h3, h4⟩ := h
    unfold nes_ppu_clock_nmi
    dsimp only
    rw [if_pos h1, if_pos ⟨h2, h3, h4⟩, h2]
  · intro h
    unfold nes_ppu_clock_nmi
    dsimp only
    by_cases h1 : s.ppu.nmi_delay > 0
    · rw [if_pos h1, if_neg (fun hn => h ⟨h1, hn.1, hn.2.1, hn.2.2⟩)]
    · rw [if_neg h1]
      have h0 : s.ppu.nmi_delay - 1 = s.ppu.nmi_delay := by omega
      rw [h0]

/-- The counters that `nes_ppu_clock_count` computes depend only on the
position, the frame counters and PPUMASK; it leaves the other registers. -/
theorem nes_ppu_clock_count_congr (p q : nes_ppu_t) (hm : q.mask = p.mask)
    (hfe : q.frame_end = p.frame_end) (hsl : q.scanline = p.scanline)
    (hcy : q.cycle = p.cycle) (hfr : q.frame = p.frame) :
    (nes_ppu_clock_count q).cycle = (nes_ppu_clock_count p).cycle ∧
    (nes_ppu_clock_count q).scanline = (nes_ppu_clock_count p).scanline ∧
    (nes_ppu_clock_count q).frame = (nes_ppu_clock_count p).frame ∧
    (nes_ppu_clock_count q).frame_end = (nes_ppu_clock_count p).frame_end ∧
    (nes_ppu_clock_count q).mask = p.mask ∧
    (nes_ppu_clock_count q).ctrl = q.ctrl ∧
    (nes_ppu_clock_count q).flags = q.flags ∧
    (nes_ppu_clock_count q).nmi_delay = q.nmi_delay ∧
    (nes_ppu_clock_count q).nmi_prev = q.nmi_prev := by
  unfold nes_ppu_clock_count
  dsimp only
  rw [hm, hfe, hsl, hcy, hfr]
  split_ifs <;> exact ⟨rfl, rfl, rfl, rfl, rfl, rfl, rfl, rfl, rfl⟩

/-- One step of `nes_ppu_clock`, with the stack pointer a byte: the position
and the frame counters are those of `nes_ppu_clock_count`, the delay counter
is counted down, the other PPU registers, the APU, the cartridge, the input
and the video memory are left alone, and the CPU and the memory are changed
only by an NMI entry. -/
theorem nes_ppu_clock_timing (s : nes_t) (hs : s.cpu.s < 0x100) :
    ((nes_ppu_clock s).ppu.cycle = (nes_ppu_clock_count s.ppu).cycle ∧
      (nes_ppu_clock s).ppu.scanline = (nes_ppu_clock_count s.ppu).scanline ∧
      (nes_ppu_clock s).ppu.frame = (nes_ppu_clock_count s.ppu).frame ∧
      (nes_ppu_clock s).ppu.frame_end = (nes_ppu_clock_count s.ppu).frame_end ∧
      (nes_ppu_clock s).ppu.mask = s.ppu.mask ∧
      (nes_ppu_clock s).ppu.ctrl = s.ppu.ctrl) ∧
    ((nes_ppu_clock s).ppu.flags = s.ppu.flags ∧
      (nes_ppu_clock s).ppu.nmi_delay = s.ppu.nmi_delay - 1 ∧
      (nes_ppu_clock s).ppu.nmi_prev = s.ppu.nmi_prev) ∧
    ((nes_ppu_clock s).cpu.s < 0x100 ∧ (nes_ppu_clock s).apu = s.apu ∧
      (nes_ppu_clock s).cart = s.cart ∧ (nes_ppu_clock s).input = s.input ∧
      (nes_ppu_clock s).vmem = s.vmem) ∧
    (¬ nes_ppu_clock_nmi_due s →
      (nes_ppu_clock s).cpu = s.cpu ∧ (nes_ppu_clock s).mem = s.mem) ∧
    (nes_ppu_clock_nmi_due s →
      (nes_ppu_clock s).cpu = (nes_cpu_nmi s).cpu ∧
      (nes_ppu_clock s).mem = (nes_cpu_nmi s).mem) := by
  have key : ∀ n : nes_t, n.ppu.mask = s.ppu.mask → n.ppu.frame_end = s.ppu.frame_end →
      n.ppu.scanline = s.ppu.scanline → n.ppu.cycle = s.ppu.cycle →
      n.ppu.frame = s.ppu.frame → n.ppu.ctrl = s.ppu.ctrl → n.ppu.flags = s.ppu.flags →
      n.ppu.nmi_delay = s.ppu.nmi_delay - 1 → n.ppu.nmi_prev = s.ppu.nmi_prev →
      nes_ppu_clock_nmi s = n →
      ((nes_ppu_clock s).ppu.cycle = (nes_ppu_clock_count s.ppu).cycle ∧
        (nes_ppu_clock s).ppu.scanline = (nes_ppu_clock_count s.ppu).scanline ∧
        (nes_ppu_clock s).ppu.frame = (nes_ppu_clock_count s.ppu).frame ∧
        (nes_ppu_clock s).ppu.frame_end = (nes_ppu_clock_count s.ppu).frame_end ∧
        (nes_ppu_clock s).ppu.mask = s.ppu.mask ∧
        (nes_ppu_clock s).ppu.ctrl = s.ppu.ctrl) ∧
      ((nes_ppu_clock s).ppu.flags = s.ppu.flags ∧
        (nes_ppu_clock s).ppu.nmi_delay = s.ppu.nmi_delay - 1 ∧
        (nes_ppu_clock s).ppu.nmi_prev = s.ppu.nmi_prev) ∧
      (nes_ppu_clock s).cpu = n.cpu ∧ (nes_ppu_clock s).mem = n.mem ∧
      (nes_ppu_clock s).apu = n.apu ∧ (nes_ppu_clock s).cart = n.cart ∧
      (nes_ppu_clock s).input = n.input ∧ (nes_ppu_clock s).vmem = n.vmem := by
    intro n hm hfe hsl hcy hfr hct hfl hnd hnp hn
    have hc := nes_ppu_clock_count_congr s.ppu n.ppu hm hfe hsl hcy hfr
    have e : nes_ppu_clock s = { n with ppu := nes_ppu_clock_count n.ppu } := by
      unfold nes_ppu_clock
      dsimp only
      rw [hn]
    rw [e]
    exact ⟨⟨hc.1, hc.2.1, hc.2.2.1, hc.2.2.2.1, hc.2.2.2.2.1, hc.2.2.2.2.2.1.trans hct⟩,
      ⟨hc.2.2.2.2.2.2.1.trans hfl, hc.2.2.2.2.2.2.2.1.trans hnd,
        hc.2.2.2.2.2.2.2.2.trans hnp⟩, rfl, rfl, rfl, rfl, rfl, rfl⟩
  by_cases hd : nes_ppu_clock_nmi_due s
  · have hn := (nes_ppu_clock_nmi_cases s).1 hd
    have hst := nes_cpu_nmi_state { s with ppu := { s.ppu with nmi_delay := 0 } } hs
    have hst2 := nes_cpu_nmi_state s hs
    have r1 := nes_mem_readb_high_congr s { s with ppu := { s.ppu with nmi_delay := 0 } }
      0xFFFB (by omega) rfl rfl rfl
    have r2 := nes_mem_readb_high_congr s { s with ppu := { s.ppu with nmi_delay := 0 } }
      0xFFFA (by omega) rfl rfl rfl
    have hk := key (nes_cpu_nmi { s with ppu := { s.ppu with nmi_delay := 0 } })
      (by rw [hst]) (by rw [hst]) (by rw [hst]) (by rw [hst]) (by rw [hst]) (by rw [hst])
      (by rw [hst])
      (by rw [hst]; show 0 = s.ppu.nmi_delay - 1; exact hd.2.1.symm) (by rw [hst]) hn
    refine ⟨hk.1, hk.2.1, ⟨?_, ?_, ?_, ?_, ?_⟩, fun h => absurd hd h, fun _ => ⟨?_, ?_⟩⟩
    · rw [hk.2.2.1, hst]
      exact Nat.mod_lt _ (by decide)
    · rw [hk.2.2.2.2.1, hst]
    · rw [hk.2.2.2.2.2.1, hst]
    · rw [hk.2.2.2.2.2.2.1, hst]
    · rw [hk.2.2.2.2.2.2.2, hst]
    · rw [hk.2.2.1, hst, hst2]
      dsimp only
      rw [r1, r2]
    · rw [hk.2.2.2.1, hst, hst2]
  · have hn := (nes_ppu_clock_nmi_cases s).2 hd
    have hk := key { s with ppu := { s.ppu with nmi_delay := s.ppu.nmi_delay - 1 } }
      rfl rfl rfl rfl rfl rfl rfl rfl rfl hn
    exact ⟨hk.1, hk.2.1, ⟨by rw [hk.2.2.1]; exact hs, hk.2.2.2.2.1, hk.2.2.2.2.2.1,
      hk.2.2.2.2.2.2.1, hk.2.2.2.2.2.2.2⟩, fun _ => ⟨hk.2.2.1, hk.2.2.2.1⟩,
      fun h => absurd h hd⟩

theorem ppu_flags_nmi_set (f : Nat) :
    BITGET (BITSET (BITSET f NES_PPU_FLAG_NMI) NES_PPU_FLAG_RENDER) NES_PPU_FLAG_NMI ≠ 0 := by
  unfold BITGET BITSET BITMGET
  rw [bitmset_and_other _ _ _ (by decide), bitmset_and_self]
  decide

theorem ppu_flags_nmi_clr (f : Nat) : BITGET (BITCLR f NES_PPU_FLAG_NMI) NES_PPU_FLAG_NMI = 0 := by
  unfold BITGET BITCLR BITMGET
  exact bitmclr_and_self _ _ (by decide)

/-- The vblank bookkeeping leaves the CPU, the APU, the memory, the input,
the cartridge, the video memory and the PPU position and registers alone. -/
theorem nes_ppu_tick_vblank_rest (m : nes_t) (b : Bool) :
    ((nes_ppu_tick_vblank m b).cpu = m.cpu ∧ (nes_ppu_tick_vblank m b).apu = m.apu ∧
      (nes_ppu_tick_vblank m b).mem = m.mem ∧ (nes_ppu_tick_vblank m b).input = m.input ∧
      (nes_ppu_tick_vblank m b).cart = m.cart ∧ (nes_ppu_tick_vblank m b).vmem = m.vmem) ∧
    ((nes_ppu_tick_vblank m b).ppu.cycle = m.ppu.cycle ∧
      (nes_ppu_tick_vblank m b).ppu.scanline = m.ppu.scanline ∧
      (nes_ppu_tick_vblank m b).ppu.frame = m.ppu.frame ∧
      (nes_ppu_tick_vblank m b).ppu.frame_end = m.ppu.frame_end ∧
      (nes_ppu_tick_vblank m b).ppu.mask = m.ppu.mask ∧
      (nes_ppu_tick_vblank m b).ppu.ctrl = m.ppu.ctrl) := by
  have hu : ∀ t : nes_t,
      ((nes_ppu_nmi_update t).cpu = t.cpu ∧ (nes_ppu_nmi_update t).apu = t.apu ∧
        (nes_ppu_nmi_update t).mem = t.mem ∧ (nes_ppu_nmi_update t).input = t.input ∧
        (nes_ppu_nmi_update t).cart = t.cart ∧ (nes_ppu_nmi_update t).vmem = t.vmem) ∧
      ((nes_ppu_nmi_update t).ppu.cycle = t.ppu.cycle ∧
        (nes_ppu_nmi_update t).ppu.scanline = t.ppu.scanline ∧
        (nes_ppu_nmi_update t).ppu.frame = t.ppu.frame ∧
        (nes_ppu_nmi_update t).ppu.frame_end = t.ppu.frame_end ∧
        (nes_ppu_nmi_update t).ppu.mask = t.ppu.mask ∧
        (nes_ppu_nmi_update t).ppu.ctrl = t.ppu.ctrl) := by
    intro t
    unfold nes_ppu_nmi_update
    dsimp only
    split_ifs <;> exact ⟨⟨rfl, rfl, rfl, rfl, rfl, rfl⟩, rfl, rfl, rfl, rfl, rfl, rfl⟩
  have hs : ∀ t : nes_t,
      ((nes_ppu_set_vblank t).cpu = t.cpu ∧ (nes_ppu_set_vblank t).apu = t.apu ∧
        (nes_ppu_set_vblank t).mem = t.mem ∧ (nes_ppu_set_vblank t).input = t.input ∧
        (nes_ppu_set_vblank t).cart = t.cart ∧ (nes_ppu_set_vblank t).vmem = t.vmem) ∧
      ((nes_ppu_set_vblank t).ppu.cycle = t.ppu.cycle ∧
        (nes_ppu_set_vblank t).ppu.scanline = t.ppu.scanline ∧
        (nes_ppu_set_vblank t).ppu.frame = t.ppu.frame ∧
        (nes_ppu_set_vblank t).ppu.frame_end = t.ppu.frame_end ∧
        (nes_ppu_set_vblank t).ppu.mask = t.ppu.mask ∧
        (nes_ppu_set_vblank t).ppu.ctrl = t.ppu.ctrl) := by
    intro t
    unfold nes_ppu_set_vblank
    dsimp only
    exact hu _
  have hp : ∀ t : nes_t,
      ((nes_ppu_tick_pre_line t).cpu = t.cpu ∧ (nes_ppu_tick_pre_line t).apu = t.apu ∧
        (nes_ppu_tick_pre_line t).mem = t.mem ∧ (nes_ppu_tick_pre_line t).input = t.input ∧
        (nes_ppu_tick_pre_line t).cart = t.cart ∧ (nes_ppu_tick_pre_line t).vmem = t.vmem) ∧
      ((nes_ppu_tick_pre_line t).ppu.cycle = t.ppu.cycle ∧
        (nes_ppu_tick_pre_line t).ppu.scanline = t.ppu.scanline ∧
        (nes_ppu_tick_pre_line t).ppu.frame = t.ppu.frame ∧
        (nes_ppu_tick_pre_line t).ppu.frame_end = t.ppu.frame_end ∧
        (nes_ppu_tick_pre_line t).ppu.mask = t.ppu.mask ∧
        (nes_ppu_tick_pre_line t).ppu.ctrl = t.ppu.ctrl) := by
    intro t
    unfold nes_ppu_tick_pre_line nes_ppu_clr_vblank
    dsimp only
    exact hu _
  unfold nes_ppu_tick_vblank
  dsimp only
  by_cases h1 : m.ppu.scanline = 241
  · rw [if_pos h1]
    by_cases hb : b = true
    · rw [if_pos hb]
      have a := hp (nes_ppu_set_vblank m)
      have c := hs m
      exact ⟨⟨a.1.1.trans c.1.1, a.1.2.1.trans c.1.2.1, a.1.2.2.1.trans c.1.2.2.1,
        a.1.2.2.2.1.trans c.1.2.2.2.1, a.1.2.2.2.2.1.trans c.1.2.2.2.2.1,
        a.1.2.2.2.2.2.trans c.1.2.2.2.2.2⟩,
        a.2.1.trans c.2.1, a.2.2.1.trans c.2.2.1, a.2.2.2.1.trans c.2.2.2.1,
        a.2.2.2.2.1.trans c.2.2.2.2.1, a.2.2.2.2.2.1.trans c.2.2.2.2.2.1,
        a.2.2.2.2.2.2.trans c.2.2.2.2.2.2⟩
    · rw [if_neg hb]
      exact hs m
  · rw [if_neg h1]
    by_cases hb : b = true
    · rw [if_pos hb]
      exact hp m
    · rw [if_neg hb]
      exact ⟨⟨rfl, rfl, rfl, rfl, rfl, rfl⟩, rfl, rfl, rfl, rfl, rfl, rfl⟩

/-- The NMI bookkeeping of the vblank step, by scanline. -/
theorem nes_ppu_tick_vblank_nmi (m : nes_t) :
    (m.ppu.scanline = 241 →
      BITGET (nes_ppu_tick_vblank m (decide (m.ppu.scanline = 261))).ppu.flags
        NES_PPU_FLAG_NMI ≠ 0 ∧
      (nes_ppu_tick_vblank m (decide (m.ppu.scanline = 261))).ppu.nmi_delay =
        (if BITGET m.ppu.ctrl NES_PPU_CTRL_NMI ≠ 0 ∧ m.ppu.nmi_prev = 0 then 15
          else m.ppu.nmi_delay) ∧
      (nes_ppu_tick_vblank m (decide (m.ppu.scanline = 261))).ppu.nmi_prev =
        (if BITGET m.ppu.ctrl NES_PPU_CTRL_NMI ≠ 0 then 1 else 0)) ∧
    (m.ppu.scanline = 261 →
      BITGET (nes_ppu_tick_vblank m (decide (m.ppu.scanline = 261))).ppu.flags
        NES_PPU_FLAG_NMI = 0 ∧
      (nes_ppu_tick_vblank m (decide (m.ppu.scanline = 261))).ppu.nmi_delay =
        m.ppu.nmi_delay ∧
      (nes_ppu_tick_vblank m (decide (m.ppu.scanline = 261))).ppu.nmi_prev = 0) ∧
    (m.ppu.scanline ≠ 241 → m.ppu.scanline ≠ 261 →
      nes_ppu_tick_vblank m (decide (m.ppu.scanline = 261)) = m) := by
  refine ⟨?_, ?_, ?_⟩
  · intro h
    have h2 : ¬ m.ppu.scanline = 261 := by omega
    unfold nes_ppu_tick_vblank
    dsimp only
    rw [if_pos h, if_neg (by simp [h2])]
    unfold nes_ppu_set_vblank
    dsimp only
    have hf := ppu_flags_nmi_set m.ppu.flags
    unfold nes_ppu_nmi_update c_bool
    dsimp only
    by_cases hc : BITGET m.ppu.ctrl NES_PPU_CTRL_NMI ≠ 0
    · by_cases hp : m.ppu.nmi_prev = 0
      · simp [hc, hp, hf]
      · simp [hc, hp, hf]
    · by_cases hp : m.ppu.nmi_prev = 0
      · simp [hc, hp, hf]
      · simp [hc, hp, hf]
  · intro h
    have h2 : ¬ m.ppu.scanline = 241 := by omega
    unfold nes_ppu_tick_vblank
    dsimp only
    rw [if_neg h2, if_pos (by simp [h])]
    unfold nes_ppu_tick_pre_line nes_ppu_clr_vblank
    dsimp only
    have hf := ppu_flags_nmi_clr m.ppu.flags
    unfold nes_ppu_nmi_update c_bool
    dsimp only
    simp [hf]
  · intro h1 h2
    unfold nes_ppu_tick_vblank
    dsimp only
    rw [if_neg h1, if_neg (by simp [h2])]

/-- One PPU tick, with the stack pointer a byte.  The position and the frame
counters are those of `nes_ppu_clock_count`; PPUMASK, PPUCTRL, the APU, the
cartridge, the input and the video memory are left alone; the CPU and the
memory are changed only by an NMI entry, which happens exactly when
`nes_ppu_clock_nmi_due`; the NMI delay is counted down, except that reaching
(241, 1) with PPUCTRL.NMI set and the NMI line low sets it to 15; the NMI flag
is set on reaching (241, 1), cleared on reaching (261, 1), and kept
elsewhere. -/
theorem nes_ppu_tick_timing (s : nes_t) (hs : s.cpu.s < 0x100) :
    ((nes_ppu_tick s).ppu.cycle = (nes_ppu_clock_count s.ppu).cycle ∧
      (nes_ppu_tick s).ppu.scanline = (nes_ppu_clock_count s.ppu).scanline ∧
      (nes_ppu_tick s).ppu.frame = (nes_ppu_clock_count s.ppu).frame ∧
      (nes_ppu_tick s).ppu.frame_end = (nes_ppu_clock_count s.ppu).frame_end ∧
      (nes_ppu_tick s).ppu.mask = s.ppu.mask ∧
      (nes_ppu_tick s).ppu.ctrl = s.ppu.ctrl) ∧
    ((nes_ppu_tick s).cpu.s < 0x100 ∧ (nes_ppu_tick s).apu = s.apu ∧
      (nes_ppu_tick s).cart = s.cart ∧ (nes_ppu_tick s).input = s.input ∧
      (nes_ppu_tick s).vmem = s.vmem) ∧
    (¬ nes_ppu_clock_nmi_due s →
      (nes_ppu_tick s).cpu = s.cpu ∧ (nes_ppu_tick s).mem = s.mem) ∧
    (nes_ppu_clock_nmi_due s →
      (nes_ppu_tick s).cpu = (nes_cpu_nmi s).cpu ∧
      (nes_ppu_tick s).mem = (nes_cpu_nmi s).mem) ∧
    ((nes_ppu_tick s).ppu.cycle = 1 → (nes_ppu_tick s).ppu.scanline = 241 →
      BITGET (nes_ppu_tick s).ppu.flags NES_PPU_FLAG_NMI ≠ 0 ∧
      (nes_ppu_tick s).ppu.nmi_delay =
        (if BITGET s.ppu.ctrl NES_PPU_CTRL_NMI ≠ 0 ∧ s.ppu.nmi_prev = 0 then 15
          else s.ppu.nmi_delay - 1) ∧
      (nes_ppu_tick s).ppu.nmi_prev =
        (if BITGET s.ppu.ctrl NES_PPU_CTRL_NMI ≠ 0 then 1 else 0)) ∧
    ((nes_ppu_tick s).ppu.cycle = 1 → (nes_ppu_tick s).ppu.scanline = 261 →
      BITGET (nes_ppu_tick s).ppu.flags NES_PPU_FLAG_NMI = 0 ∧
      (nes_ppu_tick s).ppu.nmi_delay = s.ppu.nmi_delay - 1 ∧
      (nes_ppu_tick s).ppu.nmi_prev = 0) ∧
    (¬ ((nes_ppu_tick s).ppu.cycle = 1 ∧
        ((nes_ppu_tick s).ppu.scanline = 241 ∨ (nes_ppu_tick s).ppu.scanline = 261)) →
      (nes_ppu_tick s).ppu.flags = s.ppu.flags ∧
      (nes_ppu_tick s).ppu.nmi_delay = s.ppu.nmi_delay - 1 ∧
      (nes_ppu_tick s).ppu.nmi_prev = s.ppu.nmi_prev) := by
  obtain ⟨m, hm, e⟩ := nes_ppu_tick_split s
  obtain ⟨m1, m2, m3, m4, m5, m6, m7, m8, m9, m10, m11, m12, m13, m14, m15⟩ := hm
  obtain ⟨⟨c1, c2, c3, c4, c5, c6⟩, ⟨c7, c8, c9⟩, ⟨d1, d2, d3, d4, d5⟩, hnd, hd⟩ :=
    nes_ppu_clock_timing s hs
  have hr := nes_ppu_tick_vblank_rest m (decide (m.ppu.scanline = 261))
  have hv := nes_ppu_tick_vblank_nmi m
  by_cases h1 : m.ppu.cycle = 1
  · rw [if_pos h1] at e
    rw [e]
    obtain ⟨⟨r1, r2, r3, r4, r5, r6⟩, r7, r8, r9, r10, r11, r12⟩ := hr
    refine ⟨⟨?_, ?_, ?_, ?_, ?_, ?_⟩, ⟨?_, ?_, ?_, ?_, ?_⟩, ?_, ?_, ?_, ?_, ?_⟩
    · rw [r7, m7, c1]
    · rw [r8, m8, c2]
    · rw [r9, m9, c3]
    · rw [r10, m10, c4]
    · rw [r11, m12, c5]
    · rw [r12, m11, c6]
    · rw [r1, m1]; exact d1
    · rw [r2, m2, d2]
    · rw [r5, m5, d3]
    · rw [r4, m4, d4]
    · rw [r6, m6, d5]
    · intro h
      rw [r1, r3, m1, m3]
      exact hnd h
    · intro h
      rw [r1, r3, m1, m3]
      exact hd h
    · intro _ h241
      rw [r8] at h241
      have a := hv.1 h241
      rw [m11, m15, m14, c6, c9, c8] at a
      exact a
    · intro _ h261
      rw [r8] at h261
      have a := hv.2.1 h261
      rw [m14, c8] at a
      exact a
    · intro hn
      rw [r7, r8] at hn
      have hn1 : m.ppu.scanline ≠ 241 := fun h => hn ⟨h1, Or.inl h⟩
      have hn2 : m.ppu.scanline ≠ 261 := fun h => hn ⟨h1, Or.inr h⟩
      rw [hv.2.2 hn1 hn2, m13, m14, m15]
      exact ⟨c7, c8, c9⟩
  · rw [if_neg h1] at e
    rw [e]
    refine ⟨⟨?_, ?_, ?_, ?_, ?_, ?_⟩, ⟨?_, ?_, ?_, ?_, ?_⟩, ?_, ?_, ?_, ?_, ?_⟩
    · rw [m7, c1]
    · rw [m8, c2]
    · rw [m9, c3]
    · rw [m10, c4]
    · rw [m12, c5]
    · rw [m11, c6]
    · rw [m1]; exact d1
    · rw [m2, d2]
    · rw [m5, d3]
    · rw [m4, d4]
    · rw [m6, d5]
    · intro h
      rw [m1, m3]
      exact hnd h
    · intro h
      rw [m1, m3]
      exact hd h
    · intro hc1
      exact absurd hc1 h1
    · intro hc1
      exact absurd hc1 h1
    · intro _
      rw [m13, m14, m15]
      exact ⟨c7, c8, c9⟩

/-! ## The dot counter -/

/-- One step of the dot counter from a position inside the frame: the dot
index goes up by 1 and the frame counters stay, or it wraps to (0, 0) with the
frame counter incremented and the odd-frame toggle flipped; it wraps from the
last dot (261, 340), and from (261, 339) when rendering is enabled and the
toggle is set, and from nowhere else. -/
theorem nes_ppu_clock_count_dot (p : nes_ppu_t) (hc : 0 ≤ p.cycle ∧ p.cycle ≤ 340)
    (hl : 0 ≤ p.scanline ∧ p.scanline ≤ 261) :
    (0 ≤ (nes_ppu_clock_count p).cycle ∧ (nes_ppu_clock_count p).cycle ≤ 340) ∧
    (0 ≤ (nes_ppu_clock_count p).scanline ∧ (nes_ppu_clock_count p).scanline ≤ 261) ∧
    ((ppu_dot p = 89341 ∨ (ppu_dot p = 89340 ∧
        (BITGET p.mask NES_PPU_MASK_BG ≠ 0 ∨ BITGET p.mask NES_PPU_MASK_SPR ≠ 0) ∧
        p.frame_end ≠ 0)) →
      (nes_ppu_clock_count p).cycle = 0 ∧ (nes_ppu_clock_count p).scanline = 0 ∧
      (nes_ppu_clock_count p).frame = (p.frame + 1) % 0x100000000 ∧
      (nes_ppu_clock_count p).frame_end = (p.frame_end ^^^ 1) % 0x100) ∧
    (¬ (ppu_dot p = 89341 ∨ (ppu_dot p = 89340 ∧
        (BITGET p.mask NES_PPU_MASK_BG ≠ 0 ∨ BITGET p.mask NES_PPU_MASK_SPR ≠ 0) ∧
        p.frame_end ≠ 0)) →
      ppu_dot (nes_ppu_clock_count p) = ppu_dot p + 1 ∧
      (nes_ppu_clock_count p).frame = p.frame ∧
      (nes_ppu_clock_count p).frame_end = p.frame_end) := by
  unfold ppu_dot nes_ppu_clock_count
  dsimp only
  split_ifs with h1 h2 h3 <;> dsimp only
  · refine ⟨by omega, by omega, fun _ => ⟨rfl, rfl, rfl, rfl⟩, fun hn => ?_⟩
    exact absurd (Or.inr ⟨by omega, h1.1, h1.2.1⟩) hn
  · refine ⟨by omega, by omega, fun _ => ⟨rfl, rfl, rfl, rfl⟩, fun hn => ?_⟩
    exact absurd (Or.inl (by omega)) hn
  · refine ⟨by omega, by omega, fun h => ?_, fun _ => ⟨by omega, rfl, rfl⟩⟩
    exfalso
    rcases h with h | h
    · omega
    · exact h1 ⟨h.2.1, h.2.2, by omega, by omega⟩
  · refine ⟨by omega, by omega, fun h => ?_, fun _ => ⟨by omega, rfl, rfl⟩⟩
    exfalso
    rcases h with h | h
    · omega
    · exact h1 ⟨h.2.1, h.2.2, by omega, by omega⟩

/-- The dot counter under one PPU tick (see `nes_ppu_clock_count_dot`). -/
theorem nes_ppu_tick_dot (s : nes_t) (hs : s.cpu.s < 0x100)
    (hc : 0 ≤ s.ppu.cycle ∧ s.ppu.cycle ≤ 340) (hl : 0 ≤ s.ppu.scanline ∧ s.ppu.scanline ≤ 261) :
    ((nes_ppu_tick s).cpu.s < 0x100 ∧
      (0 ≤ (nes_ppu_tick s).ppu.cycle ∧ (nes_ppu_tick s).ppu.cycle ≤ 340) ∧
      (0 ≤ (nes_ppu_tick s).ppu.scanline ∧ (nes_ppu_tick s).ppu.scanline ≤ 261) ∧
      (nes_ppu_tick s).ppu.mask = s.ppu.mask ∧ (nes_ppu_tick s).ppu.ctrl = s.ppu.ctrl) ∧
    ((ppu_dot s.ppu = 89341 ∨ (ppu_dot s.ppu = 89340 ∧
        (BITGET s.ppu.mask NES_PPU_MASK_BG ≠ 0 ∨ BITGET s.ppu.mask NES_PPU_MASK_SPR ≠ 0) ∧
        s.ppu.frame_end ≠ 0)) →
      (nes_ppu_tick s).ppu.cycle = 0 ∧ (nes_ppu_tick s).ppu.scanline = 0 ∧
      (nes_ppu_tick s).ppu.frame = (s.ppu.frame + 1) % 0x100000000 ∧
      (nes_ppu_tick s).ppu.frame_end = (s.ppu.frame_end ^^^ 1) % 0x100) ∧
    (¬ (ppu_dot s.ppu = 89341 ∨ (ppu_dot s.ppu = 89340 ∧
        (BITGET s.ppu.mask NES_PPU_MASK_BG ≠ 0 ∨ BITGET s.ppu.mask NES_PPU_MASK_SPR ≠ 0) ∧
        s.ppu.frame_end ≠ 0)) →
      ppu_dot (nes_ppu_tick s).ppu = ppu_dot s.ppu + 1 ∧
      (nes_ppu_tick s).ppu.frame = s.ppu.frame ∧
      (nes_ppu_tick s).ppu.frame_end = s.ppu.frame_end) := by
  obtain ⟨⟨t1, t2, t3, t4, t5, t6⟩, ⟨u1, _⟩, _⟩ := nes_ppu_tick_timing s hs
  obtain ⟨d1, d2, d3, d4⟩ := nes_ppu_clock_count_dot s.ppu hc hl
  have e : ppu_dot (nes_ppu_tick s).ppu = ppu_dot (nes_ppu_clock_count s.ppu) := by
    unfold ppu_dot
    rw [t1, t2]
  rw [e, t1, t2, t3, t4]
  exact ⟨⟨u1, d1, d2, t5, t6⟩, d3, d4⟩

/-- With rendering disabled, `k` PPU ticks from a dot of the frame, none of
them past the last dot, advance the dot index by `k` and leave the frame
counter. -/
theorem nes_ppu_tick_iterate_norender (k : Nat) (s : nes_t) (hs : s.cpu.s < 0x100)
    (hc : 0 ≤ s.ppu.cycle ∧ s.ppu.cycle ≤ 340) (hl : 0 ≤ s.ppu.scanline ∧ s.ppu.scanline ≤ 261)
    (hb : BITGET s.ppu.mask NES_PPU_MASK_BG = 0) (hp : BITGET s.ppu.mask NES_PPU_MASK_SPR = 0)
    (hk : ppu_dot s.ppu + k ≤ 89341) :
    (nes_ppu_tick^[k] s).cpu.s < 0x100 ∧
    (0 ≤ (nes_ppu_tick^[k] s).ppu.cycle ∧ (nes_ppu_tick^[k] s).ppu.cycle ≤ 340) ∧
    (0 ≤ (nes_ppu_tick^[k] s).ppu.scanline ∧ (nes_ppu_tick^[k] s).ppu.scanline ≤ 261) ∧
    (nes_ppu_tick^[k] s).ppu.mask = s.ppu.mask ∧
    ppu_dot (nes_ppu_tick^[k] s).ppu = ppu_dot s.ppu + k ∧
    (nes_ppu_tick^[k] s).ppu.frame = s.ppu.frame := by
  induction k generalizing s with
  | zero => exact ⟨hs, hc, hl, rfl, by simp, rfl⟩
  | succ k ih =>
    obtain ⟨⟨a1, a2, a3, a4, _⟩, _, a6⟩ := nes_ppu_tick_dot s hs hc hl
    have hnw : ¬ (ppu_dot s.ppu = 89341 ∨ (ppu_dot s.ppu = 89340 ∧
        (BITGET s.ppu.mask NES_PPU_MASK_BG ≠ 0 ∨ BITGET s.ppu.mask NES_PPU_MASK_SPR ≠ 0) ∧
        s.ppu.frame_end ≠ 0)) := by
      rintro (h | h)
      · push_cast at hk
        omega
      · rcases h.2.1 with h2 | h2
        · exact h2 hb
        · exact h2 hp
    obtain ⟨b1, b2, _⟩ := a6 hnw
    have ih2 := ih (nes_ppu_tick s) a1 a2 a3 (by rw [a4]; exact hb) (by rw [a4]; exact hp)
      (by rw [b1]; push_cast at hk ⊢; omega)
    rw [Function.iterate_succ_apply]
    obtain ⟨c1, c2, c3, c4, c5, c6⟩ := ih2
    refine ⟨c1, c2, c3, c4.trans a4, ?_, c6.trans b2⟩
    rw [c5, b1]
    push_cast
    omega

/-- C24. One PPU clock step (`nes_ppu_clock`, the stack pointer being a byte)
taken at (scanline 261, cycle 339) goes to (scanline 0, cycle 0) and
increments the frame counter exactly when background or sprite rendering is
enabled and the odd-frame toggle is set; in every other case it goes to
(261, 340) and leaves the frame counter.  So with rendering disabled every
frame lasts 341 * 262 = 89342 PPU ticks: from (0, 0) the `k`-th tick reaches
(k / 341, k mod 341) in the same frame for `k` below 89342, and tick number
89342 reaches (0, 0) of the next frame. -/
theorem ppu_frame_length (s : nes_t) (hs : s.cpu.s < 0x100) :
    (s.ppu.scanline = 261 → s.ppu.cycle = 339 →
      ((BITGET s.ppu.mask NES_PPU_MASK_BG ≠ 0 ∨ BITGET s.ppu.mask NES_PPU_MASK_SPR ≠ 0) ∧
          s.ppu.frame_end ≠ 0 →
        (nes_ppu_clock s).ppu.scanline = 0 ∧ (nes_ppu_clock s).ppu.cycle = 0 ∧
        (nes_ppu_clock s).ppu.frame = (s.ppu.frame + 1) % 0x100000000) ∧
      (¬ ((BITGET s.ppu.mask NES_PPU_MASK_BG ≠ 0 ∨ BITGET s.ppu.mask NES_PPU_MASK_SPR ≠ 0) ∧
          s.ppu.frame_end ≠ 0) →
        (nes_ppu_clock s).ppu.scanline = 261 ∧ (nes_ppu_clock s).ppu.cycle = 340 ∧
        (nes_ppu_clock s).ppu.frame = s.ppu.frame)) ∧
    (BITGET s.ppu.mask NES_PPU_MASK_BG = 0 → BITGET s.ppu.mask NES_PPU_MASK_SPR = 0 →
      s.ppu.scanline = 0 → s.ppu.cycle = 0 →
      (∀ k : Nat, k < 89342 →
        (nes_ppu_tick^[k] s).ppu.scanline = ((k / 341 : Nat) : Int) ∧
        (nes_ppu_tick^[k] s).ppu.cycle = ((k % 341 : Nat) : Int) ∧
        (nes_ppu_tick^[k] s).ppu.frame = s.ppu.frame) ∧
      (nes_ppu_tick^[89342] s).ppu.scanline = 0 ∧ (nes_ppu_tick^[89342] s).ppu.cycle = 0 ∧
      (nes_ppu_tick^[89342] s).ppu.frame = (s.ppu.frame + 1) % 0x100000000) := by
  constructor
  · intro h1 h2
    obtain ⟨⟨c1, c2, c3, _⟩, _⟩ := nes_ppu_clock_timing s hs
    obtain ⟨d1, d2, d3, d4⟩ := nes_ppu_clock_count_dot s.ppu (by omega) (by omega)
    have hdot : ppu_dot s.ppu = 89340 := by
      unfold ppu_dot
      omega
    rw [c1, c2, c3]
    constructor
    · intro hr
      have a := d3 (Or.inr ⟨hdot, hr.1, hr.2⟩)
      exact ⟨a.2.1, a.1, a.2.2.1⟩
    · intro hr
      have a := d4 (by
        rintro (h | h)
        · omega
        · exact hr ⟨h.2.1, h.2.2⟩)
      unfold ppu_dot at a hdot
      refine ⟨?_, ?_, a.2.1⟩ <;> omega
  · intro hb hp h1 h2
    have hdot : ppu_dot s.ppu = 0 := by
      unfold ppu_dot
      omega
    have hk : ∀ k : Nat, k < 89342 →
        (nes_ppu_tick^[k] s).cpu.s < 0x100 ∧
        (0 ≤ (nes_ppu_tick^[k] s).ppu.cycle ∧ (nes_ppu_tick^[k] s).ppu.cycle ≤ 340) ∧
        (0 ≤ (nes_ppu_tick^[k] s).ppu.scanline ∧ (nes_ppu_tick^[k] s).ppu.scanline ≤ 261) ∧
        (nes_ppu_tick^[k] s).ppu.mask = s.ppu.mask ∧
        ppu_dot (nes_ppu_tick^[k] s).ppu = ppu_dot s.ppu + k ∧
        (nes_ppu_tick^[k] s).ppu.frame = s.ppu.frame := by
      intro k hk
      exact nes_ppu_tick_iterate_norender k s hs (by omega) (by omega) hb hp
        (by rw [hdot]; omega)
    refine ⟨fun k hk1 => ?_, ?_⟩
    · obtain ⟨_, a2, a3, _, a5, a6⟩ := hk k hk1
      rw [hdot] at a5
      unfold ppu_dot at a5
      refine ⟨?_, ?_, a6⟩ <;> omega
    · obtain ⟨a1, a2, a3, a4, a5, a6⟩ := hk 89341 (by omega)
      rw [hdot] at a5
      obtain ⟨_, w, _⟩ := nes_ppu_tick_dot (nes_ppu_tick^[89341] s) a1 a2 a3
      have b := w (Or.inl (by rw [a5]; omega))
      rw [show (89342 : Nat) = 89341 + 1 by rfl, Function.iterate_succ_apply', a6.symm]
      exact ⟨b.2.1, b.1, b.2.2.1⟩

/-- Instance of C24: the machine after power-on of the PPU (rendering
disabled), put at (261, 339) with the odd-frame toggle set, steps to
(261, 340) in the same frame. -/
theorem ppu_frame_length_witness :
    (nes_ppu_clock { nes_power_on with ppu := { nes_power_on.ppu with
      scanline := 261, cycle := 339, frame_end := 1 } }).ppu.scanline = 261 ∧
    (nes_ppu_clock { nes_power_on with ppu := { nes_power_on.ppu with
      scanline := 261, cycle := 339, frame_end := 1 } }).ppu.cycle = 340 :=
  have h := ((ppu_frame_length { nes_power_on with ppu := { nes_power_on.ppu with
      scanline := 261, cycle := 339, frame_end := 1 } } (by decide)).1 rfl rfl).2 (by decide)
  ⟨h.1, h.2.1⟩

/-! ## The NMI delay after the start of vblank -/

/-- While the NMI delay counter is 0 or the NMI flag is clear, PPU ticks that
do not reach (241, 1) enter no NMI sequence: they leave the CPU and the memory
alone, and the condition persists. -/
theorem nes_ppu_tick_iterate_quiet (n : Nat) (x : nes_t) (hs : x.cpu.s < 0x100)
    (hq : x.ppu.nmi_delay = 0 ∨ BITGET x.ppu.flags NES_PPU_FLAG_NMI = 0)
    (hpos : ∀ j, 1 ≤ j → j ≤ n →
      ¬ ((nes_ppu_tick^[j] x).ppu.scanline = 241 ∧ (nes_ppu_tick^[j] x).ppu.cycle = 1)) :
    ∀ j, j ≤ n →
      ((nes_ppu_tick^[j] x).ppu.nmi_delay = 0 ∨
        BITGET (nes_ppu_tick^[j] x).ppu.flags NES_PPU_FLAG_NMI = 0) ∧
      (nes_ppu_tick^[j] x).cpu = x.cpu ∧ (nes_ppu_tick^[j] x).mem = x.mem ∧
      ¬ nes_ppu_clock_nmi_due (nes_ppu_tick^[j] x) := by
  have hnd : ∀ t : nes_t,
      (t.ppu.nmi_delay = 0 ∨ BITGET t.ppu.flags NES_PPU_FLAG_NMI = 0) →
      ¬ nes_ppu_clock_nmi_due t := by
    intro t ht hd
    rcases ht with h | h
    · have := hd.1
      omega
    · exact hd.2.2.2 h
  intro j
  induction j with
  | zero => exact fun _ => ⟨hq, rfl, rfl, hnd x hq⟩
  | succ j ih =>
    intro hj
    obtain ⟨q, c, m, nd⟩ := ih (by omega)
    have hsj : (nes_ppu_tick^[j] x).cpu.s < 0x100 := by rw [c]; exact hs
    obtain ⟨_, _, t3, _, _, t6, t7⟩ := nes_ppu_tick_timing (nes_ppu_tick^[j] x) hsj
    have hp := hpos (j + 1) (by omega) hj
    rw [Function.iterate_succ_apply'] at hp ⊢
    have hq2 : (nes_ppu_tick (nes_ppu_tick^[j] x)).ppu.nmi_delay = 0 ∨
        BITGET (nes_ppu_tick (nes_ppu_tick^[j] x)).ppu.flags NES_PPU_FLAG_NMI = 0 := by
      by_cases h1 : (nes_ppu_tick (nes_ppu_tick^[j] x)).ppu.cycle = 1 ∧
          ((nes_ppu_tick (nes_ppu_tick^[j] x)).ppu.scanline = 241 ∨
            (nes_ppu_tick (nes_ppu_tick^[j] x)).ppu.scanline = 261)
      · rcases h1.2 with h2 | h2
        · exact absurd ⟨h2, h1.1⟩ hp
        · exact Or.inr (t6 h1.1 h2).1
      · obtain ⟨f1, f2, _⟩ := t7 h1
        rcases q with h | h
        · left
          rw [f2, h]
        · right
          rw [f1]
          exact h
    exact ⟨hq2, (t3 nd).1.trans c, (t3 nd).2.trans m, hnd _ hq2⟩

/-- From a dot at or after (241, 1), fewer than 89341 ticks in all do not
reach (241, 1) again; nor do ticks from a dot before (241, 1) that stay before
it. -/
theorem nes_ppu_tick_iterate_not_vblank (n : Nat) (x : nes_t) (hs : x.cpu.s < 0x100)
    (hc : 0 ≤ x.ppu.cycle ∧ x.ppu.cycle ≤ 340) (hl : 0 ≤ x.ppu.scanline ∧ x.ppu.scanline ≤ 261)
    (hd : (82182 ≤ ppu_dot x.ppu ∧ ppu_dot x.ppu + n < 82182 + 89341) ∨
      ppu_dot x.ppu + n < 82182) :
    ∀ j, 1 ≤ j → j ≤ n →
      ¬ ((nes_ppu_tick^[j] x).ppu.scanline = 241 ∧ (nes_ppu_tick^[j] x).ppu.cycle = 1) := by
  induction n generalizing x with
  | zero =>
    intro j h1 h2
    omega
  | succ n ih =>
    intro j h1 h2
    obtain ⟨⟨a1, a2, a3, _, _⟩, w, nw⟩ := nes_ppu_tick_dot x hs hc hl
    have hx : ppu_dot x.ppu ≤ 89341 := by
      unfold ppu_dot
      omega
    -- the position after the first tick
    have hd2 : ((82182 ≤ ppu_dot (nes_ppu_tick x).ppu ∧
          ppu_dot (nes_ppu_tick x).ppu + n < 82182 + 89341) ∨
        ppu_dot (nes_ppu_tick x).ppu + n < 82182) ∧
        ppu_dot (nes_ppu_tick x).ppu ≠ 82182 := by
      by_cases hw : ppu_dot x.ppu = 89341 ∨ (ppu_dot x.ppu = 89340 ∧
          (BITGET x.ppu.mask NES_PPU_MASK_BG ≠ 0 ∨ BITGET x.ppu.mask NES_PPU_MASK_SPR ≠ 0) ∧
          x.ppu.frame_end ≠ 0)
      · obtain ⟨w1, w2, _⟩ := w hw
        have e : ppu_dot (nes_ppu_tick x).ppu = 0 := by
          unfold ppu_dot
          rw [w1, w2]
          rfl
        rw [e]
        have h89 : 89340 ≤ ppu_dot x.ppu := by
          rcases hw with h | h
          · omega
          · omega
        push_cast at hd
        constructor
        · right
          omega
        · omega
      · obtain ⟨e, _⟩ := nw hw
        rw [e]
        push_cast at hd
        constructor
        · rcases hd with h | h
          · left
            omega
          · right
            omega
        · omega
    obtain ⟨i, rfl⟩ : ∃ i, j = i + 1 := ⟨j - 1, by omega⟩
    rw [Function.iterate_succ_apply]
    by_cases hi : i = 0
    · subst hi
      intro hp
      apply hd2.2
      unfold ppu_dot
      have hp1 : (nes_ppu_tick x).ppu.scanline = 241 := hp.1
      have hp2 : (nes_ppu_tick x).ppu.cycle = 1 := hp.2
      rw [hp1, hp2]
      rfl
    · exact ih (nes_ppu_tick x) a1 a2 a3 hd2.1 i (by omega) (by omega)

/-- A read of $2002 clears the NMI flag and leaves the CPU, the memory and the
PPU position alone. -/
theorem nes_mem_readb_2002_timing (t : nes_t) :
    (nes_mem_readb t 0x2002).2.cpu = t.cpu ∧ (nes_mem_readb t 0x2002).2.mem = t.mem ∧
    (nes_mem_readb t 0x2002).2.ppu.cycle = t.ppu.cycle ∧
    (nes_mem_readb t 0x2002).2.ppu.scanline = t.ppu.scanline ∧
    BITGET (nes_mem_readb t 0x2002).2.ppu.flags NES_PPU_FLAG_NMI = 0 := by
  have hu : ∀ u : nes_t, (nes_ppu_nmi_update u).ppu.cycle = u.ppu.cycle ∧
      (nes_ppu_nmi_update u).ppu.scanline = u.ppu.scanline := by
    intro u
    unfold nes_ppu_nmi_update
    dsimp only
    split_ifs <;> exact ⟨rfl, rfl⟩
  have hp : (nes_ppu_read t 2).2.ppu.cycle = t.ppu.cycle ∧
      (nes_ppu_read t 2).2.ppu.scanline = t.ppu.scanline := by
    unfold nes_ppu_read
    dsimp only
    exact hu _
  refine ⟨nes_mem_readb_cpu t _, nes_mem_readb_mem t _, ?_, ?_, ?_⟩
  · rw [nes_mem_readb_2002]
    exact hp.1
  · rw [nes_mem_readb_2002]
    exact hp.2
  · rw [nes_mem_readb_2002, nes_ppu_read_2_flags]
    exact (ppu_flags_after_read _).2

/-- A dot index right of (241, 1) on line 241 determines the position. -/
theorem ppu_dot_line_241 (sl cy c : Int) (h : sl * 341 + cy = 241 * 341 + c + 1)
    (h1 : 0 ≤ cy ∧ cy ≤ 340) (hc : 1 ≤ c ∧ c ≤ 339) : sl = 241 ∧ cy = c + 1 := by
  omega

/-- One tick on line 241 with the NMI delay counter at 2 or more: the counter
is decremented, the cycle incremented, and the CPU, the memory, the cartridge,
PPUCTRL and the state flags are left alone. -/
theorem nes_ppu_tick_delay_step (t : nes_t) (hs : t.cpu.s < 0x100) (hl : t.ppu.scanline = 241)
    (hc : 1 ≤ t.ppu.cycle ∧ t.ppu.cycle ≤ 339) (hd : 2 ≤ t.ppu.nmi_delay) :
    (nes_ppu_tick t).cpu = t.cpu ∧ (nes_ppu_tick t).mem = t.mem ∧
    (nes_ppu_tick t).cart = t.cart ∧
    (nes_ppu_tick t).ppu.nmi_delay = t.ppu.nmi_delay - 1 ∧
    (nes_ppu_tick t).ppu.ctrl = t.ppu.ctrl ∧
    (nes_ppu_tick t).ppu.flags = t.ppu.flags ∧
    (nes_ppu_tick t).ppu.scanline = 241 ∧
    (nes_ppu_tick t).ppu.cycle = t.ppu.cycle + 1 := by
  obtain ⟨⟨_, _, _, _, _, t6⟩, ⟨_, _, u3, _, _⟩, t3, _, _, _, t7⟩ := nes_ppu_tick_timing t hs
  obtain ⟨⟨_, a2, a3, _, _⟩, _, nw⟩ := nes_ppu_tick_dot t hs (by omega) (by omega)
  have hdot : ppu_dot t.ppu = 241 * 341 + t.ppu.cycle := by
    unfold ppu_dot
    rw [hl]
  have hnd : ¬ nes_ppu_clock_nmi_due t := by
    intro h
    have h2 : t.ppu.nmi_delay - 1 = 0 := h.2.1
    omega
  have hnw : ¬ (ppu_dot t.ppu = 89341 ∨ (ppu_dot t.ppu = 89340 ∧
      (BITGET t.ppu.mask NES_PPU_MASK_BG ≠ 0 ∨ BITGET t.ppu.mask NES_PPU_MASK_SPR ≠ 0) ∧
      t.ppu.frame_end ≠ 0)) := by
    rw [hdot]
    rintro (h | h)
    · omega
    · have h2 := h.1
      omega
  obtain ⟨b1, _, _⟩ := nw hnw
  rw [hdot] at b1
  have hp := ppu_dot_line_241 _ _ _ b1 a2 hc
  have hn1 : ¬ ((nes_ppu_tick t).ppu.cycle = 1 ∧
      ((nes_ppu_tick t).ppu.scanline = 241 ∨ (nes_ppu_tick t).ppu.scanline = 261)) := by
    intro h
    have h2 := h.1
    have h3 := hp.2
    omega
  obtain ⟨f1, f2, _⟩ := t7 hn1
  exact ⟨(t3 hnd).1, (t3 hnd).2, u3, f2, t6, f1, hp.1, hp.2⟩

/-- The 14 ticks after the start of vblank with an NMI scheduled: the delay
counter goes from 15 down to 1, the PPU stays on line 241, and the CPU, the
memory, the cartridge, PPUCTRL and the state flags are left alone. -/
theorem nes_ppu_tick_iterate_delay (k : Nat) (hk : k ≤ 14) (x : nes_t) (hs : x.cpu.s < 0x100)
    (hl : x.ppu.scanline = 241) (hc : x.ppu.cycle = 1) (hd : x.ppu.nmi_delay = 15) :
    (nes_ppu_tick^[k] x).cpu = x.cpu ∧ (nes_ppu_tick^[k] x).mem = x.mem ∧
    (nes_ppu_tick^[k] x).cart = x.cart ∧
    (nes_ppu_tick^[k] x).ppu.nmi_delay = 15 - k ∧
    (nes_ppu_tick^[k] x).ppu.ctrl = x.ppu.ctrl ∧
    (nes_ppu_tick^[k] x).ppu.flags = x.ppu.flags ∧
    (nes_ppu_tick^[k] x).ppu.scanline = 241 ∧
    (nes_ppu_tick^[k] x).ppu.cycle = 1 + (k : Int) := by
  induction k with
  | zero => exact ⟨rfl, rfl, rfl, hd, rfl, rfl, hl, hc⟩
  | succ k ih =>
    obtain ⟨i1, i2, i3, i4, i5, i6, i7, i8⟩ := ih (by omega)
    rw [Function.iterate_succ_apply']
    generalize nes_ppu_tick^[k] x = t at *
    obtain ⟨s1, s2, s3, s4, s5, s6, s7, s8⟩ := nes_ppu_tick_delay_step t (by rw [i1]; exact hs)
      i7 (by rw [i8]; omega) (by rw [i4]; omega)
    refine ⟨s1.trans i1, s2.trans i2, s3.trans i3, ?_, s5.trans i5, s6.trans i6, s7, ?_⟩
    · rw [s4, i4]
      omega
    · rw [s8, i8]
      push_cast
      omega

/-- The NMI line stays low over PPU ticks that do not reach (241, 1): it is
low after power-on and after every pre-render line. -/
theorem nes_ppu_tick_iterate_line_low (n : Nat) (x : nes_t) (hs : x.cpu.s < 0x100)
    (hp : x.ppu.nmi_prev = 0)
    (hpos : ∀ j, 1 ≤ j → j ≤ n →
      ¬ ((nes_ppu_tick^[j] x).ppu.scanline = 241 ∧ (nes_ppu_tick^[j] x).ppu.cycle = 1)) :
    ∀ j, j ≤ n → (nes_ppu_tick^[j] x).ppu.nmi_prev = 0 ∧ (nes_ppu_tick^[j] x).cpu.s < 0x100 := by
  intro j
  induction j with
  | zero => exact fun _ => ⟨hp, hs⟩
  | succ j ih =>
    intro hj
    obtain ⟨i1, i2⟩ := ih (by omega)
    have hq := hpos (j + 1) (by omega) hj
    rw [Function.iterate_succ_apply'] at hq ⊢
    generalize nes_ppu_tick^[j] x = t at *
    obtain ⟨_, ⟨u1, _⟩, _, _, _, t6, t7⟩ := nes_ppu_tick_timing t i2
    refine ⟨?_, u1⟩
    by_cases h1 : (nes_ppu_tick t).ppu.cycle = 1 ∧
        ((nes_ppu_tick t).ppu.scanline = 241 ∨ (nes_ppu_tick t).ppu.scanline = 261)
    · rcases h1.2 with h2 | h2
      · exact absurd ⟨h2, h1.1⟩ hq
      · exact (t6 h1.1 h2).2.2
    · rw [(t7 h1).2.2]
      exact i1

/-- The NMI entry depends on the CPU registers, the memory and the cartridge
only. -/
theorem nes_cpu_nmi_congr (a b : nes_t) (hs : b.cpu.s < 0x100) (hc : a.cpu = b.cpu)
    (hm : a.mem = b.mem) (hk : a.cart = b.cart) :
    (nes_cpu_nmi a).cpu = (nes_cpu_nmi b).cpu ∧ (nes_cpu_nmi a).mem = (nes_cpu_nmi b).mem := by
  have r1 := nes_mem_readb_high_congr b a 0xFFFB (by omega) (by rw [hm]) (by rw [hm]) hk
  have r2 := nes_mem_readb_high_congr b a 0xFFFA (by omega) (by rw [hm]) (by rw [hm]) hk
  rw [nes_cpu_nmi_state a (by rw [hc]; exact hs), nes_cpu_nmi_state b hs]
  dsimp only
  rw [r1, r2, hc, hm]
  exact ⟨rfl, rfl⟩

/-- C25. If PPUCTRL bit 7 (NMI enable) is set, the NMI line was low at its
last update (`nmi_prev` = 0, as it is after power-on and after every
pre-render line, see `nes_ppu_tick_iterate_line_low`) and the stack pointer is
a byte, then with no register access in between, after the PPU tick that reaches (scanline 241,
cycle 1), whose result is `S`: none of the next 14 ticks enters the CPU NMI
sequence (`nes_ppu_clock_nmi_due` is the guard of the call in
`nes_ppu_clock`), they leave the CPU and the memory as they are; the 15th tick
enters it; the ticks after that enter none before (241, 1) is reached again,
which takes more than 89325 further ticks; and if $2002 is read after `k` of
the first 14 ticks (`k` from 0 to 14), no later tick enters the NMI sequence
before the next (241, 1). -/
theorem nmi_after_vblank (s0 S : nes_t) (hS : S = nes_ppu_tick s0) (hs : s0.cpu.s < 0x100)
    (hctrl : BITGET s0.ppu.ctrl NES_PPU_CTRL_NMI ≠ 0) (hprev : s0.ppu.nmi_prev = 0)
    (hl : S.ppu.scanline = 241) (hc : S.ppu.cycle = 1) :
    (∀ k, k < 14 → ¬ nes_ppu_clock_nmi_due (nes_ppu_tick^[k] S)) ∧
    (∀ k, k ≤ 14 → (nes_ppu_tick^[k] S).cpu = S.cpu ∧ (nes_ppu_tick^[k] S).mem = S.mem) ∧
    nes_ppu_clock_nmi_due (nes_ppu_tick^[14] S) ∧
    nes_ppu_clock_nmi (nes_ppu_tick^[14] S) =
      nes_cpu_nmi { nes_ppu_tick^[14] S with
        ppu := { (nes_ppu_tick^[14] S).ppu with nmi_delay := 0 } } ∧
    ((nes_ppu_tick^[15] S).cpu = (nes_cpu_nmi S).cpu ∧
      (nes_ppu_tick^[15] S).mem = (nes_cpu_nmi S).mem) ∧
    (∀ j, j ≤ 89325 →
      ¬ nes_ppu_clock_nmi_due (nes_ppu_tick^[j] (nes_ppu_tick^[15] S)) ∧
      (nes_ppu_tick^[j] (nes_ppu_tick^[15] S)).cpu = (nes_cpu_nmi S).cpu ∧
      (nes_ppu_tick^[j] (nes_ppu_tick^[15] S)).mem = (nes_cpu_nmi S).mem) ∧
    (∀ n, (∀ j, 1 ≤ j → j ≤ n →
        ¬ ((nes_ppu_tick^[j] (nes_ppu_tick^[15] S)).ppu.scanline = 241 ∧
          (nes_ppu_tick^[j] (nes_ppu_tick^[15] S)).ppu.cycle = 1)) →
      ∀ j, j ≤ n → ¬ nes_ppu_clock_nmi_due (nes_ppu_tick^[j] (nes_ppu_tick^[15] S))) ∧
    (∀ k j, k ≤ 14 → k + j ≤ 89340 →
      ¬ nes_ppu_clock_nmi_due
        (nes_ppu_tick^[j] (nes_mem_readb (nes_ppu_tick^[k] S) 0x2002).2) ∧
      (nes_ppu_tick^[j] (nes_mem_readb (nes_ppu_tick^[k] S) 0x2002).2).cpu = S.cpu ∧
      (nes_ppu_tick^[j] (nes_mem_readb (nes_ppu_tick^[k] S) 0x2002).2).mem = S.mem) := by
  -- the state at the start of vblank
  obtain ⟨⟨_, _, _, _, _, p6⟩, ⟨q1, _⟩, _, _, p5, _, _⟩ := nes_ppu_tick_timing s0 hs
  rw [← hS] at p6 q1 p5
  obtain ⟨f1, f2, _⟩ := p5 hc hl
  rw [if_pos ⟨hctrl, hprev⟩] at f2
  have hctrlS : BITGET S.ppu.ctrl NES_PPU_CTRL_NMI ≠ 0 := by rw [p6]; exact hctrl
  -- the first 14 ticks
  have hA := fun k hk => nes_ppu_tick_iterate_delay k hk S q1 hl hc f2
  obtain ⟨a1, a2, a3, a4, a5, a6, a7, a8⟩ := hA 14 (by omega)
  have hdue : nes_ppu_clock_nmi_due (nes_ppu_tick^[14] S) := by
    refine ⟨by rw [a4]; decide, by rw [a4], by rw [a5]; exact hctrlS, by rw [a6]; exact f1⟩
  have hs14 : (nes_ppu_tick^[14] S).cpu.s < 0x100 := by rw [a1]; exact q1
  -- the 15th tick
  have e15 : nes_ppu_tick^[15] S = nes_ppu_tick (nes_ppu_tick^[14] S) :=
    Function.iterate_succ_apply' _ _ _
  obtain ⟨_, ⟨u1, _⟩, _, t4, _, _, t7⟩ := nes_ppu_tick_timing (nes_ppu_tick^[14] S) hs14
  obtain ⟨⟨_, b2, b3, _, _⟩, _, nw⟩ := nes_ppu_tick_dot (nes_ppu_tick^[14] S) hs14
    (by rw [a8]; omega) (by rw [a7]; omega)
  rw [← e15] at u1 t4 t7 b2 b3 nw
  have hdot14 : ppu_dot (nes_ppu_tick^[14] S).ppu = 82196 := by
    unfold ppu_dot
    rw [a7, a8]
    rfl
  obtain ⟨c1, _, _⟩ := nw (by
    rw [hdot14]
    rintro (h | h)
    · omega
    · have h2 := h.1
      omega)
  rw [hdot14] at c1
  have hn15 : ¬ ((nes_ppu_tick^[15] S).ppu.cycle = 1 ∧
      ((nes_ppu_tick^[15] S).ppu.scanline = 241 ∨ (nes_ppu_tick^[15] S).ppu.scanline = 261)) := by
    intro h
    unfold ppu_dot at c1
    rcases h.2 with h2 | h2
    · have h1 := h.1
      omega
    · have h1 := h.1
      omega
  obtain ⟨_, g2, _⟩ := t7 hn15
  have hd15 : (nes_ppu_tick^[15] S).ppu.nmi_delay = 0 := by rw [g2, a4]
  have hcg := nes_cpu_nmi_congr (nes_ppu_tick^[14] S) S q1 a1 a2 a3
  have h15 : (nes_ppu_tick^[15] S).cpu = (nes_cpu_nmi S).cpu ∧
      (nes_ppu_tick^[15] S).mem = (nes_cpu_nmi S).mem :=
    ⟨(t4 hdue).1.trans hcg.1, (t4 hdue).2.trans hcg.2⟩
  -- after the 15th tick
  have hB := nes_ppu_tick_iterate_quiet
  have hpB := nes_ppu_tick_iterate_not_vblank 89325 (nes_ppu_tick^[15] S) u1 b2 b3
    (Or.inl ⟨by rw [c1]; decide, by rw [c1]; decide⟩)
  refine ⟨?_, fun k hk => ⟨(hA k hk).1, (hA k hk).2.1⟩, hdue,
    (nes_ppu_clock_nmi_cases _).1 hdue, h15, ?_, ?_, ?_⟩
  · intro k hk hd
    have h2 : (nes_ppu_tick^[k] S).ppu.nmi_delay - 1 = 0 := hd.2.1
    rw [(hA k (by omega)).2.2.2.1] at h2
    omega
  · intro j hj
    obtain ⟨_, r2, r3, r4⟩ := hB 89325 (nes_ppu_tick^[15] S) u1 (Or.inl hd15) hpB j hj
    exact ⟨r4, r2.trans h15.1, r3.trans h15.2⟩
  · intro n hn j hj
    exact (hB n (nes_ppu_tick^[15] S) u1 (Or.inl hd15) hn j hj).2.2.2
  · intro k j hk hkj
    obtain ⟨k1, k2, _, _, _, _, k7, k8⟩ := hA k hk
    obtain ⟨x1, x2, x3, x4, x5⟩ := nes_mem_readb_2002_timing (nes_ppu_tick^[k] S)
    have hsx : (nes_mem_readb (nes_ppu_tick^[k] S) 0x2002).2.cpu.s < 0x100 := by
      rw [x1, k1]
      exact q1
    have hdx : ppu_dot (nes_mem_readb (nes_ppu_tick^[k] S) 0x2002).2.ppu = 82182 + (k : Int) := by
      unfold ppu_dot
      rw [x3, x4, k7, k8]
      omega
    have hpX := nes_ppu_tick_iterate_not_vblank j (nes_mem_readb (nes_ppu_tick^[k] S) 0x2002).2
      hsx (by rw [x3, k8]; omega) (by rw [x4, k7]; omega)
      (Or.inl ⟨by rw [hdx]; omega, by rw [hdx]; omega⟩)
    obtain ⟨_, r2, r3, r4⟩ := hB j (nes_mem_readb (nes_ppu_tick^[k] S) 0x2002).2 hsx
      (Or.inr x5) hpX j (le_refl j)
    exact ⟨r4, r2.trans (x1.trans k1), r3.trans (x2.trans k2)⟩

/-- Instance of C25: from (241, 0) with NMI enabled, the tick applied after 14
ticks past (241, 1) enters the NMI sequence, which leaves S = $FA. -/
theorem nmi_after_vblank_witness :
    nes_ppu_clock_nmi_due (nes_ppu_tick^[14] (nes_ppu_tick nes_vblank_example)) ∧
    (nes_ppu_tick^[15] (nes_ppu_tick nes_vblank_example)).cpu =
      (nes_cpu_nmi (nes_ppu_tick nes_vblank_example)).cpu :=
  have h := nmi_after_vblank nes_vblank_example _ rfl (by decide) (by decide) rfl
    (by decide) (by decide)
  ⟨h.2.2.1, h.2.2.2.2.1.1⟩

/-! ## The main emulator tick -/

/-- The loop of `nes_process` runs the rounds `i`, `i + 1`, ... in order. -/
theorem nes_process_loop_rounds (frame_due sample_due : Nat → Bool) (buf_null : Bool)
    (out : Nat → Nat) (n i : Nat) (t : nes_t) :
    nes_process_loop frame_due sample_due buf_null out n i t =
      (List.range' i n).foldl
        (fun t i => nes_cycle_round frame_due sample_due buf_null out i t) t := by
  induction n generalizing i t with
  | zero => rfl
  | succ n ih =>
    rw [List.range'_succ, List.foldl_cons, ← ih]
    rfl

/-- C26, as stated, fails.  On a machine with one stall cycle pending, the
frame IRQ due at this APU tick and the NMI delay at its last PPU tick,
`nes_process` (N = 1) runs the APU tick before the three PPU ticks: the IRQ
and then the NMI sequence are entered and S goes from $FD to $F7, where the
order of the claim enters only the NMI (S = $FA); and `nes_process` ends by
clearing the RENDER flag, where the claim keeps it. -/
theorem nes_process_counterexample :
    (nes_cpu_op nes_process_example).1 = 1 ∧
    (nes_process (fun _ => true) (fun _ => false) true (fun _ => 0)
      nes_process_example).2.cpu.s = 0xF7 ∧
    (nes_process_ppu_first (fun _ => true) (fun _ => false) true (fun _ => 0)
      nes_process_example).cpu.s = 0xFA ∧
    (nes_process (fun _ => true) (fun _ => false) true (fun _ => 0)
      nes_process_example).2.ppu.flags = 0x08 ∧
    (nes_process_ppu_first (fun _ => true) (fun _ => false) true (fun _ => 0)
      nes_process_example).ppu.flags = 0x0C := by
  refine ⟨by decide, by decide, by decide, by decide, by decide⟩

/-- C26, amended. One call of `nes_process` runs `nes_cpu_op` once, obtaining
N cycles (N = 1, with the stall counter decremented, the page-cross mark
cleared and no register or cycle-counter change, when stall > 0); its
resulting state is that of then running N rounds, each of one APU tick
followed by three (PPU tick, mapper tick) pairs, and of then clearing the
RENDER flag of the PPU, whose previous value is returned. -/
theorem nes_process_rounds (frame_due sample_due : Nat → Bool) (buf_null : Bool)
    (out : Nat → Nat) (s : nes_t) :
    nes_process frame_due sample_due buf_null out s =
      nes_take_render_flag
        (nes_cycle_rounds frame_due sample_due buf_null out (nes_cpu_op s).1 (nes_cpu_op s).2) ∧
    (s.cpu.stall ≠ 0 →
      (nes_cpu_op s).1 = 1 ∧
      (nes_cpu_op s).2 =
        { s with cpu := { s.cpu with pages_crossed := 0, stall := s.cpu.stall - 1 } }) ∧
    (∀ (i : Nat) (t : nes_t), nes_cycle_round frame_due sample_due buf_null out i t =
      nes_mapper_tick (nes_ppu_tick (nes_mapper_tick (nes_ppu_tick (nes_mapper_tick
        (nes_ppu_tick (nes_apu_tick (frame_due i) (sample_due i) buf_null (out i) t))))))) ∧
    (∀ (n : Nat) (t : nes_t), nes_cycle_rounds frame_due sample_due buf_null out (n + 1) t =
      nes_cycle_round frame_due sample_due buf_null out n
        (nes_cycle_rounds frame_due sample_due buf_null out n t)) := by
  refine ⟨?_, ?_, fun _ _ => rfl, ?_⟩
  · unfold nes_process nes_take_render_flag nes_cycle_rounds
    dsimp only
    rw [nes_process_loop_rounds, List.range_eq_range']
  · intro h
    unfold nes_cpu_op
    dsimp only
    rw [if_pos h]
    exact ⟨rfl, rfl⟩
  · intro n t
    unfold nes_cycle_rounds
    rw [List.range_succ, List.foldl_append]
    rfl


/-! ## ARR -/

/-- ARR never touches the V flag, leaves C set exactly when
`(res & 0x40) ^ (res & 0x20)` is not zero, and stores the result in A. -/
theorem nes_op_arr_flags (s : nes_t) (v : Nat) :
    (nes_op_arr s v).cpu.a =
      (if BITMGET s.cpu.p FLAG_MASK_C ≠ 0 then ((s.cpu.a &&& v) >>> 1) % 0x100 ||| 0x80
        else ((s.cpu.a &&& v) >>> 1) % 0x100) ∧
    (nes_op_arr s v).cpu.p &&& FLAG_MASK_V = s.cpu.p &&& FLAG_MASK_V ∧
    (nes_op_arr s v).cpu.p &&& FLAG_MASK_C =
      (if ((nes_op_arr s v).cpu.a &&& 0x40) ^^^ ((nes_op_arr s v).cpu.a &&& 0x20) ≠ 0
        then FLAG_MASK_C else 0) := by
  refine ⟨rfl, ?_, ?_⟩
  · show (BITMCHG (BITMCHG (BITMCHG (BITMCHG s.cpu.p FLAG_MASK_C _ % 0x100) FLAG_MASK_C _ % 0x100)
      FLAG_MASK_N _ % 0x100) FLAG_MASK_Z _ % 0x100) &&& FLAG_MASK_V = _
    rw [bitmchg_and_other _ FLAG_MASK_Z _ FLAG_MASK_V (by decide) (by decide) (by decide),
      bitmchg_and_other _ FLAG_MASK_N _ FLAG_MASK_V (by decide) (by decide) (by decide),
      bitmchg_and_other _ FLAG_MASK_C _ FLAG_MASK_V (by decide) (by decide) (by decide),
      bitmchg_and_other _ FLAG_MASK_C _ FLAG_MASK_V (by decide) (by decide) (by decide)]
  · show (BITMCHG (BITMCHG (BITMCHG (BITMCHG s.cpu.p FLAG_MASK_C _ % 0x100) FLAG_MASK_C _ % 0x100)
      FLAG_MASK_N _ % 0x100) FLAG_MASK_Z _ % 0x100) &&& FLAG_MASK_C = _
    rw [bitmchg_and_other _ FLAG_MASK_Z _ FLAG_MASK_C (by decide) (by decide) (by decide),
      bitmchg_and_other _ FLAG_MASK_N _ FLAG_MASK_C (by decide) (by decide) (by decide),
      bitmchg_and_self _ FLAG_MASK_C _ (by decide) (by decide)]
    rfl

/-- C36. ARR #$40 with A = $FF and C, V clear leaves A = $20, whose bit 6 is 0
and whose bit 5 is 1: the instruction leaves P = $21, C set and V clear, where
C should be bit 6 (clear) and V bit 6 XOR bit 5 (set).  ARR #$C0 with A = $FF
and P = $60 leaves A = $60 (bits 6 and 5 both set) and P = $61: V stays set
where bit 6 XOR bit 5 is 0.  Both run as whole instructions through
`nes_cpu_op`. -/
theorem arr_flags_both_to_carry :
    (nes_op_arr nes_arr_example 0x40).cpu.a = 0x20 ∧
    (nes_op_arr nes_arr_example 0x40).cpu.p = 0x21 ∧
    (nes_cpu_op nes_arr_example).2.cpu.a = 0x20 ∧
    (nes_cpu_op nes_arr_example).2.cpu.p = 0x21 ∧
    (nes_op_arr nes_arr_v_example 0xC0).cpu.a = 0x60 ∧
    (nes_op_arr nes_arr_v_example 0xC0).cpu.p = 0x61 ∧
    (nes_cpu_op nes_arr_v_example).2.cpu.a = 0x60 ∧
    (nes_cpu_op nes_arr_v_example).2.cpu.p = 0x61 := by
  refine ⟨?_, ?_, ?_, ?_, ?_, ?_, ?_, ?_⟩ <;> decide

/-! ## SBC as ADC of the complement -/

theorem bitmchg_congr (p m v w : Nat) (h : v ≠ 0 ↔ w ≠ 0) : BITMCHG p m v = BITMCHG p m w := by
  unfold BITMCHG
  by_cases hv : v ≠ 0
  · rw [if_pos hv, if_pos (h.mp hv)]
  · rw [if_neg hv, if_neg (fun hw => hv (h.mpr hw))]

/-- The complement of a byte. -/
theorem xor_0xFF_eq : ∀ v : Nat, v < 0x100 → v ^^^ 0xFF = 0xFF - v := by
  decide

/-- The flags after SBC, as four flag changes of the flags before. -/
theorem nes_op_sbc_p (s : nes_t) (v : Nat) :
    (nes_op_sbc s v).cpu.p =
      BITMCHG (BITMCHG (BITMCHG (BITMCHG s.cpu.p FLAG_MASK_C
        (c_bool (decide ((Int.toNat (((s.cpu.a : Int) - (v : Int) -
          (if s.cpu.p &&& FLAG_MASK_C ≠ 0 then 0 else 1)) % 0x10000)) &&& 0x100 = 0)))
          % 0x100) FLAG_MASK_V
        (c_bool (decide ((s.cpu.a ^^^ v) &&& 0x80 ≠ 0 ∧
          (s.cpu.a ^^^ (Int.toNat (((s.cpu.a : Int) - (v : Int) -
            (if s.cpu.p &&& FLAG_MASK_C ≠ 0 then 0 else 1)) % 0x10000))) &&& 0x80 ≠ 0)))
          % 0x100) FLAG_MASK_N
        ((((Int.toNat (((s.cpu.a : Int) - (v : Int) -
          (if s.cpu.p &&& FLAG_MASK_C ≠ 0 then 0 else 1)) % 0x10000)) &&& 0xFF) % 0x100)
          &&& 0x80) % 0x100) FLAG_MASK_Z
        (c_bool (decide ((((Int.toNat (((s.cpu.a : Int) - (v : Int) -
          (if s.cpu.p &&& FLAG_MASK_C ≠ 0 then 0 else 1)) % 0x10000)) &&& 0xFF) % 0x100) = 0)))
          % 0x100 := rfl

theorem nes_op_sbc_a (s : nes_t) (v : Nat) :
    (nes_op_sbc s v).cpu.a =
      (Int.toNat (((s.cpu.a : Int) - (v : Int) -
        (if s.cpu.p &&& FLAG_MASK_C ≠ 0 then 0 else 1)) % 0x10000)) % 0x100 := rfl

/-- SBC and ADC change nothing but A and P. -/
theorem nes_op_adc_sbc_rest (s : nes_t) (v w : Nat) :
    nes_op_sbc s v =
      { s with cpu := { s.cpu with a := (nes_op_sbc s v).cpu.a, p := (nes_op_sbc s v).cpu.p } } ∧
    nes_op_adc s w =
      { s with cpu := { s.cpu with a := (nes_op_adc s w).cpu.a, p := (nes_op_adc s w).cpu.p } } :=
  ⟨rfl, rfl⟩

/-- C37. SBC as ADC of the complement.  For every machine state and every
operand v in 0..255, SBC with operand v leaves the same A and the same flags
register P as ADC with operand v XOR $FF, and the same machine state
altogether. -/
theorem sbc_is_adc_complement (s : nes_t) (v : Nat) (hv : v < 0x100) :
    (nes_op_sbc s v).cpu.a = (nes_op_adc s (v ^^^ 0xFF)).cpu.a ∧
    (nes_op_sbc s v).cpu.p = (nes_op_adc s (v ^^^ 0xFF)).cpu.p ∧
    nes_op_sbc s v = nes_op_adc s (v ^^^ 0xFF) := by
  have hx := xor_0xFF_eq v hv
  have hff : ∀ x : Nat, x &&& 0xFF = x % 0x100 := by
    intro x
    rw [show (0xFF : Nat) = 2 ^ 8 - 1 by norm_num, Nat.and_pow_two_sub_one_eq_mod]
  have key : ∀ (R R' : Nat),
      R = Int.toNat (((s.cpu.a : Int) - (v : Int) -
        (if s.cpu.p &&& FLAG_MASK_C ≠ 0 then 0 else 1)) % 0x10000) →
      R' = (s.cpu.a + (v ^^^ 0xFF) + (if s.cpu.p &&& FLAG_MASK_C ≠ 0 then 1 else 0)) % 0x10000 →
      R' = (R + 256) % 0x10000 := by
    intro R R' hR hR'
    rw [hx] at hR'
    split_ifs at hR hR' <;> omega
  have hk := key _ _ rfl rfl
  have hap : (nes_op_sbc s v).cpu.a = (nes_op_adc s (v ^^^ 0xFF)).cpu.a ∧
      (nes_op_sbc s v).cpu.p = (nes_op_adc s (v ^^^ 0xFF)).cpu.p := by
    rw [nes_op_sbc_a, nes_op_adc_a, nes_op_sbc_p, nes_op_adc_p, hk, hff, hff]
    generalize Int.toNat (((s.cpu.a : Int) - (v : Int) -
      (if s.cpu.p &&& FLAG_MASK_C ≠ 0 then 0 else 1)) % 0x10000) = R
    have e1 : (R + 256) % 0x10000 % 0x100 = R % 0x100 := by omega
    have eC := bitmchg_congr s.cpu.p FLAG_MASK_C (c_bool (decide (R &&& 0x100 = 0)))
      (((R + 256) % 0x10000) &&& 0x100)
      (by
        rw [c_bool_ne_zero, and_0x100_eq, and_0x100_eq]
        omega)
    have eV := bitmchg_congr
      (BITMCHG s.cpu.p FLAG_MASK_C (((R + 256) % 0x10000) &&& 0x100) % 0x100) FLAG_MASK_V
      (c_bool (decide ((s.cpu.a ^^^ v) &&& 0x80 ≠ 0 ∧ (s.cpu.a ^^^ R) &&& 0x80 ≠ 0)))
      (c_bool (decide ((s.cpu.a ^^^ (v ^^^ 0xFF)) &&& 0x80 = 0 ∧
        (s.cpu.a ^^^ ((R + 256) % 0x10000)) &&& 0x80 ≠ 0)))
      (by
        rw [c_bool_ne_zero, c_bool_ne_zero, xor_and_0x80, xor_and_0x80, xor_and_0x80,
          xor_and_0x80, hx]
        omega)
    rw [e1, eC, eV]
    exact ⟨rfl, rfl⟩
  refine ⟨hap.1, hap.2, ?_⟩
  rw [(nes_op_adc_sbc_rest s v (v ^^^ 0xFF)).1, (nes_op_adc_sbc_rest s v (v ^^^ 0xFF)).2,
    hap.1, hap.2]

/-- Instance of C37: with A = $50 and the carry clear, SBC #$30 and ADC #$CF
both leave A = $1F. -/
theorem sbc_is_adc_complement_witness :
    (nes_op_sbc nes_adc_example 0x30).cpu.a = 0x1F ∧
    (nes_op_adc nes_adc_example 0xCF).cpu.a = 0x1F ∧
    (nes_op_sbc nes_adc_example 0x30).cpu.p = (nes_op_adc nes_adc_example 0xCF).cpu.p :=
  ⟨by decide, by decide, (sbc_is_adc_complement nes_adc_example 0x30 (by decide)).2.1⟩


/-! ## APU channel levels -/

theorem nes_apu_sqr_write_levels (q : nes_apu_sqr_t) (a v : Nat) (h : nes_apu_sqr_levels q) :
    nes_apu_sqr_levels (nes_apu_sqr_write q a v) := by
  obtain ⟨h1, h2⟩ := h
  unfold nes_apu_sqr_levels nes_apu_sqr_write
  split
  · exact ⟨h1, Nat.and_le_right⟩
  · exact ⟨h1, h2⟩
  · exact ⟨h1, h2⟩
  · exact ⟨h1, h2⟩
  · exact ⟨h1, h2⟩

theorem nes_apu_sqr_step_tmr_levels (q : nes_apu_sqr_t) (h : nes_apu_sqr_levels q) :
    nes_apu_sqr_levels (nes_apu_sqr_step_tmr q) := by
  obtain ⟨h1, h2⟩ := h
  unfold nes_apu_sqr_levels nes_apu_sqr_step_tmr
  split_ifs <;> exact ⟨h1, h2⟩

theorem nes_apu_sqr_step_len_levels (q : nes_apu_sqr_t) (h : nes_apu_sqr_levels q) :
    nes_apu_sqr_levels (nes_apu_sqr_step_len q) := by
  obtain ⟨h1, h2⟩ := h
  unfold nes_apu_sqr_levels nes_apu_sqr_step_len
  split_ifs <;> exact ⟨h1, h2⟩

theorem nes_apu_sqr_step_sweep_levels (q : nes_apu_sqr_t) (h : nes_apu_sqr_levels q) :
    nes_apu_sqr_levels (nes_apu_sqr_step_sweep q) := by
  obtain ⟨h1, h2⟩ := h
  have hs : (nes_apu_sqr_sweep q).env_vol ≤ 15 ∧ (nes_apu_sqr_sweep q).const_vol ≤ 15 := by
    unfold nes_apu_sqr_sweep
    dsimp only
    split_ifs <;> exact ⟨h1, h2⟩
  unfold nes_apu_sqr_levels nes_apu_sqr_step_sweep
  dsimp only
  split_ifs
  · exact hs
  · exact ⟨h1, h2⟩
  · exact ⟨h1, h2⟩
  · exact hs
  · exact ⟨h1, h2⟩

theorem nes_apu_sqr_step_env_levels (q : nes_apu_sqr_t) (h : nes_apu_sqr_levels q) :
    nes_apu_sqr_levels (nes_apu_sqr_step_env q) := by
  obtain ⟨h1, h2⟩ := h
  unfold nes_apu_sqr_levels nes_apu_sqr_step_env
  dsimp only
  split_ifs
  · exact ⟨Nat.le_refl 15, h2⟩
  · exact ⟨h1, h2⟩
  · exact ⟨show q.env_vol - 1 ≤ 15 by omega, h2⟩
  · exact ⟨Nat.le_refl 15, h2⟩
  · exact ⟨h1, h2⟩

/-- The envelope-enable flag and the volumes after a noise control write. -/
theorem nes_apu_noi_write_ctrl_levels (n : nes_apu_noi_t) (v : Nat) :
    nes_apu_noi_levels (nes_apu_noi_write_ctrl n v) := by
  refine ⟨Nat.and_le_right, ?_⟩
  show BITMSET (BITMCHG (BITMCHG (BITMCHG n.flags NES_APU_FLAG_NOI_LEN_ENABLED _ % 0x100)
    NES_APU_FLAG_NOI_ENV_LOOP _ % 0x100) NES_APU_FLAG_NOI_ENV_ENABLED
      (c_bool (decide ((v >>> 4) &&& 0x01 = 0))) % 0x100) NES_APU_FLAG_NOI_ENV_START % 0x100
      &&& NES_APU_FLAG_NOI_ENV_ENABLED ≠ 0 → v &&& 0x1F ≤ 15
  rw [bitmset_mod_and_other _ NES_APU_FLAG_NOI_ENV_START NES_APU_FLAG_NOI_ENV_ENABLED
      (by decide) (by decide),
    bitmchg_and_self _ NES_APU_FLAG_NOI_ENV_ENABLED _ (by decide) (by decide)]
  intro hne
  have hz : (v >>> 4) &&& 0x01 = 0 := by
    by_contra hc
    rw [if_neg (fun hq => (c_bool_ne_zero _).mp hq |> hc)] at hne
    exact hne rfl
  rw [Nat.shiftRight_eq_div_pow, Nat.and_one_is_mod] at hz
  have e : v &&& 0x1F = v % 32 := Nat.and_pow_two_sub_one_eq_mod v 5
  rw [e]
  omega

theorem nes_apu_noi_write_levels (n : nes_apu_noi_t) (a v : Nat) (h : nes_apu_noi_levels n) :
    nes_apu_noi_levels (nes_apu_noi_write n a v) ∧
    (nes_apu_noi_write n a v).shift = n.shift := by
  obtain ⟨h1, h2⟩ := h
  unfold nes_apu_noi_write
  split
  · exact ⟨nes_apu_noi_write_ctrl_levels n v, rfl⟩
  · exact ⟨⟨h1, h2⟩, rfl⟩
  · refine ⟨⟨h1, ?_⟩, rfl⟩
    show (BITMCHG n.flags NES_APU_FLAG_NOI_MODE _ % 0x100) &&& NES_APU_FLAG_NOI_ENV_ENABLED ≠ 0 →
      n.env_vol ≤ 15
    rw [bitmchg_and_other _ NES_APU_FLAG_NOI_MODE _ NES_APU_FLAG_NOI_ENV_ENABLED
      (by decide) (by decide) (by decide)]
    exact h2
  · refine ⟨⟨h1, ?_⟩, rfl⟩
    show (BITMSET n.flags NES_APU_FLAG_NOI_ENV_START % 0x100) &&& NES_APU_FLAG_NOI_ENV_ENABLED ≠ 0 →
      n.env_vol ≤ 15
    rw [bitmset_mod_and_other _ NES_APU_FLAG_NOI_ENV_START NES_APU_FLAG_NOI_ENV_ENABLED
      (by decide) (by decide)]
    exact h2
  · exact ⟨⟨h1, h2⟩, rfl⟩

theorem nes_apu_noi_step_len_levels (n : nes_apu_noi_t) (h : nes_apu_noi_levels n) :
    nes_apu_noi_levels (nes_apu_noi_step_len n) ∧ (nes_apu_noi_step_len n).shift = n.shift := by
  obtain ⟨h1, h2⟩ := h
  unfold nes_apu_noi_levels nes_apu_noi_step_len
  split_ifs
  · exact ⟨⟨h1, h2⟩, rfl⟩
  · exact ⟨⟨h1, h2⟩, rfl⟩

theorem nes_apu_noi_step_env_levels (n : nes_apu_noi_t) (h : nes_apu_noi_levels n) :
    nes_apu_noi_levels (nes_apu_noi_step_env n) ∧ (nes_apu_noi_step_env n).shift = n.shift := by
  obtain ⟨h1, h2⟩ := h
  have h3 : n.flags &&& NES_APU_FLAG_NOI_ENV_ENABLED ≠ 0 → n.env_vol ≤ 15 := h2
  unfold nes_apu_noi_levels nes_apu_noi_step_env
  dsimp only
  split_ifs
  · exact ⟨⟨h1, fun _ => Nat.le_refl 15⟩, rfl⟩
  · exact ⟨⟨h1, h2⟩, rfl⟩
  · exact ⟨⟨h1, fun hf => show n.env_vol - 1 ≤ 15 by have := h3 hf; omega⟩, rfl⟩
  · exact ⟨⟨h1, fun _ => Nat.le_refl 15⟩, rfl⟩
  · exact ⟨⟨h1, h2⟩, rfl⟩

theorem or_eq_zero_left (a b : Nat) (h : a ||| b = 0) : a = 0 := by
  apply Nat.eq_of_testBit_eq
  intro i
  have hi := congrArg (fun z => Nat.testBit z i) h
  simp only [Nat.testBit_or, Nat.zero_testBit] at hi ⊢
  cases ha : a.testBit i
  · rfl
  · rw [ha] at hi
    simp at hi

/-- One clock of the noise shift register keeps a value within 1..$7FFF
within 1..$7FFF, in both modes (`m`: the mode flag is set). -/
theorem noi_shift_step (x : Nat) (m : Prop) [Decidable m] (h1 : 1 ≤ x) (h2 : x ≤ 0x7FFF) :
    1 ≤ ((x >>> 1) ||| (((x &&& 0x01) ^^^
      (if m then (x &&& 0x40) >>> 6 else (x &&& 0x02) >>> 1)) <<< 14)) % 0x10000 ∧
    ((x >>> 1) ||| (((x &&& 0x01) ^^^
      (if m then (x &&& 0x40) >>> 6 else (x &&& 0x02) >>> 1)) <<< 14)) % 0x10000 ≤ 0x7FFF := by
  by_cases hx1 : x = 1
  · subst hx1
    by_cases hm : m
    · rw [if_pos hm]
      decide
    · rw [if_neg hm]
      decide
  have hb : ∀ t : Nat, t ≤ 1 → (x &&& 0x01) ^^^ t ≤ 1 := by
    intro t ht
    have hx : x &&& 0x01 ≤ 1 := Nat.and_le_right
    have := @Nat.xor_lt_two_pow (x &&& 0x01) t 1 (by omega) (by omega)
    omega
  have ht : (if m then (x &&& 0x40) >>> 6 else (x &&& 0x02) >>> 1) ≤ 1 := by
    have e6 : x &&& 0x40 = (x / 0x40 % 2) * 0x40 := and_two_pow_eq x 6
    have e1 : x &&& 0x02 = (x / 0x02 % 2) * 0x02 := and_two_pow_eq x 1
    by_cases hm : m
    · rw [if_pos hm, e6, Nat.shiftRight_eq_div_pow]
      omega
    · rw [if_neg hm, e1, Nat.shiftRight_eq_div_pow]
      omega
  have hf := hb _ ht
  generalize (x &&& 0x01) ^^^ (if m then (x &&& 0x40) >>> 6 else (x &&& 0x02) >>> 1) = f at hf ⊢
  have hlt : (x >>> 1) ||| (f <<< 14) < 2 ^ 15 :=
    Nat.or_lt_two_pow (by rw [Nat.shiftRight_eq_div_pow]; omega)
      (by rw [Nat.shiftLeft_eq]; omega)
  rw [Nat.mod_eq_of_lt (by omega)]
  refine ⟨?_, by omega⟩
  by_contra hc
  have hz := or_eq_zero_left (x >>> 1) (f <<< 14) (by omega)
  rw [Nat.shiftRight_eq_div_pow] at hz
  omega

/-- The noise timer step, with the local variables put in. -/
theorem nes_apu_noi_step_tmr_eq (n : nes_apu_noi_t) :
    nes_apu_noi_step_tmr n =
      if (n.tmr_val + 0x10000 - 1) % 0x10000 = 0 then
        { n with
          shift := ((n.shift >>> 1) ||| (((n.shift &&& 0x01) ^^^
            (if BITMGET n.flags NES_APU_FLAG_NOI_MODE ≠ 0 then (n.shift &&& 0x40) >>> 6
              else (n.shift &&& 0x02) >>> 1)) <<< 14)) % 0x10000
          tmr_val := n.tmr_period }
      else { n with tmr_val := (n.tmr_val + 0x10000 - 1) % 0x10000 } := rfl

/-- The noise timer step keeps the volumes in range and the shift register
within 1..$7FFF. -/
theorem nes_apu_noi_step_tmr_levels (n : nes_apu_noi_t) (h : nes_apu_noi_levels n)
    (h1 : 1 ≤ n.shift) (h2 : n.shift ≤ 0x7FFF) :
    nes_apu_noi_levels (nes_apu_noi_step_tmr n) ∧
    1 ≤ (nes_apu_noi_step_tmr n).shift ∧ (nes_apu_noi_step_tmr n).shift ≤ 0x7FFF := by
  obtain ⟨a1, a2⟩ := h
  have hs := noi_shift_step n.shift (BITMGET n.flags NES_APU_FLAG_NOI_MODE ≠ 0) h1 h2
  rw [nes_apu_noi_step_tmr_eq]
  by_cases hz : (n.tmr_val + 0x10000 - 1) % 0x10000 = 0
  · rw [if_pos hz]
    exact ⟨⟨a1, a2⟩, hs⟩
  · rw [if_neg hz]
    exact ⟨⟨a1, a2⟩, h1, h2⟩

/-! ## The triangle sequencer position -/

theorem nes_apu_tri_write_duty_out (t : nes_apu_tri_t) (a v : Nat) :
    (nes_apu_tri_write t a v).duty_out = t.duty_out := by
  unfold nes_apu_tri_write
  split
  · unfold nes_apu_tri_write_ctrl
    dsimp only
    split_ifs <;> rfl
  · rfl
  · rfl
  · rfl
  · rfl

theorem nes_apu_tri_step_tmr_duty_out (t : nes_apu_tri_t) (h : t.duty_out < 32) :
    (nes_apu_tri_step_tmr t).duty_out < 32 := by
  unfold nes_apu_tri_step_tmr
  dsimp only
  split_ifs
  · exact Nat.mod_lt _ (by decide)
  · exact h
  · exact h
  · exact h

theorem nes_apu_tri_step_len_duty_out (t : nes_apu_tri_t) :
    (nes_apu_tri_step_len t).duty_out = t.duty_out := by
  unfold nes_apu_tri_step_len
  split_ifs <;> rfl

theorem nes_apu_tri_step_cnt_duty_out (t : nes_apu_tri_t) :
    (nes_apu_tri_step_cnt t).duty_out = t.duty_out := by
  unfold nes_apu_tri_step_cnt
  dsimp only
  split_ifs <;> rfl

/-! ## The levels through the steps of the APU -/

theorem nes_apu_levels_frame_val (t : nes_t) (x : Nat) (h : nes_apu_levels t.apu) :
    nes_apu_levels ({ t with apu := { t.apu with frame_val := x } }).apu := by
  obtain ⟨a, b, c, d, e, f, g⟩ := h
  exact ⟨a, b, c, d, e, f, g⟩

theorem nes_apu_levels_frame_period (t : nes_t) (x : Nat) (h : nes_apu_levels t.apu) :
    nes_apu_levels ({ t with apu := { t.apu with frame_period := x } }).apu := by
  obtain ⟨a, b, c, d, e, f, g⟩ := h
  exact ⟨a, b, c, d, e, f, g⟩

theorem nes_apu_levels_frame_irq (t : nes_t) (x : Nat) (h : nes_apu_levels t.apu) :
    nes_apu_levels ({ t with apu := { t.apu with frame_irq := x } }).apu := by
  obtain ⟨a, b, c, d, e, f, g⟩ := h
  exact ⟨a, b, c, d, e, f, g⟩

theorem nes_apu_step_env_levels (t : nes_t) (h : nes_apu_levels t.apu) :
    nes_apu_levels (nes_apu_step_env t).apu := by
  obtain ⟨a, b, c, d, e, f, g⟩ := h
  have hn := nes_apu_noi_step_env_levels _ d
  exact ⟨nes_apu_sqr_step_env_levels _ a, nes_apu_sqr_step_env_levels _ b,
    (nes_apu_tri_step_cnt_duty_out _).trans_lt c, hn.1, e, f.trans_eq hn.2.symm, hn.2.le.trans g⟩

theorem nes_apu_step_len_levels (t : nes_t) (h : nes_apu_levels t.apu) :
    nes_apu_levels (nes_apu_step_len t).apu := by
  obtain ⟨a, b, c, d, e, f, g⟩ := h
  have hn := nes_apu_noi_step_len_levels _ d
  exact ⟨nes_apu_sqr_step_len_levels _ a, nes_apu_sqr_step_len_levels _ b,
    (nes_apu_tri_step_len_duty_out _).trans_lt c, hn.1, e, f.trans_eq hn.2.symm, hn.2.le.trans g⟩

theorem nes_apu_step_sweep_levels (t : nes_t) (h : nes_apu_levels t.apu) :
    nes_apu_levels (nes_apu_step_sweep t).apu := by
  obtain ⟨a, b, c, d, e, f, g⟩ := h
  exact ⟨nes_apu_sqr_step_sweep_levels _ a, nes_apu_sqr_step_sweep_levels _ b, c, d, e, f, g⟩

/-- The frame sequencer step keeps the levels in range if the interrupt entry
does. -/
theorem nes_apu_step_frame_counter_levels (irq : nes_t → nes_t) (s : nes_t)
    (hirq : ∀ t : nes_t, nes_apu_levels t.apu → nes_apu_levels (irq t).apu)
    (h : nes_apu_levels s.apu) :
    nes_apu_levels (nes_apu_step_frame_counter irq s).apu := by
  have kfinal : ∀ t : nes_t, nes_apu_levels t.apu →
      nes_apu_levels (if t.apu.frame_val ≥ t.apu.frame_period then
        { t with apu := { t.apu with frame_val := 0 } } else t).apu := by
    intro t ht
    split_ifs
    · exact nes_apu_levels_frame_val t 0 ht
    · exact ht
  have kirq : ∀ t : nes_t, nes_apu_levels t.apu → nes_apu_levels (nes_apu_fire_irq irq t).apu := by
    intro t ht
    unfold nes_apu_fire_irq
    split_ifs
    · exact hirq t ht
    · exact ht
  have h0 := nes_apu_levels_frame_val s ((s.apu.frame_val + 1) % 0x100) h
  unfold nes_apu_step_frame_counter
  dsimp only
  refine kfinal _ ?_
  refine nes_apu_step_env_levels _ ?_
  split_ifs
  · split
    · exact nes_apu_step_sweep_levels _ (nes_apu_step_len_levels _ (kirq _ h0))
    · exact nes_apu_step_sweep_levels _ (nes_apu_step_len_levels _ h0)
    · exact h0
  · split
    · exact nes_apu_step_sweep_levels _ (nes_apu_step_len_levels _ h0)
    · exact nes_apu_step_sweep_levels _ (nes_apu_step_len_levels _ h0)
    · exact h0
  · exact h0

/-- The write of $4015 keeps the levels in range. -/
theorem nes_apu_write_ctrl_levels (s : nes_t) (v : Nat) (h : nes_apu_levels s.apu) :
    nes_apu_levels (nes_apu_write_ctrl s v).apu := by
  obtain ⟨a, b, c, d, e, f, g⟩ := h
  refine ⟨⟨a.1, a.2⟩, ⟨b.1, b.2⟩, c, ⟨d.1, ?_⟩, ?_, f, g⟩
  · show (BITMCHG s.apu.noi.flags NES_APU_FLAG_NOI_ENABLED _ % 0x100) &&&
      NES_APU_FLAG_NOI_ENV_ENABLED ≠ 0 → s.apu.noi.env_vol ≤ 15
    rw [bitmchg_and_other _ NES_APU_FLAG_NOI_ENABLED _ NES_APU_FLAG_NOI_ENV_ENABLED
      (by decide) (by decide) (by decide)]
    exact d.2
  · unfold nes_apu_write_ctrl
    dsimp only
    split_ifs <;> exact e

/-- The eight cases of an APU register write. -/
theorem nes_apu_write_cases (P : nes_t → Prop) (s : nes_t) (a v : Nat)
    (h1 : P { s with apu := { s.apu with sq1 := nes_apu_sqr_write s.apu.sq1 a v } })
    (h2 : P { s with apu := { s.apu with sq2 := nes_apu_sqr_write s.apu.sq2 (a - 0x04) v } })
    (h3 : P { s with apu := { s.apu with tri := nes_apu_tri_write s.apu.tri (a - 0x08) v } })
    (h4 : P { s with apu := { s.apu with noi := nes_apu_noi_write s.apu.noi (a - 0x0C) v } })
    (h5 : P { s with apu := { s.apu with dmc := nes_apu_dmc_write s.apu.dmc (a - 0x10) v } })
    (h6 : P (nes_apu_write_ctrl s v))
    (h7 : P (nes_apu_write_frame_counter id s v))
    (h8 : P s) : P (nes_apu_write id s a v) := by
  unfold nes_apu_write
  by_cases c1 : a < 0x04
  · rw [if_pos c1]; exact h1
  rw [if_neg c1]
  by_cases c2 : a < 0x08
  · rw [if_pos c2]; exact h2
  rw [if_neg c2]
  by_cases c3 : a < 0x0C
  · rw [if_pos c3]; exact h3
  rw [if_neg c3]
  by_cases c4 : a < 0x10
  · rw [if_pos c4]; exact h4
  rw [if_neg c4]
  by_cases c5 : a < 0x14
  · rw [if_pos c5]; exact h5
  rw [if_neg c5]
  by_cases c6 : a = 0x15
  · rw [if_pos c6]; exact h6
  rw [if_neg c6]
  by_cases c7 : a = 0x17
  · rw [if_pos c7]; exact h7
  rw [if_neg c7]
  exact h8

/-- An APU register write keeps the levels in range. -/
theorem nes_apu_write_levels (irq : nes_t → nes_t) (s : nes_t) (a v : Nat)
    (h : nes_apu_levels s.apu) : nes_apu_levels (nes_apu_write irq s a v).apu := by
  rw [nes_apu_write_irq_indep]
  have hd : (nes_apu_dmc_write s.apu.dmc (a - 0x10) v).value ≤ 127 := by
    unfold nes_apu_dmc_write
    split
    · exact h.2.2.2.2.1
    · exact Nat.and_le_right
    · exact h.2.2.2.2.1
    · exact h.2.2.2.2.1
    · exact h.2.2.2.2.1
  have hc := nes_apu_write_ctrl_levels s v h
  have hf : nes_apu_levels (nes_apu_write_frame_counter id s v).apu := by
    unfold nes_apu_write_frame_counter
    dsimp only
    refine nes_apu_levels_frame_irq _ _ ?_
    split_ifs
    · exact nes_apu_step_frame_counter_levels id _ (fun _ ht => ht)
        (nes_apu_levels_frame_period s _ h)
    · exact nes_apu_levels_frame_period s _ h
  have h0 := h
  obtain ⟨a1, b1, c1, d1, e1, f1, g1⟩ := h
  have hn := nes_apu_noi_write_levels s.apu.noi (a - 0x0C) v d1
  refine nes_apu_write_cases (fun t => nes_apu_levels t.apu) s a v ?_ ?_ ?_ ?_ ?_ hc hf h0
  · exact ⟨nes_apu_sqr_write_levels _ _ _ a1, b1, c1, d1, e1, f1, g1⟩
  · exact ⟨a1, nes_apu_sqr_write_levels _ _ _ b1, c1, d1, e1, f1, g1⟩
  · exact ⟨a1, b1, (nes_apu_tri_write_duty_out _ _ _).trans_lt c1, d1, e1, f1, g1⟩
  · exact ⟨a1, b1, c1, hn.1, e1, f1.trans_eq hn.2.symm, hn.2.le.trans g1⟩
  · exact ⟨a1, b1, c1, d1, hd, f1, g1⟩


/-! ## The cases of a CPU bus write -/

/-- The cases of a CPU bus write: whatever holds of the state after each
of the stores that the four mapper write functions can make holds after
`nes_mem_writeb`. -/
theorem nes_mem_writeb_cases (P : nes_t → Prop) (s : nes_t) (a v : Nat)
    (h0 : P s)
    (hram : P (nes_ram_write s (a &&& 0x07FF) v))
    (hppu : P (nes_ppu_write s (a &&& 0x0007) v))
    (hdma : P (nes_ppu_oamdma s v))
    (hin : P (nes_input_write s (a - 0x4016) v))
    (hapu : P (nes_apu_write nes_cpu_irq_inner s (a - 0x4000) v))
    (hprg : P (nes_prgram_write s (a - 0x6000) v))
    (h1 : P (nes_mmc1_write_reg s a v))
    (h3 : P (nes_mmc3_write s a v))
    (hcn : P { s with cart := { s.cart with
      mapper := { s.cart.mapper with extra := .word (v &&& 0x03) } } }) :
    P (nes_mem_writeb s a v) :=
  nes_mem_writeb_with_cases nes_cpu_irq_inner P s a v h0 hram hppu hdma hin hapu hprg h1 h3 hcn

/-- The cases of an interrupt entry (`nes_cpu_irq`, `nes_cpu_nmi`): what the
three pushes keep, and what does not depend on the CPU registers, is kept. -/
theorem nes_cpu_irq_nmi_pred (P : nes_t → Prop)
    (hw : ∀ (t : nes_t) (a v : Nat), P t → P (nes_mem_writeb t a v))
    (hcpu : ∀ (t : nes_t) (c : nes_cpu_t), P t → P { t with cpu := c })
    (hr : ∀ (t : nes_t) (a : Nat), P t → P (nes_mem_readb t a).2)
    (s : nes_t) (h : P s) : P (nes_cpu_irq s) ∧ P (nes_cpu_nmi s) := by
  have hpb : ∀ (t : nes_t) (v : Nat), P t → P (nes_pushb t v) := by
    intro t v ht
    unfold nes_pushb nes_pushb_with
    exact hcpu _ _ (hw _ _ _ ht)
  have hpw : ∀ (t : nes_t) (v : Nat), P t → P (nes_pushw t v) := by
    intro t v ht
    exact hpb _ _ (hpb _ _ ht)
  have hrw : ∀ (t : nes_t) (a : Nat), P t → P (nes_mem_readw t a).2 := by
    intro t a ht
    unfold nes_mem_readw
    exact hr _ _ (hr _ _ ht)
  constructor
  · unfold nes_cpu_irq nes_cpu_irq_with
    split_ifs
    · exact h
    · exact hcpu _ _ (hcpu _ _ (hrw _ _ (hcpu _ _ (hpb _ _ (hpw _ _ h)))))
  · unfold nes_cpu_nmi
    exact hcpu _ _ (hcpu _ _ (hrw _ _ (hcpu _ _ (hpb _ _ (hpw _ _ h)))))


/-! ## The levels through bus writes, interrupts and APU ticks -/

/-- A CPU bus write keeps the levels in range. -/
theorem nes_mem_writeb_levels (s : nes_t) (a v : Nat) (h : nes_apu_levels s.apu) :
    nes_apu_levels (nes_mem_writeb s a v).apu := by
  refine nes_mem_writeb_cases (fun t => nes_apu_levels t.apu) s a v h h ?_ ?_ ?_
    (nes_apu_write_levels _ s _ v h) ?_ ?_ ?_ h
  · show nes_apu_levels (nes_ppu_write s (a &&& 0x0007) v).apu
    rw [(nes_ppu_write_frame s (a &&& 0x0007) v).2.1]
    exact h
  · show nes_apu_levels (nes_ppu_oamdma s v).apu
    rw [(nes_ppu_oamdma_frame s v).2.1]
    exact h
  · show nes_apu_levels (nes_input_write s (a - 0x4016) v).apu
    rw [(nes_input_write_frame s (a - 0x4016) v).2.1]
    exact h
  · show nes_apu_levels (nes_prgram_write s (a - 0x6000) v).apu
    rw [(nes_prgram_write_frame s (a - 0x6000) v).2.1]
    exact h
  · show nes_apu_levels (nes_mmc1_write_reg s a v).apu
    rw [(nes_mmc1_write_reg_frame s a v).2.1]
    exact h
  · show nes_apu_levels (nes_mmc3_write s a v).apu
    rw [(nes_mmc3_write_frame s a v).2.1]
    exact h

/-- The interrupt entry keeps the levels in range. -/
theorem nes_cpu_irq_levels (s : nes_t) (h : nes_apu_levels s.apu) :
    nes_apu_levels (nes_cpu_irq s).apu :=
  (nes_cpu_irq_nmi_pred (fun t => nes_apu_levels t.apu) nes_mem_writeb_levels
    (fun _ _ ht => ht)
    (fun t a ht => by
      show nes_apu_levels (nes_mem_readb t a).2.apu
      rw [nes_mem_readb_apu]
      exact ht) s h).1

/-- The DMC timer step leaves the other channels alone. -/
theorem nes_apu_dmc_step_tmr_rest (s : nes_t) :
    (nes_apu_dmc_step_tmr s).apu.sq1 = s.apu.sq1 ∧ (nes_apu_dmc_step_tmr s).apu.sq2 = s.apu.sq2 ∧
    (nes_apu_dmc_step_tmr s).apu.tri = s.apu.tri ∧ (nes_apu_dmc_step_tmr s).apu.noi = s.apu.noi := by
  have hr : (nes_apu_dmc_step_reader s).apu.sq1 = s.apu.sq1 ∧
      (nes_apu_dmc_step_reader s).apu.sq2 = s.apu.sq2 ∧
      (nes_apu_dmc_step_reader s).apu.tri = s.apu.tri ∧
      (nes_apu_dmc_step_reader s).apu.noi = s.apu.noi := by
    unfold nes_apu_dmc_step_reader
    by_cases hc : s.apu.dmc.cur_length > 0 ∧ s.apu.dmc.bit = 0
    · rw [if_pos hc]
      dsimp only
      rw [nes_mem_readb_apu]
      exact ⟨rfl, rfl, rfl, rfl⟩
    · rw [if_neg hc]
      exact ⟨rfl, rfl, rfl, rfl⟩
  unfold nes_apu_dmc_step_tmr
  dsimp only
  split_ifs
  · exact ⟨rfl, rfl, rfl, rfl⟩
  · exact hr
  · exact hr

/-- The DMC timer step keeps the levels in range. -/
theorem nes_apu_dmc_step_tmr_levels (t : nes_t) (h : nes_apu_levels t.apu) :
    nes_apu_levels (nes_apu_dmc_step_tmr t).apu := by
  obtain ⟨r1, r2, r3, r4⟩ := nes_apu_dmc_step_tmr_rest t
  have hd := nes_apu_dmc_step_tmr_value t h.2.2.2.2.1
  obtain ⟨a, b, c, d, e, f, g⟩ := h
  refine ⟨?_, ?_, ?_, ?_, hd, ?_, ?_⟩
  · rw [r1]
    exact a
  · rw [r2]
    exact b
  · rw [r3]
    exact c
  · rw [r4]
    exact d
  · rw [r4]
    exact f
  · rw [r4]
    exact g

/-- The timer tick keeps the levels in range. -/
theorem nes_apu_step_tmr_levels (s : nes_t) (h : nes_apu_levels s.apu) :
    nes_apu_levels (nes_apu_step_tmr s).apu := by
  have kt : ∀ t : nes_t, nes_apu_levels t.apu →
      nes_apu_levels ({ t with apu := { t.apu with
        tri := nes_apu_tri_step_tmr t.apu.tri } } : nes_t).apu := by
    intro t ht
    obtain ⟨a, b, c, d, e, f, g⟩ := ht
    exact ⟨a, b, nes_apu_tri_step_tmr_duty_out _ c, d, e, f, g⟩
  have h0 := h
  obtain ⟨a, b, c, d, e, f, g⟩ := h
  have hn := nes_apu_noi_step_tmr_levels _ d f g
  unfold nes_apu_step_tmr
  generalize nes_apu_noi_step_tmr s.apu.noi = n1 at hn ⊢
  have k1 : nes_apu_levels ({ s with apu := { s.apu with
      sq1 := nes_apu_sqr_step_tmr s.apu.sq1
      sq2 := nes_apu_sqr_step_tmr s.apu.sq2
      noi := n1 } } : nes_t).apu :=
    ⟨nes_apu_sqr_step_tmr_levels _ a, nes_apu_sqr_step_tmr_levels _ b, c, hn.1, e, hn.2.1, hn.2.2⟩
  refine kt _ ?_
  by_cases hc : s.apu.cycle % 2 = 0
  · rw [if_pos hc]
    exact nes_apu_dmc_step_tmr_levels _ k1
  · rw [if_neg hc]
    exact h0

/-- One APU tick keeps the levels in range. -/
theorem nes_apu_tick_levels (f g b : Bool) (out : Nat) (s : nes_t)
    (h : nes_apu_levels s.apu) : nes_apu_levels (nes_apu_tick f g b out s).apu := by
  have h1 : nes_apu_levels (nes_apu_step_tmr { s with apu := { s.apu with
      cycle := (s.apu.cycle + 1) % 0x10000000000000000 } }).apu := by
    refine nes_apu_step_tmr_levels _ ?_
    obtain ⟨a1, b1, c1, d1, e1, f1, g1⟩ := h
    exact ⟨a1, b1, c1, d1, e1, f1, g1⟩
  have h2 : ∀ t : nes_t, nes_apu_levels t.apu →
      nes_apu_levels (nes_apu_send_sample b out t).apu := by
    intro t ht
    obtain ⟨a1, b1, c1, d1, e1, f1, g1⟩ := ht
    unfold nes_apu_send_sample
    split_ifs
    · exact ⟨a1, b1, c1, d1, e1, f1, g1⟩
    · exact ⟨a1, b1, c1, d1, e1, f1, g1⟩
    · exact ⟨a1, b1, c1, d1, e1, f1, g1⟩
  unfold nes_apu_tick
  dsimp only
  cases f <;> cases g
  · exact h1
  · exact h2 _ h1
  · exact nes_apu_step_frame_counter_levels nes_cpu_irq _ nes_cpu_irq_levels h1
  · exact h2 _ (nes_apu_step_frame_counter_levels nes_cpu_irq _ nes_cpu_irq_levels h1)

/-- In every state that the program reaches the levels of the channels are in
range. -/
theorem apu_reachable_levels_step :
    (∀ (s : nes_t) (bsize : Nat), s.apu = nes_apu_init s.apu bsize → nes_apu_levels s.apu) ∧
    (∀ s : nes_t, nes_apu_levels s.apu →
      nes_apu_levels ({ s with apu := { s.apu with buf_size := 0 } } : nes_t).apu) := by
  constructor
  · intro s bsize h0
    rw [h0]
    exact ⟨⟨Nat.zero_le _, Nat.zero_le _⟩, ⟨Nat.zero_le _, Nat.zero_le _⟩, Nat.zero_lt_succ _,
      ⟨Nat.zero_le _, fun _ => Nat.zero_le _⟩, Nat.zero_le _, Nat.le_refl 1, (by show (1 : Nat) ≤ 0x7FFF; decide)⟩
  · intro s h
    obtain ⟨a1, b1, c1, d1, e1, f1, g1⟩ := h
    exact ⟨a1, b1, c1, d1, e1, f1, g1⟩


/-! ## The channel outputs and the mixer indices -/

theorem nes_apu_sqr_get_output_le (q : nes_apu_sqr_t) (h : nes_apu_sqr_levels q) :
    nes_apu_sqr_get_output q ≤ 15 := by
  obtain ⟨h1, h2⟩ := h
  unfold nes_apu_sqr_get_output
  split_ifs
  · exact Nat.zero_le _
  · exact Nat.zero_le _
  · exact Nat.zero_le _
  · exact Nat.zero_le _
  · exact h1
  · exact h2

theorem tri_tbl_le : ∀ i : Nat, i < 32 → tri_tbl i ≤ 15 := by
  decide

theorem nes_apu_tri_get_output_le (t : nes_apu_tri_t) (h : t.duty_out < 32) :
    nes_apu_tri_get_output t ≤ 15 := by
  unfold nes_apu_tri_get_output
  split_ifs
  · exact Nat.zero_le _
  · exact Nat.zero_le _
  · exact Nat.zero_le _
  · exact tri_tbl_le _ h

theorem nes_apu_noi_get_output_le (n : nes_apu_noi_t) (h : nes_apu_noi_levels n) :
    nes_apu_noi_get_output n ≤ 15 := by
  obtain ⟨h1, h2⟩ := h
  unfold nes_apu_noi_get_output
  split_ifs with c1 c2 c3 c4
  · exact Nat.zero_le _
  · exact Nat.zero_le _
  · exact Nat.zero_le _
  · exact h2 c4
  · exact h1

/-- C38. Mixer indices.  In every machine state reachable from `nes_apu_init`
through APU register writes, APU ticks and steps that leave the APU alone,
each square output, the triangle output (the sequencer position being below
32, inside `tri_tbl`) and the noise output are at most 15 and the DMC output
is at most 127; so sq1 + sq2 is at most 30 and 3 * tri + 2 * noi + dmc at
most 202, the two indices that `nes_apu_get_output` computes modulo 31 and 203
are these sums themselves, and they are below 31 and 203, the sizes of
`sqr_tbl` and `tnd_tbl`. -/
theorem mixer_indices_in_bounds (s : nes_t) (h : apu_reachable s) :
    (nes_apu_sqr_get_output s.apu.sq1 ≤ 15 ∧ nes_apu_sqr_get_output s.apu.sq2 ≤ 15 ∧
      s.apu.tri.duty_out < 32 ∧ nes_apu_tri_get_output s.apu.tri ≤ 15 ∧
      nes_apu_noi_get_output s.apu.noi ≤ 15 ∧ nes_apu_dmc_get_output s.apu.dmc ≤ 127) ∧
    (nes_apu_sqr_get_output s.apu.sq1 + nes_apu_sqr_get_output s.apu.sq2 ≤ 30 ∧
      3 * nes_apu_tri_get_output s.apu.tri + 2 * nes_apu_noi_get_output s.apu.noi +
        nes_apu_dmc_get_output s.apu.dmc ≤ 202) ∧
    (nes_apu_get_output_sqs_index s =
        nes_apu_sqr_get_output s.apu.sq1 + nes_apu_sqr_get_output s.apu.sq2 ∧
      nes_apu_get_output_tnd_index s =
        3 * nes_apu_tri_get_output s.apu.tri + 2 * nes_apu_noi_get_output s.apu.noi +
          nes_apu_dmc_get_output s.apu.dmc) ∧
    (nes_apu_get_output_sqs_index s < 31 ∧ nes_apu_get_output_tnd_index s < 203) := by
  have hl : nes_apu_levels s.apu := by
    induction h with
    | init s bsize h0 => exact apu_reachable_levels_step.1 s bsize h0
    | write s a v _ ih => exact nes_apu_write_levels nes_cpu_irq s a v ih
    | tick s f g b out _ ih => exact nes_apu_tick_levels f g b out s ih
    | drain s _ ih => exact apu_reachable_levels_step.2 s ih
    | other s t _ ht ih =>
      rw [ht]
      exact ih
  obtain ⟨a, b, c, d, e, _, _⟩ := hl
  have o1 := nes_apu_sqr_get_output_le _ a
  have o2 := nes_apu_sqr_get_output_le _ b
  have o3 := nes_apu_tri_get_output_le _ c
  have o4 := nes_apu_noi_get_output_le _ d
  have o5 : nes_apu_dmc_get_output s.apu.dmc ≤ 127 := e
  unfold nes_apu_get_output_sqs_index nes_apu_get_output_tnd_index
  dsimp only
  generalize nes_apu_sqr_get_output s.apu.sq1 = x1 at *
  generalize nes_apu_sqr_get_output s.apu.sq2 = x2 at *
  generalize nes_apu_tri_get_output s.apu.tri = x3 at *
  generalize nes_apu_noi_get_output s.apu.noi = x4 at *
  generalize nes_apu_dmc_get_output s.apu.dmc = x5 at *
  have m1 : x1 % 0x100 = x1 := Nat.mod_eq_of_lt (by omega)
  have m2 : x2 % 0x100 = x2 := Nat.mod_eq_of_lt (by omega)
  have m3 : x3 % 0x100 = x3 := Nat.mod_eq_of_lt (by omega)
  have m4 : x4 % 0x100 = x4 := Nat.mod_eq_of_lt (by omega)
  have m5 : x5 % 0x100 = x5 := Nat.mod_eq_of_lt (by omega)
  have m6 : (x1 + x2) % 31 = x1 + x2 := Nat.mod_eq_of_lt (by omega)
  have m7 : (3 * x3 + 2 * x4 + x5) % 203 = 3 * x3 + 2 * x4 + x5 := Nat.mod_eq_of_lt (by omega)
  rw [m1, m2, m3, m4, m5, m6, m7]
  exact ⟨⟨o1, o2, c, o3, o4, o5⟩, ⟨by omega, by omega⟩, ⟨rfl, rfl⟩, by omega, by omega⟩

/-- Instance of C38: after power-on and the writes $4015 = $08, $400F = $00
and $400C = $1F the envelope volume field of the noise channel holds 31 with
the envelope disabled, and the noise output is at most 15. -/
theorem mixer_indices_in_bounds_witness :
    apu_reachable nes_apu_noise_example ∧
    nes_apu_noise_example.apu.noi.env_vol = 31 ∧
    nes_apu_noise_example.apu.noi.const_vol = 15 ∧
    nes_apu_noi_get_output nes_apu_noise_example.apu.noi ≤ 15 ∧
    nes_apu_get_output_tnd_index nes_apu_noise_example < 203 :=
  have hr : apu_reachable nes_apu_noise_example :=
    apu_reachable.write _ 0x0C 0x1F (apu_reachable.write _ 0x0F 0x00
      (apu_reachable.write _ 0x15 0x08 (apu_reachable.init _ 0 rfl)))
  ⟨hr, by decide, by decide, (mixer_indices_in_bounds _ hr).1.2.2.2.2.1,
    (mixer_indices_in_bounds _ hr).2.2.2.2⟩

/-! ## The noise shift register -/

/-- The noise timer step keeps the shift register within 1..$7FFF. -/
theorem nes_apu_noi_step_tmr_shift (n : nes_apu_noi_t) (h1 : 1 ≤ n.shift)
    (h2 : n.shift ≤ 0x7FFF) :
    1 ≤ (nes_apu_noi_step_tmr n).shift ∧ (nes_apu_noi_step_tmr n).shift ≤ 0x7FFF := by
  have hs := noi_shift_step n.shift (BITMGET n.flags NES_APU_FLAG_NOI_MODE ≠ 0) h1 h2
  rw [nes_apu_noi_step_tmr_eq]
  by_cases hz : (n.tmr_val + 0x10000 - 1) % 0x10000 = 0
  · rw [if_pos hz]
    exact hs
  · rw [if_neg hz]
    exact ⟨h1, h2⟩

/-- C39. Noise shift register.  In every machine state reachable from
`nes_apu_init` through APU register writes, APU ticks and steps that leave the
APU alone, the noise shift register is within 1..$7FFF.  The noise timer step
`nes_apu_noi_step_tmr`, in both modes, takes every value within 1..$7FFF to a
value within 1..$7FFF; when the timer runs out it stores
(shift >> 1) | (feedback << 14), the feedback being bit 0 XOR bit 6 with the
mode flag set and bit 0 XOR bit 1 with it clear, and otherwise it leaves the
register as it is. -/
theorem noise_shift_range (s : nes_t) (h : apu_reachable s) :
    (1 ≤ s.apu.noi.shift ∧ s.apu.noi.shift ≤ 0x7FFF) ∧
    (∀ n : nes_apu_noi_t, 1 ≤ n.shift → n.shift ≤ 0x7FFF →
      1 ≤ (nes_apu_noi_step_tmr n).shift ∧ (nes_apu_noi_step_tmr n).shift ≤ 0x7FFF) ∧
    (∀ n : nes_apu_noi_t, (n.tmr_val + 0x10000 - 1) % 0x10000 = 0 →
      (nes_apu_noi_step_tmr n).shift =
        ((n.shift >>> 1) ||| (((n.shift &&& 0x01) ^^^
          (if BITMGET n.flags NES_APU_FLAG_NOI_MODE ≠ 0 then (n.shift &&& 0x40) >>> 6
            else (n.shift &&& 0x02) >>> 1)) <<< 14)) % 0x10000) ∧
    (∀ n : nes_apu_noi_t, (n.tmr_val + 0x10000 - 1) % 0x10000 ≠ 0 →
      (nes_apu_noi_step_tmr n).shift = n.shift) := by
  have hl : nes_apu_levels s.apu := by
    induction h with
    | init s bsize h0 => exact apu_reachable_levels_step.1 s bsize h0
    | write s a v _ ih => exact nes_apu_write_levels nes_cpu_irq s a v ih
    | tick s f g b out _ ih => exact nes_apu_tick_levels f g b out s ih
    | drain s _ ih => exact apu_reachable_levels_step.2 s ih
    | other s t _ ht ih =>
      rw [ht]
      exact ih
  refine ⟨⟨hl.2.2.2.2.2.1, hl.2.2.2.2.2.2⟩, nes_apu_noi_step_tmr_shift, ?_, ?_⟩
  · intro n hz
    rw [nes_apu_noi_step_tmr_eq, if_pos hz]
  · intro n hz
    rw [nes_apu_noi_step_tmr_eq, if_neg hz]

/-- Instance of C39: after power-on, the write $400E = $80 (mode flag set,
period 4) and eight APU ticks, the timer has run out once and the shift
register has gone from 1 to $4000. -/
theorem noise_shift_range_witness :
    apu_reachable nes_apu_noise_clock_example ∧
    nes_apu_noise_clock_example.apu.noi.shift = 0x4000 ∧
    1 ≤ nes_apu_noise_clock_example.apu.noi.shift :=
  have hr : apu_reachable nes_apu_noise_clock_example :=
    apu_reachable.tick _ false false false 0 (apu_reachable.tick _ false false false 0
      (apu_reachable.tick _ false false false 0 (apu_reachable.tick _ false false false 0
        (apu_reachable.tick _ false false false 0 (apu_reachable.tick _ false false false 0
          (apu_reachable.tick _ false false false 0 (apu_reachable.tick _ false false false 0
            (apu_reachable.write _ 0x0E 0x80 (apu_reachable.init nes_apu_power_on 0 rfl)))))))))
  ⟨hr, by decide, (noise_shift_range _ hr).1.1⟩


/-! ## MMC3: range of the bank offsets -/

/-- The remainder of the truncating division by a positive number lies
strictly between minus the divisor and the divisor, and has the sign of the
dividend. -/
theorem tmod_bounds (a : Int) (n : Nat) (hn : 0 < n) :
    -(n : Int) < Int.tmod a (n : Int) ∧ Int.tmod a (n : Int) < (n : Int) := by
  cases a with
  | ofNat m =>
    show -(n : Int) < ((m % n : Nat) : Int) ∧ ((m % n : Nat) : Int) < (n : Int)
    have := Nat.mod_lt m hn
    omega
  | negSucc m =>
    show -(n : Int) < -(((m + 1) % n : Nat) : Int) ∧ -(((m + 1) % n : Nat) : Int) < (n : Int)
    have := Nat.mod_lt (m + 1) hn
    omega

/-- Every PRG offset that `nes_mmc3_prg_offset` returns is a multiple of
$2000 below `rom16_count * $4000`. -/
theorem nes_mmc3_prg_offset_range (t : nes_t) (idx : Int) (h1 : 1 ≤ t.cart.rom16_count) :
    nes_mmc3_prg_offset t idx % 0x2000 = 0 ∧
    nes_mmc3_prg_offset t idx < t.cart.rom16_count * 0x4000 := by
  have e : ((t.cart.rom16_count : Int) * 2) = ((t.cart.rom16_count * 2 : Nat) : Int) := by
    push_cast
    rfl
  unfold nes_mmc3_prg_offset
  dsimp only
  rw [e]
  have hb := tmod_bounds (if idx ≥ 0x80 then idx - 0x100 else idx) (t.cart.rom16_count * 2)
    (by omega)
  generalize Int.tmod (if idx ≥ 0x80 then idx - 0x100 else idx)
    ((t.cart.rom16_count * 2 : Nat) : Int) = r at hb ⊢
  split_ifs <;> omega

/-- Every CHR offset that `nes_mmc3_chr_offset` returns is a multiple of $400
below `vram8_count * $2000`. -/
theorem nes_mmc3_chr_offset_range (t : nes_t) (idx : Int) (h1 : 1 ≤ t.cart.vram8_count) :
    nes_mmc3_chr_offset t idx % 0x0400 = 0 ∧
    nes_mmc3_chr_offset t idx < t.cart.vram8_count * 0x2000 := by
  have e : ((t.cart.vram8_count : Int) * 8) = ((t.cart.vram8_count * 8 : Nat) : Int) := by
    push_cast
    rfl
  unfold nes_mmc3_chr_offset
  dsimp only
  rw [e]
  have hb := tmod_bounds (if idx ≥ 0x80 then idx - 0x100 else idx) (t.cart.vram8_count * 8)
    (by omega)
  generalize Int.tmod (if idx ≥ 0x80 then idx - 0x100 else idx)
    ((t.cart.vram8_count * 8 : Nat) : Int) = r at hb ⊢
  split_ifs <;> omega

/-- A store into an array keeps what holds of its entries, if it holds of the
value stored. -/
theorem arr_set_pred {α : Type} (Q : Nat → α → Prop) (f : Nat → α) (i : Nat) (v : α)
    (hf : ∀ j, Q j (f j)) (hv : Q i v) : ∀ j, Q j (arr_set f i v j) := by
  intro j
  by_cases hj : j = i
  · subst hj
    rw [arr_set_same]
    exact hv
  · rw [arr_set_other _ _ _ _ hj]
    exact hf j

/-- Recomputing the offsets keeps them in range. -/
theorem nes_mmc3_update_offsets_range (u : nes_t) (h1 : 1 ≤ u.cart.rom16_count)
    (h2 : 1 ≤ u.cart.vram8_count) (h : nes_mmc3_offsets_in_range u) :
    nes_mmc3_offsets_in_range (nes_mmc3_update_offsets u) := by
  obtain ⟨hp, hc⟩ := h
  have p := fun idx => nes_mmc3_prg_offset_range u idx h1
  have c := fun idx => nes_mmc3_chr_offset_range u idx h2
  have kp : ∀ (f : Nat → Nat) (i v : Nat),
      (∀ j, j < 4 → f j % 0x2000 = 0 ∧ f j < u.cart.rom16_count * 0x4000) →
      (v % 0x2000 = 0 ∧ v < u.cart.rom16_count * 0x4000) →
      (∀ j, j < 4 → arr_set f i v j % 0x2000 = 0 ∧
        arr_set f i v j < u.cart.rom16_count * 0x4000) :=
    fun f i v hf hv => arr_set_pred
      (fun j x => j < 4 → x % 0x2000 = 0 ∧ x < u.cart.rom16_count * 0x4000) f i v hf
      (fun _ => hv)
  have kc : ∀ (f : Nat → Nat) (i v : Nat),
      (∀ j, j < 8 → f j % 0x0400 = 0 ∧ f j < u.cart.vram8_count * 0x2000) →
      (v % 0x0400 = 0 ∧ v < u.cart.vram8_count * 0x2000) →
      (∀ j, j < 8 → arr_set f i v j % 0x0400 = 0 ∧
        arr_set f i v j < u.cart.vram8_count * 0x2000) :=
    fun f i v hf hv => arr_set_pred
      (fun j x => j < 8 → x % 0x0400 = 0 ∧ x < u.cart.vram8_count * 0x2000) f i v hf
      (fun _ => hv)
  constructor
  · show (fun f : Nat → Nat => ∀ i : Nat, i < 4 →
      f i % 0x2000 = 0 ∧ f i < u.cart.rom16_count * 0x4000)
        (nes_mmc3_update_prg_offsets u (mmc3_extra u))
    unfold nes_mmc3_update_prg_offsets
    split
    · exact kp _ _ _ (kp _ _ _ (kp _ _ _ (kp _ _ _ hp (p _)) (p _)) (p _)) (p _)
    · exact kp _ _ _ (kp _ _ _ (kp _ _ _ (kp _ _ _ hp (p _)) (p _)) (p _)) (p _)
    · exact hp
  · show (fun f : Nat → Nat => ∀ i : Nat, i < 8 →
      f i % 0x0400 = 0 ∧ f i < u.cart.vram8_count * 0x2000)
        (nes_mmc3_update_chr_offsets u
          { mmc3_extra u with prg_offset := nes_mmc3_update_prg_offsets u (mmc3_extra u) })
    unfold nes_mmc3_update_chr_offsets
    split
    · exact kc _ _ _ (kc _ _ _ (kc _ _ _ (kc _ _ _ (kc _ _ _ (kc _ _ _ (kc _ _ _ (kc _ _ _ hc
        (c _)) (c _)) (c _)) (c _)) (c _)) (c _)) (c _)) (c _)
    · exact kc _ _ _ (kc _ _ _ (kc _ _ _ (kc _ _ _ (kc _ _ _ (kc _ _ _ (kc _ _ _ (kc _ _ _ hc
        (c _)) (c _)) (c _)) (c _)) (c _)) (c _)) (c _)) (c _)
    · exact hc

/-- Whether the offsets are in range depends only on the two bank counts and
the two offset arrays. -/
theorem nes_mmc3_offsets_in_range_congr (s t : nes_t)
    (hr : t.cart.rom16_count = s.cart.rom16_count)
    (hv : t.cart.vram8_count = s.cart.vram8_count)
    (hp : (mmc3_extra t).prg_offset = (mmc3_extra s).prg_offset)
    (hc : (mmc3_extra t).chr_offset = (mmc3_extra s).chr_offset)
    (h : nes_mmc3_offsets_in_range s) : nes_mmc3_offsets_in_range t := by
  unfold nes_mmc3_offsets_in_range at h ⊢
  rw [hr, hv, hp, hc]
  exact h

/-- An MMC3 register write keeps the mapper table and the bank counts, and
keeps the offsets in range. -/
theorem nes_mmc3_write_range (s : nes_t) (a v : Nat) (h1 : 1 ≤ s.cart.rom16_count)
    (h2 : 1 ≤ s.cart.vram8_count) (h : nes_mmc3_offsets_in_range s) :
    (nes_mmc3_write s a v).cart.mapper.funcs = s.cart.mapper.funcs ∧
    (nes_mmc3_write s a v).cart.rom16_count = s.cart.rom16_count ∧
    (nes_mmc3_write s a v).cart.vram8_count = s.cart.vram8_count ∧
    nes_mmc3_offsets_in_range (nes_mmc3_write s a v) := by
  have kd : ∀ m : nes_mmc3_extra_t, m.prg_offset = (mmc3_extra s).prg_offset →
      m.chr_offset = (mmc3_extra s).chr_offset →
      nes_mmc3_offsets_in_range (nes_mmc3_update_offsets (set_mmc3_extra s m)) :=
    fun m hp hc => nes_mmc3_update_offsets_range (set_mmc3_extra s m) h1 h2
      (nes_mmc3_offsets_in_range_congr s (set_mmc3_extra s m) rfl rfl hp hc h)
  have ks : ∀ m : nes_mmc3_extra_t, m.prg_offset = (mmc3_extra s).prg_offset →
      m.chr_offset = (mmc3_extra s).chr_offset →
      nes_mmc3_offsets_in_range (set_mmc3_extra s m) :=
    fun m hp hc => nes_mmc3_offsets_in_range_congr s (set_mmc3_extra s m) rfl rfl hp hc h
  unfold nes_mmc3_write
  dsimp only
  by_cases c1 : a ≤ 0x9FFF
  · rw [if_pos c1]
    by_cases f : a &&& 0x01 ≠ 0
    · rw [if_pos f]
      exact ⟨rfl, rfl, rfl, kd _ rfl rfl⟩
    · rw [if_neg f]
      exact ⟨rfl, rfl, rfl, kd _ rfl rfl⟩
  · rw [if_neg c1]
    by_cases c2 : a ≤ 0xBFFF
    · rw [if_pos c2]
      by_cases f : a &&& 0x01 ≠ 0
      · rw [if_pos f]
        exact ⟨rfl, rfl, rfl, h⟩
      · rw [if_neg f]
        unfold nes_mmc3_write_mirror
        by_cases m : v &&& 0x01 ≠ 0
        · rw [if_pos m]
          exact ⟨rfl, rfl, rfl, nes_mmc3_offsets_in_range_congr s _ rfl rfl rfl rfl h⟩
        · rw [if_neg m]
          exact ⟨rfl, rfl, rfl, nes_mmc3_offsets_in_range_congr s _ rfl rfl rfl rfl h⟩
    · rw [if_neg c2]
      by_cases c3 : a ≤ 0xDFFF
      · rw [if_pos c3]
        by_cases f : a &&& 0x01 ≠ 0
        · rw [if_pos f]
          exact ⟨rfl, rfl, rfl, ks _ rfl rfl⟩
        · rw [if_neg f]
          exact ⟨rfl, rfl, rfl, ks _ rfl rfl⟩
      · rw [if_neg c3]
        by_cases c4 : a ≤ 0xFFFF
        · rw [if_pos c4]
          by_cases f : a &&& 0x01 ≠ 0
          · rw [if_pos f]
            exact ⟨rfl, rfl, rfl, ks _ rfl rfl⟩
          · rw [if_neg f]
            exact ⟨rfl, rfl, rfl, ks _ rfl rfl⟩
        · rw [if_neg c4]
          exact ⟨rfl, rfl, rfl, h⟩

/-- After `nes_init_mmc3` the offsets are in range. -/
theorem nes_init_mmc3_range (s : nes_t) (h1 : 1 ≤ s.cart.rom16_count)
    (h2 : 1 ≤ s.cart.vram8_count) :
    (nes_init_mmc3 s).cart.mapper.funcs = s.cart.mapper.funcs ∧
    (nes_init_mmc3 s).cart.rom16_count = s.cart.rom16_count ∧
    (nes_init_mmc3 s).cart.vram8_count = s.cart.vram8_count ∧
    nes_mmc3_offsets_in_range (nes_init_mmc3 s) := by
  refine ⟨rfl, rfl, rfl, ?_, ?_⟩
  · have p := fun idx => nes_mmc3_prg_offset_range
      (set_mmc3_extra s ⟨0, fun _ => 0, 0, 0, fun _ => 0, fun _ => 0, 0, 0, 0⟩) idx h1
    have kp : ∀ (f : Nat → Nat) (i v : Nat),
        (∀ j, j < 4 → f j % 0x2000 = 0 ∧ f j < s.cart.rom16_count * 0x4000) →
        (v % 0x2000 = 0 ∧ v < s.cart.rom16_count * 0x4000) →
        (∀ j, j < 4 → arr_set f i v j % 0x2000 = 0 ∧
          arr_set f i v j < s.cart.rom16_count * 0x4000) :=
      fun f i v hf hv => arr_set_pred
        (fun j x => j < 4 → x % 0x2000 = 0 ∧ x < s.cart.rom16_count * 0x4000) f i v hf
        (fun _ => hv)
    have z : ∀ j, j < 4 → (fun _ : Nat => (0 : Nat)) j % 0x2000 = 0 ∧
        (fun _ : Nat => (0 : Nat)) j < s.cart.rom16_count * 0x4000 := by
      intro j _
      constructor
      · rfl
      · show 0 < s.cart.rom16_count * 0x4000
        omega
    exact kp _ _ _ (kp _ _ _ (kp _ _ _ (kp _ _ _ z (p _)) (p _)) (p _)) (p _)
  · intro i _
    constructor
    · rfl
    · show 0 < s.cart.vram8_count * 0x2000
      omega

/-- A PPU read of $0000-$1FFF on an MMC3 cartridge, through the CHR offset of
its 1 KiB slot. -/
theorem nes_vmem_readb_mmc3_chr (t : nes_t) (a : Nat) (hf : t.cart.mapper.funcs = .mmc3)
    (h1 : a &&& 0x3FFF < 0x2000) :
    nes_vmem_readb t a =
      t.cart.vram (((mmc3_extra t).chr_offset ((a &&& 0x3FFF) / 0x0400) / 0x2000) % 0x10000)
        (0x0400 * (((mmc3_extra t).chr_offset ((a &&& 0x3FFF) / 0x0400) / 0x0400) &&& 0x07) +
          (a &&& 0x3FFF) % 0x0400) := by
  unfold nes_vmem_readb
  rw [hf]
  dsimp only
  unfold nes_vmem_read_mmc3
  dsimp only
  rw [if_neg (by omega), if_pos h1]

/-- C40. `nes_mmc3_prg_offset` returns, for every index (so for the
register values 0..255 and for -2 and -1) and `rom16_count ≥ 1`, a multiple of
$2000 below `rom16_count * $4000`, and `nes_mmc3_chr_offset`, for
`vram8_count ≥ 1`, a multiple of $400 below `vram8_count * $2000`.  Hence in
every state the program can drive an MMC3 cartridge into, the offsets stored
are in that range, a CPU read of $8000-$FFFF returns
`rom[bank16][bank8_base + offset]` with `bank16 < rom16_count` and the second
subscript below $4000, and a PPU read of $0000-$1FFF returns
`vram[bank8][bank1_base + offset]` with `bank8 < vram8_count` and the second
subscript below $2000. -/
theorem mmc3_offsets_index_existing_banks (s : nes_t) (h : mmc3_reachable s) :
    (∀ idx : Int, nes_mmc3_prg_offset s idx % 0x2000 = 0 ∧
      nes_mmc3_prg_offset s idx < s.cart.rom16_count * 0x4000 ∧
      nes_mmc3_chr_offset s idx % 0x0400 = 0 ∧
      nes_mmc3_chr_offset s idx < s.cart.vram8_count * 0x2000) ∧
    nes_mmc3_offsets_in_range s ∧
    (∀ a : Nat, 0x8000 ≤ a → a ≤ 0xFFFF →
      (nes_mem_readb s a).1 =
        s.cart.rom (((mmc3_extra s).prg_offset ((a - 0x8000) / 0x2000) / 0x4000) % 0x10000)
          (0x2000 * (((mmc3_extra s).prg_offset ((a - 0x8000) / 0x2000) / 0x2000) &&& 0x01) +
            ((a - 0x8000) &&& 0x1FFF)) ∧
      ((mmc3_extra s).prg_offset ((a - 0x8000) / 0x2000) / 0x4000) % 0x10000
        < s.cart.rom16_count ∧
      0x2000 * (((mmc3_extra s).prg_offset ((a - 0x8000) / 0x2000) / 0x2000) &&& 0x01) +
        ((a - 0x8000) &&& 0x1FFF) < 0x4000) ∧
    (∀ a : Nat, a &&& 0x3FFF < 0x2000 →
      nes_vmem_readb s a =
        s.cart.vram (((mmc3_extra s).chr_offset ((a &&& 0x3FFF) / 0x0400) / 0x2000) % 0x10000)
          (0x0400 * (((mmc3_extra s).chr_offset ((a &&& 0x3FFF) / 0x0400) / 0x0400) &&& 0x07) +
            (a &&& 0x3FFF) % 0x0400) ∧
      ((mmc3_extra s).chr_offset ((a &&& 0x3FFF) / 0x0400) / 0x2000) % 0x10000
        < s.cart.vram8_count ∧
      0x0400 * (((mmc3_extra s).chr_offset ((a &&& 0x3FFF) / 0x0400) / 0x0400) &&& 0x07) +
        (a &&& 0x3FFF) % 0x0400 < 0x2000) := by
  have inv : s.cart.mapper.funcs = .mmc3 ∧ 1 ≤ s.cart.rom16_count ∧
      1 ≤ s.cart.vram8_count ∧ nes_mmc3_offsets_in_range s := by
    induction h with
    | init s hf h1 h2 =>
      have k := nes_init_mmc3_range s h1 h2
      exact ⟨k.1.trans hf, h1.trans_eq k.2.1.symm, h2.trans_eq k.2.2.1.symm, k.2.2.2⟩
    | write s a v _ ih =>
      have k := nes_mmc3_write_range s a v ih.2.1 ih.2.2.1 ih.2.2.2
      exact ⟨k.1.trans ih.1, ih.2.1.trans_eq k.2.1.symm, ih.2.2.1.trans_eq k.2.2.1.symm,
        k.2.2.2⟩
    | other s t _ hf hr hv hp hc ih =>
      exact ⟨hf.trans ih.1, ih.2.1.trans_eq hr.symm, ih.2.2.1.trans_eq hv.symm,
        nes_mmc3_offsets_in_range_congr s t hr hv hp hc ih.2.2.2⟩
  obtain ⟨hf, h1, h2, hr⟩ := inv
  refine ⟨fun idx => ?_, hr, fun a ha1 ha2 => ?_, fun a ha => ?_⟩
  · have p := nes_mmc3_prg_offset_range s idx h1
    have c := nes_mmc3_chr_offset_range s idx h2
    exact ⟨p.1, p.2, c.1, c.2⟩
  · refine ⟨nes_mem_readb_mmc3_prg s a hf ha1, ?_, ?_⟩
    · have k := (hr.1 ((a - 0x8000) / 0x2000) (by omega)).2
      generalize (mmc3_extra s).prg_offset ((a - 0x8000) / 0x2000) = x at k ⊢
      have := Nat.mod_le (x / 0x4000) 0x10000
      omega
    · have k1 : ((mmc3_extra s).prg_offset ((a - 0x8000) / 0x2000) / 0x2000) &&& 0x01 ≤ 1 :=
        Nat.and_le_right
      have k2 : (a - 0x8000) &&& 0x1FFF ≤ 0x1FFF := Nat.and_le_right
      omega
  · have hb : (a &&& 0x3FFF) / 0x0400 < 8 := by omega
    refine ⟨nes_vmem_readb_mmc3_chr s a hf ha, ?_, ?_⟩
    · have k := (hr.2 ((a &&& 0x3FFF) / 0x0400) hb).2
      generalize (mmc3_extra s).chr_offset ((a &&& 0x3FFF) / 0x0400) = x at k ⊢
      have := Nat.mod_le (x / 0x2000) 0x10000
      omega
    · have k1 : ((mmc3_extra s).chr_offset ((a &&& 0x3FFF) / 0x0400) / 0x0400) &&& 0x07 ≤ 7 :=
        Nat.and_le_right
      omega

/-- The theorem `mmc3_offsets_index_existing_banks` at a concrete state: with
two PRG banks, R6 = $FF selects the offset $6000 (the last 8 KiB bank), and a
read of $8000 returns `rom[1][$2000]`. -/
theorem mmc3_offsets_index_existing_banks_witness :
    mmc3_reachable nes_mmc3_bank_example ∧
    (mmc3_extra nes_mmc3_bank_example).prg_offset 0 = 0x6000 ∧
    (nes_mem_readb nes_mmc3_bank_example 0x8000).1 = nes_mmc3_bank_example.cart.rom 1 0x2000 ∧
    nes_mmc3_offsets_in_range nes_mmc3_bank_example :=
  ⟨mmc3_reachable.write _ _ _ (mmc3_reachable.write _ _ _
      (mmc3_reachable.init _ rfl (by decide) (by decide))),
    by decide, by decide,
    (mmc3_offsets_index_existing_banks nes_mmc3_bank_example
      (mmc3_reachable.write _ _ _ (mmc3_reachable.write _ _ _
        (mmc3_reachable.init _ rfl (by decide) (by decide))))).2.1⟩

/-! ## nes_ppu_get_color -/

/-- Halving the three colour channels of a palette entry. -/
theorem nes_palette_darken : ∀ i : Nat, i < 64 →
    argb_alpha ((0xFF000000 ||| ((((nes_palette i &&& 0x00FF0000) >>> 17) % 0x100) <<< 16) |||
      ((((nes_palette i &&& 0x0000FF00) >>> 9) % 0x100) <<< 8) |||
      (((nes_palette i &&& 0x000000FF) >>> 1) % 0x100)) % 0x100000000) = 0xFF ∧
    argb_red ((0xFF000000 ||| ((((nes_palette i &&& 0x00FF0000) >>> 17) % 0x100) <<< 16) |||
      ((((nes_palette i &&& 0x0000FF00) >>> 9) % 0x100) <<< 8) |||
      (((nes_palette i &&& 0x000000FF) >>> 1) % 0x100)) % 0x100000000) =
        argb_red (nes_palette i) / 2 ∧
    argb_green ((0xFF000000 ||| ((((nes_palette i &&& 0x00FF0000) >>> 17) % 0x100) <<< 16) |||
      ((((nes_palette i &&& 0x0000FF00) >>> 9) % 0x100) <<< 8) |||
      (((nes_palette i &&& 0x000000FF) >>> 1) % 0x100)) % 0x100000000) =
        argb_green (nes_palette i) / 2 ∧
    argb_blue ((0xFF000000 ||| ((((nes_palette i &&& 0x00FF0000) >>> 17) % 0x100) <<< 16) |||
      ((((nes_palette i &&& 0x0000FF00) >>> 9) % 0x100) <<< 8) |||
      (((nes_palette i &&& 0x000000FF) >>> 1) % 0x100)) % 0x100000000) =
        argb_blue (nes_palette i) / 2 := by
  decide

/-- Setting colour channels of a palette entry to $FF. -/
theorem nes_palette_emphasis : ∀ i : Nat, i < 64 → ∀ r g b : Bool,
    argb_alpha (if b = true then
        (if g = true then (if r = true then nes_palette i ||| 0x00FF0000 else nes_palette i)
            ||| 0x0000FF00
          else (if r = true then nes_palette i ||| 0x00FF0000 else nes_palette i)) ||| 0x000000FF
      else (if g = true then (if r = true then nes_palette i ||| 0x00FF0000 else nes_palette i)
            ||| 0x0000FF00
          else (if r = true then nes_palette i ||| 0x00FF0000 else nes_palette i))) = 0xFF ∧
    argb_red (if b = true then
        (if g = true then (if r = true then nes_palette i ||| 0x00FF0000 else nes_palette i)
            ||| 0x0000FF00
          else (if r = true then nes_palette i ||| 0x00FF0000 else nes_palette i)) ||| 0x000000FF
      else (if g = true then (if r = true then nes_palette i ||| 0x00FF0000 else nes_palette i)
            ||| 0x0000FF00
          else (if r = true then nes_palette i ||| 0x00FF0000 else nes_palette i))) =
        (if r = true then 0xFF else argb_red (nes_palette i)) ∧
    argb_green (if b = true then
        (if g = true then (if r = true then nes_palette i ||| 0x00FF0000 else nes_palette i)
            ||| 0x0000FF00
          else (if r = true then nes_palette i ||| 0x00FF0000 else nes_palette i)) ||| 0x000000FF
      else (if g = true then (if r = true then nes_palette i ||| 0x00FF0000 else nes_palette i)
            ||| 0x0000FF00
          else (if r = true then nes_palette i ||| 0x00FF0000 else nes_palette i))) =
        (if g = true then 0xFF else argb_green (nes_palette i)) ∧
    argb_blue (if b = true then
        (if g = true then (if r = true then nes_palette i ||| 0x00FF0000 else nes_palette i)
            ||| 0x0000FF00
          else (if r = true then nes_palette i ||| 0x00FF0000 else nes_palette i)) ||| 0x000000FF
      else (if g = true then (if r = true then nes_palette i ||| 0x00FF0000 else nes_palette i)
            ||| 0x0000FF00
          else (if r = true then nes_palette i ||| 0x00FF0000 else nes_palette i))) =
        (if b = true then 0xFF else argb_blue (nes_palette i)) := by
  decide

/-- Every palette entry has alpha $FF, and the entries without a colour bit
above the lowest of each channel are the black ones. -/
theorem nes_palette_black : ∀ i : Nat, i < 64 →
    argb_alpha (nes_palette i) = 0xFF ∧
    (nes_palette i &&& 0x00FEFEFE = 0 ↔ nes_palette i = 0xFF000000) := by
  decide

/-- The three emphasis bits of PPUMASK are all set exactly when
`mask & 0xE0` is `0xE0`. -/
theorem mask_emphasis_all (m : Nat) :
    m &&& 0xE0 = 0xE0 ↔
      (BITGET m NES_PPU_MASK_ERED ≠ 0 ∧ BITGET m NES_PPU_MASK_EGREEN ≠ 0 ∧
        BITGET m NES_PPU_MASK_EBLUE ≠ 0) := by
  have k : ∀ n : Nat, n < 256 →
      (n &&& 0xE0 = 0xE0 ↔ (n &&& 0x20 ≠ 0 ∧ n &&& 0x40 ≠ 0 ∧ n &&& 0x80 ≠ 0)) := by decide
  have e : ∀ c : Nat, c < 256 → m &&& c = (m % 256) &&& c := by
    intro c hc
    have h1 : (m % 256) = m &&& 0xFF := (Nat.and_pow_two_sub_one_eq_mod m 8).symm
    have h2 : c &&& 0xFF = c := by
      have := Nat.and_pow_two_sub_one_eq_mod c 8
      rw [this]
      exact Nat.mod_eq_of_lt hc
    rw [h1, Nat.and_assoc, Nat.and_comm 0xFF c, h2]
  show m &&& 0xE0 = 0xE0 ↔ (m &&& 0x20 ≠ 0 ∧ m &&& 0x40 ≠ 0 ∧ m &&& 0x80 ≠ 0)
  rw [e 0xE0 (by decide), e 0x20 (by decide), e 0x40 (by decide), e 0x80 (by decide)]
  exact k _ (Nat.mod_lt _ (by decide))

/-- C33 (amended). `nes_ppu_get_color` looks up
`nes_palette[index & 0x3F]` (the index first masked with `0x30` when the
grayscale bit is set).  The alpha byte of the result is always $FF.  When all
three emphasis bits are set, each of the R, G and B channels is halved.
Otherwise, for a palette entry that is not black (`entry & 0x00FEFEFE` is not
zero), each emphasis bit that is set forces its channel to $FF and the other
channels keep the palette value; a black entry is returned as it is. -/
theorem get_color_emphasis_skips_black (s : nes_t) (col : Nat) :
    argb_alpha (nes_ppu_get_color s col) = 0xFF ∧
    (s.ppu.mask &&& 0xE0 = 0xE0 ↔
      (BITGET s.ppu.mask NES_PPU_MASK_ERED ≠ 0 ∧ BITGET s.ppu.mask NES_PPU_MASK_EGREEN ≠ 0 ∧
        BITGET s.ppu.mask NES_PPU_MASK_EBLUE ≠ 0)) ∧
    (s.ppu.mask &&& 0xE0 = 0xE0 →
      argb_red (nes_ppu_get_color s col) = argb_red (nes_ppu_get_color_entry s col) / 2 ∧
      argb_green (nes_ppu_get_color s col) = argb_green (nes_ppu_get_color_entry s col) / 2 ∧
      argb_blue (nes_ppu_get_color s col) = argb_blue (nes_ppu_get_color_entry s col) / 2) ∧
    (s.ppu.mask &&& 0xE0 ≠ 0xE0 → nes_ppu_get_color_entry s col &&& 0x00FEFEFE ≠ 0 →
      argb_red (nes_ppu_get_color s col) =
        (if BITGET s.ppu.mask NES_PPU_MASK_ERED ≠ 0 then 0xFF
          else argb_red (nes_ppu_get_color_entry s col)) ∧
      argb_green (nes_ppu_get_color s col) =
        (if BITGET s.ppu.mask NES_PPU_MASK_EGREEN ≠ 0 then 0xFF
          else argb_green (nes_ppu_get_color_entry s col)) ∧
      argb_blue (nes_ppu_get_color s col) =
        (if BITGET s.ppu.mask NES_PPU_MASK_EBLUE ≠ 0 then 0xFF
          else argb_blue (nes_ppu_get_color_entry s col))) ∧
    (s.ppu.mask &&& 0xE0 ≠ 0xE0 → nes_ppu_get_color_entry s col &&& 0x00FEFEFE = 0 →
      nes_ppu_get_color s col = nes_ppu_get_color_entry s col ∧
      nes_ppu_get_color s col = 0xFF000000) := by
  have hi : (if BITGET s.ppu.mask NES_PPU_MASK_GRAYSCALE ≠ 0 then col &&& 0x30 else col)
      &&& 0x3F < 64 := Nat.lt_succ_of_le Nat.and_le_right
  unfold nes_ppu_get_color nes_ppu_get_color_entry
  dsimp only
  generalize (if BITGET s.ppu.mask NES_PPU_MASK_GRAYSCALE ≠ 0 then col &&& 0x30 else col)
      &&& 0x3F = i at hi ⊢
  have kd := nes_palette_darken i hi
  have kb := nes_palette_black i hi
  refine ⟨?_, mask_emphasis_all s.ppu.mask, ?_, ?_, ?_⟩
  · by_cases c : s.ppu.mask &&& 0xE0 = 0xE0
    · rw [if_pos c]
      exact kd.1
    · rw [if_neg c]
      by_cases z : nes_palette i &&& 0x00FEFEFE ≠ 0
      · rw [if_pos z]
        by_cases r : BITGET s.ppu.mask NES_PPU_MASK_ERED ≠ 0 <;>
          by_cases g : BITGET s.ppu.mask NES_PPU_MASK_EGREEN ≠ 0 <;>
          by_cases b : BITGET s.ppu.mask NES_PPU_MASK_EBLUE ≠ 0
        · rw [if_pos r, if_pos g, if_pos b]
          exact (nes_palette_emphasis i hi true true true).1
        · rw [if_pos r, if_pos g, if_neg b]
          exact (nes_palette_emphasis i hi true true false).1
        · rw [if_pos r, if_neg g, if_pos b]
          exact (nes_palette_emphasis i hi true false true).1
        · rw [if_pos r, if_neg g, if_neg b]
          exact (nes_palette_emphasis i hi true false false).1
        · rw [if_neg r, if_pos g, if_pos b]
          exact (nes_palette_emphasis i hi false true true).1
        · rw [if_neg r, if_pos g, if_neg b]
          exact (nes_palette_emphasis i hi false true false).1
        · rw [if_neg r, if_neg g, if_pos b]
          exact (nes_palette_emphasis i hi false false true).1
        · rw [if_neg r, if_neg g, if_neg b]
          exact (nes_palette_emphasis i hi false false false).1
      · rw [if_neg z]
        exact kb.1
  · intro c
    rw [if_pos c]
    exact kd.2
  · intro c z
    rw [if_neg c, if_pos z]
    by_cases r : BITGET s.ppu.mask NES_PPU_MASK_ERED ≠ 0 <;>
      by_cases g : BITGET s.ppu.mask NES_PPU_MASK_EGREEN ≠ 0 <;>
      by_cases b : BITGET s.ppu.mask NES_PPU_MASK_EBLUE ≠ 0
    · rw [if_pos r, if_pos g, if_pos b, if_pos r, if_pos g, if_pos b]
      exact (nes_palette_emphasis i hi true true true).2
    · rw [if_pos r, if_pos g, if_neg b, if_pos r, if_pos g, if_neg b]
      exact (nes_palette_emphasis i hi true true false).2
    · rw [if_pos r, if_neg g, if_pos b, if_pos r, if_neg g, if_pos b]
      exact (nes_palette_emphasis i hi true false true).2
    · rw [if_pos r, if_neg g, if_neg b, if_pos r, if_neg g, if_neg b]
      exact (nes_palette_emphasis i hi true false false).2
    · rw [if_neg r, if_pos g, if_pos b, if_neg r, if_pos g, if_pos b]
      exact (nes_palette_emphasis i hi false true true).2
    · rw [if_neg r, if_pos g, if_neg b, if_neg r, if_pos g, if_neg b]
      exact (nes_palette_emphasis i hi false true false).2
    · rw [if_neg r, if_neg g, if_pos b, if_neg r, if_neg g, if_pos b]
      exact (nes_palette_emphasis i hi false false true).2
    · rw [if_neg r, if_neg g, if_neg b, if_neg r, if_neg g, if_neg b]
      exact (nes_palette_emphasis i hi false false false).2
  · intro c z
    have z' : ¬ (nes_palette i &&& 0x00FEFEFE ≠ 0) := fun n => n z
    rw [if_neg c, if_neg z']
    exact ⟨rfl, kb.2.1 z⟩

/-- C33 (counterexample). With only the red emphasis bit set, the colour
index $0F (a black palette entry) gives $FF000000, whose red channel is 0 and
not $FF. -/
theorem get_color_emphasis_black_counterexample :
    nes_emphasis_example.ppu.mask &&& 0xE0 = 0x20 ∧
    BITGET nes_emphasis_example.ppu.mask NES_PPU_MASK_ERED ≠ 0 ∧
    nes_palette (0x0F &&& 0x3F) = 0xFF000000 ∧
    nes_ppu_get_color nes_emphasis_example 0x0F = 0xFF000000 ∧
    argb_red (nes_ppu_get_color nes_emphasis_example 0x0F) = 0 := by
  decide

/-! ## CPU reads of $2007 -/

/-- On every mapper a CPU read of $2007 is a read of PPU register 7. -/
theorem nes_mem_readb_2007 (s : nes_t) : nes_mem_readb s 0x2007 = nes_ppu_read s 7 := by
  unfold nes_mem_readb
  split
  · unfold nes_mem_read_nrom
    rw [if_neg (by omega), if_neg (by omega), if_pos (by omega)]
    rfl
  · unfold nes_mem_read_mmc1
    rw [if_neg (by omega), if_neg (by omega), if_pos (by omega)]
    rfl
  · unfold nes_mem_read_cnrom
    rw [if_neg (by omega), if_neg (by omega), if_pos (by omega)]
    rfl
  · unfold nes_mem_read_mmc3
    rw [if_neg (by omega), if_neg (by omega), if_pos (by omega)]
    rfl

/-- On every mapper a PPU read at $3F00-$3FFF (and its mirrors) is a read of
palette memory. -/
theorem nes_vmem_readb_pal (s : nes_t) (a : Nat) (h : 0x3F00 ≤ a &&& 0x3FFF) :
    nes_vmem_readb s a =
      s.vmem.pal (if (a &&& 0x3FFF) &&& 0x001F ≥ 0x10 ∧ ((a &&& 0x3FFF) &&& 0x001F) &&& 0x03 = 0
        then ((a &&& 0x3FFF) &&& 0x001F) - 0x10 else (a &&& 0x3FFF) &&& 0x001F) := by
  unfold nes_vmem_readb
  split
  · unfold nes_vmem_read_nrom
    dsimp only
    rw [if_pos h]
  · unfold nes_vmem_read_mmc1
    dsimp only
    rw [if_pos h]
  · unfold nes_vmem_read_cnrom
    dsimp only
    rw [if_pos h]
  · unfold nes_vmem_read_mmc3
    dsimp only
    rw [if_pos h]

/-- C34. A CPU read of $2007, with `v` the 16-bit video memory pointer:
when `(v & 0x3FFF) < 0x3F00` it returns the previous content of the read
buffer and loads the buffer with the PPU byte at `v`; when
`(v & 0x3FFF) >= 0x3F00` it returns the PPU byte at `v`, which is a palette
byte, and loads the buffer with the PPU byte at `v - 0x1000`.  In both cases
`v` is afterwards increased (as a 16-bit value) by 32 if PPUCTRL bit 2 is set
and by 1 otherwise, and nothing else in the machine changes. -/
theorem ppudata_read_buffer (s : nes_t) (hv : s.ppu.vmem_addr < 0x10000) :
    (s.ppu.vmem_addr &&& 0x3FFF < 0x3F00 →
      (nes_mem_readb s 0x2007).1 = s.ppu.readb ∧
      (nes_mem_readb s 0x2007).2.ppu.readb = nes_vmem_readb s s.ppu.vmem_addr) ∧
    (0x3F00 ≤ s.ppu.vmem_addr &&& 0x3FFF →
      (nes_mem_readb s 0x2007).1 = nes_vmem_readb s s.ppu.vmem_addr ∧
      (nes_mem_readb s 0x2007).1 =
        s.vmem.pal (if (s.ppu.vmem_addr &&& 0x3FFF) &&& 0x001F ≥ 0x10 ∧
            ((s.ppu.vmem_addr &&& 0x3FFF) &&& 0x001F) &&& 0x03 = 0
          then ((s.ppu.vmem_addr &&& 0x3FFF) &&& 0x001F) - 0x10
          else (s.ppu.vmem_addr &&& 0x3FFF) &&& 0x001F) ∧
      0x1000 ≤ s.ppu.vmem_addr ∧
      (nes_mem_readb s 0x2007).2.ppu.readb = nes_vmem_readb s (s.ppu.vmem_addr - 0x1000)) ∧
    (nes_mem_readb s 0x2007).2.ppu.vmem_addr =
      (s.ppu.vmem_addr + (if s.ppu.ctrl &&& 0x04 ≠ 0 then 32 else 1)) % 0x10000 ∧
    (nes_mem_readb s 0x2007).2 =
      { s with ppu := { s.ppu with
          readb := (nes_mem_readb s 0x2007).2.ppu.readb
          vmem_addr := (nes_mem_readb s 0x2007).2.ppu.vmem_addr } } := by
  rw [nes_mem_readb_2007]
  unfold nes_ppu_read
  dsimp only
  by_cases c : s.ppu.vmem_addr &&& 0x3FFF < 0x3F00
  · rw [if_pos c]
    refine ⟨fun _ => ⟨rfl, rfl⟩, fun c' => absurd c (by omega), rfl, rfl⟩
  · rw [if_neg c]
    have h1 : 0x3F00 ≤ s.ppu.vmem_addr := by
      have : s.ppu.vmem_addr &&& 0x3FFF ≤ s.ppu.vmem_addr := Nat.and_le_left
      omega
    have e : (s.ppu.vmem_addr + 0x10000 - 0x1000) % 0x10000 = s.ppu.vmem_addr - 0x1000 := by
      omega
    refine ⟨fun c' => absurd c' c, fun c' => ⟨rfl, nes_vmem_readb_pal s _ c', by omega, ?_⟩,
      rfl, rfl⟩
    show nes_vmem_readb s ((s.ppu.vmem_addr + 0x10000 - 0x1000) % 0x10000) = _
    rw [e]

/-- The theorem `ppudata_read_buffer` at a concrete state: with `v` = $3F10 the
read returns palette byte 0 ($20), the buffer is loaded with the nametable byte
at $2F10 ($77) and `v` becomes $3F30. -/
theorem ppudata_read_buffer_witness :
    (nes_mem_readb nes_ppudata_example 0x2007).1 = 0x20 ∧
    (nes_mem_readb nes_ppudata_example 0x2007).2.ppu.readb = 0x77 ∧
    (nes_mem_readb nes_ppudata_example 0x2007).2.ppu.vmem_addr = 0x3F30 ∧
    (nes_mem_readb nes_ppudata_example 0x2007).2.ppu.vmem_addr =
      (nes_ppudata_example.ppu.vmem_addr +
        (if nes_ppudata_example.ppu.ctrl &&& 0x04 ≠ 0 then 32 else 1)) % 0x10000 :=
  ⟨by decide, by decide, by decide,
    (ppudata_read_buffer nes_ppudata_example (by decide)).2.2.1⟩

/-! ## nes_ppu_render_pixel -/

/-- The colour that the sprite loop returns is a 4-bit value. -/
theorem nes_ppu_get_spr_pixel_loop_le (k : Nat) : ∀ (i : Nat) (s : nes_t),
    (nes_ppu_get_spr_pixel_loop k i s).1 ≤ 15 := by
  induction k with
  | zero =>
    intro i s
    show (0 : Nat) ≤ 15
    omega
  | succ k ih =>
    intro i s
    unfold nes_ppu_get_spr_pixel_loop
    dsimp only
    by_cases c : s.ppu.cycle - 1 - ((s.ppu.spr i).pos : Int) < 0 ∨
        s.ppu.cycle - 1 - ((s.ppu.spr i).pos : Int) > 7
    · rw [if_pos c]
      exact ih (i + 1) s
    · rw [if_neg c]
      by_cases z : ((((s.ppu.spr i).data >>>
          (Int.toNat (7 - (s.ppu.cycle - 1 - ((s.ppu.spr i).pos : Int))) * 4)) &&& 0x0F) % 0x100)
          &&& 0x03 = 0
      · rw [if_pos z]
        exact ih (i + 1) s
      · rw [if_neg z]
        exact (Nat.mod_le _ _).trans Nat.and_le_right

/-- The sprite pixel that is composed is a 4-bit value. -/
theorem nes_ppu_render_pixel_spr_le (s : nes_t) : nes_ppu_render_pixel_spr s ≤ 15 := by
  unfold nes_ppu_render_pixel_spr
  by_cases c : s.ppu.cycle - 1 < 8 ∧ BITGET s.ppu.mask NES_PPU_MASK_LEFTSPR = 0
  · rw [if_pos c]
    omega
  · rw [if_neg c]
    unfold nes_ppu_get_spr_pixel
    by_cases d : BITGET s.ppu.mask NES_PPU_MASK_SPR = 0
    · rw [if_pos d]
      show (0 : Nat) ≤ 15
      omega
    · rw [if_neg d]
      exact nes_ppu_get_spr_pixel_loop_le _ _ _

/-- Setting bit 4 of a 4-bit value needs no truncation to a byte. -/
theorem or_0x10_mod (x : Nat) (h : x ≤ 15) : (x ||| 0x10) % 0x100 = x ||| 0x10 :=
  Nat.mod_eq_of_lt (Nat.or_lt_two_pow (n := 8) (by omega) (by decide))

/-- The background pixel that is composed is a 4-bit value. -/
theorem nes_ppu_render_pixel_bg_le (s : nes_t) : nes_ppu_render_pixel_bg s ≤ 15 := by
  unfold nes_ppu_render_pixel_bg
  by_cases c : s.ppu.cycle - 1 < 8 ∧ BITGET s.ppu.mask NES_PPU_MASK_LEFTBG = 0
  · rw [if_pos c]
    omega
  · rw [if_neg c]
    unfold nes_ppu_get_bg_pixel
    by_cases d : BITGET s.ppu.mask NES_PPU_MASK_BG = 0
    · rw [if_pos d]
      omega
    · rw [if_neg d]
      exact (Nat.mod_le _ _).trans Nat.and_le_right

/-- The chain of tests in `nes_ppu_render_pixel` chooses the palette index
that the specification words. -/
theorem nes_ppu_render_pixel_col_eq (b p q : Nat) (hp : p ≤ 15) :
    (if b &&& 0x03 ≠ 0 ∧ p &&& 0x03 = 0 then b
      else if b &&& 0x03 = 0 ∧ p &&& 0x03 ≠ 0 then (p ||| 0x10) % 0x100
      else if b &&& 0x03 ≠ 0 ∧ p &&& 0x03 ≠ 0 then
        (if q = 0 then (p ||| 0x10) % 0x100 else b)
      else 0x00) = spec_pixel_palette_index b p q := by
  rw [or_0x10_mod p hp]
  unfold spec_pixel_palette_index
  by_cases hb : b &&& 0x03 = 0 <;> by_cases hs : p &&& 0x03 = 0 <;> simp [hb, hs]

/-! ## nes_ppu_process_sprites -/

/-- The loop of `nes_ppu_process_sprites` over the sprites `i .. i + k - 1`,
started with `n` entries filled: the count grows by the number of sprites on
the line, entry `j` for `n ≤ j < 8` is filled with the `(j - n)`-th of them,
and every other entry stays. -/
theorem nes_ppu_process_sprites_loop_spec (s : nes_t) (h : Int) (k : Nat) :
    ∀ (i n : Nat) (f : Nat → nes_ppu_spr_t),
      (nes_ppu_process_sprites_loop k i h { s with ppu := { s.ppu with spr := f } } n).2 =
        n + ((List.range' i k).filter (sprite_on_line s h)).length ∧
      ∃ g : Nat → nes_ppu_spr_t,
        (nes_ppu_process_sprites_loop k i h { s with ppu := { s.ppu with spr := f } } n).1 =
          { s with ppu := { s.ppu with spr := g } } ∧
        ∀ j : Nat, g j =
          if n ≤ j ∧ j < 8 ∧ j - n < ((List.range' i k).filter (sprite_on_line s h)).length
          then nes_ppu_sprite_entry s (((List.range' i k).filter (sprite_on_line s h)).getD
            (j - n) 0)
          else f j := by
  induction k with
  | zero =>
    intro i n f
    refine ⟨rfl, f, rfl, fun j => ?_⟩
    rw [if_neg]
    intro c
    exact absurd c.2.2 (Nat.not_lt_zero _)
  | succ k ih =>
    intro i n f
    unfold nes_ppu_process_sprites_loop
    dsimp only
    rw [List.range'_succ]
    by_cases c : s.ppu.scanline - (s.vmem.oam (i * 4 + 0) : Int) < 0 ∨
        s.ppu.scanline - (s.vmem.oam (i * 4 + 0) : Int) ≥ h
    · rw [if_pos c]
      have p : sprite_on_line s h i = false := by
        unfold sprite_on_line
        rw [decide_eq_false_iff_not]
        intro q
        have q1 : 0 ≤ s.ppu.scanline - (s.vmem.oam (i * 4 + 0) : Int) := q.1
        have q2 : s.ppu.scanline - (s.vmem.oam (i * 4 + 0) : Int) < h := q.2
        omega
      rw [List.filter_cons_of_neg (by rw [p]; decide)]
      exact ih (i + 1) n f
    · rw [if_neg c]
      have p : sprite_on_line s h i = true := by
        unfold sprite_on_line
        rw [decide_eq_true_iff]
        show 0 ≤ s.ppu.scanline - (s.vmem.oam (i * 4 + 0) : Int) ∧
          s.ppu.scanline - (s.vmem.oam (i * 4 + 0) : Int) < h
        omega
      rw [List.filter_cons_of_pos p]
      obtain ⟨k1, g, k2, k3⟩ :=
        ih (i + 1) (n + 1) (if n < 8 then arr_set f n (nes_ppu_sprite_entry s i) else f)
      generalize (List.range' (i + 1) k).filter (sprite_on_line s h) = l at k1 k3 ⊢
      refine ⟨k1.trans ?_, g, k2, fun j => ?_⟩
      · rw [List.length_cons]
        omega
      · rw [k3 j, List.length_cons]
        by_cases a : n + 1 ≤ j ∧ j < 8 ∧ j - (n + 1) < l.length
        · rw [if_pos a, if_pos (by omega)]
          obtain ⟨m, rfl⟩ : ∃ m, j = n + 1 + m := ⟨j - (n + 1), by omega⟩
          rw [show n + 1 + m - (n + 1) = m by omega, show n + 1 + m - n = m + 1 by omega]
          rfl
        · rw [if_neg a]
          by_cases b : j = n
          · subst b
            by_cases d : j < 8
            · rw [if_pos d, arr_set_same, if_pos (by omega), Nat.sub_self]
              rfl
            · rw [if_neg d, if_neg (by omega)]
          · have e : (if n < 8 then arr_set f n (nes_ppu_sprite_entry s i) else f) j = f j := by
              by_cases d : n < 8
              · rw [if_pos d, arr_set_other _ _ _ _ b]
              · rw [if_neg d]
            rw [e, if_neg (by omega)]

/-- C31. With `sprites_on_line s` the OAM indices `i < 64`, in
increasing order, whose `y` satisfies `0 <= L - y < h` (`L` the scanline, `h`
the sprite height 8 or 16) and `k` their number: `nes_ppu_process_sprites`
sets `spr_count` to `min(8, k)`, fills the entries `0 .. spr_count - 1` with
the first `spr_count` of them (pattern row, x position, attribute bit 5 as
priority, OAM index) and leaves the other entries as they are; it sets the
sprite-overflow flag (status bit 5) when `k > 8` and leaves the status as it is
otherwise; it changes nothing else. -/
theorem process_sprites_first_eight (s : nes_t) :
    (∀ i : Nat, i ∈ sprites_on_line s ↔
      (i < 64 ∧ 0 ≤ s.ppu.scanline - (s.vmem.oam (i * 4) : Int) ∧
        s.ppu.scanline - (s.vmem.oam (i * 4) : Int) <
          (if s.ppu.ctrl &&& 0x20 ≠ 0 then 16 else 8))) ∧
    (sprites_on_line s).Pairwise (fun a b => a < b) ∧
    (nes_ppu_process_sprites s).ppu.spr_count = min 8 (sprites_on_line s).length ∧
    (∀ j : Nat, j < min 8 (sprites_on_line s).length →
      (nes_ppu_process_sprites s).ppu.spr j =
        nes_ppu_sprite_entry s ((sprites_on_line s).getD j 0) ∧
      ((nes_ppu_process_sprites s).ppu.spr j).pos =
        s.vmem.oam ((sprites_on_line s).getD j 0 * 4 + 3) ∧
      ((nes_ppu_process_sprites s).ppu.spr j).pri =
        (s.vmem.oam ((sprites_on_line s).getD j 0 * 4 + 2) >>> 5) &&& 0x01 ∧
      ((nes_ppu_process_sprites s).ppu.spr j).idx = (sprites_on_line s).getD j 0) ∧
    (∀ j : Nat, min 8 (sprites_on_line s).length ≤ j →
      (nes_ppu_process_sprites s).ppu.spr j = s.ppu.spr j) ∧
    (8 < (sprites_on_line s).length →
      (nes_ppu_process_sprites s).ppu.status =
        BITSET s.ppu.status NES_PPU_STATUS_OVERFLOW % 0x100 ∧
      (nes_ppu_process_sprites s).ppu.status &&& 0x20 = 0x20) ∧
    ((sprites_on_line s).length ≤ 8 →
      (nes_ppu_process_sprites s).ppu.status = s.ppu.status) ∧
    nes_ppu_process_sprites s =
      { s with ppu := { s.ppu with
          spr := (nes_ppu_process_sprites s).ppu.spr
          status := (nes_ppu_process_sprites s).ppu.status
          spr_count := (nes_ppu_process_sprites s).ppu.spr_count } } := by
  obtain ⟨k1, g, k2, k3⟩ :=
    nes_ppu_process_sprites_loop_spec s (nes_ppu_sprite_height s) 64 0 0 s.ppu.spr
  have e : (List.range' 0 64).filter (sprite_on_line s (nes_ppu_sprite_height s)) =
      sprites_on_line s := by
    unfold sprites_on_line
    rw [List.range_eq_range']
  rw [e] at k1 k3
  have k1' : (nes_ppu_process_sprites_loop 64 0 (nes_ppu_sprite_height s) s 0).2 =
      (sprites_on_line s).length := k1.trans (Nat.zero_add _)
  have k2' : (nes_ppu_process_sprites_loop 64 0 (nes_ppu_sprite_height s) s 0).1 =
      { s with ppu := { s.ppu with spr := g } } := k2
  have key : nes_ppu_process_sprites s =
      { s with ppu := { s.ppu with
          spr := g
          status :=
            (if (sprites_on_line s).length > 8
              then BITSET s.ppu.status NES_PPU_STATUS_OVERFLOW % 0x100
              else s.ppu.status)
          spr_count :=
            (if (sprites_on_line s).length > 8 then 8 else (sprites_on_line s).length) } } := by
    unfold nes_ppu_process_sprites
    dsimp only
    show (fun r : nes_t × Nat => ({ r.1 with ppu := { r.1.ppu with
        status :=
          (if r.2 > 8 then BITSET r.1.ppu.status NES_PPU_STATUS_OVERFLOW % 0x100
            else r.1.ppu.status)
        spr_count := (if r.2 > 8 then 8 else r.2) } } : nes_t))
      (nes_ppu_process_sprites_loop 64 0 (nes_ppu_sprite_height s) s 0) = _
    rw [show nes_ppu_process_sprites_loop 64 0 (nes_ppu_sprite_height s) s 0 =
      ({ s with ppu := { s.ppu with spr := g } }, (sprites_on_line s).length) from
        Prod.ext k2' k1']
  rw [key]
  generalize hl : sprites_on_line s = l at k3
  refine ⟨?_, ?_, ?_, fun j hj => ?_, fun j hj => ?_, fun c => ?_, fun c => ?_, rfl⟩
  · intro i
    rw [← hl]
    unfold sprites_on_line sprite_on_line nes_ppu_sprite_height
    rw [List.mem_filter, List.mem_range, decide_eq_true_iff]
    rfl
  · rw [← hl]
    unfold sprites_on_line
    exact List.Pairwise.filter _ (List.pairwise_lt_range 64)
  · show (if l.length > 8 then 8 else l.length) = min 8 l.length
    split_ifs <;> omega
  · have e1 : g j = nes_ppu_sprite_entry s (l.getD j 0) := by
      rw [k3 j, if_pos (by omega)]
      rfl
    have e2 : ({ s with ppu := { s.ppu with
          spr := g
          status :=
            (if l.length > 8
              then BITSET s.ppu.status NES_PPU_STATUS_OVERFLOW % 0x100
              else s.ppu.status)
          spr_count := (if l.length > 8 then 8 else l.length) } } : nes_t).ppu.spr j =
        nes_ppu_sprite_entry s (l.getD j 0) := e1
    rw [e2]
    exact ⟨rfl, rfl, rfl, rfl⟩
  · show g j = s.ppu.spr j
    rw [k3 j, if_neg (by omega)]
  · have e1 : ({ s with ppu := { s.ppu with
          spr := g
          status :=
            (if l.length > 8
              then BITSET s.ppu.status NES_PPU_STATUS_OVERFLOW % 0x100
              else s.ppu.status)
          spr_count := (if l.length > 8 then 8 else l.length) } } : nes_t).ppu.status =
        BITSET s.ppu.status NES_PPU_STATUS_OVERFLOW % 0x100 := if_pos c
    rw [e1]
    exact ⟨rfl, bitmset_mod_and_self s.ppu.status 0x20 (by decide)⟩
  · show (if l.length > 8 then _ else _) = _
    rw [if_neg (by omega)]

/-! ## The dot position and the frame buffers under the steps of the machine -/

theorem ppu_screen_kept_refl (s : nes_t) : ppu_screen_kept s s := ⟨rfl, rfl, rfl, rfl⟩

theorem ppu_screen_kept_trans (a b c : nes_t) (h1 : ppu_screen_kept a b)
    (h2 : ppu_screen_kept b c) : ppu_screen_kept a c :=
  ⟨h1.1.trans h2.1, h1.2.1.trans h2.2.1, h1.2.2.1.trans h2.2.2.1, h1.2.2.2.trans h2.2.2.2⟩

/-- A state with the same PPU keeps the position and the buffers. -/
theorem ppu_screen_kept_of_ppu (t s : nes_t) (h : t.ppu = s.ppu) : ppu_screen_kept t s := by
  unfold ppu_screen_kept
  rw [h]
  exact ⟨rfl, rfl, rfl, rfl⟩

/-- A conditional step keeps the position and the buffers when the step
does. -/
theorem ppu_screen_kept_ite (f : nes_t → nes_t) (hf : ∀ t, ppu_screen_kept (f t) t)
    (c : Prop) [Decidable c] (t : nes_t) : ppu_screen_kept (if c then f t else t) t := by
  by_cases h : c
  · rw [if_pos h]
    exact hf t
  · rw [if_neg h]
    exact ppu_screen_kept_refl t

theorem nes_ppu_nmi_update_screen (s : nes_t) : ppu_screen_kept (nes_ppu_nmi_update s) s := by
  unfold nes_ppu_nmi_update
  dsimp only
  split_ifs <;> exact ⟨rfl, rfl, rfl, rfl⟩

theorem nes_ppu_read_screen (s : nes_t) (r : Nat) : ppu_screen_kept (nes_ppu_read s r).2 s := by
  unfold nes_ppu_read
  split
  · exact ⟨rfl, rfl, rfl, rfl⟩
  · exact ⟨rfl, rfl, rfl, rfl⟩
  · have h := nes_ppu_nmi_update_screen
      { s with ppu := { s.ppu with flags := BITCLR s.ppu.flags NES_PPU_FLAG_NMI % 0x100 } }
    dsimp only
    generalize nes_ppu_nmi_update
      { s with ppu := { s.ppu with flags := BITCLR s.ppu.flags NES_PPU_FLAG_NMI % 0x100 } } = t
      at h ⊢
    exact ⟨h.1, h.2.1, h.2.2.1, h.2.2.2⟩
  · exact ⟨rfl, rfl, rfl, rfl⟩
  · exact ⟨rfl, rfl, rfl, rfl⟩
  · exact ⟨rfl, rfl, rfl, rfl⟩
  · exact ⟨rfl, rfl, rfl, rfl⟩
  · dsimp only
    by_cases c : s.ppu.vmem_addr &&& 0x3FFF < 0x3F00
    · rw [if_pos c]
      exact ⟨rfl, rfl, rfl, rfl⟩
    · rw [if_neg c]
      exact ⟨rfl, rfl, rfl, rfl⟩
  · exact ⟨rfl, rfl, rfl, rfl⟩

theorem nes_ppu_write_screen (s : nes_t) (r v : Nat) :
    ppu_screen_kept (nes_ppu_write s r v) s := by
  have hv := (nes_vmem_writeb_frame (nes_ppu_refresh_bus s v)
    (nes_ppu_refresh_bus s v).ppu.vmem_addr v).2.2.2.1
  have hn := nes_ppu_nmi_update_screen
    { nes_ppu_refresh_bus s v with ppu := { (nes_ppu_refresh_bus s v).ppu with ctrl := v } }
  unfold nes_ppu_write
  split
  · dsimp only
    generalize nes_ppu_nmi_update
      { nes_ppu_refresh_bus s v with ppu := { (nes_ppu_refresh_bus s v).ppu with ctrl := v } }
      = t at hn ⊢
    exact ⟨hn.1, hn.2.1, hn.2.2.1, hn.2.2.2⟩
  · exact ⟨rfl, rfl, rfl, rfl⟩
  · exact ⟨rfl, rfl, rfl, rfl⟩
  · exact ⟨rfl, rfl, rfl, rfl⟩
  · exact ⟨rfl, rfl, rfl, rfl⟩
  · dsimp only
    by_cases c : BITGET (nes_ppu_refresh_bus s v).ppu.flags NES_PPU_FLAG_OFFSET = 0
    · rw [if_pos c]
      exact ⟨rfl, rfl, rfl, rfl⟩
    · rw [if_neg c]
      exact ⟨rfl, rfl, rfl, rfl⟩
  · dsimp only
    by_cases c : BITGET (nes_ppu_refresh_bus s v).ppu.flags NES_PPU_FLAG_OFFSET = 0
    · rw [if_pos c]
      exact ⟨rfl, rfl, rfl, rfl⟩
    · rw [if_neg c]
      exact ⟨rfl, rfl, rfl, rfl⟩
  · dsimp only
    generalize nes_vmem_writeb (nes_ppu_refresh_bus s v) (nes_ppu_refresh_bus s v).ppu.vmem_addr v
      = t at hv ⊢
    unfold ppu_screen_kept
    dsimp only
    rw [hv]
    exact ⟨rfl, rfl, rfl, rfl⟩
  · exact ⟨rfl, rfl, rfl, rfl⟩

theorem nes_mem_readb_screen (s : nes_t) (a : Nat) :
    ppu_screen_kept (nes_mem_readb s a).2 s :=
  nes_mem_readb_cases (fun t => ppu_screen_kept t s) s a (ppu_screen_kept_refl s)
    (ppu_screen_kept_of_ppu _ _ (nes_input_read_frame s (a - 0x4016)).2.2.2.2.1)
    (nes_ppu_read_screen s (a &&& 0x0007))

theorem nes_ppu_oamdma_loop_screen (n : Nat) (s : nes_t) (a : Nat) :
    ppu_screen_kept (nes_ppu_oamdma_loop n s a) s := by
  induction n generalizing s a with
  | zero => exact ppu_screen_kept_refl s
  | succ n ih =>
    have hr := nes_mem_readb_screen s a
    unfold nes_ppu_oamdma_loop
    dsimp only
    generalize nes_mem_readb s a = r at hr ⊢
    refine ppu_screen_kept_trans _ _ _ (ih _ _) ?_
    exact ⟨hr.1, hr.2.1, hr.2.2.1, hr.2.2.2⟩

theorem nes_ppu_oamdma_screen (s : nes_t) (p : Nat) : ppu_screen_kept (nes_ppu_oamdma s p) s := by
  have h := nes_ppu_oamdma_loop_screen 256 s ((p * 0x100) % 0x10000)
  unfold nes_ppu_oamdma
  dsimp only
  generalize nes_ppu_oamdma_loop 256 s ((p * 0x100) % 0x10000) = t at h ⊢
  exact ⟨h.1, h.2.1, h.2.2.1, h.2.2.2⟩

/-- A CPU bus write keeps the dot position and the frame buffers. -/
theorem nes_mem_writeb_screen (s : nes_t) (a v : Nat) :
    ppu_screen_kept (nes_mem_writeb s a v) s := by
  refine nes_mem_writeb_cases (fun t => ppu_screen_kept t s) s a v (ppu_screen_kept_refl s)
    ⟨rfl, rfl, rfl, rfl⟩ (nes_ppu_write_screen s _ v) (nes_ppu_oamdma_screen s v)
    (ppu_screen_kept_of_ppu _ _ (nes_input_write_frame s _ v).2.2.2.1)
    (ppu_screen_kept_of_ppu _ _ (nes_apu_write_frame _ s _ v).2.2.1)
    (ppu_screen_kept_of_ppu _ _ (nes_prgram_write_frame s _ v).2.2.1)
    (ppu_screen_kept_of_ppu _ _ (nes_mmc1_write_reg_frame s a v).2.2.1)
    (ppu_screen_kept_of_ppu _ _ (nes_mmc3_write_frame s a v).2.2.1)
    ⟨rfl, rfl, rfl, rfl⟩

/-- The NMI entry keeps the dot position and the frame buffers. -/
theorem nes_cpu_nmi_screen (s : nes_t) : ppu_screen_kept (nes_cpu_nmi s) s :=
  (nes_cpu_irq_nmi_pred (fun t => ppu_screen_kept t s)
    (fun t a v ht => ppu_screen_kept_trans _ _ _ (nes_mem_writeb_screen t a v) ht)
    (fun _ _ ht => ⟨ht.1, ht.2.1, ht.2.2.1, ht.2.2.2⟩)
    (fun t a ht => ppu_screen_kept_trans _ _ _ (nes_mem_readb_screen t a) ht)
    s (ppu_screen_kept_refl s)).2

theorem nes_ppu_clock_nmi_screen (s : nes_t) : ppu_screen_kept (nes_ppu_clock_nmi s) s := by
  unfold nes_ppu_clock_nmi
  dsimp only
  by_cases c : s.ppu.nmi_delay > 0
  · rw [if_pos c]
    by_cases d : s.ppu.nmi_delay - 1 = 0 ∧ BITGET s.ppu.ctrl NES_PPU_CTRL_NMI ≠ 0 ∧
        BITGET s.ppu.flags NES_PPU_FLAG_NMI ≠ 0
    · rw [if_pos d]
      have h := nes_cpu_nmi_screen
        { s with ppu := { s.ppu with nmi_delay := s.ppu.nmi_delay - 1 } }
      exact ⟨h.1, h.2.1, h.2.2.1, h.2.2.2⟩
    · rw [if_neg d]
      exact ⟨rfl, rfl, rfl, rfl⟩
  · rw [if_neg c]
    exact ppu_screen_kept_refl s

/-- The counting step keeps the two frame buffers. -/
theorem nes_ppu_clock_count_buffers (p : nes_ppu_t) :
    (nes_ppu_clock_count p).back = p.back ∧ (nes_ppu_clock_count p).front = p.front := by
  unfold nes_ppu_clock_count
  dsimp only
  split_ifs <;> exact ⟨rfl, rfl⟩

/-! ## The rendering steps of a tick and the frame buffers -/

theorem ppu_tile_update_screen (s : nes_t) (v : nes_ppu_tile_t) :
    ppu_screen_kept { s with ppu := { s.ppu with tile := v } } s := ⟨rfl, rfl, rfl, rfl⟩

theorem ppu_vmem_addr_update_screen (s : nes_t) (v : Nat) :
    ppu_screen_kept { s with ppu := { s.ppu with vmem_addr := v } } s := ⟨rfl, rfl, rfl, rfl⟩

theorem nes_ppu_fetch_tile_screen (s : nes_t) (hi : Nat) :
    ppu_screen_kept (nes_ppu_fetch_tile s hi) s := by
  unfold nes_ppu_fetch_tile
  dsimp only
  by_cases c : hi ≠ 0
  · rw [if_pos c]
    exact ppu_tile_update_screen s _
  · rw [if_neg c]
    exact ppu_tile_update_screen s _

theorem nes_ppu_tick_fetch_screen (s : nes_t) : ppu_screen_kept (nes_ppu_tick_fetch s) s := by
  have h0 : ppu_screen_kept { s with ppu := { s.ppu with tile := { s.ppu.tile with
      data := (s.ppu.tile.data <<< 4) % 0x10000000000000000 } } } s :=
    ppu_tile_update_screen s _
  unfold nes_ppu_tick_fetch
  dsimp only
  generalize ({ s with ppu := { s.ppu with tile := { s.ppu.tile with
      data := (s.ppu.tile.data <<< 4) % 0x10000000000000000 } } } : nes_t) = t at h0 ⊢
  split
  · exact ppu_screen_kept_trans _ _ _ (ppu_tile_update_screen t _) h0
  · exact ppu_screen_kept_trans _ _ _ (ppu_tile_update_screen t _) h0
  · exact ppu_screen_kept_trans _ _ _ (nes_ppu_fetch_tile_screen t _) h0
  · exact ppu_screen_kept_trans _ _ _ (nes_ppu_fetch_tile_screen t _) h0
  · exact ppu_screen_kept_trans _ _ _ (ppu_tile_update_screen t _) h0
  · exact h0

theorem nes_ppu_tick_scroll_screen (s : nes_t) (fc : Bool) :
    ppu_screen_kept (nes_ppu_tick_scroll s fc) s := by
  have hx : ∀ t, ppu_screen_kept (nes_ppu_increment_x t) t :=
    fun t => ppu_vmem_addr_update_screen t _
  have hy : ∀ t, ppu_screen_kept (nes_ppu_increment_y t) t :=
    fun t => ppu_vmem_addr_update_screen t _
  have hc : ∀ t, ppu_screen_kept (nes_ppu_copy_x t) t :=
    fun t => ppu_vmem_addr_update_screen t _
  unfold nes_ppu_tick_scroll
  dsimp only
  refine ppu_screen_kept_trans _ _ _ (ppu_screen_kept_ite nes_ppu_copy_x hc _ _) ?_
  refine ppu_screen_kept_trans _ _ _ (ppu_screen_kept_ite nes_ppu_increment_y hy _ _) ?_
  exact ppu_screen_kept_ite nes_ppu_increment_x hx _ _

theorem nes_ppu_process_sprites_loop_screen (k i : Nat) (hh : Int) (s : nes_t) (n : Nat) :
    ppu_screen_kept (nes_ppu_process_sprites_loop k i hh s n).1 s := by
  induction k generalizing i s n with
  | zero => exact ppu_screen_kept_refl s
  | succ k ih =>
    unfold nes_ppu_process_sprites_loop
    dsimp only
    by_cases c : s.ppu.scanline - (s.vmem.oam (i * 4 + 0) : Int) < 0 ∨
        s.ppu.scanline - (s.vmem.oam (i * 4 + 0) : Int) ≥ hh
    · rw [if_pos c]
      exact ih _ _ _
    · rw [if_neg c]
      exact ppu_screen_kept_trans _ _ _ (ih _ _ _) ⟨rfl, rfl, rfl, rfl⟩

theorem nes_ppu_process_sprites_screen (s : nes_t) :
    ppu_screen_kept (nes_ppu_process_sprites s) s := by
  have hl := nes_ppu_process_sprites_loop_screen 64 0
    (if BITGET s.ppu.ctrl NES_PPU_CTRL_SPRSIZE ≠ 0 then 16 else 8) s 0
  unfold nes_ppu_process_sprites
  dsimp only
  generalize nes_ppu_process_sprites_loop 64 0
    (if BITGET s.ppu.ctrl NES_PPU_CTRL_SPRSIZE ≠ 0 then 16 else 8) s 0 = r at hl ⊢
  exact ⟨hl.1, hl.2.1, hl.2.2.1, hl.2.2.2⟩

/-- The rendering work of a tick after the pixel: tile fetch, scroll updates
and sprite evaluation keep the dot position and the frame buffers. -/
theorem nes_ppu_tick_render_screen (s : nes_t) (b1 b2 b3 b4 b5 : Bool) :
    ppu_screen_kept (nes_ppu_tick_render s b1 b2 b3 b4 b5)
      (if b2 = true ∧ b4 = true then nes_ppu_render_pixel s else s) := by
  unfold nes_ppu_tick_render
  dsimp only
  generalize (if b2 = true ∧ b4 = true then nes_ppu_render_pixel s else s) = n1
  have k5 : ∀ t : nes_t, ppu_screen_kept
      (if t.ppu.cycle = 257 then
        (if b2 = true then nes_ppu_process_sprites t
          else { t with ppu := { t.ppu with spr_count := 0 } })
        else t) t := by
    intro t
    by_cases c : t.ppu.cycle = 257
    · rw [if_pos c]
      by_cases d : b2 = true
      · rw [if_pos d]
        exact nes_ppu_process_sprites_screen t
      · rw [if_neg d]
        exact ⟨rfl, rfl, rfl, rfl⟩
    · rw [if_neg c]
      exact ppu_screen_kept_refl t
  refine ppu_screen_kept_trans _ _ _ (k5 _) ?_
  refine ppu_screen_kept_trans _ _ _
    (ppu_screen_kept_ite (fun t => nes_ppu_tick_scroll t b5)
      (fun t => nes_ppu_tick_scroll_screen t b5) _ _) ?_
  refine ppu_screen_kept_trans _ _ _
    (ppu_screen_kept_ite nes_ppu_copy_y (fun t => ppu_vmem_addr_update_screen t _) _ _) ?_
  exact ppu_screen_kept_ite nes_ppu_tick_fetch nes_ppu_tick_fetch_screen _ _

/-- A pixel store changes the back buffer at most in the element stored. -/
theorem nes_ppu_put_pixel_stored (t : nes_t) (y x : Int) (v : Nat) (y' x' : Nat)
    (h : ¬ (y' = Int.toNat y ∧ x' = Int.toNat x)) :
    (nes_ppu_put_pixel t y x v).ppu.back.data y' x' = t.ppu.back.data y' x' := by
  show arr_set t.ppu.back.data (Int.toNat y)
    (arr_set (t.ppu.back.data (Int.toNat y)) (Int.toNat x) v) y' x' = _
  by_cases hy : y' = Int.toNat y
  · rw [hy, arr_set_same, arr_set_other _ _ _ _ (fun hx => h ⟨hy, hx⟩)]
  · rw [arr_set_other _ _ _ _ hy]

/-- The pixel store of `nes_ppu_render_pixel`. -/
theorem nes_ppu_render_pixel_stored (t : nes_t) (y' x' : Nat)
    (h : ¬ (y' = Int.toNat t.ppu.scanline ∧ x' = Int.toNat (t.ppu.cycle - 1))) :
    (nes_ppu_render_pixel t).ppu.cycle = t.ppu.cycle ∧
    (nes_ppu_render_pixel t).ppu.scanline = t.ppu.scanline ∧
    (nes_ppu_render_pixel t).ppu.front = t.ppu.front ∧
    (nes_ppu_render_pixel t).ppu.back.data y' x' = t.ppu.back.data y' x' := by
  unfold nes_ppu_render_pixel
  dsimp only
  refine ⟨rfl, rfl, rfl, ?_⟩
  rw [nes_ppu_put_pixel_stored _ _ _ _ _ _ h]

/-- The rendering part of a tick, on the state `c` after the clock step,
stores at most the pixel `[scanline][cycle - 1]`, and only at a visible dot. -/
theorem nes_ppu_tick_body_stored (c : nes_t) :
    ppu_pixel_stored
      (if decide (BITGET c.ppu.mask NES_PPU_MASK_BG ≠ 0 ∨
          BITGET c.ppu.mask NES_PPU_MASK_SPR ≠ 0) = true then
        nes_ppu_tick_render c (decide (c.ppu.scanline = 261)) (decide (c.ppu.scanline < 240))
          (decide (c.ppu.scanline = 261) || decide (c.ppu.scanline < 240))
          (decide (c.ppu.cycle ≥ 1 ∧ c.ppu.cycle ≤ 256))
          (decide (c.ppu.cycle ≥ 321 ∧ c.ppu.cycle ≤ 336) ||
            decide (c.ppu.cycle ≥ 1 ∧ c.ppu.cycle ≤ 256))
      else if decide (c.ppu.scanline < 240) = true ∧
          decide (c.ppu.cycle ≥ 1 ∧ c.ppu.cycle ≤ 256) = true then
        nes_ppu_put_pixel c c.ppu.scanline (c.ppu.cycle - 1)
          (nes_ppu_get_color c (c.vmem.pal 0x00))
      else c) c := by
  have e : (decide (c.ppu.scanline < 240) = true ∧
      decide (c.ppu.cycle ≥ 1 ∧ c.ppu.cycle ≤ 256) = true) ↔
      (c.ppu.scanline < 240 ∧ (c.ppu.cycle ≥ 1 ∧ c.ppu.cycle ≤ 256)) := by
    rw [decide_eq_true_iff, decide_eq_true_iff]
  by_cases r : decide (BITGET c.ppu.mask NES_PPU_MASK_BG ≠ 0 ∨
      BITGET c.ppu.mask NES_PPU_MASK_SPR ≠ 0) = true
  · rw [if_pos r]
    have k := nes_ppu_tick_render_screen c (decide (c.ppu.scanline = 261))
      (decide (c.ppu.scanline < 240))
      (decide (c.ppu.scanline = 261) || decide (c.ppu.scanline < 240))
      (decide (c.ppu.cycle ≥ 1 ∧ c.ppu.cycle ≤ 256))
      (decide (c.ppu.cycle ≥ 321 ∧ c.ppu.cycle ≤ 336) ||
        decide (c.ppu.cycle ≥ 1 ∧ c.ppu.cycle ≤ 256))
    generalize nes_ppu_tick_render c (decide (c.ppu.scanline = 261))
      (decide (c.ppu.scanline < 240))
      (decide (c.ppu.scanline = 261) || decide (c.ppu.scanline < 240))
      (decide (c.ppu.cycle ≥ 1 ∧ c.ppu.cycle ≤ 256))
      (decide (c.ppu.cycle ≥ 321 ∧ c.ppu.cycle ≤ 336) ||
        decide (c.ppu.cycle ≥ 1 ∧ c.ppu.cycle ≤ 256)) = m at k ⊢
    by_cases v : c.ppu.scanline < 240 ∧ (c.ppu.cycle ≥ 1 ∧ c.ppu.cycle ≤ 256)
    · rw [if_pos (e.2 v)] at k
      obtain ⟨k1, k2, k3, k4⟩ := k
      have p := fun y x h => nes_ppu_render_pixel_stored c y x h
      refine ⟨k1.trans rfl, k2.trans rfl, k4.trans rfl, fun _ y x h => ?_,
        fun n => absurd v n⟩
      rw [k3]
      exact (p y x h).2.2.2
    · rw [if_neg (fun n => v (e.1 n))] at k
      exact ⟨k.1, k.2.1, k.2.2.2, fun n => absurd n v, fun _ => k.2.2.1⟩
  · rw [if_neg r]
    by_cases v : c.ppu.scanline < 240 ∧ (c.ppu.cycle ≥ 1 ∧ c.ppu.cycle ≤ 256)
    · rw [if_pos (e.2 v)]
      exact ⟨rfl, rfl, rfl, fun _ y x h => nes_ppu_put_pixel_stored c _ _ _ y x h,
        fun n => absurd v n⟩
    · rw [if_neg (fun n => v (e.1 n))]
      exact ⟨rfl, rfl, rfl, fun n => absurd n v, fun _ => rfl⟩

/-- One PPU tick is the clock step, then rendering work that stores at most
one pixel, then at cycle 1 the vblank bookkeeping. -/
theorem nes_ppu_tick_split_stored (s : nes_t) :
    ∃ m : nes_t, ppu_pixel_stored m (nes_ppu_clock s) ∧
      nes_ppu_tick s =
        if m.ppu.cycle = 1 then
          nes_ppu_tick_vblank m (decide ((nes_ppu_clock s).ppu.scanline = 261))
        else m :=
  ⟨_, nes_ppu_tick_body_stored (nes_ppu_clock s), rfl⟩

/-- The clock step keeps the two frame buffers and moves the dot position by
the counting step. -/
theorem nes_ppu_clock_screen (s : nes_t) :
    (nes_ppu_clock s).ppu.back = s.ppu.back ∧ (nes_ppu_clock s).ppu.front = s.ppu.front ∧
    ((0 ≤ s.ppu.cycle ∧ s.ppu.cycle ≤ 340) → (0 ≤ s.ppu.scanline ∧ s.ppu.scanline ≤ 261) →
      (0 ≤ (nes_ppu_clock s).ppu.cycle ∧ (nes_ppu_clock s).ppu.cycle ≤ 340) ∧
      (0 ≤ (nes_ppu_clock s).ppu.scanline ∧ (nes_ppu_clock s).ppu.scanline ≤ 261)) := by
  have hn := nes_ppu_clock_nmi_screen s
  show (nes_ppu_clock_count (nes_ppu_clock_nmi s).ppu).back = s.ppu.back ∧
    (nes_ppu_clock_count (nes_ppu_clock_nmi s).ppu).front = s.ppu.front ∧
    ((0 ≤ s.ppu.cycle ∧ s.ppu.cycle ≤ 340) → (0 ≤ s.ppu.scanline ∧ s.ppu.scanline ≤ 261) →
      (0 ≤ (nes_ppu_clock_count (nes_ppu_clock_nmi s).ppu).cycle ∧
        (nes_ppu_clock_count (nes_ppu_clock_nmi s).ppu).cycle ≤ 340) ∧
      (0 ≤ (nes_ppu_clock_count (nes_ppu_clock_nmi s).ppu).scanline ∧
        (nes_ppu_clock_count (nes_ppu_clock_nmi s).ppu).scanline ≤ 261))
  generalize nes_ppu_clock_nmi s = n at hn ⊢
  obtain ⟨h1, h2, h3, h4⟩ := hn
  have hb := nes_ppu_clock_count_buffers n.ppu
  refine ⟨hb.1.trans h3, hb.2.trans h4, fun hc hl => ?_⟩
  have d := nes_ppu_clock_count_dot n.ppu (by rw [h1]; exact hc) (by rw [h2]; exact hl)
  exact ⟨d.1, d.2.1⟩

/-- The vblank bookkeeping keeps the dot position, swaps the two frame buffers
at scanline 241 and keeps them elsewhere. -/
theorem nes_ppu_tick_vblank_screen (m : nes_t) (b : Bool) :
    (nes_ppu_tick_vblank m b).ppu.cycle = m.ppu.cycle ∧
    (nes_ppu_tick_vblank m b).ppu.scanline = m.ppu.scanline ∧
    (m.ppu.scanline = 241 → (nes_ppu_tick_vblank m b).ppu.back = m.ppu.front ∧
      (nes_ppu_tick_vblank m b).ppu.front = m.ppu.back) ∧
    (m.ppu.scanline ≠ 241 → (nes_ppu_tick_vblank m b).ppu.back = m.ppu.back ∧
      (nes_ppu_tick_vblank m b).ppu.front = m.ppu.front) := by
  have hp : ∀ t : nes_t, ppu_screen_kept (nes_ppu_tick_pre_line t) t := by
    intro t
    have h := nes_ppu_nmi_update_screen
      { t with ppu := { t.ppu with flags := BITCLR t.ppu.flags NES_PPU_FLAG_NMI } }
    unfold nes_ppu_tick_pre_line nes_ppu_clr_vblank
    dsimp only
    generalize nes_ppu_nmi_update
      { t with ppu := { t.ppu with flags := BITCLR t.ppu.flags NES_PPU_FLAG_NMI } } = u at h ⊢
    exact ⟨h.1, h.2.1, h.2.2.1, h.2.2.2⟩
  have hq : ∀ t : nes_t, ppu_screen_kept (if b = true then nes_ppu_tick_pre_line t else t) t :=
    fun t => ppu_screen_kept_ite nes_ppu_tick_pre_line hp _ t
  have hs : (nes_ppu_set_vblank m).ppu.cycle = m.ppu.cycle ∧
      (nes_ppu_set_vblank m).ppu.scanline = m.ppu.scanline ∧
      (nes_ppu_set_vblank m).ppu.back = m.ppu.front ∧
      (nes_ppu_set_vblank m).ppu.front = m.ppu.back := by
    have h := nes_ppu_nmi_update_screen
      { m with ppu := { m.ppu with
          back := m.ppu.front
          front := m.ppu.back
          flags := BITSET (BITSET m.ppu.flags NES_PPU_FLAG_NMI) NES_PPU_FLAG_RENDER } }
    exact ⟨h.1, h.2.1, h.2.2.1, h.2.2.2⟩
  unfold nes_ppu_tick_vblank
  dsimp only
  by_cases c : m.ppu.scanline = 241
  · rw [if_pos c]
    have k := hq (nes_ppu_set_vblank m)
    generalize (if b = true then nes_ppu_tick_pre_line (nes_ppu_set_vblank m)
      else nes_ppu_set_vblank m) = u at k ⊢
    exact ⟨k.1.trans hs.1, k.2.1.trans hs.2.1,
      fun _ => ⟨k.2.2.1.trans hs.2.2.1, k.2.2.2.trans hs.2.2.2⟩, fun n => absurd c n⟩
  · rw [if_neg c]
    have k := hq m
    generalize (if b = true then nes_ppu_tick_pre_line m else m) = u at k ⊢
    exact ⟨k.1, k.2.1, fun n => absurd n c, fun _ => ⟨k.2.2.1, k.2.2.2⟩⟩

/-- One PPU tick from a dot position inside the frame: the position stays
inside the frame, and the back buffer is changed at most in the element
`[scanline][cycle - 1]` of the position after the clock step, and only when
that is a visible dot; otherwise the back buffer is kept or, at the start of
vblank, exchanged with the front buffer. -/
theorem nes_ppu_tick_screen (s : nes_t) :
    ((0 ≤ s.ppu.cycle ∧ s.ppu.cycle ≤ 340) → (0 ≤ s.ppu.scanline ∧ s.ppu.scanline ≤ 261) →
      (0 ≤ (nes_ppu_tick s).ppu.cycle ∧ (nes_ppu_tick s).ppu.cycle ≤ 340) ∧
      (0 ≤ (nes_ppu_tick s).ppu.scanline ∧ (nes_ppu_tick s).ppu.scanline ≤ 261)) ∧
    (((nes_ppu_clock s).ppu.scanline < 240 ∧
        ((nes_ppu_clock s).ppu.cycle ≥ 1 ∧ (nes_ppu_clock s).ppu.cycle ≤ 256)) →
      ∀ y x : Nat, ¬ (y = Int.toNat (nes_ppu_clock s).ppu.scanline ∧
          x = Int.toNat ((nes_ppu_clock s).ppu.cycle - 1)) →
        (nes_ppu_tick s).ppu.back.data y x = s.ppu.back.data y x) ∧
    (¬ ((nes_ppu_clock s).ppu.scanline < 240 ∧
        ((nes_ppu_clock s).ppu.cycle ≥ 1 ∧ (nes_ppu_clock s).ppu.cycle ≤ 256)) →
      (nes_ppu_tick s).ppu.back = s.ppu.back ∨ (nes_ppu_tick s).ppu.back = s.ppu.front) := by
  obtain ⟨m, ⟨m1, m2, m3, m4, m5⟩, e⟩ := nes_ppu_tick_split_stored s
  obtain ⟨c1, c2, c3⟩ := nes_ppu_clock_screen s
  have v := nes_ppu_tick_vblank_screen m (decide ((nes_ppu_clock s).ppu.scanline = 261))
  rw [e]
  generalize nes_ppu_clock s = c at m1 m2 m3 m4 m5 c1 c2 c3 v ⊢
  generalize nes_ppu_tick_vblank m (decide (c.ppu.scanline = 261)) = w at v ⊢
  obtain ⟨v1, v2, v3, v4⟩ := v
  by_cases h1 : m.ppu.cycle = 1
  · rw [if_pos h1]
    refine ⟨fun hc hl => ?_, fun hv y x hn => ?_, fun hv => ?_⟩
    · have r := c3 hc hl
      rw [v1, v2, m1, m2]
      exact r
    · have n241 : m.ppu.scanline ≠ 241 := by
        rw [m2]
        omega
      rw [(v4 n241).1, m4 hv y x hn, c1]
    · by_cases k : m.ppu.scanline = 241
      · right
        rw [(v3 k).1, m3, c2]
      · left
        rw [(v4 k).1, m5 hv, c1]
  · rw [if_neg h1]
    refine ⟨fun hc hl => ?_, fun hv y x hn => ?_, fun hv => Or.inl ?_⟩
    · have r := c3 hc hl
      rw [m1, m2]
      exact r
    · rw [m4 hv y x hn, c1]
    · rw [m5 hv, c1]

/-- C35. In every PPU state reachable from `nes_ppu_init`,
`0 <= cycle <= 340` and `0 <= scanline <= 261`.  Hence the store
`back->data[y][x]` of the next `nes_ppu_tick`, made only when `scanline < 240`
and `1 <= cycle <= 256` after the clock step, with `y = scanline` and
`x = cycle - 1`, has `0 <= y < 240` and `0 <= x < 256`; the tick changes no
other element of the back buffer, and when it makes no store it keeps the back
buffer or exchanges it with the front buffer. -/
theorem ppu_position_in_frame (s : nes_t) (h : ppu_reachable s) :
    (0 ≤ s.ppu.cycle ∧ s.ppu.cycle ≤ 340) ∧ (0 ≤ s.ppu.scanline ∧ s.ppu.scanline ≤ 261) ∧
    (∀ y x : Int, nes_ppu_tick_store s = some (y, x) →
      (0 ≤ y ∧ y < 240 ∧ 0 ≤ x ∧ x < 256) ∧
      (∀ y' x' : Nat, ¬ (y' = Int.toNat y ∧ x' = Int.toNat x) →
        (nes_ppu_tick s).ppu.back.data y' x' = s.ppu.back.data y' x')) ∧
    (nes_ppu_tick_store s = none →
      (nes_ppu_tick s).ppu.back = s.ppu.back ∨ (nes_ppu_tick s).ppu.back = s.ppu.front) := by
  have inv : (0 ≤ s.ppu.cycle ∧ s.ppu.cycle ≤ 340) ∧
      (0 ≤ s.ppu.scanline ∧ s.ppu.scanline ≤ 261) := by
    induction h with
    | init s h0 =>
      rw [h0]
      show ((0 : Int) ≤ 340 ∧ (340 : Int) ≤ 340) ∧ ((0 : Int) ≤ 240 ∧ (240 : Int) ≤ 261)
      omega
    | reset s _ _ =>
      show ((0 : Int) ≤ 340 ∧ (340 : Int) ≤ 340) ∧ ((0 : Int) ≤ 240 ∧ (240 : Int) ≤ 261)
      omega
    | tick s _ ih => exact (nes_ppu_tick_screen s).1 ih.1 ih.2
    | read s r _ ih =>
      have k := nes_ppu_read_screen s r
      rw [k.1, k.2.1]
      exact ih
    | write s r v _ ih =>
      have k := nes_ppu_write_screen s r v
      rw [k.1, k.2.1]
      exact ih
    | oamdma s p _ ih =>
      have k := nes_ppu_oamdma_screen s p
      rw [k.1, k.2.1]
      exact ih
    | frame s _ ih => exact ih
    | other s t _ ht ih =>
      rw [ht]
      exact ih
  obtain ⟨t1, t2, t3⟩ := nes_ppu_tick_screen s
  have r := (nes_ppu_clock_screen s).2.2 inv.1 inv.2
  unfold nes_ppu_tick_store
  dsimp only
  generalize nes_ppu_clock s = c at t2 t3 r ⊢
  refine ⟨inv.1, inv.2, fun y x hs => ?_, fun hs => ?_⟩
  · by_cases v : c.ppu.scanline < 240 ∧ (c.ppu.cycle ≥ 1 ∧ c.ppu.cycle ≤ 256)
    · rw [if_pos v] at hs
      have e := Option.some.inj hs
      have ey : c.ppu.scanline = y := congrArg Prod.fst e
      have ex : c.ppu.cycle - 1 = x := congrArg Prod.snd e
      refine ⟨by omega, fun y' x' hn => ?_⟩
      rw [← ey, ← ex] at hn
      exact t2 v y' x' hn
    · rw [if_neg v] at hs
      exact absurd hs (by simp)
  · by_cases v : c.ppu.scanline < 240 ∧ (c.ppu.cycle ≥ 1 ∧ c.ppu.cycle ≤ 256)
    · rw [if_pos v] at hs
      exact absurd hs (by simp)
    · exact t3 v

/-- PPU ticks keep a state reachable. -/
theorem ppu_reachable_iterate (k : Nat) (s : nes_t) (h : ppu_reachable s) :
    ppu_reachable (nes_ppu_tick^[k] s) := by
  induction k generalizing s with
  | zero => exact h
  | succ k ih =>
    rw [Function.iterate_succ_apply]
    exact ih _ (ppu_reachable.tick s h)

/-- The dot after (0, 0) is (0, 1). -/
theorem ppu_dot_one (l c : Int) (hc : 0 ≤ c ∧ c ≤ 340) (h : l * 341 + c = 1) : l = 0 ∧ c = 1 := by
  omega

/-- The state 7162 ticks after power-on is at the dot (0, 0), and its next
tick stores the pixel `[0][0]`. -/
theorem nes_first_dot_example_store :
    nes_first_dot_example.ppu.scanline = 0 ∧ nes_first_dot_example.ppu.cycle = 0 ∧
    nes_ppu_tick_store nes_first_dot_example = some (0, 0) := by
  have hs : nes_power_on.cpu.s < 0x100 := by decide
  have hc : 0 ≤ nes_power_on.ppu.cycle ∧ nes_power_on.ppu.cycle ≤ 340 := by decide
  have hl : 0 ≤ nes_power_on.ppu.scanline ∧ nes_power_on.ppu.scanline ≤ 261 := by decide
  have hd : ppu_dot nes_power_on.ppu = 82180 := by decide
  obtain ⟨a1, a2, a3, a4, a5, _⟩ := nes_ppu_tick_iterate_norender 7161 nes_power_on hs hc hl
    (by decide) (by decide) (by rw [hd]; decide)
  have e : nes_first_dot_example = nes_ppu_tick (nes_ppu_tick^[7161] nes_power_on) := by
    unfold nes_first_dot_example
    rw [show (7162 : Nat) = 7161 + 1 from rfl, Function.iterate_succ_apply']
  rw [hd] at a5
  generalize nes_ppu_tick^[7161] nes_power_on = t at a1 a2 a3 a4 a5 e
  obtain ⟨⟨b1, b2, b3, _, _⟩, b4, _⟩ := nes_ppu_tick_dot t a1 a2 a3
  have b5 := b4 (Or.inl (by rw [a5]; decide))
  rw [← e] at b1 b2 b3 b5
  generalize nes_first_dot_example = w at b1 b2 b3 b5
  clear a1 a2 a3 a4 a5 b4 hd hs hc hl
  obtain ⟨⟨c1, c2, _⟩, _⟩ := nes_ppu_clock_timing w b1
  obtain ⟨d1, d2, _, d4⟩ := nes_ppu_clock_count_dot w.ppu b2 b3
  have d5 := (d4 (by
    unfold ppu_dot
    rw [b5.1, b5.2.1]
    rintro (h | h)
    · omega
    · omega)).1
  unfold ppu_dot at d5
  rw [b5.1, b5.2.1] at d5
  have b6 := b5.1
  have b7 := b5.2.1
  clear b5 e
  have d6 := ppu_dot_one _ _ d1 d5
  have k1 : (nes_ppu_clock w).ppu.scanline = 0 := c2.trans d6.1
  have k2 : (nes_ppu_clock w).ppu.cycle = 1 := c1.trans d6.2
  refine ⟨b7, b6, ?_⟩
  unfold nes_ppu_tick_store
  dsimp only
  rw [k1, k2]
  rfl

/-- Instance of C35 at a visible dot: 7162 ticks after power-on the PPU is at
(0, 0), the next tick stores the pixel `[0][0]`, inside the 240x256 buffer, and
changes no other element of the back buffer. -/
theorem ppu_position_in_frame_witness :
    ppu_reachable nes_first_dot_example ∧
    nes_first_dot_example.ppu.scanline = 0 ∧ nes_first_dot_example.ppu.cycle = 0 ∧
    nes_ppu_tick_store nes_first_dot_example = some (0, 0) ∧
    ((0 ≤ nes_first_dot_example.ppu.cycle ∧ nes_first_dot_example.ppu.cycle ≤ 340) ∧
      (0 ≤ nes_first_dot_example.ppu.scanline ∧ nes_first_dot_example.ppu.scanline ≤ 261)) ∧
    (((0 : Int) ≤ 0 ∧ (0 : Int) < 240 ∧ (0 : Int) ≤ 0 ∧ (0 : Int) < 256) ∧
      (∀ y' x' : Nat, ¬ (y' = Int.toNat 0 ∧ x' = Int.toNat 0) →
        (nes_ppu_tick nes_first_dot_example).ppu.back.data y' x' =
          nes_first_dot_example.ppu.back.data y' x')) :=
  ⟨ppu_reachable_iterate 7162 nes_power_on (ppu_reachable.init _ rfl),
    nes_first_dot_example_store.1, nes_first_dot_example_store.2.1,
    nes_first_dot_example_store.2.2,
    ⟨(ppu_position_in_frame nes_first_dot_example
        (ppu_reachable_iterate 7162 nes_power_on (ppu_reachable.init _ rfl))).1,
      (ppu_position_in_frame nes_first_dot_example
        (ppu_reachable_iterate 7162 nes_power_on (ppu_reachable.init _ rfl))).2.1⟩,
    (ppu_position_in_frame nes_first_dot_example
      (ppu_reachable_iterate 7162 nes_power_on (ppu_reachable.init _ rfl))).2.2.1 0 0
      nes_first_dot_example_store.2.2⟩

/-! ## nes_ppu_render_pixel: the stored pixel and the covering sprite -/

/-- One turn of the loop of `nes_ppu_get_spr_pixel`: an entry whose pixel at
the dot is transparent is passed over, the first opaque one is returned. -/
theorem nes_ppu_get_spr_pixel_loop_step (k i : Nat) (s : nes_t) :
    nes_ppu_get_spr_pixel_loop (k + 1) i s =
      if sprite_pixel_at s i &&& 0x03 = 0 then nes_ppu_get_spr_pixel_loop k (i + 1) s
      else (sprite_pixel_at s i, i % 0x100) := by
  unfold sprite_pixel_at
  rw [nes_ppu_get_spr_pixel_loop]
  dsimp only
  by_cases c : s.ppu.cycle - 1 - ((s.ppu.spr i).pos : Int) < 0 ∨
      s.ppu.cycle - 1 - ((s.ppu.spr i).pos : Int) > 7
  · rw [if_pos c, if_pos c, if_pos (by decide)]
  · rw [if_neg c, if_neg c]

/-- The loop of `nes_ppu_get_spr_pixel` finds nothing when every entry it
looks at is transparent at the dot. -/
theorem nes_ppu_get_spr_pixel_loop_none (k : Nat) : ∀ (i0 : Nat) (s : nes_t),
    (∀ j, i0 ≤ j → j < i0 + k → sprite_pixel_at s j &&& 0x03 = 0) →
    nes_ppu_get_spr_pixel_loop k i0 s = (0, 0) := by
  induction k with
  | zero =>
    intro i0 s _
    rfl
  | succ k ih =>
    intro i0 s h
    rw [nes_ppu_get_spr_pixel_loop_step, if_pos (h i0 (le_refl _) (by omega))]
    exact ih (i0 + 1) s (fun j h1 h2 => h j (by omega) (by omega))

/-- The loop of `nes_ppu_get_spr_pixel` returns the first entry whose pixel at
the dot is opaque. -/
theorem nes_ppu_get_spr_pixel_loop_first (k : Nat) : ∀ (i0 : Nat) (s : nes_t) (i : Nat),
    i0 ≤ i → i < i0 + k → sprite_pixel_at s i &&& 0x03 ≠ 0 →
    (∀ j, i0 ≤ j → j < i → sprite_pixel_at s j &&& 0x03 = 0) →
    nes_ppu_get_spr_pixel_loop k i0 s = (sprite_pixel_at s i, i % 0x100) := by
  induction k with
  | zero =>
    intro i0 s i h1 h2 _ _
    omega
  | succ k ih =>
    intro i0 s i h1 h2 h3 h4
    rw [nes_ppu_get_spr_pixel_loop_step]
    by_cases e : i = i0
    · rw [← e, if_neg h3]
    · rw [if_pos (h4 i0 (le_refl _) (by omega))]
      exact ih (i0 + 1) s i (by omega) (by omega) h3 (fun j h5 h6 => h4 j (by omega) h6)

/-- The element that `nes_ppu_put_pixel` stores. -/
theorem nes_ppu_put_pixel_value (t : nes_t) (y x : Int) (v : Nat) :
    (nes_ppu_put_pixel t y x v).ppu.back.data (Int.toNat y) (Int.toNat x) = v := by
  show arr_set t.ppu.back.data (Int.toNat y)
    (arr_set (t.ppu.back.data (Int.toNat y)) (Int.toNat x) v) (Int.toNat y) (Int.toNat x) = v
  rw [arr_set_same, arr_set_same]

/-- The background pixel is the nibble of the upper half of the tile shifter
that `fine_x` selects. -/
theorem nes_ppu_get_bg_pixel_eq (s : nes_t) :
    nes_ppu_get_bg_pixel s =
      if BITGET s.ppu.mask NES_PPU_MASK_BG = 0 then 0
      else ((s.ppu.tile.data >>> 32) >>> ((7 - s.ppu.fine_x) * 4)) % 16 := by
  unfold nes_ppu_get_bg_pixel
  dsimp only
  by_cases c : BITGET s.ppu.mask NES_PPU_MASK_BG = 0
  · rw [if_pos c, if_pos c]
  · rw [if_neg c, if_neg c]
    generalize (s.ppu.tile.data >>> 32) >>> ((7 - s.ppu.fine_x) * 4) = a
    have e1 : ∀ b : Nat, b &&& 0x0F = b % 16 := fun b => Nat.and_pow_two_sub_one_eq_mod b 4
    rw [e1]
    omega

/-- C32. At a visible dot (`0 <= scanline < 240`, `1 <= cycle <= 256`)
`nes_ppu_render_pixel` stores into `back->data[scanline][cycle - 1]`, an
element of the 240x256 buffer, the colour of the palette byte whose index is 0
when both the background and the sprite pixel are transparent (low 2 bits
zero), the background pixel when only it is opaque, the sprite pixel with
`0x10` when only the sprite is opaque, and when both are opaque the sprite
pixel with `0x10` if the priority of the covering sprite is 0 and the
background pixel otherwise; no other element of the back buffer changes.  The
background pixel is the nibble of the tile shifter selected by `fine_x`, or 0
when the background is disabled or hidden in the left eight columns.  The
sprite pixel is 0 when sprites are hidden in the left eight columns, and
otherwise the colour found by `nes_ppu_get_spr_pixel`: with sprites disabled,
or with every entry below `spr_count` transparent at the dot, it finds
`(0, 0)`; otherwise it finds the colour and the entry number of the first
entry whose pixel at the dot is opaque, the covering sprite.  The sprite-0 hit
flag (status bit 6) is set when both pixels are opaque, the OAM index of the
covering sprite is 0 and `x < 255`, and the status stays as it is otherwise;
nothing but the status and the back buffer changes. -/
theorem render_pixel_composition (s : nes_t)
    (hy : 0 ≤ s.ppu.scanline ∧ s.ppu.scanline < 240)
    (hx : 1 ≤ s.ppu.cycle ∧ s.ppu.cycle ≤ 256) :
    (Int.toNat s.ppu.scanline < 240 ∧ Int.toNat (s.ppu.cycle - 1) < 256 ∧
      (nes_ppu_render_pixel s).ppu.back.data (Int.toNat s.ppu.scanline)
          (Int.toNat (s.ppu.cycle - 1)) =
        nes_ppu_get_color s (s.vmem.pal
          (spec_pixel_palette_index (nes_ppu_render_pixel_bg s) (nes_ppu_render_pixel_spr s)
            (s.ppu.spr (nes_ppu_get_spr_pixel s).2).pri)) ∧
      ∀ y' x' : Nat, ¬ (y' = Int.toNat s.ppu.scanline ∧ x' = Int.toNat (s.ppu.cycle - 1)) →
        (nes_ppu_render_pixel s).ppu.back.data y' x' = s.ppu.back.data y' x') ∧
    (nes_ppu_render_pixel_bg s =
      if (s.ppu.cycle - 1 < 8 ∧ BITGET s.ppu.mask NES_PPU_MASK_LEFTBG = 0) ∨
          BITGET s.ppu.mask NES_PPU_MASK_BG = 0 then 0
      else ((s.ppu.tile.data >>> 32) >>> ((7 - s.ppu.fine_x) * 4)) % 16) ∧
    (nes_ppu_render_pixel_spr s =
      if s.ppu.cycle - 1 < 8 ∧ BITGET s.ppu.mask NES_PPU_MASK_LEFTSPR = 0 then 0
      else (nes_ppu_get_spr_pixel s).1) ∧
    ((BITGET s.ppu.mask NES_PPU_MASK_SPR = 0 ∨
        (∀ j, j < s.ppu.spr_count → sprite_pixel_at s j &&& 0x03 = 0)) →
      nes_ppu_get_spr_pixel s = (0, 0)) ∧
    (∀ i, BITGET s.ppu.mask NES_PPU_MASK_SPR ≠ 0 → i < s.ppu.spr_count →
      sprite_pixel_at s i &&& 0x03 ≠ 0 →
      (∀ j, j < i → sprite_pixel_at s j &&& 0x03 = 0) →
      nes_ppu_get_spr_pixel s = (sprite_pixel_at s i, i % 0x100)) ∧
    ((nes_ppu_render_pixel_bg s &&& 0x03 ≠ 0 ∧ nes_ppu_render_pixel_spr s &&& 0x03 ≠ 0 ∧
        (s.ppu.spr (nes_ppu_get_spr_pixel s).2).idx = 0 ∧ s.ppu.cycle - 1 < 255) →
      (nes_ppu_render_pixel s).ppu.status =
        BITSET s.ppu.status NES_PPU_STATUS_SPRITE0 % 0x100 ∧
      (nes_ppu_render_pixel s).ppu.status &&& 0x40 = 0x40) ∧
    (¬ (nes_ppu_render_pixel_bg s &&& 0x03 ≠ 0 ∧ nes_ppu_render_pixel_spr s &&& 0x03 ≠ 0 ∧
        (s.ppu.spr (nes_ppu_get_spr_pixel s).2).idx = 0 ∧ s.ppu.cycle - 1 < 255) →
      (nes_ppu_render_pixel s).ppu.status = s.ppu.status) ∧
    { nes_ppu_render_pixel s with ppu := { (nes_ppu_render_pixel s).ppu with
        status := s.ppu.status, back := s.ppu.back } } = s ∧
    nes_ppu_render_pixel_bg s ≤ 15 ∧ nes_ppu_render_pixel_spr s ≤ 15 ∧
    spec_pixel_palette_index (nes_ppu_render_pixel_bg s) (nes_ppu_render_pixel_spr s)
      (s.ppu.spr (nes_ppu_get_spr_pixel s).2).pri < 32 := by
  have hb := nes_ppu_render_pixel_bg_le s
  have hp := nes_ppu_render_pixel_spr_le s
  have key : nes_ppu_render_pixel s =
      nes_ppu_put_pixel
        { s with ppu := { s.ppu with status :=
            (if nes_ppu_render_pixel_bg s &&& 0x03 ≠ 0 ∧ nes_ppu_render_pixel_spr s &&& 0x03 ≠ 0 ∧
                (s.ppu.spr (nes_ppu_get_spr_pixel s).2).idx = 0 ∧ s.ppu.cycle - 1 < 255
            then BITSET s.ppu.status NES_PPU_STATUS_SPRITE0 % 0x100 else s.ppu.status) } }
        s.ppu.scanline (s.ppu.cycle - 1)
        (nes_ppu_get_color s (s.vmem.pal
          (if nes_ppu_render_pixel_bg s &&& 0x03 ≠ 0 ∧ nes_ppu_render_pixel_spr s &&& 0x03 = 0
            then nes_ppu_render_pixel_bg s
          else if nes_ppu_render_pixel_bg s &&& 0x03 = 0 ∧
              nes_ppu_render_pixel_spr s &&& 0x03 ≠ 0
            then (nes_ppu_render_pixel_spr s ||| 0x10) % 0x100
          else if nes_ppu_render_pixel_bg s &&& 0x03 ≠ 0 ∧
              nes_ppu_render_pixel_spr s &&& 0x03 ≠ 0 then
            (if (s.ppu.spr (nes_ppu_get_spr_pixel s).2).pri = 0
              then (nes_ppu_render_pixel_spr s ||| 0x10) % 0x100
              else nes_ppu_render_pixel_bg s)
          else 0x00))) := rfl
  rw [nes_ppu_render_pixel_col_eq _ _ _ hp] at key
  refine ⟨⟨by omega, by omega, ?_, fun y' x' h => (nes_ppu_render_pixel_stored s y' x' h).2.2.2⟩,
    ?_, rfl, ?_, ?_, fun c => ?_, fun c => ?_, rfl, hb, hp, ?_⟩
  · rw [key]
    exact nes_ppu_put_pixel_value _ _ _ _
  · unfold nes_ppu_render_pixel_bg
    rw [nes_ppu_get_bg_pixel_eq]
    by_cases c : s.ppu.cycle - 1 < 8 ∧ BITGET s.ppu.mask NES_PPU_MASK_LEFTBG = 0
    · rw [if_pos c, if_pos (Or.inl c)]
    · rw [if_neg c]
      by_cases d : BITGET s.ppu.mask NES_PPU_MASK_BG = 0
      · rw [if_pos d, if_pos (Or.inr d)]
      · rw [if_neg d, if_neg (fun o => o.elim c d)]
  · intro o
    unfold nes_ppu_get_spr_pixel
    by_cases d : BITGET s.ppu.mask NES_PPU_MASK_SPR = 0
    · rw [if_pos d]
    · rw [if_neg d]
      exact nes_ppu_get_spr_pixel_loop_none _ 0 s
        (fun j _ h2 => (o.resolve_left d) j (by omega))
  · intro i d h1 h2 h3
    unfold nes_ppu_get_spr_pixel
    rw [if_neg d]
    exact nes_ppu_get_spr_pixel_loop_first _ 0 s i (Nat.zero_le _) (by omega) h2
      (fun j _ h5 => h3 j h5)
  · have e : (nes_ppu_render_pixel s).ppu.status =
        BITSET s.ppu.status NES_PPU_STATUS_SPRITE0 % 0x100 := by
      rw [key]
      show (if _ then _ else _) = _
      rw [if_pos c]
    refine ⟨e, ?_⟩
    rw [e]
    exact bitmset_mod_and_self s.ppu.status 0x40 (by decide)
  · rw [key]
    show (if _ then _ else _) = _
    rw [if_neg c]
  · generalize nes_ppu_render_pixel_bg s = b at hb
    generalize nes_ppu_render_pixel_spr s = p at hp
    have o : p ||| 0x10 < 32 := Nat.or_lt_two_pow (n := 5) (by omega) (by decide)
    unfold spec_pixel_palette_index
    split_ifs <;> omega

/-- Instances of C32 at the dot `x = 10` of scanline 5.  In the first state the
background pixel is 5, entry 0 is transparent at the dot (pixel 4), entry 1 is
the first opaque one (pixel `$B`, priority 0, OAM index 5): the palette index
is `$1B`, the stored colour is `nes_palette[$1B]` and the status stays 0.  In
the second state the only entry is OAM sprite 0 with the opaque pixel 7 behind
the background: the palette index is the background pixel 5, the stored colour
is `nes_palette[5]` and the sprite-0 hit flag is set. -/
theorem render_pixel_composition_witness :
    ((0 ≤ nes_pixel_example.ppu.scanline ∧ nes_pixel_example.ppu.scanline < 240) ∧
      (1 ≤ nes_pixel_example.ppu.cycle ∧ nes_pixel_example.ppu.cycle ≤ 256) ∧
      nes_ppu_render_pixel_bg nes_pixel_example = 5 ∧
      sprite_pixel_at nes_pixel_example 0 = 4 ∧
      nes_ppu_get_spr_pixel nes_pixel_example = (0xB, 1) ∧
      nes_pixel_example.ppu.back.data 5 10 = 0 ∧
      (nes_ppu_render_pixel nes_pixel_example).ppu.back.data 5 10 = 0xFF008F32 ∧
      nes_palette 0x1B = 0xFF008F32 ∧
      (nes_ppu_render_pixel nes_pixel_example).ppu.status = 0) ∧
    ((0 ≤ nes_pixel_behind_example.ppu.scanline ∧
        nes_pixel_behind_example.ppu.scanline < 240) ∧
      (1 ≤ nes_pixel_behind_example.ppu.cycle ∧ nes_pixel_behind_example.ppu.cycle ≤ 256) ∧
      nes_ppu_render_pixel_bg nes_pixel_behind_example = 5 ∧
      nes_ppu_get_spr_pixel nes_pixel_behind_example = (7, 0) ∧
      (nes_ppu_render_pixel nes_pixel_behind_example).ppu.back.data 5 10 = 0xFF6E0040 ∧
      nes_palette 5 = 0xFF6E0040 ∧
      (nes_ppu_render_pixel nes_pixel_behind_example).ppu.status = 0x40) :=
  ⟨⟨by decide, by decide, by decide, by decide,
      ((render_pixel_composition nes_pixel_example (by decide) (by decide)).2.2.2.2.1 1
        (by decide) (by decide) (by decide) (by decide)).trans (by decide),
      by decide,
      (render_pixel_composition nes_pixel_example (by decide) (by decide)).1.2.2.1.trans
        (by decide),
      by decide,
      ((render_pixel_composition nes_pixel_example (by decide) (by decide)).2.2.2.2.2.2.1
        (by decide)).trans (by decide)⟩,
    ⟨by decide, by decide, by decide,
      ((render_pixel_composition nes_pixel_behind_example (by decide) (by decide)).2.2.2.2.1 0
        (by decide) (by decide) (by decide) (by decide)).trans (by decide),
      (render_pixel_composition nes_pixel_behind_example (by decide)
        (by decide)).1.2.2.1.trans (by decide),
      by decide,
      ((render_pixel_composition nes_pixel_behind_example (by decide)
        (by decide)).2.2.2.2.2.1 (by decide)).1.trans (by decide)⟩⟩

end Dendulator
